import Mathlib

/-!
The UVM address space: device registration, peer topology, device VA contexts.

A shallow embedding of `nvidia-uvm/uvm8_va_space.c`.  Every function of that file that
changes the address space is a Lean function from the state before to the state after
(with the status it returns); `UVM_ASSERT` is a debug check and changes no control flow.
A pointer to a device is the id of the device, a pointer to a device VA context is its
address in the memory kept with the address space.

The headers of the driver are not among the source files, so the primitives they declare
(processor masks, bitmaps, the peer table index, the link type enumeration, the sizes of
the arrays) are modelled and marked as such.  What other files of the driver decide
(whether a memory range hook succeeds, what the resource manager answers) is an input of
the function that asks.

The second source file, `drivers/async.c`, is a scheduler of init calls; its three functions
`Prepare`, `TaskDone` and `WorkingThread` are embedded at the end of the definitions, with a
result that tells a return from an access outside an array and from a loop that does not
end.

The file has two parts: the definitions (the embedding, the reachable states, the
invariants, a small sample system), then the lemmas and the theorems of the claims.
-/

namespace UvmVaSpace

/-! ## Status codes -/

/-- The status codes the file returns; `NV_ERR_GENERIC` stands for any other failure an
external call may report. -/
inductive NV_STATUS where
  | NV_OK
  | NV_ERR_INVALID_DEVICE
  | NV_ERR_PAGE_TABLE_NOT_AVAIL
  | NV_ERR_NO_MEMORY
  | NV_ERR_INVALID_FLAGS
  | NV_ERR_NOT_COMPATIBLE
  | NV_ERR_NOT_SUPPORTED
  | NV_ERR_GPU_UUID_NOT_FOUND
  | NV_ERR_INVALID_ARGUMENT
  | NV_ERR_GENERIC
  deriving DecidableEq, Repr

open NV_STATUS

/-! ## Processor ids, processor masks and bitmaps (modelled header primitives) -/

/-- Modelled from the spec: the host processor has the fixed id 0 (`UVM_CPU_ID`, declared in
a header that is not among the source files). -/
abbrev UVM_CPU_ID : Nat := 0

/-- Modelled from the spec: the compile-time bound on processor ids (`UVM_MAX_PROCESSORS`,
declared in a header that is not among the source files).  Devices have the ids
`1 .. UVM_MAX_PROCESSORS - 1`.  No proof below depends on the number chosen. -/
def UVM_MAX_PROCESSORS : Nat := 33

/-- Modelled from the spec: the number of device ids (`UVM_MAX_GPUS`). -/
def UVM_MAX_GPUS : Nat := UVM_MAX_PROCESSORS - 1

/-- Modelled from the spec: a processor mask is a fixed-size bitset over processor ids
(`uvm_processor_mask_t`); bit `i` of the mask is the value of the function at `i`. -/
abbrev uvm_processor_mask_t := Nat → Bool

/-- Modelled from the spec: `uvm_processor_mask_test(mask, id)`. -/
def uvm_processor_mask_test (mask : uvm_processor_mask_t) (id : Nat) : Bool := mask id

/-- Modelled from the spec: `uvm_processor_mask_set(mask, id)`. -/
def uvm_processor_mask_set (mask : uvm_processor_mask_t) (id : Nat) : uvm_processor_mask_t :=
  fun i => if i = id then true else mask i

/-- Modelled from the spec: `uvm_processor_mask_clear(mask, id)`. -/
def uvm_processor_mask_clear (mask : uvm_processor_mask_t) (id : Nat) : uvm_processor_mask_t :=
  fun i => if i = id then false else mask i

/-- Modelled from the spec: `uvm_processor_mask_zero(mask)`. -/
def uvm_processor_mask_zero : uvm_processor_mask_t := fun _ => false

/-- Modelled from the spec: `uvm_processor_mask_empty(mask)`, no bit below the bound set. -/
def uvm_processor_mask_empty (mask : uvm_processor_mask_t) : Bool :=
  (List.range UVM_MAX_PROCESSORS).all fun i => !mask i

/-- Modelled from the spec: the ids `for_each_gpu_in_mask` and `for_each_gpu_id_in_mask`
visit, the device ids (above the host id, below the bound) whose bit is set, ascending. -/
def for_each_gpu_id_in_mask (mask : uvm_processor_mask_t) : List Nat :=
  (List.range UVM_MAX_PROCESSORS).filter fun i => decide (UVM_CPU_ID < i) && mask i

/-- The statement `uvm_processor_mask_set(&arr[row], col)` on an array of masks. -/
def mask_array_set (arr : Nat → uvm_processor_mask_t) (row col : Nat) :
    Nat → uvm_processor_mask_t :=
  fun r => if r = row then uvm_processor_mask_set (arr r) col else arr r

/-- The statement `uvm_processor_mask_clear(&arr[row], col)` on an array of masks. -/
def mask_array_clear (arr : Nat → uvm_processor_mask_t) (row col : Nat) :
    Nat → uvm_processor_mask_t :=
  fun r => if r = row then uvm_processor_mask_clear (arr r) col else arr r

/-- Modelled from the spec: a kernel bitmap, here the bitset over unordered device pairs. -/
abbrev bitmap_t := Nat → Bool

/-- Modelled from the spec: `test_bit(nr, bitmap)`. -/
def test_bit (nr : Nat) (bitmap : bitmap_t) : Bool := bitmap nr

/-- Modelled from the spec: `__set_bit(nr, bitmap)`. -/
def __set_bit (nr : Nat) (bitmap : bitmap_t) : bitmap_t :=
  fun i => if i = nr then true else bitmap i

/-- Modelled from the spec: `__clear_bit(nr, bitmap)`. -/
def __clear_bit (nr : Nat) (bitmap : bitmap_t) : bitmap_t :=
  fun i => if i = nr then false else bitmap i

/-- Modelled from the spec: `bitmap_zero(bitmap, nbits)`. -/
def bitmap_zero : bitmap_t := fun _ => false

/-- Modelled from the spec: `bitmap_empty(bitmap, nbits)`. -/
def bitmap_empty (bitmap : bitmap_t) (nbits : Nat) : Bool :=
  (List.range nbits).all fun i => !bitmap i

/-- Modelled from the spec: `uvm_gpu_index(id)`, the position of a device id among the
device ids (the host id 0 is not a device). -/
def uvm_gpu_index (id : Nat) : Nat := id - 1

/-- Modelled from the spec: `SUM_FROM_0_TO_N`, here the number of unordered pairs of
indices below `n`. -/
def SUM_FROM_0_TO_N (n : Nat) : Nat := n * (n - 1) / 2

/-- Modelled from the spec: the number of unordered device pairs
(`UVM_MAX_UNIQUE_GPU_PAIRS`). -/
def UVM_MAX_UNIQUE_GPU_PAIRS : Nat := SUM_FROM_0_TO_N UVM_MAX_GPUS

/-- Modelled from the spec: `uvm_gpu_peer_table_index(id_1, id_2)` is defined in another
file of the driver; the spec keys the peer table and `enabled_peers` by the unordered
device pair.  The pairs are numbered in the triangular order of their device indices, so
the index does not depend on the order of the two ids and differs for different pairs. -/
def uvm_gpu_peer_table_index (gpu_id_1 gpu_id_2 : Nat) : Nat :=
  let index_1 := uvm_gpu_index gpu_id_1
  let index_2 := uvm_gpu_index gpu_id_2
  if index_1 < index_2 then SUM_FROM_0_TO_N index_2 + index_1
  else SUM_FROM_0_TO_N index_1 + index_2

/-! ## Devices and the global tables -/

/-- Modelled from the spec: the interconnect classes (`uvm_gpu_link_type_t`), ordered as
the comparisons of the source need: no link, PCIe, first and second NVLink generation. -/
abbrev UVM_GPU_LINK_INVALID : Nat := 0

/-- Modelled from the spec: the PCIe link class. -/
abbrev UVM_GPU_LINK_PCIE : Nat := 1

/-- Modelled from the spec: the first direct-link class. -/
abbrev UVM_GPU_LINK_NVLINK_1 : Nat := 2

/-- Modelled from the spec: the second direct-link class. -/
abbrev UVM_GPU_LINK_NVLINK_2 : Nat := 3

/-- The fields of `uvm_gpu_t` the file reads.  The id of a device is its position in the
global table, so a pointer to a device is modelled by the id. -/
structure uvm_gpu_t where
  /-- The field `uuid`. -/
  uuid : Nat
  /-- The field `sysmem_link`, the link class between the device and host memory. -/
  sysmem_link : Nat
  /-- The field `isr.replayable_faults.handling`. -/
  replayable_faults_handling : Bool
  /-- The field `replayable_faults_supported`. -/
  replayable_faults_supported : Bool
  /-- The field `numa_info.enabled`. -/
  numa_info_enabled : Bool
  /-- The field `numa_info.node_id`. -/
  numa_info_node_id : Int
  /-- The field `closest_cpu_numa_node`. -/
  closest_cpu_numa_node : Int
  /-- The field `peer_identity_mappings_supported`. -/
  peer_identity_mappings_supported : Bool

/-- The fields of `uvm_gpu_peer_t`, one entry of the global peer table. -/
structure uvm_gpu_peer_t where
  /-- The field `link_type`. -/
  link_type : Nat
  /-- The field `is_indirect_peer`. -/
  is_indirect_peer : Bool

/-- The part of `g_uvm_global` the file reads. -/
structure uvm_global_t where
  /-- The device table behind `uvm_gpu_get(id)`. -/
  gpus : Nat → uvm_gpu_t
  /-- The table `g_uvm_global.peers`, indexed by `uvm_gpu_peer_table_index`. -/
  peers : Nat → uvm_gpu_peer_t
  /-- The flag `g_uvm_global.ats.enabled`. -/
  ats_enabled : Bool

/-- Modelled from the spec: `uvm_gpu_peer_caps(gpu_1, gpu_2)`, the peer table entry of the
pair. -/
def uvm_gpu_peer_caps (g : uvm_global_t) (gpu_1 gpu_2 : Nat) : uvm_gpu_peer_t :=
  g.peers (uvm_gpu_peer_table_index gpu_1 gpu_2)

/-- Modelled from the spec: `uvm_gpu_retain_by_uuid(uuid, &gpu)` is defined in another file
of the driver; it looks the uuid up among the devices and fails when there is none.  The
device it returns has an id above the host id and below the bound. -/
def uvm_gpu_retain_by_uuid (g : uvm_global_t) (gpu_uuid : Nat) : NV_STATUS × Nat :=
  match ((List.range UVM_MAX_PROCESSORS).filter fun i => decide (UVM_CPU_ID < i)).find?
      fun i => (g.gpus i).uuid == gpu_uuid with
  | some id => (NV_OK, id)
  | none => (NV_ERR_GPU_UUID_NOT_FOUND, 0)

/-! ## Objects of the address space -/

/-- The tag and the owner of a `uvm_deferred_free_object_t`. -/
inductive uvm_deferred_free_object_t where
  /-- A user channel (`UVM_DEFERRED_FREE_OBJECT_TYPE_CHANNEL`). -/
  | channel (user_channel : Nat)
  /-- A device VA context (`UVM_DEFERRED_FREE_OBJECT_GPU_VA_SPACE`), by its address. -/
  | gpu_va_space (ptr : Nat)
  /-- An external mapping (`UVM_DEFERRED_FREE_OBJECT_TYPE_EXTERNAL_ALLOCATION`). -/
  | external_allocation (ext_gpu_map : Nat)
  deriving DecidableEq, Repr

/-- The lifecycle states of a device VA context (`uvm_gpu_va_space_state_t`). -/
inductive uvm_gpu_va_space_state_t where
  | UVM_GPU_VA_SPACE_STATE_INIT
  | UVM_GPU_VA_SPACE_STATE_ACTIVE
  | UVM_GPU_VA_SPACE_STATE_DEAD
  deriving DecidableEq, Repr

open uvm_gpu_va_space_state_t

/-- The fields of `uvm_gpu_va_space_t` the file reads and writes. -/
structure uvm_gpu_va_space_t where
  /-- The field `gpu`, by id. -/
  gpu : Nat
  /-- Whether the back pointer `va_space` is set. -/
  va_space : Bool
  /-- The field `state`. -/
  state : uvm_gpu_va_space_state_t
  /-- The field `page_tables.big_page_size`. -/
  big_page_size : Nat
  /-- Whether `page_tables.root` is set. -/
  page_tables_root : Bool
  /-- The field `ats.enabled`. -/
  ats_enabled : Bool
  /-- Whether `ats.ats_mm` is set. -/
  ats_mm : Bool
  /-- Whether `duped_gpu_va_space` is a live handle. -/
  duped_gpu_va_space : Bool
  /-- The field `did_set_page_directory`. -/
  did_set_page_directory : Bool
  /-- The list `registered_channels`. -/
  registered_channels : List Nat
  /-- The field `disallow_new_channels`. -/
  disallow_new_channels : Bool
  /-- The reference count `kref`. -/
  kref : Int
  /-- How often `nvUvmInterfaceUnsetPageDirectory` was called on the object. -/
  unset_page_directory_calls : Nat
  /-- How often `uvm_page_tree_deinit` was called on the object. -/
  page_tree_deinit_calls : Nat
  /-- How often `nvUvmInterfaceAddressSpaceDestroy` was called on the object. -/
  address_space_destroy_calls : Nat
  /-- Whether `free_gpu_va_space` has run on the object. -/
  freed : Bool

/-- What the hooks of one memory range answer.  The ranges belong to another file of the
driver; only what the address space sees of them is kept. -/
structure uvm_va_range_t where
  /-- The status of `uvm_va_range_enable_peer(va_range, gpu_1, gpu_2)`. -/
  enable_peer : Nat → Nat → NV_STATUS
  /-- The external mappings `uvm_va_range_disable_peer` puts on the deferred free list. -/
  disable_peer : Nat → Nat → List Nat
  /-- The external mappings `uvm_va_range_unregister_gpu` puts on the deferred free list. -/
  unregister_gpu : Nat → List Nat
  /-- The status of `uvm_va_range_add_gpu_va_space(va_range, gpu_va_space)`, by device. -/
  add_gpu_va_space : Nat → NV_STATUS
  /-- The external mappings `uvm_va_range_remove_gpu_va_space` puts on the deferred free
  list. -/
  remove_gpu_va_space : Nat → List Nat
  /-- The external mappings `uvm_va_range_destroy` puts on the deferred free list. -/
  destroy : List Nat

/-- One entry of the array `cpu_gpu_numa_affinity`. -/
structure uvm_cpu_gpu_affinity_t where
  /-- The field `numa_node`. -/
  numa_node : Int
  /-- The field `gpus`. -/
  gpus : uvm_processor_mask_t

/-- The fields of `uvm_va_space_t` the file reads and writes, the memory ranges of the
address space, and the device VA contexts allocated for it (by address). -/
structure uvm_va_space_t where
  registered_gpus : uvm_processor_mask_t
  registered_gpu_va_spaces : uvm_processor_mask_t
  gpu_unregister_in_progress : uvm_processor_mask_t
  can_access : Nat → uvm_processor_mask_t
  accessible_from : Nat → uvm_processor_mask_t
  can_copy_from : Nat → uvm_processor_mask_t
  has_nvlink : Nat → uvm_processor_mask_t
  indirect_peers : Nat → uvm_processor_mask_t
  has_native_atomics : Nat → uvm_processor_mask_t
  system_wide_atomics_enabled_processors : uvm_processor_mask_t
  faultable_processors : uvm_processor_mask_t
  enabled_peers : bitmap_t
  enabled_peers_teardown : bitmap_t
  cpu_gpu_numa_affinity : List uvm_cpu_gpu_affinity_t
  /-- The array `gpu_va_spaces`, indexed by `uvm_gpu_index`; `none` is the null pointer. -/
  gpu_va_spaces : Nat → Option Nat
  disallow_new_registers : Bool
  user_channels_stopped : Bool
  /-- The counter `gpu_va_space_deferred_free.num_pending`. -/
  num_pending : Int
  /-- How often `gpu_va_space_deferred_free.wait_queue` was woken. -/
  wait_queue_wakeups : Nat
  /-- The memory ranges of the address space, in the order of the range tree. -/
  va_ranges : List uvm_va_range_t
  /-- The device VA contexts allocated so far, by address. -/
  gpu_va_space_mem : Nat → uvm_gpu_va_space_t
  /-- The address the next allocated device VA context gets. -/
  gpu_va_space_next : Nat

/-- Modelled from the spec: `uvm_gpu_va_space_state(gpu_va_space)`. -/
def uvm_gpu_va_space_state (va_space : uvm_va_space_t) (gpu_va_space : Nat) :
    uvm_gpu_va_space_state_t :=
  (va_space.gpu_va_space_mem gpu_va_space).state

/-- Modelled from the spec: `uvm_gpu_va_space_get(va_space, gpu)`, the context registered
for the device, null when the device has none. -/
def uvm_gpu_va_space_get (va_space : uvm_va_space_t) (gpu : Nat) : Option Nat :=
  if !uvm_processor_mask_test va_space.registered_gpu_va_spaces gpu then none
  else va_space.gpu_va_spaces (uvm_gpu_index gpu)

/-! ## The statements that set or clear one bit of the address space -/

/-- The statement `uvm_processor_mask_set(&va_space->can_access[row], col)`. -/
def can_access_set (va_space : uvm_va_space_t) (row col : Nat) : uvm_va_space_t :=
  { va_space with can_access := mask_array_set va_space.can_access row col }

/-- The statement `uvm_processor_mask_clear(&va_space->can_access[row], col)`. -/
def can_access_clear (va_space : uvm_va_space_t) (row col : Nat) : uvm_va_space_t :=
  { va_space with can_access := mask_array_clear va_space.can_access row col }

/-- The statement `uvm_processor_mask_set(&va_space->accessible_from[row], col)`. -/
def accessible_from_set (va_space : uvm_va_space_t) (row col : Nat) : uvm_va_space_t :=
  { va_space with accessible_from := mask_array_set va_space.accessible_from row col }

/-- The statement `uvm_processor_mask_clear(&va_space->accessible_from[row], col)`. -/
def accessible_from_clear (va_space : uvm_va_space_t) (row col : Nat) : uvm_va_space_t :=
  { va_space with accessible_from := mask_array_clear va_space.accessible_from row col }

/-- The statement `uvm_processor_mask_set(&va_space->can_copy_from[row], col)`. -/
def can_copy_from_set (va_space : uvm_va_space_t) (row col : Nat) : uvm_va_space_t :=
  { va_space with can_copy_from := mask_array_set va_space.can_copy_from row col }

/-- The statement `uvm_processor_mask_clear(&va_space->can_copy_from[row], col)`. -/
def can_copy_from_clear (va_space : uvm_va_space_t) (row col : Nat) : uvm_va_space_t :=
  { va_space with can_copy_from := mask_array_clear va_space.can_copy_from row col }

/-- The statement `uvm_processor_mask_set(&va_space->has_nvlink[row], col)`. -/
def has_nvlink_set (va_space : uvm_va_space_t) (row col : Nat) : uvm_va_space_t :=
  { va_space with has_nvlink := mask_array_set va_space.has_nvlink row col }

/-- The statement `uvm_processor_mask_clear(&va_space->has_nvlink[row], col)`. -/
def has_nvlink_clear (va_space : uvm_va_space_t) (row col : Nat) : uvm_va_space_t :=
  { va_space with has_nvlink := mask_array_clear va_space.has_nvlink row col }

/-- The statement `uvm_processor_mask_set(&va_space->indirect_peers[row], col)`. -/
def indirect_peers_set (va_space : uvm_va_space_t) (row col : Nat) : uvm_va_space_t :=
  { va_space with indirect_peers := mask_array_set va_space.indirect_peers row col }

/-- The statement `uvm_processor_mask_clear(&va_space->indirect_peers[row], col)`. -/
def indirect_peers_clear (va_space : uvm_va_space_t) (row col : Nat) : uvm_va_space_t :=
  { va_space with indirect_peers := mask_array_clear va_space.indirect_peers row col }

/-- The statement `uvm_processor_mask_set(&va_space->has_native_atomics[row], col)`. -/
def has_native_atomics_set (va_space : uvm_va_space_t) (row col : Nat) : uvm_va_space_t :=
  { va_space with has_native_atomics := mask_array_set va_space.has_native_atomics row col }

/-- The statement `uvm_processor_mask_clear(&va_space->has_native_atomics[row], col)`. -/
def has_native_atomics_clear (va_space : uvm_va_space_t) (row col : Nat) : uvm_va_space_t :=
  { va_space with has_native_atomics := mask_array_clear va_space.has_native_atomics row col }

/-- The statement `uvm_processor_mask_set(&va_space->registered_gpus, id)`. -/
def registered_gpus_set (va_space : uvm_va_space_t) (id : Nat) : uvm_va_space_t :=
  { va_space with registered_gpus := uvm_processor_mask_set va_space.registered_gpus id }

/-- The statement `uvm_processor_mask_clear(&va_space->registered_gpus, id)`. -/
def registered_gpus_clear (va_space : uvm_va_space_t) (id : Nat) : uvm_va_space_t :=
  { va_space with registered_gpus := uvm_processor_mask_clear va_space.registered_gpus id }

/-- The statement `uvm_processor_mask_set(&va_space->registered_gpu_va_spaces, id)`. -/
def registered_gpu_va_spaces_set (va_space : uvm_va_space_t) (id : Nat) : uvm_va_space_t :=
  { va_space with
    registered_gpu_va_spaces :=
      uvm_processor_mask_set va_space.registered_gpu_va_spaces id }

/-- The statement `uvm_processor_mask_clear(&va_space->registered_gpu_va_spaces, id)`. -/
def registered_gpu_va_spaces_clear (va_space : uvm_va_space_t) (id : Nat) : uvm_va_space_t :=
  { va_space with
    registered_gpu_va_spaces :=
      uvm_processor_mask_clear va_space.registered_gpu_va_spaces id }

/-- The statement `uvm_processor_mask_set(&va_space->gpu_unregister_in_progress, id)`. -/
def gpu_unregister_in_progress_set (va_space : uvm_va_space_t) (id : Nat) : uvm_va_space_t :=
  { va_space with
    gpu_unregister_in_progress :=
      uvm_processor_mask_set va_space.gpu_unregister_in_progress id }

/-- The statement `uvm_processor_mask_clear(&va_space->gpu_unregister_in_progress, id)`. -/
def gpu_unregister_in_progress_clear (va_space : uvm_va_space_t) (id : Nat) : uvm_va_space_t :=
  { va_space with
    gpu_unregister_in_progress :=
      uvm_processor_mask_clear va_space.gpu_unregister_in_progress id }

/-- The statement
`uvm_processor_mask_set(&va_space->system_wide_atomics_enabled_processors, id)`. -/
def system_wide_atomics_enabled_processors_set (va_space : uvm_va_space_t) (id : Nat) :
    uvm_va_space_t :=
  { va_space with
    system_wide_atomics_enabled_processors :=
      uvm_processor_mask_set va_space.system_wide_atomics_enabled_processors id }

/-- The statement
`uvm_processor_mask_clear(&va_space->system_wide_atomics_enabled_processors, id)`. -/
def system_wide_atomics_enabled_processors_clear (va_space : uvm_va_space_t) (id : Nat) :
    uvm_va_space_t :=
  { va_space with
    system_wide_atomics_enabled_processors :=
      uvm_processor_mask_clear va_space.system_wide_atomics_enabled_processors id }

/-- The statement `uvm_processor_mask_set(&va_space->faultable_processors, id)`. -/
def faultable_processors_set (va_space : uvm_va_space_t) (id : Nat) : uvm_va_space_t :=
  { va_space with faultable_processors := uvm_processor_mask_set va_space.faultable_processors id }

/-- The statement `uvm_processor_mask_clear(&va_space->faultable_processors, id)`. -/
def faultable_processors_clear (va_space : uvm_va_space_t) (id : Nat) : uvm_va_space_t :=
  { va_space with
    faultable_processors :=
      uvm_processor_mask_clear va_space.faultable_processors id }

/-- The statement `__set_bit(nr, va_space->enabled_peers)`. -/
def enabled_peers_set (va_space : uvm_va_space_t) (nr : Nat) : uvm_va_space_t :=
  { va_space with enabled_peers := __set_bit nr va_space.enabled_peers }

/-- The statement `__clear_bit(nr, va_space->enabled_peers)`. -/
def enabled_peers_clear (va_space : uvm_va_space_t) (nr : Nat) : uvm_va_space_t :=
  { va_space with enabled_peers := __clear_bit nr va_space.enabled_peers }

/-! ## Creation -/

/-- The address space as `uvm_kvmalloc_zero` returns it: every field zero. -/
def uvm_kvmalloc_zero : uvm_va_space_t where
  registered_gpus := uvm_processor_mask_zero
  registered_gpu_va_spaces := uvm_processor_mask_zero
  gpu_unregister_in_progress := uvm_processor_mask_zero
  can_access := fun _ => uvm_processor_mask_zero
  accessible_from := fun _ => uvm_processor_mask_zero
  can_copy_from := fun _ => uvm_processor_mask_zero
  has_nvlink := fun _ => uvm_processor_mask_zero
  indirect_peers := fun _ => uvm_processor_mask_zero
  has_native_atomics := fun _ => uvm_processor_mask_zero
  system_wide_atomics_enabled_processors := uvm_processor_mask_zero
  faultable_processors := uvm_processor_mask_zero
  enabled_peers := bitmap_zero
  enabled_peers_teardown := bitmap_zero
  cpu_gpu_numa_affinity :=
    List.replicate UVM_MAX_GPUS { numa_node := 0, gpus := uvm_processor_mask_zero }
  gpu_va_spaces := fun _ => none
  disallow_new_registers := false
  user_channels_stopped := false
  num_pending := 0
  wait_queue_wakeups := 0
  va_ranges := []
  gpu_va_space_mem := fun _ =>
    { gpu := 0, va_space := false, state := UVM_GPU_VA_SPACE_STATE_INIT, big_page_size := 0,
      page_tables_root := false, ats_enabled := false, ats_mm := false,
      duped_gpu_va_space := false, did_set_page_directory := false,
      registered_channels := [], disallow_new_channels := false, kref := 0,
      unset_page_directory_calls := 0, page_tree_deinit_calls := 0,
      address_space_destroy_calls := 0, freed := false }
  gpu_va_space_next := 0

/-- The function `uvm_va_space_create`.  Its inputs are what it cannot decide itself:
whether the allocation succeeds and the statuses of `uvm_perf_init_va_space_events`,
`uvm_perf_heuristics_load` and `uvm_gpu_init_va_space`.  On success the new address space
is returned; on failure it is freed. -/
def uvm_va_space_create (alloc_ok : Bool) (perf_events_status heuristics_status
    gpu_init_status : NV_STATUS) : NV_STATUS × Option uvm_va_space_t :=
  if !alloc_ok then (NV_ERR_NO_MEMORY, none)
  else
    let va_space := uvm_kvmalloc_zero
    let va_space := { va_space with enabled_peers := bitmap_zero }
    -- CPU is not explicitly registered in the va space
    let va_space := can_access_set va_space UVM_CPU_ID UVM_CPU_ID
    let va_space := accessible_from_set va_space UVM_CPU_ID UVM_CPU_ID
    let va_space := can_copy_from_set va_space UVM_CPU_ID UVM_CPU_ID
    let va_space := has_native_atomics_set va_space UVM_CPU_ID UVM_CPU_ID
    -- CPU always participates in system-wide atomics
    let va_space := system_wide_atomics_enabled_processors_set va_space UVM_CPU_ID
    let va_space := faultable_processors_set va_space UVM_CPU_ID
    -- Initialize the CPU/GPU affinity array
    let va_space := { va_space with
      cpu_gpu_numa_affinity := va_space.cpu_gpu_numa_affinity.map fun _ =>
        { numa_node := -1, gpus := uvm_processor_mask_zero } }
    if perf_events_status ≠ NV_OK then (perf_events_status, none)
    else if heuristics_status ≠ NV_OK then (heuristics_status, none)
    else if gpu_init_status ≠ NV_OK then (gpu_init_status, none)
    else (NV_OK, some va_space)

/-! ## Peer access -/

/-- The function `disable_peers`: a no-op when the pair is not enabled; otherwise every
memory range drops its peer mappings (their external mappings go to the deferred free
list), the bits of the pair are cleared in the six matrices, and the pair is marked not
enabled.  Returns the address space and the deferred free list. -/
def disable_peers (va_space : uvm_va_space_t) (gpu0 gpu1 : Nat)
    (deferred_free_list : List uvm_deferred_free_object_t) :
    uvm_va_space_t × List uvm_deferred_free_object_t :=
  let table_index := uvm_gpu_peer_table_index gpu0 gpu1
  if !test_bit table_index va_space.enabled_peers then (va_space, deferred_free_list)
  else
    let deferred_free_list := deferred_free_list ++
      (va_space.va_ranges.flatMap fun va_range => va_range.disable_peer gpu0 gpu1).map
        uvm_deferred_free_object_t.external_allocation
    let va_space := can_access_clear va_space gpu0 gpu1
    let va_space := can_access_clear va_space gpu1 gpu0
    let va_space := accessible_from_clear va_space gpu0 gpu1
    let va_space := accessible_from_clear va_space gpu1 gpu0
    let va_space := can_copy_from_clear va_space gpu0 gpu1
    let va_space := can_copy_from_clear va_space gpu1 gpu0
    let va_space := has_nvlink_clear va_space gpu0 gpu1
    let va_space := has_nvlink_clear va_space gpu1 gpu0
    let va_space := indirect_peers_clear va_space gpu0 gpu1
    let va_space := indirect_peers_clear va_space gpu1 gpu0
    let va_space := has_native_atomics_clear va_space gpu0 gpu1
    let va_space := has_native_atomics_clear va_space gpu1 gpu0
    let va_space := enabled_peers_clear va_space table_index
    (va_space, deferred_free_list)

/-- The loop of `enable_peers` over the memory ranges: the status of the first range whose
`uvm_va_range_enable_peer` fails, `NV_OK` when none does. -/
def enable_peers_va_ranges (gpu_1 gpu_2 : Nat) : List uvm_va_range_t → NV_STATUS
  | [] => NV_OK
  | va_range :: rest =>
    if va_range.enable_peer gpu_1 gpu_2 ≠ NV_OK then va_range.enable_peer gpu_1 gpu_2
    else enable_peers_va_ranges gpu_1 gpu_2 rest

/-- The statements of `enable_peers` between the compatibility test and the loop over the
memory ranges: the bits of the pair are set in the matrices its capabilities call for, and
the pair is marked enabled. -/
def enable_peers_masks (g : uvm_global_t) (va_space : uvm_va_space_t) (gpu_1 gpu_2 : Nat) :
    uvm_va_space_t :=
  let table_index := uvm_gpu_peer_table_index gpu_1 gpu_2
  let peer_caps := g.peers table_index
  let va_space := can_access_set va_space gpu_1 gpu_2
  let va_space := can_access_set va_space gpu_2 gpu_1
  let va_space := accessible_from_set va_space gpu_1 gpu_2
  let va_space := accessible_from_set va_space gpu_2 gpu_1
  let va_space :=
    if (g.gpus gpu_1).peer_identity_mappings_supported then
      let va_space := can_copy_from_set va_space gpu_2 gpu_1
      can_copy_from_set va_space gpu_1 gpu_2
    else va_space
  -- Pre-compute nvlink and native atomic masks for the new peers
  let va_space :=
    if peer_caps.link_type ≥ UVM_GPU_LINK_NVLINK_1 then
      let va_space := has_nvlink_set va_space gpu_1 gpu_2
      let va_space := has_nvlink_set va_space gpu_2 gpu_1
      let va_space := has_native_atomics_set va_space gpu_1 gpu_2
      let va_space := has_native_atomics_set va_space gpu_2 gpu_1
      if peer_caps.is_indirect_peer then
        let va_space := indirect_peers_set va_space gpu_1 gpu_2
        indirect_peers_set va_space gpu_2 gpu_1
      else va_space
    else va_space
  enabled_peers_set va_space table_index

/-- The function `enable_peers`. -/
def enable_peers (g : uvm_global_t) (va_space : uvm_va_space_t) (gpu_1 gpu_2 : Nat) :
    NV_STATUS × uvm_va_space_t :=
  -- We know the GPUs were retained already, so now verify that they have been
  -- registered by this specific VA space.
  if !uvm_processor_mask_test va_space.registered_gpus gpu_1 ||
      !uvm_processor_mask_test va_space.registered_gpus gpu_2 then
    (NV_ERR_INVALID_DEVICE, va_space)
  else
    -- If both GPUs have registered GPU VA spaces already, their big page sizes must match.
    let mismatch : Bool :=
      match uvm_gpu_va_space_get va_space gpu_1, uvm_gpu_va_space_get va_space gpu_2 with
      | some gpu_va_space_1, some gpu_va_space_2 =>
        (va_space.gpu_va_space_mem gpu_va_space_1).big_page_size !=
          (va_space.gpu_va_space_mem gpu_va_space_2).big_page_size
      | _, _ => false
    if mismatch then (NV_ERR_NOT_COMPATIBLE, va_space)
    else
      let va_space := enable_peers_masks g va_space gpu_1 gpu_2
      let status := enable_peers_va_ranges gpu_1 gpu_2 va_space.va_ranges
      if status ≠ NV_OK then
        -- the local deferred free list stays empty and is dropped
        (status, (disable_peers va_space gpu_1 gpu_2 []).1)
      else (status, va_space)

/-- The loop of `register_gpu_nvlink_peers` over the registered devices still to visit. -/
def register_gpu_nvlink_peers_loop (g : uvm_global_t) (gpu : Nat) :
    List Nat → uvm_va_space_t → NV_STATUS × uvm_va_space_t
  | [], va_space => (NV_OK, va_space)
  | other_gpu :: rest, va_space =>
    if other_gpu = gpu then register_gpu_nvlink_peers_loop g gpu rest va_space
    else if (uvm_gpu_peer_caps g gpu other_gpu).link_type ≥ UVM_GPU_LINK_NVLINK_1 then
      let r := enable_peers g va_space gpu other_gpu
      if r.1 ≠ NV_OK then (r.1, r.2)
      else register_gpu_nvlink_peers_loop g gpu rest r.2
    else register_gpu_nvlink_peers_loop g gpu rest va_space

/-- The function `register_gpu_nvlink_peers`.  The loop runs over `registered_gpus`, which
`enable_peers` does not change. -/
def register_gpu_nvlink_peers (g : uvm_global_t) (va_space : uvm_va_space_t) (gpu : Nat) :
    NV_STATUS × uvm_va_space_t :=
  register_gpu_nvlink_peers_loop g gpu (for_each_gpu_id_in_mask va_space.registered_gpus)
    va_space

/-! ## Device VA contexts -/

/-- The assignment `*gpu_va_space = obj` through a pointer to a device VA context. -/
def gpu_va_space_store (va_space : uvm_va_space_t) (gpu_va_space : Nat)
    (obj : uvm_gpu_va_space_t) : uvm_va_space_t :=
  { va_space with
    gpu_va_space_mem := fun p => if p = gpu_va_space then obj else va_space.gpu_va_space_mem p }

/-- The function `remove_gpu_va_space`: nothing for a null pointer or a context that is not
ACTIVE; otherwise the channels of the context are detached to the deferred free list, every
memory range drops its mappings on the device, the context is put on the deferred free
list, the pending counter is incremented, and the context leaves the address space as
DEAD. -/
def remove_gpu_va_space (va_space : uvm_va_space_t) (gpu_va_space : Option Nat)
    (deferred_free_list : List uvm_deferred_free_object_t) :
    uvm_va_space_t × List uvm_deferred_free_object_t :=
  match gpu_va_space with
  | none => (va_space, deferred_free_list)
  | some ptr =>
    if uvm_gpu_va_space_state va_space ptr ≠ UVM_GPU_VA_SPACE_STATE_ACTIVE then
      (va_space, deferred_free_list)
    else
      let obj := va_space.gpu_va_space_mem ptr
      -- uvm_gpu_va_space_detach_all_user_channels
      let deferred_free_list := deferred_free_list ++
        obj.registered_channels.map uvm_deferred_free_object_t.channel
      let obj := { obj with registered_channels := [] }
      -- Unmap all page tables in this VA space on this GPU.
      let deferred_free_list := deferred_free_list ++
        (va_space.va_ranges.flatMap fun va_range => va_range.remove_gpu_va_space obj.gpu).map
          uvm_deferred_free_object_t.external_allocation
      let deferred_free_list := deferred_free_list ++
        [uvm_deferred_free_object_t.gpu_va_space ptr]
      let va_space := { va_space with num_pending := va_space.num_pending + 1 }
      let va_space := registered_gpu_va_spaces_clear va_space obj.gpu
      let va_space := { va_space with
        gpu_va_spaces := fun i =>
          if i = uvm_gpu_index obj.gpu then none else va_space.gpu_va_spaces i }
      let obj := { obj with state := UVM_GPU_VA_SPACE_STATE_DEAD }
      (gpu_va_space_store va_space ptr obj, deferred_free_list)

/-- The function `uvm_gpu_va_space_release` with `free_gpu_va_space`: the reference count
drops by one and the object is freed when it reaches zero. -/
def uvm_gpu_va_space_release (va_space : uvm_va_space_t) (gpu_va_space : Option Nat) :
    uvm_va_space_t :=
  match gpu_va_space with
  | none => va_space
  | some ptr =>
    let obj := va_space.gpu_va_space_mem ptr
    let obj := { obj with kref := obj.kref - 1 }
    let obj := if obj.kref = 0 then { obj with freed := true } else obj
    gpu_va_space_store va_space ptr obj

/-- The function `uvm_gpu_va_space_unset_page_dir`. -/
def uvm_gpu_va_space_unset_page_dir (obj : uvm_gpu_va_space_t) : uvm_gpu_va_space_t :=
  if obj.did_set_page_directory then
    { obj with
      unset_page_directory_calls := obj.unset_page_directory_calls + 1
      did_set_page_directory := false }
  else obj

/-- The function `destroy_gpu_va_space`. -/
def destroy_gpu_va_space (va_space : uvm_va_space_t) (gpu_va_space : Option Nat) :
    uvm_va_space_t :=
  match gpu_va_space with
  | none => va_space
  | some ptr =>
    let obj := va_space.gpu_va_space_mem ptr
    let obj := uvm_gpu_va_space_unset_page_dir obj
    let obj :=
      if obj.page_tables_root then
        { obj with page_tree_deinit_calls := obj.page_tree_deinit_calls + 1 }
      else obj
    let obj :=
      if obj.duped_gpu_va_space then
        { obj with address_space_destroy_calls := obj.address_space_destroy_calls + 1 }
      else obj
    let va_space := gpu_va_space_store va_space ptr obj
    -- If the state is DEAD, then this GPU VA space is tracked in
    -- va_space->gpu_va_space_deferred_free.
    let va_space :=
      if obj.state = UVM_GPU_VA_SPACE_STATE_DEAD then
        let num_pending := va_space.num_pending - 1
        let va_space := { va_space with num_pending := num_pending }
        if num_pending = 0 then
          { va_space with wait_queue_wakeups := va_space.wait_queue_wakeups + 1 }
        else va_space
      else va_space
    uvm_gpu_va_space_release va_space (some ptr)

/-- The function `uvm_deferred_free_object_list`: the objects are taken off the list one by
one and destroyed by type.  Destroying a channel or an external mapping is the work of
other files and leaves the address space as it is. -/
def uvm_deferred_free_object_list (va_space : uvm_va_space_t) :
    List uvm_deferred_free_object_t → uvm_va_space_t
  | [] => va_space
  | uvm_deferred_free_object_t.channel _ :: rest =>
    uvm_deferred_free_object_list va_space rest
  | uvm_deferred_free_object_t.gpu_va_space ptr :: rest =>
    uvm_deferred_free_object_list (destroy_gpu_va_space va_space (some ptr)) rest
  | uvm_deferred_free_object_t.external_allocation _ :: rest =>
    uvm_deferred_free_object_list va_space rest

/-! ## Device registration -/

/-- The loop of `unregister_gpu` over the registered devices still to visit: every enabled
pair with the device is disabled and its peer recorded in `peers_to_release`. -/
def unregister_gpu_peers_loop (gpu : Nat) :
    List Nat → uvm_va_space_t → List uvm_deferred_free_object_t → uvm_processor_mask_t →
      uvm_va_space_t × List uvm_deferred_free_object_t × uvm_processor_mask_t
  | [], va_space, deferred_free_list, peers_to_release =>
    (va_space, deferred_free_list, peers_to_release)
  | peer_gpu :: rest, va_space, deferred_free_list, peers_to_release =>
    if gpu = peer_gpu then
      unregister_gpu_peers_loop gpu rest va_space deferred_free_list peers_to_release
    else
      let peer_table_index := uvm_gpu_peer_table_index gpu peer_gpu
      if test_bit peer_table_index va_space.enabled_peers then
        let r := disable_peers va_space gpu peer_gpu deferred_free_list
        unregister_gpu_peers_loop gpu rest r.1 r.2
          (uvm_processor_mask_set peers_to_release peer_gpu)
      else unregister_gpu_peers_loop gpu rest va_space deferred_free_list peers_to_release

/-- The loop of `unregister_gpu` over the affinity array: the device is cleared from the
first entry of its node. -/
def unregister_gpu_affinity (node : Int) (gpu : Nat) :
    List uvm_cpu_gpu_affinity_t → List uvm_cpu_gpu_affinity_t
  | [] => []
  | entry :: rest =>
    if entry.numa_node = node then
      { entry with gpus := uvm_processor_mask_clear entry.gpus gpu } :: rest
    else entry :: unregister_gpu_affinity node gpu rest

/-- The statements of `unregister_gpu` after the loop over the peers: the device leaves
the masks of the address space, its own bits and its bits with the host are cleared in the
matrices, and the device leaves the affinity array. -/
def unregister_gpu_masks (g : uvm_global_t) (va_space : uvm_va_space_t) (gpu : Nat) :
    uvm_va_space_t :=
  let va_space :=
    if (g.gpus gpu).replayable_faults_handling then faultable_processors_clear va_space gpu
    else va_space
  let va_space := system_wide_atomics_enabled_processors_clear va_space gpu
  let va_space := can_access_clear va_space gpu gpu
  let va_space := can_access_clear va_space gpu UVM_CPU_ID
  let va_space := can_access_clear va_space UVM_CPU_ID gpu
  let va_space := accessible_from_clear va_space gpu gpu
  let va_space := accessible_from_clear va_space UVM_CPU_ID gpu
  let va_space := accessible_from_clear va_space gpu UVM_CPU_ID
  let va_space := can_copy_from_clear va_space gpu gpu
  let va_space := can_copy_from_clear va_space gpu UVM_CPU_ID
  let va_space := can_copy_from_clear va_space UVM_CPU_ID gpu
  let va_space := has_nvlink_clear va_space gpu UVM_CPU_ID
  let va_space := has_nvlink_clear va_space UVM_CPU_ID gpu
  let va_space := has_native_atomics_clear va_space gpu UVM_CPU_ID
  let va_space := has_native_atomics_clear va_space UVM_CPU_ID gpu
  let va_space := has_native_atomics_clear va_space gpu gpu
  let va_space := registered_gpus_clear va_space gpu
  -- Remove the GPU from the CPU/GPU affinity masks
  if (g.gpus gpu).closest_cpu_numa_node ≠ -1 then
    { va_space with
      cpu_gpu_numa_affinity :=
        unregister_gpu_affinity (g.gpus gpu).closest_cpu_numa_node gpu
          va_space.cpu_gpu_numa_affinity }
  else va_space

/-- The function `unregister_gpu`.  Returns the address space, the deferred free list and
the mask `peers_to_release`; a caller that passes a null pointer for one of the two drops
that part of the result. -/
def unregister_gpu (g : uvm_global_t) (va_space : uvm_va_space_t) (gpu : Nat)
    (deferred_free_list : List uvm_deferred_free_object_t) :
    uvm_va_space_t × List uvm_deferred_free_object_t × uvm_processor_mask_t :=
  let peers_to_release := uvm_processor_mask_zero
  -- If a GPU VA Space was explicitly registered, but not explicitly unregistered,
  -- unregister it and add all of its objects to the free list.
  let r := remove_gpu_va_space va_space (uvm_gpu_va_space_get va_space gpu) deferred_free_list
  let va_space := r.1
  let deferred_free_list := r.2
  let deferred_free_list := deferred_free_list ++
    (va_space.va_ranges.flatMap fun va_range => va_range.unregister_gpu gpu).map
      uvm_deferred_free_object_t.external_allocation
  -- If this GPU has any peer-to-peer pair that was explicitly enabled, but not
  -- explicitly disabled, disable it.
  let r := unregister_gpu_peers_loop gpu (for_each_gpu_id_in_mask va_space.registered_gpus)
    va_space deferred_free_list peers_to_release
  (unregister_gpu_masks g r.1 gpu, r.2.1, r.2.2)

/-- The loop of `uvm_va_space_register_gpu` over the affinity array: a free entry is taken
for a node seen for the first time, and the device is set in the entry of its node. -/
def register_gpu_affinity (node : Int) (gpu : Nat) :
    List uvm_cpu_gpu_affinity_t → List uvm_cpu_gpu_affinity_t
  | [] => []
  | entry :: rest =>
    let entry := if entry.numa_node = -1 then { entry with numa_node := node } else entry
    if entry.numa_node = node then
      { entry with gpus := uvm_processor_mask_set entry.gpus gpu } :: rest
    else entry :: register_gpu_affinity node gpu rest

/-- The test of `uvm_va_space_register_gpu` that refuses to mix devices on either side of
the second NVLink generation: whether some registered device is on the other side than
the new one. -/
def register_gpu_mixing (g : uvm_global_t) (va_space : uvm_va_space_t) (gpu : Nat) : Bool :=
  (for_each_gpu_id_in_mask va_space.registered_gpus).any fun other_gpu =>
    (decide ((g.gpus gpu).sysmem_link ≥ UVM_GPU_LINK_NVLINK_2) &&
      decide ((g.gpus other_gpu).sysmem_link < UVM_GPU_LINK_NVLINK_2)) ||
    (decide ((g.gpus gpu).sysmem_link < UVM_GPU_LINK_NVLINK_2) &&
      decide ((g.gpus other_gpu).sysmem_link ≥ UVM_GPU_LINK_NVLINK_2))

/-- The statements of `uvm_va_space_register_gpu` between the tests and the automatic peer
enable: the device enters the masks of the address space, its own bits and its bits with
the host are set in the matrices its capabilities call for, and the device enters the
affinity array. -/
def register_gpu_masks (g : uvm_global_t) (va_space : uvm_va_space_t) (gpu : Nat) :
    uvm_va_space_t :=
  let va_space := registered_gpus_set va_space gpu
  let va_space :=
    if (g.gpus gpu).replayable_faults_handling then
      let va_space := faultable_processors_set va_space gpu
      -- System-wide atomics are enabled by default
      system_wide_atomics_enabled_processors_set va_space gpu
    else va_space
  -- All GPUs have native atomics on their own memory
  let va_space := has_native_atomics_set va_space gpu gpu
  let va_space :=
    if (g.gpus gpu).sysmem_link ≥ UVM_GPU_LINK_NVLINK_1 then
      let va_space := has_nvlink_set va_space gpu UVM_CPU_ID
      has_nvlink_set va_space UVM_CPU_ID gpu
    else va_space
  let va_space :=
    if (g.gpus gpu).sysmem_link ≥ UVM_GPU_LINK_NVLINK_2 then
      let va_space := has_native_atomics_set va_space gpu UVM_CPU_ID
      if (g.gpus gpu).numa_info_enabled then
        let va_space := can_access_set va_space UVM_CPU_ID gpu
        let va_space := accessible_from_set va_space gpu UVM_CPU_ID
        has_native_atomics_set va_space UVM_CPU_ID gpu
      else va_space
    else va_space
  -- All processors have direct access to their own memory
  let va_space := can_access_set va_space gpu gpu
  let va_space := accessible_from_set va_space gpu gpu
  -- All GPUs have direct access to sysmem
  let va_space := can_access_set va_space gpu UVM_CPU_ID
  let va_space := accessible_from_set va_space UVM_CPU_ID gpu
  let va_space := can_copy_from_set va_space gpu gpu
  let va_space := can_copy_from_set va_space gpu UVM_CPU_ID
  let va_space := can_copy_from_set va_space UVM_CPU_ID gpu
  -- Update the CPU/GPU affinity masks
  if (g.gpus gpu).closest_cpu_numa_node ≠ -1 then
    { va_space with
      cpu_gpu_numa_affinity :=
        register_gpu_affinity (g.gpus gpu).closest_cpu_numa_node gpu
          va_space.cpu_gpu_numa_affinity }
  else va_space

/-- The function `uvm_va_space_register_gpu`.  Returns the status, the address space, and
what was written to `numa_enabled` and `numa_node_id` (`none` when they were not
written). -/
def uvm_va_space_register_gpu (g : uvm_global_t) (va_space : uvm_va_space_t)
    (gpu_uuid : Nat) : NV_STATUS × uvm_va_space_t × Option (Bool × Int) :=
  let retained := uvm_gpu_retain_by_uuid g gpu_uuid
  if retained.1 ≠ NV_OK then (retained.1, va_space, none)
  else
    let gpu := retained.2
    -- Make sure the gpu has not been already registered in this va space
    if uvm_processor_mask_test va_space.registered_gpus gpu then
      (NV_ERR_INVALID_DEVICE, va_space, none)
    -- Mixing Volta and Pascal GPUs is not supported on P9 systems.
    else if register_gpu_mixing g va_space gpu then (NV_ERR_INVALID_DEVICE, va_space, none)
    -- The VA space mm is being torn down, so do not allow more work
    else if va_space.disallow_new_registers then (NV_ERR_PAGE_TABLE_NOT_AVAIL, va_space, none)
    else
      let va_space := register_gpu_masks g va_space gpu
      let r := register_gpu_nvlink_peers g va_space gpu
      let status := r.1
      let va_space :=
        if status ≠ NV_OK then
          -- Clear out all of the processor mask bits.
          (unregister_gpu g r.2 gpu []).1
        else r.2
      let numa :=
        if (g.gpus gpu).numa_info_enabled then (true, (g.gpus gpu).numa_info_node_id)
        else (false, -1)
      (status, va_space, some numa)

/-! ## Device unregistration -/

/-- The function `uvm_va_space_get_gpu_by_uuid`: the first registered device with the
uuid, null when there is none. -/
def uvm_va_space_get_gpu_by_uuid (g : uvm_global_t) (va_space : uvm_va_space_t)
    (gpu_uuid : Nat) : Option Nat :=
  (for_each_gpu_id_in_mask va_space.registered_gpus).find? fun gpu =>
    (g.gpus gpu).uuid == gpu_uuid

/-- The function `uvm_va_space_get_gpu_by_uuid_with_gpu_va_space`. -/
def uvm_va_space_get_gpu_by_uuid_with_gpu_va_space (g : uvm_global_t)
    (va_space : uvm_va_space_t) (gpu_uuid : Nat) : Option Nat :=
  match uvm_va_space_get_gpu_by_uuid g va_space gpu_uuid with
  | none => none
  | some gpu =>
    if !uvm_processor_mask_test va_space.registered_gpu_va_spaces gpu then none else some gpu

/-- The function `gpu_va_space_stop_all_channels`: stopping a channel is the work of
another file; the context then refuses new channels. -/
def gpu_va_space_stop_all_channels (va_space : uvm_va_space_t) (gpu_va_space : Nat) :
    uvm_va_space_t :=
  gpu_va_space_store va_space gpu_va_space
    { va_space.gpu_va_space_mem gpu_va_space with disallow_new_channels := true }

/-- The first part of `uvm_va_space_unregister_gpu`, up to the point where the lock is
dropped: the device is looked up, the guard bit is tested and set under the exclusive
lock, and the channels of the context of the device are stopped under the shared lock.
Returns the status when the function returns here, and the device when it goes on. -/
def uvm_va_space_unregister_gpu_begin (g : uvm_global_t) (va_space : uvm_va_space_t)
    (gpu_uuid : Nat) : NV_STATUS × uvm_va_space_t × Option Nat :=
  match uvm_va_space_get_gpu_by_uuid g va_space gpu_uuid with
  | none => (NV_ERR_INVALID_DEVICE, va_space, none)
  | some gpu =>
    if uvm_processor_mask_test va_space.gpu_unregister_in_progress gpu then
      (NV_ERR_INVALID_DEVICE, va_space, none)
    else
      let va_space := gpu_unregister_in_progress_set va_space gpu
      let va_space :=
        match uvm_gpu_va_space_get va_space gpu with
        | some gpu_va_space => gpu_va_space_stop_all_channels va_space gpu_va_space
        | none => va_space
      (NV_OK, va_space, some gpu)

/-- The second part of `uvm_va_space_unregister_gpu`, from the point where the exclusive
lock is taken again: the device is unregistered, the guard bit is cleared, and the
deferred free list is drained after the lock is released.  Returns the status, the address
space and the mask `peers_to_release`. -/
def uvm_va_space_unregister_gpu_finish (g : uvm_global_t) (va_space : uvm_va_space_t)
    (gpu : Nat) : NV_STATUS × uvm_va_space_t × uvm_processor_mask_t :=
  -- This will call disable_peers for all peers of the GPU, including NVLink
  let r := unregister_gpu g va_space gpu []
  let va_space := r.1
  let deferred_free_list := r.2.1
  let peers_to_release := r.2.2
  let va_space := gpu_unregister_in_progress_clear va_space gpu
  let va_space := uvm_deferred_free_object_list va_space deferred_free_list
  (NV_OK, va_space, peers_to_release)

/-- The function `uvm_va_space_unregister_gpu` when no other thread runs between its two
parts. -/
def uvm_va_space_unregister_gpu (g : uvm_global_t) (va_space : uvm_va_space_t)
    (gpu_uuid : Nat) : NV_STATUS × uvm_va_space_t :=
  let first := uvm_va_space_unregister_gpu_begin g va_space gpu_uuid
  match first.2.2 with
  | none => (first.1, first.2.1)
  | some gpu =>
    let r := uvm_va_space_unregister_gpu_finish g first.2.1 gpu
    (r.1, r.2.1)

/-! ## The peer access entry points -/

/-- Modelled from the spec: `uvm_gpu_get_by_uuid(uuid)` is defined in another file of the
driver; it looks the uuid up among the devices and is null when there is none. -/
def uvm_gpu_get_by_uuid (g : uvm_global_t) (gpu_uuid : Nat) : Option Nat :=
  ((List.range UVM_MAX_PROCESSORS).filter fun i => decide (UVM_CPU_ID < i)).find?
    fun i => (g.gpus i).uuid == gpu_uuid

/-- The function `retain_pcie_peers_from_uuids`.  The status of
`uvm_gpu_retain_pcie_peer_access`, which another file decides, is an input. -/
def retain_pcie_peers_from_uuids (g : uvm_global_t) (gpu_uuid_1 gpu_uuid_2 : Nat)
    (retain_pcie_status : NV_STATUS) : NV_STATUS × Nat × Nat :=
  match uvm_gpu_get_by_uuid g gpu_uuid_1 with
  | none => (NV_ERR_INVALID_DEVICE, 0, 0)
  | some gpu_1 =>
    match uvm_gpu_get_by_uuid g gpu_uuid_2 with
    | none => (NV_ERR_INVALID_DEVICE, gpu_1, 0)
    | some gpu_2 =>
      if gpu_1 = gpu_2 then (NV_ERR_INVALID_DEVICE, gpu_1, gpu_2)
      else (retain_pcie_status, gpu_1, gpu_2)

/-- The function `retain_nvlink_peers_from_uuids`. -/
def retain_nvlink_peers_from_uuids (g : uvm_global_t) (gpu_uuid_1 gpu_uuid_2 : Nat) :
    NV_STATUS × Nat × Nat :=
  let retained_1 := uvm_gpu_retain_by_uuid g gpu_uuid_1
  if retained_1.1 ≠ NV_OK then (retained_1.1, 0, 0)
  else
    let retained_2 := uvm_gpu_retain_by_uuid g gpu_uuid_2
    if retained_2.1 ≠ NV_OK then (retained_2.1, retained_1.2, 0)
    else if retained_1.2 = retained_2.2 then (NV_ERR_INVALID_DEVICE, retained_1.2, retained_2.2)
    else if (uvm_gpu_peer_caps g retained_1.2 retained_2.2).link_type ≥ UVM_GPU_LINK_NVLINK_1
    then (NV_OK, retained_1.2, retained_2.2)
    else (NV_ERR_INVALID_DEVICE, retained_1.2, retained_2.2)

/-- The function `uvm_va_space_peer_enabled`. -/
def uvm_va_space_peer_enabled (va_space : uvm_va_space_t) (gpu1 gpu2 : Nat) : Bool :=
  test_bit (uvm_gpu_peer_table_index gpu1 gpu2) va_space.enabled_peers

/-- The function `uvm_va_space_pcie_peer_enabled`. -/
def uvm_va_space_pcie_peer_enabled (va_space : uvm_va_space_t) (gpu1 gpu2 : Nat) : Bool :=
  !uvm_processor_mask_test (va_space.has_nvlink gpu1) gpu2 &&
    uvm_va_space_peer_enabled va_space gpu1 gpu2

/-- The function `uvm_va_space_nvlink_peer_enabled`. -/
def uvm_va_space_nvlink_peer_enabled (va_space : uvm_va_space_t) (gpu1 gpu2 : Nat) : Bool :=
  uvm_processor_mask_test (va_space.has_nvlink gpu1) gpu2

/-- The function `uvm_api_enable_peer_access`. -/
def uvm_api_enable_peer_access (g : uvm_global_t) (va_space : uvm_va_space_t)
    (gpuUuidA gpuUuidB : Nat) (retain_pcie_status : NV_STATUS) : NV_STATUS × uvm_va_space_t :=
  let retained := retain_pcie_peers_from_uuids g gpuUuidA gpuUuidB retain_pcie_status
  if retained.1 ≠ NV_OK then (retained.1, va_space)
  else
    let gpu_1 := retained.2.1
    let gpu_2 := retained.2.2
    let table_index := uvm_gpu_peer_table_index gpu_1 gpu_2
    if test_bit table_index va_space.enabled_peers then (NV_ERR_INVALID_DEVICE, va_space)
    else enable_peers g va_space gpu_1 gpu_2

/-- The function `uvm_api_disable_peer_access`. -/
def uvm_api_disable_peer_access (g : uvm_global_t) (va_space : uvm_va_space_t)
    (gpuUuidA gpuUuidB : Nat) : NV_STATUS × uvm_va_space_t :=
  match uvm_va_space_get_gpu_by_uuid g va_space gpuUuidA,
      uvm_va_space_get_gpu_by_uuid g va_space gpuUuidB with
  | some gpu_1, some gpu_2 =>
    if gpu_1 = gpu_2 then (NV_ERR_INVALID_DEVICE, va_space)
    else if !uvm_va_space_pcie_peer_enabled va_space gpu_1 gpu_2 then
      (NV_ERR_INVALID_DEVICE, va_space)
    else
      let r := disable_peers va_space gpu_1 gpu_2 []
      (NV_OK, uvm_deferred_free_object_list r.1 r.2)
  | _, _ => (NV_ERR_INVALID_DEVICE, va_space)

/-- The function `uvm8_test_enable_nvlink_peer_access`. -/
def uvm8_test_enable_nvlink_peer_access (g : uvm_global_t) (va_space : uvm_va_space_t)
    (gpuUuidA gpuUuidB : Nat) : NV_STATUS × uvm_va_space_t :=
  let retained := retain_nvlink_peers_from_uuids g gpuUuidA gpuUuidB
  if retained.1 ≠ NV_OK then (retained.1, va_space)
  else
    let gpu_1 := retained.2.1
    let gpu_2 := retained.2.2
    let table_index := uvm_gpu_peer_table_index gpu_1 gpu_2
    if test_bit table_index va_space.enabled_peers then (NV_OK, va_space)
    else enable_peers g va_space gpu_1 gpu_2

/-- The function `uvm8_test_disable_nvlink_peer_access`. -/
def uvm8_test_disable_nvlink_peer_access (g : uvm_global_t) (va_space : uvm_va_space_t)
    (gpuUuidA gpuUuidB : Nat) : NV_STATUS × uvm_va_space_t :=
  match uvm_va_space_get_gpu_by_uuid g va_space gpuUuidA,
      uvm_va_space_get_gpu_by_uuid g va_space gpuUuidB with
  | some gpu_1, some gpu_2 =>
    if gpu_1 = gpu_2 then (NV_ERR_INVALID_DEVICE, va_space)
    else if !uvm_va_space_nvlink_peer_enabled va_space gpu_1 gpu_2 then
      (NV_ERR_INVALID_DEVICE, va_space)
    else
      let r := disable_peers va_space gpu_1 gpu_2 []
      (NV_OK, uvm_deferred_free_object_list r.1 r.2)
  | _, _ => (NV_ERR_INVALID_DEVICE, va_space)

/-! ## Registration of device VA contexts -/

/-- What the resource manager and the other files of the driver answer while a device VA
context is registered. -/
structure rm_answers_t where
  /-- Whether `uvm_kvmalloc_zero` returns an object. -/
  alloc_ok : Bool
  /-- The status of `nvUvmInterfaceDupAddressSpace`. -/
  dup_status : NV_STATUS
  /-- The field `atsEnabled` of the address space information. -/
  atsEnabled : Bool
  /-- The field `bigPageSize` of the address space information. -/
  bigPageSize : Nat
  /-- Whether `mmu_mode_hal(bigPageSize)` is not null. -/
  mmu_mode_hal_ok : Bool
  /-- The status of `uvm_page_tree_init`. -/
  page_tree_init_status : NV_STATUS
  /-- The status of `nvUvmInterfaceSetPageDirectory`. -/
  set_page_directory_status : NV_STATUS
  /-- The status of `uvm_ats_ibm_mm_retain`. -/
  ats_mm_retain_status : NV_STATUS
  /-- The status of `uvm_ats_ibm_register_gpu_va_space`. -/
  ats_register_status : NV_STATUS

/-- A device VA context as `uvm_kvmalloc_zero` returns it. -/
def gpu_va_space_zero : uvm_gpu_va_space_t where
  gpu := 0
  va_space := false
  state := UVM_GPU_VA_SPACE_STATE_INIT
  big_page_size := 0
  page_tables_root := false
  ats_enabled := false
  ats_mm := false
  duped_gpu_va_space := false
  did_set_page_directory := false
  registered_channels := []
  disallow_new_channels := false
  kref := 0
  unset_page_directory_calls := 0
  page_tree_deinit_calls := 0
  address_space_destroy_calls := 0
  freed := false

/-- The function `create_gpu_va_space`.  Returns the status, the address space (whose
memory holds the new object) and the new context, null on failure. -/
def create_gpu_va_space (g : uvm_global_t) (va_space : uvm_va_space_t) (gpu : Nat)
    (rm : rm_answers_t) : NV_STATUS × uvm_va_space_t × Option Nat :=
  if !rm.alloc_ok then (NV_ERR_NO_MEMORY, va_space, none)
  else
    let ptr := va_space.gpu_va_space_next
    let va_space := { va_space with gpu_va_space_next := ptr + 1 }
    let obj := { gpu_va_space_zero with gpu := gpu, registered_channels := [], kref := 1 }
    if rm.dup_status ≠ NV_OK then
      (rm.dup_status, destroy_gpu_va_space (gpu_va_space_store va_space ptr obj) (some ptr), none)
    else
      let obj := { obj with duped_gpu_va_space := true, ats_enabled := rm.atsEnabled }
      -- If ATS support in the UVM driver is not enabled, fail registration of GPU VA
      -- spaces which have ATS enabled.
      if !g.ats_enabled && obj.ats_enabled then
        (NV_ERR_INVALID_FLAGS,
          destroy_gpu_va_space (gpu_va_space_store va_space ptr obj) (some ptr), none)
      else if !rm.mmu_mode_hal_ok then
        (NV_ERR_INVALID_FLAGS,
          destroy_gpu_va_space (gpu_va_space_store va_space ptr obj) (some ptr), none)
      else if rm.page_tree_init_status ≠ NV_OK then
        (rm.page_tree_init_status,
          destroy_gpu_va_space (gpu_va_space_store va_space ptr obj) (some ptr), none)
      else
        let obj := { obj with page_tables_root := true, big_page_size := rm.bigPageSize }
        if rm.set_page_directory_status ≠ NV_OK then
          -- Convert to the return code specified by uvm.h for already-registered PDBs.
          let status :=
            if rm.set_page_directory_status = NV_ERR_NOT_SUPPORTED then NV_ERR_INVALID_DEVICE
            else rm.set_page_directory_status
          (status, destroy_gpu_va_space (gpu_va_space_store va_space ptr obj) (some ptr), none)
        else
          let obj := { obj with did_set_page_directory := true }
          (NV_OK, gpu_va_space_store va_space ptr obj, some ptr)

/-- The loop of `add_gpu_va_space` over the devices with a registered context: the new
context must have the ATS setting of every one of them and the big page size of those
peer-enabled with its device.  (A registered device without a context would be a null
dereference in the source; the loop passes it over.) -/
def add_gpu_va_space_check (va_space : uvm_va_space_t) (gpu_va_space : Nat) :
    List Nat → NV_STATUS
  | [] => NV_OK
  | other_gpu :: rest =>
    match uvm_gpu_va_space_get va_space other_gpu with
    | none => add_gpu_va_space_check va_space gpu_va_space rest
    | some other_gpu_va_space =>
      if (va_space.gpu_va_space_mem other_gpu_va_space).ats_enabled !=
          (va_space.gpu_va_space_mem gpu_va_space).ats_enabled then NV_ERR_INVALID_FLAGS
      else if !test_bit
          (uvm_gpu_peer_table_index (va_space.gpu_va_space_mem gpu_va_space).gpu other_gpu)
          va_space.enabled_peers then add_gpu_va_space_check va_space gpu_va_space rest
      else if (va_space.gpu_va_space_mem gpu_va_space).big_page_size !=
          (va_space.gpu_va_space_mem other_gpu_va_space).big_page_size then
        NV_ERR_NOT_COMPATIBLE
      else add_gpu_va_space_check va_space gpu_va_space rest

/-- The function `add_gpu_va_space`. -/
def add_gpu_va_space (va_space : uvm_va_space_t) (gpu_va_space : Nat) :
    NV_STATUS × uvm_va_space_t :=
  let gpu := (va_space.gpu_va_space_mem gpu_va_space).gpu
  let status := add_gpu_va_space_check va_space gpu_va_space
    (for_each_gpu_id_in_mask va_space.registered_gpu_va_spaces)
  if status ≠ NV_OK then (status, va_space)
  else
    let va_space := registered_gpu_va_spaces_set va_space gpu
    let va_space := { va_space with
      gpu_va_spaces := fun i =>
        if i = uvm_gpu_index gpu then some gpu_va_space else va_space.gpu_va_spaces i }
    let va_space := gpu_va_space_store va_space gpu_va_space
      { va_space.gpu_va_space_mem gpu_va_space with
        va_space := true, state := UVM_GPU_VA_SPACE_STATE_ACTIVE }
    (NV_OK, va_space)

/-- The loop of `uvm_va_space_register_gpu_va_space` over the memory ranges: the status of
the first range whose `uvm_va_range_add_gpu_va_space` fails, `NV_OK` when none does. -/
def add_gpu_va_space_va_ranges (gpu : Nat) : List uvm_va_range_t → NV_STATUS
  | [] => NV_OK
  | va_range :: rest =>
    if va_range.add_gpu_va_space gpu ≠ NV_OK then va_range.add_gpu_va_space gpu
    else add_gpu_va_space_va_ranges gpu rest

/-- The labels `error` and `error_unlocked` of `uvm_va_space_register_gpu_va_space`: a
context that was added is removed (the deferred free list then holds it and is dropped),
and the context is destroyed. -/
def register_gpu_va_space_error (va_space : uvm_va_space_t) (gpu_va_space : Nat)
    (locked : Bool) : uvm_va_space_t :=
  let va_space :=
    if locked && (va_space.gpu_va_space_mem gpu_va_space).va_space then
      (remove_gpu_va_space va_space (some gpu_va_space) []).1
    else va_space
  destroy_gpu_va_space va_space (some gpu_va_space)

/-- The part of `uvm_va_space_register_gpu_va_space` that runs with the address space
locked, for the retained device and the context created for it. -/
def register_gpu_va_space_locked (va_space : uvm_va_space_t) (rm : rm_answers_t)
    (gpu gpu_va_space : Nat) : NV_STATUS × uvm_va_space_t :=
  if !uvm_processor_mask_test va_space.registered_gpus gpu then
    (NV_ERR_INVALID_DEVICE, register_gpu_va_space_error va_space gpu_va_space true)
  -- RM will return an error from create_gpu_va_space if the given RM VA space object has
  -- already been registered by any VA space. Now we just need to check if a different
  -- VA space has already been registered.
  else if uvm_processor_mask_test va_space.registered_gpu_va_spaces gpu then
    (NV_ERR_INVALID_DEVICE, register_gpu_va_space_error va_space gpu_va_space true)
  -- If a GPU unregister is in progress but temporarily dropped the VA space
  -- lock, we cannot register new GPU VA spaces.
  else if uvm_processor_mask_test va_space.gpu_unregister_in_progress gpu then
    (NV_ERR_INVALID_DEVICE, register_gpu_va_space_error va_space gpu_va_space true)
  -- The VA space mm is being torn down, so do not allow more work
  else if va_space.disallow_new_registers then
    (NV_ERR_PAGE_TABLE_NOT_AVAIL, register_gpu_va_space_error va_space gpu_va_space true)
  else
    let added := add_gpu_va_space va_space gpu_va_space
    if added.1 ≠ NV_OK then
      (added.1, register_gpu_va_space_error added.2 gpu_va_space true)
    else if rm.ats_register_status ≠ NV_OK then
      (rm.ats_register_status, register_gpu_va_space_error added.2 gpu_va_space true)
    else
      -- Tell the VA ranges that they can map this GPU, if they need to.
      let status := add_gpu_va_space_va_ranges gpu added.2.va_ranges
      if status ≠ NV_OK then
        (status, register_gpu_va_space_error added.2 gpu_va_space true)
      else (NV_OK, added.2)

/-- The function `uvm_va_space_register_gpu_va_space`. -/
def uvm_va_space_register_gpu_va_space (g : uvm_global_t) (va_space : uvm_va_space_t)
    (rm : rm_answers_t) (gpu_uuid : Nat) : NV_STATUS × uvm_va_space_t :=
  let retained := uvm_gpu_retain_by_uuid g gpu_uuid
  if retained.1 ≠ NV_OK then
    -- Convert to the return code specified by uvm.h for bad UUIDs
    if retained.1 = NV_ERR_GPU_UUID_NOT_FOUND then (NV_ERR_INVALID_DEVICE, va_space)
    else (retained.1, va_space)
  else
    let gpu := retained.2
    let created := create_gpu_va_space g va_space gpu rm
    match created.2.2 with
    | none => (created.1, created.2.1)
    | some gpu_va_space =>
      let va_space := created.2.1
      if (va_space.gpu_va_space_mem gpu_va_space).ats_enabled &&
          rm.ats_mm_retain_status ≠ NV_OK then
        (rm.ats_mm_retain_status, register_gpu_va_space_error va_space gpu_va_space false)
      else
        -- gpu_va_space->ats.ats_mm = ats_mm
        let va_space := gpu_va_space_store va_space gpu_va_space
          { va_space.gpu_va_space_mem gpu_va_space with
            ats_mm := (va_space.gpu_va_space_mem gpu_va_space).ats_enabled }
        register_gpu_va_space_locked va_space rm gpu gpu_va_space

/-- The first part of `uvm_va_space_unregister_gpu_va_space`, under the shared lock: the
device and its context are looked up, the channels of the context are stopped and a
reference to the context is taken.  Returns the status when the function returns here,
and the context when it goes on.  (A device whose bit is set without a context would be a
null dereference in the source; the result is then a failure.) -/
def uvm_va_space_unregister_gpu_va_space_begin (g : uvm_global_t) (va_space : uvm_va_space_t)
    (gpu_uuid : Nat) : NV_STATUS × uvm_va_space_t × Option Nat :=
  match uvm_va_space_get_gpu_by_uuid_with_gpu_va_space g va_space gpu_uuid with
  | none => (NV_ERR_INVALID_DEVICE, va_space, none)
  | some gpu =>
    match uvm_gpu_va_space_get va_space gpu with
    | none => (NV_ERR_GENERIC, va_space, none)
    | some gpu_va_space =>
      let va_space := gpu_va_space_stop_all_channels va_space gpu_va_space
      -- uvm_gpu_va_space_retain
      let va_space := gpu_va_space_store va_space gpu_va_space
        { va_space.gpu_va_space_mem gpu_va_space with
          kref := (va_space.gpu_va_space_mem gpu_va_space).kref + 1 }
      (NV_OK, va_space, some gpu_va_space)

/-- The second part of `uvm_va_space_unregister_gpu_va_space`, from the point where the
exclusive lock is taken: a context that died in between is a double unregister;
otherwise the context is removed.  The deferred free list is drained after the lock is
released, and the reference taken by the first part is dropped. -/
def uvm_va_space_unregister_gpu_va_space_finish (va_space : uvm_va_space_t)
    (gpu_va_space : Nat) : NV_STATUS × uvm_va_space_t :=
  let r :=
    if uvm_gpu_va_space_state va_space gpu_va_space = UVM_GPU_VA_SPACE_STATE_DEAD then
      (NV_ERR_INVALID_DEVICE, va_space, [])
    else
      let removed := remove_gpu_va_space va_space (some gpu_va_space) []
      (NV_OK, removed.1, removed.2)
  let va_space := uvm_deferred_free_object_list r.2.1 r.2.2
  (r.1, uvm_gpu_va_space_release va_space (some gpu_va_space))

/-- The function `uvm_va_space_unregister_gpu_va_space` when no other thread runs between
its two parts. -/
def uvm_va_space_unregister_gpu_va_space (g : uvm_global_t) (va_space : uvm_va_space_t)
    (gpu_uuid : Nat) : NV_STATUS × uvm_va_space_t :=
  let first := uvm_va_space_unregister_gpu_va_space_begin g va_space gpu_uuid
  match first.2.2 with
  | none => (first.1, first.2.1)
  | some gpu_va_space => uvm_va_space_unregister_gpu_va_space_finish first.2.1 gpu_va_space

/-! ## Reachable states -/

/-- The states of an address space between two operations.  An address space starts as
`uvm_va_space_create` returns it; every entry point of the file takes it to a next state,
whatever status it returns.  The two entry points that drop the lock half way
(`uvm_va_space_unregister_gpu`, `uvm_va_space_unregister_gpu_va_space`) are two steps, so
that other threads may run in between: the second part of a device unregistration runs
for a device whose guard bit is set, the second part of a context unregistration for a
context that was allocated.  The memory ranges change at the will of other files, and
the mm shutdown of another file sets `disallow_new_registers`.  The global tables `g` do
not change while the address space lives. -/
inductive Reachable (g : uvm_global_t) : uvm_va_space_t → Prop
  | create (perf_events_status heuristics_status gpu_init_status : NV_STATUS)
      (va_space : uvm_va_space_t)
      (h : uvm_va_space_create true perf_events_status heuristics_status gpu_init_status =
        (NV_OK, some va_space)) : Reachable g va_space
  | register_gpu (va_space : uvm_va_space_t) (gpu_uuid : Nat) (h : Reachable g va_space) :
      Reachable g (uvm_va_space_register_gpu g va_space gpu_uuid).2.1
  | unregister_gpu_begin (va_space : uvm_va_space_t) (gpu_uuid : Nat)
      (h : Reachable g va_space) :
      Reachable g (uvm_va_space_unregister_gpu_begin g va_space gpu_uuid).2.1
  | unregister_gpu_finish (va_space : uvm_va_space_t) (gpu : Nat) (h : Reachable g va_space)
      (hguard : uvm_processor_mask_test va_space.gpu_unregister_in_progress gpu = true) :
      Reachable g (uvm_va_space_unregister_gpu_finish g va_space gpu).2.1
  | enable_peer_access (va_space : uvm_va_space_t) (gpuUuidA gpuUuidB : Nat)
      (retain_pcie_status : NV_STATUS) (h : Reachable g va_space) :
      Reachable g
        (uvm_api_enable_peer_access g va_space gpuUuidA gpuUuidB retain_pcie_status).2
  | disable_peer_access (va_space : uvm_va_space_t) (gpuUuidA gpuUuidB : Nat)
      (h : Reachable g va_space) :
      Reachable g (uvm_api_disable_peer_access g va_space gpuUuidA gpuUuidB).2
  | test_enable_nvlink_peer_access (va_space : uvm_va_space_t) (gpuUuidA gpuUuidB : Nat)
      (h : Reachable g va_space) :
      Reachable g (uvm8_test_enable_nvlink_peer_access g va_space gpuUuidA gpuUuidB).2
  | test_disable_nvlink_peer_access (va_space : uvm_va_space_t) (gpuUuidA gpuUuidB : Nat)
      (h : Reachable g va_space) :
      Reachable g (uvm8_test_disable_nvlink_peer_access g va_space gpuUuidA gpuUuidB).2
  | register_gpu_va_space (va_space : uvm_va_space_t) (rm : rm_answers_t) (gpu_uuid : Nat)
      (h : Reachable g va_space) :
      Reachable g (uvm_va_space_register_gpu_va_space g va_space rm gpu_uuid).2
  | unregister_gpu_va_space_begin (va_space : uvm_va_space_t) (gpu_uuid : Nat)
      (h : Reachable g va_space) :
      Reachable g (uvm_va_space_unregister_gpu_va_space_begin g va_space gpu_uuid).2.1
  | unregister_gpu_va_space_finish (va_space : uvm_va_space_t) (gpu_va_space : Nat)
      (h : Reachable g va_space) (hptr : gpu_va_space < va_space.gpu_va_space_next) :
      Reachable g (uvm_va_space_unregister_gpu_va_space_finish va_space gpu_va_space).2
  | va_ranges_change (va_space : uvm_va_space_t) (va_ranges : List uvm_va_range_t)
      (h : Reachable g va_space) : Reachable g { va_space with va_ranges := va_ranges }
  | mm_shutdown (va_space : uvm_va_space_t) (h : Reachable g va_space) :
      Reachable g { va_space with disallow_new_registers := true }

/-! ## Invariants of the topology -/

/-- The bits of the unordered pair `(a, b)` cleared in a matrix, as `disable_peers` does. -/
def clear_pair (M : Nat → uvm_processor_mask_t) (a b : Nat) : Nat → uvm_processor_mask_t :=
  mask_array_clear (mask_array_clear M a b) b a

/-- The bits of the unordered pair `(a, b)` set in a matrix, as `enable_peers` does. -/
def set_pair (M : Nat → uvm_processor_mask_t) (a b : Nat) : Nat → uvm_processor_mask_t :=
  mask_array_set (mask_array_set M a b) b a

/-- The positions of a matrix that belong to one device alone (0 is the host id): its own
bit and its two bits with the host. -/
def on_cross (gpu x y : Nat) : Prop :=
  (x = gpu ∧ y = gpu) ∨ (x = gpu ∧ y = 0) ∨ (x = 0 ∧ y = gpu)

/-- A matrix is symmetric between devices. -/
def DevSym (M : Nat → uvm_processor_mask_t) : Prop :=
  ∀ a b, 0 < a → 0 < b → a ≠ b → M a b = M b a

/-- A bit between two devices is set only when their pair is enabled. -/
def PeerEn (en : bitmap_t) (M : Nat → uvm_processor_mask_t) : Prop :=
  ∀ a b, 0 < a → 0 < b → a ≠ b → M a b = true → en (uvm_gpu_peer_table_index a b) = true

/-- The own bit of a device and its bits with the host are set only when the device is
registered. -/
def CrossReg (reg : uvm_processor_mask_t) (M : Nat → uvm_processor_mask_t) : Prop :=
  ∀ a, 0 < a → (M a a = true ∨ M a 0 = true ∨ M 0 a = true) → reg a = true

/-- What holds of each of the six matrices of a reachable address space. -/
def MatrixInv (en : bitmap_t) (reg : uvm_processor_mask_t) (M : Nat → uvm_processor_mask_t) :
    Prop :=
  DevSym M ∧ PeerEn en M ∧ CrossReg reg M

/-- What holds of the topology of a reachable address space, the guard bits apart. -/
structure TopoInv (g : uvm_global_t) (s : uvm_va_space_t) : Prop where
  reg_range : ∀ i, s.registered_gpus i = true → 0 < i ∧ i < UVM_MAX_PROCESSORS
  enabled_reg : ∀ a b, 0 < a → 0 < b → a ≠ b →
    s.enabled_peers (uvm_gpu_peer_table_index a b) = true →
    s.registered_gpus a = true ∧ s.registered_gpus b = true
  can_access : MatrixInv s.enabled_peers s.registered_gpus s.can_access
  accessible_from : MatrixInv s.enabled_peers s.registered_gpus s.accessible_from
  can_copy_from : MatrixInv s.enabled_peers s.registered_gpus s.can_copy_from
  has_nvlink : MatrixInv s.enabled_peers s.registered_gpus s.has_nvlink
  indirect_peers : MatrixInv s.enabled_peers s.registered_gpus s.indirect_peers
  has_native_atomics : MatrixInv s.enabled_peers s.registered_gpus s.has_native_atomics
  nvlink_diag : ∀ x, s.has_nvlink x x = false
  indirect_host : ∀ x, s.indirect_peers x x = false ∧ s.indirect_peers x 0 = false ∧
    s.indirect_peers 0 x = false
  host_self : s.can_access 0 0 = true ∧
    s.accessible_from 0 0 = true ∧
    s.can_copy_from 0 0 = true ∧
    s.has_native_atomics 0 0 = true
  nvlink_access : ∀ a b, 0 < a → s.has_nvlink a b = true → s.can_access a b = true
  host_sym : ∀ a, s.can_copy_from a 0 = s.can_copy_from 0 a ∧
    s.has_nvlink a 0 = s.has_nvlink 0 a
  host_impl : ∀ a, (s.can_access 0 a = true → s.can_access a 0 = true) ∧
    (s.accessible_from a 0 = true → s.accessible_from 0 a = true) ∧
    (s.has_native_atomics 0 a = true → s.has_native_atomics a 0 = true)
  transpose : ∀ x y, s.can_access x y = s.accessible_from y x
  faultable : ∀ a, 0 < a → s.faultable_processors a = true →
    s.registered_gpus a = true ∧ (g.gpus a).replayable_faults_handling = true
  atomics : ∀ a, 0 < a → s.system_wide_atomics_enabled_processors a = true →
    s.registered_gpus a = true

/-- What holds of a reachable address space: the invariants of the topology, and a guard
bit is set only for a registered device. -/
def Inv (g : uvm_global_t) (s : uvm_va_space_t) : Prop :=
  TopoInv g s ∧ ∀ i, s.gpu_unregister_in_progress i = true → s.registered_gpus i = true

/-- Two address spaces with the same topology: the masks, matrices and enabled pairs the
invariants speak of are equal. -/
def same_topology (s t : uvm_va_space_t) : Prop :=
  t.registered_gpus = s.registered_gpus ∧
  t.gpu_unregister_in_progress = s.gpu_unregister_in_progress ∧
  t.can_access = s.can_access ∧
  t.accessible_from = s.accessible_from ∧
  t.can_copy_from = s.can_copy_from ∧
  t.has_nvlink = s.has_nvlink ∧
  t.indirect_peers = s.indirect_peers ∧
  t.has_native_atomics = s.has_native_atomics ∧
  t.system_wide_atomics_enabled_processors = s.system_wide_atomics_enabled_processors ∧
  t.faultable_processors = s.faultable_processors ∧
  t.enabled_peers = s.enabled_peers

/-- The bits of the unordered pair `(a, b)` set in a matrix when the condition holds. -/
def maybe_set_pair (c : Bool) (M : Nat → uvm_processor_mask_t) (a b : Nat) :
    Nat → uvm_processor_mask_t :=
  if c then set_pair M a b else M

/-- One bit of a matrix set when the condition holds. -/
def maybe_set (c : Bool) (M : Nat → uvm_processor_mask_t) (row col : Nat) :
    Nat → uvm_processor_mask_t :=
  if c then mask_array_set M row col else M

/-- Two address spaces that agree on the masks of registered, faultable and atomics-enabled
processors and, in every matrix, on the diagonal and on the row and the column of the host
(0 is the host id). -/
def same_cross (s t : uvm_va_space_t) : Prop :=
  t.registered_gpus = s.registered_gpus ∧
  t.faultable_processors = s.faultable_processors ∧
  t.system_wide_atomics_enabled_processors = s.system_wide_atomics_enabled_processors ∧
  ∀ x y, (x = y ∨ x = 0 ∨ y = 0) →
    t.can_access x y = s.can_access x y ∧
    t.accessible_from x y = s.accessible_from x y ∧
    t.can_copy_from x y = s.can_copy_from x y ∧
    t.has_nvlink x y = s.has_nvlink x y ∧
    t.indirect_peers x y = s.indirect_peers x y ∧
    t.has_native_atomics x y = s.has_native_atomics x y

/-! ## A small system to evaluate the definitions on -/

/-- Three kinds of device: device 1 has a first-generation direct link to host memory,
device 3 a second-generation one with NUMA enabled on node 7, every other device is on
PCIe.  The uuid of a device is its id; devices 1 and 2 are direct-link peers. -/
def sample_global : uvm_global_t where
  gpus := fun i =>
    { uuid := i
      sysmem_link :=
        if i = 1 then UVM_GPU_LINK_NVLINK_1
        else if i = 3 then UVM_GPU_LINK_NVLINK_2 else UVM_GPU_LINK_PCIE
      replayable_faults_handling := decide (i = 1)
      replayable_faults_supported := true
      numa_info_enabled := decide (i = 3)
      numa_info_node_id := 7
      closest_cpu_numa_node := -1
      peer_identity_mappings_supported := true }
  peers := fun i =>
    { link_type :=
        if i = uvm_gpu_peer_table_index 1 2 then UVM_GPU_LINK_NVLINK_1 else UVM_GPU_LINK_PCIE
      is_indirect_peer := false }
  ats_enabled := false

/-- The address space `uvm_va_space_create` returns when nothing fails. -/
def sample_created : uvm_va_space_t :=
  ((uvm_va_space_create true NV_OK NV_OK NV_OK).2).getD uvm_kvmalloc_zero

/-- The created address space after device 1 was registered. -/
def sample_one : uvm_va_space_t := (uvm_va_space_register_gpu sample_global sample_created 1).2.1

/-- The address space after devices 1 and 2 were registered: the two are direct-link peers,
so their pair was enabled by the registration of device 2. -/
def sample_two : uvm_va_space_t := (uvm_va_space_register_gpu sample_global sample_one 2).2.1

/-- The created address space after device 3 was registered. -/
def sample_three : uvm_va_space_t :=
  (uvm_va_space_register_gpu sample_global sample_created 3).2.1

/-- The address space with device 1 registered after the mm shutdown began. -/
def sample_shutdown : uvm_va_space_t := { sample_one with disallow_new_registers := true }

/-- The address space after devices 1 and 2 were registered and device 1 was unregistered
again, in the two parts of `uvm_va_space_unregister_gpu`. -/
def sample_unregistered : uvm_va_space_t :=
  (uvm_va_space_unregister_gpu_finish sample_global
    (uvm_va_space_unregister_gpu_begin sample_global sample_two 1).2.1 1).2.1

/-! ## The assertions of the peer enable -/

/-- The condition of the `UVM_ASSERT` of `enable_peers`, which is reached once both devices
were found registered: the pair is not enabled yet. -/
def enable_peers_assert (va_space : uvm_va_space_t) (gpu_1 gpu_2 : Nat) : Bool :=
  if !uvm_processor_mask_test va_space.registered_gpus gpu_1 ||
      !uvm_processor_mask_test va_space.registered_gpus gpu_2 then true
  else !test_bit (uvm_gpu_peer_table_index gpu_1 gpu_2) va_space.enabled_peers

/-- Whether the `UVM_ASSERT` of `enable_peers` holds at every call the loop of
`register_gpu_nvlink_peers` makes over the registered devices still to visit. -/
def register_gpu_nvlink_peers_loop_asserts (g : uvm_global_t) (gpu : Nat) :
    List Nat → uvm_va_space_t → Bool
  | [], _ => true
  | other_gpu :: rest, va_space =>
    if other_gpu = gpu then register_gpu_nvlink_peers_loop_asserts g gpu rest va_space
    else if (uvm_gpu_peer_caps g gpu other_gpu).link_type ≥ UVM_GPU_LINK_NVLINK_1 then
      let r := enable_peers g va_space gpu other_gpu
      enable_peers_assert va_space gpu other_gpu &&
        (if r.1 ≠ NV_OK then true
        else register_gpu_nvlink_peers_loop_asserts g gpu rest r.2)
    else register_gpu_nvlink_peers_loop_asserts g gpu rest va_space

/-- Whether the `UVM_ASSERT` of `enable_peers` holds at every call `register_gpu_nvlink_peers`
makes. -/
def register_gpu_nvlink_peers_asserts (g : uvm_global_t) (va_space : uvm_va_space_t)
    (gpu : Nat) : Bool :=
  register_gpu_nvlink_peers_loop_asserts g gpu
    (for_each_gpu_id_in_mask va_space.registered_gpus) va_space

/-! ## Updates that leave the other processors alone -/

/-- Two matrices that agree on the bits between processors other than one device. -/
def away (gpu : Nat) (M N : Nat → uvm_processor_mask_t) : Prop :=
  ∀ x y, x ≠ gpu → y ≠ gpu → N x y = M x y

/-- Two address spaces that agree away from one device: on the bits of other processors in
the masks of registered, faultable and atomics-enabled processors, on the bits of the six
matrices between other processors, and on the pairs that do not contain the device. -/
def same_away (gpu : Nat) (s t : uvm_va_space_t) : Prop :=
  (∀ i, i ≠ gpu → t.registered_gpus i = s.registered_gpus i ∧
    t.faultable_processors i = s.faultable_processors i ∧
    t.system_wide_atomics_enabled_processors i = s.system_wide_atomics_enabled_processors i) ∧
  away gpu s.can_access t.can_access ∧
  away gpu s.accessible_from t.accessible_from ∧
  away gpu s.can_copy_from t.can_copy_from ∧
  away gpu s.has_nvlink t.has_nvlink ∧
  away gpu s.indirect_peers t.indirect_peers ∧
  away gpu s.has_native_atomics t.has_native_atomics ∧
  ∀ i, (∀ p, 0 < p → p ≠ gpu → i ≠ uvm_gpu_peer_table_index gpu p) →
    t.enabled_peers i = s.enabled_peers i

/-- A system in which every two devices are direct-link peers: every device is on PCIe to
host memory and handles replayable faults, the uuid of a device is its id. -/
def sample_nvlink_global : uvm_global_t where
  gpus := fun i =>
    { uuid := i
      sysmem_link := UVM_GPU_LINK_PCIE
      replayable_faults_handling := true
      replayable_faults_supported := true
      numa_info_enabled := false
      numa_info_node_id := 0
      closest_cpu_numa_node := -1
      peer_identity_mappings_supported := true }
  peers := fun _ => { link_type := UVM_GPU_LINK_NVLINK_1, is_indirect_peer := false }
  ats_enabled := false

/-- A memory range that cannot map the peers 3 and 2 and has nothing to free. -/
def sample_picky_range : uvm_va_range_t where
  enable_peer := fun gpu_1 gpu_2 => if gpu_1 = 3 ∧ gpu_2 = 2 then NV_ERR_NO_MEMORY else NV_OK
  disable_peer := fun _ _ => []
  unregister_gpu := fun _ => []
  add_gpu_va_space := fun _ => NV_OK
  remove_gpu_va_space := fun _ => []
  destroy := []

/-- The address space of the all-peers system after devices 1 and 2 were registered and the
picky memory range was created. -/
def sample_nvlink_two : uvm_va_space_t :=
  { (uvm_va_space_register_gpu sample_nvlink_global
      (uvm_va_space_register_gpu sample_nvlink_global sample_created 1).2.1 2).2.1 with
    va_ranges := [sample_picky_range] }

/-! ## The assertions of the device unregistration -/

/-- The `UVM_ASSERT`s among the statements of `unregister_gpu_masks`, each evaluated where it
stands: the row of the device is empty in the matrix whose bits were just cleared. -/
def unregister_gpu_masks_asserts (g : uvm_global_t) (va_space : uvm_va_space_t) (gpu : Nat) :
    Bool :=
  let va_space :=
    if (g.gpus gpu).replayable_faults_handling then faultable_processors_clear va_space gpu
    else va_space
  let va_space := system_wide_atomics_enabled_processors_clear va_space gpu
  let va_space := can_access_clear va_space gpu gpu
  let va_space := can_access_clear va_space gpu UVM_CPU_ID
  let va_space := can_access_clear va_space UVM_CPU_ID gpu
  let assert_can_access := uvm_processor_mask_empty (va_space.can_access gpu)
  let va_space := accessible_from_clear va_space gpu gpu
  let va_space := accessible_from_clear va_space UVM_CPU_ID gpu
  let va_space := accessible_from_clear va_space gpu UVM_CPU_ID
  let assert_accessible_from := uvm_processor_mask_empty (va_space.accessible_from gpu)
  let va_space := can_copy_from_clear va_space gpu gpu
  let va_space := can_copy_from_clear va_space gpu UVM_CPU_ID
  let va_space := can_copy_from_clear va_space UVM_CPU_ID gpu
  let assert_can_copy_from := uvm_processor_mask_empty (va_space.can_copy_from gpu)
  let va_space := has_nvlink_clear va_space gpu UVM_CPU_ID
  let va_space := has_nvlink_clear va_space UVM_CPU_ID gpu
  let assert_has_nvlink := uvm_processor_mask_empty (va_space.has_nvlink gpu)
  let assert_indirect_peers := uvm_processor_mask_empty (va_space.indirect_peers gpu)
  let va_space := has_native_atomics_clear va_space gpu UVM_CPU_ID
  let va_space := has_native_atomics_clear va_space UVM_CPU_ID gpu
  let va_space := has_native_atomics_clear va_space gpu gpu
  let assert_has_native_atomics := uvm_processor_mask_empty (va_space.has_native_atomics gpu)
  assert_can_access && assert_accessible_from && assert_can_copy_from && assert_has_nvlink &&
    assert_indirect_peers && assert_has_native_atomics

/-- Whether the six `UVM_ASSERT`s of `unregister_gpu` that a row of the device is empty
hold. -/
def unregister_gpu_asserts (g : uvm_global_t) (va_space : uvm_va_space_t) (gpu : Nat)
    (deferred_free_list : List uvm_deferred_free_object_t) : Bool :=
  let r := remove_gpu_va_space va_space (uvm_gpu_va_space_get va_space gpu) deferred_free_list
  let va_space := r.1
  let deferred_free_list := r.2
  let deferred_free_list := deferred_free_list ++
    (va_space.va_ranges.flatMap fun va_range => va_range.unregister_gpu gpu).map
      uvm_deferred_free_object_t.external_allocation
  let r := unregister_gpu_peers_loop gpu (for_each_gpu_id_in_mask va_space.registered_gpus)
    va_space deferred_free_list uvm_processor_mask_zero
  unregister_gpu_masks_asserts g r.1 gpu

/-! ## Updates that leave the device VA contexts alone -/

/-- Two address spaces with the same device VA contexts: the mask of the devices with a
context, the array of the contexts, the objects and the counter of pending destructions are
equal. -/
def same_contexts (s t : uvm_va_space_t) : Prop :=
  t.registered_gpu_va_spaces = s.registered_gpu_va_spaces ∧
  t.gpu_va_spaces = s.gpu_va_spaces ∧
  t.gpu_va_space_mem = s.gpu_va_space_mem ∧
  t.num_pending = s.num_pending

/-- What the resource manager answers when nothing fails, for a context without ATS. -/
def sample_rm : rm_answers_t where
  alloc_ok := true
  dup_status := NV_OK
  atsEnabled := false
  bigPageSize := 65536
  mmu_mode_hal_ok := true
  page_tree_init_status := NV_OK
  set_page_directory_status := NV_OK
  ats_mm_retain_status := NV_OK
  ats_register_status := NV_OK

/-- The address space after devices 1 and 2 were registered and a device VA context was
registered for device 1. -/
def sample_two_context : uvm_va_space_t :=
  (uvm_va_space_register_gpu_va_space sample_global sample_two sample_rm 1).2

/-- Two address spaces with the same registered device VA contexts in the same states: the
mask of the devices with a context, the array of the contexts and the state of every object
are equal. -/
def same_context_states (s t : uvm_va_space_t) : Prop :=
  t.registered_gpu_va_spaces = s.registered_gpu_va_spaces ∧
  t.gpu_va_spaces = s.gpu_va_spaces ∧
  ∀ q, uvm_gpu_va_space_state t q = uvm_gpu_va_space_state s q

/-! ## Two concurrent device unregistrations -/

/-- Where a thread that runs `uvm_va_space_unregister_gpu` stands: before the first part,
between the two parts (the lock is dropped, the device is known), or returned with a
status. -/
inductive unregister_thread_t where
  | start
  | dropped (gpu : Nat)
  | returned (status : NV_STATUS)
  deriving DecidableEq, Repr

/-- One step of a thread that runs `uvm_va_space_unregister_gpu` for a uuid, from taking the
lock of the address space to dropping it: the first part of the function from `start`, the
second part from `dropped`.  A thread that returned takes no step.  (The draining of the
deferred free list, which follows the second part outside the lock, writes to the dead
objects and to the counter of pending destructions only, which the first part does not
read; it is kept with the second part.) -/
def unregister_thread_step (g : uvm_global_t) (gpu_uuid : Nat) (va_space : uvm_va_space_t)
    (thread : unregister_thread_t) : uvm_va_space_t × unregister_thread_t :=
  match thread with
  | unregister_thread_t.start =>
    let first := uvm_va_space_unregister_gpu_begin g va_space gpu_uuid
    match first.2.2 with
    | none => (first.2.1, unregister_thread_t.returned first.1)
    | some gpu => (first.2.1, unregister_thread_t.dropped gpu)
  | unregister_thread_t.dropped gpu =>
    let r := uvm_va_space_unregister_gpu_finish g va_space gpu
    (r.2.1, unregister_thread_t.returned r.1)
  | unregister_thread_t.returned status => (va_space, unregister_thread_t.returned status)

/-- An address space and two threads that run `uvm_va_space_unregister_gpu` on it, named
`false` and `true`. -/
structure unregister_race_t where
  va_space : uvm_va_space_t
  threads : Bool → unregister_thread_t

/-- The race before either thread took the lock. -/
def unregister_race_start (va_space : uvm_va_space_t) : unregister_race_t where
  va_space := va_space
  threads := fun _ => unregister_thread_t.start

/-- The thread `i` takes the lock of the address space and runs its next step. -/
def unregister_race_step (g : uvm_global_t) (gpu_uuid : Nat) (race : unregister_race_t)
    (i : Bool) : unregister_race_t :=
  let r := unregister_thread_step g gpu_uuid race.va_space (race.threads i)
  { va_space := r.1, threads := fun j => if j = i then r.2 else race.threads j }

/-- An interleaving of the two threads: the schedule names, step by step, the thread that
takes the lock next. -/
def unregister_race_run (g : uvm_global_t) (gpu_uuid : Nat) (race : unregister_race_t)
    (schedule : List Bool) : unregister_race_t :=
  schedule.foldl (unregister_race_step g gpu_uuid) race

/-- How far a thread is: the number of steps it took, at most two. -/
def unregister_thread_progress : unregister_thread_t → Nat
  | unregister_thread_t.start => 0
  | unregister_thread_t.dropped _ => 1
  | unregister_thread_t.returned _ => 2

/-- No registered device other than `gpu` has the uuid. -/
def uuid_names (g : uvm_global_t) (va_space : uvm_va_space_t) (gpu_uuid gpu : Nat) : Prop :=
  ∀ i ∈ for_each_gpu_id_in_mask va_space.registered_gpus, (g.gpus i).uuid = gpu_uuid → i = gpu

/-- The configurations of a race of two unregistrations of the device `gpu`: neither thread
began; one thread is between its parts while the other has not begun or was refused; one
thread returned `NV_OK` while the other has not begun; both returned, one with `NV_OK` and
one with `NV_ERR_INVALID_DEVICE`. -/
def unregister_race_inv (g : uvm_global_t) (gpu_uuid gpu : Nat) (race : unregister_race_t) :
    Prop :=
  ((∀ i, race.threads i = unregister_thread_t.start) ∧
    uvm_va_space_get_gpu_by_uuid g race.va_space gpu_uuid = some gpu ∧
    uuid_names g race.va_space gpu_uuid gpu ∧
    race.va_space.gpu_unregister_in_progress gpu = false) ∨
  (∃ w, race.threads w = unregister_thread_t.dropped gpu ∧
    (race.threads (!w) = unregister_thread_t.start ∨
      race.threads (!w) = unregister_thread_t.returned NV_ERR_INVALID_DEVICE) ∧
    uvm_va_space_get_gpu_by_uuid g race.va_space gpu_uuid = some gpu ∧
    uuid_names g race.va_space gpu_uuid gpu ∧
    race.va_space.gpu_unregister_in_progress gpu = true) ∨
  (∃ w, race.threads w = unregister_thread_t.returned NV_OK ∧
    race.threads (!w) = unregister_thread_t.start ∧
    uvm_va_space_get_gpu_by_uuid g race.va_space gpu_uuid = none) ∨
  (∃ w, race.threads w = unregister_thread_t.returned NV_OK ∧
    race.threads (!w) = unregister_thread_t.returned NV_ERR_INVALID_DEVICE)

/-- The created address space after the PCIe devices 2 and 4 were registered; the two are
not direct-link peers, so their pair is not enabled. -/
def sample_two_four : uvm_va_space_t :=
  (uvm_va_space_register_gpu sample_global
    (uvm_va_space_register_gpu sample_global sample_created 2).2.1 4).2.1

/-- The address space after the PCIe devices 2 and 4 were registered and a device VA context
was registered for each, with big pages of 64K on device 2 and of 128K on device 4. -/
def sample_mismatch : uvm_va_space_t :=
  (uvm_va_space_register_gpu_va_space sample_global
    (uvm_va_space_register_gpu_va_space sample_global sample_two_four sample_rm 2).2
    { sample_rm with bigPageSize := 131072 } 4).2

/-- A memory range that cannot map any peers and has nothing to free. -/
def sample_failing_range : uvm_va_range_t where
  enable_peer := fun _ _ => NV_ERR_NO_MEMORY
  disable_peer := fun _ _ => []
  unregister_gpu := fun _ => []
  add_gpu_va_space := fun _ => NV_OK
  remove_gpu_va_space := fun _ => []
  destroy := []

/-- The address space with the devices 2 and 4 after the failing memory range was
created. -/
def sample_two_four_ranged : uvm_va_space_t :=
  { sample_two_four with va_ranges := [sample_failing_range] }

/-! ## The call of `enable_peers` by the peer access entry point -/

/-- The order of the lifecycle states of a device VA context: INIT, then ACTIVE, then
DEAD. -/
def uvm_gpu_va_space_state_rank : uvm_gpu_va_space_state_t → Nat
  | UVM_GPU_VA_SPACE_STATE_INIT => 0
  | UVM_GPU_VA_SPACE_STATE_ACTIVE => 1
  | UVM_GPU_VA_SPACE_STATE_DEAD => 2

/-- What holds of the device VA contexts of a reachable address space: a device with a
context is registered; its entry in `gpu_va_spaces` is an ACTIVE context of the device; an
ACTIVE context is the entry of its device; a device without a context has a null entry; the
memory not yet allocated holds objects in the INIT state; the registered contexts have the
same ATS setting; and a freed object is not ACTIVE. -/
structure CtxInv (s : uvm_va_space_t) : Prop where
  registered : ∀ i, s.registered_gpu_va_spaces i = true → s.registered_gpus i = true
  slot : ∀ i, s.registered_gpu_va_spaces i = true →
    ∃ p, s.gpu_va_spaces (uvm_gpu_index i) = some p ∧ (s.gpu_va_space_mem p).gpu = i ∧
      (s.gpu_va_space_mem p).state = UVM_GPU_VA_SPACE_STATE_ACTIVE
  active : ∀ p, (s.gpu_va_space_mem p).state = UVM_GPU_VA_SPACE_STATE_ACTIVE →
    s.registered_gpu_va_spaces (s.gpu_va_space_mem p).gpu = true ∧
    s.gpu_va_spaces (uvm_gpu_index (s.gpu_va_space_mem p).gpu) = some p
  empty : ∀ i, 0 < i → s.registered_gpu_va_spaces i = false →
    s.gpu_va_spaces (uvm_gpu_index i) = none
  fresh : ∀ p, s.gpu_va_space_next ≤ p →
    (s.gpu_va_space_mem p).state = UVM_GPU_VA_SPACE_STATE_INIT
  ats : ∀ i j p q, s.registered_gpu_va_spaces i = true → s.registered_gpu_va_spaces j = true →
    s.gpu_va_spaces (uvm_gpu_index i) = some p → s.gpu_va_spaces (uvm_gpu_index j) = some q →
    (s.gpu_va_space_mem p).ats_enabled = (s.gpu_va_space_mem q).ats_enabled
  freed : ∀ p, (s.gpu_va_space_mem p).freed = true →
    (s.gpu_va_space_mem p).state ≠ UVM_GPU_VA_SPACE_STATE_ACTIVE

/-- Two address spaces with the same device VA contexts and the same allocations: the mask
of the devices with a context, the array of the contexts, the objects, the next address and
the counter of pending destructions are equal. -/
def ctx_frame (s t : uvm_va_space_t) : Prop :=
  t.registered_gpu_va_spaces = s.registered_gpu_va_spaces ∧
  t.gpu_va_spaces = s.gpu_va_spaces ∧
  t.gpu_va_space_mem = s.gpu_va_space_mem ∧
  t.gpu_va_space_next = s.gpu_va_space_next ∧
  t.num_pending = s.num_pending

/-- The lifecycle state of no object of the second address space is behind its state in
the first. -/
def states_forward (s t : uvm_va_space_t) : Prop :=
  ∀ p, uvm_gpu_va_space_state_rank (uvm_gpu_va_space_state s p) ≤
    uvm_gpu_va_space_state_rank (uvm_gpu_va_space_state t p)

/-- One operation on an address space: what the entry points of the file, in one or in two
parts, the other files (which change the memory ranges) and the mm shutdown do to it. -/
inductive Step (g : uvm_global_t) : uvm_va_space_t → uvm_va_space_t → Prop
  | register_gpu (va_space : uvm_va_space_t) (gpu_uuid : Nat) :
      Step g va_space (uvm_va_space_register_gpu g va_space gpu_uuid).2.1
  | unregister_gpu_begin (va_space : uvm_va_space_t) (gpu_uuid : Nat) :
      Step g va_space (uvm_va_space_unregister_gpu_begin g va_space gpu_uuid).2.1
  | unregister_gpu_finish (va_space : uvm_va_space_t) (gpu : Nat)
      (hguard : uvm_processor_mask_test va_space.gpu_unregister_in_progress gpu = true) :
      Step g va_space (uvm_va_space_unregister_gpu_finish g va_space gpu).2.1
  | enable_peer_access (va_space : uvm_va_space_t) (gpuUuidA gpuUuidB : Nat)
      (retain_pcie_status : NV_STATUS) :
      Step g va_space
        (uvm_api_enable_peer_access g va_space gpuUuidA gpuUuidB retain_pcie_status).2
  | disable_peer_access (va_space : uvm_va_space_t) (gpuUuidA gpuUuidB : Nat) :
      Step g va_space (uvm_api_disable_peer_access g va_space gpuUuidA gpuUuidB).2
  | test_enable_nvlink_peer_access (va_space : uvm_va_space_t) (gpuUuidA gpuUuidB : Nat) :
      Step g va_space (uvm8_test_enable_nvlink_peer_access g va_space gpuUuidA gpuUuidB).2
  | test_disable_nvlink_peer_access (va_space : uvm_va_space_t) (gpuUuidA gpuUuidB : Nat) :
      Step g va_space (uvm8_test_disable_nvlink_peer_access g va_space gpuUuidA gpuUuidB).2
  | register_gpu_va_space (va_space : uvm_va_space_t) (rm : rm_answers_t) (gpu_uuid : Nat) :
      Step g va_space (uvm_va_space_register_gpu_va_space g va_space rm gpu_uuid).2
  | unregister_gpu_va_space_begin (va_space : uvm_va_space_t) (gpu_uuid : Nat) :
      Step g va_space (uvm_va_space_unregister_gpu_va_space_begin g va_space gpu_uuid).2.1
  | unregister_gpu_va_space_finish (va_space : uvm_va_space_t) (gpu_va_space : Nat)
      (hptr : gpu_va_space < va_space.gpu_va_space_next) :
      Step g va_space (uvm_va_space_unregister_gpu_va_space_finish va_space gpu_va_space).2
  | va_ranges_change (va_space : uvm_va_space_t) (va_ranges : List uvm_va_range_t) :
      Step g va_space { va_space with va_ranges := va_ranges }
  | mm_shutdown (va_space : uvm_va_space_t) :
      Step g va_space { va_space with disallow_new_registers := true }

/-- Two address spaces whose device VA contexts differ in bookkeeping only: the mask of the
devices with a context, the array of the contexts, the next address and the registered
devices are equal, every object has the same device, state, ATS setting, big page size and
back pointer, and an object freed in between is not ACTIVE. -/
def same_context_keys (s t : uvm_va_space_t) : Prop :=
  t.registered_gpu_va_spaces = s.registered_gpu_va_spaces ∧
  t.gpu_va_spaces = s.gpu_va_spaces ∧
  t.gpu_va_space_next = s.gpu_va_space_next ∧
  t.registered_gpus = s.registered_gpus ∧
  ∀ q, (t.gpu_va_space_mem q).gpu = (s.gpu_va_space_mem q).gpu ∧
    (t.gpu_va_space_mem q).state = (s.gpu_va_space_mem q).state ∧
    (t.gpu_va_space_mem q).ats_enabled = (s.gpu_va_space_mem q).ats_enabled ∧
    (t.gpu_va_space_mem q).big_page_size = (s.gpu_va_space_mem q).big_page_size ∧
    (t.gpu_va_space_mem q).va_space = (s.gpu_va_space_mem q).va_space ∧
    ((t.gpu_va_space_mem q).freed = true → (s.gpu_va_space_mem q).freed = true ∨
      (s.gpu_va_space_mem q).state ≠ UVM_GPU_VA_SPACE_STATE_ACTIVE)

/-- Two address spaces with the same registered device VA contexts and the same objects
away from one address: the mask of the devices with a context, the array of the contexts and
the counter of pending destructions are equal, and so is every object at another address. -/
def same_contexts_but (p : Nat) (s t : uvm_va_space_t) : Prop :=
  t.registered_gpu_va_spaces = s.registered_gpu_va_spaces ∧
  t.gpu_va_spaces = s.gpu_va_spaces ∧
  t.num_pending = s.num_pending ∧
  ∀ q, q ≠ p → t.gpu_va_space_mem q = s.gpu_va_space_mem q

/-- A memory range that no device VA context can be added to, and that has nothing to
free. -/
def sample_unmappable_range : uvm_va_range_t where
  enable_peer := fun _ _ => NV_OK
  disable_peer := fun _ _ => []
  unregister_gpu := fun _ => []
  add_gpu_va_space := fun _ => NV_ERR_NO_MEMORY
  remove_gpu_va_space := fun _ => []
  destroy := []

/-- The address space with the devices 1 and 2 after the range that no context can be added
to was created. -/
def sample_two_unmappable : uvm_va_space_t :=
  { sample_two with va_ranges := [sample_unmappable_range] }

/-! ## The closest processor -/

/-- Modelled from the spec: `uvm_processor_mask_and(dst, a, b)` writes the ids in both masks
to `dst` and returns whether there is one; this is the mask, and the value returned is
`!uvm_processor_mask_empty` of it. -/
def uvm_processor_mask_and (a b : uvm_processor_mask_t) : uvm_processor_mask_t :=
  fun i => a i && b i

/-- Modelled from the spec: `uvm_processor_mask_andnot(dst, a, b)` writes the ids of `a` that
are not in `b` to `dst` and returns whether there is one; this is the mask. -/
def uvm_processor_mask_andnot (a b : uvm_processor_mask_t) : uvm_processor_mask_t :=
  fun i => a i && !b i

/-- Modelled from the spec: `uvm_processor_mask_find_next_id(mask, min_id)`, the lowest id
of the mask that is at least `min_id`, `UVM_MAX_PROCESSORS` when there is none. -/
def uvm_processor_mask_find_next_id (mask : uvm_processor_mask_t) (min_id : Nat) : Nat :=
  ((List.range UVM_MAX_PROCESSORS).find? fun i => decide (min_id ≤ i) && mask i).getD
    UVM_MAX_PROCESSORS

/-- Modelled from the spec: `uvm_processor_mask_find_first_id(mask)`, the lowest id of the
mask, `UVM_MAX_PROCESSORS` when the mask is empty. -/
def uvm_processor_mask_find_first_id (mask : uvm_processor_mask_t) : Nat :=
  uvm_processor_mask_find_next_id mask 0

/-- The function `uvm_processor_mask_find_closest_id`. -/
def uvm_processor_mask_find_closest_id (va_space : uvm_va_space_t)
    (candidates : uvm_processor_mask_t) (src : Nat) : Nat :=
  -- Highest priority: the local processor itself
  if uvm_processor_mask_test candidates src then src
  else
    -- NVLINK peers. Prefer direct peers over indirect peers
    let mask := uvm_processor_mask_and candidates (va_space.has_nvlink src)
    let mask := uvm_processor_mask_andnot mask (va_space.indirect_peers src)
    if !uvm_processor_mask_empty mask then uvm_processor_mask_find_first_id mask
    else
      let mask := uvm_processor_mask_and candidates (va_space.has_nvlink src)
      if !uvm_processor_mask_empty mask then uvm_processor_mask_find_first_id mask
      else
        -- PCIe peers
        let id :=
          if src ≠ UVM_CPU_ID then
            uvm_processor_mask_find_next_id
              (uvm_processor_mask_and candidates (va_space.can_access src)) (UVM_CPU_ID + 1)
          else UVM_MAX_PROCESSORS
        if src ≠ UVM_CPU_ID ∧ id ≠ UVM_MAX_PROCESSORS then id
        -- No GPUs with direct access are in the mask. Prioritize the CPU next since
        -- we always have direct access to it. Then if all else fails, just pick the
        -- next available processor.
        else uvm_processor_mask_find_first_id candidates

/-! ## The task scheduler of `drivers/async.c`

The second source file is a scheduler of init calls with dependencies.  Its state is the
static `tasks`; the arrays of the structure are functions of the index, and an access at an
index that is not below `MAX_TASKS` is a fault.  The fields are `unsigned`: a decrement wraps
around at zero. -/

/-- The constant `MAX_TASKS`. -/
def MAX_TASKS : Nat := 200

/-- The greatest value of an `unsigned`. -/
def UINT_MAX : Nat := 4294967295

/-- The decrement `--x` of an `unsigned`. -/
def unsigned_dec (x : Nat) : Nat := (x + UINT_MAX) % (UINT_MAX + 1)

/-- How a function of the scheduler may fail to return: by an access outside an array of
`MAX_TASKS` elements, or by a loop that is still running when the fuel is used up. -/
inductive async_fault_t where
  | out_of_bounds
  | out_of_fuel
  deriving DecidableEq, Repr

/-- The fields of `struct task_t` the scheduler reads and writes (the init function `fnc` is
only called). -/
structure task_t where
  /-- The field `type`, the number of the enumerator. -/
  type : Nat
  /-- The field `id`. -/
  id : Nat
  /-- The field `waiting_for`. -/
  waiting_for : Nat
  /-- The field `waiting_count`. -/
  waiting_count : Nat
  /-- The field `child_count`. -/
  child_count : Nat

/-- The structure `struct task_list_t`. -/
structure task_list_t where
  /-- The field `waiting_last`. -/
  waiting_last : Nat
  /-- The field `ready_last`. -/
  ready_last : Nat
  /-- The field `running_last`. -/
  running_last : Nat
  /-- The field `last`. -/
  last : Nat
  /-- The array `idx_list`. -/
  idx_list : Nat → Nat
  /-- The field `task_end`. -/
  task_end : Nat
  /-- The field `task_left`. -/
  task_left : Nat
  /-- The array `all`. -/
  all : Nat → task_t

/-- The assignment `tasks.idx_list[i] = v`. -/
def idx_list_store (tasks : task_list_t) (i v : Nat) : task_list_t :=
  { tasks with idx_list := fun k => if k = i then v else tasks.idx_list k }

/-- The first loop of `Prepare`, over the indices `idx` still to visit: the tasks of the type
are appended to `idx_list`. -/
def Prepare_select (type : Nat) :
    List Nat → task_list_t → Except async_fault_t task_list_t
  | [], tasks => Except.ok tasks
  | idx :: rest, tasks =>
    if MAX_TASKS ≤ idx then Except.error async_fault_t.out_of_bounds
    else if (tasks.all idx).type = type then
      if MAX_TASKS ≤ tasks.last then Except.error async_fault_t.out_of_bounds
      else
        let tasks := idx_list_store tasks tasks.last idx
        Prepare_select type rest { tasks with last := tasks.last + 1 }
    else Prepare_select type rest tasks

/-- The loop `while (tasks.all[tasks.idx_list[idx2]].waiting_count != 0) ++idx2;` of
`Prepare`, which has no bound of its own.  Returns the value of `idx2` after the loop. -/
def Prepare_jump (tasks : task_list_t) : Nat → Nat → Except async_fault_t Nat
  | 0, _ => Except.error async_fault_t.out_of_fuel
  | fuel + 1, idx2 =>
    if MAX_TASKS ≤ idx2 then Except.error async_fault_t.out_of_bounds
    else if MAX_TASKS ≤ tasks.idx_list idx2 then Except.error async_fault_t.out_of_bounds
    else if (tasks.all (tasks.idx_list idx2)).waiting_count ≠ 0 then
      Prepare_jump tasks fuel (idx2 + 1)
    else Except.ok idx2

/-- The last loop of `Prepare`, over the positions `idx` still to visit: an entry whose task
waits is exchanged with the entry at `idx2`. -/
def Prepare_move :
    List Nat → task_list_t → Nat → Except async_fault_t (task_list_t × Nat)
  | [], tasks, idx2 => Except.ok (tasks, idx2)
  | idx :: rest, tasks, idx2 =>
    if MAX_TASKS ≤ idx then Except.error async_fault_t.out_of_bounds
    else if MAX_TASKS ≤ tasks.idx_list idx then Except.error async_fault_t.out_of_bounds
    else if (tasks.all (tasks.idx_list idx)).waiting_count ≠ 0 then
      -- move waiting task to front
      if MAX_TASKS ≤ idx2 then Except.error async_fault_t.out_of_bounds
      else
        let id := tasks.idx_list idx2
        let tasks := idx_list_store tasks idx2 (tasks.idx_list idx)
        let tasks := idx_list_store tasks idx id
        Prepare_move rest tasks (idx2 + 1)
    else Prepare_move rest tasks idx2

/-- The function `Prepare`.  The loop without a bound leaves the array after at most
`MAX_TASKS` steps, so the fuel it gets is never used up. -/
def Prepare (tasks : task_list_t) (type : Nat) : Except async_fault_t task_list_t :=
  -- Pick only task of type from all task
  let tasks := { tasks with last := 0 }
  match Prepare_select type (List.range tasks.task_end) tasks with
  | Except.error e => Except.error e
  | Except.ok tasks =>
    let tasks := { tasks with ready_last := tasks.last }
    let tasks := { tasks with waiting_last := tasks.last }
    let tasks := { tasks with running_last := tasks.last }
    -- jump waiting task
    match Prepare_jump tasks (MAX_TASKS + 1) 0 with
    | Except.error e => Except.error e
    | Except.ok idx2 =>
      match Prepare_move (List.range' (idx2 + 1) (tasks.task_end - (idx2 + 1))) tasks idx2 with
      | Except.error e => Except.error e
      | Except.ok r => Except.ok { r.1 with waiting_last := r.2 }

/-- The loop of `TaskDone` that moves the finished task to the done entries, over the
positions `i` still to visit; it ends at the first entry that holds the task. -/
def TaskDone_remove (task_idx : Nat) :
    List Nat → task_list_t → Except async_fault_t task_list_t
  | [], tasks => Except.ok tasks
  | i :: rest, tasks =>
    if MAX_TASKS ≤ i then Except.error async_fault_t.out_of_bounds
    else if tasks.idx_list i = task_idx then
      -- bring down a task to do
      let tasks := { tasks with running_last := unsigned_dec tasks.running_last }
      if MAX_TASKS ≤ tasks.running_last then Except.error async_fault_t.out_of_bounds
      else Except.ok (idx_list_store tasks i (tasks.idx_list tasks.running_last))
    else TaskDone_remove task_idx rest tasks

/-- The loop `for (i = 0; i < tasks.waiting_last; ++i)` inside the loop of `TaskDone` over
the children, over the positions `i` still to visit: where the task of the entry `i` waits
for the finished task, `tasks.all[i].waiting_for` is zeroed. -/
def TaskDone_release_pass (task_idx : Nat) :
    List Nat → task_list_t → Except async_fault_t task_list_t
  | [], tasks => Except.ok tasks
  | i :: rest, tasks =>
    if MAX_TASKS ≤ i then Except.error async_fault_t.out_of_bounds
    else if MAX_TASKS ≤ tasks.idx_list i then Except.error async_fault_t.out_of_bounds
    else if (tasks.all (tasks.idx_list i)).waiting_for = task_idx then
      -- move to ready
      TaskDone_release_pass task_idx rest
        { tasks with
          all := fun k => if k = i then { tasks.all i with waiting_for := 0 } else tasks.all k }
    else TaskDone_release_pass task_idx rest tasks

/-- The loop `while (tasks.all[task_idx].child_count != 0)` of `TaskDone`; every round of
the loop takes one unit of fuel. -/
def TaskDone_release (task_idx : Nat) : Nat → task_list_t → Except async_fault_t task_list_t
  | fuel, tasks =>
    if MAX_TASKS ≤ task_idx then Except.error async_fault_t.out_of_bounds
    else if (tasks.all task_idx).child_count ≠ 0 then
      match fuel with
      | 0 => Except.error async_fault_t.out_of_fuel
      | fuel + 1 =>
        -- release all task that depends on the finished one
        match TaskDone_release_pass task_idx (List.range tasks.waiting_last) tasks with
        | Except.error e => Except.error e
        | Except.ok tasks => TaskDone_release task_idx fuel tasks
    else Except.ok tasks

/-- The loop of `TaskDone` that finds the lowest task among the ready entries, over the
positions `i` still to visit.  Returns `task_idx` and `j`. -/
def TaskDone_lowest (tasks : task_list_t) :
    List Nat → Nat → Nat → Except async_fault_t (Nat × Nat)
  | [], task_idx, j => Except.ok (task_idx, j)
  | i :: rest, task_idx, j =>
    if MAX_TASKS ≤ i then Except.error async_fault_t.out_of_bounds
    else if tasks.idx_list i < task_idx then TaskDone_lowest tasks rest (tasks.idx_list i) i
    else TaskDone_lowest tasks rest task_idx j

/-- The last part of `TaskDone`, which picks a new task.  Returns the task and the list. -/
def TaskDone_pick (tasks : task_list_t) : Except async_fault_t (Nat × task_list_t) :=
  let task_idx := tasks.task_end
  if tasks.waiting_last ≠ tasks.ready_last then
    -- find the lower id task available
    match TaskDone_lowest tasks
        (List.range' tasks.waiting_last (tasks.ready_last - tasks.waiting_last)) task_idx 0 with
    | Except.error e => Except.error e
    | Except.ok (task_idx, j) =>
      let tasks := { tasks with waiting_last := unsigned_dec tasks.waiting_last }
      if MAX_TASKS ≤ j ∨ MAX_TASKS ≤ tasks.waiting_last then
        Except.error async_fault_t.out_of_bounds
      else
        let tasks := idx_list_store tasks j (tasks.idx_list tasks.waiting_last)
        let tasks := idx_list_store tasks tasks.waiting_last task_idx
        Except.ok (task_idx, tasks)
  else Except.ok (task_idx, tasks)

/-- The function `TaskDone`.  Returns the value returned and the list.  (The lock and the
wake-up of the other threads are left out.) -/
def TaskDone (fuel : Nat) (tasks : task_list_t) (task_idx : Nat) :
    Except async_fault_t (Nat × task_list_t) :=
  if tasks.running_last = 0 then Except.ok (0, tasks)
  else
    let done : Except async_fault_t task_list_t :=
      if task_idx < tasks.task_end then
        let tasks := { tasks with task_left := unsigned_dec tasks.task_left }
        -- move to done list
        match TaskDone_remove task_idx
            (List.range' tasks.ready_last (tasks.running_last - tasks.ready_last)) tasks with
        | Except.error e => Except.error e
        | Except.ok tasks => TaskDone_release task_idx fuel tasks
      else Except.ok tasks
    match done with
    | Except.error e => Except.error e
    | Except.ok tasks =>
      -- check if not running task and not pending one
      let tasks :=
        if tasks.running_last = tasks.waiting_last then { tasks with waiting_last := 0 }
        else tasks
      -- pick a new task
      TaskDone_pick tasks

/-- One round of the loop of `WorkingThread` up to the call of the init function: the task
whose init function the thread calls, `none` when the thread waits instead. -/
def WorkingThread_round (fuel : Nat) (tasks : task_list_t) (task_idx : Nat) :
    Except async_fault_t (Option Nat × task_list_t) :=
  match TaskDone fuel tasks task_idx with
  | Except.error e => Except.error e
  | Except.ok r =>
    if r.1 ≠ r.2.task_end then Except.ok (some r.1, r.2) else Except.ok (none, r.2)

/-- A task of a type, with the counters `FillTasks` starts every task with. -/
def sample_task (type waiting_count child_count : Nat) : task_t :=
  { type := type, id := 0, waiting_for := 0, waiting_count := waiting_count,
    child_count := child_count }

/-- Two tasks in a zeroed `tasks`: task 0 of type 1 that waits, task 1 of type 0 that does
not wait. -/
def sample_tasks : task_list_t :=
  { waiting_last := 0, ready_last := 0, running_last := 0, last := 0,
    idx_list := fun _ => 0, task_end := 2, task_left := 2,
    all := fun i => if i = 0 then sample_task 1 1 0 else if i = 1 then sample_task 0 0 0
      else sample_task 0 0 0 }

/-- Two tasks of type 0 as `FillTasks` leaves them in a zeroed `tasks`: the waiting count of
every task is one. -/
def sample_tasks_filled : task_list_t :=
  { waiting_last := 0, ready_last := 0, running_last := 0, last := 0,
    idx_list := fun _ => 0, task_end := 2, task_left := 2,
    all := fun i => if i < 2 then sample_task 0 1 0 else sample_task 0 0 0 }

/-- One running task with a child: task 0 runs (entry 0 of `idx_list`), task 1 waits for it
(no entry is waiting or ready in the list yet). -/
def sample_tasks_running : task_list_t :=
  { waiting_last := 0, ready_last := 0, running_last := 1, last := 1,
    idx_list := fun _ => 0, task_end := 2, task_left := 2,
    all := fun i => if i = 0 then sample_task 0 0 1 else sample_task 0 1 0 }

/-- One task of type 0 that does not wait, in a zeroed `tasks`. -/
def sample_tasks_single : task_list_t :=
  { waiting_last := 0, ready_last := 0, running_last := 0, last := 0,
    idx_list := fun _ => 0, task_end := 1, task_left := 1,
    all := fun _ => sample_task 0 0 0 }

/-! ## The invariant of the big page sizes -/

/-- The big page sizes of peers agree: two devices whose pair is enabled and which both have
a context registered have contexts with the same big page size. -/
def BigPageInv (s : uvm_va_space_t) : Prop :=
  ∀ a b p q, a ≠ b →
    test_bit (uvm_gpu_peer_table_index a b) s.enabled_peers = true →
    uvm_gpu_va_space_get s a = some p → uvm_gpu_va_space_get s b = some q →
    (s.gpu_va_space_mem p).big_page_size = (s.gpu_va_space_mem q).big_page_size

/-- The second address space has no enabled pair and no registered context that the first
does not have, and the contexts kept their big page sizes. -/
def big_page_shrink (s t : uvm_va_space_t) : Prop :=
  (∀ i, t.enabled_peers i = true → s.enabled_peers i = true) ∧
  ∀ a p, uvm_gpu_va_space_get t a = some p →
    uvm_gpu_va_space_get s a = some p ∧
    (t.gpu_va_space_mem p).big_page_size = (s.gpu_va_space_mem p).big_page_size

/-- The address space `sample_two_context` after a context was registered for device 2 as
well: the two devices are direct-link peers and both have a context with big pages of 64K. -/
def sample_two_contexts : uvm_va_space_t :=
  (uvm_va_space_register_gpu_va_space sample_global sample_two_context sample_rm 2).2

/-! ## The counter of the pending destructions -/

/-- Whether a context was moved to DEAD and is not destroyed yet: `destroy_gpu_va_space`
has not released its RM handle. -/
def gpu_va_space_pending (va_space : uvm_va_space_t) (gpu_va_space : Nat) : Bool :=
  decide ((va_space.gpu_va_space_mem gpu_va_space).state = UVM_GPU_VA_SPACE_STATE_DEAD) &&
    decide ((va_space.gpu_va_space_mem gpu_va_space).address_space_destroy_calls = 0)

/-- The number of the contexts that were moved to DEAD and are not destroyed yet. -/
def num_pending_contexts (va_space : uvm_va_space_t) : Nat :=
  (List.range va_space.gpu_va_space_next).countP (gpu_va_space_pending va_space)

/-- The assertions of `destroy_gpu_va_space`: the state of the context is INIT or DEAD, and
for a DEAD context the decremented counter of pending destructions is zero or positive. -/
def destroy_gpu_va_space_asserts (va_space : uvm_va_space_t) (gpu_va_space : Option Nat) :
    Bool :=
  match gpu_va_space with
  | none => true
  | some ptr =>
    let state := uvm_gpu_va_space_state va_space ptr
    (decide (state = UVM_GPU_VA_SPACE_STATE_INIT) ||
        decide (state = UVM_GPU_VA_SPACE_STATE_DEAD)) &&
      (if state = UVM_GPU_VA_SPACE_STATE_DEAD then
        let num_pending := va_space.num_pending - 1
        decide (num_pending = 0) || decide (num_pending > 0)
      else true)

/-- The assertions of `destroy_gpu_va_space` along `uvm_deferred_free_object_list`: whether
they hold for every context of the list at the time it is destroyed. -/
def uvm_deferred_free_object_list_asserts (va_space : uvm_va_space_t) :
    List uvm_deferred_free_object_t → Bool
  | [] => true
  | uvm_deferred_free_object_t.channel _ :: rest =>
    uvm_deferred_free_object_list_asserts va_space rest
  | uvm_deferred_free_object_t.gpu_va_space ptr :: rest =>
    destroy_gpu_va_space_asserts va_space (some ptr) &&
      uvm_deferred_free_object_list_asserts (destroy_gpu_va_space va_space (some ptr)) rest
  | uvm_deferred_free_object_t.external_allocation _ :: rest =>
    uvm_deferred_free_object_list_asserts va_space rest

/-- The contexts of a deferred free list. -/
def deferred_contexts : List uvm_deferred_free_object_t → List Nat
  | [] => []
  | uvm_deferred_free_object_t.gpu_va_space ptr :: rest => ptr :: deferred_contexts rest
  | _ :: rest => deferred_contexts rest

/-- The invariant of the pending destructions: the counter is the number of the contexts
moved to DEAD and not destroyed yet; an ACTIVE context holds its RM handle, which was never
destroyed; a DEAD context holds its RM handle; no object beyond the next address was
used. -/
structure PendingInv (s : uvm_va_space_t) : Prop where
  counter : s.num_pending = (num_pending_contexts s : Int)
  active : ∀ p, (s.gpu_va_space_mem p).state = UVM_GPU_VA_SPACE_STATE_ACTIVE →
    (s.gpu_va_space_mem p).duped_gpu_va_space = true ∧
    (s.gpu_va_space_mem p).address_space_destroy_calls = 0
  dead : ∀ p, (s.gpu_va_space_mem p).state = UVM_GPU_VA_SPACE_STATE_DEAD →
    (s.gpu_va_space_mem p).duped_gpu_va_space = true
  fresh : ∀ p, s.gpu_va_space_next ≤ p →
    (s.gpu_va_space_mem p).state = UVM_GPU_VA_SPACE_STATE_INIT

/-- Two address spaces with the same bookkeeping of the pending destructions: the counter and
the next address are equal, and every object has the same state, the same RM handle and the
same number of destructions of the handle. -/
def pending_frame (s t : uvm_va_space_t) : Prop :=
  t.num_pending = s.num_pending ∧
  t.gpu_va_space_next = s.gpu_va_space_next ∧
  ∀ q, (t.gpu_va_space_mem q).state = (s.gpu_va_space_mem q).state ∧
    (t.gpu_va_space_mem q).duped_gpu_va_space = (s.gpu_va_space_mem q).duped_gpu_va_space ∧
    (t.gpu_va_space_mem q).address_space_destroy_calls =
      (s.gpu_va_space_mem q).address_space_destroy_calls

/-! ## The invariant of the affinity array -/

/-- The entries of the affinity array are well formed: after a free entry (node -1) every
entry is free, a free entry has an empty mask, the node of a used entry is the node of no
later entry and is the closest node of some device. -/
def affinity_wf (g : uvm_global_t) : List uvm_cpu_gpu_affinity_t → Prop
  | [] => True
  | entry :: rest =>
    (entry.numa_node = -1 →
      (∀ i, entry.gpus i = false) ∧ ∀ x ∈ rest, x.numa_node = -1) ∧
    (entry.numa_node ≠ -1 →
      (∀ x ∈ rest, x.numa_node ≠ entry.numa_node) ∧
      ∃ i, 0 < i ∧ i < UVM_MAX_PROCESSORS ∧
        (g.gpus i).closest_cpu_numa_node = entry.numa_node) ∧
    affinity_wf g rest

/-- The invariant of the affinity array: it has `UVM_MAX_GPUS` entries, they are well formed,
and a device in the mask of an entry is registered and has the node of the entry as its
closest node. -/
structure AffinityInv (g : uvm_global_t) (s : uvm_va_space_t) : Prop where
  size : s.cpu_gpu_numa_affinity.length = UVM_MAX_GPUS
  wf : affinity_wf g s.cpu_gpu_numa_affinity
  bits : ∀ e ∈ s.cpu_gpu_numa_affinity, ∀ i, e.gpus i = true →
    s.registered_gpus i = true ∧ (g.gpus i).closest_cpu_numa_node = e.numa_node

/-- The second array keeps, entry by entry, every node of the first that is set. -/
def affinity_kept (l l' : List uvm_cpu_gpu_affinity_t) : Prop :=
  List.Forall₂ (fun e e' => e.numa_node ≠ -1 → e'.numa_node = e.numa_node) l l'

/-- The second array has, entry by entry, the nodes of the first and its masks but for one
device. -/
def affinity_but (gpu : Nat) (l l' : List uvm_cpu_gpu_affinity_t) : Prop :=
  List.Forall₂ (fun e e' => e'.numa_node = e.numa_node ∧
    ∀ i, i ≠ gpu → e'.gpus i = e.gpus i) l l'

/-- Two address spaces with the same affinity array and the same registered devices. -/
def affinity_frame (s t : uvm_va_space_t) : Prop :=
  t.cpu_gpu_numa_affinity = s.cpu_gpu_numa_affinity ∧ t.registered_gpus = s.registered_gpus

/-- The devices of `sample_global` with closest nodes: the devices 1 and 2 are closest to
node 5, every other device to node 6. -/
def sample_numa_global : uvm_global_t :=
  { sample_global with
    gpus := fun i =>
      { sample_global.gpus i with closest_cpu_numa_node := if i = 1 ∨ i = 2 then 5 else 6 } }

/-- The created address space after the devices 1, 4 and 2 of `sample_numa_global` were
registered, in this order. -/
def sample_numa_three : uvm_va_space_t :=
  (uvm_va_space_register_gpu sample_numa_global
    (uvm_va_space_register_gpu sample_numa_global
      (uvm_va_space_register_gpu sample_numa_global sample_created 1).2.1 4).2.1 2).2.1

/-! ## The destruction of the address space -/

/-- Modelled from the spec: `bitmap_copy(dst, src, nbits)`, the first `nbits` bits of `src`
copied to `dst`. -/
def bitmap_copy (dst src : bitmap_t) (nbits : Nat) : bitmap_t :=
  fun i => if i < nbits then src i else dst i

/-- The device ids a loop over a processor mask can come to, ascending.  A loop whose body
changes the mask it runs over (`for_each_va_space_gpu` in `uvm_va_space_destroy`, the loop
over `retained_gpus`) tests the bit of each id when it comes to it. -/
def uvm_gpu_ids : List Nat :=
  (List.range UVM_MAX_PROCESSORS).filter fun i => decide (UVM_CPU_ID < i)

/-- The function `uvm_va_space_stop_all_user_channels`: skipped when the channels have been
stopped already; stopping a channel is the work of another file. -/
def uvm_va_space_stop_all_user_channels (va_space : uvm_va_space_t) : uvm_va_space_t :=
  if va_space.user_channels_stopped then va_space
  else { va_space with user_channels_stopped := true }

/-- The loop of `uvm_va_space_detach_all_user_channels` over the devices with a context
still to visit: the channels of each context go to the deferred free list. -/
def uvm_va_space_detach_all_user_channels_loop :
    List Nat → uvm_va_space_t → List uvm_deferred_free_object_t →
      uvm_va_space_t × List uvm_deferred_free_object_t
  | [], va_space, deferred_free_list => (va_space, deferred_free_list)
  | gpu :: rest, va_space, deferred_free_list =>
    match uvm_gpu_va_space_get va_space gpu with
    | none => uvm_va_space_detach_all_user_channels_loop rest va_space deferred_free_list
    | some gpu_va_space =>
      let obj := va_space.gpu_va_space_mem gpu_va_space
      let deferred_free_list := deferred_free_list ++
        obj.registered_channels.map uvm_deferred_free_object_t.channel
      let va_space := gpu_va_space_store va_space gpu_va_space
        { obj with registered_channels := [] }
      uvm_va_space_detach_all_user_channels_loop rest va_space deferred_free_list

/-- The function `uvm_va_space_detach_all_user_channels`. -/
def uvm_va_space_detach_all_user_channels (va_space : uvm_va_space_t)
    (deferred_free_list : List uvm_deferred_free_object_t) :
    uvm_va_space_t × List uvm_deferred_free_object_t :=
  uvm_va_space_detach_all_user_channels_loop
    (for_each_gpu_id_in_mask va_space.registered_gpu_va_spaces) va_space deferred_free_list

/-- The loop of `uvm_va_space_destroy` that unregisters every device of the address space,
over the device ids still to come: a device whose bit is set in `registered_gpus` when the
loop comes to it is unregistered, with no mask of peers to release. -/
def uvm_va_space_destroy_unregister_loop (g : uvm_global_t) :
    List Nat → uvm_va_space_t → List uvm_deferred_free_object_t →
      uvm_va_space_t × List uvm_deferred_free_object_t
  | [], va_space, deferred_free_list => (va_space, deferred_free_list)
  | gpu :: rest, va_space, deferred_free_list =>
    if uvm_processor_mask_test va_space.registered_gpus gpu then
      let r := unregister_gpu g va_space gpu deferred_free_list
      uvm_va_space_destroy_unregister_loop g rest r.1 r.2.1
    else uvm_va_space_destroy_unregister_loop g rest va_space deferred_free_list

/-- The part of `uvm_va_space_destroy` up to the release of the lock of the address space:
the channels are stopped, the registered devices are copied to `retained_gpus` and the
enabled pairs to `enabled_peers_teardown`, the channels are detached, every memory range is
destroyed and every device unregistered.  Returns the address space, the deferred free list
and `retained_gpus`. -/
def uvm_va_space_destroy_locked (g : uvm_global_t) (va_space : uvm_va_space_t) :
    uvm_va_space_t × List uvm_deferred_free_object_t × uvm_processor_mask_t :=
  let deferred_free_list : List uvm_deferred_free_object_t := []
  -- Stop all channels before unmapping anything.
  let va_space := uvm_va_space_stop_all_user_channels va_space
  let retained_gpus := va_space.registered_gpus
  let va_space := { va_space with
    enabled_peers_teardown :=
      bitmap_copy va_space.enabled_peers_teardown va_space.enabled_peers
        UVM_MAX_UNIQUE_GPU_PAIRS }
  let r := uvm_va_space_detach_all_user_channels va_space deferred_free_list
  let va_space := r.1
  let deferred_free_list := r.2
  -- Destroy all VA ranges.
  let deferred_free_list := deferred_free_list ++
    (va_space.va_ranges.flatMap fun va_range => va_range.destroy).map
      uvm_deferred_free_object_t.external_allocation
  let va_space := { va_space with va_ranges := [] }
  -- Unregister all GPUs in the VA space. Note that this does not release the
  -- GPUs nor peers.
  let r := uvm_va_space_destroy_unregister_loop g uvm_gpu_ids va_space deferred_free_list
  (r.1, r.2, retained_gpus)

/-- What is left on the list after `uvm_deferred_free_object_list`: every object is taken
off the list before it is destroyed. -/
def uvm_deferred_free_object_list_left :
    List uvm_deferred_free_object_t → List uvm_deferred_free_object_t
  | [] => []
  | _ :: rest => uvm_deferred_free_object_list_left rest

/-- The inner loop of the release of `uvm_va_space_destroy`, over the retained peers still
to visit: the teardown bit of each pair with the device is cleared when it is set.  The
release of the PCIe peer count is the work of another file. -/
def uvm_va_space_destroy_release_peers (gpu_id : Nat) : List Nat → bitmap_t → bitmap_t
  | [], enabled_peers_teardown => enabled_peers_teardown
  | peer_gpu :: rest, enabled_peers_teardown =>
    let peer_table_index := uvm_gpu_peer_table_index gpu_id peer_gpu
    if test_bit peer_table_index enabled_peers_teardown then
      uvm_va_space_destroy_release_peers gpu_id rest
        (__clear_bit peer_table_index enabled_peers_teardown)
    else uvm_va_space_destroy_release_peers gpu_id rest enabled_peers_teardown

/-- The outer loop of the release of `uvm_va_space_destroy`, over the device ids still to
come: a device whose bit is set in `retained_gpus` when the loop comes to it leaves the mask,
and the teardown bits of its pairs with the devices left in the mask are cleared. -/
def uvm_va_space_destroy_release_loop :
    List Nat → uvm_processor_mask_t → uvm_va_space_t → uvm_va_space_t × uvm_processor_mask_t
  | [], retained_gpus, va_space => (va_space, retained_gpus)
  | gpu_id :: rest, retained_gpus, va_space =>
    if uvm_processor_mask_test retained_gpus gpu_id then
      let retained_gpus := uvm_processor_mask_clear retained_gpus gpu_id
      let va_space := { va_space with
        enabled_peers_teardown :=
          uvm_va_space_destroy_release_peers gpu_id (for_each_gpu_id_in_mask retained_gpus)
            va_space.enabled_peers_teardown }
      uvm_va_space_destroy_release_loop rest retained_gpus va_space
    else uvm_va_space_destroy_release_loop rest retained_gpus va_space

/-- The function `uvm_va_space_destroy`: after the part under the lock the deferred free
list is drained and the devices and the pairs of `enabled_peers_teardown` are released.
Returns the address space, what is left of the deferred free list, and `retained_gpus`. -/
def uvm_va_space_destroy (g : uvm_global_t) (va_space : uvm_va_space_t) :
    uvm_va_space_t × List uvm_deferred_free_object_t × uvm_processor_mask_t :=
  let r := uvm_va_space_destroy_locked g va_space
  let va_space := r.1
  let deferred_free_list := r.2.1
  let retained_gpus := r.2.2
  -- Perform cleanup we can't do while holding the VA space lock
  let va_space := uvm_deferred_free_object_list va_space deferred_free_list
  let deferred_free_list := uvm_deferred_free_object_list_left deferred_free_list
  -- Release the GPUs and their peer counts.
  let r := uvm_va_space_destroy_release_loop uvm_gpu_ids retained_gpus va_space
  (r.1, deferred_free_list, r.2)

/-- The emptiness assertions of `uvm_va_space_destroy`: after the lock is released no device
and no device VA context is registered and every affinity mask is empty; at the end no bit
of `enabled_peers` and none of `enabled_peers_teardown` is set. -/
def uvm_va_space_destroy_asserts (g : uvm_global_t) (va_space : uvm_va_space_t) : Bool :=
  let locked := (uvm_va_space_destroy_locked g va_space).1
  let done := (uvm_va_space_destroy g va_space).1
  uvm_processor_mask_empty locked.registered_gpus &&
  uvm_processor_mask_empty locked.registered_gpu_va_spaces &&
  (locked.cpu_gpu_numa_affinity.all fun entry => uvm_processor_mask_empty entry.gpus) &&
  bitmap_empty done.enabled_peers UVM_MAX_UNIQUE_GPU_PAIRS &&
  bitmap_empty done.enabled_peers_teardown UVM_MAX_UNIQUE_GPU_PAIRS

/-! ## The assertion of `enable_peers` on identity-mapped peer addressing -/

/-- The sample system with ATS support enabled in the driver. -/
def sample_ats_global : uvm_global_t := { sample_global with ats_enabled := true }

/-- The address space of that system after devices 1 and 2 were registered and a device VA
context without ATS was registered for device 1. -/
def sample_ats_two_context : uvm_va_space_t :=
  (uvm_va_space_register_gpu_va_space sample_ats_global
    (uvm_va_space_register_gpu sample_ats_global
      (uvm_va_space_register_gpu sample_ats_global sample_created 1).2.1 2).2.1 sample_rm 1).2

/-! ## Lemmas: the peer table index -/

theorem SUM_FROM_0_TO_N_succ (n : Nat) :
    SUM_FROM_0_TO_N (n + 1) = SUM_FROM_0_TO_N n + n := by
  unfold SUM_FROM_0_TO_N
  exact Nat.triangle_succ n

theorem SUM_FROM_0_TO_N_mono {m n : Nat} (h : m ≤ n) :
    SUM_FROM_0_TO_N m ≤ SUM_FROM_0_TO_N n := by
  induction h with
  | refl => exact Nat.le_refl _
  | step _ ih => rw [SUM_FROM_0_TO_N_succ]; omega

theorem triangular_index_inj {l1 h1 l2 h2 : Nat} (hl1 : l1 < h1) (hl2 : l2 < h2)
    (h : SUM_FROM_0_TO_N h1 + l1 = SUM_FROM_0_TO_N h2 + l2) : h1 = h2 ∧ l1 = l2 := by
  have key : h1 = h2 := by
    rcases Nat.lt_trichotomy h1 h2 with hlt | heq | hgt
    · have := SUM_FROM_0_TO_N_mono (Nat.succ_le_of_lt hlt)
      rw [SUM_FROM_0_TO_N_succ] at this
      omega
    · exact heq
    · have := SUM_FROM_0_TO_N_mono (Nat.succ_le_of_lt hgt)
      rw [SUM_FROM_0_TO_N_succ] at this
      omega
  subst key
  exact ⟨rfl, by omega⟩

theorem uvm_gpu_peer_table_index_comm (a b : Nat) :
    uvm_gpu_peer_table_index a b = uvm_gpu_peer_table_index b a := by
  unfold uvm_gpu_peer_table_index uvm_gpu_index
  simp only
  split_ifs with h1 h2 h2
  · omega
  · rfl
  · rfl
  · have : a - 1 = b - 1 := by omega
    rw [this]

theorem uvm_gpu_peer_table_index_inj {a b c d : Nat} (ha : 0 < a) (hb : 0 < b) (hc : 0 < c)
    (hd : 0 < d) (hab : a ≠ b) (hcd : c ≠ d)
    (h : uvm_gpu_peer_table_index a b = uvm_gpu_peer_table_index c d) :
    (a = c ∧ b = d) ∨ (a = d ∧ b = c) := by
  unfold uvm_gpu_peer_table_index uvm_gpu_index at h
  simp only at h
  split_ifs at h with h1 h2 h2
  · have := triangular_index_inj h1 h2 h; omega
  · have := triangular_index_inj h1 (show d - 1 < c - 1 by omega) h; omega
  · have := triangular_index_inj (show b - 1 < a - 1 by omega) h2 h; omega
  · have := triangular_index_inj (show b - 1 < a - 1 by omega) (show d - 1 < c - 1 by omega) h
    omega

/-! ## Lemmas: masks and matrices -/

theorem uvm_processor_mask_set_apply (m : uvm_processor_mask_t) (id i : Nat) :
    uvm_processor_mask_set m id i = if i = id then true else m i := rfl

theorem uvm_processor_mask_clear_apply (m : uvm_processor_mask_t) (id i : Nat) :
    uvm_processor_mask_clear m id i = if i = id then false else m i := rfl

theorem set_bit_apply (nr : Nat) (b : bitmap_t) (i : Nat) :
    __set_bit nr b i = if i = nr then true else b i := rfl

theorem clear_bit_apply (nr : Nat) (b : bitmap_t) (i : Nat) :
    __clear_bit nr b i = if i = nr then false else b i := rfl

theorem mask_array_set_apply (arr : Nat → uvm_processor_mask_t) (r c x y : Nat) :
    mask_array_set arr r c x y = if x = r ∧ y = c then true else arr x y := by
  unfold mask_array_set uvm_processor_mask_set
  by_cases h1 : x = r <;> by_cases h2 : y = c <;> simp [h1, h2]

theorem mask_array_clear_apply (arr : Nat → uvm_processor_mask_t) (r c x y : Nat) :
    mask_array_clear arr r c x y = if x = r ∧ y = c then false else arr x y := by
  unfold mask_array_clear uvm_processor_mask_clear
  by_cases h1 : x = r <;> by_cases h2 : y = c <;> simp [h1, h2]

theorem clear_pair_apply (M : Nat → uvm_processor_mask_t) (a b x y : Nat) :
    clear_pair M a b x y = if (x = a ∧ y = b) ∨ (x = b ∧ y = a) then false else M x y := by
  unfold clear_pair
  rw [mask_array_clear_apply, mask_array_clear_apply]
  by_cases h1 : x = a ∧ y = b <;> by_cases h2 : x = b ∧ y = a <;> simp [h1, h2]

theorem set_pair_apply (M : Nat → uvm_processor_mask_t) (a b x y : Nat) :
    set_pair M a b x y = if (x = a ∧ y = b) ∨ (x = b ∧ y = a) then true else M x y := by
  unfold set_pair
  rw [mask_array_set_apply, mask_array_set_apply]
  by_cases h1 : x = a ∧ y = b <;> by_cases h2 : x = b ∧ y = a <;> simp [h1, h2]

theorem mem_for_each_gpu_id_in_mask (m : uvm_processor_mask_t) (i : Nat) :
    i ∈ for_each_gpu_id_in_mask m ↔ 0 < i ∧ i < UVM_MAX_PROCESSORS ∧ m i = true := by
  unfold for_each_gpu_id_in_mask
  simp [List.mem_filter, List.mem_range]
  tauto

/-! ## Lemmas: what the four kinds of update do to the invariant of one matrix -/

theorem MatrixInv_clear_pair {en : bitmap_t} {reg : uvm_processor_mask_t}
    {M : Nat → uvm_processor_mask_t} {a b : Nat} (ha : 0 < a) (hb : 0 < b) (hab : a ≠ b)
    (h : MatrixInv en reg M) :
    MatrixInv (__clear_bit (uvm_gpu_peer_table_index a b) en) reg (clear_pair M a b) := by
  obtain ⟨hsym, hen, hreg⟩ := h
  refine ⟨?_, ?_, ?_⟩
  · intro x y hx hy hxy
    rw [clear_pair_apply, clear_pair_apply, hsym x y hx hy hxy]
    by_cases h1 : x = a ∧ y = b <;> by_cases h2 : x = b ∧ y = a <;>
        (simp [h1, h2]; try tauto)
  · intro x y hx hy hxy hM
    rw [clear_pair_apply] at hM
    split_ifs at hM with hc
    rw [clear_bit_apply]
    split_ifs with hi
    · exfalso
      rcases uvm_gpu_peer_table_index_inj hx hy ha hb hxy hab hi with h | h <;> tauto
    · exact hen x y hx hy hxy hM
  · intro x hx hM
    apply hreg x hx
    simp only [clear_pair_apply] at hM
    rcases hM with hM | hM | hM
    · left; split_ifs at hM; exact hM
    · right; left; split_ifs at hM; exact hM
    · right; right; split_ifs at hM; exact hM

theorem MatrixInv_set_pair {en : bitmap_t} {reg : uvm_processor_mask_t}
    {M M' : Nat → uvm_processor_mask_t} {a b : Nat} (ha : 0 < a) (hb : 0 < b) (hab : a ≠ b)
    (h : MatrixInv en reg M) (hM' : M' = M ∨ M' = set_pair M a b) :
    MatrixInv (__set_bit (uvm_gpu_peer_table_index a b) en) reg M' := by
  obtain ⟨hsym, hen, hreg⟩ := h
  rcases hM' with rfl | rfl
  · refine ⟨hsym, ?_, hreg⟩
    intro x y hx hy hxy hM
    rw [set_bit_apply]
    split_ifs
    · rfl
    · exact hen x y hx hy hxy hM
  · refine ⟨?_, ?_, ?_⟩
    · intro x y hx hy hxy
      rw [set_pair_apply, set_pair_apply, hsym x y hx hy hxy]
      by_cases h1 : x = a ∧ y = b <;> by_cases h2 : x = b ∧ y = a <;>
        (simp [h1, h2]; try tauto)
    · intro x y hx hy hxy hM
      rw [set_pair_apply] at hM
      rw [set_bit_apply]
      split_ifs with hi
      · rfl
      · split_ifs at hM with hc
        · exfalso
          apply hi
          rcases hc with ⟨rfl, rfl⟩ | ⟨rfl, rfl⟩
          · rfl
          · exact uvm_gpu_peer_table_index_comm _ _
        · exact hen x y hx hy hxy hM
    · intro x hx hM
      apply hreg x hx
      simp only [set_pair_apply] at hM
      rcases hM with hM | hM | hM
      · left; split_ifs at hM with hc
        · omega
        · exact hM
      · right; left; split_ifs at hM with hc
        · omega
        · exact hM
      · right; right; split_ifs at hM with hc
        · omega
        · exact hM

theorem MatrixInv_off_cross_set {en : bitmap_t} {reg : uvm_processor_mask_t}
    {M M' : Nat → uvm_processor_mask_t} {gpu : Nat} (hg : 0 < gpu) (h : MatrixInv en reg M)
    (hoff : ∀ x y, ¬ on_cross gpu x y → M' x y = M x y) :
    MatrixInv en (uvm_processor_mask_set reg gpu) M' := by
  obtain ⟨hsym, hen, hreg⟩ := h
  refine ⟨?_, ?_, ?_⟩
  · intro x y hx hy hxy
    rw [hoff x y (by unfold on_cross; omega), hoff y x (by unfold on_cross; omega)]
    exact hsym x y hx hy hxy
  · intro x y hx hy hxy hM
    rw [hoff x y (by unfold on_cross; omega)] at hM
    exact hen x y hx hy hxy hM
  · intro x hx hM
    rw [uvm_processor_mask_set_apply]
    split_ifs with hc
    · rfl
    · apply hreg x hx
      rw [hoff x x (by unfold on_cross; omega), hoff x 0 (by unfold on_cross; omega),
        hoff 0 x (by unfold on_cross; omega)] at hM
      exact hM

theorem MatrixInv_off_cross_clear {en : bitmap_t} {reg : uvm_processor_mask_t}
    {M M' : Nat → uvm_processor_mask_t} {gpu : Nat} (hg : 0 < gpu) (h : MatrixInv en reg M)
    (hoff : ∀ x y, ¬ on_cross gpu x y → M' x y = M x y)
    (hon : M' gpu gpu = false ∧ M' gpu 0 = false ∧ M' 0 gpu = false) :
    MatrixInv en (uvm_processor_mask_clear reg gpu) M' := by
  obtain ⟨hsym, hen, hreg⟩ := h
  refine ⟨?_, ?_, ?_⟩
  · intro x y hx hy hxy
    rw [hoff x y (by unfold on_cross; omega), hoff y x (by unfold on_cross; omega)]
    exact hsym x y hx hy hxy
  · intro x y hx hy hxy hM
    rw [hoff x y (by unfold on_cross; omega)] at hM
    exact hen x y hx hy hxy hM
  · intro x hx hM
    rw [uvm_processor_mask_clear_apply]
    split_ifs with hc
    · subst hc
      rw [hon.1, hon.2.1, hon.2.2] at hM
      simp at hM
    · apply hreg x hx
      rw [hoff x x (by unfold on_cross; omega), hoff x 0 (by unfold on_cross; omega),
        hoff 0 x (by unfold on_cross; omega)] at hM
      exact hM

/-! ## Lemmas: an update of a pair of devices leaves the host and the diagonal alone -/

theorem clear_pair_host (M : Nat → uvm_processor_mask_t) {a b : Nat} (ha : 0 < a) (hb : 0 < b)
    (x : Nat) : clear_pair M a b x 0 = M x 0 ∧ clear_pair M a b 0 x = M 0 x := by
  rw [clear_pair_apply, clear_pair_apply]
  constructor <;> rw [if_neg] <;> omega

theorem clear_pair_diag (M : Nat → uvm_processor_mask_t) {a b : Nat} (hab : a ≠ b) (x : Nat) :
    clear_pair M a b x x = M x x := by
  rw [clear_pair_apply, if_neg]
  omega

theorem set_pair_host (M : Nat → uvm_processor_mask_t) {a b : Nat} (ha : 0 < a) (hb : 0 < b)
    (x : Nat) : set_pair M a b x 0 = M x 0 ∧ set_pair M a b 0 x = M 0 x := by
  rw [set_pair_apply, set_pair_apply]
  constructor <;> rw [if_neg] <;> omega

theorem set_pair_diag (M : Nat → uvm_processor_mask_t) {a b : Nat} (hab : a ≠ b) (x : Nat) :
    set_pair M a b x x = M x x := by
  rw [set_pair_apply, if_neg]
  omega

theorem set_pair_comm (M : Nat → uvm_processor_mask_t) (a b : Nat) :
    set_pair M b a = set_pair M a b := by
  funext x y
  rw [set_pair_apply, set_pair_apply]
  by_cases h1 : x = a ∧ y = b <;> by_cases h2 : x = b ∧ y = a <;> simp [h1, h2]

/-! ## Lemmas: `disable_peers` -/

theorem disable_peers_fst_of_enabled (s : uvm_va_space_t) (a b : Nat)
    (l : List uvm_deferred_free_object_t)
    (h : s.enabled_peers (uvm_gpu_peer_table_index a b) = true) :
    (disable_peers s a b l).1 =
      { s with
        can_access := clear_pair s.can_access a b
        accessible_from := clear_pair s.accessible_from a b
        can_copy_from := clear_pair s.can_copy_from a b
        has_nvlink := clear_pair s.has_nvlink a b
        indirect_peers := clear_pair s.indirect_peers a b
        has_native_atomics := clear_pair s.has_native_atomics a b
        enabled_peers := __clear_bit (uvm_gpu_peer_table_index a b) s.enabled_peers } := by
  simp [disable_peers, test_bit, h, can_access_clear, accessible_from_clear,
    can_copy_from_clear, has_nvlink_clear, indirect_peers_clear, has_native_atomics_clear,
    enabled_peers_clear, clear_pair]

theorem disable_peers_fst_of_not_enabled (s : uvm_va_space_t) (a b : Nat)
    (l : List uvm_deferred_free_object_t)
    (h : s.enabled_peers (uvm_gpu_peer_table_index a b) = false) :
    (disable_peers s a b l).1 = s := by
  simp [disable_peers, test_bit, h]

theorem disable_peers_TopoInv {g : uvm_global_t} {s : uvm_va_space_t} {a b : Nat}
    (l : List uvm_deferred_free_object_t) (ha : 0 < a) (hb : 0 < b) (hab : a ≠ b)
    (hs : TopoInv g s) : TopoInv g (disable_peers s a b l).1 := by
  cases h : s.enabled_peers (uvm_gpu_peer_table_index a b) with
  | false => rw [disable_peers_fst_of_not_enabled s a b l h]; exact hs
  | true =>
    rw [disable_peers_fst_of_enabled s a b l h]
    refine
      { reg_range := hs.reg_range
        enabled_reg := ?_
        can_access := MatrixInv_clear_pair ha hb hab hs.can_access
        accessible_from := MatrixInv_clear_pair ha hb hab hs.accessible_from
        can_copy_from := MatrixInv_clear_pair ha hb hab hs.can_copy_from
        has_nvlink := MatrixInv_clear_pair ha hb hab hs.has_nvlink
        indirect_peers := MatrixInv_clear_pair ha hb hab hs.indirect_peers
        has_native_atomics := MatrixInv_clear_pair ha hb hab hs.has_native_atomics
        nvlink_diag := ?_
        indirect_host := ?_
        host_self := ?_
        nvlink_access := ?_
        host_sym := ?_
        host_impl := ?_
        transpose := ?_
        faultable := hs.faultable
        atomics := hs.atomics }
    · intro x y hx hy hxy hen
      apply hs.enabled_reg x y hx hy hxy
      simp only [clear_bit_apply] at hen
      split_ifs at hen
      exact hen
    · intro x
      show clear_pair s.has_nvlink a b x x = false
      rw [clear_pair_diag _ hab]; exact hs.nvlink_diag x
    · intro x
      show clear_pair s.indirect_peers a b x x = false ∧
        clear_pair s.indirect_peers a b x 0 = false ∧ clear_pair s.indirect_peers a b 0 x = false
      rw [clear_pair_diag _ hab, (clear_pair_host _ ha hb x).1, (clear_pair_host _ ha hb x).2]
      exact hs.indirect_host x
    · show clear_pair s.can_access a b 0 0 = true ∧ clear_pair s.accessible_from a b 0 0 = true ∧
        clear_pair s.can_copy_from a b 0 0 = true ∧ clear_pair s.has_native_atomics a b 0 0 = true
      simp only [clear_pair_diag _ hab]
      exact hs.host_self
    · intro x y hx
      show clear_pair s.has_nvlink a b x y = true → clear_pair s.can_access a b x y = true
      rw [clear_pair_apply, clear_pair_apply]
      split_ifs
      · exact id
      · exact hs.nvlink_access x y hx
    · intro x
      show clear_pair s.can_copy_from a b x 0 = clear_pair s.can_copy_from a b 0 x ∧
        clear_pair s.has_nvlink a b x 0 = clear_pair s.has_nvlink a b 0 x
      simp only [(clear_pair_host _ ha hb x).1, (clear_pair_host _ ha hb x).2]
      exact hs.host_sym x
    · intro x
      show (clear_pair s.can_access a b 0 x = true → clear_pair s.can_access a b x 0 = true) ∧
        (clear_pair s.accessible_from a b x 0 = true →
          clear_pair s.accessible_from a b 0 x = true) ∧
        (clear_pair s.has_native_atomics a b 0 x = true →
          clear_pair s.has_native_atomics a b x 0 = true)
      simp only [(clear_pair_host _ ha hb x).1, (clear_pair_host _ ha hb x).2]
      exact hs.host_impl x
    · intro x y
      show clear_pair s.can_access a b x y = clear_pair s.accessible_from a b y x
      rw [clear_pair_apply, clear_pair_apply, hs.transpose x y]
      by_cases h1 : x = a ∧ y = b <;> by_cases h2 : x = b ∧ y = a <;>
        (simp [h1, h2]; try tauto)

theorem disable_peers_frame (s : uvm_va_space_t) (a b : Nat)
    (l : List uvm_deferred_free_object_t) :
    (disable_peers s a b l).1.registered_gpus = s.registered_gpus ∧
    (disable_peers s a b l).1.gpu_unregister_in_progress = s.gpu_unregister_in_progress ∧
    (disable_peers s a b l).1.enabled_peers =
      __clear_bit (uvm_gpu_peer_table_index a b) s.enabled_peers := by
  cases h : s.enabled_peers (uvm_gpu_peer_table_index a b) with
  | false =>
    rw [disable_peers_fst_of_not_enabled s a b l h]
    refine ⟨rfl, rfl, ?_⟩
    funext i
    rw [clear_bit_apply]
    split_ifs with hi
    · rw [hi, h]
    · rfl
  | true => rw [disable_peers_fst_of_enabled s a b l h]; exact ⟨rfl, rfl, rfl⟩

/-! ## Lemmas: `enable_peers` -/

theorem maybe_set_pair_cases (c : Bool) (M : Nat → uvm_processor_mask_t) (a b : Nat) :
    maybe_set_pair c M a b = M ∨ maybe_set_pair c M a b = set_pair M a b := by
  cases c
  · left; rfl
  · right; rfl

theorem maybe_set_pair_apply (c : Bool) (M : Nat → uvm_processor_mask_t) (a b x y : Nat) :
    maybe_set_pair c M a b x y =
      if c = true ∧ ((x = a ∧ y = b) ∨ (x = b ∧ y = a)) then true else M x y := by
  cases c
  · simp [maybe_set_pair]
  · simp [maybe_set_pair, set_pair_apply]

theorem maybe_set_pair_host (c : Bool) (M : Nat → uvm_processor_mask_t) {a b : Nat}
    (ha : 0 < a) (hb : 0 < b) (x : Nat) :
    maybe_set_pair c M a b x 0 = M x 0 ∧ maybe_set_pair c M a b 0 x = M 0 x := by
  cases c
  · exact ⟨rfl, rfl⟩
  · exact set_pair_host M ha hb x

theorem maybe_set_pair_diag (c : Bool) (M : Nat → uvm_processor_mask_t) {a b : Nat}
    (hab : a ≠ b) (x : Nat) : maybe_set_pair c M a b x x = M x x := by
  cases c
  · rfl
  · exact set_pair_diag M hab x

theorem enable_peers_masks_eq (g : uvm_global_t) (s : uvm_va_space_t) (a b : Nat) :
    enable_peers_masks g s a b =
      { s with
        can_access := maybe_set_pair true s.can_access a b
        accessible_from := maybe_set_pair true s.accessible_from a b
        can_copy_from :=
          maybe_set_pair (g.gpus a).peer_identity_mappings_supported s.can_copy_from a b
        has_nvlink :=
          maybe_set_pair
            (decide ((g.peers (uvm_gpu_peer_table_index a b)).link_type ≥ UVM_GPU_LINK_NVLINK_1))
            s.has_nvlink a b
        indirect_peers :=
          maybe_set_pair
            (decide ((g.peers (uvm_gpu_peer_table_index a b)).link_type ≥ UVM_GPU_LINK_NVLINK_1)
              && (g.peers (uvm_gpu_peer_table_index a b)).is_indirect_peer)
            s.indirect_peers a b
        has_native_atomics :=
          maybe_set_pair
            (decide ((g.peers (uvm_gpu_peer_table_index a b)).link_type ≥ UVM_GPU_LINK_NVLINK_1))
            s.has_native_atomics a b
        enabled_peers := __set_bit (uvm_gpu_peer_table_index a b) s.enabled_peers } := by
  unfold enable_peers_masks
  cases h1 : (g.gpus a).peer_identity_mappings_supported <;>
  by_cases h2 : (g.peers (uvm_gpu_peer_table_index a b)).link_type ≥ UVM_GPU_LINK_NVLINK_1 <;>
  cases h3 : (g.peers (uvm_gpu_peer_table_index a b)).is_indirect_peer <;>
  simp [h1, h2, h3, maybe_set_pair, can_access_set, accessible_from_set, can_copy_from_set,
    has_nvlink_set, indirect_peers_set, has_native_atomics_set, enabled_peers_set, set_pair]
  all_goals exact set_pair_comm s.can_copy_from a b

theorem enable_peers_masks_TopoInv {g : uvm_global_t} {s : uvm_va_space_t} {a b : Nat}
    (hra : s.registered_gpus a = true) (hrb : s.registered_gpus b = true) (hab : a ≠ b)
    (hs : TopoInv g s) : TopoInv g (enable_peers_masks g s a b) := by
  have ha : 0 < a := (hs.reg_range a hra).1
  have hb : 0 < b := (hs.reg_range b hrb).1
  rw [enable_peers_masks_eq]
  refine
    { reg_range := hs.reg_range
      enabled_reg := ?_
      can_access :=
        MatrixInv_set_pair ha hb hab hs.can_access (maybe_set_pair_cases true s.can_access a b)
      accessible_from :=
        MatrixInv_set_pair ha hb hab hs.accessible_from
          (maybe_set_pair_cases true s.accessible_from a b)
      can_copy_from :=
        MatrixInv_set_pair ha hb hab hs.can_copy_from
          (maybe_set_pair_cases (g.gpus a).peer_identity_mappings_supported s.can_copy_from a b)
      has_nvlink :=
        MatrixInv_set_pair ha hb hab hs.has_nvlink (maybe_set_pair_cases _ s.has_nvlink a b)
      indirect_peers :=
        MatrixInv_set_pair ha hb hab hs.indirect_peers
          (maybe_set_pair_cases _ s.indirect_peers a b)
      has_native_atomics :=
        MatrixInv_set_pair ha hb hab hs.has_native_atomics
          (maybe_set_pair_cases _ s.has_native_atomics a b)
      nvlink_diag := ?_
      indirect_host := ?_
      host_self := ?_
      nvlink_access := ?_
      host_sym := ?_
      host_impl := ?_
      transpose := ?_
      faultable := hs.faultable
      atomics := hs.atomics }
  · intro x y hx hy hxy hen
    simp only [set_bit_apply] at hen
    split_ifs at hen with hi
    · rcases uvm_gpu_peer_table_index_inj hx hy ha hb hxy hab hi with h | h
      · rw [h.1, h.2]; exact ⟨hra, hrb⟩
      · rw [h.1, h.2]; exact ⟨hrb, hra⟩
    · exact hs.enabled_reg x y hx hy hxy hen
  · intro x
    simp only [maybe_set_pair_diag _ _ hab]
    exact hs.nvlink_diag x
  · intro x
    simp only [maybe_set_pair_diag _ _ hab, (maybe_set_pair_host _ _ ha hb x).1,
      (maybe_set_pair_host _ _ ha hb x).2]
    exact hs.indirect_host x
  · simp only [maybe_set_pair_diag _ _ hab]
    exact hs.host_self
  · intro x y hx
    simp only [maybe_set_pair_apply]
    intro h
    by_cases hp : (x = a ∧ y = b) ∨ (x = b ∧ y = a)
    · simp [hp]
    · simp only [hp, and_false, if_false] at h ⊢
      exact hs.nvlink_access x y hx h
  · intro x
    simp only [(maybe_set_pair_host _ _ ha hb x).1, (maybe_set_pair_host _ _ ha hb x).2]
    exact hs.host_sym x
  · intro x
    simp only [(maybe_set_pair_host _ _ ha hb x).1, (maybe_set_pair_host _ _ ha hb x).2]
    exact hs.host_impl x
  · intro x y
    simp only [maybe_set_pair_apply, hs.transpose x y]
    by_cases h1 : x = a ∧ y = b <;> by_cases h2 : x = b ∧ y = a <;>
        (simp [h1, h2]; try tauto)

theorem enable_peers_masks_frame (g : uvm_global_t) (s : uvm_va_space_t) (a b : Nat) :
    (enable_peers_masks g s a b).registered_gpus = s.registered_gpus ∧
    (enable_peers_masks g s a b).gpu_unregister_in_progress = s.gpu_unregister_in_progress := by
  rw [enable_peers_masks_eq]
  exact ⟨rfl, rfl⟩

/-- The three states `enable_peers` may return. -/
theorem enable_peers_snd_cases (g : uvm_global_t) (s : uvm_va_space_t) (a b : Nat) :
    (enable_peers g s a b).2 = s ∨
    (s.registered_gpus a = true ∧ s.registered_gpus b = true ∧
      ((enable_peers g s a b).2 = enable_peers_masks g s a b ∨
        (enable_peers g s a b).2 = (disable_peers (enable_peers_masks g s a b) a b []).1)) := by
  unfold enable_peers
  simp only [uvm_processor_mask_test]
  split_ifs with h1 h2 h3
  · left; rfl
  · left; rfl
  · right
    simp only [Bool.or_eq_true, Bool.not_eq_true', not_or, Bool.not_eq_false] at h1
    exact ⟨h1.1, h1.2, Or.inr rfl⟩
  · right
    simp only [Bool.or_eq_true, Bool.not_eq_true', not_or, Bool.not_eq_false] at h1
    exact ⟨h1.1, h1.2, Or.inl rfl⟩

theorem enable_peers_TopoInv {g : uvm_global_t} {s : uvm_va_space_t} {a b : Nat}
    (hab : a ≠ b) (hs : TopoInv g s) : TopoInv g (enable_peers g s a b).2 := by
  rcases enable_peers_snd_cases g s a b with h | ⟨hra, hrb, h | h⟩
  · rw [h]; exact hs
  · rw [h]; exact enable_peers_masks_TopoInv hra hrb hab hs
  · rw [h]
    exact disable_peers_TopoInv [] (hs.reg_range a hra).1 (hs.reg_range b hrb).1 hab
      (enable_peers_masks_TopoInv hra hrb hab hs)

theorem enable_peers_frame (g : uvm_global_t) (s : uvm_va_space_t) (a b : Nat) :
    (enable_peers g s a b).2.registered_gpus = s.registered_gpus ∧
    (enable_peers g s a b).2.gpu_unregister_in_progress = s.gpu_unregister_in_progress := by
  rcases enable_peers_snd_cases g s a b with h | ⟨_, _, h | h⟩
  · rw [h]; exact ⟨rfl, rfl⟩
  · rw [h]; exact enable_peers_masks_frame g s a b
  · rw [h]
    have h1 := disable_peers_frame (enable_peers_masks g s a b) a b []
    have h2 := enable_peers_masks_frame g s a b
    exact ⟨h1.1.trans h2.1, h1.2.1.trans h2.2⟩

/-! ## Lemmas: the masks block of `uvm_va_space_register_gpu` -/

theorem maybe_set_apply (c : Bool) (M : Nat → uvm_processor_mask_t) (r col x y : Nat) :
    maybe_set c M r col x y = if c = true ∧ x = r ∧ y = col then true else M x y := by
  cases c
  · simp [maybe_set]
  · simp [maybe_set, mask_array_set_apply]

theorem register_gpu_masks_eq (g : uvm_global_t) (s : uvm_va_space_t) (gpu : Nat) :
    register_gpu_masks g s gpu =
      { s with
        registered_gpus := uvm_processor_mask_set s.registered_gpus gpu
        faultable_processors :=
          if (g.gpus gpu).replayable_faults_handling then
            uvm_processor_mask_set s.faultable_processors gpu
          else s.faultable_processors
        system_wide_atomics_enabled_processors :=
          if (g.gpus gpu).replayable_faults_handling then
            uvm_processor_mask_set s.system_wide_atomics_enabled_processors gpu
          else s.system_wide_atomics_enabled_processors
        can_access :=
          mask_array_set (mask_array_set
            (maybe_set (decide ((g.gpus gpu).sysmem_link ≥ UVM_GPU_LINK_NVLINK_2) &&
              (g.gpus gpu).numa_info_enabled) s.can_access 0 gpu) gpu gpu) gpu 0
        accessible_from :=
          mask_array_set (mask_array_set
            (maybe_set (decide ((g.gpus gpu).sysmem_link ≥ UVM_GPU_LINK_NVLINK_2) &&
              (g.gpus gpu).numa_info_enabled) s.accessible_from gpu 0) gpu gpu) 0 gpu
        can_copy_from :=
          mask_array_set (mask_array_set (mask_array_set s.can_copy_from gpu gpu) gpu 0) 0 gpu
        has_nvlink :=
          maybe_set (decide ((g.gpus gpu).sysmem_link ≥ UVM_GPU_LINK_NVLINK_1))
            (maybe_set (decide ((g.gpus gpu).sysmem_link ≥ UVM_GPU_LINK_NVLINK_1))
              s.has_nvlink gpu 0) 0 gpu
        has_native_atomics :=
          maybe_set (decide ((g.gpus gpu).sysmem_link ≥ UVM_GPU_LINK_NVLINK_2) &&
              (g.gpus gpu).numa_info_enabled)
            (maybe_set (decide ((g.gpus gpu).sysmem_link ≥ UVM_GPU_LINK_NVLINK_2))
              (mask_array_set s.has_native_atomics gpu gpu) gpu 0) 0 gpu
        cpu_gpu_numa_affinity :=
          if (g.gpus gpu).closest_cpu_numa_node ≠ -1 then
            register_gpu_affinity (g.gpus gpu).closest_cpu_numa_node gpu s.cpu_gpu_numa_affinity
          else s.cpu_gpu_numa_affinity } := by
  unfold register_gpu_masks
  cases h1 : (g.gpus gpu).replayable_faults_handling <;>
  by_cases h2 : (g.gpus gpu).sysmem_link ≥ UVM_GPU_LINK_NVLINK_1 <;>
  by_cases h3 : (g.gpus gpu).sysmem_link ≥ UVM_GPU_LINK_NVLINK_2 <;>
  cases h4 : (g.gpus gpu).numa_info_enabled <;>
  by_cases h5 : (g.gpus gpu).closest_cpu_numa_node = -1 <;>
  simp [h1, h2, h3, h4, h5, maybe_set, registered_gpus_set, faultable_processors_set,
    system_wide_atomics_enabled_processors_set, can_access_set, accessible_from_set,
    can_copy_from_set, has_nvlink_set, has_native_atomics_set]

theorem register_gpu_masks_TopoInv {g : uvm_global_t} {s : uvm_va_space_t} {gpu : Nat}
    (hg : 0 < gpu) (hmax : gpu < UVM_MAX_PROCESSORS) (hs : TopoInv g s) :
    TopoInv g (register_gpu_masks g s gpu) := by
  rw [register_gpu_masks_eq]
  refine
    { reg_range := ?_
      enabled_reg := ?_
      can_access := MatrixInv_off_cross_set hg hs.can_access ?_
      accessible_from := MatrixInv_off_cross_set hg hs.accessible_from ?_
      can_copy_from := MatrixInv_off_cross_set hg hs.can_copy_from ?_
      has_nvlink := MatrixInv_off_cross_set hg hs.has_nvlink ?_
      indirect_peers := MatrixInv_off_cross_set hg hs.indirect_peers (fun _ _ _ => rfl)
      has_native_atomics := MatrixInv_off_cross_set hg hs.has_native_atomics ?_
      nvlink_diag := ?_
      indirect_host := hs.indirect_host
      host_self := ?_
      nvlink_access := ?_
      host_sym := ?_
      host_impl := ?_
      transpose := ?_
      faultable := ?_
      atomics := ?_ }
  · intro i hi
    simp only [uvm_processor_mask_set_apply] at hi
    split_ifs at hi with hc
    · rw [hc]; exact ⟨hg, hmax⟩
    · exact hs.reg_range i hi
  · intro x y hx hy hxy hen
    have := hs.enabled_reg x y hx hy hxy hen
    simp only [uvm_processor_mask_set_apply]
    constructor <;> split_ifs <;> simp [this.1, this.2]
  · intro x y hc
    simp only [mask_array_set_apply, maybe_set_apply]
    unfold on_cross at hc
    rw [if_neg (by omega), if_neg (by omega), if_neg (by tauto)]
  · intro x y hc
    simp only [mask_array_set_apply, maybe_set_apply]
    unfold on_cross at hc
    rw [if_neg (by omega), if_neg (by omega), if_neg (by tauto)]
  · intro x y hc
    simp only [mask_array_set_apply, maybe_set_apply]
    unfold on_cross at hc
    rw [if_neg (by omega), if_neg (by omega), if_neg (by omega)]
  · intro x y hc
    simp only [mask_array_set_apply, maybe_set_apply]
    unfold on_cross at hc
    rw [if_neg (by tauto), if_neg (by tauto)]
  · intro x y hc
    simp only [mask_array_set_apply, maybe_set_apply]
    unfold on_cross at hc
    rw [if_neg (by tauto), if_neg (by tauto), if_neg (by omega)]
  · intro x
    simp only [maybe_set_apply]
    rw [if_neg (by omega), if_neg (by omega)]
    exact hs.nvlink_diag x
  · have := hs.host_self
    simp only [mask_array_set_apply, maybe_set_apply]
    refine ⟨?_, ?_, ?_, ?_⟩ <;> split_ifs
    all_goals
      first
        | rfl
        | exact this.1
        | exact this.2.1
        | exact this.2.2.1
        | exact this.2.2.2
  · intro x y hx h
    have := hs.nvlink_access x y hx
    simp only [mask_array_set_apply, maybe_set_apply] at h ⊢
    by_cases h1 : x = gpu ∧ y = 0
    · rw [if_pos h1]
    · rw [if_neg (by omega), if_neg (by tauto)] at h
      rw [this h]
      simp
  · intro x
    have := hs.host_sym x
    have h0 : (0 : Nat) ≠ gpu := by omega
    rcases eq_or_ne x gpu with rfl | hx
    · simp [mask_array_set_apply, maybe_set_apply, h0, h0.symm, this.1, this.2]
    · simpa [mask_array_set_apply, maybe_set_apply, h0, h0.symm, hx] using this
  · intro x
    have := hs.host_impl x
    have h0 : (0 : Nat) ≠ gpu := by omega
    rcases eq_or_ne x gpu with rfl | hx
    · simp only [mask_array_set_apply, maybe_set_apply]
      simp only [h0, h0.symm, and_true, true_and, and_false, false_and, and_self, if_true,
        if_false, implies_true, Bool.and_eq_true, decide_eq_true_eq]
      intro h
      split_ifs at h ⊢
      all_goals
        first
          | rfl
          | exact this.2.2 h
          | (exfalso; tauto)
    · simpa [mask_array_set_apply, maybe_set_apply, h0, h0.symm, hx] using this
  · intro x y
    have := hs.transpose x y
    have h0 : (0 : Nat) ≠ gpu := by omega
    simp only [mask_array_set_apply, maybe_set_apply, this]
    by_cases h1 : x = gpu <;> by_cases h2 : y = gpu <;> by_cases h3 : x = 0 <;>
      by_cases h4 : y = 0 <;> first | omega | simp [h1, h2, h3, h4, h0, h0.symm]
  · intro a ha h
    have := hs.faultable a ha
    cases hc : (g.gpus gpu).replayable_faults_handling with
    | false =>
      simp only [hc, Bool.false_eq_true, if_false] at h
      have h2 := this h
      simp only [uvm_processor_mask_set_apply]
      split_ifs
      · exact ⟨rfl, h2.2⟩
      · exact h2
    | true =>
      simp only [hc, if_true, uvm_processor_mask_set_apply] at h ⊢
      split_ifs at h ⊢ with hag
      · rw [hag]; exact ⟨rfl, hc⟩
      · exact this h
  · intro a ha h
    have := hs.atomics a ha
    simp only [uvm_processor_mask_set_apply]
    split_ifs with hag
    · rfl
    · apply this
      cases hc : (g.gpus gpu).replayable_faults_handling with
      | false =>
        simp only [hc, Bool.false_eq_true, if_false] at h
        exact h
      | true =>
        simp only [hc, if_true, uvm_processor_mask_set_apply, if_neg hag] at h
        exact h

/-! ## Lemmas: the masks block of `unregister_gpu` -/

theorem unregister_gpu_masks_eq (g : uvm_global_t) (s : uvm_va_space_t) (gpu : Nat) :
    unregister_gpu_masks g s gpu =
      { s with
        registered_gpus := uvm_processor_mask_clear s.registered_gpus gpu
        faultable_processors :=
          if (g.gpus gpu).replayable_faults_handling then
            uvm_processor_mask_clear s.faultable_processors gpu
          else s.faultable_processors
        system_wide_atomics_enabled_processors :=
          uvm_processor_mask_clear s.system_wide_atomics_enabled_processors gpu
        can_access :=
          mask_array_clear (mask_array_clear (mask_array_clear s.can_access gpu gpu) gpu 0) 0 gpu
        accessible_from :=
          mask_array_clear (mask_array_clear (mask_array_clear s.accessible_from gpu gpu) 0 gpu)
            gpu 0
        can_copy_from :=
          mask_array_clear (mask_array_clear (mask_array_clear s.can_copy_from gpu gpu) gpu 0)
            0 gpu
        has_nvlink := mask_array_clear (mask_array_clear s.has_nvlink gpu 0) 0 gpu
        has_native_atomics :=
          mask_array_clear (mask_array_clear (mask_array_clear s.has_native_atomics gpu 0) 0 gpu)
            gpu gpu
        cpu_gpu_numa_affinity :=
          if (g.gpus gpu).closest_cpu_numa_node ≠ -1 then
            unregister_gpu_affinity (g.gpus gpu).closest_cpu_numa_node gpu
              s.cpu_gpu_numa_affinity
          else s.cpu_gpu_numa_affinity } := by
  unfold unregister_gpu_masks
  cases h1 : (g.gpus gpu).replayable_faults_handling <;>
  by_cases h5 : (g.gpus gpu).closest_cpu_numa_node = -1 <;>
  simp [h1, h5, registered_gpus_clear, faultable_processors_clear,
    system_wide_atomics_enabled_processors_clear, can_access_clear, accessible_from_clear,
    can_copy_from_clear, has_nvlink_clear, has_native_atomics_clear]

theorem unregister_gpu_masks_TopoInv {g : uvm_global_t} {s : uvm_va_space_t} {gpu : Nat}
    (hg : 0 < gpu) (hs : TopoInv g s)
    (hdis : ∀ p, 0 < p → p ≠ gpu → s.enabled_peers (uvm_gpu_peer_table_index gpu p) = false) :
    TopoInv g (unregister_gpu_masks g s gpu) := by
  have h0 : (0 : Nat) ≠ gpu := by omega
  rw [unregister_gpu_masks_eq]
  refine
    { reg_range := ?_
      enabled_reg := ?_
      can_access := MatrixInv_off_cross_clear hg hs.can_access ?_ ?_
      accessible_from := MatrixInv_off_cross_clear hg hs.accessible_from ?_ ?_
      can_copy_from := MatrixInv_off_cross_clear hg hs.can_copy_from ?_ ?_
      has_nvlink := MatrixInv_off_cross_clear hg hs.has_nvlink ?_ ?_
      indirect_peers :=
        MatrixInv_off_cross_clear hg hs.indirect_peers (fun _ _ _ => rfl) (hs.indirect_host gpu)
      has_native_atomics := MatrixInv_off_cross_clear hg hs.has_native_atomics ?_ ?_
      nvlink_diag := ?_
      indirect_host := hs.indirect_host
      host_self := ?_
      nvlink_access := ?_
      host_sym := ?_
      host_impl := ?_
      transpose := ?_
      faultable := ?_
      atomics := ?_ }
  · intro i hi
    simp only [uvm_processor_mask_clear_apply] at hi
    split_ifs at hi
    exact hs.reg_range i hi
  · intro x y hx hy hxy hen
    have := hs.enabled_reg x y hx hy hxy hen
    simp only [uvm_processor_mask_clear_apply]
    have hxg : x ≠ gpu := by
      rintro rfl
      rw [hdis y hy (Ne.symm hxy)] at hen
      exact Bool.false_ne_true hen
    have hyg : y ≠ gpu := by
      rintro rfl
      rw [uvm_gpu_peer_table_index_comm, hdis x hx hxy] at hen
      exact Bool.false_ne_true hen
    rw [if_neg hxg, if_neg hyg]
    exact this
  -- can_access
  · intro x y hc
    simp only [mask_array_clear_apply]
    unfold on_cross at hc
    rw [if_neg (by omega), if_neg (by omega), if_neg (by omega)]
  · simp [mask_array_clear_apply, h0, h0.symm]
  -- accessible_from
  · intro x y hc
    simp only [mask_array_clear_apply]
    unfold on_cross at hc
    rw [if_neg (by omega), if_neg (by omega), if_neg (by omega)]
  · simp [mask_array_clear_apply, h0, h0.symm]
  -- can_copy_from
  · intro x y hc
    simp only [mask_array_clear_apply]
    unfold on_cross at hc
    rw [if_neg (by omega), if_neg (by omega), if_neg (by omega)]
  · simp [mask_array_clear_apply, h0, h0.symm]
  -- has_nvlink
  · intro x y hc
    simp only [mask_array_clear_apply]
    unfold on_cross at hc
    rw [if_neg (by omega), if_neg (by omega)]
  · simp [mask_array_clear_apply, h0, h0.symm, hs.nvlink_diag gpu]
  -- has_native_atomics
  · intro x y hc
    simp only [mask_array_clear_apply]
    unfold on_cross at hc
    rw [if_neg (by omega), if_neg (by omega), if_neg (by omega)]
  · simp [mask_array_clear_apply, h0, h0.symm]
  · intro x
    simp only [mask_array_clear_apply]
    rw [if_neg (by omega), if_neg (by omega)]
    exact hs.nvlink_diag x
  · have := hs.host_self
    simp only [mask_array_clear_apply]
    refine ⟨?_, ?_, ?_, ?_⟩
    · rw [if_neg (by omega), if_neg (by omega), if_neg (by omega)]; exact this.1
    · rw [if_neg (by omega), if_neg (by omega), if_neg (by omega)]; exact this.2.1
    · rw [if_neg (by omega), if_neg (by omega), if_neg (by omega)]; exact this.2.2.1
    · rw [if_neg (by omega), if_neg (by omega), if_neg (by omega)]; exact this.2.2.2
  · intro x y hx h
    simp only [mask_array_clear_apply] at h ⊢
    split_ifs at h with h1 h2
    have hnv := hs.nvlink_access x y hx h
    have hxy : ¬(x = gpu ∧ y = gpu) := by
      rintro ⟨hxg, hyg⟩
      rw [hxg, hyg, hs.nvlink_diag gpu] at h
      exact Bool.false_ne_true h
    rw [if_neg (by omega), if_neg (by omega), if_neg hxy]
    exact hnv
  · intro x
    have := hs.host_sym x
    rcases eq_or_ne x gpu with rfl | hx
    · simp [mask_array_clear_apply, h0, h0.symm]
    · simpa [mask_array_clear_apply, h0, h0.symm, hx] using this
  · intro x
    have := hs.host_impl x
    rcases eq_or_ne x gpu with rfl | hx
    · simp [mask_array_clear_apply, h0, h0.symm]
    · simpa [mask_array_clear_apply, h0, h0.symm, hx] using this
  · intro x y
    have := hs.transpose x y
    simp only [mask_array_clear_apply, this]
    by_cases h1 : x = gpu <;> by_cases h2 : y = gpu <;> by_cases h3 : x = 0 <;>
      by_cases h4 : y = 0 <;> first | omega | simp [h1, h2, h3, h4, h0, h0.symm]
  · intro a ha h
    have := hs.faultable a ha
    simp only [uvm_processor_mask_clear_apply]
    cases hc : (g.gpus gpu).replayable_faults_handling with
    | false =>
      simp only [hc, Bool.false_eq_true, if_false] at h
      have h2 := this h
      have hag : a ≠ gpu := by
        rintro rfl
        rw [hc] at h2
        exact Bool.false_ne_true h2.2
      rw [if_neg hag]
      exact h2
    | true =>
      simp only [hc, if_true, uvm_processor_mask_clear_apply] at h
      split_ifs at h ⊢ with hag
      exact this h
  · intro a ha h
    have := hs.atomics a ha
    simp only [uvm_processor_mask_clear_apply] at h ⊢
    split_ifs at h ⊢ with hag
    exact this h

theorem unregister_gpu_masks_frame (g : uvm_global_t) (s : uvm_va_space_t) (gpu : Nat) :
    (unregister_gpu_masks g s gpu).registered_gpus =
      uvm_processor_mask_clear s.registered_gpus gpu ∧
    (unregister_gpu_masks g s gpu).gpu_unregister_in_progress = s.gpu_unregister_in_progress ∧
    (unregister_gpu_masks g s gpu).enabled_peers = s.enabled_peers := by
  rw [unregister_gpu_masks_eq]
  exact ⟨rfl, rfl, rfl⟩

theorem register_gpu_masks_frame (g : uvm_global_t) (s : uvm_va_space_t) (gpu : Nat) :
    (register_gpu_masks g s gpu).registered_gpus =
      uvm_processor_mask_set s.registered_gpus gpu ∧
    (register_gpu_masks g s gpu).gpu_unregister_in_progress = s.gpu_unregister_in_progress ∧
    (register_gpu_masks g s gpu).enabled_peers = s.enabled_peers := by
  rw [register_gpu_masks_eq]
  exact ⟨rfl, rfl, rfl⟩

/-! ## Lemmas: what leaves the topology alone -/

theorem same_topology_refl (s : uvm_va_space_t) : same_topology s s :=
  ⟨rfl, rfl, rfl, rfl, rfl, rfl, rfl, rfl, rfl, rfl, rfl⟩

theorem same_topology_trans {s t u : uvm_va_space_t} (h1 : same_topology s t)
    (h2 : same_topology t u) : same_topology s u := by
  obtain ⟨a1, a2, a3, a4, a5, a6, a7, a8, a9, a10, a11⟩ := h1
  obtain ⟨b1, b2, b3, b4, b5, b6, b7, b8, b9, b10, b11⟩ := h2
  exact ⟨b1.trans a1, b2.trans a2, b3.trans a3, b4.trans a4, b5.trans a5, b6.trans a6,
    b7.trans a7, b8.trans a8, b9.trans a9, b10.trans a10, b11.trans a11⟩

theorem TopoInv_of_same_topology {g : uvm_global_t} {s t : uvm_va_space_t}
    (h : same_topology s t) (hs : TopoInv g s) : TopoInv g t := by
  obtain ⟨a1, a2, a3, a4, a5, a6, a7, a8, a9, a10, a11⟩ := h
  exact
    { reg_range := by rw [a1]; exact hs.reg_range
      enabled_reg := by rw [a1, a11]; exact hs.enabled_reg
      can_access := by rw [a1, a11, a3]; exact hs.can_access
      accessible_from := by rw [a1, a11, a4]; exact hs.accessible_from
      can_copy_from := by rw [a1, a11, a5]; exact hs.can_copy_from
      has_nvlink := by rw [a1, a11, a6]; exact hs.has_nvlink
      indirect_peers := by rw [a1, a11, a7]; exact hs.indirect_peers
      has_native_atomics := by rw [a1, a11, a8]; exact hs.has_native_atomics
      nvlink_diag := by rw [a6]; exact hs.nvlink_diag
      indirect_host := by rw [a7]; exact hs.indirect_host
      host_self := by rw [a3, a4, a5, a8]; exact hs.host_self
      nvlink_access := by rw [a3, a6]; exact hs.nvlink_access
      host_sym := by rw [a5, a6]; exact hs.host_sym
      host_impl := by rw [a3, a4, a8]; exact hs.host_impl
      transpose := by rw [a3, a4]; exact hs.transpose
      faultable := by rw [a1, a10]; exact hs.faultable
      atomics := by rw [a1, a9]; exact hs.atomics }

theorem Inv_of_same_topology {g : uvm_global_t} {s t : uvm_va_space_t}
    (h : same_topology s t) (hs : Inv g s) : Inv g t := by
  refine ⟨TopoInv_of_same_topology h hs.1, ?_⟩
  rw [h.1, h.2.1]
  exact hs.2

theorem same_topology_store (s : uvm_va_space_t) (p : Nat) (obj : uvm_gpu_va_space_t) :
    same_topology s (gpu_va_space_store s p obj) :=
  ⟨rfl, rfl, rfl, rfl, rfl, rfl, rfl, rfl, rfl, rfl, rfl⟩

theorem same_topology_release (s : uvm_va_space_t) (p : Option Nat) :
    same_topology s (uvm_gpu_va_space_release s p) := by
  cases p with
  | none => exact same_topology_refl s
  | some ptr => exact same_topology_store s _ _

theorem same_topology_destroy (s : uvm_va_space_t) (p : Option Nat) :
    same_topology s (destroy_gpu_va_space s p) := by
  cases p with
  | none => exact same_topology_refl s
  | some ptr =>
    unfold destroy_gpu_va_space
    simp only
    refine same_topology_trans ?_ (same_topology_release _ _)
    split_ifs <;> exact ⟨rfl, rfl, rfl, rfl, rfl, rfl, rfl, rfl, rfl, rfl, rfl⟩

theorem same_topology_deferred_free (l : List uvm_deferred_free_object_t)
    (s : uvm_va_space_t) : same_topology s (uvm_deferred_free_object_list s l) := by
  induction l generalizing s with
  | nil => exact same_topology_refl s
  | cons o rest ih =>
    cases o with
    | channel c => exact ih s
    | gpu_va_space p =>
      exact same_topology_trans (same_topology_destroy s (some p)) (ih _)
    | external_allocation e => exact ih s

theorem same_topology_remove (s : uvm_va_space_t) (p : Option Nat)
    (l : List uvm_deferred_free_object_t) :
    same_topology s (remove_gpu_va_space s p l).1 := by
  cases p with
  | none => exact same_topology_refl s
  | some ptr =>
    unfold remove_gpu_va_space
    simp only
    split_ifs
    · exact same_topology_refl s
    · exact ⟨rfl, rfl, rfl, rfl, rfl, rfl, rfl, rfl, rfl, rfl, rfl⟩

theorem same_topology_stop_all_channels (s : uvm_va_space_t) (p : Nat) :
    same_topology s (gpu_va_space_stop_all_channels s p) :=
  same_topology_store s _ _

theorem same_topology_create (g : uvm_global_t) (s : uvm_va_space_t) (gpu : Nat)
    (rm : rm_answers_t) : same_topology s (create_gpu_va_space g s gpu rm).2.1 := by
  unfold create_gpu_va_space
  simp only
  split_ifs
  all_goals
    first
      | exact same_topology_refl s
      | exact same_topology_trans ⟨rfl, rfl, rfl, rfl, rfl, rfl, rfl, rfl, rfl, rfl, rfl⟩
          (same_topology_destroy _ _)

theorem same_topology_add (s : uvm_va_space_t) (p : Nat) :
    same_topology s (add_gpu_va_space s p).2 := by
  unfold add_gpu_va_space
  simp only
  split_ifs
  · exact same_topology_refl s
  · exact ⟨rfl, rfl, rfl, rfl, rfl, rfl, rfl, rfl, rfl, rfl, rfl⟩

theorem same_topology_register_error (s : uvm_va_space_t) (p : Nat) (locked : Bool) :
    same_topology s (register_gpu_va_space_error s p locked) := by
  unfold register_gpu_va_space_error
  simp only
  split_ifs
  · exact same_topology_trans (same_topology_remove s _ _) (same_topology_destroy _ _)
  · exact same_topology_destroy _ _

theorem same_topology_register_locked (s : uvm_va_space_t) (rm : rm_answers_t)
    (gpu p : Nat) : same_topology s (register_gpu_va_space_locked s rm gpu p).2 := by
  have hadd := same_topology_add s p
  have herr := same_topology_trans hadd
    (same_topology_register_error (add_gpu_va_space s p).2 p true)
  unfold register_gpu_va_space_locked
  simp only
  split_ifs
  · exact same_topology_register_error s p true
  · exact same_topology_register_error s p true
  · exact same_topology_register_error s p true
  · exact same_topology_register_error s p true
  · exact herr
  · exact herr
  · exact herr
  · exact hadd

theorem same_topology_register_gpu_va_space (g : uvm_global_t) (s : uvm_va_space_t)
    (rm : rm_answers_t) (gpu_uuid : Nat) :
    same_topology s (uvm_va_space_register_gpu_va_space g s rm gpu_uuid).2 := by
  unfold uvm_va_space_register_gpu_va_space
  simp only
  have hc := same_topology_create g s (uvm_gpu_retain_by_uuid g gpu_uuid).2 rm
  split_ifs
  · exact same_topology_refl s
  · exact same_topology_refl s
  · split
    · exact hc
    · split_ifs
      · exact same_topology_trans hc (same_topology_register_error _ _ _)
      · exact same_topology_trans hc
          (same_topology_trans (same_topology_store _ _ _) (same_topology_register_locked _ _ _ _))

theorem same_topology_unregister_gpu_va_space_begin (g : uvm_global_t) (s : uvm_va_space_t)
    (gpu_uuid : Nat) :
    same_topology s (uvm_va_space_unregister_gpu_va_space_begin g s gpu_uuid).2.1 := by
  unfold uvm_va_space_unregister_gpu_va_space_begin
  cases uvm_va_space_get_gpu_by_uuid_with_gpu_va_space g s gpu_uuid with
  | none => exact same_topology_refl s
  | some gpu =>
    simp only
    cases uvm_gpu_va_space_get s gpu with
    | none => exact same_topology_refl s
    | some p =>
      exact same_topology_trans (same_topology_stop_all_channels s p) (same_topology_store _ _ _)

theorem same_topology_unregister_gpu_va_space_finish (s : uvm_va_space_t) (p : Nat) :
    same_topology s (uvm_va_space_unregister_gpu_va_space_finish s p).2 := by
  unfold uvm_va_space_unregister_gpu_va_space_finish
  simp only
  split_ifs
  · exact same_topology_trans (same_topology_deferred_free _ _) (same_topology_release _ _)
  · exact same_topology_trans (same_topology_remove s _ _)
      (same_topology_trans (same_topology_deferred_free _ _) (same_topology_release _ _))

/-! ## Lemmas: the loops over the registered devices -/

theorem register_gpu_nvlink_peers_loop_inv {g : uvm_global_t} {gpu : Nat} (l : List Nat)
    (s : uvm_va_space_t) (hs : TopoInv g s) :
    TopoInv g (register_gpu_nvlink_peers_loop g gpu l s).2 ∧
    (register_gpu_nvlink_peers_loop g gpu l s).2.registered_gpus = s.registered_gpus ∧
    (register_gpu_nvlink_peers_loop g gpu l s).2.gpu_unregister_in_progress =
      s.gpu_unregister_in_progress := by
  induction l generalizing s with
  | nil => exact ⟨hs, rfl, rfl⟩
  | cons other rest ih =>
    unfold register_gpu_nvlink_peers_loop
    simp only
    split_ifs with h1 h2 h3
    · exact ih s hs
    · exact ⟨enable_peers_TopoInv (Ne.symm h1) hs, (enable_peers_frame g s gpu other).1,
        (enable_peers_frame g s gpu other).2⟩
    · have h := ih (enable_peers g s gpu other).2 (enable_peers_TopoInv (Ne.symm h1) hs)
      exact ⟨h.1, h.2.1.trans (enable_peers_frame g s gpu other).1,
        h.2.2.trans (enable_peers_frame g s gpu other).2⟩
    · exact ih s hs

theorem unregister_gpu_peers_loop_inv {g : uvm_global_t} {gpu : Nat} (hg : 0 < gpu)
    (l : List Nat) (hl : ∀ p ∈ l, 0 < p) (s : uvm_va_space_t)
    (dfl : List uvm_deferred_free_object_t) (ptr : uvm_processor_mask_t) (hs : TopoInv g s) :
    TopoInv g (unregister_gpu_peers_loop gpu l s dfl ptr).1 ∧
    (unregister_gpu_peers_loop gpu l s dfl ptr).1.registered_gpus = s.registered_gpus ∧
    (unregister_gpu_peers_loop gpu l s dfl ptr).1.gpu_unregister_in_progress =
      s.gpu_unregister_in_progress ∧
    (∀ i, (unregister_gpu_peers_loop gpu l s dfl ptr).1.enabled_peers i = true →
      s.enabled_peers i = true) ∧
    (∀ p ∈ l, p ≠ gpu →
      (unregister_gpu_peers_loop gpu l s dfl ptr).1.enabled_peers
        (uvm_gpu_peer_table_index gpu p) = false) := by
  induction l generalizing s dfl ptr with
  | nil =>
    refine ⟨hs, rfl, rfl, fun _ h => h, ?_⟩
    intro p hp
    simp at hp
  | cons peer rest ih =>
    have hrest : ∀ p ∈ rest, 0 < p := fun p hp => hl p (List.mem_cons_of_mem _ hp)
    have hpeer : 0 < peer := hl peer (List.mem_cons_self _ _)
    unfold unregister_gpu_peers_loop
    simp only
    split_ifs with h1 h2
    · obtain ⟨i1, i2, i3, i4, i5⟩ := ih hrest s dfl ptr hs
      refine ⟨i1, i2, i3, i4, ?_⟩
      intro p hp hpg
      rcases List.mem_cons.mp hp with rfl | hp
      · exact absurd h1.symm hpg
      · exact i5 p hp hpg
    · have hd := disable_peers_TopoInv dfl hg hpeer h1 hs
      have hf := disable_peers_frame s gpu peer dfl
      obtain ⟨i1, i2, i3, i4, i5⟩ := ih hrest (disable_peers s gpu peer dfl).1
        (disable_peers s gpu peer dfl).2 (uvm_processor_mask_set ptr peer) hd
      refine ⟨i1, i2.trans hf.1, i3.trans hf.2.1, ?_, ?_⟩
      · intro i hi
        have := i4 i hi
        rw [hf.2.2, clear_bit_apply] at this
        split_ifs at this
        exact this
      · intro p hp hpg
        rcases List.mem_cons.mp hp with rfl | hp
        · cases hen : (unregister_gpu_peers_loop gpu rest (disable_peers s gpu p dfl).1
              (disable_peers s gpu p dfl).2 (uvm_processor_mask_set ptr p)).1.enabled_peers
              (uvm_gpu_peer_table_index gpu p) with
          | false => rfl
          | true =>
            have := i4 _ hen
            rw [hf.2.2, clear_bit_apply, if_pos rfl] at this
            exact absurd this Bool.false_ne_true
        · exact i5 p hp hpg
    · obtain ⟨i1, i2, i3, i4, i5⟩ := ih hrest s dfl ptr hs
      refine ⟨i1, i2, i3, i4, ?_⟩
      intro p hp hpg
      rcases List.mem_cons.mp hp with rfl | hp
      · cases hen : (unregister_gpu_peers_loop gpu rest s dfl ptr).1.enabled_peers
            (uvm_gpu_peer_table_index gpu p) with
        | false => rfl
        | true =>
          have := i4 _ hen
          simp only [test_bit] at h2
          exact absurd this h2
      · exact i5 p hp hpg

/-! ## Lemmas: `unregister_gpu` -/

theorem unregister_gpu_inv {g : uvm_global_t} {s : uvm_va_space_t} {gpu : Nat} (hg : 0 < gpu)
    (l : List uvm_deferred_free_object_t) (hs : TopoInv g s) :
    TopoInv g (unregister_gpu g s gpu l).1 ∧
    (unregister_gpu g s gpu l).1.registered_gpus =
      uvm_processor_mask_clear s.registered_gpus gpu ∧
    (unregister_gpu g s gpu l).1.gpu_unregister_in_progress = s.gpu_unregister_in_progress := by
  unfold unregister_gpu
  simp only
  have hrem := same_topology_remove s (uvm_gpu_va_space_get s gpu) l
  have hs1 := TopoInv_of_same_topology hrem hs
  generalize (remove_gpu_va_space s (uvm_gpu_va_space_get s gpu) l).1 = s1 at hrem hs1
  generalize (remove_gpu_va_space s (uvm_gpu_va_space_get s gpu) l).2 ++ _ = dfl
  have hl : ∀ p ∈ for_each_gpu_id_in_mask s1.registered_gpus, 0 < p := by
    intro p hp
    exact ((mem_for_each_gpu_id_in_mask _ _).mp hp).1
  obtain ⟨i1, i2, i3, i4, i5⟩ := unregister_gpu_peers_loop_inv hg
    (for_each_gpu_id_in_mask s1.registered_gpus) hl s1 dfl uvm_processor_mask_zero hs1
  have hdis : ∀ p, 0 < p → p ≠ gpu →
      (unregister_gpu_peers_loop gpu (for_each_gpu_id_in_mask s1.registered_gpus) s1 dfl
        uvm_processor_mask_zero).1.enabled_peers (uvm_gpu_peer_table_index gpu p) = false := by
    intro p hp hpg
    cases hen : s1.enabled_peers (uvm_gpu_peer_table_index gpu p) with
    | false =>
      cases hen2 : (unregister_gpu_peers_loop gpu (for_each_gpu_id_in_mask s1.registered_gpus)
          s1 dfl uvm_processor_mask_zero).1.enabled_peers (uvm_gpu_peer_table_index gpu p) with
      | false => rfl
      | true =>
        have := i4 _ hen2
        rw [hen] at this
        exact absurd this Bool.false_ne_true
    | true =>
      have hreg := (hs1.enabled_reg gpu p hg hp (Ne.symm hpg) hen).2
      apply i5 p _ hpg
      exact (mem_for_each_gpu_id_in_mask _ _).mpr ⟨hp, (hs1.reg_range p hreg).2, hreg⟩
  have hf := unregister_gpu_masks_frame g
    (unregister_gpu_peers_loop gpu (for_each_gpu_id_in_mask s1.registered_gpus) s1 dfl
      uvm_processor_mask_zero).1 gpu
  refine ⟨unregister_gpu_masks_TopoInv hg i1 hdis, ?_, ?_⟩
  · rw [hf.1, i2, hrem.1]
  · rw [hf.2.1, i3, hrem.2.1]

/-! ## Lemmas: the lookups -/

theorem uvm_gpu_retain_by_uuid_ok {g : uvm_global_t} {gpu_uuid : Nat}
    (h : (uvm_gpu_retain_by_uuid g gpu_uuid).1 = NV_OK) :
    0 < (uvm_gpu_retain_by_uuid g gpu_uuid).2 ∧
      (uvm_gpu_retain_by_uuid g gpu_uuid).2 < UVM_MAX_PROCESSORS ∧
      (g.gpus (uvm_gpu_retain_by_uuid g gpu_uuid).2).uuid = gpu_uuid := by
  unfold uvm_gpu_retain_by_uuid at h ⊢
  cases hf : ((List.range UVM_MAX_PROCESSORS).filter fun i => decide (UVM_CPU_ID < i)).find?
      fun i => (g.gpus i).uuid == gpu_uuid with
  | none => rw [hf] at h; simp at h
  | some id =>
    simp only
    have hmem := List.mem_of_find?_eq_some hf
    have hp := List.find?_some hf
    simp only [List.mem_filter, List.mem_range, decide_eq_true_eq] at hmem
    exact ⟨hmem.2, hmem.1, by simpa using hp⟩

theorem uvm_va_space_get_gpu_by_uuid_some {g : uvm_global_t} {s : uvm_va_space_t}
    {gpu_uuid gpu : Nat} (h : uvm_va_space_get_gpu_by_uuid g s gpu_uuid = some gpu) :
    0 < gpu ∧ gpu < UVM_MAX_PROCESSORS ∧ s.registered_gpus gpu = true ∧
      (g.gpus gpu).uuid = gpu_uuid := by
  unfold uvm_va_space_get_gpu_by_uuid at h
  have hmem := (mem_for_each_gpu_id_in_mask _ _).mp (List.mem_of_find?_eq_some h)
  have hp := List.find?_some h
  exact ⟨hmem.1, hmem.2.1, hmem.2.2, by simpa using hp⟩

/-! ## Lemmas: every entry point keeps the invariants -/

theorem TopoInv_guard {g : uvm_global_t} {s : uvm_va_space_t} (m : uvm_processor_mask_t)
    (hs : TopoInv g s) : TopoInv g { s with gpu_unregister_in_progress := m } :=
  { reg_range := hs.reg_range
    enabled_reg := hs.enabled_reg
    can_access := hs.can_access
    accessible_from := hs.accessible_from
    can_copy_from := hs.can_copy_from
    has_nvlink := hs.has_nvlink
    indirect_peers := hs.indirect_peers
    has_native_atomics := hs.has_native_atomics
    nvlink_diag := hs.nvlink_diag
    indirect_host := hs.indirect_host
    host_self := hs.host_self
    nvlink_access := hs.nvlink_access
    host_sym := hs.host_sym
    host_impl := hs.host_impl
    transpose := hs.transpose
    faultable := hs.faultable
    atomics := hs.atomics }

theorem uvm_va_space_create_Inv {g : uvm_global_t} {s : uvm_va_space_t}
    {alloc_ok : Bool} {s1 s2 s3 : NV_STATUS}
    (h : uvm_va_space_create alloc_ok s1 s2 s3 = (NV_OK, some s)) : Inv g s := by
  unfold uvm_va_space_create at h
  simp only at h
  split_ifs at h
  all_goals try (simp at h; done)
  simp only [Prod.mk.injEq, Option.some.injEq, true_and] at h
  subst h
  have hz : ∀ i, uvm_processor_mask_zero i = false := fun _ => rfl
  have hb : ∀ i, bitmap_zero i = false := fun _ => rfl
  have hm : ∀ (x y : Nat), (0 < x ∨ 0 < y) →
      mask_array_set (fun _ => uvm_processor_mask_zero) 0 0 x y = false := by
    intro x y hxy
    rw [mask_array_set_apply, if_neg (by omega)]
    exact hz y
  have hmi : MatrixInv bitmap_zero uvm_processor_mask_zero
      (mask_array_set (fun _ => uvm_processor_mask_zero) 0 0) := by
    refine ⟨?_, ?_, ?_⟩
    · intro a b ha hb _
      rw [hm a b (Or.inl ha), hm b a (Or.inl hb)]
    · intro a b ha _ _ h
      rw [hm a b (Or.inl ha)] at h
      exact absurd h Bool.false_ne_true
    · intro a ha h
      rw [hm a a (Or.inl ha), hm a 0 (Or.inl ha), hm 0 a (Or.inr ha)] at h
      simp at h
  have hzi : MatrixInv bitmap_zero uvm_processor_mask_zero (fun _ => uvm_processor_mask_zero) := by
    refine ⟨fun _ _ _ _ _ => rfl, ?_, ?_⟩
    · intro a b _ _ _ h
      exact absurd h Bool.false_ne_true
    · intro a _ h
      simp [hz] at h
  refine ⟨?_, ?_⟩
  · exact
      { reg_range := fun i hi => absurd hi Bool.false_ne_true
        enabled_reg := fun a b _ _ _ hen => absurd hen Bool.false_ne_true
        can_access := hmi
        accessible_from := hmi
        can_copy_from := hmi
        has_nvlink := hzi
        indirect_peers := hzi
        has_native_atomics := hmi
        nvlink_diag := fun _ => rfl
        indirect_host := fun _ => ⟨rfl, rfl, rfl⟩
        host_self := ⟨rfl, rfl, rfl, rfl⟩
        nvlink_access := fun a b _ h => absurd h Bool.false_ne_true
        host_sym := by
          intro a
          refine ⟨?_, rfl⟩
          show mask_array_set (fun _ => uvm_processor_mask_zero) 0 0 a 0 =
            mask_array_set (fun _ => uvm_processor_mask_zero) 0 0 0 a
          rcases Nat.eq_zero_or_pos a with rfl | ha
          · rfl
          · rw [hm a 0 (Or.inl ha), hm 0 a (Or.inr ha)]
        host_impl := by
          intro a
          rcases Nat.eq_zero_or_pos a with rfl | ha
          · exact ⟨id, id, id⟩
          · refine ⟨?_, ?_, ?_⟩
            · intro h
              have : mask_array_set (fun _ => uvm_processor_mask_zero) 0 0 0 a = true := h
              rw [hm 0 a (Or.inr ha)] at this
              exact absurd this Bool.false_ne_true
            · intro h
              have : mask_array_set (fun _ => uvm_processor_mask_zero) 0 0 a 0 = true := h
              rw [hm a 0 (Or.inl ha)] at this
              exact absurd this Bool.false_ne_true
            · intro h
              have : mask_array_set (fun _ => uvm_processor_mask_zero) 0 0 0 a = true := h
              rw [hm 0 a (Or.inr ha)] at this
              exact absurd this Bool.false_ne_true
        transpose := by
          intro x y
          show mask_array_set (fun _ => uvm_processor_mask_zero) 0 0 x y =
            mask_array_set (fun _ => uvm_processor_mask_zero) 0 0 y x
          rw [mask_array_set_apply, mask_array_set_apply]
          by_cases h1 : x = 0 <;> by_cases h2 : y = 0 <;> simp [h1, h2, hz]
        faultable := by
          intro a ha h
          have : uvm_processor_mask_set uvm_processor_mask_zero 0 a = true := h
          rw [uvm_processor_mask_set_apply, if_neg (by omega)] at this
          exact absurd this Bool.false_ne_true
        atomics := by
          intro a ha h
          have : uvm_processor_mask_set uvm_processor_mask_zero 0 a = true := h
          rw [uvm_processor_mask_set_apply, if_neg (by omega)] at this
          exact absurd this Bool.false_ne_true }
  · intro i hi
    exact absurd hi Bool.false_ne_true

/-- The state `uvm_va_space_register_gpu` returns, case by case. -/
theorem uvm_va_space_register_gpu_state (g : uvm_global_t) (s : uvm_va_space_t)
    (gpu_uuid : Nat) :
    (uvm_va_space_register_gpu g s gpu_uuid).2.1 =
      if (uvm_gpu_retain_by_uuid g gpu_uuid).1 ≠ NV_OK then s
      else if uvm_processor_mask_test s.registered_gpus (uvm_gpu_retain_by_uuid g gpu_uuid).2
      then s
      else if register_gpu_mixing g s (uvm_gpu_retain_by_uuid g gpu_uuid).2 then s
      else if s.disallow_new_registers then s
      else if (register_gpu_nvlink_peers g
          (register_gpu_masks g s (uvm_gpu_retain_by_uuid g gpu_uuid).2)
          (uvm_gpu_retain_by_uuid g gpu_uuid).2).1 ≠ NV_OK then
        (unregister_gpu g (register_gpu_nvlink_peers g
          (register_gpu_masks g s (uvm_gpu_retain_by_uuid g gpu_uuid).2)
          (uvm_gpu_retain_by_uuid g gpu_uuid).2).2 (uvm_gpu_retain_by_uuid g gpu_uuid).2 []).1
      else
        (register_gpu_nvlink_peers g
          (register_gpu_masks g s (uvm_gpu_retain_by_uuid g gpu_uuid).2)
          (uvm_gpu_retain_by_uuid g gpu_uuid).2).2 := by
  unfold uvm_va_space_register_gpu
  simp only
  split_ifs <;> rfl

theorem uvm_va_space_register_gpu_Inv {g : uvm_global_t} {s : uvm_va_space_t} (gpu_uuid : Nat)
    (hs : Inv g s) : Inv g (uvm_va_space_register_gpu g s gpu_uuid).2.1 := by
  rw [uvm_va_space_register_gpu_state]
  split_ifs with h1 h2 h3 h4 h5
  · exact hs
  · exact hs
  · exact hs
  · exact hs
  · -- the automatic peer enable failed: the registration is rolled back
    have hret := uvm_gpu_retain_by_uuid_ok (not_not.mp h1)
    generalize (uvm_gpu_retain_by_uuid g gpu_uuid).2 = gpu at hret h2 h5 ⊢
    have hm := register_gpu_masks_TopoInv hret.1 hret.2.1 hs.1
    have hmf := register_gpu_masks_frame g s gpu
    unfold register_gpu_nvlink_peers at h5 ⊢
    obtain ⟨l1, l2, l3⟩ := @register_gpu_nvlink_peers_loop_inv g gpu
      (for_each_gpu_id_in_mask (register_gpu_masks g s gpu).registered_gpus)
      (register_gpu_masks g s gpu) hm
    obtain ⟨u1, u2, u3⟩ := unregister_gpu_inv hret.1 [] l1
    refine ⟨u1, ?_⟩
    intro i hi
    rw [u3, l3, hmf.2.1] at hi
    rw [u2, l2, hmf.1, uvm_processor_mask_clear_apply, uvm_processor_mask_set_apply]
    have hreg := hs.2 i hi
    have hne : i ≠ gpu := by
      rintro rfl
      simp only [uvm_processor_mask_test, Bool.not_eq_true] at h2
      rw [h2] at hreg
      exact Bool.false_ne_true hreg
    rw [if_neg hne, if_neg hne]
    exact hreg
  · have hret := uvm_gpu_retain_by_uuid_ok (not_not.mp h1)
    generalize (uvm_gpu_retain_by_uuid g gpu_uuid).2 = gpu at hret h2 h5 ⊢
    have hm := register_gpu_masks_TopoInv hret.1 hret.2.1 hs.1
    have hmf := register_gpu_masks_frame g s gpu
    unfold register_gpu_nvlink_peers at h5 ⊢
    obtain ⟨l1, l2, l3⟩ := @register_gpu_nvlink_peers_loop_inv g gpu
      (for_each_gpu_id_in_mask (register_gpu_masks g s gpu).registered_gpus)
      (register_gpu_masks g s gpu) hm
    refine ⟨l1, ?_⟩
    intro i hi
    rw [l3, hmf.2.1] at hi
    rw [l2, hmf.1, uvm_processor_mask_set_apply]
    split_ifs
    · rfl
    · exact hs.2 i hi

theorem uvm_va_space_unregister_gpu_begin_Inv {g : uvm_global_t} {s : uvm_va_space_t}
    (gpu_uuid : Nat) (hs : Inv g s) :
    Inv g (uvm_va_space_unregister_gpu_begin g s gpu_uuid).2.1 := by
  unfold uvm_va_space_unregister_gpu_begin
  cases hget : uvm_va_space_get_gpu_by_uuid g s gpu_uuid with
  | none => exact hs
  | some gpu =>
    have hreg := (uvm_va_space_get_gpu_by_uuid_some hget).2.2.1
    simp only
    split_ifs
    · exact hs
    · have hset : Inv g (gpu_unregister_in_progress_set s gpu) := by
        refine ⟨TopoInv_guard _ hs.1, ?_⟩
        intro i hi
        have hi2 : uvm_processor_mask_set s.gpu_unregister_in_progress gpu i = true := hi
        rw [uvm_processor_mask_set_apply] at hi2
        show s.registered_gpus i = true
        split_ifs at hi2 with hc
        · rw [hc]; exact hreg
        · exact hs.2 i hi2
      cases uvm_gpu_va_space_get (gpu_unregister_in_progress_set s gpu) gpu with
      | none => exact hset
      | some p => exact Inv_of_same_topology (same_topology_stop_all_channels _ p) hset

theorem uvm_va_space_unregister_gpu_finish_Inv {g : uvm_global_t} {s : uvm_va_space_t}
    (gpu : Nat) (hs : Inv g s) (hguard : s.gpu_unregister_in_progress gpu = true) :
    Inv g (uvm_va_space_unregister_gpu_finish g s gpu).2.1 := by
  have hreg := hs.2 gpu hguard
  have hg := (hs.1.reg_range gpu hreg).1
  obtain ⟨u1, u2, u3⟩ := unregister_gpu_inv hg [] hs.1
  unfold uvm_va_space_unregister_gpu_finish
  simp only
  refine Inv_of_same_topology (same_topology_deferred_free _ _) ?_
  refine ⟨TopoInv_guard _ u1, ?_⟩
  intro i hi
  have hi2 : uvm_processor_mask_clear (unregister_gpu g s gpu []).1.gpu_unregister_in_progress
      gpu i = true := hi
  show (unregister_gpu g s gpu []).1.registered_gpus i = true
  rw [u3, uvm_processor_mask_clear_apply] at hi2
  rw [u2, uvm_processor_mask_clear_apply]
  split_ifs at hi2 ⊢ with hc
  exact hs.2 i hi2

theorem enable_peers_Inv {g : uvm_global_t} {s : uvm_va_space_t} {a b : Nat} (hab : a ≠ b)
    (hs : Inv g s) : Inv g (enable_peers g s a b).2 := by
  refine ⟨enable_peers_TopoInv hab hs.1, ?_⟩
  rw [(enable_peers_frame g s a b).1, (enable_peers_frame g s a b).2]
  exact hs.2

theorem disable_peers_Inv {g : uvm_global_t} {s : uvm_va_space_t} {a b : Nat}
    (l : List uvm_deferred_free_object_t) (ha : 0 < a) (hb : 0 < b) (hab : a ≠ b)
    (hs : Inv g s) : Inv g (disable_peers s a b l).1 := by
  refine ⟨disable_peers_TopoInv l ha hb hab hs.1, ?_⟩
  rw [(disable_peers_frame s a b l).1, (disable_peers_frame s a b l).2.1]
  exact hs.2

theorem uvm_api_enable_peer_access_Inv {g : uvm_global_t} {s : uvm_va_space_t}
    (gpuUuidA gpuUuidB : Nat) (retain_pcie_status : NV_STATUS) (hs : Inv g s) :
    Inv g (uvm_api_enable_peer_access g s gpuUuidA gpuUuidB retain_pcie_status).2 := by
  unfold uvm_api_enable_peer_access
  simp only
  split_ifs with h1 h2
  · exact hs
  · exact hs
  · apply enable_peers_Inv _ hs
    intro hab
    apply h1
    unfold retain_pcie_peers_from_uuids at hab ⊢
    cases h3 : uvm_gpu_get_by_uuid g gpuUuidA with
    | none => simp
    | some gpu_1 =>
      cases h4 : uvm_gpu_get_by_uuid g gpuUuidB with
      | none => simp
      | some gpu_2 =>
        simp only [h3, h4] at hab ⊢
        split_ifs at hab ⊢ with h5
        · simp
        · exact absurd hab h5

theorem uvm8_test_enable_nvlink_peer_access_Inv {g : uvm_global_t} {s : uvm_va_space_t}
    (gpuUuidA gpuUuidB : Nat) (hs : Inv g s) :
    Inv g (uvm8_test_enable_nvlink_peer_access g s gpuUuidA gpuUuidB).2 := by
  unfold uvm8_test_enable_nvlink_peer_access
  simp only
  split_ifs with h1 h2
  · exact hs
  · exact hs
  · apply enable_peers_Inv _ hs
    intro hab
    apply h1
    unfold retain_nvlink_peers_from_uuids at hab ⊢
    simp only at hab ⊢
    split_ifs at hab ⊢ with h3 h4 h5 h6
    · exact h3
    · exact h4
    · simp
    · exact absurd hab h5
    · simp

theorem uvm_api_disable_peer_access_Inv {g : uvm_global_t} {s : uvm_va_space_t}
    (gpuUuidA gpuUuidB : Nat) (hs : Inv g s) :
    Inv g (uvm_api_disable_peer_access g s gpuUuidA gpuUuidB).2 := by
  unfold uvm_api_disable_peer_access
  cases h1 : uvm_va_space_get_gpu_by_uuid g s gpuUuidA with
  | none => exact hs
  | some gpu_1 =>
    cases h2 : uvm_va_space_get_gpu_by_uuid g s gpuUuidB with
    | none => exact hs
    | some gpu_2 =>
      simp only
      split_ifs with h3 h4
      · exact hs
      · exact hs
      · exact Inv_of_same_topology (same_topology_deferred_free _ _)
          (disable_peers_Inv [] (uvm_va_space_get_gpu_by_uuid_some h1).1
            (uvm_va_space_get_gpu_by_uuid_some h2).1 h3 hs)

theorem uvm8_test_disable_nvlink_peer_access_Inv {g : uvm_global_t} {s : uvm_va_space_t}
    (gpuUuidA gpuUuidB : Nat) (hs : Inv g s) :
    Inv g (uvm8_test_disable_nvlink_peer_access g s gpuUuidA gpuUuidB).2 := by
  unfold uvm8_test_disable_nvlink_peer_access
  cases h1 : uvm_va_space_get_gpu_by_uuid g s gpuUuidA with
  | none => exact hs
  | some gpu_1 =>
    cases h2 : uvm_va_space_get_gpu_by_uuid g s gpuUuidB with
    | none => exact hs
    | some gpu_2 =>
      simp only
      split_ifs with h3 h4
      · exact hs
      · exact hs
      · exact Inv_of_same_topology (same_topology_deferred_free _ _)
          (disable_peers_Inv [] (uvm_va_space_get_gpu_by_uuid_some h1).1
            (uvm_va_space_get_gpu_by_uuid_some h2).1 h3 hs)

/-- Every reachable address space satisfies the invariants. -/
theorem Reachable_Inv {g : uvm_global_t} {s : uvm_va_space_t} (h : Reachable g s) :
    Inv g s := by
  induction h with
  | create s1 s2 s3 va_space h => exact uvm_va_space_create_Inv h
  | register_gpu va_space gpu_uuid _ ih => exact uvm_va_space_register_gpu_Inv gpu_uuid ih
  | unregister_gpu_begin va_space gpu_uuid _ ih =>
    exact uvm_va_space_unregister_gpu_begin_Inv gpu_uuid ih
  | unregister_gpu_finish va_space gpu _ hguard ih =>
    exact uvm_va_space_unregister_gpu_finish_Inv gpu ih hguard
  | enable_peer_access va_space a b st _ ih => exact uvm_api_enable_peer_access_Inv a b st ih
  | disable_peer_access va_space a b _ ih => exact uvm_api_disable_peer_access_Inv a b ih
  | test_enable_nvlink_peer_access va_space a b _ ih =>
    exact uvm8_test_enable_nvlink_peer_access_Inv a b ih
  | test_disable_nvlink_peer_access va_space a b _ ih =>
    exact uvm8_test_disable_nvlink_peer_access_Inv a b ih
  | register_gpu_va_space va_space rm gpu_uuid _ ih =>
    exact Inv_of_same_topology (same_topology_register_gpu_va_space g va_space rm gpu_uuid) ih
  | unregister_gpu_va_space_begin va_space gpu_uuid _ ih =>
    exact Inv_of_same_topology
      (same_topology_unregister_gpu_va_space_begin g va_space gpu_uuid) ih
  | unregister_gpu_va_space_finish va_space p _ _ ih =>
    exact Inv_of_same_topology (same_topology_unregister_gpu_va_space_finish va_space p) ih
  | va_ranges_change va_space va_ranges _ ih =>
    exact @Inv_of_same_topology g va_space _ ⟨rfl, rfl, rfl, rfl, rfl, rfl, rfl, rfl, rfl, rfl, rfl⟩
      ih
  | mm_shutdown va_space _ ih =>
    exact @Inv_of_same_topology g va_space _ ⟨rfl, rfl, rfl, rfl, rfl, rfl, rfl, rfl, rfl, rfl, rfl⟩
      ih

/-! ## Lemmas: the sample system -/

theorem sample_created_eq :
    uvm_va_space_create true NV_OK NV_OK NV_OK = (NV_OK, some sample_created) := rfl

theorem sample_created_reachable : Reachable sample_global sample_created :=
  Reachable.create NV_OK NV_OK NV_OK sample_created sample_created_eq

theorem sample_one_reachable : Reachable sample_global sample_one :=
  Reachable.register_gpu sample_created 1 sample_created_reachable

theorem sample_two_reachable : Reachable sample_global sample_two :=
  Reachable.register_gpu sample_one 2 sample_one_reachable

theorem sample_shutdown_reachable : Reachable sample_global sample_shutdown :=
  Reachable.mm_shutdown sample_one sample_one_reachable

theorem sample_unregistered_reachable : Reachable sample_global sample_unregistered :=
  Reachable.unregister_gpu_finish (uvm_va_space_unregister_gpu_begin sample_global sample_two 1).2.1
    1 (Reachable.unregister_gpu_begin sample_two 1 sample_two_reachable) (by decide)


/-! ## Lemmas: an update of a pair of devices leaves the bits of one device alone -/

theorem same_cross_refl (s : uvm_va_space_t) : same_cross s s :=
  ⟨rfl, rfl, rfl, fun _ _ _ => ⟨rfl, rfl, rfl, rfl, rfl, rfl⟩⟩

theorem same_cross_trans {s t u : uvm_va_space_t} (h1 : same_cross s t) (h2 : same_cross t u) :
    same_cross s u := by
  obtain ⟨a1, a2, a3, a4⟩ := h1
  obtain ⟨b1, b2, b3, b4⟩ := h2
  refine ⟨b1.trans a1, b2.trans a2, b3.trans a3, ?_⟩
  intro x y hxy
  obtain ⟨c1, c2, c3, c4, c5, c6⟩ := a4 x y hxy
  obtain ⟨d1, d2, d3, d4, d5, d6⟩ := b4 x y hxy
  exact ⟨d1.trans c1, d2.trans c2, d3.trans c3, d4.trans c4, d5.trans c5, d6.trans c6⟩

theorem clear_pair_cross (M : Nat → uvm_processor_mask_t) {a b : Nat} (ha : 0 < a) (hb : 0 < b)
    (hab : a ≠ b) {x y : Nat} (hxy : x = y ∨ x = 0 ∨ y = 0) : clear_pair M a b x y = M x y := by
  rw [clear_pair_apply, if_neg]
  omega

theorem maybe_set_pair_cross (c : Bool) (M : Nat → uvm_processor_mask_t) {a b : Nat}
    (ha : 0 < a) (hb : 0 < b) (hab : a ≠ b) {x y : Nat} (hxy : x = y ∨ x = 0 ∨ y = 0) :
    maybe_set_pair c M a b x y = M x y := by
  rw [maybe_set_pair_apply, if_neg]
  omega

theorem disable_peers_same_cross (s : uvm_va_space_t) {a b : Nat}
    (l : List uvm_deferred_free_object_t) (ha : 0 < a) (hb : 0 < b) (hab : a ≠ b) :
    same_cross s (disable_peers s a b l).1 := by
  cases h : s.enabled_peers (uvm_gpu_peer_table_index a b) with
  | false => rw [disable_peers_fst_of_not_enabled s a b l h]; exact same_cross_refl s
  | true =>
    rw [disable_peers_fst_of_enabled s a b l h]
    refine ⟨rfl, rfl, rfl, ?_⟩
    intro x y hxy
    exact ⟨clear_pair_cross _ ha hb hab hxy, clear_pair_cross _ ha hb hab hxy,
      clear_pair_cross _ ha hb hab hxy, clear_pair_cross _ ha hb hab hxy,
      clear_pair_cross _ ha hb hab hxy, clear_pair_cross _ ha hb hab hxy⟩

theorem enable_peers_masks_same_cross (g : uvm_global_t) (s : uvm_va_space_t) {a b : Nat}
    (ha : 0 < a) (hb : 0 < b) (hab : a ≠ b) : same_cross s (enable_peers_masks g s a b) := by
  rw [enable_peers_masks_eq]
  refine ⟨rfl, rfl, rfl, ?_⟩
  intro x y hxy
  exact ⟨maybe_set_pair_cross true s.can_access ha hb hab hxy,
    maybe_set_pair_cross true s.accessible_from ha hb hab hxy,
    maybe_set_pair_cross _ s.can_copy_from ha hb hab hxy,
    maybe_set_pair_cross _ s.has_nvlink ha hb hab hxy,
    maybe_set_pair_cross _ s.indirect_peers ha hb hab hxy,
    maybe_set_pair_cross _ s.has_native_atomics ha hb hab hxy⟩

theorem enable_peers_same_cross (g : uvm_global_t) (s : uvm_va_space_t) {a b : Nat}
    (ha : 0 < a) (hb : 0 < b) (hab : a ≠ b) : same_cross s (enable_peers g s a b).2 := by
  rcases enable_peers_snd_cases g s a b with h | ⟨_, _, h | h⟩
  · rw [h]; exact same_cross_refl s
  · rw [h]; exact enable_peers_masks_same_cross g s ha hb hab
  · rw [h]
    exact same_cross_trans (enable_peers_masks_same_cross g s ha hb hab)
      (disable_peers_same_cross _ [] ha hb hab)

theorem register_gpu_nvlink_peers_loop_same_cross (g : uvm_global_t) {gpu : Nat} (hg : 0 < gpu)
    (l : List Nat) (hl : ∀ p ∈ l, 0 < p) (s : uvm_va_space_t) :
    same_cross s (register_gpu_nvlink_peers_loop g gpu l s).2 := by
  induction l generalizing s with
  | nil => exact same_cross_refl s
  | cons other rest ih =>
    have hrest : ∀ p ∈ rest, 0 < p := fun p hp => hl p (List.mem_cons_of_mem _ hp)
    have hother : 0 < other := hl other (List.mem_cons_self _ _)
    unfold register_gpu_nvlink_peers_loop
    simp only
    split_ifs with h1 h2 h3
    · exact ih hrest s
    · exact enable_peers_same_cross g s hg hother (Ne.symm h1)
    · exact same_cross_trans (enable_peers_same_cross g s hg hother (Ne.symm h1)) (ih hrest _)
    · exact ih hrest s

theorem register_gpu_nvlink_peers_same_cross (g : uvm_global_t) (s : uvm_va_space_t) {gpu : Nat}
    (hg : 0 < gpu) : same_cross s (register_gpu_nvlink_peers g s gpu).2 := by
  unfold register_gpu_nvlink_peers
  apply register_gpu_nvlink_peers_loop_same_cross g hg
  intro p hp
  exact ((mem_for_each_gpu_id_in_mask _ _).mp hp).1

/-- The loop of the automatic peer enable does nothing when the device is the only
registered one. -/
theorem register_gpu_nvlink_peers_loop_alone (g : uvm_global_t) (gpu : Nat) (l : List Nat)
    (hl : ∀ p ∈ l, p = gpu) (s : uvm_va_space_t) :
    register_gpu_nvlink_peers_loop g gpu l s = (NV_OK, s) := by
  induction l with
  | nil => rfl
  | cons other rest ih =>
    unfold register_gpu_nvlink_peers_loop
    rw [if_pos (hl other (List.mem_cons_self _ _))]
    exact ih fun p hp => hl p (List.mem_cons_of_mem _ hp)

theorem register_gpu_mixing_of_mem {g : uvm_global_t} {s : uvm_va_space_t} {gpu other : Nat}
    (hother : 0 < other ∧ other < UVM_MAX_PROCESSORS) (hreg : s.registered_gpus other = true)
    (hmix : ((g.gpus gpu).sysmem_link ≥ UVM_GPU_LINK_NVLINK_2 ∧
        (g.gpus other).sysmem_link < UVM_GPU_LINK_NVLINK_2) ∨
      ((g.gpus gpu).sysmem_link < UVM_GPU_LINK_NVLINK_2 ∧
        (g.gpus other).sysmem_link ≥ UVM_GPU_LINK_NVLINK_2)) :
    register_gpu_mixing g s gpu = true := by
  unfold register_gpu_mixing
  rw [List.any_eq_true]
  refine ⟨other, (mem_for_each_gpu_id_in_mask _ _).mpr ⟨hother.1, hother.2, hreg⟩, ?_⟩
  simpa using hmix

/-! ## Lemmas: what `uvm_va_space_register_gpu` returns -/

theorem uvm_va_space_register_gpu_eq (g : uvm_global_t) (s : uvm_va_space_t) (gpu_uuid : Nat) :
    uvm_va_space_register_gpu g s gpu_uuid =
      if (uvm_gpu_retain_by_uuid g gpu_uuid).1 ≠ NV_OK then
        ((uvm_gpu_retain_by_uuid g gpu_uuid).1, s, none)
      else if uvm_processor_mask_test s.registered_gpus (uvm_gpu_retain_by_uuid g gpu_uuid).2
      then (NV_ERR_INVALID_DEVICE, s, none)
      else if register_gpu_mixing g s (uvm_gpu_retain_by_uuid g gpu_uuid).2 then
        (NV_ERR_INVALID_DEVICE, s, none)
      else if s.disallow_new_registers then (NV_ERR_PAGE_TABLE_NOT_AVAIL, s, none)
      else
        ((register_gpu_nvlink_peers g
            (register_gpu_masks g s (uvm_gpu_retain_by_uuid g gpu_uuid).2)
            (uvm_gpu_retain_by_uuid g gpu_uuid).2).1,
          (if (register_gpu_nvlink_peers g
              (register_gpu_masks g s (uvm_gpu_retain_by_uuid g gpu_uuid).2)
              (uvm_gpu_retain_by_uuid g gpu_uuid).2).1 ≠ NV_OK then
            (unregister_gpu g (register_gpu_nvlink_peers g
              (register_gpu_masks g s (uvm_gpu_retain_by_uuid g gpu_uuid).2)
              (uvm_gpu_retain_by_uuid g gpu_uuid).2).2
              (uvm_gpu_retain_by_uuid g gpu_uuid).2 []).1
          else
            (register_gpu_nvlink_peers g
              (register_gpu_masks g s (uvm_gpu_retain_by_uuid g gpu_uuid).2)
              (uvm_gpu_retain_by_uuid g gpu_uuid).2).2),
          some (if (g.gpus (uvm_gpu_retain_by_uuid g gpu_uuid).2).numa_info_enabled then
            (true, (g.gpus (uvm_gpu_retain_by_uuid g gpu_uuid).2).numa_info_node_id)
          else (false, -1))) := by
  unfold uvm_va_space_register_gpu
  rfl

theorem uvm_va_space_create_fields {alloc_ok : Bool} {s1 s2 s3 : NV_STATUS}
    {s : uvm_va_space_t} (h : uvm_va_space_create alloc_ok s1 s2 s3 = (NV_OK, some s)) :
    s.registered_gpus = uvm_processor_mask_zero ∧ s.disallow_new_registers = false := by
  unfold uvm_va_space_create at h
  simp only at h
  split_ifs at h
  all_goals try (simp at h; done)
  simp only [Prod.mk.injEq, Option.some.injEq, true_and] at h
  subst h
  exact ⟨rfl, rfl⟩

theorem for_each_gpu_id_in_mask_zero : for_each_gpu_id_in_mask uvm_processor_mask_zero = [] := by
  unfold for_each_gpu_id_in_mask
  rw [List.filter_eq_nil_iff]
  intro a _
  simp [uvm_processor_mask_zero]

/-! ## The claims -/

/-- C1: in every state reachable from a freshly created address space by the entry points
of the file (device registration and unregistration, peer enable and disable, registration
and unregistration of a device VA context), each of the six capability matrices has the
same bit at `[a][b]` as at `[b][a]` for every two distinct registered devices `a` and `b`. -/
theorem c1_registered_pairs_symmetric (g : uvm_global_t) (s : uvm_va_space_t)
    (h : Reachable g s) (a b : Nat)
    (ha : uvm_processor_mask_test s.registered_gpus a = true)
    (hb : uvm_processor_mask_test s.registered_gpus b = true) (hab : a ≠ b) :
    s.can_access a b = s.can_access b a ∧
    s.accessible_from a b = s.accessible_from b a ∧
    s.can_copy_from a b = s.can_copy_from b a ∧
    s.has_nvlink a b = s.has_nvlink b a ∧
    s.indirect_peers a b = s.indirect_peers b a ∧
    s.has_native_atomics a b = s.has_native_atomics b a := by
  have hi := (Reachable_Inv h).1
  have ha0 := (hi.reg_range a ha).1
  have hb0 := (hi.reg_range b hb).1
  exact ⟨hi.can_access.1 a b ha0 hb0 hab, hi.accessible_from.1 a b ha0 hb0 hab,
    hi.can_copy_from.1 a b ha0 hb0 hab, hi.has_nvlink.1 a b ha0 hb0 hab,
    hi.indirect_peers.1 a b ha0 hb0 hab, hi.has_native_atomics.1 a b ha0 hb0 hab⟩

theorem c1_registered_pairs_symmetric_witness :
    Reachable sample_global sample_two ∧
    uvm_processor_mask_test sample_two.registered_gpus 1 = true ∧
    uvm_processor_mask_test sample_two.registered_gpus 2 = true ∧
    (sample_two.can_access 1 2 = sample_two.can_access 2 1 ∧
      sample_two.accessible_from 1 2 = sample_two.accessible_from 2 1 ∧
      sample_two.can_copy_from 1 2 = sample_two.can_copy_from 2 1 ∧
      sample_two.has_nvlink 1 2 = sample_two.has_nvlink 2 1 ∧
      sample_two.indirect_peers 1 2 = sample_two.indirect_peers 2 1 ∧
      sample_two.has_native_atomics 1 2 = sample_two.has_native_atomics 2 1) :=
  ⟨sample_two_reachable, by decide, by decide,
    c1_registered_pairs_symmetric sample_global sample_two sample_two_reachable 1 2
      (by decide) (by decide) (by decide)⟩

/-- C2: in every reachable state of an address space, if the `enabled_peers` bit of the
unordered pair of two devices `a` and `b` is set, then both are in `registered_gpus`.  The
reachable states are closed under device registration (with its automatic NVLink peering
and its rollback), device unregistration, peer enable and peer disable, so each of them
preserves the invariant. -/
theorem c2_enabled_pair_registered (g : uvm_global_t) (s : uvm_va_space_t)
    (h : Reachable g s) (a b : Nat) (ha : UVM_CPU_ID < a) (hb : UVM_CPU_ID < b) (hab : a ≠ b)
    (hen : test_bit (uvm_gpu_peer_table_index a b) s.enabled_peers = true) :
    uvm_processor_mask_test s.registered_gpus a = true ∧
    uvm_processor_mask_test s.registered_gpus b = true :=
  (Reachable_Inv h).1.enabled_reg a b ha hb hab hen

theorem c2_enabled_pair_registered_witness :
    Reachable sample_global sample_two ∧
    test_bit (uvm_gpu_peer_table_index 1 2) sample_two.enabled_peers = true ∧
    uvm_processor_mask_test sample_two.registered_gpus 1 = true ∧
    uvm_processor_mask_test sample_two.registered_gpus 2 = true :=
  ⟨sample_two_reachable, by decide,
    c2_enabled_pair_registered sample_global sample_two sample_two_reachable 1 2 (by decide)
      (by decide) (by decide) (by decide)⟩

/-- C4, as stated, fails: after device 1 is registered in a fresh address space,
`can_access[1][host]` is set and `can_access[host][1]` is not. -/
theorem c4_counterexample :
    Reachable sample_global sample_one ∧
    sample_one.can_access 1 UVM_CPU_ID = true ∧ sample_one.can_access UVM_CPU_ID 1 = false :=
  ⟨sample_one_reachable, by decide, by decide⟩

/-- C4, amended: in every reachable state, for all processor ids `x ≠ y` (the host
included), `can_copy_from`, `has_nvlink` and `indirect_peers` have the same bit at `[x][y]`
as at `[y][x]`; `can_access`, `accessible_from` and `has_native_atomics` do so when `x` and
`y` are both devices; and between the host and a processor `x` the bits
`can_access[host][x]`, `accessible_from[x][host]` and `has_native_atomics[host][x]` are set
only if `can_access[x][host]`, `accessible_from[host][x]` and `has_native_atomics[x][host]`
are. -/
theorem c4_symmetry_with_host (g : uvm_global_t) (s : uvm_va_space_t) (h : Reachable g s)
    (x y : Nat) (hxy : x ≠ y) :
    s.can_copy_from x y = s.can_copy_from y x ∧
    s.has_nvlink x y = s.has_nvlink y x ∧
    s.indirect_peers x y = s.indirect_peers y x ∧
    (x ≠ UVM_CPU_ID → y ≠ UVM_CPU_ID →
      s.can_access x y = s.can_access y x ∧
      s.accessible_from x y = s.accessible_from y x ∧
      s.has_native_atomics x y = s.has_native_atomics y x) ∧
    (s.can_access UVM_CPU_ID x = true → s.can_access x UVM_CPU_ID = true) ∧
    (s.accessible_from x UVM_CPU_ID = true → s.accessible_from UVM_CPU_ID x = true) ∧
    (s.has_native_atomics UVM_CPU_ID x = true → s.has_native_atomics x UVM_CPU_ID = true) := by
  have hi := (Reachable_Inv h).1
  have hdev : x ≠ 0 → y ≠ 0 →
      s.can_access x y = s.can_access y x ∧
      s.accessible_from x y = s.accessible_from y x ∧
      s.has_native_atomics x y = s.has_native_atomics y x := by
    intro hx hy
    have hx0 := Nat.pos_of_ne_zero hx
    have hy0 := Nat.pos_of_ne_zero hy
    exact ⟨hi.can_access.1 x y hx0 hy0 hxy, hi.accessible_from.1 x y hx0 hy0 hxy,
      hi.has_native_atomics.1 x y hx0 hy0 hxy⟩
  refine ⟨?_, ?_, ?_, hdev, (hi.host_impl x).1, (hi.host_impl x).2.1, (hi.host_impl x).2.2⟩
  · rcases Nat.eq_zero_or_pos x with rfl | hx
    · exact ((hi.host_sym y).1).symm
    · rcases Nat.eq_zero_or_pos y with rfl | hy
      · exact (hi.host_sym x).1
      · exact hi.can_copy_from.1 x y hx hy hxy
  · rcases Nat.eq_zero_or_pos x with rfl | hx
    · exact ((hi.host_sym y).2).symm
    · rcases Nat.eq_zero_or_pos y with rfl | hy
      · exact (hi.host_sym x).2
      · exact hi.has_nvlink.1 x y hx hy hxy
  · rcases Nat.eq_zero_or_pos x with rfl | hx
    · rw [(hi.indirect_host y).2.1, (hi.indirect_host y).2.2]
    · rcases Nat.eq_zero_or_pos y with rfl | hy
      · rw [(hi.indirect_host x).2.1, (hi.indirect_host x).2.2]
      · exact hi.indirect_peers.1 x y hx hy hxy

theorem c4_symmetry_with_host_witness :
    Reachable sample_global sample_one ∧ (1 : Nat) ≠ UVM_CPU_ID ∧
    (sample_one.can_copy_from 1 UVM_CPU_ID = sample_one.can_copy_from UVM_CPU_ID 1 ∧
      sample_one.has_nvlink 1 UVM_CPU_ID = sample_one.has_nvlink UVM_CPU_ID 1 ∧
      sample_one.indirect_peers 1 UVM_CPU_ID = sample_one.indirect_peers UVM_CPU_ID 1 ∧
      ((1 : Nat) ≠ UVM_CPU_ID → UVM_CPU_ID ≠ UVM_CPU_ID →
        sample_one.can_access 1 UVM_CPU_ID = sample_one.can_access UVM_CPU_ID 1 ∧
        sample_one.accessible_from 1 UVM_CPU_ID = sample_one.accessible_from UVM_CPU_ID 1 ∧
        sample_one.has_native_atomics 1 UVM_CPU_ID =
          sample_one.has_native_atomics UVM_CPU_ID 1) ∧
      (sample_one.can_access UVM_CPU_ID 1 = true → sample_one.can_access 1 UVM_CPU_ID = true) ∧
      (sample_one.accessible_from 1 UVM_CPU_ID = true →
        sample_one.accessible_from UVM_CPU_ID 1 = true) ∧
      (sample_one.has_native_atomics UVM_CPU_ID 1 = true →
        sample_one.has_native_atomics 1 UVM_CPU_ID = true)) :=
  ⟨sample_one_reachable, by decide,
    c4_symmetry_with_host sample_global sample_one sample_one_reachable 1 UVM_CPU_ID
      (by decide)⟩

/-- C5: the self bits of the host in `can_access`, `accessible_from`, `can_copy_from` and
`has_native_atomics` are set in the address space `uvm_va_space_create` returns and in
every state reached from it by the entry points of the file, whose devices have ids of at
least 1. -/
theorem c5_host_self_bits (g : uvm_global_t) (s : uvm_va_space_t) (h : Reachable g s) :
    s.can_access UVM_CPU_ID UVM_CPU_ID = true ∧
    s.accessible_from UVM_CPU_ID UVM_CPU_ID = true ∧
    s.can_copy_from UVM_CPU_ID UVM_CPU_ID = true ∧
    s.has_native_atomics UVM_CPU_ID UVM_CPU_ID = true :=
  (Reachable_Inv h).1.host_self

theorem c5_host_self_bits_witness :
    Reachable sample_global sample_unregistered ∧
    (sample_unregistered.can_access UVM_CPU_ID UVM_CPU_ID = true ∧
      sample_unregistered.accessible_from UVM_CPU_ID UVM_CPU_ID = true ∧
      sample_unregistered.can_copy_from UVM_CPU_ID UVM_CPU_ID = true ∧
      sample_unregistered.has_native_atomics UVM_CPU_ID UVM_CPU_ID = true) :=
  ⟨sample_unregistered_reachable,
    c5_host_self_bits sample_global sample_unregistered sample_unregistered_reachable⟩

/-- C6: for every address space and every device that is already in `registered_gpus`,
`uvm_va_space_register_gpu` returns `NV_ERR_INVALID_DEVICE`, writes no output, and returns
the address space it was given: the registered set, the capability matrices, the enabled
pairs, the faultable and atomics masks and the affinity array are unchanged. -/
theorem c6_register_registered_device (g : uvm_global_t) (s : uvm_va_space_t)
    (gpu_uuid gpu : Nat) (hret : uvm_gpu_retain_by_uuid g gpu_uuid = (NV_OK, gpu))
    (hreg : uvm_processor_mask_test s.registered_gpus gpu = true) :
    uvm_va_space_register_gpu g s gpu_uuid = (NV_ERR_INVALID_DEVICE, s, none) := by
  rw [uvm_va_space_register_gpu_eq, hret]
  simp only [ne_eq, not_true_eq_false, if_false, hreg, if_true]

theorem c6_register_registered_device_witness :
    uvm_gpu_retain_by_uuid sample_global 1 = (NV_OK, 1) ∧
    uvm_processor_mask_test sample_one.registered_gpus 1 = true ∧
    uvm_va_space_register_gpu sample_global sample_one 1 =
      (NV_ERR_INVALID_DEVICE, sample_one, none) :=
  ⟨by decide, by decide,
    c6_register_registered_device sample_global sample_one 1 1 (by decide) (by decide)⟩

/-- C7: for every address space in which some registered device has its link to host memory
on the other side of the `UVM_GPU_LINK_NVLINK_2` threshold from the link of the new device
(one at or above it, the other below), `uvm_va_space_register_gpu` of the new device
returns `NV_ERR_INVALID_DEVICE`, writes no output, and returns the address space it was
given, so no bit of the new device or of a registered device changes. -/
theorem c7_register_mixed_generations (g : uvm_global_t) (s : uvm_va_space_t)
    (gpu_uuid gpu other : Nat) (hret : uvm_gpu_retain_by_uuid g gpu_uuid = (NV_OK, gpu))
    (hother : UVM_CPU_ID < other ∧ other < UVM_MAX_PROCESSORS)
    (hreg : uvm_processor_mask_test s.registered_gpus other = true)
    (hmix : ((g.gpus gpu).sysmem_link ≥ UVM_GPU_LINK_NVLINK_2 ∧
        (g.gpus other).sysmem_link < UVM_GPU_LINK_NVLINK_2) ∨
      ((g.gpus gpu).sysmem_link < UVM_GPU_LINK_NVLINK_2 ∧
        (g.gpus other).sysmem_link ≥ UVM_GPU_LINK_NVLINK_2)) :
    uvm_va_space_register_gpu g s gpu_uuid = (NV_ERR_INVALID_DEVICE, s, none) := by
  rw [uvm_va_space_register_gpu_eq, hret]
  simp only [ne_eq, not_true_eq_false, if_false, register_gpu_mixing_of_mem hother hreg hmix,
    if_true]
  split_ifs <;> rfl

theorem c7_register_mixed_generations_witness :
    uvm_gpu_retain_by_uuid sample_global 3 = (NV_OK, 3) ∧
    (UVM_CPU_ID < 1 ∧ 1 < UVM_MAX_PROCESSORS) ∧
    uvm_processor_mask_test sample_one.registered_gpus 1 = true ∧
    (((sample_global.gpus 3).sysmem_link ≥ UVM_GPU_LINK_NVLINK_2 ∧
        (sample_global.gpus 1).sysmem_link < UVM_GPU_LINK_NVLINK_2) ∨
      ((sample_global.gpus 3).sysmem_link < UVM_GPU_LINK_NVLINK_2 ∧
        (sample_global.gpus 1).sysmem_link ≥ UVM_GPU_LINK_NVLINK_2)) ∧
    uvm_va_space_register_gpu sample_global sample_one 3 =
      (NV_ERR_INVALID_DEVICE, sample_one, none) :=
  ⟨by decide, by decide, by decide, by decide,
    c7_register_mixed_generations sample_global sample_one 3 3 1 (by decide) (by decide)
      (by decide) (by decide)⟩

/-- C8, as stated, fails: with device 1 registered and `disallow_new_registers` set,
registering device 1 again fails with `NV_ERR_INVALID_DEVICE`, not with
`NV_ERR_PAGE_TABLE_NOT_AVAIL`. -/
theorem c8_counterexample :
    Reachable sample_global sample_shutdown ∧
    sample_shutdown.disallow_new_registers = true ∧
    (uvm_va_space_register_gpu sample_global sample_shutdown 1).1 = NV_ERR_INVALID_DEVICE :=
  ⟨sample_shutdown_reachable, by decide, by decide⟩

/-- C8, amended: for every device and every address space with `disallow_new_registers` set,
`uvm_va_space_register_gpu` fails, writes no output, and returns the address space it was
given; the status is `NV_ERR_PAGE_TABLE_NOT_AVAIL` when the device is not yet registered
and no registered device is on the other side of the `UVM_GPU_LINK_NVLINK_2` threshold,
and `NV_ERR_INVALID_DEVICE` otherwise, since those two tests come first. -/
theorem c8_register_during_teardown (g : uvm_global_t) (s : uvm_va_space_t)
    (gpu_uuid gpu : Nat) (hret : uvm_gpu_retain_by_uuid g gpu_uuid = (NV_OK, gpu))
    (hdis : s.disallow_new_registers = true) :
    uvm_va_space_register_gpu g s gpu_uuid =
      (if uvm_processor_mask_test s.registered_gpus gpu || register_gpu_mixing g s gpu then
        NV_ERR_INVALID_DEVICE else NV_ERR_PAGE_TABLE_NOT_AVAIL, s, none) := by
  rw [uvm_va_space_register_gpu_eq, hret]
  simp only [ne_eq, not_true_eq_false, if_false, hdis, if_true]
  cases uvm_processor_mask_test s.registered_gpus gpu <;>
    cases register_gpu_mixing g s gpu <;> rfl

theorem c8_register_during_teardown_witness :
    uvm_gpu_retain_by_uuid sample_global 2 = (NV_OK, 2) ∧
    sample_shutdown.disallow_new_registers = true ∧
    uvm_va_space_register_gpu sample_global sample_shutdown 2 =
      (if uvm_processor_mask_test sample_shutdown.registered_gpus 2 ||
          register_gpu_mixing sample_global sample_shutdown 2 then
        NV_ERR_INVALID_DEVICE else NV_ERR_PAGE_TABLE_NOT_AVAIL, sample_shutdown, none) :=
  ⟨by decide, by decide,
    c8_register_during_teardown sample_global sample_shutdown 2 2 (by decide) (by decide)⟩

/-- C9, as stated, fails: registering device 3, which has NUMA enabled on node 7, in a
fresh address space returns `NV_OK` and reports `numa_enabled = true` with node 7. -/
theorem c9_counterexample :
    uvm_va_space_create true NV_OK NV_OK NV_OK = (NV_OK, some sample_created) ∧
    (uvm_va_space_register_gpu sample_global sample_created 3).1 = NV_OK ∧
    (uvm_va_space_register_gpu sample_global sample_created 3).2.2 = some (true, 7) :=
  ⟨sample_created_eq, by decide, by decide⟩

/-- C9, amended: for every device, `uvm_va_space_register_gpu` on a freshly created address
space returns `NV_OK` and reports the NUMA state of the device: `numa_enabled = false` with
`numa_node_id = -1` when NUMA is not enabled on the device, and `numa_enabled = true` with
the node id of the device when it is. -/
theorem c9_register_on_fresh_space (g : uvm_global_t) (s : uvm_va_space_t)
    (s1 s2 s3 : NV_STATUS) (gpu_uuid gpu : Nat)
    (hcreate : uvm_va_space_create true s1 s2 s3 = (NV_OK, some s))
    (hret : uvm_gpu_retain_by_uuid g gpu_uuid = (NV_OK, gpu)) :
    (uvm_va_space_register_gpu g s gpu_uuid).1 = NV_OK ∧
    (uvm_va_space_register_gpu g s gpu_uuid).2.2 =
      some (if (g.gpus gpu).numa_info_enabled then (true, (g.gpus gpu).numa_info_node_id)
        else (false, -1)) := by
  obtain ⟨hreg, hdis⟩ := uvm_va_space_create_fields hcreate
  have hmix : register_gpu_mixing g s gpu = false := by
    unfold register_gpu_mixing
    rw [hreg, for_each_gpu_id_in_mask_zero]
    rfl
  have hpeers : register_gpu_nvlink_peers g (register_gpu_masks g s gpu) gpu =
      (NV_OK, register_gpu_masks g s gpu) := by
    unfold register_gpu_nvlink_peers
    apply register_gpu_nvlink_peers_loop_alone
    intro p hp
    have hm := ((mem_for_each_gpu_id_in_mask _ _).mp hp).2.2
    rw [(register_gpu_masks_frame g s gpu).1, hreg, uvm_processor_mask_set_apply] at hm
    split_ifs at hm with hc
    · exact hc
    · exact absurd hm Bool.false_ne_true
  rw [uvm_va_space_register_gpu_eq, hret]
  simp only [ne_eq, not_true_eq_false, if_false, uvm_processor_mask_test, hreg,
    uvm_processor_mask_zero, Bool.false_eq_true, hmix, hdis, hpeers, and_self]

theorem c9_register_on_fresh_space_witness :
    uvm_va_space_create true NV_OK NV_OK NV_OK = (NV_OK, some sample_created) ∧
    uvm_gpu_retain_by_uuid sample_global 1 = (NV_OK, 1) ∧
    ((uvm_va_space_register_gpu sample_global sample_created 1).1 = NV_OK ∧
      (uvm_va_space_register_gpu sample_global sample_created 1).2.2 =
        some (if (sample_global.gpus 1).numa_info_enabled then
          (true, (sample_global.gpus 1).numa_info_node_id) else (false, -1))) :=
  ⟨sample_created_eq, by decide,
    c9_register_on_fresh_space sample_global sample_created NV_OK NV_OK NV_OK 1 1
      sample_created_eq (by decide)⟩

/-- The state and the status of a successful `uvm_va_space_register_gpu`. -/
theorem uvm_va_space_register_gpu_ok {g : uvm_global_t} {s : uvm_va_space_t}
    {gpu_uuid gpu : Nat} (hret : uvm_gpu_retain_by_uuid g gpu_uuid = (NV_OK, gpu))
    (hok : (uvm_va_space_register_gpu g s gpu_uuid).1 = NV_OK) :
    s.registered_gpus gpu = false ∧
    (uvm_va_space_register_gpu g s gpu_uuid).2.1 =
      (register_gpu_nvlink_peers g (register_gpu_masks g s gpu) gpu).2 := by
  rw [uvm_va_space_register_gpu_eq, hret] at hok ⊢
  simp only [ne_eq, not_true_eq_false, if_false, uvm_processor_mask_test] at hok ⊢
  cases h1 : s.registered_gpus gpu with
  | true => simp [h1] at hok
  | false =>
    cases h2 : register_gpu_mixing g s gpu with
    | true => simp [h1, h2] at hok
    | false =>
      cases h3 : s.disallow_new_registers with
      | true => simp [h1, h2, h3] at hok
      | false =>
        simp only [h1, h2, h3, Bool.false_eq_true, if_false] at hok ⊢
        rw [if_neg (not_not.mpr hok)]
        exact ⟨trivial, rfl⟩

/-- C10: after a successful `uvm_va_space_register_gpu` of a device from a reachable address
space, the device is in `registered_gpus`; its bits `can_access[g][g]`,
`accessible_from[g][g]`, `can_access[g][host]`, `accessible_from[host][g]`,
`can_copy_from[g][g]`, `can_copy_from[g][host]`, `can_copy_from[host][g]` and
`has_native_atomics[g][g]` are set; it is in `faultable_processors` and in
`system_wide_atomics_enabled_processors` exactly when it handles replayable faults;
`has_nvlink[g][host]` and `has_nvlink[host][g]` are set exactly when its link to host
memory is at least `UVM_GPU_LINK_NVLINK_1`; and `can_access[host][g]`,
`accessible_from[g][host]` and `has_native_atomics[host][g]` are set exactly when that link
is at least `UVM_GPU_LINK_NVLINK_2` and NUMA is enabled on the device. -/
theorem c10_register_sets_device_bits (g : uvm_global_t) (s : uvm_va_space_t)
    (gpu_uuid gpu : Nat) (h : Reachable g s)
    (hret : uvm_gpu_retain_by_uuid g gpu_uuid = (NV_OK, gpu))
    (hok : (uvm_va_space_register_gpu g s gpu_uuid).1 = NV_OK) :
    uvm_processor_mask_test (uvm_va_space_register_gpu g s gpu_uuid).2.1.registered_gpus gpu
      = true ∧
    (uvm_va_space_register_gpu g s gpu_uuid).2.1.can_access gpu gpu = true ∧
    (uvm_va_space_register_gpu g s gpu_uuid).2.1.accessible_from gpu gpu = true ∧
    (uvm_va_space_register_gpu g s gpu_uuid).2.1.can_access gpu UVM_CPU_ID = true ∧
    (uvm_va_space_register_gpu g s gpu_uuid).2.1.accessible_from UVM_CPU_ID gpu = true ∧
    (uvm_va_space_register_gpu g s gpu_uuid).2.1.can_copy_from gpu gpu = true ∧
    (uvm_va_space_register_gpu g s gpu_uuid).2.1.can_copy_from gpu UVM_CPU_ID = true ∧
    (uvm_va_space_register_gpu g s gpu_uuid).2.1.can_copy_from UVM_CPU_ID gpu = true ∧
    (uvm_va_space_register_gpu g s gpu_uuid).2.1.has_native_atomics gpu gpu = true ∧
    ((uvm_va_space_register_gpu g s gpu_uuid).2.1.faultable_processors gpu = true ↔
      (g.gpus gpu).replayable_faults_handling = true) ∧
    ((uvm_va_space_register_gpu g s gpu_uuid).2.1.system_wide_atomics_enabled_processors gpu
        = true ↔ (g.gpus gpu).replayable_faults_handling = true) ∧
    ((uvm_va_space_register_gpu g s gpu_uuid).2.1.has_nvlink gpu UVM_CPU_ID = true ↔
      (g.gpus gpu).sysmem_link ≥ UVM_GPU_LINK_NVLINK_1) ∧
    ((uvm_va_space_register_gpu g s gpu_uuid).2.1.has_nvlink UVM_CPU_ID gpu = true ↔
      (g.gpus gpu).sysmem_link ≥ UVM_GPU_LINK_NVLINK_1) ∧
    ((uvm_va_space_register_gpu g s gpu_uuid).2.1.can_access UVM_CPU_ID gpu = true ↔
      (g.gpus gpu).sysmem_link ≥ UVM_GPU_LINK_NVLINK_2 ∧
        (g.gpus gpu).numa_info_enabled = true) ∧
    ((uvm_va_space_register_gpu g s gpu_uuid).2.1.accessible_from gpu UVM_CPU_ID = true ↔
      (g.gpus gpu).sysmem_link ≥ UVM_GPU_LINK_NVLINK_2 ∧
        (g.gpus gpu).numa_info_enabled = true) ∧
    ((uvm_va_space_register_gpu g s gpu_uuid).2.1.has_native_atomics UVM_CPU_ID gpu = true ↔
      (g.gpus gpu).sysmem_link ≥ UVM_GPU_LINK_NVLINK_2 ∧
        (g.gpus gpu).numa_info_enabled = true) := by
  have hi := (Reachable_Inv h).1
  have hgpu : 0 < gpu := by
    have := @uvm_gpu_retain_by_uuid_ok g gpu_uuid (by rw [hret])
    rw [hret] at this
    exact this.1
  have h0 : (0 : Nat) ≠ gpu := by omega
  obtain ⟨hnr, hstate⟩ := uvm_va_space_register_gpu_ok hret hok
  -- before the call no bit of the device is set
  have hpre : ∀ M : Nat → uvm_processor_mask_t, CrossReg s.registered_gpus M →
      M gpu gpu = false ∧ M gpu 0 = false ∧ M 0 gpu = false := by
    intro M hM
    have hno : ¬(M gpu gpu = true ∨ M gpu 0 = true ∨ M 0 gpu = true) := by
      intro hc
      have := hM gpu hgpu hc
      rw [hnr] at this
      exact Bool.false_ne_true this
    simp only [not_or, Bool.not_eq_true] at hno
    exact hno
  have hca := hpre _ hi.can_access.2.2
  have haf := hpre _ hi.accessible_from.2.2
  have hnv := hpre _ hi.has_nvlink.2.2
  have hna := hpre _ hi.has_native_atomics.2.2
  have hfa : s.faultable_processors gpu = false := by
    cases hc : s.faultable_processors gpu with
    | false => rfl
    | true =>
      have := (hi.faultable gpu hgpu hc).1
      rw [hnr] at this
      exact absurd this Bool.false_ne_true
  have hat : s.system_wide_atomics_enabled_processors gpu = false := by
    cases hc : s.system_wide_atomics_enabled_processors gpu with
    | false => rfl
    | true =>
      have := hi.atomics gpu hgpu hc
      rw [hnr] at this
      exact absurd this Bool.false_ne_true
  -- the automatic peer enable leaves the bits of the device alone
  obtain ⟨c1, c2, c3, c4⟩ :=
    register_gpu_nvlink_peers_same_cross g (register_gpu_masks g s gpu) hgpu
  rw [hstate, uvm_processor_mask_test, c1, c2, c3]
  simp only [(c4 gpu gpu (Or.inl rfl)).1, (c4 gpu gpu (Or.inl rfl)).2.1,
    (c4 gpu gpu (Or.inl rfl)).2.2.1, (c4 gpu gpu (Or.inl rfl)).2.2.2.2.2,
    (c4 gpu 0 (Or.inr (Or.inr rfl))).1, (c4 gpu 0 (Or.inr (Or.inr rfl))).2.1,
    (c4 gpu 0 (Or.inr (Or.inr rfl))).2.2.1, (c4 gpu 0 (Or.inr (Or.inr rfl))).2.2.2.1,
    (c4 0 gpu (Or.inr (Or.inl rfl))).1, (c4 0 gpu (Or.inr (Or.inl rfl))).2.1,
    (c4 0 gpu (Or.inr (Or.inl rfl))).2.2.1, (c4 0 gpu (Or.inr (Or.inl rfl))).2.2.2.1,
    (c4 0 gpu (Or.inr (Or.inl rfl))).2.2.2.2.2]
  rw [register_gpu_masks_eq]
  simp only [uvm_processor_mask_set_apply, mask_array_set_apply, maybe_set_apply]
  refine ⟨by simp, by simp, by simp, by simp, by simp, by simp, by simp, by simp, by simp,
    ?_, ?_, ?_, ?_, ?_, ?_, ?_⟩
  · cases hc : (g.gpus gpu).replayable_faults_handling <;>
      simp [hfa, uvm_processor_mask_set_apply]
  · cases hc : (g.gpus gpu).replayable_faults_handling <;>
      simp [hat, uvm_processor_mask_set_apply]
  · simp [h0, h0.symm, hnv.2.1]
  · simp [h0, h0.symm, hnv.2.2]
  · simp [h0, h0.symm, hca.2.2]
  · simp [h0, h0.symm, haf.2.1]
  · simp [h0, h0.symm, hna.2.2]

theorem c10_register_sets_device_bits_witness :
    Reachable sample_global sample_created ∧
    uvm_gpu_retain_by_uuid sample_global 3 = (NV_OK, 3) ∧
    (uvm_va_space_register_gpu sample_global sample_created 3).1 = NV_OK ∧
    (uvm_processor_mask_test sample_three.registered_gpus 3 = true ∧
      sample_three.can_access 3 3 = true ∧
      sample_three.accessible_from 3 3 = true ∧
      sample_three.can_access 3 UVM_CPU_ID = true ∧
      sample_three.accessible_from UVM_CPU_ID 3 = true ∧
      sample_three.can_copy_from 3 3 = true ∧
      sample_three.can_copy_from 3 UVM_CPU_ID = true ∧
      sample_three.can_copy_from UVM_CPU_ID 3 = true ∧
      sample_three.has_native_atomics 3 3 = true ∧
      (sample_three.faultable_processors 3 = true ↔
        (sample_global.gpus 3).replayable_faults_handling = true) ∧
      (sample_three.system_wide_atomics_enabled_processors 3
          = true ↔ (sample_global.gpus 3).replayable_faults_handling = true) ∧
      (sample_three.has_nvlink 3 UVM_CPU_ID = true ↔
        (sample_global.gpus 3).sysmem_link ≥ UVM_GPU_LINK_NVLINK_1) ∧
      (sample_three.has_nvlink UVM_CPU_ID 3 = true ↔
        (sample_global.gpus 3).sysmem_link ≥ UVM_GPU_LINK_NVLINK_1) ∧
      (sample_three.can_access UVM_CPU_ID 3 = true ↔
        (sample_global.gpus 3).sysmem_link ≥ UVM_GPU_LINK_NVLINK_2 ∧
          (sample_global.gpus 3).numa_info_enabled = true) ∧
      (sample_three.accessible_from 3 UVM_CPU_ID = true ↔
        (sample_global.gpus 3).sysmem_link ≥ UVM_GPU_LINK_NVLINK_2 ∧
          (sample_global.gpus 3).numa_info_enabled = true) ∧
      (sample_three.has_native_atomics UVM_CPU_ID 3 = true ↔
        (sample_global.gpus 3).sysmem_link ≥ UVM_GPU_LINK_NVLINK_2 ∧
          (sample_global.gpus 3).numa_info_enabled = true)) :=
  ⟨sample_created_reachable, by decide, by decide,
    c10_register_sets_device_bits sample_global sample_created 3 3 sample_created_reachable
      (by decide) (by decide)⟩

/-! ## Lemmas: the automatic peer enable -/

theorem enable_peers_ok {g : uvm_global_t} {s : uvm_va_space_t} {a b : Nat}
    (hok : (enable_peers g s a b).1 = NV_OK) :
    (enable_peers g s a b).2 = enable_peers_masks g s a b ∧
    s.registered_gpus a = true ∧ s.registered_gpus b = true := by
  unfold enable_peers at hok ⊢
  simp only [uvm_processor_mask_test] at hok ⊢
  split_ifs at hok ⊢ with h1 h2 h3
  · exact absurd hok h3
  · simp only [Bool.or_eq_true, Bool.not_eq_true', not_or, Bool.not_eq_false] at h1
    exact ⟨rfl, h1.1, h1.2⟩

theorem for_each_gpu_id_in_mask_nodup (m : uvm_processor_mask_t) :
    (for_each_gpu_id_in_mask m).Nodup :=
  List.Nodup.filter _ (List.nodup_range _)

theorem register_gpu_nvlink_peers_loop_enabled (g : uvm_global_t) {gpu : Nat} (l : List Nat)
    (s : uvm_va_space_t) (hok : (register_gpu_nvlink_peers_loop g gpu l s).1 = NV_OK)
    (i : Nat) :
    (register_gpu_nvlink_peers_loop g gpu l s).2.enabled_peers i = true ↔
      s.enabled_peers i = true ∨
      ∃ p ∈ l, p ≠ gpu ∧
        (uvm_gpu_peer_caps g gpu p).link_type ≥ UVM_GPU_LINK_NVLINK_1 ∧
        i = uvm_gpu_peer_table_index gpu p := by
  induction l generalizing s with
  | nil => simp [register_gpu_nvlink_peers_loop]
  | cons other rest ih =>
    unfold register_gpu_nvlink_peers_loop at hok ⊢
    simp only at hok ⊢
    split_ifs at hok ⊢ with h1 h2 h3
    · rw [ih s hok]
      constructor
      · rintro (h | ⟨p, hp, h⟩)
        · exact Or.inl h
        · exact Or.inr ⟨p, List.mem_cons_of_mem _ hp, h⟩
      · rintro (h | ⟨p, hp, h⟩)
        · exact Or.inl h
        · rcases List.mem_cons.mp hp with hpo | hp
          · exact absurd (hpo ▸ h1) h.1
          · exact Or.inr ⟨p, hp, h⟩
    · exact absurd hok h3
    · have h3' : (enable_peers g s gpu other).1 = NV_OK := not_not.mp h3
      rw [ih _ hok, (enable_peers_ok h3').1, enable_peers_masks_eq]
      simp only [set_bit_apply]
      constructor
      · rintro (h | ⟨p, hp, h⟩)
        · split_ifs at h with hi
          · exact Or.inr ⟨other, List.mem_cons_self _ _, h1, h2, hi⟩
          · exact Or.inl h
        · exact Or.inr ⟨p, List.mem_cons_of_mem _ hp, h⟩
      · rintro (h | ⟨p, hp, h⟩)
        · left
          split_ifs
          · rfl
          · exact h
        · rcases List.mem_cons.mp hp with hpo | hp
          · left
            rw [if_pos (hpo ▸ h.2.2)]
          · exact Or.inr ⟨p, hp, h⟩
    · rw [ih s hok]
      constructor
      · rintro (h | ⟨p, hp, h⟩)
        · exact Or.inl h
        · exact Or.inr ⟨p, List.mem_cons_of_mem _ hp, h⟩
      · rintro (h | ⟨p, hp, h⟩)
        · exact Or.inl h
        · rcases List.mem_cons.mp hp with hpo | hp
          · exact absurd (hpo ▸ h.2.1) h2
          · exact Or.inr ⟨p, hp, h⟩

theorem register_gpu_nvlink_peers_loop_asserts_true (g : uvm_global_t) {gpu : Nat}
    (hg : 0 < gpu) (l : List Nat) (hl : ∀ p ∈ l, 0 < p) (hnd : l.Nodup) (s : uvm_va_space_t)
    (hen : ∀ p ∈ l, p ≠ gpu → s.enabled_peers (uvm_gpu_peer_table_index gpu p) = false) :
    register_gpu_nvlink_peers_loop_asserts g gpu l s = true := by
  induction l generalizing s with
  | nil => rfl
  | cons other rest ih =>
    have hrest : ∀ p ∈ rest, 0 < p := fun p hp => hl p (List.mem_cons_of_mem _ hp)
    have hother : 0 < other := hl other (List.mem_cons_self _ _)
    have hnd2 := List.nodup_cons.mp hnd
    have hen2 : ∀ p ∈ rest, p ≠ gpu →
        s.enabled_peers (uvm_gpu_peer_table_index gpu p) = false :=
      fun p hp => hen p (List.mem_cons_of_mem _ hp)
    unfold register_gpu_nvlink_peers_loop_asserts
    simp only
    split_ifs with h1 h2 h3
    · exact ih hrest hnd2.2 s hen2
    · simp [enable_peers_assert, test_bit, hen other (List.mem_cons_self _ _) h1]
    · have h3' : (enable_peers g s gpu other).1 = NV_OK := not_not.mp h3
      have hrec : register_gpu_nvlink_peers_loop_asserts g gpu rest
          (enable_peers g s gpu other).2 = true := by
        apply ih hrest hnd2.2
        intro p hp hpg
        rw [(enable_peers_ok h3').1, enable_peers_masks_eq]
        simp only [set_bit_apply]
        rw [if_neg]
        · exact hen2 p hp hpg
        · intro hi
          have hpo : p ≠ other := fun hc => hnd2.1 (hc ▸ hp)
          rcases uvm_gpu_peer_table_index_inj hg (hrest p hp) hg hother (Ne.symm hpg)
            (Ne.symm h1) hi with h | h
          · exact hpo h.2
          · exact hpg h.2
      simp [enable_peers_assert, test_bit, hen other (List.mem_cons_self _ _) h1, hrec]
    · exact ih hrest hnd2.2 s hen2

theorem uvm_va_space_register_gpu_ok_status {g : uvm_global_t} {s : uvm_va_space_t}
    {gpu_uuid gpu : Nat} (hret : uvm_gpu_retain_by_uuid g gpu_uuid = (NV_OK, gpu))
    (hok : (uvm_va_space_register_gpu g s gpu_uuid).1 = NV_OK) :
    (register_gpu_nvlink_peers g (register_gpu_masks g s gpu) gpu).1 = NV_OK := by
  rw [uvm_va_space_register_gpu_eq, hret] at hok
  simp only [ne_eq, not_true_eq_false, if_false, uvm_processor_mask_test] at hok
  cases h1 : s.registered_gpus gpu with
  | true => simp [h1] at hok
  | false =>
    cases h2 : register_gpu_mixing g s gpu with
    | true => simp [h1, h2] at hok
    | false =>
      cases h3 : s.disallow_new_registers with
      | true => simp [h1, h2, h3] at hok
      | false =>
        simp only [h1, h2, h3, Bool.false_eq_true, if_false] at hok
        exact hok

/-- A device that is not registered has no enabled pair. -/
theorem TopoInv_unregistered_pairs {g : uvm_global_t} {s : uvm_va_space_t} {gpu : Nat}
    (hs : TopoInv g s) (hg : 0 < gpu) (hnr : s.registered_gpus gpu = false) (p : Nat)
    (hp : 0 < p) (hpg : p ≠ gpu) :
    s.enabled_peers (uvm_gpu_peer_table_index gpu p) = false := by
  cases hen : s.enabled_peers (uvm_gpu_peer_table_index gpu p) with
  | false => rfl
  | true =>
    have := (hs.enabled_reg gpu p hg hp (Ne.symm hpg) hen).1
    rw [hnr] at this
    exact absurd this Bool.false_ne_true

/-- C11: after a successful `uvm_va_space_register_gpu` of a device from a reachable address
space, for every device `d` that was registered before the call the pair of the new device
and `d` is enabled in `enabled_peers` exactly when the link type of the pair in the global
peer table is at least `UVM_GPU_LINK_NVLINK_1`; and at every call of `enable_peers` the
automatic peer enable makes, the assertion of `enable_peers` that the pair is not enabled yet
holds. -/
theorem c11_register_enables_nvlink_peers (g : uvm_global_t) (s : uvm_va_space_t)
    (gpu_uuid gpu : Nat) (h : Reachable g s)
    (hret : uvm_gpu_retain_by_uuid g gpu_uuid = (NV_OK, gpu))
    (hok : (uvm_va_space_register_gpu g s gpu_uuid).1 = NV_OK) :
    (∀ d, uvm_processor_mask_test s.registered_gpus d = true →
      (test_bit (uvm_gpu_peer_table_index gpu d)
          (uvm_va_space_register_gpu g s gpu_uuid).2.1.enabled_peers = true ↔
        (uvm_gpu_peer_caps g gpu d).link_type ≥ UVM_GPU_LINK_NVLINK_1)) ∧
    register_gpu_nvlink_peers_asserts g (register_gpu_masks g s gpu) gpu = true := by
  have hi := (Reachable_Inv h).1
  have hgpu : 0 < gpu := by
    have := @uvm_gpu_retain_by_uuid_ok g gpu_uuid (by rw [hret])
    rw [hret] at this
    exact this.1
  obtain ⟨hnr, hstate⟩ := uvm_va_space_register_gpu_ok hret hok
  have hst := uvm_va_space_register_gpu_ok_status hret hok
  have hen0 : (register_gpu_masks g s gpu).enabled_peers = s.enabled_peers :=
    (register_gpu_masks_frame g s gpu).2.2
  have hreg0 : (register_gpu_masks g s gpu).registered_gpus =
      uvm_processor_mask_set s.registered_gpus gpu := (register_gpu_masks_frame g s gpu).1
  constructor
  · intro d hd
    have hd' : s.registered_gpus d = true := hd
    have hdr := hi.reg_range d hd'
    have hdg : d ≠ gpu := by
      intro hc
      rw [hc, hnr] at hd'
      exact Bool.false_ne_true hd'
    rw [hstate]
    unfold register_gpu_nvlink_peers at hst ⊢
    unfold test_bit
    rw [register_gpu_nvlink_peers_loop_enabled g _ _ hst, hen0,
      TopoInv_unregistered_pairs hi hgpu hnr d hdr.1 hdg]
    constructor
    · rintro (hc | ⟨p, hp, hpg, hlink, hidx⟩)
      · exact absurd hc Bool.false_ne_true
      · have hp0 := ((mem_for_each_gpu_id_in_mask _ _).mp hp).1
        rcases uvm_gpu_peer_table_index_inj hgpu hdr.1 hgpu hp0 (Ne.symm hdg) (Ne.symm hpg)
          hidx with hc | hc
        · rw [hc.2]; exact hlink
        · exact absurd hc.2 hdg
    · intro hlink
      refine Or.inr ⟨d, ?_, hdg, hlink, rfl⟩
      rw [mem_for_each_gpu_id_in_mask, hreg0, uvm_processor_mask_set_apply, if_neg hdg]
      exact ⟨hdr.1, hdr.2, hd'⟩
  · unfold register_gpu_nvlink_peers_asserts
    apply register_gpu_nvlink_peers_loop_asserts_true g hgpu _ _
      (for_each_gpu_id_in_mask_nodup _)
    · intro p hp hpg
      rw [hen0]
      exact TopoInv_unregistered_pairs hi hgpu hnr p
        ((mem_for_each_gpu_id_in_mask _ _).mp hp).1 hpg
    · intro p hp
      exact ((mem_for_each_gpu_id_in_mask _ _).mp hp).1

theorem c11_register_enables_nvlink_peers_witness :
    Reachable sample_global sample_one ∧
    uvm_gpu_retain_by_uuid sample_global 2 = (NV_OK, 2) ∧
    (uvm_va_space_register_gpu sample_global sample_one 2).1 = NV_OK ∧
    ((∀ d, uvm_processor_mask_test sample_one.registered_gpus d = true →
      (test_bit (uvm_gpu_peer_table_index 2 d)
          (uvm_va_space_register_gpu sample_global sample_one 2).2.1.enabled_peers = true ↔
        (uvm_gpu_peer_caps sample_global 2 d).link_type ≥ UVM_GPU_LINK_NVLINK_1)) ∧
    register_gpu_nvlink_peers_asserts sample_global
      (register_gpu_masks sample_global sample_one 2) 2 = true) :=
  ⟨sample_one_reachable, by decide, by decide,
    c11_register_enables_nvlink_peers sample_global sample_one 2 2 sample_one_reachable
      (by decide) (by decide)⟩

/-! ## Lemmas: updates that leave the other processors alone -/

theorem away_refl (gpu : Nat) (M : Nat → uvm_processor_mask_t) : away gpu M M :=
  fun _ _ _ _ => rfl

theorem away_trans {gpu : Nat} {M N P : Nat → uvm_processor_mask_t} (h1 : away gpu M N)
    (h2 : away gpu N P) : away gpu M P :=
  fun x y hx hy => (h2 x y hx hy).trans (h1 x y hx hy)

theorem away_clear_pair (gpu p : Nat) (M : Nat → uvm_processor_mask_t) :
    away gpu M (clear_pair M gpu p) := by
  intro x y hx hy
  rw [clear_pair_apply, if_neg]
  rintro (h | h)
  · exact hx h.1
  · exact hy h.2

theorem away_maybe_set_pair (c : Bool) (gpu p : Nat) (M : Nat → uvm_processor_mask_t) :
    away gpu M (maybe_set_pair c M gpu p) := by
  intro x y hx hy
  rw [maybe_set_pair_apply, if_neg]
  rintro ⟨_, h | h⟩
  · exact hx h.1
  · exact hy h.2

theorem same_away_refl (gpu : Nat) (s : uvm_va_space_t) : same_away gpu s s :=
  ⟨fun _ _ => ⟨rfl, rfl, rfl⟩, away_refl _ _, away_refl _ _, away_refl _ _, away_refl _ _,
    away_refl _ _, away_refl _ _, fun _ _ => rfl⟩

theorem same_away_trans {gpu : Nat} {s t u : uvm_va_space_t} (h1 : same_away gpu s t)
    (h2 : same_away gpu t u) : same_away gpu s u := by
  obtain ⟨a0, a1, a2, a3, a4, a5, a6, a7⟩ := h1
  obtain ⟨b0, b1, b2, b3, b4, b5, b6, b7⟩ := h2
  refine ⟨?_, away_trans a1 b1, away_trans a2 b2, away_trans a3 b3, away_trans a4 b4,
    away_trans a5 b5, away_trans a6 b6, fun i hi => (b7 i hi).trans (a7 i hi)⟩
  intro i hi
  obtain ⟨c1, c2, c3⟩ := a0 i hi
  obtain ⟨d1, d2, d3⟩ := b0 i hi
  exact ⟨d1.trans c1, d2.trans c2, d3.trans c3⟩

theorem same_away_of_same_topology (gpu : Nat) {s t : uvm_va_space_t}
    (h : same_topology s t) : same_away gpu s t := by
  obtain ⟨a1, a2, a3, a4, a5, a6, a7, a8, a9, a10, a11⟩ := h
  refine ⟨fun i _ => ⟨by rw [a1], by rw [a10], by rw [a9]⟩, ?_, ?_, ?_, ?_, ?_, ?_, ?_⟩
  · rw [a3]; exact away_refl _ _
  · rw [a4]; exact away_refl _ _
  · rw [a5]; exact away_refl _ _
  · rw [a6]; exact away_refl _ _
  · rw [a7]; exact away_refl _ _
  · rw [a8]; exact away_refl _ _
  · intro i _; rw [a11]

theorem disable_peers_same_away (s : uvm_va_space_t) {gpu p : Nat}
    (l : List uvm_deferred_free_object_t) (hp : 0 < p) (hpg : p ≠ gpu) :
    same_away gpu s (disable_peers s gpu p l).1 := by
  cases h : s.enabled_peers (uvm_gpu_peer_table_index gpu p) with
  | false => rw [disable_peers_fst_of_not_enabled s gpu p l h]; exact same_away_refl gpu s
  | true =>
    rw [disable_peers_fst_of_enabled s gpu p l h]
    refine ⟨fun _ _ => ⟨rfl, rfl, rfl⟩, ?_, ?_, ?_, ?_, ?_, ?_, ?_⟩
    · exact away_clear_pair gpu p s.can_access
    · exact away_clear_pair gpu p s.accessible_from
    · exact away_clear_pair gpu p s.can_copy_from
    · exact away_clear_pair gpu p s.has_nvlink
    · exact away_clear_pair gpu p s.indirect_peers
    · exact away_clear_pair gpu p s.has_native_atomics
    intro i hi
    show __clear_bit (uvm_gpu_peer_table_index gpu p) s.enabled_peers i = s.enabled_peers i
    rw [clear_bit_apply, if_neg (hi p hp hpg)]

theorem enable_peers_masks_same_away (g : uvm_global_t) (s : uvm_va_space_t) {gpu p : Nat}
    (hp : 0 < p) (hpg : p ≠ gpu) : same_away gpu s (enable_peers_masks g s gpu p) := by
  rw [enable_peers_masks_eq]
  refine ⟨fun _ _ => ⟨rfl, rfl, rfl⟩, ?_, ?_, ?_, ?_, ?_, ?_, ?_⟩
  · exact away_maybe_set_pair true gpu p s.can_access
  · exact away_maybe_set_pair true gpu p s.accessible_from
  · exact away_maybe_set_pair (g.gpus gpu).peer_identity_mappings_supported gpu p
      s.can_copy_from
  · exact away_maybe_set_pair
      (decide ((g.peers (uvm_gpu_peer_table_index gpu p)).link_type ≥ UVM_GPU_LINK_NVLINK_1))
      gpu p s.has_nvlink
  · exact away_maybe_set_pair
      (decide ((g.peers (uvm_gpu_peer_table_index gpu p)).link_type ≥ UVM_GPU_LINK_NVLINK_1)
        && (g.peers (uvm_gpu_peer_table_index gpu p)).is_indirect_peer)
      gpu p s.indirect_peers
  · exact away_maybe_set_pair
      (decide ((g.peers (uvm_gpu_peer_table_index gpu p)).link_type ≥ UVM_GPU_LINK_NVLINK_1))
      gpu p s.has_native_atomics
  · intro i hi
    show __set_bit (uvm_gpu_peer_table_index gpu p) s.enabled_peers i = s.enabled_peers i
    rw [set_bit_apply, if_neg (hi p hp hpg)]

theorem enable_peers_same_away (g : uvm_global_t) (s : uvm_va_space_t) {gpu p : Nat}
    (hp : 0 < p) (hpg : p ≠ gpu) : same_away gpu s (enable_peers g s gpu p).2 := by
  rcases enable_peers_snd_cases g s gpu p with h | ⟨_, _, h | h⟩
  · rw [h]; exact same_away_refl gpu s
  · rw [h]; exact enable_peers_masks_same_away g s hp hpg
  · rw [h]
    exact same_away_trans (enable_peers_masks_same_away g s hp hpg)
      (disable_peers_same_away _ [] hp hpg)

theorem register_gpu_masks_same_away (g : uvm_global_t) (s : uvm_va_space_t) (gpu : Nat) :
    same_away gpu s (register_gpu_masks g s gpu) := by
  rw [register_gpu_masks_eq]
  refine ⟨?_, ?_, ?_, ?_, ?_, ?_, ?_, fun _ _ => rfl⟩
  · intro i hi
    refine ⟨by simp [uvm_processor_mask_set_apply, hi], ?_, ?_⟩
    · show (if (g.gpus gpu).replayable_faults_handling = true then
        uvm_processor_mask_set s.faultable_processors gpu else s.faultable_processors) i = _
      split_ifs
      · simp [uvm_processor_mask_set_apply, hi]
      · rfl
    · show (if (g.gpus gpu).replayable_faults_handling = true then
        uvm_processor_mask_set s.system_wide_atomics_enabled_processors gpu
        else s.system_wide_atomics_enabled_processors) i = _
      split_ifs
      · simp [uvm_processor_mask_set_apply, hi]
      · rfl
  all_goals
    intro x y hx hy
    simp [mask_array_set_apply, maybe_set_apply, hx, hy]

theorem unregister_gpu_masks_same_away (g : uvm_global_t) (s : uvm_va_space_t) (gpu : Nat) :
    same_away gpu s (unregister_gpu_masks g s gpu) := by
  rw [unregister_gpu_masks_eq]
  refine ⟨?_, ?_, ?_, ?_, ?_, away_refl _ _, ?_, fun _ _ => rfl⟩
  · intro i hi
    refine ⟨by simp [uvm_processor_mask_clear_apply, hi], ?_,
      by simp [uvm_processor_mask_clear_apply, hi]⟩
    show (if (g.gpus gpu).replayable_faults_handling = true then
      uvm_processor_mask_clear s.faultable_processors gpu else s.faultable_processors) i = _
    split_ifs
    · simp [uvm_processor_mask_clear_apply, hi]
    · rfl
  all_goals
    intro x y hx hy
    simp [mask_array_clear_apply, hx, hy]

theorem register_gpu_nvlink_peers_loop_same_away (g : uvm_global_t) {gpu : Nat} (l : List Nat)
    (hl : ∀ p ∈ l, 0 < p) (s : uvm_va_space_t) :
    same_away gpu s (register_gpu_nvlink_peers_loop g gpu l s).2 := by
  induction l generalizing s with
  | nil => exact same_away_refl gpu s
  | cons other rest ih =>
    have hrest : ∀ p ∈ rest, 0 < p := fun p hp => hl p (List.mem_cons_of_mem _ hp)
    have hother : 0 < other := hl other (List.mem_cons_self _ _)
    unfold register_gpu_nvlink_peers_loop
    simp only
    split_ifs with h1 h2 h3
    · exact ih hrest s
    · exact enable_peers_same_away g s hother h1
    · exact same_away_trans (enable_peers_same_away g s hother h1) (ih hrest _)
    · exact ih hrest s

theorem unregister_gpu_peers_loop_same_away {gpu : Nat} (l : List Nat) (hl : ∀ p ∈ l, 0 < p)
    (s : uvm_va_space_t) (dfl : List uvm_deferred_free_object_t) (ptr : uvm_processor_mask_t) :
    same_away gpu s (unregister_gpu_peers_loop gpu l s dfl ptr).1 := by
  induction l generalizing s dfl ptr with
  | nil => exact same_away_refl gpu s
  | cons peer rest ih =>
    have hrest : ∀ p ∈ rest, 0 < p := fun p hp => hl p (List.mem_cons_of_mem _ hp)
    have hpeer : 0 < peer := hl peer (List.mem_cons_self _ _)
    unfold unregister_gpu_peers_loop
    simp only
    split_ifs with h1 h2
    · exact ih hrest s dfl ptr
    · exact same_away_trans (disable_peers_same_away s dfl hpeer (Ne.symm h1)) (ih hrest _ _ _)
    · exact ih hrest s dfl ptr

theorem unregister_gpu_same_away (g : uvm_global_t) (s : uvm_va_space_t) (gpu : Nat)
    (l : List uvm_deferred_free_object_t) : same_away gpu s (unregister_gpu g s gpu l).1 := by
  unfold unregister_gpu
  simp only
  have h1 := same_away_of_same_topology gpu
    (same_topology_remove s (uvm_gpu_va_space_get s gpu) l)
  generalize (remove_gpu_va_space s (uvm_gpu_va_space_get s gpu) l).1 = s1 at h1
  generalize (remove_gpu_va_space s (uvm_gpu_va_space_get s gpu) l).2 ++ _ = dfl
  have hl : ∀ p ∈ for_each_gpu_id_in_mask s1.registered_gpus, 0 < p :=
    fun p hp => ((mem_for_each_gpu_id_in_mask _ _).mp hp).1
  exact same_away_trans h1 (same_away_trans
    (unregister_gpu_peers_loop_same_away _ hl s1 dfl uvm_processor_mask_zero)
    (unregister_gpu_masks_same_away g _ gpu))

/-- In a matrix of an address space no bit of a device that is not registered is set. -/
theorem MatrixInv_unregistered {g : uvm_global_t} {s : uvm_va_space_t} {gpu : Nat}
    (hs : TopoInv g s) (hg : 0 < gpu) (hnr : s.registered_gpus gpu = false)
    {M : Nat → uvm_processor_mask_t} (hM : MatrixInv s.enabled_peers s.registered_gpus M)
    (x : Nat) : M gpu x = false ∧ M x gpu = false := by
  have hcross : ¬(M gpu gpu = true ∨ M gpu 0 = true ∨ M 0 gpu = true) := by
    intro hc
    have := hM.2.2 gpu hg hc
    rw [hnr] at this
    exact Bool.false_ne_true this
  simp only [not_or, Bool.not_eq_true] at hcross
  by_cases hxg : x = gpu
  · rw [hxg]; exact ⟨hcross.1, hcross.1⟩
  · by_cases hx0 : x = 0
    · rw [hx0]; exact ⟨hcross.2.1, hcross.2.2⟩
    · have hx : 0 < x := Nat.pos_of_ne_zero hx0
      have hpair : M gpu x = false := by
        cases hc : M gpu x with
        | false => rfl
        | true =>
          have hen := hM.2.1 gpu x hg hx (Ne.symm hxg) hc
          have := (hs.enabled_reg gpu x hg hx (Ne.symm hxg) hen).1
          rw [hnr] at this
          exact absurd this Bool.false_ne_true
      exact ⟨hpair, by rw [← hM.1 gpu x hg hx (Ne.symm hxg)]; exact hpair⟩

/-- Two address spaces that agree away from a device that is registered in neither of them
have the same topology. -/
theorem eq_of_same_away {g : uvm_global_t} {s t : uvm_va_space_t} {gpu : Nat} (hg : 0 < gpu)
    (hs : TopoInv g s) (ht : TopoInv g t) (hsn : s.registered_gpus gpu = false)
    (htn : t.registered_gpus gpu = false) (h : same_away gpu s t) :
    t.registered_gpus = s.registered_gpus ∧
    t.can_access = s.can_access ∧
    t.accessible_from = s.accessible_from ∧
    t.can_copy_from = s.can_copy_from ∧
    t.has_nvlink = s.has_nvlink ∧
    t.indirect_peers = s.indirect_peers ∧
    t.has_native_atomics = s.has_native_atomics ∧
    t.enabled_peers = s.enabled_peers ∧
    t.faultable_processors = s.faultable_processors ∧
    t.system_wide_atomics_enabled_processors = s.system_wide_atomics_enabled_processors := by
  obtain ⟨a0, a1, a2, a3, a4, a5, a6, a7⟩ := h
  have hmat : ∀ M N : Nat → uvm_processor_mask_t,
      MatrixInv s.enabled_peers s.registered_gpus M →
      MatrixInv t.enabled_peers t.registered_gpus N → away gpu M N → N = M := by
    intro M N hM hN hMN
    funext x y
    by_cases hx : x = gpu
    · rw [hx, (MatrixInv_unregistered hs hg hsn hM y).1,
        (MatrixInv_unregistered ht hg htn hN y).1]
    · by_cases hy : y = gpu
      · rw [hy, (MatrixInv_unregistered hs hg hsn hM x).2,
          (MatrixInv_unregistered ht hg htn hN x).2]
      · exact hMN x y hx hy
  have hfalse : ∀ (u : uvm_va_space_t), TopoInv g u → u.registered_gpus gpu = false →
      u.faultable_processors gpu = false ∧
      u.system_wide_atomics_enabled_processors gpu = false := by
    intro u hu hun
    constructor
    · cases hc : u.faultable_processors gpu with
      | false => rfl
      | true =>
        have := (hu.faultable gpu hg hc).1
        rw [hun] at this
        exact absurd this Bool.false_ne_true
    · cases hc : u.system_wide_atomics_enabled_processors gpu with
      | false => rfl
      | true =>
        have := hu.atomics gpu hg hc
        rw [hun] at this
        exact absurd this Bool.false_ne_true
  refine ⟨?_, hmat _ _ hs.can_access ht.can_access a1,
    hmat _ _ hs.accessible_from ht.accessible_from a2,
    hmat _ _ hs.can_copy_from ht.can_copy_from a3, hmat _ _ hs.has_nvlink ht.has_nvlink a4,
    hmat _ _ hs.indirect_peers ht.indirect_peers a5,
    hmat _ _ hs.has_native_atomics ht.has_native_atomics a6, ?_, ?_, ?_⟩
  · funext i
    by_cases hi : i = gpu
    · rw [hi, hsn, htn]
    · exact (a0 i hi).1
  · funext i
    by_cases hi : ∃ p, 0 < p ∧ p ≠ gpu ∧ i = uvm_gpu_peer_table_index gpu p
    · obtain ⟨p, hp, hpg, rfl⟩ := hi
      rw [TopoInv_unregistered_pairs hs hg hsn p hp hpg,
        TopoInv_unregistered_pairs ht hg htn p hp hpg]
    · apply a7
      intro p hp hpg hc
      exact hi ⟨p, hp, hpg, hc⟩
  · funext i
    by_cases hi : i = gpu
    · rw [hi, (hfalse s hs hsn).1, (hfalse t ht htn).1]
    · exact (a0 i hi).2.1
  · funext i
    by_cases hi : i = gpu
    · rw [hi, (hfalse s hs hsn).2, (hfalse t ht htn).2]
    · exact (a0 i hi).2.2

theorem sample_nvlink_two_reachable : Reachable sample_nvlink_global sample_nvlink_two :=
  Reachable.va_ranges_change _ [sample_picky_range]
    (Reachable.register_gpu _ 2
      (Reachable.register_gpu sample_created 1
        (Reachable.create NV_OK NV_OK NV_OK sample_created sample_created_eq)))

/-- C12: when the automatic peer enable of `uvm_va_space_register_gpu` fails on a reachable
address space (whether or not pairs of the new device were enabled before the failing one),
`uvm_va_space_register_gpu` returns the status of the automatic peer enable, and
`registered_gpus`, the six capability matrices, `enabled_peers`, `faultable_processors` and
`system_wide_atomics_enabled_processors` are what they were before the call. -/
theorem c12_register_failure_rolls_back (g : uvm_global_t) (s : uvm_va_space_t)
    (gpu_uuid gpu : Nat) (h : Reachable g s)
    (hret : uvm_gpu_retain_by_uuid g gpu_uuid = (NV_OK, gpu))
    (hnr : uvm_processor_mask_test s.registered_gpus gpu = false)
    (hmix : register_gpu_mixing g s gpu = false)
    (hdis : s.disallow_new_registers = false)
    (hfail : (register_gpu_nvlink_peers g (register_gpu_masks g s gpu) gpu).1 ≠ NV_OK) :
    (uvm_va_space_register_gpu g s gpu_uuid).1 =
      (register_gpu_nvlink_peers g (register_gpu_masks g s gpu) gpu).1 ∧
    (uvm_va_space_register_gpu g s gpu_uuid).2.1.registered_gpus = s.registered_gpus ∧
    (uvm_va_space_register_gpu g s gpu_uuid).2.1.can_access = s.can_access ∧
    (uvm_va_space_register_gpu g s gpu_uuid).2.1.accessible_from = s.accessible_from ∧
    (uvm_va_space_register_gpu g s gpu_uuid).2.1.can_copy_from = s.can_copy_from ∧
    (uvm_va_space_register_gpu g s gpu_uuid).2.1.has_nvlink = s.has_nvlink ∧
    (uvm_va_space_register_gpu g s gpu_uuid).2.1.indirect_peers = s.indirect_peers ∧
    (uvm_va_space_register_gpu g s gpu_uuid).2.1.has_native_atomics = s.has_native_atomics ∧
    (uvm_va_space_register_gpu g s gpu_uuid).2.1.enabled_peers = s.enabled_peers ∧
    (uvm_va_space_register_gpu g s gpu_uuid).2.1.faultable_processors =
      s.faultable_processors ∧
    (uvm_va_space_register_gpu g s gpu_uuid).2.1.system_wide_atomics_enabled_processors =
      s.system_wide_atomics_enabled_processors := by
  have hi := Reachable_Inv h
  have hrange := @uvm_gpu_retain_by_uuid_ok g gpu_uuid (by rw [hret])
  rw [hret] at hrange
  have hgpu : 0 < gpu := hrange.1
  have hnr' : s.registered_gpus gpu = false := hnr
  have hinv := (uvm_va_space_register_gpu_Inv gpu_uuid hi).1
  have hstatus : (uvm_va_space_register_gpu g s gpu_uuid).1 =
      (register_gpu_nvlink_peers g (register_gpu_masks g s gpu) gpu).1 := by
    rw [uvm_va_space_register_gpu_eq, hret]
    simp [uvm_processor_mask_test, hnr', hmix, hdis]
  have hstate : (uvm_va_space_register_gpu g s gpu_uuid).2.1 =
      (unregister_gpu g (register_gpu_nvlink_peers g (register_gpu_masks g s gpu) gpu).2
        gpu []).1 := by
    rw [uvm_va_space_register_gpu_state, hret]
    simp [uvm_processor_mask_test, hnr', hmix, hdis, hfail]
  rw [hstate] at hinv ⊢
  refine ⟨hstatus, ?_⟩
  have hlist : ∀ p ∈ for_each_gpu_id_in_mask (register_gpu_masks g s gpu).registered_gpus,
      0 < p := fun p hp => ((mem_for_each_gpu_id_in_mask _ _).mp hp).1
  have hloop := @register_gpu_nvlink_peers_loop_inv g gpu
    (for_each_gpu_id_in_mask (register_gpu_masks g s gpu).registered_gpus)
    (register_gpu_masks g s gpu) (register_gpu_masks_TopoInv hgpu hrange.2.1 hi.1)
  have hun := unregister_gpu_inv hgpu []
    (show TopoInv g (register_gpu_nvlink_peers g (register_gpu_masks g s gpu) gpu).2 from
      hloop.1)
  have htn : (unregister_gpu g (register_gpu_nvlink_peers g (register_gpu_masks g s gpu)
      gpu).2 gpu []).1.registered_gpus gpu = false := by
    rw [hun.2.1, uvm_processor_mask_clear_apply, if_pos rfl]
  have haway : same_away gpu s (unregister_gpu g
      (register_gpu_nvlink_peers g (register_gpu_masks g s gpu) gpu).2 gpu []).1 :=
    same_away_trans (register_gpu_masks_same_away g s gpu)
      (same_away_trans
        (register_gpu_nvlink_peers_loop_same_away g _ hlist (register_gpu_masks g s gpu))
        (unregister_gpu_same_away g _ gpu []))
  exact eq_of_same_away hgpu hi.1 hinv hnr' htn haway

theorem c12_register_failure_rolls_back_witness :
    Reachable sample_nvlink_global sample_nvlink_two ∧
    uvm_gpu_retain_by_uuid sample_nvlink_global 3 = (NV_OK, 3) ∧
    uvm_processor_mask_test sample_nvlink_two.registered_gpus 3 = false ∧
    register_gpu_mixing sample_nvlink_global sample_nvlink_two 3 = false ∧
    sample_nvlink_two.disallow_new_registers = false ∧
    (register_gpu_nvlink_peers sample_nvlink_global
      (register_gpu_masks sample_nvlink_global sample_nvlink_two 3) 3).1 ≠ NV_OK ∧
    ((uvm_va_space_register_gpu sample_nvlink_global sample_nvlink_two 3).1 =
      (register_gpu_nvlink_peers sample_nvlink_global
        (register_gpu_masks sample_nvlink_global sample_nvlink_two 3) 3).1 ∧
    (uvm_va_space_register_gpu sample_nvlink_global sample_nvlink_two 3).2.1.registered_gpus =
      sample_nvlink_two.registered_gpus ∧
    (uvm_va_space_register_gpu sample_nvlink_global sample_nvlink_two 3).2.1.can_access =
      sample_nvlink_two.can_access ∧
    (uvm_va_space_register_gpu sample_nvlink_global sample_nvlink_two 3).2.1.accessible_from =
      sample_nvlink_two.accessible_from ∧
    (uvm_va_space_register_gpu sample_nvlink_global sample_nvlink_two 3).2.1.can_copy_from =
      sample_nvlink_two.can_copy_from ∧
    (uvm_va_space_register_gpu sample_nvlink_global sample_nvlink_two 3).2.1.has_nvlink =
      sample_nvlink_two.has_nvlink ∧
    (uvm_va_space_register_gpu sample_nvlink_global sample_nvlink_two 3).2.1.indirect_peers =
      sample_nvlink_two.indirect_peers ∧
    (uvm_va_space_register_gpu sample_nvlink_global sample_nvlink_two 3).2.1.has_native_atomics
      = sample_nvlink_two.has_native_atomics ∧
    (uvm_va_space_register_gpu sample_nvlink_global sample_nvlink_two 3).2.1.enabled_peers =
      sample_nvlink_two.enabled_peers ∧
    (uvm_va_space_register_gpu sample_nvlink_global sample_nvlink_two 3).2.1.faultable_processors
      = sample_nvlink_two.faultable_processors ∧
    (uvm_va_space_register_gpu sample_nvlink_global sample_nvlink_two
        3).2.1.system_wide_atomics_enabled_processors =
      sample_nvlink_two.system_wide_atomics_enabled_processors) :=
  ⟨sample_nvlink_two_reachable, by decide, by decide, by decide, by decide, by decide,
    c12_register_failure_rolls_back sample_nvlink_global sample_nvlink_two 3 3
      sample_nvlink_two_reachable (by decide) (by decide) (by decide) (by decide) (by decide)⟩

/-! ## Lemmas: the guard of the device unregistration -/

theorem unregister_gpu_peers_loop_guard (gpu : Nat) (l : List Nat) (s : uvm_va_space_t)
    (dfl : List uvm_deferred_free_object_t) (ptr : uvm_processor_mask_t) :
    (unregister_gpu_peers_loop gpu l s dfl ptr).1.registered_gpus = s.registered_gpus ∧
    (unregister_gpu_peers_loop gpu l s dfl ptr).1.gpu_unregister_in_progress =
      s.gpu_unregister_in_progress := by
  induction l generalizing s dfl ptr with
  | nil => exact ⟨rfl, rfl⟩
  | cons peer rest ih =>
    unfold unregister_gpu_peers_loop
    simp only
    split_ifs with h1 h2
    · exact ih s dfl ptr
    · have hf := disable_peers_frame s gpu peer dfl
      have hr := ih (disable_peers s gpu peer dfl).1 (disable_peers s gpu peer dfl).2
        (uvm_processor_mask_set ptr peer)
      exact ⟨hr.1.trans hf.1, hr.2.trans hf.2.1⟩
    · exact ih s dfl ptr

/-- The function `unregister_gpu` takes the device out of `registered_gpus` and leaves the
guard bits alone, in any address space. -/
theorem unregister_gpu_guard (g : uvm_global_t) (s : uvm_va_space_t) (gpu : Nat)
    (l : List uvm_deferred_free_object_t) :
    (unregister_gpu g s gpu l).1.registered_gpus =
      uvm_processor_mask_clear s.registered_gpus gpu ∧
    (unregister_gpu g s gpu l).1.gpu_unregister_in_progress = s.gpu_unregister_in_progress := by
  unfold unregister_gpu
  simp only
  have hrem := same_topology_remove s (uvm_gpu_va_space_get s gpu) l
  generalize (remove_gpu_va_space s (uvm_gpu_va_space_get s gpu) l).1 = s1 at hrem
  generalize (remove_gpu_va_space s (uvm_gpu_va_space_get s gpu) l).2 ++ _ = dfl
  have hloop := unregister_gpu_peers_loop_guard gpu
    (for_each_gpu_id_in_mask s1.registered_gpus) s1 dfl uvm_processor_mask_zero
  have hf := unregister_gpu_masks_frame g
    (unregister_gpu_peers_loop gpu (for_each_gpu_id_in_mask s1.registered_gpus) s1 dfl
      uvm_processor_mask_zero).1 gpu
  exact ⟨by rw [hf.1, hloop.1, hrem.1], by rw [hf.2.1, hloop.2, hrem.2.1]⟩

theorem uvm_va_space_unregister_gpu_begin_refused {g : uvm_global_t} {s : uvm_va_space_t}
    {gpu_uuid gpu : Nat} (hget : uvm_va_space_get_gpu_by_uuid g s gpu_uuid = some gpu)
    (hguard : s.gpu_unregister_in_progress gpu = true) :
    uvm_va_space_unregister_gpu_begin g s gpu_uuid = (NV_ERR_INVALID_DEVICE, s, none) := by
  unfold uvm_va_space_unregister_gpu_begin
  rw [hget]
  simp [uvm_processor_mask_test, hguard]

theorem uvm_va_space_unregister_gpu_begin_not_found {g : uvm_global_t} {s : uvm_va_space_t}
    {gpu_uuid : Nat} (hget : uvm_va_space_get_gpu_by_uuid g s gpu_uuid = none) :
    uvm_va_space_unregister_gpu_begin g s gpu_uuid = (NV_ERR_INVALID_DEVICE, s, none) := by
  unfold uvm_va_space_unregister_gpu_begin
  rw [hget]

/-- What the first part of `uvm_va_space_unregister_gpu` does when it goes on: the guard bit
of the device is set, and the other masks, the matrices and the enabled pairs stay. -/
theorem uvm_va_space_unregister_gpu_begin_ok {g : uvm_global_t} {s : uvm_va_space_t}
    {gpu_uuid gpu : Nat} (hget : uvm_va_space_get_gpu_by_uuid g s gpu_uuid = some gpu)
    (hguard : s.gpu_unregister_in_progress gpu = false) :
    (uvm_va_space_unregister_gpu_begin g s gpu_uuid).1 = NV_OK ∧
    (uvm_va_space_unregister_gpu_begin g s gpu_uuid).2.2 = some gpu ∧
    (uvm_va_space_unregister_gpu_begin g s gpu_uuid).2.1.gpu_unregister_in_progress =
      uvm_processor_mask_set s.gpu_unregister_in_progress gpu ∧
    same_topology (gpu_unregister_in_progress_set s gpu)
      (uvm_va_space_unregister_gpu_begin g s gpu_uuid).2.1 := by
  unfold uvm_va_space_unregister_gpu_begin
  rw [hget]
  simp only [uvm_processor_mask_test, hguard, Bool.false_eq_true, if_false]
  cases uvm_gpu_va_space_get (gpu_unregister_in_progress_set s gpu) gpu with
  | none => exact ⟨by trivial, by trivial, by trivial, same_topology_refl _⟩
  | some p => exact ⟨by trivial, by trivial, by trivial, same_topology_stop_all_channels _ p⟩

theorem uvm_va_space_unregister_gpu_finish_guard (g : uvm_global_t) (s : uvm_va_space_t)
    (gpu : Nat) :
    (uvm_va_space_unregister_gpu_finish g s gpu).1 = NV_OK ∧
    (uvm_va_space_unregister_gpu_finish g s gpu).2.1.gpu_unregister_in_progress =
      uvm_processor_mask_clear s.gpu_unregister_in_progress gpu ∧
    (uvm_va_space_unregister_gpu_finish g s gpu).2.1.registered_gpus =
      uvm_processor_mask_clear s.registered_gpus gpu := by
  unfold uvm_va_space_unregister_gpu_finish
  simp only
  have hd := same_topology_deferred_free (unregister_gpu g s gpu []).2.1
    (gpu_unregister_in_progress_clear (unregister_gpu g s gpu []).1 gpu)
  refine ⟨by trivial, ?_, ?_⟩
  · rw [hd.2.1]
    show uvm_processor_mask_clear (unregister_gpu g s gpu []).1.gpu_unregister_in_progress gpu
      = _
    rw [(unregister_gpu_guard g s gpu []).2]
  · rw [hd.1]
    exact (unregister_gpu_guard g s gpu []).1

theorem uvm_va_space_get_gpu_by_uuid_none {g : uvm_global_t} {s : uvm_va_space_t}
    {gpu_uuid : Nat}
    (h : ∀ i ∈ for_each_gpu_id_in_mask s.registered_gpus, (g.gpus i).uuid ≠ gpu_uuid) :
    uvm_va_space_get_gpu_by_uuid g s gpu_uuid = none := by
  unfold uvm_va_space_get_gpu_by_uuid
  rw [List.find?_eq_none]
  intro i hi
  simpa using h i hi

theorem uvm_va_space_unregister_gpu_of_none {g : uvm_global_t} {s : uvm_va_space_t}
    {gpu_uuid : Nat} (h : (uvm_va_space_unregister_gpu_begin g s gpu_uuid).2.2 = none) :
    uvm_va_space_unregister_gpu g s gpu_uuid =
      ((uvm_va_space_unregister_gpu_begin g s gpu_uuid).1,
        (uvm_va_space_unregister_gpu_begin g s gpu_uuid).2.1) := by
  unfold uvm_va_space_unregister_gpu
  simp only
  rw [h]

theorem uvm_va_space_unregister_gpu_of_some {g : uvm_global_t} {s : uvm_va_space_t}
    {gpu_uuid gpu : Nat} (h : (uvm_va_space_unregister_gpu_begin g s gpu_uuid).2.2 = some gpu) :
    uvm_va_space_unregister_gpu g s gpu_uuid =
      ((uvm_va_space_unregister_gpu_finish g
          (uvm_va_space_unregister_gpu_begin g s gpu_uuid).2.1 gpu).1,
        (uvm_va_space_unregister_gpu_finish g
          (uvm_va_space_unregister_gpu_begin g s gpu_uuid).2.1 gpu).2.1) := by
  unfold uvm_va_space_unregister_gpu
  simp only
  rw [h]

/-- C13: `uvm_va_space_unregister_gpu` returns `NV_ERR_INVALID_DEVICE` and leaves the address
space as it is when no registered device has the uuid, and when the guard bit of the device
is set in `gpu_unregister_in_progress`: the guard bit is tested before anything is written.
When the device is registered and its guard bit is clear, the first part of the function
sets the guard bit before the lock is dropped, the guard bit is still set when
`unregister_gpu` is done (the assertion before it is cleared), and it is clear when the
function returns `NV_OK`. -/
theorem c13_unregister_guard (g : uvm_global_t) (s : uvm_va_space_t) (gpu_uuid : Nat) :
    ((∀ i ∈ for_each_gpu_id_in_mask s.registered_gpus, (g.gpus i).uuid ≠ gpu_uuid) →
      uvm_va_space_unregister_gpu g s gpu_uuid = (NV_ERR_INVALID_DEVICE, s)) ∧
    (∀ gpu, uvm_va_space_get_gpu_by_uuid g s gpu_uuid = some gpu →
      (uvm_processor_mask_test s.gpu_unregister_in_progress gpu = true →
        uvm_va_space_unregister_gpu_begin g s gpu_uuid = (NV_ERR_INVALID_DEVICE, s, none) ∧
        uvm_va_space_unregister_gpu g s gpu_uuid = (NV_ERR_INVALID_DEVICE, s)) ∧
      (uvm_processor_mask_test s.gpu_unregister_in_progress gpu = false →
        (uvm_va_space_unregister_gpu_begin g s gpu_uuid).1 = NV_OK ∧
        (uvm_va_space_unregister_gpu_begin g s gpu_uuid).2.2 = some gpu ∧
        uvm_processor_mask_test
          (uvm_va_space_unregister_gpu_begin g s gpu_uuid).2.1.gpu_unregister_in_progress gpu
          = true ∧
        uvm_processor_mask_test
          (unregister_gpu g (uvm_va_space_unregister_gpu_begin g s gpu_uuid).2.1 gpu
            []).1.gpu_unregister_in_progress gpu = true ∧
        (uvm_va_space_unregister_gpu g s gpu_uuid).1 = NV_OK ∧
        uvm_processor_mask_test
          (uvm_va_space_unregister_gpu g s gpu_uuid).2.gpu_unregister_in_progress gpu
          = false)) := by
  constructor
  · intro hnone
    have hb := uvm_va_space_unregister_gpu_begin_not_found
      (uvm_va_space_get_gpu_by_uuid_none hnone)
    rw [uvm_va_space_unregister_gpu_of_none (by rw [hb]), hb]
  · intro gpu hget
    constructor
    · intro hguard
      have hb := uvm_va_space_unregister_gpu_begin_refused hget hguard
      refine ⟨hb, ?_⟩
      rw [uvm_va_space_unregister_gpu_of_none (by rw [hb]), hb]
    · intro hguard
      obtain ⟨b1, b2, b3, _⟩ := uvm_va_space_unregister_gpu_begin_ok hget hguard
      have hf := uvm_va_space_unregister_gpu_finish_guard g
        (uvm_va_space_unregister_gpu_begin g s gpu_uuid).2.1 gpu
      have hset : (uvm_va_space_unregister_gpu_begin g s gpu_uuid).2.1.gpu_unregister_in_progress
          gpu = true := by
        rw [b3, uvm_processor_mask_set_apply, if_pos rfl]
      refine ⟨b1, b2, hset, ?_, ?_, ?_⟩
      · unfold uvm_processor_mask_test
        rw [(unregister_gpu_guard g _ gpu []).2]
        exact hset
      · rw [uvm_va_space_unregister_gpu_of_some b2]
        exact hf.1
      · rw [uvm_va_space_unregister_gpu_of_some b2]
        unfold uvm_processor_mask_test
        show (uvm_va_space_unregister_gpu_finish g
          (uvm_va_space_unregister_gpu_begin g s gpu_uuid).2.1
          gpu).2.1.gpu_unregister_in_progress gpu = false
        rw [hf.2.1, uvm_processor_mask_clear_apply, if_pos rfl]

theorem c13_unregister_guard_witness :
    uvm_va_space_unregister_gpu sample_global sample_created 1 =
      (NV_ERR_INVALID_DEVICE, sample_created) ∧
    (uvm_va_space_unregister_gpu_begin sample_global
        (uvm_va_space_unregister_gpu_begin sample_global sample_two 1).2.1 1 =
      (NV_ERR_INVALID_DEVICE, (uvm_va_space_unregister_gpu_begin sample_global sample_two 1).2.1,
        none) ∧
      uvm_va_space_unregister_gpu sample_global
        (uvm_va_space_unregister_gpu_begin sample_global sample_two 1).2.1 1 =
      (NV_ERR_INVALID_DEVICE,
        (uvm_va_space_unregister_gpu_begin sample_global sample_two 1).2.1)) ∧
    ((uvm_va_space_unregister_gpu_begin sample_global sample_two 1).1 = NV_OK ∧
      (uvm_va_space_unregister_gpu_begin sample_global sample_two 1).2.2 = some 1 ∧
      uvm_processor_mask_test
        (uvm_va_space_unregister_gpu_begin sample_global sample_two
          1).2.1.gpu_unregister_in_progress 1 = true ∧
      uvm_processor_mask_test
        (unregister_gpu sample_global
          (uvm_va_space_unregister_gpu_begin sample_global sample_two 1).2.1 1
          []).1.gpu_unregister_in_progress 1 = true ∧
      (uvm_va_space_unregister_gpu sample_global sample_two 1).1 = NV_OK ∧
      uvm_processor_mask_test
        (uvm_va_space_unregister_gpu sample_global sample_two 1).2.gpu_unregister_in_progress 1
        = false) :=
  ⟨(c13_unregister_guard sample_global sample_created 1).1 (by decide),
    ((c13_unregister_guard sample_global
      (uvm_va_space_unregister_gpu_begin sample_global sample_two 1).2.1 1).2 1
        (by decide)).1 (by decide),
    ((c13_unregister_guard sample_global sample_two 1).2 1 (by decide)).2 (by decide)⟩

/-! ## Lemmas: the assertions of the device unregistration -/

theorem unregister_gpu_masks_asserts_eq (g : uvm_global_t) (s : uvm_va_space_t) (gpu : Nat) :
    unregister_gpu_masks_asserts g s gpu =
      (uvm_processor_mask_empty ((unregister_gpu_masks g s gpu).can_access gpu) &&
        uvm_processor_mask_empty ((unregister_gpu_masks g s gpu).accessible_from gpu) &&
        uvm_processor_mask_empty ((unregister_gpu_masks g s gpu).can_copy_from gpu) &&
        uvm_processor_mask_empty ((unregister_gpu_masks g s gpu).has_nvlink gpu) &&
        uvm_processor_mask_empty ((unregister_gpu_masks g s gpu).indirect_peers gpu) &&
        uvm_processor_mask_empty ((unregister_gpu_masks g s gpu).has_native_atomics gpu)) := by
  rw [unregister_gpu_masks_eq]
  unfold unregister_gpu_masks_asserts
  cases h1 : (g.gpus gpu).replayable_faults_handling <;>
  simp [h1, faultable_processors_clear,
    system_wide_atomics_enabled_processors_clear, can_access_clear, accessible_from_clear,
    can_copy_from_clear, has_nvlink_clear, has_native_atomics_clear]

theorem unregister_gpu_asserts_eq (g : uvm_global_t) (s : uvm_va_space_t) (gpu : Nat)
    (l : List uvm_deferred_free_object_t) :
    unregister_gpu_asserts g s gpu l =
      (uvm_processor_mask_empty ((unregister_gpu g s gpu l).1.can_access gpu) &&
        uvm_processor_mask_empty ((unregister_gpu g s gpu l).1.accessible_from gpu) &&
        uvm_processor_mask_empty ((unregister_gpu g s gpu l).1.can_copy_from gpu) &&
        uvm_processor_mask_empty ((unregister_gpu g s gpu l).1.has_nvlink gpu) &&
        uvm_processor_mask_empty ((unregister_gpu g s gpu l).1.indirect_peers gpu) &&
        uvm_processor_mask_empty ((unregister_gpu g s gpu l).1.has_native_atomics gpu)) := by
  unfold unregister_gpu_asserts unregister_gpu
  simp only
  rw [unregister_gpu_masks_asserts_eq]

theorem uvm_processor_mask_empty_of_zero {m : uvm_processor_mask_t} (h : ∀ i, m i = false) :
    uvm_processor_mask_empty m = true := by
  unfold uvm_processor_mask_empty
  rw [List.all_eq_true]
  intro i _
  simp [h i]

theorem same_away_guard (gpu : Nat) (s : uvm_va_space_t) (m : uvm_processor_mask_t) :
    same_away gpu s { s with gpu_unregister_in_progress := m } :=
  ⟨fun _ _ => ⟨rfl, rfl, rfl⟩, fun _ _ _ _ => rfl, fun _ _ _ _ => rfl, fun _ _ _ _ => rfl,
    fun _ _ _ _ => rfl, fun _ _ _ _ => rfl, fun _ _ _ _ => rfl, fun _ _ => rfl⟩

/-- What holds after the second part of `uvm_va_space_unregister_gpu` ran for a device whose
guard bit is set. -/
theorem uvm_va_space_unregister_gpu_finish_state {g : uvm_global_t} {s : uvm_va_space_t}
    {gpu : Nat} (hs : Inv g s) (hguard : s.gpu_unregister_in_progress gpu = true) :
    0 < gpu ∧
    TopoInv g (uvm_va_space_unregister_gpu_finish g s gpu).2.1 ∧
    (uvm_va_space_unregister_gpu_finish g s gpu).2.1.registered_gpus gpu = false ∧
    same_away gpu s (uvm_va_space_unregister_gpu_finish g s gpu).2.1 ∧
    unregister_gpu_asserts g s gpu [] = true := by
  have hreg := hs.2 gpu hguard
  have hg := (hs.1.reg_range gpu hreg).1
  have hinv := (uvm_va_space_unregister_gpu_finish_Inv gpu hs hguard).1
  have hf := uvm_va_space_unregister_gpu_finish_guard g s gpu
  obtain ⟨u1, u2, _⟩ := unregister_gpu_inv hg [] hs.1
  have hun : (unregister_gpu g s gpu []).1.registered_gpus gpu = false := by
    rw [u2, uvm_processor_mask_clear_apply, if_pos rfl]
  refine ⟨hg, hinv, ?_, ?_, ?_⟩
  · rw [hf.2.2, uvm_processor_mask_clear_apply, if_pos rfl]
  · unfold uvm_va_space_unregister_gpu_finish
    simp only
    exact same_away_trans (unregister_gpu_same_away g s gpu [])
      (same_away_trans (same_away_guard gpu (unregister_gpu g s gpu []).1 _)
        (same_away_of_same_topology gpu (same_topology_deferred_free _ _)))
  · rw [unregister_gpu_asserts_eq]
    simp only [Bool.and_eq_true]
    exact ⟨⟨⟨⟨⟨uvm_processor_mask_empty_of_zero
        fun x => (MatrixInv_unregistered u1 hg hun u1.can_access x).1,
      uvm_processor_mask_empty_of_zero
        fun x => (MatrixInv_unregistered u1 hg hun u1.accessible_from x).1⟩,
      uvm_processor_mask_empty_of_zero
        fun x => (MatrixInv_unregistered u1 hg hun u1.can_copy_from x).1⟩,
      uvm_processor_mask_empty_of_zero
        fun x => (MatrixInv_unregistered u1 hg hun u1.has_nvlink x).1⟩,
      uvm_processor_mask_empty_of_zero
        fun x => (MatrixInv_unregistered u1 hg hun u1.indirect_peers x).1⟩,
      uvm_processor_mask_empty_of_zero
        fun x => (MatrixInv_unregistered u1 hg hun u1.has_native_atomics x).1⟩

/-- C14: after a successful `uvm_va_space_unregister_gpu` of a device from a reachable address
space, the device is not in `registered_gpus`, no pair with the device is enabled in
`enabled_peers`, the row and the column of the device are zero in each of the six capability
matrices, the six assertions of `unregister_gpu` that a row of the device is empty hold, and
the bits of the matrices between two other processors are what they were before the call. -/
theorem c14_unregister_clears_device (g : uvm_global_t) (s : uvm_va_space_t)
    (gpu_uuid gpu : Nat) (h : Reachable g s)
    (hget : uvm_va_space_get_gpu_by_uuid g s gpu_uuid = some gpu)
    (hok : (uvm_va_space_unregister_gpu g s gpu_uuid).1 = NV_OK) :
    uvm_processor_mask_test (uvm_va_space_unregister_gpu g s gpu_uuid).2.registered_gpus gpu
      = false ∧
    (∀ p, 0 < p → p ≠ gpu →
      test_bit (uvm_gpu_peer_table_index gpu p)
        (uvm_va_space_unregister_gpu g s gpu_uuid).2.enabled_peers = false) ∧
    (∀ x,
      (uvm_va_space_unregister_gpu g s gpu_uuid).2.can_access gpu x = false ∧
      (uvm_va_space_unregister_gpu g s gpu_uuid).2.can_access x gpu = false ∧
      (uvm_va_space_unregister_gpu g s gpu_uuid).2.accessible_from gpu x = false ∧
      (uvm_va_space_unregister_gpu g s gpu_uuid).2.accessible_from x gpu = false ∧
      (uvm_va_space_unregister_gpu g s gpu_uuid).2.can_copy_from gpu x = false ∧
      (uvm_va_space_unregister_gpu g s gpu_uuid).2.can_copy_from x gpu = false ∧
      (uvm_va_space_unregister_gpu g s gpu_uuid).2.has_nvlink gpu x = false ∧
      (uvm_va_space_unregister_gpu g s gpu_uuid).2.has_nvlink x gpu = false ∧
      (uvm_va_space_unregister_gpu g s gpu_uuid).2.indirect_peers gpu x = false ∧
      (uvm_va_space_unregister_gpu g s gpu_uuid).2.indirect_peers x gpu = false ∧
      (uvm_va_space_unregister_gpu g s gpu_uuid).2.has_native_atomics gpu x = false ∧
      (uvm_va_space_unregister_gpu g s gpu_uuid).2.has_native_atomics x gpu = false) ∧
    unregister_gpu_asserts g (uvm_va_space_unregister_gpu_begin g s gpu_uuid).2.1 gpu []
      = true ∧
    (∀ x y, x ≠ gpu → y ≠ gpu →
      (uvm_va_space_unregister_gpu g s gpu_uuid).2.can_access x y = s.can_access x y ∧
      (uvm_va_space_unregister_gpu g s gpu_uuid).2.accessible_from x y =
        s.accessible_from x y ∧
      (uvm_va_space_unregister_gpu g s gpu_uuid).2.can_copy_from x y = s.can_copy_from x y ∧
      (uvm_va_space_unregister_gpu g s gpu_uuid).2.has_nvlink x y = s.has_nvlink x y ∧
      (uvm_va_space_unregister_gpu g s gpu_uuid).2.indirect_peers x y =
        s.indirect_peers x y ∧
      (uvm_va_space_unregister_gpu g s gpu_uuid).2.has_native_atomics x y =
        s.has_native_atomics x y) := by
  have hi := Reachable_Inv h
  have hguard : s.gpu_unregister_in_progress gpu = false := by
    cases hc : s.gpu_unregister_in_progress gpu with
    | false => rfl
    | true =>
      have hb := uvm_va_space_unregister_gpu_begin_refused hget hc
      rw [uvm_va_space_unregister_gpu_of_none (by rw [hb]), hb] at hok
      simp at hok
  obtain ⟨_, b2, b3, b4⟩ := uvm_va_space_unregister_gpu_begin_ok hget hguard
  have hi1 := uvm_va_space_unregister_gpu_begin_Inv gpu_uuid hi
  have hguard1 : (uvm_va_space_unregister_gpu_begin g s gpu_uuid).2.1.gpu_unregister_in_progress
      gpu = true := by
    rw [b3, uvm_processor_mask_set_apply, if_pos rfl]
  obtain ⟨hg, ht, htn, haway, hasserts⟩ := uvm_va_space_unregister_gpu_finish_state hi1 hguard1
  have haway0 : same_away gpu s (uvm_va_space_unregister_gpu_begin g s gpu_uuid).2.1 :=
    same_away_trans (same_away_guard gpu s (uvm_processor_mask_set s.gpu_unregister_in_progress gpu))
      (same_away_of_same_topology gpu b4)
  obtain ⟨_, a1, a2, a3, a4, a5, a6, _⟩ := same_away_trans haway0 haway
  rw [uvm_va_space_unregister_gpu_of_some b2]
  refine ⟨htn, ?_, ?_, hasserts, ?_⟩
  · intro p hp hpg
    exact TopoInv_unregistered_pairs ht hg htn p hp hpg
  · intro x
    exact ⟨(MatrixInv_unregistered ht hg htn ht.can_access x).1,
      (MatrixInv_unregistered ht hg htn ht.can_access x).2,
      (MatrixInv_unregistered ht hg htn ht.accessible_from x).1,
      (MatrixInv_unregistered ht hg htn ht.accessible_from x).2,
      (MatrixInv_unregistered ht hg htn ht.can_copy_from x).1,
      (MatrixInv_unregistered ht hg htn ht.can_copy_from x).2,
      (MatrixInv_unregistered ht hg htn ht.has_nvlink x).1,
      (MatrixInv_unregistered ht hg htn ht.has_nvlink x).2,
      (MatrixInv_unregistered ht hg htn ht.indirect_peers x).1,
      (MatrixInv_unregistered ht hg htn ht.indirect_peers x).2,
      (MatrixInv_unregistered ht hg htn ht.has_native_atomics x).1,
      (MatrixInv_unregistered ht hg htn ht.has_native_atomics x).2⟩
  · intro x y hx hy
    exact ⟨a1 x y hx hy, a2 x y hx hy, a3 x y hx hy, a4 x y hx hy, a5 x y hx hy,
      a6 x y hx hy⟩

theorem c14_unregister_clears_device_witness :
    Reachable sample_global sample_two ∧
    uvm_va_space_get_gpu_by_uuid sample_global sample_two 1 = some 1 ∧
    (uvm_va_space_unregister_gpu sample_global sample_two 1).1 = NV_OK ∧
    (uvm_processor_mask_test
        (uvm_va_space_unregister_gpu sample_global sample_two 1).2.registered_gpus 1 = false ∧
    (∀ p, 0 < p → p ≠ 1 →
      test_bit (uvm_gpu_peer_table_index 1 p)
        (uvm_va_space_unregister_gpu sample_global sample_two 1).2.enabled_peers = false) ∧
    (∀ x,
      (uvm_va_space_unregister_gpu sample_global sample_two 1).2.can_access 1 x = false ∧
      (uvm_va_space_unregister_gpu sample_global sample_two 1).2.can_access x 1 = false ∧
      (uvm_va_space_unregister_gpu sample_global sample_two 1).2.accessible_from 1 x = false ∧
      (uvm_va_space_unregister_gpu sample_global sample_two 1).2.accessible_from x 1 = false ∧
      (uvm_va_space_unregister_gpu sample_global sample_two 1).2.can_copy_from 1 x = false ∧
      (uvm_va_space_unregister_gpu sample_global sample_two 1).2.can_copy_from x 1 = false ∧
      (uvm_va_space_unregister_gpu sample_global sample_two 1).2.has_nvlink 1 x = false ∧
      (uvm_va_space_unregister_gpu sample_global sample_two 1).2.has_nvlink x 1 = false ∧
      (uvm_va_space_unregister_gpu sample_global sample_two 1).2.indirect_peers 1 x = false ∧
      (uvm_va_space_unregister_gpu sample_global sample_two 1).2.indirect_peers x 1 = false ∧
      (uvm_va_space_unregister_gpu sample_global sample_two 1).2.has_native_atomics 1 x
        = false ∧
      (uvm_va_space_unregister_gpu sample_global sample_two 1).2.has_native_atomics x 1
        = false) ∧
    unregister_gpu_asserts sample_global
      (uvm_va_space_unregister_gpu_begin sample_global sample_two 1).2.1 1 [] = true ∧
    (∀ x y, x ≠ 1 → y ≠ 1 →
      (uvm_va_space_unregister_gpu sample_global sample_two 1).2.can_access x y =
        sample_two.can_access x y ∧
      (uvm_va_space_unregister_gpu sample_global sample_two 1).2.accessible_from x y =
        sample_two.accessible_from x y ∧
      (uvm_va_space_unregister_gpu sample_global sample_two 1).2.can_copy_from x y =
        sample_two.can_copy_from x y ∧
      (uvm_va_space_unregister_gpu sample_global sample_two 1).2.has_nvlink x y =
        sample_two.has_nvlink x y ∧
      (uvm_va_space_unregister_gpu sample_global sample_two 1).2.indirect_peers x y =
        sample_two.indirect_peers x y ∧
      (uvm_va_space_unregister_gpu sample_global sample_two 1).2.has_native_atomics x y =
        sample_two.has_native_atomics x y)) :=
  ⟨sample_two_reachable, by decide, by decide,
    c14_unregister_clears_device sample_global sample_two 1 1 sample_two_reachable
      (by decide) (by decide)⟩

/-! ## Lemmas: the peers `unregister_gpu` hands back -/

theorem unregister_gpu_peers_loop_release {gpu : Nat} (hg : 0 < gpu) (l : List Nat)
    (hl : ∀ p ∈ l, 0 < p) (s : uvm_va_space_t) (dfl : List uvm_deferred_free_object_t)
    (ptr : uvm_processor_mask_t) (p : Nat) :
    (unregister_gpu_peers_loop gpu l s dfl ptr).2.2 p = true ↔
      ptr p = true ∨
      (p ∈ l ∧ p ≠ gpu ∧ s.enabled_peers (uvm_gpu_peer_table_index gpu p) = true) := by
  induction l generalizing s dfl ptr with
  | nil => simp [unregister_gpu_peers_loop]
  | cons q rest ih =>
    have hrest : ∀ p ∈ rest, 0 < p := fun p hp => hl p (List.mem_cons_of_mem _ hp)
    have hq : 0 < q := hl q (List.mem_cons_self _ _)
    unfold unregister_gpu_peers_loop
    simp only
    split_ifs with h1 h2
    · rw [ih hrest s dfl ptr]
      constructor
      · rintro (h | ⟨hp, hpg, hen⟩)
        · exact Or.inl h
        · exact Or.inr ⟨List.mem_cons_of_mem _ hp, hpg, hen⟩
      · rintro (h | ⟨hp, hpg, hen⟩)
        · exact Or.inl h
        · rcases List.mem_cons.mp hp with hpq | hp
          · exact absurd (hpq.trans h1.symm) hpg
          · exact Or.inr ⟨hp, hpg, hen⟩
    · have h2' : s.enabled_peers (uvm_gpu_peer_table_index gpu q) = true := h2
      rw [ih hrest _ _ _, (disable_peers_frame s gpu q dfl).2.2, clear_bit_apply,
        uvm_processor_mask_set_apply]
      constructor
      · rintro (h | ⟨hp, hpg, hen⟩)
        · split_ifs at h with hpq
          · exact Or.inr ⟨hpq ▸ List.mem_cons_self _ _, hpq ▸ Ne.symm h1, hpq ▸ h2'⟩
          · exact Or.inl h
        · split_ifs at hen with hi
          exact Or.inr ⟨List.mem_cons_of_mem _ hp, hpg, hen⟩
      · rintro (h | ⟨hp, hpg, hen⟩)
        · left
          split_ifs
          · rfl
          · exact h
        · by_cases hpq : p = q
          · left
            rw [if_pos hpq]
          · right
            have hp' : p ∈ rest := by
              rcases List.mem_cons.mp hp with hc | hc
              · exact absurd hc hpq
              · exact hc
            refine ⟨hp', hpg, ?_⟩
            rw [if_neg]
            · exact hen
            · intro hi
              rcases uvm_gpu_peer_table_index_inj hg (hrest p hp') hg hq (Ne.symm hpg) h1 hi
                with hc | hc
              · exact hpq hc.2
              · exact hpg hc.2
    · have h2' : ¬s.enabled_peers (uvm_gpu_peer_table_index gpu q) = true := h2
      rw [ih hrest s dfl ptr]
      constructor
      · rintro (h | ⟨hp, hpg, hen⟩)
        · exact Or.inl h
        · exact Or.inr ⟨List.mem_cons_of_mem _ hp, hpg, hen⟩
      · rintro (h | ⟨hp, hpg, hen⟩)
        · exact Or.inl h
        · rcases List.mem_cons.mp hp with hpq | hp
          · exact absurd (hpq ▸ hen) h2'
          · exact Or.inr ⟨hp, hpg, hen⟩

/-- C15: the mask `peers_to_release` that `unregister_gpu` returns for a registered device of
a reachable address space holds exactly the registered devices other than the device whose
pair with the device was enabled in `enabled_peers` when `unregister_gpu` was called; it is
the zero mask when there was no such device. -/
theorem c15_peers_to_release (g : uvm_global_t) (s : uvm_va_space_t) (gpu : Nat)
    (deferred_free_list : List uvm_deferred_free_object_t) (h : Reachable g s)
    (hreg : uvm_processor_mask_test s.registered_gpus gpu = true) :
    (∀ p, uvm_processor_mask_test (unregister_gpu g s gpu deferred_free_list).2.2 p = true ↔
      (uvm_processor_mask_test s.registered_gpus p = true ∧ p ≠ gpu ∧
        test_bit (uvm_gpu_peer_table_index gpu p) s.enabled_peers = true)) ∧
    ((∀ p, uvm_processor_mask_test s.registered_gpus p = true → p ≠ gpu →
        test_bit (uvm_gpu_peer_table_index gpu p) s.enabled_peers = false) →
      (unregister_gpu g s gpu deferred_free_list).2.2 = uvm_processor_mask_zero) := by
  have hi := (Reachable_Inv h).1
  have hg : 0 < gpu := (hi.reg_range gpu hreg).1
  have hmain : ∀ p, (unregister_gpu g s gpu deferred_free_list).2.2 p = true ↔
      (s.registered_gpus p = true ∧ p ≠ gpu ∧
        s.enabled_peers (uvm_gpu_peer_table_index gpu p) = true) := by
    intro p
    unfold unregister_gpu
    simp only
    have hrem := same_topology_remove s (uvm_gpu_va_space_get s gpu) deferred_free_list
    generalize (remove_gpu_va_space s (uvm_gpu_va_space_get s gpu) deferred_free_list).1 = s1
      at hrem
    generalize (remove_gpu_va_space s (uvm_gpu_va_space_get s gpu) deferred_free_list).2 ++ _
      = dfl
    have hl : ∀ p ∈ for_each_gpu_id_in_mask s1.registered_gpus, 0 < p :=
      fun p hp => ((mem_for_each_gpu_id_in_mask _ _).mp hp).1
    rw [unregister_gpu_peers_loop_release hg _ hl, mem_for_each_gpu_id_in_mask, hrem.1,
      hrem.2.2.2.2.2.2.2.2.2.2]
    constructor
    · rintro (hc | ⟨hp, hpg, hen⟩)
      · exact absurd hc (by simp [uvm_processor_mask_zero])
      · exact ⟨hp.2.2, hpg, hen⟩
    · rintro ⟨hp, hpg, hen⟩
      exact Or.inr ⟨⟨(hi.reg_range p hp).1, (hi.reg_range p hp).2, hp⟩, hpg, hen⟩
  refine ⟨hmain, ?_⟩
  intro hnone
  funext p
  cases hc : (unregister_gpu g s gpu deferred_free_list).2.2 p with
  | false => rfl
  | true =>
    obtain ⟨hp, hpg, hen⟩ := (hmain p).mp hc
    have := hnone p hp hpg
    unfold test_bit at this
    rw [hen] at this
    exact absurd this (by decide)

theorem c15_peers_to_release_witness :
    Reachable sample_global sample_two ∧
    uvm_processor_mask_test sample_two.registered_gpus 1 = true ∧
    ((∀ p, uvm_processor_mask_test (unregister_gpu sample_global sample_two 1 []).2.2 p = true ↔
      (uvm_processor_mask_test sample_two.registered_gpus p = true ∧ p ≠ 1 ∧
        test_bit (uvm_gpu_peer_table_index 1 p) sample_two.enabled_peers = true)) ∧
    ((∀ p, uvm_processor_mask_test sample_two.registered_gpus p = true → p ≠ 1 →
        test_bit (uvm_gpu_peer_table_index 1 p) sample_two.enabled_peers = false) →
      (unregister_gpu sample_global sample_two 1 []).2.2 = uvm_processor_mask_zero)) :=
  ⟨sample_two_reachable, by decide,
    c15_peers_to_release sample_global sample_two 1 [] sample_two_reachable (by decide)⟩

/-! ## Lemmas: updates that leave the device VA contexts alone -/

theorem same_contexts_refl (s : uvm_va_space_t) : same_contexts s s := ⟨rfl, rfl, rfl, rfl⟩

theorem same_contexts_trans {s t u : uvm_va_space_t} (h1 : same_contexts s t)
    (h2 : same_contexts t u) : same_contexts s u :=
  ⟨h2.1.trans h1.1, h2.2.1.trans h1.2.1, h2.2.2.1.trans h1.2.2.1, h2.2.2.2.trans h1.2.2.2⟩

theorem disable_peers_same_contexts (s : uvm_va_space_t) (a b : Nat)
    (l : List uvm_deferred_free_object_t) : same_contexts s (disable_peers s a b l).1 := by
  cases h : s.enabled_peers (uvm_gpu_peer_table_index a b) with
  | false => rw [disable_peers_fst_of_not_enabled s a b l h]; exact same_contexts_refl s
  | true => rw [disable_peers_fst_of_enabled s a b l h]; exact ⟨rfl, rfl, rfl, rfl⟩

/-- The function `disable_peers` puts nothing but external mappings on the deferred free
list. -/
theorem disable_peers_snd (s : uvm_va_space_t) (a b : Nat)
    (l : List uvm_deferred_free_object_t) :
    ∃ ext : List Nat,
      (disable_peers s a b l).2 = l ++ ext.map uvm_deferred_free_object_t.external_allocation := by
  unfold disable_peers
  simp only
  split_ifs
  · exact ⟨[], by simp⟩
  · exact ⟨_, rfl⟩

theorem unregister_gpu_masks_same_contexts (g : uvm_global_t) (s : uvm_va_space_t) (gpu : Nat) :
    same_contexts s (unregister_gpu_masks g s gpu) := by
  rw [unregister_gpu_masks_eq]
  exact ⟨rfl, rfl, rfl, rfl⟩

theorem unregister_gpu_peers_loop_same_contexts (gpu : Nat) (l : List Nat) (s : uvm_va_space_t)
    (dfl : List uvm_deferred_free_object_t) (ptr : uvm_processor_mask_t) :
    same_contexts s (unregister_gpu_peers_loop gpu l s dfl ptr).1 ∧
    ∃ ext : List Nat, (unregister_gpu_peers_loop gpu l s dfl ptr).2.1 =
      dfl ++ ext.map uvm_deferred_free_object_t.external_allocation := by
  induction l generalizing s dfl ptr with
  | nil => exact ⟨same_contexts_refl s, [], by simp [unregister_gpu_peers_loop]⟩
  | cons peer rest ih =>
    unfold unregister_gpu_peers_loop
    simp only
    split_ifs with h1 h2
    · exact ih s dfl ptr
    · obtain ⟨i1, ext2, i2⟩ := ih (disable_peers s gpu peer dfl).1
        (disable_peers s gpu peer dfl).2 (uvm_processor_mask_set ptr peer)
      obtain ⟨ext1, hd⟩ := disable_peers_snd s gpu peer dfl
      refine ⟨same_contexts_trans (disable_peers_same_contexts s gpu peer dfl) i1,
        ext1 ++ ext2, ?_⟩
      rw [i2, hd, List.map_append, List.append_assoc]
    · exact ih s dfl ptr

/-- What `remove_gpu_va_space` does with an ACTIVE context. -/
theorem remove_gpu_va_space_active {s : uvm_va_space_t} {ptr : Nat}
    (l : List uvm_deferred_free_object_t)
    (hactive : uvm_gpu_va_space_state s ptr = UVM_GPU_VA_SPACE_STATE_ACTIVE) :
    uvm_gpu_va_space_state (remove_gpu_va_space s (some ptr) l).1 ptr =
      UVM_GPU_VA_SPACE_STATE_DEAD ∧
    (remove_gpu_va_space s (some ptr) l).1.registered_gpu_va_spaces =
      uvm_processor_mask_clear s.registered_gpu_va_spaces (s.gpu_va_space_mem ptr).gpu ∧
    (remove_gpu_va_space s (some ptr) l).1.gpu_va_spaces
      (uvm_gpu_index (s.gpu_va_space_mem ptr).gpu) = none ∧
    (remove_gpu_va_space s (some ptr) l).1.num_pending = s.num_pending + 1 ∧
    ∃ channels ext : List Nat, (remove_gpu_va_space s (some ptr) l).2 =
      l ++ channels.map uvm_deferred_free_object_t.channel ++
        ext.map uvm_deferred_free_object_t.external_allocation ++
        [uvm_deferred_free_object_t.gpu_va_space ptr] := by
  unfold remove_gpu_va_space
  simp only [hactive, ne_eq, not_true_eq_false, if_false]
  refine ⟨?_, rfl, ?_, rfl, _, _, rfl⟩
  · simp [uvm_gpu_va_space_state, gpu_va_space_store]
  · simp [gpu_va_space_store]

theorem count_gpu_va_space_map_channel (ptr : Nat) (l : List Nat) :
    (l.map uvm_deferred_free_object_t.channel).count
      (uvm_deferred_free_object_t.gpu_va_space ptr) = 0 := by
  rw [List.count_eq_zero]
  intro h
  obtain ⟨_, _, hc⟩ := List.mem_map.mp h
  cases hc

theorem count_gpu_va_space_map_external (ptr : Nat) (l : List Nat) :
    (l.map uvm_deferred_free_object_t.external_allocation).count
      (uvm_deferred_free_object_t.gpu_va_space ptr) = 0 := by
  rw [List.count_eq_zero]
  intro h
  obtain ⟨_, _, hc⟩ := List.mem_map.mp h
  cases hc

/-- What `unregister_gpu` does with the ACTIVE context of the device. -/
theorem unregister_gpu_context {g : uvm_global_t} {s : uvm_va_space_t} {gpu ptr : Nat}
    (l : List uvm_deferred_free_object_t) (hctx : uvm_gpu_va_space_get s gpu = some ptr)
    (hactive : uvm_gpu_va_space_state s ptr = UVM_GPU_VA_SPACE_STATE_ACTIVE)
    (hgpu : (s.gpu_va_space_mem ptr).gpu = gpu) :
    uvm_gpu_va_space_state (unregister_gpu g s gpu l).1 ptr = UVM_GPU_VA_SPACE_STATE_DEAD ∧
    (unregister_gpu g s gpu l).1.registered_gpu_va_spaces gpu = false ∧
    (unregister_gpu g s gpu l).1.gpu_va_spaces (uvm_gpu_index gpu) = none ∧
    (unregister_gpu g s gpu l).1.num_pending = s.num_pending + 1 ∧
    (unregister_gpu g s gpu l).2.1.count (uvm_deferred_free_object_t.gpu_va_space ptr) =
      l.count (uvm_deferred_free_object_t.gpu_va_space ptr) + 1 := by
  obtain ⟨r1, r2, r3, r4, channels, ext, r5⟩ := remove_gpu_va_space_active l hactive
  rw [hgpu] at r2 r3
  unfold unregister_gpu
  simp only
  rw [hctx]
  generalize (remove_gpu_va_space s (some ptr) l).1 = s1 at r1 r2 r3 r4
  generalize hdfl : (remove_gpu_va_space s (some ptr) l).2 ++ _ = dfl
  obtain ⟨⟨c1, c2, c3, c4⟩, ext2, hl⟩ := unregister_gpu_peers_loop_same_contexts gpu
    (for_each_gpu_id_in_mask s1.registered_gpus) s1 dfl uvm_processor_mask_zero
  obtain ⟨m1, m2, m3, m4⟩ := unregister_gpu_masks_same_contexts g
    (unregister_gpu_peers_loop gpu (for_each_gpu_id_in_mask s1.registered_gpus) s1 dfl
      uvm_processor_mask_zero).1 gpu
  refine ⟨?_, ?_, ?_, ?_, ?_⟩
  · unfold uvm_gpu_va_space_state at r1 ⊢
    rw [m3, c3]
    exact r1
  · rw [m1, c1, r2, uvm_processor_mask_clear_apply, if_pos rfl]
  · rw [m2, c2]
    exact r3
  · rw [m4, c4]
    exact r4
  · rw [hl, ← hdfl, r5]
    simp only [List.count_append, count_gpu_va_space_map_channel,
      count_gpu_va_space_map_external, List.count_singleton_self, add_zero]

theorem same_context_states_refl (s : uvm_va_space_t) : same_context_states s s :=
  ⟨rfl, rfl, fun _ => rfl⟩

theorem same_context_states_trans {s t u : uvm_va_space_t} (h1 : same_context_states s t)
    (h2 : same_context_states t u) : same_context_states s u :=
  ⟨h2.1.trans h1.1, h2.2.1.trans h1.2.1, fun q => (h2.2.2 q).trans (h1.2.2 q)⟩

theorem same_context_states_store (s : uvm_va_space_t) (p : Nat) (obj : uvm_gpu_va_space_t)
    (h : obj.state = (s.gpu_va_space_mem p).state) :
    same_context_states s (gpu_va_space_store s p obj) := by
  refine ⟨rfl, rfl, ?_⟩
  intro q
  unfold uvm_gpu_va_space_state gpu_va_space_store
  by_cases hq : q = p
  · simp [hq, h]
  · simp [hq]

theorem same_context_states_release (s : uvm_va_space_t) (p : Option Nat) :
    same_context_states s (uvm_gpu_va_space_release s p) := by
  cases p with
  | none => exact same_context_states_refl s
  | some ptr =>
    unfold uvm_gpu_va_space_release
    simp only
    apply same_context_states_store
    split_ifs <;> rfl

theorem same_context_states_destroy (s : uvm_va_space_t) (p : Option Nat) :
    same_context_states s (destroy_gpu_va_space s p) := by
  cases p with
  | none => exact same_context_states_refl s
  | some ptr =>
    unfold destroy_gpu_va_space
    simp only
    refine same_context_states_trans ?_ (same_context_states_release _ _)
    have hstore : same_context_states s
        (gpu_va_space_store s ptr
          (if (if (uvm_gpu_va_space_unset_page_dir (s.gpu_va_space_mem ptr)).page_tables_root
              = true then
              { uvm_gpu_va_space_unset_page_dir (s.gpu_va_space_mem ptr) with
                page_tree_deinit_calls :=
                  (uvm_gpu_va_space_unset_page_dir
                    (s.gpu_va_space_mem ptr)).page_tree_deinit_calls + 1 }
            else uvm_gpu_va_space_unset_page_dir (s.gpu_va_space_mem ptr)).duped_gpu_va_space
              = true then
            { (if (uvm_gpu_va_space_unset_page_dir (s.gpu_va_space_mem ptr)).page_tables_root
                = true then
                { uvm_gpu_va_space_unset_page_dir (s.gpu_va_space_mem ptr) with
                  page_tree_deinit_calls :=
                    (uvm_gpu_va_space_unset_page_dir
                      (s.gpu_va_space_mem ptr)).page_tree_deinit_calls + 1 }
              else uvm_gpu_va_space_unset_page_dir (s.gpu_va_space_mem ptr)) with
              address_space_destroy_calls :=
                (if (uvm_gpu_va_space_unset_page_dir (s.gpu_va_space_mem ptr)).page_tables_root
                  = true then
                  { uvm_gpu_va_space_unset_page_dir (s.gpu_va_space_mem ptr) with
                    page_tree_deinit_calls :=
                      (uvm_gpu_va_space_unset_page_dir
                        (s.gpu_va_space_mem ptr)).page_tree_deinit_calls + 1 }
                else uvm_gpu_va_space_unset_page_dir
                  (s.gpu_va_space_mem ptr)).address_space_destroy_calls + 1 }
          else
            (if (uvm_gpu_va_space_unset_page_dir (s.gpu_va_space_mem ptr)).page_tables_root
              = true then
              { uvm_gpu_va_space_unset_page_dir (s.gpu_va_space_mem ptr) with
                page_tree_deinit_calls :=
                  (uvm_gpu_va_space_unset_page_dir
                    (s.gpu_va_space_mem ptr)).page_tree_deinit_calls + 1 }
            else uvm_gpu_va_space_unset_page_dir (s.gpu_va_space_mem ptr)))) := by
      apply same_context_states_store
      have h0 : (uvm_gpu_va_space_unset_page_dir (s.gpu_va_space_mem ptr)).state =
          (s.gpu_va_space_mem ptr).state := by
        unfold uvm_gpu_va_space_unset_page_dir
        split_ifs <;> rfl
      split_ifs <;> exact h0
    refine same_context_states_trans hstore ?_
    split_ifs <;> exact ⟨rfl, rfl, fun _ => rfl⟩

theorem same_context_states_deferred_free (l : List uvm_deferred_free_object_t)
    (s : uvm_va_space_t) : same_context_states s (uvm_deferred_free_object_list s l) := by
  induction l generalizing s with
  | nil => exact same_context_states_refl s
  | cons obj rest ih =>
    cases obj with
    | channel c => exact ih s
    | external_allocation e => exact ih s
    | gpu_va_space ptr =>
      exact same_context_states_trans (same_context_states_destroy s (some ptr)) (ih _)

/-- The first part of `uvm_va_space_unregister_gpu` leaves the device VA contexts where they
are, in their states and with their devices. -/
theorem uvm_va_space_unregister_gpu_begin_contexts (g : uvm_global_t) (s : uvm_va_space_t)
    (gpu_uuid : Nat) :
    (uvm_va_space_unregister_gpu_begin g s gpu_uuid).2.1.registered_gpu_va_spaces =
      s.registered_gpu_va_spaces ∧
    (uvm_va_space_unregister_gpu_begin g s gpu_uuid).2.1.gpu_va_spaces = s.gpu_va_spaces ∧
    (uvm_va_space_unregister_gpu_begin g s gpu_uuid).2.1.num_pending = s.num_pending ∧
    ∀ q, ((uvm_va_space_unregister_gpu_begin g s gpu_uuid).2.1.gpu_va_space_mem q).state =
        (s.gpu_va_space_mem q).state ∧
      ((uvm_va_space_unregister_gpu_begin g s gpu_uuid).2.1.gpu_va_space_mem q).gpu =
        (s.gpu_va_space_mem q).gpu := by
  unfold uvm_va_space_unregister_gpu_begin
  cases uvm_va_space_get_gpu_by_uuid g s gpu_uuid with
  | none => exact ⟨rfl, rfl, rfl, fun _ => ⟨rfl, rfl⟩⟩
  | some gpu =>
    simp only
    split_ifs
    · exact ⟨rfl, rfl, rfl, fun _ => ⟨rfl, rfl⟩⟩
    · cases uvm_gpu_va_space_get (gpu_unregister_in_progress_set s gpu) gpu with
      | none => exact ⟨rfl, rfl, rfl, fun _ => ⟨rfl, rfl⟩⟩
      | some p =>
        refine ⟨rfl, rfl, rfl, ?_⟩
        intro q
        by_cases hq : q = p
        · subst hq
          simp [gpu_va_space_stop_all_channels, gpu_va_space_store,
            gpu_unregister_in_progress_set]
        · simp [gpu_va_space_stop_all_channels, gpu_va_space_store,
            gpu_unregister_in_progress_set, hq]

theorem sample_two_context_reachable : Reachable sample_global sample_two_context :=
  Reachable.register_gpu_va_space sample_two sample_rm 1 sample_two_reachable

/-- C16: when `uvm_va_space_unregister_gpu` succeeds for a device that has an ACTIVE device
VA context, then at the end of `unregister_gpu` the state of the context is DEAD, the device
is not in `registered_gpu_va_spaces`, the entry of the device in `gpu_va_spaces` is null, the
context is on the deferred free list exactly once, and the counter of pending destructions
is one more than before the call; and when `uvm_va_space_unregister_gpu` returns, the state
of the context is DEAD, the device is not in `registered_gpu_va_spaces` and the lookup of
its context is null. -/
theorem c16_unregister_kills_context (g : uvm_global_t) (s : uvm_va_space_t)
    (gpu_uuid gpu gpu_va_space : Nat)
    (hget : uvm_va_space_get_gpu_by_uuid g s gpu_uuid = some gpu)
    (hctx : uvm_gpu_va_space_get s gpu = some gpu_va_space)
    (hactive : uvm_gpu_va_space_state s gpu_va_space = UVM_GPU_VA_SPACE_STATE_ACTIVE)
    (hgpu : (s.gpu_va_space_mem gpu_va_space).gpu = gpu)
    (hok : (uvm_va_space_unregister_gpu g s gpu_uuid).1 = NV_OK) :
    (uvm_gpu_va_space_state
        (unregister_gpu g (uvm_va_space_unregister_gpu_begin g s gpu_uuid).2.1 gpu []).1
        gpu_va_space = UVM_GPU_VA_SPACE_STATE_DEAD ∧
      uvm_processor_mask_test
        (unregister_gpu g (uvm_va_space_unregister_gpu_begin g s gpu_uuid).2.1 gpu
          []).1.registered_gpu_va_spaces gpu = false ∧
      (unregister_gpu g (uvm_va_space_unregister_gpu_begin g s gpu_uuid).2.1 gpu
        []).1.gpu_va_spaces (uvm_gpu_index gpu) = none ∧
      (unregister_gpu g (uvm_va_space_unregister_gpu_begin g s gpu_uuid).2.1 gpu
        []).2.1.count (uvm_deferred_free_object_t.gpu_va_space gpu_va_space) = 1 ∧
      (unregister_gpu g (uvm_va_space_unregister_gpu_begin g s gpu_uuid).2.1 gpu
        []).1.num_pending = s.num_pending + 1) ∧
    (uvm_gpu_va_space_state (uvm_va_space_unregister_gpu g s gpu_uuid).2 gpu_va_space =
        UVM_GPU_VA_SPACE_STATE_DEAD ∧
      uvm_processor_mask_test
        (uvm_va_space_unregister_gpu g s gpu_uuid).2.registered_gpu_va_spaces gpu = false ∧
      uvm_gpu_va_space_get (uvm_va_space_unregister_gpu g s gpu_uuid).2 gpu = none) := by
  have hguard : s.gpu_unregister_in_progress gpu = false := by
    cases hc : s.gpu_unregister_in_progress gpu with
    | false => rfl
    | true =>
      have hb := uvm_va_space_unregister_gpu_begin_refused hget hc
      rw [uvm_va_space_unregister_gpu_of_none (by rw [hb]), hb] at hok
      simp at hok
  obtain ⟨_, b2, _, _⟩ := uvm_va_space_unregister_gpu_begin_ok hget hguard
  obtain ⟨f1, f2, f3, f4⟩ := uvm_va_space_unregister_gpu_begin_contexts g s gpu_uuid
  have hctx1 : uvm_gpu_va_space_get (uvm_va_space_unregister_gpu_begin g s gpu_uuid).2.1 gpu =
      some gpu_va_space := by
    unfold uvm_gpu_va_space_get at hctx ⊢
    rw [f1, f2]
    exact hctx
  have hactive1 : uvm_gpu_va_space_state (uvm_va_space_unregister_gpu_begin g s gpu_uuid).2.1
      gpu_va_space = UVM_GPU_VA_SPACE_STATE_ACTIVE := by
    unfold uvm_gpu_va_space_state at hactive ⊢
    rw [(f4 gpu_va_space).1]
    exact hactive
  have hgpu1 : ((uvm_va_space_unregister_gpu_begin g s gpu_uuid).2.1.gpu_va_space_mem
      gpu_va_space).gpu = gpu := by
    rw [(f4 gpu_va_space).2]
    exact hgpu
  obtain ⟨u1, u2, u3, u4, u5⟩ := @unregister_gpu_context g _ gpu gpu_va_space [] hctx1
    hactive1 hgpu1
  refine ⟨⟨u1, u2, u3, by simpa using u5, by rw [u4, f3]⟩, ?_⟩
  rw [uvm_va_space_unregister_gpu_of_some b2]
  unfold uvm_va_space_unregister_gpu_finish
  simp only
  obtain ⟨d1, d2, d3⟩ := same_context_states_deferred_free
    (unregister_gpu g (uvm_va_space_unregister_gpu_begin g s gpu_uuid).2.1 gpu []).2.1
    (gpu_unregister_in_progress_clear
      (unregister_gpu g (uvm_va_space_unregister_gpu_begin g s gpu_uuid).2.1 gpu []).1 gpu)
  have hmask : uvm_processor_mask_test
      (uvm_deferred_free_object_list
        (gpu_unregister_in_progress_clear
          (unregister_gpu g (uvm_va_space_unregister_gpu_begin g s gpu_uuid).2.1 gpu []).1 gpu)
        (unregister_gpu g (uvm_va_space_unregister_gpu_begin g s gpu_uuid).2.1 gpu
          []).2.1).registered_gpu_va_spaces gpu = false := by
    unfold uvm_processor_mask_test
    rw [d1]
    exact u2
  refine ⟨?_, hmask, ?_⟩
  · rw [d3]
    exact u1
  · unfold uvm_gpu_va_space_get
    rw [hmask]
    rfl

theorem c16_unregister_kills_context_witness :
    uvm_va_space_get_gpu_by_uuid sample_global sample_two_context 1 = some 1 ∧
    uvm_gpu_va_space_get sample_two_context 1 = some 0 ∧
    uvm_gpu_va_space_state sample_two_context 0 = UVM_GPU_VA_SPACE_STATE_ACTIVE ∧
    (sample_two_context.gpu_va_space_mem 0).gpu = 1 ∧
    (uvm_va_space_unregister_gpu sample_global sample_two_context 1).1 = NV_OK ∧
    ((uvm_gpu_va_space_state
        (unregister_gpu sample_global
          (uvm_va_space_unregister_gpu_begin sample_global sample_two_context 1).2.1 1 []).1
        0 = UVM_GPU_VA_SPACE_STATE_DEAD ∧
      uvm_processor_mask_test
        (unregister_gpu sample_global
          (uvm_va_space_unregister_gpu_begin sample_global sample_two_context 1).2.1 1
          []).1.registered_gpu_va_spaces 1 = false ∧
      (unregister_gpu sample_global
        (uvm_va_space_unregister_gpu_begin sample_global sample_two_context 1).2.1 1
        []).1.gpu_va_spaces (uvm_gpu_index 1) = none ∧
      (unregister_gpu sample_global
        (uvm_va_space_unregister_gpu_begin sample_global sample_two_context 1).2.1 1
        []).2.1.count (uvm_deferred_free_object_t.gpu_va_space 0) = 1 ∧
      (unregister_gpu sample_global
        (uvm_va_space_unregister_gpu_begin sample_global sample_two_context 1).2.1 1
        []).1.num_pending = sample_two_context.num_pending + 1) ∧
    (uvm_gpu_va_space_state (uvm_va_space_unregister_gpu sample_global sample_two_context 1).2
        0 = UVM_GPU_VA_SPACE_STATE_DEAD ∧
      uvm_processor_mask_test
        (uvm_va_space_unregister_gpu sample_global sample_two_context
          1).2.registered_gpu_va_spaces 1 = false ∧
      uvm_gpu_va_space_get (uvm_va_space_unregister_gpu sample_global sample_two_context 1).2 1
        = none)) :=
  ⟨by decide, by decide, by decide, by decide, by decide,
    c16_unregister_kills_context sample_global sample_two_context 1 1 0 (by decide) (by decide)
      (by decide) (by decide) (by decide)⟩

/-! ## Lemmas: two concurrent device unregistrations -/

theorem bool_eq_not_of_ne {i w : Bool} (h : ¬i = w) : i = (!w) ∧ w = (!i) := by
  cases i <;> cases w <;> simp at h ⊢

theorem uvm_va_space_get_gpu_by_uuid_congr (g : uvm_global_t) {s t : uvm_va_space_t}
    (h : t.registered_gpus = s.registered_gpus) (gpu_uuid : Nat) :
    uvm_va_space_get_gpu_by_uuid g t gpu_uuid = uvm_va_space_get_gpu_by_uuid g s gpu_uuid := by
  unfold uvm_va_space_get_gpu_by_uuid
  rw [h]

theorem unregister_thread_step_start_ok {g : uvm_global_t} {s : uvm_va_space_t}
    {gpu_uuid gpu : Nat} (hget : uvm_va_space_get_gpu_by_uuid g s gpu_uuid = some gpu)
    (huniq : uuid_names g s gpu_uuid gpu) (hguard : s.gpu_unregister_in_progress gpu = false) :
    (unregister_thread_step g gpu_uuid s unregister_thread_t.start).2 =
      unregister_thread_t.dropped gpu ∧
    uvm_va_space_get_gpu_by_uuid g
      (unregister_thread_step g gpu_uuid s unregister_thread_t.start).1 gpu_uuid = some gpu ∧
    uuid_names g (unregister_thread_step g gpu_uuid s unregister_thread_t.start).1 gpu_uuid gpu ∧
    (unregister_thread_step g gpu_uuid s unregister_thread_t.start).1.gpu_unregister_in_progress
      gpu = true := by
  obtain ⟨_, b2, b3, b4⟩ := uvm_va_space_unregister_gpu_begin_ok hget hguard
  have hreg : (uvm_va_space_unregister_gpu_begin g s gpu_uuid).2.1.registered_gpus =
      s.registered_gpus := b4.1
  unfold unregister_thread_step
  simp only
  rw [b2]
  refine ⟨rfl, ?_, ?_, ?_⟩
  · rw [uvm_va_space_get_gpu_by_uuid_congr g hreg]; exact hget
  · unfold uuid_names
    rw [hreg]
    exact huniq
  · show (uvm_va_space_unregister_gpu_begin g s gpu_uuid).2.1.gpu_unregister_in_progress gpu
      = true
    rw [b3, uvm_processor_mask_set_apply, if_pos rfl]

theorem unregister_thread_step_start_refused {g : uvm_global_t} {s : uvm_va_space_t}
    {gpu_uuid gpu : Nat} (hget : uvm_va_space_get_gpu_by_uuid g s gpu_uuid = some gpu)
    (hguard : s.gpu_unregister_in_progress gpu = true) :
    unregister_thread_step g gpu_uuid s unregister_thread_t.start =
      (s, unregister_thread_t.returned NV_ERR_INVALID_DEVICE) := by
  unfold unregister_thread_step
  simp only
  rw [uvm_va_space_unregister_gpu_begin_refused hget hguard]

theorem unregister_thread_step_start_not_found {g : uvm_global_t} {s : uvm_va_space_t}
    {gpu_uuid : Nat} (hget : uvm_va_space_get_gpu_by_uuid g s gpu_uuid = none) :
    unregister_thread_step g gpu_uuid s unregister_thread_t.start =
      (s, unregister_thread_t.returned NV_ERR_INVALID_DEVICE) := by
  unfold unregister_thread_step
  simp only
  rw [uvm_va_space_unregister_gpu_begin_not_found hget]

theorem unregister_thread_step_dropped {g : uvm_global_t} {s : uvm_va_space_t}
    {gpu_uuid gpu : Nat} (huniq : uuid_names g s gpu_uuid gpu) :
    (unregister_thread_step g gpu_uuid s (unregister_thread_t.dropped gpu)).2 =
      unregister_thread_t.returned NV_OK ∧
    uvm_va_space_get_gpu_by_uuid g
      (unregister_thread_step g gpu_uuid s (unregister_thread_t.dropped gpu)).1 gpu_uuid
      = none := by
  obtain ⟨f1, _, f3⟩ := uvm_va_space_unregister_gpu_finish_guard g s gpu
  unfold unregister_thread_step
  simp only
  refine ⟨by rw [f1], ?_⟩
  apply uvm_va_space_get_gpu_by_uuid_none
  intro i hi huuid
  rw [f3, mem_for_each_gpu_id_in_mask, uvm_processor_mask_clear_apply] at hi
  have hig : i = gpu := by
    apply huniq i _ huuid
    rw [mem_for_each_gpu_id_in_mask]
    refine ⟨hi.1, hi.2.1, ?_⟩
    have := hi.2.2
    split_ifs at this
    exact this
  rw [if_pos hig] at hi
  exact absurd hi.2.2 Bool.false_ne_true

theorem unregister_race_step_threads (g : uvm_global_t) (gpu_uuid : Nat)
    (race : unregister_race_t) (i : Bool) :
    (unregister_race_step g gpu_uuid race i).threads i =
      (unregister_thread_step g gpu_uuid race.va_space (race.threads i)).2 ∧
    (unregister_race_step g gpu_uuid race i).threads (!i) = race.threads (!i) ∧
    (unregister_race_step g gpu_uuid race i).va_space =
      (unregister_thread_step g gpu_uuid race.va_space (race.threads i)).1 := by
  unfold unregister_race_step
  cases i <;> simp

theorem unregister_thread_step_returned (g : uvm_global_t) (gpu_uuid : Nat)
    (s : uvm_va_space_t) (status : NV_STATUS) :
    unregister_thread_step g gpu_uuid s (unregister_thread_t.returned status) =
      (s, unregister_thread_t.returned status) := rfl

/-- Every step of either thread takes a configuration of the race to a configuration of the
race. -/
theorem unregister_race_step_inv {g : uvm_global_t} {gpu_uuid gpu : Nat}
    {race : unregister_race_t} (h : unregister_race_inv g gpu_uuid gpu race) (i : Bool) :
    unregister_race_inv g gpu_uuid gpu (unregister_race_step g gpu_uuid race i) := by
  obtain ⟨t1, t2, t3⟩ := unregister_race_step_threads g gpu_uuid race i
  rcases h with ⟨hs, hget, huniq, hguard⟩ | ⟨w, hw, ho, hget, huniq, hguard⟩ |
    ⟨w, hw, ho, hget⟩ | ⟨w, hw, ho⟩
  · -- neither thread began: thread `i` sets the guard
    obtain ⟨a1, a2, a3, a4⟩ := unregister_thread_step_start_ok hget huniq hguard
    right; left
    refine ⟨i, ?_, Or.inl ?_, ?_, ?_, ?_⟩
    · rw [t1, hs i]; exact a1
    · rw [t2]; exact hs (!i)
    · rw [t3, hs i]; exact a2
    · rw [t3, hs i]; exact a3
    · rw [t3, hs i]; exact a4
  · by_cases hiw : i = w
    · -- the thread between its parts finishes
      subst hiw
      obtain ⟨c1, c2⟩ := @unregister_thread_step_dropped g race.va_space gpu_uuid gpu huniq
      rcases ho with ho | ho
      · right; right; left
        refine ⟨i, ?_, ?_, ?_⟩
        · rw [t1, hw]; exact c1
        · rw [t2]; exact ho
        · rw [t3, hw]; exact c2
      · right; right; right
        refine ⟨i, ?_, ?_⟩
        · rw [t1, hw]; exact c1
        · rw [t2]; exact ho
    · -- the other thread is refused, or has been refused
      obtain ⟨hi, hw'⟩ := bool_eq_not_of_ne hiw
      rw [← hi] at ho
      have hstep : unregister_thread_step g gpu_uuid race.va_space (race.threads i) =
          (race.va_space, unregister_thread_t.returned NV_ERR_INVALID_DEVICE) := by
        rcases ho with ho | ho
        · rw [ho]; exact unregister_thread_step_start_refused hget hguard
        · rw [ho]; rfl
      rw [hstep] at t1 t3
      right; left
      refine ⟨w, ?_, Or.inr ?_, ?_, ?_, ?_⟩
      · rw [hw', t2, ← hw']; exact hw
      · rw [← hi]; exact t1
      · rw [t3]; exact hget
      · rw [t3]; exact huniq
      · rw [t3]; exact hguard
  · by_cases hiw : i = w
    · -- the thread that returned takes no step
      subst hiw
      rw [hw, unregister_thread_step_returned] at t1 t3
      right; right; left
      refine ⟨i, t1, ?_, ?_⟩
      · rw [t2]; exact ho
      · rw [t3]; exact hget
    · -- the other thread finds no device
      obtain ⟨hi, hw'⟩ := bool_eq_not_of_ne hiw
      rw [← hi] at ho
      rw [ho, unregister_thread_step_start_not_found hget] at t1 t3
      right; right; right
      refine ⟨w, ?_, ?_⟩
      · rw [hw', t2, ← hw']; exact hw
      · rw [← hi]; exact t1
  · -- both threads returned
    right; right; right
    by_cases hiw : i = w
    · subst hiw
      rw [hw, unregister_thread_step_returned] at t1
      exact ⟨i, t1, by rw [t2]; exact ho⟩
    · obtain ⟨hi, hw'⟩ := bool_eq_not_of_ne hiw
      rw [← hi] at ho
      rw [ho, unregister_thread_step_returned] at t1
      exact ⟨w, by rw [hw', t2, ← hw']; exact hw, by rw [← hi]; exact t1⟩

theorem unregister_race_run_inv {g : uvm_global_t} {gpu_uuid gpu : Nat}
    (schedule : List Bool) {race : unregister_race_t}
    (h : unregister_race_inv g gpu_uuid gpu race) :
    unregister_race_inv g gpu_uuid gpu (unregister_race_run g gpu_uuid race schedule) := by
  induction schedule generalizing race with
  | nil => exact h
  | cons i rest ih => exact ih (unregister_race_step_inv h i)

/-- A step takes a thread that has not returned one step further. -/
theorem unregister_thread_step_progress (g : uvm_global_t) (gpu_uuid : Nat)
    (s : uvm_va_space_t) (thread : unregister_thread_t) :
    min 2 (unregister_thread_progress thread + 1) ≤
      unregister_thread_progress (unregister_thread_step g gpu_uuid s thread).2 := by
  cases thread with
  | start =>
    unfold unregister_thread_step
    simp only
    cases (uvm_va_space_unregister_gpu_begin g s gpu_uuid).2.2 <;>
      simp [unregister_thread_progress]
  | dropped gpu => simp [unregister_thread_step, unregister_thread_progress]
  | returned status => simp [unregister_thread_step, unregister_thread_progress]

theorem unregister_race_run_progress (g : uvm_global_t) (gpu_uuid : Nat)
    (schedule : List Bool) (race : unregister_race_t) (i : Bool) :
    min 2 (unregister_thread_progress (race.threads i) + schedule.count i) ≤
      unregister_thread_progress
        ((unregister_race_run g gpu_uuid race schedule).threads i) := by
  induction schedule generalizing race with
  | nil => simp [unregister_race_run]
  | cons j rest ih =>
    have hrec := ih (unregister_race_step g gpu_uuid race j)
    obtain ⟨t1, t2, _⟩ := unregister_race_step_threads g gpu_uuid race j
    have hstep := unregister_thread_step_progress g gpu_uuid race.va_space (race.threads j)
    show _ ≤ unregister_thread_progress
      ((unregister_race_run g gpu_uuid (unregister_race_step g gpu_uuid race j) rest).threads i)
    by_cases hij : j = i
    · subst hij
      rw [t1] at hrec
      rw [List.count_cons_self]
      omega
    · have hi : i = !j := (bool_eq_not_of_ne hij).2
      rw [hi] at hrec ⊢
      rw [t2] at hrec
      rw [List.count_cons_of_ne (by cases j <;> simp)]
      exact hrec

theorem unregister_thread_progress_two {thread : unregister_thread_t}
    (h : 2 ≤ unregister_thread_progress thread) :
    ∃ status, thread = unregister_thread_t.returned status := by
  cases thread with
  | start => simp [unregister_thread_progress] at h
  | dropped gpu => simp [unregister_thread_progress] at h
  | returned status => exact ⟨status, rfl⟩

/-- C17: two threads run `uvm_va_space_unregister_gpu` for the uuid of a device that is
registered in the address space, is the only registered device with the uuid, and has no
unregistration in progress.  Each thread takes two steps under the lock of the address space
(the guard bit is tested and set; the lock is dropped; the device is unregistered), and a
schedule gives the order in which the threads take the lock.  Under every schedule that
gives each thread its two steps both threads return, and whenever both threads have
returned, one of them returned `NV_OK` and the other `NV_ERR_INVALID_DEVICE`. -/
theorem c17_concurrent_unregister (g : uvm_global_t) (s : uvm_va_space_t) (gpu_uuid gpu : Nat)
    (hget : uvm_va_space_get_gpu_by_uuid g s gpu_uuid = some gpu)
    (huniq : ∀ i ∈ for_each_gpu_id_in_mask s.registered_gpus,
      (g.gpus i).uuid = gpu_uuid → i = gpu)
    (hguard : uvm_processor_mask_test s.gpu_unregister_in_progress gpu = false)
    (schedule : List Bool) :
    ((2 ≤ schedule.count false ∧ 2 ≤ schedule.count true) →
      ∃ status_1 status_2,
        (unregister_race_run g gpu_uuid (unregister_race_start s) schedule).threads false =
          unregister_thread_t.returned status_1 ∧
        (unregister_race_run g gpu_uuid (unregister_race_start s) schedule).threads true =
          unregister_thread_t.returned status_2) ∧
    (∀ status_1 status_2,
      (unregister_race_run g gpu_uuid (unregister_race_start s) schedule).threads false =
        unregister_thread_t.returned status_1 →
      (unregister_race_run g gpu_uuid (unregister_race_start s) schedule).threads true =
        unregister_thread_t.returned status_2 →
      (status_1 = NV_OK ∧ status_2 = NV_ERR_INVALID_DEVICE) ∨
        (status_1 = NV_ERR_INVALID_DEVICE ∧ status_2 = NV_OK)) := by
  constructor
  · rintro ⟨h1, h2⟩
    have p1 := unregister_race_run_progress g gpu_uuid schedule (unregister_race_start s) false
    have p2 := unregister_race_run_progress g gpu_uuid schedule (unregister_race_start s) true
    have hz : ∀ i, unregister_thread_progress ((unregister_race_start s).threads i) = 0 :=
      fun _ => rfl
    rw [hz] at p1 p2
    obtain ⟨status_1, e1⟩ := @unregister_thread_progress_two
      ((unregister_race_run g gpu_uuid (unregister_race_start s) schedule).threads false)
      (by omega)
    obtain ⟨status_2, e2⟩ := @unregister_thread_progress_two
      ((unregister_race_run g gpu_uuid (unregister_race_start s) schedule).threads true)
      (by omega)
    exact ⟨status_1, status_2, e1, e2⟩
  · intro status_1 status_2 e1 e2
    have hstart : unregister_race_inv g gpu_uuid gpu (unregister_race_start s) :=
      Or.inl ⟨fun _ => rfl, hget, huniq, hguard⟩
    rcases unregister_race_run_inv schedule hstart with
      ⟨hs, _⟩ | ⟨w, hw, _⟩ | ⟨w, _, ho, _⟩ | ⟨w, hw, ho⟩
    · rw [hs false] at e1
      cases e1
    · cases w
      · rw [hw] at e1; cases e1
      · rw [hw] at e2; cases e2
    · cases w
      · rw [show (!false) = true from rfl, e2] at ho; cases ho
      · rw [show (!true) = false from rfl, e1] at ho; cases ho
    · cases w
      · rw [show (!false) = true from rfl, e2] at ho
        rw [e1] at hw
        cases ho
        cases hw
        exact Or.inl ⟨rfl, rfl⟩
      · rw [show (!true) = false from rfl, e1] at ho
        rw [e2] at hw
        cases ho
        cases hw
        exact Or.inr ⟨rfl, rfl⟩

theorem c17_concurrent_unregister_witness :
    uvm_va_space_get_gpu_by_uuid sample_global sample_two 1 = some 1 ∧
    (∀ i ∈ for_each_gpu_id_in_mask sample_two.registered_gpus,
      (sample_global.gpus i).uuid = 1 → i = 1) ∧
    uvm_processor_mask_test sample_two.gpu_unregister_in_progress 1 = false ∧
    (((2 ≤ [false, true, true, false].count false ∧ 2 ≤ [false, true, true, false].count true) →
      ∃ status_1 status_2,
        (unregister_race_run sample_global 1 (unregister_race_start sample_two)
          [false, true, true, false]).threads false = unregister_thread_t.returned status_1 ∧
        (unregister_race_run sample_global 1 (unregister_race_start sample_two)
          [false, true, true, false]).threads true = unregister_thread_t.returned status_2) ∧
    (∀ status_1 status_2,
      (unregister_race_run sample_global 1 (unregister_race_start sample_two)
        [false, true, true, false]).threads false = unregister_thread_t.returned status_1 →
      (unregister_race_run sample_global 1 (unregister_race_start sample_two)
        [false, true, true, false]).threads true = unregister_thread_t.returned status_2 →
      (status_1 = NV_OK ∧ status_2 = NV_ERR_INVALID_DEVICE) ∨
        (status_1 = NV_ERR_INVALID_DEVICE ∧ status_2 = NV_OK))) :=
  ⟨by decide, by decide, by decide,
    c17_concurrent_unregister sample_global sample_two 1 1 (by decide) (by decide) (by decide)
      [false, true, true, false]⟩

/-! ## Lemmas: the refusals of the peer enable -/

/-- When `retain_pcie_peers_from_uuids` succeeds the two devices it returns are different. -/
theorem retain_pcie_peers_from_uuids_ne {g : uvm_global_t} {a b : Nat} {st : NV_STATUS}
    (h : (retain_pcie_peers_from_uuids g a b st).1 = NV_OK) :
    (retain_pcie_peers_from_uuids g a b st).2.1 ≠ (retain_pcie_peers_from_uuids g a b st).2.2 := by
  unfold retain_pcie_peers_from_uuids at h ⊢
  cases h1 : uvm_gpu_get_by_uuid g a with
  | none =>
    rw [h1] at h
    cases h
  | some x =>
    cases h2 : uvm_gpu_get_by_uuid g b with
    | none =>
      rw [h1, h2] at h
      cases h
    | some y =>
      rw [h1, h2] at h
      simp only at h ⊢
      by_cases hxy : x = y
      · rw [if_pos hxy] at h
        cases h
      · rw [if_neg hxy]
        exact hxy

/-- When `retain_nvlink_peers_from_uuids` succeeds the two devices it returns are
different. -/
theorem retain_nvlink_peers_from_uuids_ne {g : uvm_global_t} {a b : Nat}
    (h : (retain_nvlink_peers_from_uuids g a b).1 = NV_OK) :
    (retain_nvlink_peers_from_uuids g a b).2.1 ≠ (retain_nvlink_peers_from_uuids g a b).2.2 := by
  unfold retain_nvlink_peers_from_uuids at h ⊢
  simp only at h ⊢
  by_cases h1 : (uvm_gpu_retain_by_uuid g a).1 ≠ NV_OK
  · rw [if_pos h1] at h
    exact absurd h h1
  rw [if_neg h1] at h ⊢
  by_cases h2 : (uvm_gpu_retain_by_uuid g b).1 ≠ NV_OK
  · rw [if_pos h2] at h
    exact absurd h h2
  rw [if_neg h2] at h ⊢
  by_cases h3 : (uvm_gpu_retain_by_uuid g a).2 = (uvm_gpu_retain_by_uuid g b).2
  · rw [if_pos h3] at h
    cases h
  rw [if_neg h3] at h ⊢
  split_ifs
  · exact h3
  · exact h3

/-- C18: `enable_peers` returns `NV_ERR_INVALID_DEVICE` when one of the two devices is not in
`registered_gpus`, and `NV_ERR_NOT_COMPATIBLE` when both devices are registered and have
device VA contexts whose big page sizes differ; in both cases the address space is returned
as it was.  One device given twice is refused with `NV_ERR_INVALID_DEVICE`, the address
space as it was, on each of the three paths to `enable_peers`, before the function is
reached: `uvm_api_enable_peer_access` and `uvm8_test_enable_nvlink_peer_access` return so
when both uuids name the device, and the loop of `register_gpu_nvlink_peers` passes over the
device itself; the two entry points go on to `enable_peers` only with two different
devices. -/
theorem c18_enable_peers_refusals (g : uvm_global_t) (s : uvm_va_space_t) (a b : Nat) :
    ((uvm_processor_mask_test s.registered_gpus a = false ∨
        uvm_processor_mask_test s.registered_gpus b = false) →
      enable_peers g s a b = (NV_ERR_INVALID_DEVICE, s)) ∧
    (∀ gpu_va_space_1 gpu_va_space_2,
      uvm_processor_mask_test s.registered_gpus a = true →
      uvm_processor_mask_test s.registered_gpus b = true →
      uvm_gpu_va_space_get s a = some gpu_va_space_1 →
      uvm_gpu_va_space_get s b = some gpu_va_space_2 →
      (s.gpu_va_space_mem gpu_va_space_1).big_page_size ≠
        (s.gpu_va_space_mem gpu_va_space_2).big_page_size →
      enable_peers g s a b = (NV_ERR_NOT_COMPATIBLE, s)) ∧
    (a = b →
      (∀ gpuUuidA gpuUuidB retain_pcie_status,
        uvm_gpu_get_by_uuid g gpuUuidA = some a → uvm_gpu_get_by_uuid g gpuUuidB = some b →
        uvm_api_enable_peer_access g s gpuUuidA gpuUuidB retain_pcie_status =
          (NV_ERR_INVALID_DEVICE, s)) ∧
      (∀ gpuUuidA gpuUuidB,
        uvm_gpu_retain_by_uuid g gpuUuidA = (NV_OK, a) →
        uvm_gpu_retain_by_uuid g gpuUuidB = (NV_OK, b) →
        uvm8_test_enable_nvlink_peer_access g s gpuUuidA gpuUuidB =
          (NV_ERR_INVALID_DEVICE, s)) ∧
      (∀ rest, register_gpu_nvlink_peers_loop g a (b :: rest) s =
        register_gpu_nvlink_peers_loop g a rest s)) ∧
    (∀ gpuUuidA gpuUuidB retain_pcie_status,
      (retain_pcie_peers_from_uuids g gpuUuidA gpuUuidB retain_pcie_status).1 = NV_OK →
      (retain_pcie_peers_from_uuids g gpuUuidA gpuUuidB retain_pcie_status).2.1 ≠
        (retain_pcie_peers_from_uuids g gpuUuidA gpuUuidB retain_pcie_status).2.2) ∧
    (∀ gpuUuidA gpuUuidB,
      (retain_nvlink_peers_from_uuids g gpuUuidA gpuUuidB).1 = NV_OK →
      (retain_nvlink_peers_from_uuids g gpuUuidA gpuUuidB).2.1 ≠
        (retain_nvlink_peers_from_uuids g gpuUuidA gpuUuidB).2.2) := by
  refine ⟨?_, ?_, ?_, fun _ _ _ h => retain_pcie_peers_from_uuids_ne h,
    fun _ _ h => retain_nvlink_peers_from_uuids_ne h⟩
  · intro h
    unfold enable_peers
    rw [if_pos]
    rcases h with h | h <;> simp [h]
  · intro p1 p2 ha hb h1 h2 hne
    unfold enable_peers
    rw [if_neg (by simp [ha, hb]), h1, h2]
    simp only
    rw [if_pos]
    simpa using hne
  · intro hab
    subst hab
    refine ⟨?_, ?_, ?_⟩
    · intro uA uB st hA hB
      unfold uvm_api_enable_peer_access retain_pcie_peers_from_uuids
      simp [hA, hB]
    · intro uA uB hA hB
      unfold uvm8_test_enable_nvlink_peer_access retain_nvlink_peers_from_uuids
      simp [hA, hB]
    · intro rest
      rw [register_gpu_nvlink_peers_loop, if_pos rfl]

theorem c18_enable_peers_refusals_witness :
    enable_peers sample_global sample_one 1 2 = (NV_ERR_INVALID_DEVICE, sample_one) ∧
    enable_peers sample_global sample_mismatch 2 4 = (NV_ERR_NOT_COMPATIBLE, sample_mismatch) ∧
    uvm_api_enable_peer_access sample_global sample_two 1 1 NV_OK =
      (NV_ERR_INVALID_DEVICE, sample_two) ∧
    uvm8_test_enable_nvlink_peer_access sample_global sample_two 1 1 =
      (NV_ERR_INVALID_DEVICE, sample_two) :=
  ⟨(c18_enable_peers_refusals sample_global sample_one 1 2).1 (Or.inr (by decide)),
    (c18_enable_peers_refusals sample_global sample_mismatch 2 4).2.1 0 1 (by decide)
      (by decide) (by decide) (by decide) (by decide),
    ((c18_enable_peers_refusals sample_global sample_two 1 1).2.2.1 rfl).1 1 1 NV_OK
      (by decide) (by decide),
    ((c18_enable_peers_refusals sample_global sample_two 1 1).2.2.1 rfl).2.1 1 1
      (by decide) (by decide)⟩

theorem sample_two_four_reachable : Reachable sample_global sample_two_four :=
  Reachable.register_gpu _ 4 (Reachable.register_gpu sample_created 2 sample_created_reachable)

/-- In a reachable address space the bits of a pair of devices that is not enabled are clear
in a matrix. -/
theorem MatrixInv_not_enabled {en : bitmap_t} {reg : uvm_processor_mask_t}
    {M : Nat → uvm_processor_mask_t} (hM : MatrixInv en reg M) {a b : Nat} (ha : 0 < a)
    (hb : 0 < b) (hab : a ≠ b) (hen : en (uvm_gpu_peer_table_index a b) = false) :
    M a b = false ∧ M b a = false := by
  constructor
  · cases hc : M a b with
    | false => rfl
    | true =>
      have := hM.2.1 a b ha hb hab hc
      rw [hen] at this
      exact absurd this Bool.false_ne_true
  · cases hc : M b a with
    | false => rfl
    | true =>
      have := hM.2.1 b a hb ha (Ne.symm hab) hc
      rw [uvm_gpu_peer_table_index_comm, hen] at this
      exact absurd this Bool.false_ne_true

/-- After a successful `enable_peers` of two distinct devices whose pair is not enabled (the
assertion of `enable_peers`) in a reachable address space: `can_access` and
`accessible_from` are set at `[a][b]` and `[b][a]`; `can_copy_from` is set at `[a][b]` and
at `[b][a]` exactly when the first device supports identity-mapped peer addressing;
`has_nvlink` and `has_native_atomics` are set at `[a][b]` and at `[b][a]` exactly when the
link type of the pair is at least `UVM_GPU_LINK_NVLINK_1`; `indirect_peers` is set at
`[a][b]` and at `[b][a]` exactly when moreover the pair is an indirect peer; the bit of the
pair in `enabled_peers` is set; and the masks of registered, faultable and atomics-enabled
processors, every other bit of `enabled_peers` and every bit of the six matrices at a
position other than `[a][b]` and `[b][a]` are as before. -/
theorem enable_peers_sets_pair (g : uvm_global_t) (s : uvm_va_space_t) (a b : Nat)
    (h : Reachable g s) (hab : a ≠ b)
    (hnot : test_bit (uvm_gpu_peer_table_index a b) s.enabled_peers = false)
    (hok : (enable_peers g s a b).1 = NV_OK) :
    ((enable_peers g s a b).2.can_access a b = true ∧
      (enable_peers g s a b).2.can_access b a = true ∧
      (enable_peers g s a b).2.accessible_from a b = true ∧
      (enable_peers g s a b).2.accessible_from b a = true) ∧
    (((enable_peers g s a b).2.can_copy_from a b = true ↔
        (g.gpus a).peer_identity_mappings_supported = true) ∧
      ((enable_peers g s a b).2.can_copy_from b a = true ↔
        (g.gpus a).peer_identity_mappings_supported = true)) ∧
    (((enable_peers g s a b).2.has_nvlink a b = true ↔
        (uvm_gpu_peer_caps g a b).link_type ≥ UVM_GPU_LINK_NVLINK_1) ∧
      ((enable_peers g s a b).2.has_nvlink b a = true ↔
        (uvm_gpu_peer_caps g a b).link_type ≥ UVM_GPU_LINK_NVLINK_1) ∧
      ((enable_peers g s a b).2.has_native_atomics a b = true ↔
        (uvm_gpu_peer_caps g a b).link_type ≥ UVM_GPU_LINK_NVLINK_1) ∧
      ((enable_peers g s a b).2.has_native_atomics b a = true ↔
        (uvm_gpu_peer_caps g a b).link_type ≥ UVM_GPU_LINK_NVLINK_1)) ∧
    (((enable_peers g s a b).2.indirect_peers a b = true ↔
        (uvm_gpu_peer_caps g a b).link_type ≥ UVM_GPU_LINK_NVLINK_1 ∧
          (uvm_gpu_peer_caps g a b).is_indirect_peer = true) ∧
      ((enable_peers g s a b).2.indirect_peers b a = true ↔
        (uvm_gpu_peer_caps g a b).link_type ≥ UVM_GPU_LINK_NVLINK_1 ∧
          (uvm_gpu_peer_caps g a b).is_indirect_peer = true)) ∧
    test_bit (uvm_gpu_peer_table_index a b) (enable_peers g s a b).2.enabled_peers = true ∧
    ((enable_peers g s a b).2.registered_gpus = s.registered_gpus ∧
      (enable_peers g s a b).2.faultable_processors = s.faultable_processors ∧
      (enable_peers g s a b).2.system_wide_atomics_enabled_processors =
        s.system_wide_atomics_enabled_processors ∧
      ∀ i, i ≠ uvm_gpu_peer_table_index a b →
        (enable_peers g s a b).2.enabled_peers i = s.enabled_peers i) ∧
    (∀ x y, ¬((x = a ∧ y = b) ∨ (x = b ∧ y = a)) →
      (enable_peers g s a b).2.can_access x y = s.can_access x y ∧
      (enable_peers g s a b).2.accessible_from x y = s.accessible_from x y ∧
      (enable_peers g s a b).2.can_copy_from x y = s.can_copy_from x y ∧
      (enable_peers g s a b).2.has_nvlink x y = s.has_nvlink x y ∧
      (enable_peers g s a b).2.indirect_peers x y = s.indirect_peers x y ∧
      (enable_peers g s a b).2.has_native_atomics x y = s.has_native_atomics x y) := by
  have hi := (Reachable_Inv h).1
  obtain ⟨hstate, hra, hrb⟩ := enable_peers_ok hok
  have ha := (hi.reg_range a hra).1
  have hb := (hi.reg_range b hrb).1
  have hnot' : s.enabled_peers (uvm_gpu_peer_table_index a b) = false := hnot
  have p3 := MatrixInv_not_enabled hi.can_copy_from ha hb hab hnot'
  have p4 := MatrixInv_not_enabled hi.has_nvlink ha hb hab hnot'
  have p5 := MatrixInv_not_enabled hi.indirect_peers ha hb hab hnot'
  have p6 := MatrixInv_not_enabled hi.has_native_atomics ha hb hab hnot'
  rw [hstate, enable_peers_masks_eq]
  simp only [maybe_set_pair_apply, uvm_gpu_peer_caps, test_bit, set_bit_apply]
  refine ⟨by simp, ⟨?_, ?_⟩, ⟨?_, ?_, ?_, ?_⟩, ⟨?_, ?_⟩, by simp,
    ⟨trivial, trivial, trivial, ?_⟩, ?_⟩
  · cases hsa : (g.gpus a).peer_identity_mappings_supported with
    | false => simp [p3.1]
    | true => simp
  · cases hsa : (g.gpus a).peer_identity_mappings_supported with
    | false => simp [p3.2]
    | true => simp
  · simp [p4.1]
  · simp [p4.2]
  · simp [p6.1]
  · simp [p6.2]
  · simp [p5.1]
  · simp [p5.2]
  · intro i hne
    rw [if_neg hne]
  · intro x y hxy
    simp [hxy]

theorem enable_peers_va_ranges_fail {a b : Nat} (l : List uvm_va_range_t)
    (h : ∃ va_range ∈ l, va_range.enable_peer a b ≠ NV_OK) :
    enable_peers_va_ranges a b l ≠ NV_OK ∧
    ∃ va_range ∈ l, va_range.enable_peer a b = enable_peers_va_ranges a b l := by
  induction l with
  | nil =>
    obtain ⟨_, hm, _⟩ := h
    simp at hm
  | cons r rest ih =>
    unfold enable_peers_va_ranges
    split_ifs with hr
    · exact ⟨hr, r, List.mem_cons_self _ _, rfl⟩
    · obtain ⟨x, hx, hne⟩ := h
      have hrest : ∃ va_range ∈ rest, va_range.enable_peer a b ≠ NV_OK := by
        rcases List.mem_cons.mp hx with hxr | hxr
        · rw [hxr] at hne; exact absurd hne hr
        · exact ⟨x, hxr, hne⟩
      obtain ⟨i1, y, hy, i2⟩ := ih hrest
      exact ⟨i1, y, List.mem_cons_of_mem _ hy, i2⟩

/-- What `enable_peers` returns once both devices were found registered and their contexts
compatible. -/
theorem enable_peers_of_checks {g : uvm_global_t} {s : uvm_va_space_t} {a b : Nat}
    (hra : s.registered_gpus a = true) (hrb : s.registered_gpus b = true)
    (hcompat : ∀ gpu_va_space_1 gpu_va_space_2,
      uvm_gpu_va_space_get s a = some gpu_va_space_1 →
      uvm_gpu_va_space_get s b = some gpu_va_space_2 →
      (s.gpu_va_space_mem gpu_va_space_1).big_page_size =
        (s.gpu_va_space_mem gpu_va_space_2).big_page_size) :
    enable_peers g s a b =
      if enable_peers_va_ranges a b s.va_ranges ≠ NV_OK then
        (enable_peers_va_ranges a b s.va_ranges,
          (disable_peers (enable_peers_masks g s a b) a b []).1)
      else (enable_peers_va_ranges a b s.va_ranges, enable_peers_masks g s a b) := by
  have hva : (enable_peers_masks g s a b).va_ranges = s.va_ranges := by
    rw [enable_peers_masks_eq]
  unfold enable_peers
  rw [if_neg (by simp [uvm_processor_mask_test, hra, hrb])]
  simp only [hva]
  rw [if_neg]
  cases h1 : uvm_gpu_va_space_get s a with
  | none => simp
  | some p1 =>
    cases h2 : uvm_gpu_va_space_get s b with
    | none => simp
    | some p2 => simpa using hcompat p1 p2 h1 h2

theorem clear_pair_maybe_set_pair (c : Bool) {M : Nat → uvm_processor_mask_t} {a b : Nat}
    (hM : M a b = false ∧ M b a = false) : clear_pair (maybe_set_pair c M a b) a b = M := by
  funext x y
  rw [clear_pair_apply, maybe_set_pair_apply]
  by_cases h1 : x = a ∧ y = b
  · rw [if_pos (Or.inl h1), h1.1, h1.2, hM.1]
  · by_cases h2 : x = b ∧ y = a
    · rw [if_pos (Or.inr h2), h2.1, h2.2, hM.2]
    · rw [if_neg (by tauto), if_neg (by tauto)]

/-- C20: when the hook `uvm_va_range_enable_peer` of a memory range fails in `enable_peers`,
called for two distinct registered devices with compatible contexts whose pair is not enabled
in a reachable address space, `enable_peers` returns the status of the first hook that
failed, and the six capability matrices and `enabled_peers` are what they were before the
call. -/
theorem c20_enable_peers_rolls_back (g : uvm_global_t) (s : uvm_va_space_t) (a b : Nat)
    (h : Reachable g s) (hab : a ≠ b)
    (hra : uvm_processor_mask_test s.registered_gpus a = true)
    (hrb : uvm_processor_mask_test s.registered_gpus b = true)
    (hcompat : ∀ gpu_va_space_1 gpu_va_space_2,
      uvm_gpu_va_space_get s a = some gpu_va_space_1 →
      uvm_gpu_va_space_get s b = some gpu_va_space_2 →
      (s.gpu_va_space_mem gpu_va_space_1).big_page_size =
        (s.gpu_va_space_mem gpu_va_space_2).big_page_size)
    (hnot : test_bit (uvm_gpu_peer_table_index a b) s.enabled_peers = false)
    (hfail : ∃ va_range ∈ s.va_ranges, va_range.enable_peer a b ≠ NV_OK) :
    (enable_peers g s a b).1 = enable_peers_va_ranges a b s.va_ranges ∧
    (enable_peers g s a b).1 ≠ NV_OK ∧
    (∃ va_range ∈ s.va_ranges, va_range.enable_peer a b = (enable_peers g s a b).1) ∧
    (enable_peers g s a b).2.can_access = s.can_access ∧
    (enable_peers g s a b).2.accessible_from = s.accessible_from ∧
    (enable_peers g s a b).2.can_copy_from = s.can_copy_from ∧
    (enable_peers g s a b).2.has_nvlink = s.has_nvlink ∧
    (enable_peers g s a b).2.indirect_peers = s.indirect_peers ∧
    (enable_peers g s a b).2.has_native_atomics = s.has_native_atomics ∧
    (enable_peers g s a b).2.enabled_peers = s.enabled_peers := by
  have hi := (Reachable_Inv h).1
  have ha := (hi.reg_range a hra).1
  have hb := (hi.reg_range b hrb).1
  have hnot' : s.enabled_peers (uvm_gpu_peer_table_index a b) = false := hnot
  obtain ⟨f1, f2⟩ := enable_peers_va_ranges_fail s.va_ranges hfail
  have hen : (enable_peers_masks g s a b).enabled_peers (uvm_gpu_peer_table_index a b)
      = true := by
    rw [enable_peers_masks_eq]
    show __set_bit (uvm_gpu_peer_table_index a b) s.enabled_peers
      (uvm_gpu_peer_table_index a b) = true
    rw [set_bit_apply, if_pos rfl]
  rw [enable_peers_of_checks hra hrb hcompat, if_pos f1,
    disable_peers_fst_of_enabled _ a b [] hen, enable_peers_masks_eq]
  refine ⟨rfl, f1, f2, ?_, ?_, ?_, ?_, ?_, ?_, ?_⟩
  · exact clear_pair_maybe_set_pair true (MatrixInv_not_enabled hi.can_access ha hb hab hnot')
  · exact clear_pair_maybe_set_pair true
      (MatrixInv_not_enabled hi.accessible_from ha hb hab hnot')
  · exact clear_pair_maybe_set_pair (g.gpus a).peer_identity_mappings_supported
      (MatrixInv_not_enabled hi.can_copy_from ha hb hab hnot')
  · exact clear_pair_maybe_set_pair
      (decide ((g.peers (uvm_gpu_peer_table_index a b)).link_type ≥ UVM_GPU_LINK_NVLINK_1))
      (MatrixInv_not_enabled hi.has_nvlink ha hb hab hnot')
  · exact clear_pair_maybe_set_pair
      (decide ((g.peers (uvm_gpu_peer_table_index a b)).link_type ≥ UVM_GPU_LINK_NVLINK_1) &&
        (g.peers (uvm_gpu_peer_table_index a b)).is_indirect_peer)
      (MatrixInv_not_enabled hi.indirect_peers ha hb hab hnot')
  · exact clear_pair_maybe_set_pair
      (decide ((g.peers (uvm_gpu_peer_table_index a b)).link_type ≥ UVM_GPU_LINK_NVLINK_1))
      (MatrixInv_not_enabled hi.has_native_atomics ha hb hab hnot')
  · funext i
    show __clear_bit (uvm_gpu_peer_table_index a b)
      (__set_bit (uvm_gpu_peer_table_index a b) s.enabled_peers) i = s.enabled_peers i
    rw [clear_bit_apply, set_bit_apply]
    split_ifs with hidx
    · rw [hidx, hnot']
    · rfl

theorem sample_two_four_ranged_reachable : Reachable sample_global sample_two_four_ranged :=
  Reachable.va_ranges_change sample_two_four [sample_failing_range] sample_two_four_reachable

theorem sample_two_four_ranged_compatible (gpu_va_space_1 gpu_va_space_2 : Nat)
    (h1 : uvm_gpu_va_space_get sample_two_four_ranged 2 = some gpu_va_space_1)
    (_ : uvm_gpu_va_space_get sample_two_four_ranged 4 = some gpu_va_space_2) :
    (sample_two_four_ranged.gpu_va_space_mem gpu_va_space_1).big_page_size =
      (sample_two_four_ranged.gpu_va_space_mem gpu_va_space_2).big_page_size := by
  have h0 : uvm_gpu_va_space_get sample_two_four_ranged 2 = none := by decide
  rw [h0] at h1
  cases h1

theorem c20_enable_peers_rolls_back_witness :
    Reachable sample_global sample_two_four_ranged ∧ (2 : Nat) ≠ 4 ∧
    uvm_processor_mask_test sample_two_four_ranged.registered_gpus 2 = true ∧
    uvm_processor_mask_test sample_two_four_ranged.registered_gpus 4 = true ∧
    (∀ gpu_va_space_1 gpu_va_space_2,
      uvm_gpu_va_space_get sample_two_four_ranged 2 = some gpu_va_space_1 →
      uvm_gpu_va_space_get sample_two_four_ranged 4 = some gpu_va_space_2 →
      (sample_two_four_ranged.gpu_va_space_mem gpu_va_space_1).big_page_size =
        (sample_two_four_ranged.gpu_va_space_mem gpu_va_space_2).big_page_size) ∧
    test_bit (uvm_gpu_peer_table_index 2 4) sample_two_four_ranged.enabled_peers = false ∧
    (∃ va_range ∈ sample_two_four_ranged.va_ranges, va_range.enable_peer 2 4 ≠ NV_OK) ∧
    ((enable_peers sample_global sample_two_four_ranged 2 4).1 =
      enable_peers_va_ranges 2 4 sample_two_four_ranged.va_ranges ∧
    (enable_peers sample_global sample_two_four_ranged 2 4).1 ≠ NV_OK ∧
    (∃ va_range ∈ sample_two_four_ranged.va_ranges,
      va_range.enable_peer 2 4 = (enable_peers sample_global sample_two_four_ranged 2 4).1) ∧
    (enable_peers sample_global sample_two_four_ranged 2 4).2.can_access =
      sample_two_four_ranged.can_access ∧
    (enable_peers sample_global sample_two_four_ranged 2 4).2.accessible_from =
      sample_two_four_ranged.accessible_from ∧
    (enable_peers sample_global sample_two_four_ranged 2 4).2.can_copy_from =
      sample_two_four_ranged.can_copy_from ∧
    (enable_peers sample_global sample_two_four_ranged 2 4).2.has_nvlink =
      sample_two_four_ranged.has_nvlink ∧
    (enable_peers sample_global sample_two_four_ranged 2 4).2.indirect_peers =
      sample_two_four_ranged.indirect_peers ∧
    (enable_peers sample_global sample_two_four_ranged 2 4).2.has_native_atomics =
      sample_two_four_ranged.has_native_atomics ∧
    (enable_peers sample_global sample_two_four_ranged 2 4).2.enabled_peers =
      sample_two_four_ranged.enabled_peers) :=
  ⟨sample_two_four_ranged_reachable, by decide, by decide, by decide,
    sample_two_four_ranged_compatible,
    by decide, ⟨sample_failing_range, List.mem_cons_self _ _, by decide⟩,
    c20_enable_peers_rolls_back sample_global sample_two_four_ranged 2 4
      sample_two_four_ranged_reachable (by decide) (by decide) (by decide)
      sample_two_four_ranged_compatible (by decide)
      ⟨sample_failing_range, List.mem_cons_self _ _, by decide⟩⟩

/-- C22: `disable_peers` returns the address space and the deferred free list as they were
when the bit of the pair is clear in `enabled_peers`; otherwise the address space it returns
is the one it was given with the bits `[a][b]` and `[b][a]` cleared in each of the six
capability matrices and the bit of the pair cleared in `enabled_peers`, every other field
being the same, and the list is extended by what the memory ranges hand over.  A second
`disable_peers` of the pair returns the address space of the first and leaves its list
alone. -/
theorem c22_disable_peers_algebra (s : uvm_va_space_t) (a b : Nat)
    (deferred_free_list : List uvm_deferred_free_object_t) :
    (test_bit (uvm_gpu_peer_table_index a b) s.enabled_peers = false →
      disable_peers s a b deferred_free_list = (s, deferred_free_list)) ∧
    (test_bit (uvm_gpu_peer_table_index a b) s.enabled_peers = true →
      disable_peers s a b deferred_free_list =
        ({ s with
            can_access := mask_array_clear (mask_array_clear s.can_access a b) b a
            accessible_from := mask_array_clear (mask_array_clear s.accessible_from a b) b a
            can_copy_from := mask_array_clear (mask_array_clear s.can_copy_from a b) b a
            has_nvlink := mask_array_clear (mask_array_clear s.has_nvlink a b) b a
            indirect_peers := mask_array_clear (mask_array_clear s.indirect_peers a b) b a
            has_native_atomics :=
              mask_array_clear (mask_array_clear s.has_native_atomics a b) b a
            enabled_peers := __clear_bit (uvm_gpu_peer_table_index a b) s.enabled_peers },
          deferred_free_list ++
            (s.va_ranges.flatMap fun va_range => va_range.disable_peer a b).map
              uvm_deferred_free_object_t.external_allocation)) ∧
    (∀ second_list : List uvm_deferred_free_object_t,
      disable_peers (disable_peers s a b deferred_free_list).1 a b second_list =
        ((disable_peers s a b deferred_free_list).1, second_list)) := by
  have hclear : ∀ l, s.enabled_peers (uvm_gpu_peer_table_index a b) = false →
      disable_peers s a b l = (s, l) := by
    intro l h
    simp [disable_peers, test_bit, h]
  refine ⟨hclear deferred_free_list, ?_, ?_⟩
  · intro h
    have h' : s.enabled_peers (uvm_gpu_peer_table_index a b) = true := h
    simp [disable_peers, test_bit, h', can_access_clear, accessible_from_clear,
      can_copy_from_clear, has_nvlink_clear, indirect_peers_clear, has_native_atomics_clear,
      enabled_peers_clear]
  · intro second_list
    have hoff : (disable_peers s a b deferred_free_list).1.enabled_peers
        (uvm_gpu_peer_table_index a b) = false := by
      rw [(disable_peers_frame s a b deferred_free_list).2.2, clear_bit_apply, if_pos rfl]
    generalize (disable_peers s a b deferred_free_list).1 = t at hoff
    simp [disable_peers, test_bit, hoff]

theorem c22_disable_peers_algebra_witness :
    disable_peers sample_two_four 2 4 [] = (sample_two_four, []) ∧
    disable_peers sample_two 1 2 [] =
      ({ sample_two with
          can_access := mask_array_clear (mask_array_clear sample_two.can_access 1 2) 2 1
          accessible_from :=
            mask_array_clear (mask_array_clear sample_two.accessible_from 1 2) 2 1
          can_copy_from := mask_array_clear (mask_array_clear sample_two.can_copy_from 1 2) 2 1
          has_nvlink := mask_array_clear (mask_array_clear sample_two.has_nvlink 1 2) 2 1
          indirect_peers :=
            mask_array_clear (mask_array_clear sample_two.indirect_peers 1 2) 2 1
          has_native_atomics :=
            mask_array_clear (mask_array_clear sample_two.has_native_atomics 1 2) 2 1
          enabled_peers := __clear_bit (uvm_gpu_peer_table_index 1 2) sample_two.enabled_peers },
        [] ++ (sample_two.va_ranges.flatMap fun va_range => va_range.disable_peer 1 2).map
          uvm_deferred_free_object_t.external_allocation) :=
  ⟨(c22_disable_peers_algebra sample_two_four 2 4 []).1 (by decide),
    (c22_disable_peers_algebra sample_two 1 2 []).2.1 (by decide)⟩

/-- C23 as stated fails: for the registered devices 2 and 4, whose pair is not enabled,
`uvm_api_disable_peer_access` returns `NV_ERR_INVALID_DEVICE`, not success. -/
theorem c23_counterexample :
    uvm_va_space_get_gpu_by_uuid sample_global sample_two_four 2 = some 2 ∧
    uvm_va_space_get_gpu_by_uuid sample_global sample_two_four 4 = some 4 ∧
    test_bit (uvm_gpu_peer_table_index 2 4) sample_two_four.enabled_peers = false ∧
    (uvm_api_disable_peer_access sample_global sample_two_four 2 4).1 =
      NV_ERR_INVALID_DEVICE ∧
    (uvm_api_disable_peer_access sample_global sample_two_four 2 4).1 ≠ NV_OK := by
  decide

/-- C23, amended: for every two distinct registered devices whose pair is not enabled,
`uvm_api_disable_peer_access` returns `NV_ERR_INVALID_DEVICE` and the address space as it
was. -/
theorem c23_api_disable_not_enabled (g : uvm_global_t) (s : uvm_va_space_t)
    (gpuUuidA gpuUuidB gpu_1 gpu_2 : Nat)
    (hA : uvm_va_space_get_gpu_by_uuid g s gpuUuidA = some gpu_1)
    (hB : uvm_va_space_get_gpu_by_uuid g s gpuUuidB = some gpu_2)
    (hne : gpu_1 ≠ gpu_2)
    (hnot : test_bit (uvm_gpu_peer_table_index gpu_1 gpu_2) s.enabled_peers = false) :
    uvm_api_disable_peer_access g s gpuUuidA gpuUuidB = (NV_ERR_INVALID_DEVICE, s) := by
  unfold uvm_api_disable_peer_access
  rw [hA, hB]
  simp [hne, uvm_va_space_pcie_peer_enabled, uvm_va_space_peer_enabled, hnot]

theorem c23_api_disable_not_enabled_witness :
    uvm_va_space_get_gpu_by_uuid sample_global sample_two_four 2 = some 2 ∧
    uvm_va_space_get_gpu_by_uuid sample_global sample_two_four 4 = some 4 ∧
    (2 : Nat) ≠ 4 ∧
    test_bit (uvm_gpu_peer_table_index 2 4) sample_two_four.enabled_peers = false ∧
    uvm_api_disable_peer_access sample_global sample_two_four 2 4 =
      (NV_ERR_INVALID_DEVICE, sample_two_four) :=
  ⟨by decide, by decide, by decide, by decide,
    c23_api_disable_not_enabled sample_global sample_two_four 2 4 2 4 (by decide) (by decide)
      (by decide) (by decide)⟩

/-! ## Lemmas: what leaves the device VA contexts alone -/

theorem uvm_gpu_index_inj {i j : Nat} (hi : 0 < i) (hj : 0 < j)
    (h : uvm_gpu_index i = uvm_gpu_index j) : i = j := by
  unfold uvm_gpu_index at h
  omega

theorem ctx_frame_refl (s : uvm_va_space_t) : ctx_frame s s := ⟨rfl, rfl, rfl, rfl, rfl⟩

theorem ctx_frame_trans {s t u : uvm_va_space_t} (h1 : ctx_frame s t) (h2 : ctx_frame t u) :
    ctx_frame s u :=
  ⟨h2.1.trans h1.1, h2.2.1.trans h1.2.1, h2.2.2.1.trans h1.2.2.1,
    h2.2.2.2.1.trans h1.2.2.2.1, h2.2.2.2.2.trans h1.2.2.2.2⟩

theorem CtxInv_of_ctx_frame {s t : uvm_va_space_t} (h : ctx_frame s t)
    (hreg : ∀ i, s.registered_gpu_va_spaces i = true → t.registered_gpus i = true)
    (hs : CtxInv s) : CtxInv t := by
  obtain ⟨a1, a2, a3, a4, _⟩ := h
  exact
    { registered := by rw [a1]; exact hreg
      slot := by rw [a1, a2, a3]; exact hs.slot
      active := by rw [a1, a2, a3]; exact hs.active
      empty := by rw [a1, a2]; exact hs.empty
      fresh := by rw [a3, a4]; exact hs.fresh
      ats := by rw [a1, a2, a3]; exact hs.ats
      freed := by rw [a3]; exact hs.freed }

theorem states_forward_refl (s : uvm_va_space_t) : states_forward s s := fun _ => le_rfl

theorem states_forward_trans {s t u : uvm_va_space_t} (h1 : states_forward s t)
    (h2 : states_forward t u) : states_forward s u := fun p => le_trans (h1 p) (h2 p)

theorem states_forward_of_mem {s t : uvm_va_space_t}
    (h : t.gpu_va_space_mem = s.gpu_va_space_mem) : states_forward s t := by
  intro p
  unfold uvm_gpu_va_space_state
  rw [h]

theorem states_forward_of_ctx_frame {s t : uvm_va_space_t} (h : ctx_frame s t) :
    states_forward s t := states_forward_of_mem h.2.2.1

theorem states_forward_of_same_context_states {s t : uvm_va_space_t}
    (h : same_context_states s t) : states_forward s t := by
  intro p
  rw [h.2.2 p]

theorem disable_peers_ctx_frame (s : uvm_va_space_t) (a b : Nat)
    (l : List uvm_deferred_free_object_t) : ctx_frame s (disable_peers s a b l).1 := by
  cases h : s.enabled_peers (uvm_gpu_peer_table_index a b) with
  | false => rw [disable_peers_fst_of_not_enabled s a b l h]; exact ctx_frame_refl s
  | true => rw [disable_peers_fst_of_enabled s a b l h]; exact ⟨rfl, rfl, rfl, rfl, rfl⟩

theorem enable_peers_masks_ctx_frame (g : uvm_global_t) (s : uvm_va_space_t) (a b : Nat) :
    ctx_frame s (enable_peers_masks g s a b) := by
  rw [enable_peers_masks_eq]
  exact ⟨rfl, rfl, rfl, rfl, rfl⟩

theorem enable_peers_ctx_frame (g : uvm_global_t) (s : uvm_va_space_t) (a b : Nat) :
    ctx_frame s (enable_peers g s a b).2 := by
  rcases enable_peers_snd_cases g s a b with h | ⟨_, _, h | h⟩
  · rw [h]; exact ctx_frame_refl s
  · rw [h]; exact enable_peers_masks_ctx_frame g s a b
  · rw [h]
    exact ctx_frame_trans (enable_peers_masks_ctx_frame g s a b) (disable_peers_ctx_frame _ a b [])

theorem register_gpu_masks_ctx_frame (g : uvm_global_t) (s : uvm_va_space_t) (gpu : Nat) :
    ctx_frame s (register_gpu_masks g s gpu) := by
  rw [register_gpu_masks_eq]
  exact ⟨rfl, rfl, rfl, rfl, rfl⟩

theorem unregister_gpu_masks_ctx_frame (g : uvm_global_t) (s : uvm_va_space_t) (gpu : Nat) :
    ctx_frame s (unregister_gpu_masks g s gpu) := by
  rw [unregister_gpu_masks_eq]
  exact ⟨rfl, rfl, rfl, rfl, rfl⟩

theorem register_gpu_nvlink_peers_loop_ctx_frame (g : uvm_global_t) (gpu : Nat) (l : List Nat)
    (s : uvm_va_space_t) : ctx_frame s (register_gpu_nvlink_peers_loop g gpu l s).2 := by
  induction l generalizing s with
  | nil => exact ctx_frame_refl s
  | cons other rest ih =>
    unfold register_gpu_nvlink_peers_loop
    simp only
    split_ifs with h1 h2 h3
    · exact ih s
    · exact enable_peers_ctx_frame g s gpu other
    · exact ctx_frame_trans (enable_peers_ctx_frame g s gpu other) (ih _)
    · exact ih s

theorem unregister_gpu_peers_loop_ctx_frame (gpu : Nat) (l : List Nat) (s : uvm_va_space_t)
    (dfl : List uvm_deferred_free_object_t) (ptr : uvm_processor_mask_t) :
    ctx_frame s (unregister_gpu_peers_loop gpu l s dfl ptr).1 := by
  induction l generalizing s dfl ptr with
  | nil => exact ctx_frame_refl s
  | cons peer rest ih =>
    unfold unregister_gpu_peers_loop
    simp only
    split_ifs with h1 h2
    · exact ih s dfl ptr
    · exact ctx_frame_trans (disable_peers_ctx_frame s gpu peer dfl) (ih _ _ _)
    · exact ih s dfl ptr

/-! ## Lemmas: updates of the bookkeeping of a device VA context -/

theorem same_context_keys_refl (s : uvm_va_space_t) : same_context_keys s s :=
  ⟨rfl, rfl, rfl, rfl, fun _ => ⟨rfl, rfl, rfl, rfl, rfl, fun h => Or.inl h⟩⟩

theorem same_context_keys_trans {s t u : uvm_va_space_t} (h1 : same_context_keys s t)
    (h2 : same_context_keys t u) : same_context_keys s u := by
  obtain ⟨a1, a2, a3, a4, a5⟩ := h1
  obtain ⟨b1, b2, b3, b4, b5⟩ := h2
  refine ⟨b1.trans a1, b2.trans a2, b3.trans a3, b4.trans a4, fun q => ?_⟩
  obtain ⟨c1, c2, c3, c4, c5, c6⟩ := a5 q
  obtain ⟨d1, d2, d3, d4, d5, d6⟩ := b5 q
  refine ⟨d1.trans c1, d2.trans c2, d3.trans c3, d4.trans c4, d5.trans c5, fun h => ?_⟩
  rcases d6 h with h | h
  · exact c6 h
  · exact Or.inr (c2 ▸ h)

theorem CtxInv_of_same_context_keys {s t : uvm_va_space_t} (h : same_context_keys s t)
    (hs : CtxInv s) : CtxInv t := by
  obtain ⟨a1, a2, a3, a4, a5⟩ := h
  refine ⟨?_, ?_, ?_, ?_, ?_, ?_, ?_⟩
  · rw [a1, a4]; exact hs.registered
  · intro i hi
    rw [a1] at hi
    obtain ⟨q, h1, h2, h3⟩ := hs.slot i hi
    exact ⟨q, by rw [a2]; exact h1, (a5 q).1.trans h2, (a5 q).2.1.trans h3⟩
  · intro q hq
    rw [(a5 q).2.1] at hq
    rw [a1, a2, (a5 q).1]
    exact hs.active q hq
  · rw [a1, a2]; exact hs.empty
  · intro q hq
    rw [a3] at hq
    rw [(a5 q).2.1]
    exact hs.fresh q hq
  · intro i j a b hi hj ha hb
    rw [a1] at hi hj
    rw [a2] at ha hb
    rw [(a5 a).2.2.1, (a5 b).2.2.1]
    exact hs.ats i j a b hi hj ha hb
  · intro q hq
    rw [(a5 q).2.1]
    rcases (a5 q).2.2.2.2.2 hq with h | h
    · exact hs.freed q h
    · exact h

theorem states_forward_of_same_context_keys {s t : uvm_va_space_t}
    (h : same_context_keys s t) : states_forward s t := by
  intro p
  unfold uvm_gpu_va_space_state
  rw [(h.2.2.2.2 p).2.1]

theorem same_context_keys_store (s : uvm_va_space_t) (p : Nat) (obj : uvm_gpu_va_space_t)
    (hgpu : obj.gpu = (s.gpu_va_space_mem p).gpu)
    (hstate : obj.state = (s.gpu_va_space_mem p).state)
    (hats : obj.ats_enabled = (s.gpu_va_space_mem p).ats_enabled)
    (hbig : obj.big_page_size = (s.gpu_va_space_mem p).big_page_size)
    (hback : obj.va_space = (s.gpu_va_space_mem p).va_space)
    (hfreed : obj.freed = true → (s.gpu_va_space_mem p).freed = true ∨
      (s.gpu_va_space_mem p).state ≠ UVM_GPU_VA_SPACE_STATE_ACTIVE) :
    same_context_keys s (gpu_va_space_store s p obj) := by
  refine ⟨rfl, rfl, rfl, rfl, fun q => ?_⟩
  by_cases hq : q = p
  · have hmem : (gpu_va_space_store s p obj).gpu_va_space_mem q = obj := if_pos hq
    rw [hmem, hq]
    exact ⟨hgpu, hstate, hats, hbig, hback, hfreed⟩
  · have hmem : (gpu_va_space_store s p obj).gpu_va_space_mem q = s.gpu_va_space_mem q :=
      if_neg hq
    rw [hmem]
    exact ⟨rfl, rfl, rfl, rfl, rfl, fun h => Or.inl h⟩

theorem same_context_keys_release (s : uvm_va_space_t) (p : Nat)
    (hp : (s.gpu_va_space_mem p).state ≠ UVM_GPU_VA_SPACE_STATE_ACTIVE) :
    same_context_keys s (uvm_gpu_va_space_release s (some p)) := by
  unfold uvm_gpu_va_space_release
  simp only
  apply same_context_keys_store
  all_goals split_ifs
  all_goals first
    | rfl
    | exact fun _ => Or.inr hp

theorem uvm_gpu_va_space_unset_page_dir_keys (o : uvm_gpu_va_space_t) :
    (uvm_gpu_va_space_unset_page_dir o).gpu = o.gpu ∧
    (uvm_gpu_va_space_unset_page_dir o).state = o.state ∧
    (uvm_gpu_va_space_unset_page_dir o).ats_enabled = o.ats_enabled ∧
    (uvm_gpu_va_space_unset_page_dir o).big_page_size = o.big_page_size ∧
    (uvm_gpu_va_space_unset_page_dir o).va_space = o.va_space ∧
    (uvm_gpu_va_space_unset_page_dir o).freed = o.freed ∧
    (uvm_gpu_va_space_unset_page_dir o).kref = o.kref := by
  unfold uvm_gpu_va_space_unset_page_dir
  split_ifs <;> exact ⟨rfl, rfl, rfl, rfl, rfl, rfl, rfl⟩

/-- The shape of `destroy_gpu_va_space`: the object is stored with other counters of calls,
the counter of pending destructions drops by one for a DEAD context, and the reference is
released. -/
theorem destroy_gpu_va_space_shape (s : uvm_va_space_t) (p : Nat) :
    ∃ (obj : uvm_gpu_va_space_t) (u : uvm_va_space_t),
      (obj.gpu = (s.gpu_va_space_mem p).gpu ∧
        obj.state = (s.gpu_va_space_mem p).state ∧
        obj.ats_enabled = (s.gpu_va_space_mem p).ats_enabled ∧
        obj.big_page_size = (s.gpu_va_space_mem p).big_page_size ∧
        obj.va_space = (s.gpu_va_space_mem p).va_space ∧
        obj.freed = (s.gpu_va_space_mem p).freed ∧
        obj.kref = (s.gpu_va_space_mem p).kref) ∧
      (u.registered_gpu_va_spaces = s.registered_gpu_va_spaces ∧
        u.gpu_va_spaces = s.gpu_va_spaces ∧
        u.gpu_va_space_next = s.gpu_va_space_next ∧
        u.registered_gpus = s.registered_gpus ∧
        u.gpu_va_space_mem = (gpu_va_space_store s p obj).gpu_va_space_mem ∧
        u.num_pending =
          (if (s.gpu_va_space_mem p).state = UVM_GPU_VA_SPACE_STATE_DEAD then s.num_pending - 1
            else s.num_pending)) ∧
      destroy_gpu_va_space s (some p) = uvm_gpu_va_space_release u (some p) := by
  have h0 := uvm_gpu_va_space_unset_page_dir_keys (s.gpu_va_space_mem p)
  unfold destroy_gpu_va_space
  simp only
  generalize uvm_gpu_va_space_unset_page_dir (s.gpu_va_space_mem p) = o1 at h0 ⊢
  generalize ho2 : (if o1.page_tables_root = true then _ else o1) = o2
  have h1 : o2.gpu = (s.gpu_va_space_mem p).gpu ∧
      o2.state = (s.gpu_va_space_mem p).state ∧
      o2.ats_enabled = (s.gpu_va_space_mem p).ats_enabled ∧
      o2.big_page_size = (s.gpu_va_space_mem p).big_page_size ∧
      o2.va_space = (s.gpu_va_space_mem p).va_space ∧
      o2.freed = (s.gpu_va_space_mem p).freed ∧
      o2.kref = (s.gpu_va_space_mem p).kref := by
    rw [← ho2]
    split_ifs <;> exact h0
  generalize ho3 : (if o2.duped_gpu_va_space = true then _ else o2) = o3
  have h2 : o3.gpu = (s.gpu_va_space_mem p).gpu ∧
      o3.state = (s.gpu_va_space_mem p).state ∧
      o3.ats_enabled = (s.gpu_va_space_mem p).ats_enabled ∧
      o3.big_page_size = (s.gpu_va_space_mem p).big_page_size ∧
      o3.va_space = (s.gpu_va_space_mem p).va_space ∧
      o3.freed = (s.gpu_va_space_mem p).freed ∧
      o3.kref = (s.gpu_va_space_mem p).kref := by
    rw [← ho3]
    split_ifs <;> exact h1
  refine ⟨o3, _, h2, ?_, rfl⟩
  rw [h2.2.1]
  split_ifs <;> exact ⟨rfl, rfl, rfl, rfl, rfl, rfl⟩

theorem same_context_keys_destroy (s : uvm_va_space_t) (p : Nat)
    (hp : (s.gpu_va_space_mem p).state ≠ UVM_GPU_VA_SPACE_STATE_ACTIVE) :
    same_context_keys s (destroy_gpu_va_space s (some p)) := by
  obtain ⟨obj, u, ⟨o1, o2, o3, o4, o5, o6, _⟩, ⟨u1, u2, u3, u4, u5, _⟩, heq⟩ :=
    destroy_gpu_va_space_shape s p
  rw [heq]
  have hsu : same_context_keys s u := by
    have hstore := same_context_keys_store s p obj o1 o2 o3 o4 o5 (fun h => Or.inl (o6 ▸ h))
    obtain ⟨_, _, _, _, a5⟩ := hstore
    refine ⟨u1, u2, u3, u4, ?_⟩
    rw [u5]
    exact a5
  refine same_context_keys_trans hsu (same_context_keys_release u p ?_)
  rw [(hsu.2.2.2.2 p).2.1]
  exact hp

theorem same_context_keys_deferred_free (l : List uvm_deferred_free_object_t)
    (s : uvm_va_space_t)
    (hl : ∀ p, uvm_deferred_free_object_t.gpu_va_space p ∈ l →
      (s.gpu_va_space_mem p).state ≠ UVM_GPU_VA_SPACE_STATE_ACTIVE) :
    same_context_keys s (uvm_deferred_free_object_list s l) := by
  induction l generalizing s with
  | nil => exact same_context_keys_refl s
  | cons obj rest ih =>
    cases obj with
    | channel c =>
      exact ih s (fun p hp => hl p (List.mem_cons_of_mem _ hp))
    | external_allocation e =>
      exact ih s (fun p hp => hl p (List.mem_cons_of_mem _ hp))
    | gpu_va_space ptr =>
      have h1 := same_context_keys_destroy s ptr (hl ptr (List.mem_cons_self _ _))
      refine same_context_keys_trans h1 (ih _ ?_)
      intro p hp
      rw [(h1.2.2.2.2 p).2.1]
      exact hl p (List.mem_cons_of_mem _ hp)

/-! ## Lemmas: `remove_gpu_va_space` and `add_gpu_va_space` keep the invariants -/

theorem remove_gpu_va_space_not_active (s : uvm_va_space_t) (ptr : Nat)
    (l : List uvm_deferred_free_object_t)
    (h : uvm_gpu_va_space_state s ptr ≠ UVM_GPU_VA_SPACE_STATE_ACTIVE) :
    remove_gpu_va_space s (some ptr) l = (s, l) := by
  unfold remove_gpu_va_space
  simp only [if_pos h]

theorem remove_gpu_va_space_fst_active (s : uvm_va_space_t) (ptr : Nat)
    (l : List uvm_deferred_free_object_t)
    (h : uvm_gpu_va_space_state s ptr = UVM_GPU_VA_SPACE_STATE_ACTIVE) :
    (remove_gpu_va_space s (some ptr) l).1 =
      gpu_va_space_store
        { s with
          num_pending := s.num_pending + 1
          registered_gpu_va_spaces :=
            uvm_processor_mask_clear s.registered_gpu_va_spaces (s.gpu_va_space_mem ptr).gpu
          gpu_va_spaces := fun i =>
            if i = uvm_gpu_index (s.gpu_va_space_mem ptr).gpu then none
            else s.gpu_va_spaces i }
        ptr
        { s.gpu_va_space_mem ptr with
          registered_channels := [], state := UVM_GPU_VA_SPACE_STATE_DEAD } := by
  unfold remove_gpu_va_space
  simp only [h, ne_eq, not_true_eq_false, if_false]
  rfl

/-- The invariant of the contexts after an ACTIVE context left the address space. -/
theorem CtxInv_remove_of_fields {s t : uvm_va_space_t} {ptr g : Nat} (hs : CtxInv s)
    (hr : ∀ i, s.registered_gpus i = true → 0 < i)
    (hact : (s.gpu_va_space_mem ptr).state = UVM_GPU_VA_SPACE_STATE_ACTIVE)
    (hg : (s.gpu_va_space_mem ptr).gpu = g)
    (h1 : ∀ i, t.registered_gpu_va_spaces i =
      if i = g then false else s.registered_gpu_va_spaces i)
    (h2 : ∀ i, t.gpu_va_spaces i = if i = uvm_gpu_index g then none else s.gpu_va_spaces i)
    (h3 : (t.gpu_va_space_mem ptr).state = UVM_GPU_VA_SPACE_STATE_DEAD)
    (h4 : ∀ q, q ≠ ptr → t.gpu_va_space_mem q = s.gpu_va_space_mem q)
    (h5 : t.gpu_va_space_next = s.gpu_va_space_next)
    (h6 : t.registered_gpus = s.registered_gpus) : CtxInv t := by
  obtain ⟨hg1, hg2⟩ := hs.active ptr hact
  rw [hg] at hg1 hg2
  have hgpos : 0 < g := hr g (hs.registered g hg1)
  have hslot : ∀ i a, i ≠ g → s.registered_gpu_va_spaces i = true →
      s.gpu_va_spaces (uvm_gpu_index i) = some a →
      uvm_gpu_index i ≠ uvm_gpu_index g ∧ a ≠ ptr := by
    intro i a hig hi ha
    have hipos := hr i (hs.registered i hi)
    refine ⟨fun h => hig (uvm_gpu_index_inj hipos hgpos h), ?_⟩
    rintro rfl
    obtain ⟨q, b1, b2, _⟩ := hs.slot i hi
    rw [ha] at b1
    cases b1
    exact hig (b2.symm.trans hg)
  refine ⟨?_, ?_, ?_, ?_, ?_, ?_, ?_⟩
  · intro i hi
    rw [h1] at hi
    by_cases hig : i = g
    · rw [if_pos hig] at hi; cases hi
    · rw [if_neg hig] at hi
      rw [h6]
      exact hs.registered i hi
  · intro i hi
    rw [h1] at hi
    by_cases hig : i = g
    · rw [if_pos hig] at hi; cases hi
    · rw [if_neg hig] at hi
      obtain ⟨q, b1, b2, b3⟩ := hs.slot i hi
      obtain ⟨c1, c2⟩ := hslot i q hig hi b1
      refine ⟨q, ?_, ?_, ?_⟩
      · rw [h2, if_neg c1]; exact b1
      · rw [h4 q c2]; exact b2
      · rw [h4 q c2]; exact b3
  · intro q hq
    by_cases hqp : q = ptr
    · rw [hqp, h3] at hq; cases hq
    · rw [h4 q hqp] at hq ⊢
      obtain ⟨b1, b2⟩ := hs.active q hq
      have hne : (s.gpu_va_space_mem q).gpu ≠ g := by
        intro h
        rw [h, hg2] at b2
        cases b2
        exact hqp rfl
      obtain ⟨c1, _⟩ := hslot _ q hne b1 b2
      refine ⟨?_, ?_⟩
      · rw [h1, if_neg hne]; exact b1
      · rw [h2, if_neg c1]; exact b2
  · intro i hi hm
    rw [h2]
    by_cases hig : i = g
    · rw [hig, if_pos rfl]
    · rw [h1, if_neg hig] at hm
      have := hs.empty i hi hm
      split_ifs
      · rfl
      · exact this
  · intro q hq
    rw [h5] at hq
    have hqp : q ≠ ptr := by
      rintro rfl
      have := hs.fresh _ hq
      rw [hact] at this
      cases this
    rw [h4 q hqp]
    exact hs.fresh q hq
  · intro i j a b hi hj ha hb
    rw [h1] at hi hj
    by_cases hig : i = g
    · rw [if_pos hig] at hi; cases hi
    by_cases hjg : j = g
    · rw [if_pos hjg] at hj; cases hj
    rw [if_neg hig] at hi
    rw [if_neg hjg] at hj
    rw [h2] at ha hb
    have hia : uvm_gpu_index i ≠ uvm_gpu_index g :=
      fun h => hig (uvm_gpu_index_inj (hr i (hs.registered i hi)) hgpos h)
    have hjb : uvm_gpu_index j ≠ uvm_gpu_index g :=
      fun h => hjg (uvm_gpu_index_inj (hr j (hs.registered j hj)) hgpos h)
    rw [if_neg hia] at ha
    rw [if_neg hjb] at hb
    rw [h4 a (hslot i a hig hi ha).2, h4 b (hslot j b hjg hj hb).2]
    exact hs.ats i j a b hi hj ha hb
  · intro q hq
    by_cases hqp : q = ptr
    · rw [hqp, h3]
      intro h
      cases h
    · rw [h4 q hqp] at hq ⊢
      exact hs.freed q hq

theorem CtxInv_remove {s : uvm_va_space_t} (p : Option Nat)
    (l : List uvm_deferred_free_object_t) (hs : CtxInv s)
    (hr : ∀ i, s.registered_gpus i = true → 0 < i) :
    CtxInv (remove_gpu_va_space s p l).1 := by
  cases p with
  | none => exact hs
  | some ptr =>
    by_cases hactive : uvm_gpu_va_space_state s ptr = UVM_GPU_VA_SPACE_STATE_ACTIVE
    · rw [remove_gpu_va_space_fst_active s ptr l hactive]
      refine CtxInv_remove_of_fields hs hr hactive rfl (fun _ => rfl) (fun _ => rfl) ?_ ?_
        rfl rfl
      · exact congrArg uvm_gpu_va_space_t.state (if_pos rfl)
      · intro q hq
        exact if_neg hq
    · rw [remove_gpu_va_space_not_active s ptr l hactive]
      exact hs

/-- The states after `remove_gpu_va_space`: the state of an ACTIVE argument is DEAD, every
other state is what it was. -/
theorem remove_gpu_va_space_states (s : uvm_va_space_t) (ptr : Nat)
    (l : List uvm_deferred_free_object_t) (q : Nat) :
    uvm_gpu_va_space_state (remove_gpu_va_space s (some ptr) l).1 q =
      if q = ptr ∧ uvm_gpu_va_space_state s ptr = UVM_GPU_VA_SPACE_STATE_ACTIVE then
        UVM_GPU_VA_SPACE_STATE_DEAD
      else uvm_gpu_va_space_state s q := by
  by_cases hactive : uvm_gpu_va_space_state s ptr = UVM_GPU_VA_SPACE_STATE_ACTIVE
  · rw [remove_gpu_va_space_fst_active s ptr l hactive]
    by_cases hq : q = ptr
    · rw [if_pos ⟨hq, hactive⟩]
      exact congrArg uvm_gpu_va_space_t.state (if_pos hq)
    · rw [if_neg (fun h => hq h.1)]
      exact congrArg uvm_gpu_va_space_t.state (if_neg hq)
  · rw [remove_gpu_va_space_not_active s ptr l hactive, if_neg (fun h => hactive h.2)]

theorem states_forward_remove (s : uvm_va_space_t) (p : Option Nat)
    (l : List uvm_deferred_free_object_t) :
    states_forward s (remove_gpu_va_space s p l).1 := by
  cases p with
  | none => exact states_forward_refl s
  | some ptr =>
    intro q
    rw [remove_gpu_va_space_states]
    split_ifs with h
    · rw [h.1, h.2]
      decide
    · exact le_rfl

theorem add_gpu_va_space_check_ok {s : uvm_va_space_t} {ptr : Nat} (l : List Nat)
    (h : add_gpu_va_space_check s ptr l = NV_OK) :
    ∀ other ∈ l, ∀ q, uvm_gpu_va_space_get s other = some q →
      (s.gpu_va_space_mem q).ats_enabled = (s.gpu_va_space_mem ptr).ats_enabled ∧
      (test_bit (uvm_gpu_peer_table_index (s.gpu_va_space_mem ptr).gpu other) s.enabled_peers
          = true →
        (s.gpu_va_space_mem ptr).big_page_size = (s.gpu_va_space_mem q).big_page_size) := by
  induction l with
  | nil => intro other ho; cases ho
  | cons x rest ih =>
    intro other ho q hq
    unfold add_gpu_va_space_check at h
    rcases List.mem_cons.mp ho with rfl | ho
    · rw [hq] at h
      simp only at h
      split_ifs at h with h1 h2 h3
      · refine ⟨by simpa using h1, fun hbit => ?_⟩
        simp [hbit] at h2
      · refine ⟨by simpa using h1, fun _ => by simpa using h3⟩
    · cases hx : uvm_gpu_va_space_get s x with
      | none =>
        rw [hx] at h
        exact ih h other ho q hq
      | some y =>
        rw [hx] at h
        simp only at h
        split_ifs at h with h1 h2 h3
        · exact ih h other ho q hq
        · exact ih h other ho q hq

theorem add_gpu_va_space_check_of_all {s : uvm_va_space_t} {ptr : Nat} (l : List Nat)
    (h : ∀ other ∈ l, ∀ q, uvm_gpu_va_space_get s other = some q →
      (s.gpu_va_space_mem q).ats_enabled = (s.gpu_va_space_mem ptr).ats_enabled ∧
      (test_bit (uvm_gpu_peer_table_index (s.gpu_va_space_mem ptr).gpu other) s.enabled_peers
          = true →
        (s.gpu_va_space_mem ptr).big_page_size = (s.gpu_va_space_mem q).big_page_size)) :
    add_gpu_va_space_check s ptr l = NV_OK := by
  induction l with
  | nil => rfl
  | cons x rest ih =>
    have ih := ih (fun other ho => h other (List.mem_cons_of_mem _ ho))
    unfold add_gpu_va_space_check
    cases hx : uvm_gpu_va_space_get s x with
    | none => exact ih
    | some y =>
      obtain ⟨h1, h2⟩ := h x (List.mem_cons_self _ _) y hx
      simp only
      rw [if_neg (by simpa using h1)]
      split_ifs with h3 h4
      · exact ih
      · simp only [Bool.not_eq_true, Bool.not_eq_false_eq_eq_true, Bool.not_eq_eq_eq_not,
          Bool.not_true, Bool.not_eq_false] at h3
        exact absurd (h2 h3) (by simpa using h4)
      · exact ih

/-- A context whose ATS setting differs from the registered ones is refused with
`NV_ERR_INVALID_FLAGS` at the first registered context. -/
theorem add_gpu_va_space_check_ats {s : uvm_va_space_t} {ptr : Nat} (l : List Nat)
    (hall : ∀ other ∈ l, ∀ q, uvm_gpu_va_space_get s other = some q →
      (s.gpu_va_space_mem q).ats_enabled ≠ (s.gpu_va_space_mem ptr).ats_enabled)
    (hex : ∃ other ∈ l, ∃ q, uvm_gpu_va_space_get s other = some q) :
    add_gpu_va_space_check s ptr l = NV_ERR_INVALID_FLAGS := by
  induction l with
  | nil =>
    obtain ⟨other, ho, _⟩ := hex
    cases ho
  | cons x rest ih =>
    unfold add_gpu_va_space_check
    cases hx : uvm_gpu_va_space_get s x with
    | none =>
      simp only
      refine ih (fun other ho => hall other (List.mem_cons_of_mem _ ho)) ?_
      obtain ⟨other, ho, q, hq⟩ := hex
      rcases List.mem_cons.mp ho with rfl | ho
      · rw [hx] at hq; cases hq
      · exact ⟨other, ho, q, hq⟩
    | some y =>
      simp only
      rw [if_pos (by simpa using hall x (List.mem_cons_self _ _) y hx)]

/-- A context with the ATS setting of the registered ones and another big page size than
the context of a peer-enabled device is refused with `NV_ERR_NOT_COMPATIBLE`. -/
theorem add_gpu_va_space_check_big_page {s : uvm_va_space_t} {ptr : Nat} (l : List Nat)
    (hall : ∀ other ∈ l, ∀ q, uvm_gpu_va_space_get s other = some q →
      (s.gpu_va_space_mem q).ats_enabled = (s.gpu_va_space_mem ptr).ats_enabled)
    (hex : ∃ other ∈ l, ∃ q, uvm_gpu_va_space_get s other = some q ∧
      test_bit (uvm_gpu_peer_table_index (s.gpu_va_space_mem ptr).gpu other) s.enabled_peers
        = true ∧
      (s.gpu_va_space_mem q).big_page_size ≠ (s.gpu_va_space_mem ptr).big_page_size) :
    add_gpu_va_space_check s ptr l = NV_ERR_NOT_COMPATIBLE := by
  induction l with
  | nil =>
    obtain ⟨other, ho, _⟩ := hex
    cases ho
  | cons x rest ih =>
    have hrest : (∃ other ∈ rest, ∃ q, uvm_gpu_va_space_get s other = some q ∧
        test_bit (uvm_gpu_peer_table_index (s.gpu_va_space_mem ptr).gpu other) s.enabled_peers
          = true ∧
        (s.gpu_va_space_mem q).big_page_size ≠ (s.gpu_va_space_mem ptr).big_page_size) →
        add_gpu_va_space_check s ptr rest = NV_ERR_NOT_COMPATIBLE :=
      ih (fun other ho => hall other (List.mem_cons_of_mem _ ho))
    unfold add_gpu_va_space_check
    cases hx : uvm_gpu_va_space_get s x with
    | none =>
      simp only
      apply hrest
      obtain ⟨other, ho, q, hq, hrestq⟩ := hex
      rcases List.mem_cons.mp ho with rfl | ho
      · rw [hx] at hq; cases hq
      · exact ⟨other, ho, q, hq, hrestq⟩
    | some y =>
      simp only
      rw [if_neg (by simpa using hall x (List.mem_cons_self _ _) y hx)]
      by_cases hbit : test_bit
          (uvm_gpu_peer_table_index (s.gpu_va_space_mem ptr).gpu x) s.enabled_peers = true
      · by_cases hbig : (s.gpu_va_space_mem ptr).big_page_size =
            (s.gpu_va_space_mem y).big_page_size
        · simp only [hbit, hbig, Bool.not_true, Bool.false_eq_true, if_false, bne_self_eq_false]
          apply hrest
          obtain ⟨other, ho, q, hq, hb, hne⟩ := hex
          rcases List.mem_cons.mp ho with rfl | ho
          · rw [hx] at hq
            cases hq
            exact absurd hbig.symm hne
          · exact ⟨other, ho, q, hq, hb, hne⟩
        · simp [hbit, hbig]
      · have hbit2 : test_bit
            (uvm_gpu_peer_table_index (s.gpu_va_space_mem ptr).gpu x) s.enabled_peers = false := by
          simpa using hbit
        simp only [hbit2, Bool.not_false, if_true]
        apply hrest
        obtain ⟨other, ho, q, hq, hb, hne⟩ := hex
        rcases List.mem_cons.mp ho with rfl | ho
        · rw [hb] at hbit2; cases hbit2
        · exact ⟨other, ho, q, hq, hb, hne⟩

theorem add_gpu_va_space_fail {s : uvm_va_space_t} {ptr : Nat}
    (h : add_gpu_va_space_check s ptr (for_each_gpu_id_in_mask s.registered_gpu_va_spaces) ≠
      NV_OK) :
    add_gpu_va_space s ptr =
      (add_gpu_va_space_check s ptr (for_each_gpu_id_in_mask s.registered_gpu_va_spaces), s) := by
  unfold add_gpu_va_space
  simp only [if_pos h]

theorem add_gpu_va_space_of_check {s : uvm_va_space_t} {ptr : Nat}
    (h : add_gpu_va_space_check s ptr (for_each_gpu_id_in_mask s.registered_gpu_va_spaces) =
      NV_OK) :
    add_gpu_va_space s ptr =
      (NV_OK, gpu_va_space_store
        { s with
          registered_gpu_va_spaces :=
            uvm_processor_mask_set s.registered_gpu_va_spaces (s.gpu_va_space_mem ptr).gpu
          gpu_va_spaces := fun i =>
            if i = uvm_gpu_index (s.gpu_va_space_mem ptr).gpu then some ptr
            else s.gpu_va_spaces i }
        ptr
        { s.gpu_va_space_mem ptr with
          va_space := true, state := UVM_GPU_VA_SPACE_STATE_ACTIVE }) := by
  unfold add_gpu_va_space
  simp only [h, ne_eq, not_true_eq_false, if_false]
  rfl

theorem add_gpu_va_space_cases (s : uvm_va_space_t) (ptr : Nat) :
    ((add_gpu_va_space s ptr).1 ≠ NV_OK ∧ (add_gpu_va_space s ptr).2 = s) ∨
    (add_gpu_va_space_check s ptr (for_each_gpu_id_in_mask s.registered_gpu_va_spaces) = NV_OK ∧
      add_gpu_va_space s ptr =
        (NV_OK, gpu_va_space_store
          { s with
            registered_gpu_va_spaces :=
              uvm_processor_mask_set s.registered_gpu_va_spaces (s.gpu_va_space_mem ptr).gpu
            gpu_va_spaces := fun i =>
              if i = uvm_gpu_index (s.gpu_va_space_mem ptr).gpu then some ptr
              else s.gpu_va_spaces i }
          ptr
          { s.gpu_va_space_mem ptr with
            va_space := true, state := UVM_GPU_VA_SPACE_STATE_ACTIVE })) := by
  by_cases h : add_gpu_va_space_check s ptr
      (for_each_gpu_id_in_mask s.registered_gpu_va_spaces) = NV_OK
  · exact Or.inr ⟨h, add_gpu_va_space_of_check h⟩
  · rw [add_gpu_va_space_fail h]
    exact Or.inl ⟨h, rfl⟩

/-- The invariant of the contexts after a fresh context entered the address space. -/
theorem CtxInv_add_of_fields {s t : uvm_va_space_t} {ptr g : Nat} (hs : CtxInv s)
    (hr : ∀ i, s.registered_gpus i = true → 0 < i)
    (hinit : (s.gpu_va_space_mem ptr).state = UVM_GPU_VA_SPACE_STATE_INIT)
    (hreg : s.registered_gpus g = true)
    (hnew : s.registered_gpu_va_spaces g = false)
    (hptr : ptr < s.gpu_va_space_next)
    (hcheck : ∀ j q, s.registered_gpu_va_spaces j = true →
      s.gpu_va_spaces (uvm_gpu_index j) = some q →
      (s.gpu_va_space_mem q).ats_enabled = (s.gpu_va_space_mem ptr).ats_enabled)
    (h1 : ∀ i, t.registered_gpu_va_spaces i =
      if i = g then true else s.registered_gpu_va_spaces i)
    (h2 : ∀ i, t.gpu_va_spaces i =
      if i = uvm_gpu_index g then some ptr else s.gpu_va_spaces i)
    (h3 : (t.gpu_va_space_mem ptr).gpu = g ∧
      (t.gpu_va_space_mem ptr).state = UVM_GPU_VA_SPACE_STATE_ACTIVE ∧
      (t.gpu_va_space_mem ptr).ats_enabled = (s.gpu_va_space_mem ptr).ats_enabled ∧
      (t.gpu_va_space_mem ptr).freed = false)
    (h4 : ∀ q, q ≠ ptr → t.gpu_va_space_mem q = s.gpu_va_space_mem q)
    (h5 : t.gpu_va_space_next = s.gpu_va_space_next)
    (h6 : t.registered_gpus = s.registered_gpus) : CtxInv t := by
  have hgpos : 0 < g := hr g hreg
  have hslot : ∀ i a, s.registered_gpu_va_spaces i = true →
      s.gpu_va_spaces (uvm_gpu_index i) = some a →
      i ≠ g ∧ uvm_gpu_index i ≠ uvm_gpu_index g ∧ a ≠ ptr := by
    intro i a hi ha
    have hipos := hr i (hs.registered i hi)
    have hig : i ≠ g := by
      rintro rfl
      rw [hnew] at hi
      cases hi
    refine ⟨hig, fun h => hig (uvm_gpu_index_inj hipos hgpos h), ?_⟩
    rintro rfl
    obtain ⟨q, b1, _, b3⟩ := hs.slot i hi
    rw [ha] at b1
    cases b1
    rw [hinit] at b3
    cases b3
  refine ⟨?_, ?_, ?_, ?_, ?_, ?_, ?_⟩
  · intro i hi
    rw [h1] at hi
    rw [h6]
    by_cases hig : i = g
    · rw [hig]; exact hreg
    · rw [if_neg hig] at hi
      exact hs.registered i hi
  · intro i hi
    rw [h1] at hi
    by_cases hig : i = g
    · refine ⟨ptr, ?_, ?_, h3.2.1⟩
      · rw [h2, hig, if_pos rfl]
      · rw [hig]; exact h3.1
    · rw [if_neg hig] at hi
      obtain ⟨q, b1, b2, b3⟩ := hs.slot i hi
      obtain ⟨_, c1, c2⟩ := hslot i q hi b1
      refine ⟨q, ?_, ?_, ?_⟩
      · rw [h2, if_neg c1]; exact b1
      · rw [h4 q c2]; exact b2
      · rw [h4 q c2]; exact b3
  · intro q hq
    by_cases hqp : q = ptr
    · rw [hqp, h3.1, h1, h2, if_pos rfl, if_pos rfl]
      exact ⟨rfl, rfl⟩
    · rw [h4 q hqp] at hq ⊢
      obtain ⟨b1, b2⟩ := hs.active q hq
      obtain ⟨c0, c1, _⟩ := hslot _ q b1 b2
      refine ⟨?_, ?_⟩
      · rw [h1, if_neg c0]; exact b1
      · rw [h2, if_neg c1]; exact b2
  · intro i hi hm
    rw [h1] at hm
    by_cases hig : i = g
    · rw [if_pos hig] at hm; cases hm
    · rw [if_neg hig] at hm
      rw [h2, if_neg (fun h => hig (uvm_gpu_index_inj hi hgpos h))]
      exact hs.empty i hi hm
  · intro q hq
    rw [h5] at hq
    have hqp : q ≠ ptr := by
      rintro rfl
      omega
    rw [h4 q hqp]
    exact hs.fresh q hq
  · have hone : ∀ i a, t.registered_gpu_va_spaces i = true →
        t.gpu_va_spaces (uvm_gpu_index i) = some a →
        (t.gpu_va_space_mem a).ats_enabled = (s.gpu_va_space_mem ptr).ats_enabled := by
      intro i a hi ha
      rw [h1] at hi
      rw [h2] at ha
      by_cases hig : i = g
      · rw [hig, if_pos rfl] at ha
        cases ha
        exact h3.2.2.1
      · rw [if_neg hig] at hi
        rw [if_neg (fun h => hig (uvm_gpu_index_inj (hr i (hs.registered i hi)) hgpos h))] at ha
        rw [h4 a (hslot i a hi ha).2.2]
        exact hcheck i a hi ha
    intro i j a b hi hj ha hb
    rw [hone i a hi ha, hone j b hj hb]
  · intro q hq
    by_cases hqp : q = ptr
    · rw [hqp, h3.2.2.2] at hq
      cases hq
    · rw [h4 q hqp] at hq ⊢
      exact hs.freed q hq

theorem CtxInv_add {s : uvm_va_space_t} {ptr : Nat} (hs : CtxInv s)
    (hr : ∀ i, s.registered_gpus i = true → 0 < i ∧ i < UVM_MAX_PROCESSORS)
    (hinit : (s.gpu_va_space_mem ptr).state = UVM_GPU_VA_SPACE_STATE_INIT)
    (hreg : s.registered_gpus (s.gpu_va_space_mem ptr).gpu = true)
    (hnew : s.registered_gpu_va_spaces (s.gpu_va_space_mem ptr).gpu = false)
    (hfreed : (s.gpu_va_space_mem ptr).freed = false)
    (hptr : ptr < s.gpu_va_space_next) : CtxInv (add_gpu_va_space s ptr).2 := by
  rcases add_gpu_va_space_cases s ptr with h | ⟨hcheck, h⟩
  · rw [h.2]; exact hs
  · rw [h]
    have hmem : (gpu_va_space_store
          { s with
            registered_gpu_va_spaces :=
              uvm_processor_mask_set s.registered_gpu_va_spaces (s.gpu_va_space_mem ptr).gpu
            gpu_va_spaces := fun i =>
              if i = uvm_gpu_index (s.gpu_va_space_mem ptr).gpu then some ptr
              else s.gpu_va_spaces i }
          ptr
          { s.gpu_va_space_mem ptr with
            va_space := true, state := UVM_GPU_VA_SPACE_STATE_ACTIVE }).gpu_va_space_mem ptr =
        { s.gpu_va_space_mem ptr with
            va_space := true, state := UVM_GPU_VA_SPACE_STATE_ACTIVE } := if_pos rfl
    refine CtxInv_add_of_fields hs (fun i hi => (hr i hi).1) hinit hreg hnew hptr ?_
      (fun _ => rfl) (fun _ => rfl) ?_ (fun q hq => if_neg hq) rfl rfl
    · intro j q hj hq
      have hjr := hr j (hs.registered j hj)
      refine (add_gpu_va_space_check_ok _ hcheck j ?_ q ?_).1
      · rw [mem_for_each_gpu_id_in_mask]
        exact ⟨hjr.1, hjr.2, hj⟩
      · unfold uvm_gpu_va_space_get uvm_processor_mask_test
        simp only [hj, Bool.not_true, Bool.false_eq_true, if_false]
        exact hq
    · rw [hmem]
      exact ⟨rfl, rfl, rfl, hfreed⟩

theorem add_gpu_va_space_states (s : uvm_va_space_t) (ptr q : Nat) :
    uvm_gpu_va_space_state (add_gpu_va_space s ptr).2 q =
      if q = ptr ∧ (add_gpu_va_space s ptr).1 = NV_OK then UVM_GPU_VA_SPACE_STATE_ACTIVE
      else uvm_gpu_va_space_state s q := by
  rcases add_gpu_va_space_cases s ptr with h | ⟨_, h⟩
  · rw [h.2, if_neg (fun c => h.1 c.2)]
  · rw [h]
    by_cases hq : q = ptr
    · rw [if_pos ⟨hq, rfl⟩]
      exact congrArg uvm_gpu_va_space_t.state (if_pos hq)
    · rw [if_neg (fun c => hq c.1)]
      exact congrArg uvm_gpu_va_space_t.state (if_neg hq)

theorem states_forward_add {s : uvm_va_space_t} {ptr : Nat}
    (hinit : (s.gpu_va_space_mem ptr).state = UVM_GPU_VA_SPACE_STATE_INIT) :
    states_forward s (add_gpu_va_space s ptr).2 := by
  intro q
  rw [add_gpu_va_space_states]
  split_ifs with h
  · rw [h.1]
    unfold uvm_gpu_va_space_state
    rw [hinit]
    decide
  · exact le_rfl

/-! ## Lemmas: every entry point keeps the invariant of the contexts -/

theorem uvm_gpu_va_space_get_some {s : uvm_va_space_t} {gpu ptr : Nat} (hs : CtxInv s)
    (h : uvm_gpu_va_space_get s gpu = some ptr) :
    s.registered_gpu_va_spaces gpu = true ∧
    s.gpu_va_spaces (uvm_gpu_index gpu) = some ptr ∧
    (s.gpu_va_space_mem ptr).gpu = gpu ∧
    (s.gpu_va_space_mem ptr).state = UVM_GPU_VA_SPACE_STATE_ACTIVE := by
  unfold uvm_gpu_va_space_get uvm_processor_mask_test at h
  cases hm : s.registered_gpu_va_spaces gpu with
  | false => simp [hm] at h
  | true =>
    simp only [hm, Bool.not_true, Bool.false_eq_true, if_false] at h
    obtain ⟨q, b1, b2, b3⟩ := hs.slot gpu hm
    rw [h] at b1
    cases b1
    exact ⟨rfl, h, b2, b3⟩

theorem uvm_gpu_va_space_get_none {s : uvm_va_space_t} {gpu : Nat} (hs : CtxInv s)
    (h : uvm_gpu_va_space_get s gpu = none) : s.registered_gpu_va_spaces gpu = false := by
  unfold uvm_gpu_va_space_get uvm_processor_mask_test at h
  cases hm : s.registered_gpu_va_spaces gpu with
  | false => rfl
  | true =>
    simp only [hm, Bool.not_true, Bool.false_eq_true, if_false] at h
    obtain ⟨q, b1, _, _⟩ := hs.slot gpu hm
    rw [h] at b1
    cases b1

theorem uvm_gpu_va_space_get_of_mask {s : uvm_va_space_t} {gpu : Nat} (hs : CtxInv s)
    (h : s.registered_gpu_va_spaces gpu = true) :
    ∃ ptr, uvm_gpu_va_space_get s gpu = some ptr ∧ (s.gpu_va_space_mem ptr).gpu = gpu ∧
      (s.gpu_va_space_mem ptr).state = UVM_GPU_VA_SPACE_STATE_ACTIVE := by
  obtain ⟨q, b1, b2, b3⟩ := hs.slot gpu h
  refine ⟨q, ?_, b2, b3⟩
  unfold uvm_gpu_va_space_get uvm_processor_mask_test
  simp only [h, Bool.not_true, Bool.false_eq_true, if_false]
  exact b1

theorem remove_gpu_va_space_list (s : uvm_va_space_t) (p : Option Nat)
    (l : List uvm_deferred_free_object_t) (q : Nat)
    (h : uvm_deferred_free_object_t.gpu_va_space q ∈ (remove_gpu_va_space s p l).2) :
    uvm_deferred_free_object_t.gpu_va_space q ∈ l ∨
      (p = some q ∧ uvm_gpu_va_space_state s q = UVM_GPU_VA_SPACE_STATE_ACTIVE) := by
  cases p with
  | none => exact Or.inl h
  | some ptr =>
    by_cases hactive : uvm_gpu_va_space_state s ptr = UVM_GPU_VA_SPACE_STATE_ACTIVE
    · obtain ⟨_, _, _, _, channels, ext, hl⟩ := remove_gpu_va_space_active l hactive
      rw [hl] at h
      simp only [List.mem_append, List.mem_map, List.mem_singleton] at h
      rcases h with ((h | ⟨_, _, hc⟩) | ⟨_, _, hc⟩) | h
      · exact Or.inl h
      · cases hc
      · cases hc
      · cases h
        exact Or.inr ⟨rfl, hactive⟩
    · rw [remove_gpu_va_space_not_active s ptr l hactive] at h
      exact Or.inl h

/-- After `remove_gpu_va_space` no object of the deferred free list it made is ACTIVE. -/
theorem remove_gpu_va_space_list_states (s : uvm_va_space_t) (p : Option Nat)
    (l : List uvm_deferred_free_object_t) (q : Nat)
    (h : uvm_deferred_free_object_t.gpu_va_space q ∈ (remove_gpu_va_space s p l).2) :
    uvm_deferred_free_object_t.gpu_va_space q ∈ l ∨
      ((remove_gpu_va_space s p l).1.gpu_va_space_mem q).state ≠
        UVM_GPU_VA_SPACE_STATE_ACTIVE := by
  rcases remove_gpu_va_space_list s p l q h with h | ⟨rfl, hactive⟩
  · exact Or.inl h
  · right
    have := remove_gpu_va_space_states s q l q
    rw [if_pos ⟨rfl, hactive⟩] at this
    unfold uvm_gpu_va_space_state at this
    rw [this]
    intro hc
    cases hc

theorem CtxInv_alloc {s : uvm_va_space_t} (obj : uvm_gpu_va_space_t)
    (hobj : obj.state = UVM_GPU_VA_SPACE_STATE_INIT) (hs : CtxInv s) :
    CtxInv (gpu_va_space_store { s with gpu_va_space_next := s.gpu_va_space_next + 1 }
      s.gpu_va_space_next obj) := by
  have hnext : ∀ q, (s.gpu_va_space_mem q).state = UVM_GPU_VA_SPACE_STATE_ACTIVE →
      q ≠ s.gpu_va_space_next := by
    rintro q hq rfl
    rw [hs.fresh _ le_rfl] at hq
    cases hq
  have hmem : ∀ q, q ≠ s.gpu_va_space_next →
      (gpu_va_space_store { s with gpu_va_space_next := s.gpu_va_space_next + 1 }
        s.gpu_va_space_next obj).gpu_va_space_mem q = s.gpu_va_space_mem q :=
    fun q hq => if_neg hq
  have hmem0 : (gpu_va_space_store { s with gpu_va_space_next := s.gpu_va_space_next + 1 }
        s.gpu_va_space_next obj).gpu_va_space_mem s.gpu_va_space_next = obj := if_pos rfl
  refine ⟨hs.registered, ?_, ?_, hs.empty, ?_, ?_, ?_⟩
  · intro i hi
    obtain ⟨q, b1, b2, b3⟩ := hs.slot i hi
    refine ⟨q, b1, ?_, ?_⟩
    · rw [hmem q (hnext q b3)]; exact b2
    · rw [hmem q (hnext q b3)]; exact b3
  · intro q hq
    by_cases hqn : q = s.gpu_va_space_next
    · rw [hqn, hmem0, hobj] at hq
      cases hq
    · rw [hmem q hqn] at hq ⊢
      exact hs.active q hq
  · intro q hq
    have hq2 : s.gpu_va_space_next + 1 ≤ q := hq
    rw [hmem q (by omega)]
    exact hs.fresh q (by omega)
  · intro i j a b hi hj ha hb
    obtain ⟨qa, a1, _, a3⟩ := hs.slot i hi
    obtain ⟨qb, b1, _, b3⟩ := hs.slot j hj
    have ha2 : s.gpu_va_spaces (uvm_gpu_index i) = some a := ha
    have hb2 : s.gpu_va_spaces (uvm_gpu_index j) = some b := hb
    rw [ha2] at a1
    rw [hb2] at b1
    cases a1
    cases b1
    rw [hmem a (hnext a a3), hmem b (hnext b b3)]
    exact hs.ats i j a b hi hj ha2 hb2
  · intro q hq
    by_cases hqn : q = s.gpu_va_space_next
    · rw [hqn, hmem0, hobj]
      intro hc
      cases hc
    · rw [hmem q hqn] at hq ⊢
      exact hs.freed q hq

theorem states_forward_alloc {s : uvm_va_space_t} (obj : uvm_gpu_va_space_t) (hs : CtxInv s) :
    states_forward s
      (gpu_va_space_store { s with gpu_va_space_next := s.gpu_va_space_next + 1 }
        s.gpu_va_space_next obj) := by
  intro q
  by_cases hqn : q = s.gpu_va_space_next
  · unfold uvm_gpu_va_space_state
    rw [hqn, hs.fresh _ le_rfl]
    exact Nat.zero_le _
  · have : uvm_gpu_va_space_state
        (gpu_va_space_store { s with gpu_va_space_next := s.gpu_va_space_next + 1 }
          s.gpu_va_space_next obj) q = uvm_gpu_va_space_state s q :=
      congrArg uvm_gpu_va_space_t.state (if_neg hqn)
    rw [this]

/-- What `create_gpu_va_space` returns: on failure no context and either the address space
as it was or the one where a fresh object was stored and destroyed; on success the context
at the next address. -/
theorem create_gpu_va_space_cases (g : uvm_global_t) (s : uvm_va_space_t) (gpu : Nat)
    (rm : rm_answers_t) :
    ((create_gpu_va_space g s gpu rm).2.2 = none ∧ (create_gpu_va_space g s gpu rm).1 ≠ NV_OK ∧
      ((create_gpu_va_space g s gpu rm).2.1 = s ∨
        ∃ obj : uvm_gpu_va_space_t, obj.state = UVM_GPU_VA_SPACE_STATE_INIT ∧
          obj.va_space = false ∧ obj.kref = 1 ∧ obj.freed = false ∧
          (create_gpu_va_space g s gpu rm).2.1 =
            destroy_gpu_va_space
              (gpu_va_space_store { s with gpu_va_space_next := s.gpu_va_space_next + 1 }
                s.gpu_va_space_next obj) (some s.gpu_va_space_next))) ∨
    create_gpu_va_space g s gpu rm =
      (NV_OK,
        gpu_va_space_store { s with gpu_va_space_next := s.gpu_va_space_next + 1 }
          s.gpu_va_space_next
          { gpu_va_space_zero with
            gpu := gpu, kref := 1, duped_gpu_va_space := true, ats_enabled := rm.atsEnabled,
            page_tables_root := true, big_page_size := rm.bigPageSize,
            did_set_page_directory := true },
        some s.gpu_va_space_next) := by
  unfold create_gpu_va_space
  simp only
  split_ifs with h1 h2 h3 h4 h5 h6 h7
  · exact Or.inl ⟨rfl, (by intro hc; cases hc), Or.inl rfl⟩
  · exact Or.inl ⟨rfl, h2, Or.inr ⟨_, rfl, rfl, rfl, rfl, rfl⟩⟩
  · exact Or.inl ⟨rfl, (by intro hc; cases hc), Or.inr ⟨_, rfl, rfl, rfl, rfl, rfl⟩⟩
  · exact Or.inl ⟨rfl, (by intro hc; cases hc), Or.inr ⟨_, rfl, rfl, rfl, rfl, rfl⟩⟩
  · exact Or.inl ⟨rfl, h5, Or.inr ⟨_, rfl, rfl, rfl, rfl, rfl⟩⟩
  · exact Or.inl ⟨rfl, (by intro hc; cases hc), Or.inr ⟨_, rfl, rfl, rfl, rfl, rfl⟩⟩
  · exact Or.inl ⟨rfl, h6, Or.inr ⟨_, rfl, rfl, rfl, rfl, rfl⟩⟩
  · exact Or.inr rfl

theorem CtxInv_create {g : uvm_global_t} {s : uvm_va_space_t} (gpu : Nat) (rm : rm_answers_t)
    (hs : CtxInv s) :
    CtxInv (create_gpu_va_space g s gpu rm).2.1 ∧
    states_forward s (create_gpu_va_space g s gpu rm).2.1 := by
  rcases create_gpu_va_space_cases g s gpu rm with ⟨_, _, h | ⟨obj, hobj, _, _, _, h⟩⟩ | h
  · rw [h]
    exact ⟨hs, states_forward_refl s⟩
  · rw [h]
    have h1 := CtxInv_alloc obj hobj hs
    have h2 := same_context_keys_destroy
      (gpu_va_space_store { s with gpu_va_space_next := s.gpu_va_space_next + 1 }
        s.gpu_va_space_next obj) s.gpu_va_space_next
      (by
        have : (gpu_va_space_store { s with gpu_va_space_next := s.gpu_va_space_next + 1 }
          s.gpu_va_space_next obj).gpu_va_space_mem s.gpu_va_space_next = obj := if_pos rfl
        rw [this, hobj]
        intro hc
        cases hc)
    exact ⟨CtxInv_of_same_context_keys h2 h1,
      states_forward_trans (states_forward_alloc obj hs)
        (states_forward_of_same_context_keys h2)⟩
  · rw [h]
    exact ⟨CtxInv_alloc _ rfl hs, states_forward_alloc _ hs⟩

theorem CtxInv_register_error {s : uvm_va_space_t} {ptr : Nat} {locked : Bool}
    (hs : CtxInv s) (hr : ∀ i, s.registered_gpus i = true → 0 < i)
    (h : (s.gpu_va_space_mem ptr).state = UVM_GPU_VA_SPACE_STATE_ACTIVE →
      locked = true ∧ (s.gpu_va_space_mem ptr).va_space = true) :
    CtxInv (register_gpu_va_space_error s ptr locked) ∧
    states_forward s (register_gpu_va_space_error s ptr locked) := by
  unfold register_gpu_va_space_error
  simp only
  by_cases hc : (locked && (s.gpu_va_space_mem ptr).va_space) = true
  · rw [if_pos hc]
    have h1 := CtxInv_remove (some ptr) [] hs hr
    have hst : ((remove_gpu_va_space s (some ptr) []).1.gpu_va_space_mem ptr).state ≠
        UVM_GPU_VA_SPACE_STATE_ACTIVE := by
      have := remove_gpu_va_space_states s ptr [] ptr
      unfold uvm_gpu_va_space_state at this
      rw [this]
      split_ifs with hh
      · intro hc2; cases hc2
      · exact fun hc2 => hh ⟨rfl, hc2⟩
    have h2 := same_context_keys_destroy _ ptr hst
    exact ⟨CtxInv_of_same_context_keys h2 h1,
      states_forward_trans (states_forward_remove s (some ptr) [])
        (states_forward_of_same_context_keys h2)⟩
  · rw [if_neg hc]
    have hst : (s.gpu_va_space_mem ptr).state ≠ UVM_GPU_VA_SPACE_STATE_ACTIVE := by
      intro hact
      obtain ⟨a, b⟩ := h hact
      rw [a, b] at hc
      exact hc rfl
    have h2 := same_context_keys_destroy s ptr hst
    exact ⟨CtxInv_of_same_context_keys h2 hs, states_forward_of_same_context_keys h2⟩

theorem CtxInv_register_locked {s : uvm_va_space_t} (rm : rm_answers_t) {gpu ptr : Nat}
    (hs : CtxInv s) (hr : ∀ i, s.registered_gpus i = true → 0 < i ∧ i < UVM_MAX_PROCESSORS)
    (hinit : (s.gpu_va_space_mem ptr).state = UVM_GPU_VA_SPACE_STATE_INIT)
    (hgpu : (s.gpu_va_space_mem ptr).gpu = gpu)
    (hfreed : (s.gpu_va_space_mem ptr).freed = false)
    (hptr : ptr < s.gpu_va_space_next) :
    CtxInv (register_gpu_va_space_locked s rm gpu ptr).2 ∧
    states_forward s (register_gpu_va_space_locked s rm gpu ptr).2 := by
  have hr0 : ∀ i, s.registered_gpus i = true → 0 < i := fun i hi => (hr i hi).1
  have herr : CtxInv (register_gpu_va_space_error s ptr true) ∧
      states_forward s (register_gpu_va_space_error s ptr true) :=
    CtxInv_register_error hs hr0 (fun hc => by rw [hinit] at hc; cases hc)
  unfold register_gpu_va_space_locked
  simp only
  split_ifs with h1 h2 h3 h4 h5 h6 h7
  · exact herr
  · exact herr
  · exact herr
  · exact herr
  all_goals
    have hreg : s.registered_gpus (s.gpu_va_space_mem ptr).gpu = true := by
      rw [hgpu]
      simpa [uvm_processor_mask_test] using h1
    have hnew : s.registered_gpu_va_spaces (s.gpu_va_space_mem ptr).gpu = false := by
      rw [hgpu]
      simpa [uvm_processor_mask_test] using h2
    have hadd := CtxInv_add hs hr hinit hreg hnew hfreed hptr
    have hfwd := @states_forward_add s ptr hinit
    have hr1 : ∀ i, (add_gpu_va_space s ptr).2.registered_gpus i = true → 0 < i := by
      intro i hi
      rw [(same_topology_add s ptr).1] at hi
      exact hr0 i hi
    have hback : ((add_gpu_va_space s ptr).2.gpu_va_space_mem ptr).state =
        UVM_GPU_VA_SPACE_STATE_ACTIVE →
        true = true ∧ ((add_gpu_va_space s ptr).2.gpu_va_space_mem ptr).va_space = true := by
      intro hact
      rcases add_gpu_va_space_cases s ptr with h | ⟨_, h⟩
      · rw [h.2, hinit] at hact
        cases hact
      · rw [h]
        exact ⟨rfl, congrArg uvm_gpu_va_space_t.va_space (if_pos rfl)⟩
    have herr2 := CtxInv_register_error hadd hr1 hback
  · exact ⟨herr2.1, states_forward_trans hfwd herr2.2⟩
  · exact ⟨herr2.1, states_forward_trans hfwd herr2.2⟩
  · exact ⟨herr2.1, states_forward_trans hfwd herr2.2⟩
  · exact ⟨hadd, hfwd⟩

theorem CtxInv_register_gpu_va_space {g : uvm_global_t} {s : uvm_va_space_t}
    (rm : rm_answers_t) (gpu_uuid : Nat) (hs : CtxInv s)
    (hr : ∀ i, s.registered_gpus i = true → 0 < i ∧ i < UVM_MAX_PROCESSORS) :
    CtxInv (uvm_va_space_register_gpu_va_space g s rm gpu_uuid).2 ∧
    states_forward s (uvm_va_space_register_gpu_va_space g s rm gpu_uuid).2 := by
  unfold uvm_va_space_register_gpu_va_space
  simp only
  split_ifs with h1 h2
  · exact ⟨hs, states_forward_refl s⟩
  · exact ⟨hs, states_forward_refl s⟩
  · have hcreate := CtxInv_create (g := g) (uvm_gpu_retain_by_uuid g gpu_uuid).2 rm hs
    rcases create_gpu_va_space_cases g s (uvm_gpu_retain_by_uuid g gpu_uuid).2 rm with
      ⟨hn, _, _⟩ | hc
    · rw [hn]
      exact hcreate
    · rw [hc] at hcreate ⊢
      simp only at hcreate ⊢
      have hmem : (gpu_va_space_store
          { s with gpu_va_space_next := s.gpu_va_space_next + 1 } s.gpu_va_space_next
          { gpu_va_space_zero with
            gpu := (uvm_gpu_retain_by_uuid g gpu_uuid).2, kref := 1, duped_gpu_va_space := true,
            ats_enabled := rm.atsEnabled, page_tables_root := true,
            big_page_size := rm.bigPageSize,
            did_set_page_directory := true }).gpu_va_space_mem s.gpu_va_space_next =
          { gpu_va_space_zero with
            gpu := (uvm_gpu_retain_by_uuid g gpu_uuid).2, kref := 1, duped_gpu_va_space := true,
            ats_enabled := rm.atsEnabled, page_tables_root := true,
            big_page_size := rm.bigPageSize, did_set_page_directory := true } := if_pos rfl
      have hreg : (gpu_va_space_store
          { s with gpu_va_space_next := s.gpu_va_space_next + 1 } s.gpu_va_space_next
          { gpu_va_space_zero with
            gpu := (uvm_gpu_retain_by_uuid g gpu_uuid).2, kref := 1, duped_gpu_va_space := true,
            ats_enabled := rm.atsEnabled, page_tables_root := true,
            big_page_size := rm.bigPageSize,
            did_set_page_directory := true }).registered_gpus = s.registered_gpus := rfl
      have hnext : s.gpu_va_space_next < (gpu_va_space_store
          { s with gpu_va_space_next := s.gpu_va_space_next + 1 } s.gpu_va_space_next
          { gpu_va_space_zero with
            gpu := (uvm_gpu_retain_by_uuid g gpu_uuid).2, kref := 1, duped_gpu_va_space := true,
            ats_enabled := rm.atsEnabled, page_tables_root := true,
            big_page_size := rm.bigPageSize,
            did_set_page_directory := true }).gpu_va_space_next := Nat.lt_succ_self _
      generalize gpu_va_space_store
          { s with gpu_va_space_next := s.gpu_va_space_next + 1 } s.gpu_va_space_next
          { gpu_va_space_zero with
            gpu := (uvm_gpu_retain_by_uuid g gpu_uuid).2, kref := 1, duped_gpu_va_space := true,
            ats_enabled := rm.atsEnabled, page_tables_root := true,
            big_page_size := rm.bigPageSize,
            did_set_page_directory := true } = s1 at hcreate hmem hreg hnext ⊢
      have hr1 : ∀ i, s1.registered_gpus i = true → 0 < i ∧ i < UVM_MAX_PROCESSORS := by
        rw [hreg]; exact hr
      have hinit : (s1.gpu_va_space_mem s.gpu_va_space_next).state =
          UVM_GPU_VA_SPACE_STATE_INIT := by rw [hmem]; rfl
      split_ifs with h3
      · have herr := @CtxInv_register_error _ _ false hcreate.1
          (fun i hi => (hr1 i hi).1) (fun hc2 => by rw [hinit] at hc2; cases hc2)
        exact ⟨herr.1, states_forward_trans hcreate.2 herr.2⟩
      · have hkeys := same_context_keys_store s1 s.gpu_va_space_next
          { s1.gpu_va_space_mem s.gpu_va_space_next with
            ats_mm := (s1.gpu_va_space_mem s.gpu_va_space_next).ats_enabled }
          rfl rfl rfl rfl rfl (fun h => Or.inl h)
        have hs2 := CtxInv_of_same_context_keys hkeys hcreate.1
        have hmem2 : (gpu_va_space_store s1 s.gpu_va_space_next
            { s1.gpu_va_space_mem s.gpu_va_space_next with
              ats_mm := (s1.gpu_va_space_mem s.gpu_va_space_next).ats_enabled }).gpu_va_space_mem
            s.gpu_va_space_next =
            { s1.gpu_va_space_mem s.gpu_va_space_next with
              ats_mm := (s1.gpu_va_space_mem s.gpu_va_space_next).ats_enabled } := if_pos rfl
        have hlock := @CtxInv_register_locked _ rm (uvm_gpu_retain_by_uuid g gpu_uuid).2
          s.gpu_va_space_next hs2 hr1
          (by rw [hmem2]; exact hinit)
          (by rw [hmem2, hmem])
          (by rw [hmem2, hmem]; rfl)
          hnext
        exact ⟨hlock.1, states_forward_trans hcreate.2
          (states_forward_trans (states_forward_of_same_context_keys hkeys) hlock.2)⟩

theorem same_context_keys_stop_all_channels (s : uvm_va_space_t) (p : Nat) :
    same_context_keys s (gpu_va_space_stop_all_channels s p) :=
  same_context_keys_store s p _ rfl rfl rfl rfl rfl (fun h => Or.inl h)

theorem same_context_keys_unregister_gpu_va_space_begin (g : uvm_global_t)
    (s : uvm_va_space_t) (gpu_uuid : Nat) :
    same_context_keys s (uvm_va_space_unregister_gpu_va_space_begin g s gpu_uuid).2.1 := by
  unfold uvm_va_space_unregister_gpu_va_space_begin
  cases uvm_va_space_get_gpu_by_uuid_with_gpu_va_space g s gpu_uuid with
  | none => exact same_context_keys_refl s
  | some gpu =>
    simp only
    cases uvm_gpu_va_space_get s gpu with
    | none => exact same_context_keys_refl s
    | some p =>
      exact same_context_keys_trans (same_context_keys_stop_all_channels s p)
        (same_context_keys_store _ p _ rfl rfl rfl rfl rfl (fun h => Or.inl h))

theorem CtxInv_unregister_gpu_va_space_finish {s : uvm_va_space_t} (p : Nat) (hs : CtxInv s)
    (hr : ∀ i, s.registered_gpus i = true → 0 < i) :
    CtxInv (uvm_va_space_unregister_gpu_va_space_finish s p).2 ∧
    states_forward s (uvm_va_space_unregister_gpu_va_space_finish s p).2 := by
  unfold uvm_va_space_unregister_gpu_va_space_finish
  simp only
  split_ifs with hdead
  · have hrel := same_context_keys_release s p (by
      unfold uvm_gpu_va_space_state at hdead
      rw [hdead]
      intro hc
      cases hc)
    exact ⟨CtxInv_of_same_context_keys hrel hs, states_forward_of_same_context_keys hrel⟩
  · have h1 := CtxInv_remove (some p) [] hs hr
    have hf1 := states_forward_remove s (some p) []
    have hl := remove_gpu_va_space_list_states s (some p) []
    have hp : ((remove_gpu_va_space s (some p) []).1.gpu_va_space_mem p).state ≠
        UVM_GPU_VA_SPACE_STATE_ACTIVE := by
      have := remove_gpu_va_space_states s p [] p
      unfold uvm_gpu_va_space_state at this
      rw [this]
      split_ifs with hh
      · intro hc2; cases hc2
      · exact fun hc2 => hh ⟨rfl, hc2⟩
    generalize (remove_gpu_va_space s (some p) []).1 = s1 at h1 hf1 hl hp ⊢
    generalize (remove_gpu_va_space s (some p) []).2 = dfl at hl ⊢
    have h2 := same_context_keys_deferred_free dfl s1 (fun q hq => by
      rcases hl q hq with hc | hc
      · cases hc
      · exact hc)
    have h3 := same_context_keys_release (uvm_deferred_free_object_list s1 dfl) p (by
      rw [(h2.2.2.2.2 p).2.1]
      exact hp)
    have h23 := same_context_keys_trans h2 h3
    exact ⟨CtxInv_of_same_context_keys h23 h1,
      states_forward_trans hf1 (states_forward_of_same_context_keys h23)⟩

theorem CtxInv_unregister_gpu {g : uvm_global_t} {s : uvm_va_space_t} {gpu : Nat}
    (l : List uvm_deferred_free_object_t) (hs : CtxInv s)
    (hr : ∀ i, s.registered_gpus i = true → 0 < i) :
    CtxInv (unregister_gpu g s gpu l).1 ∧
    states_forward s (unregister_gpu g s gpu l).1 ∧
    ∀ q, uvm_deferred_free_object_t.gpu_va_space q ∈ (unregister_gpu g s gpu l).2.1 →
      uvm_deferred_free_object_t.gpu_va_space q ∈ l ∨
      ((unregister_gpu g s gpu l).1.gpu_va_space_mem q).state ≠
        UVM_GPU_VA_SPACE_STATE_ACTIVE := by
  have h1 := CtxInv_remove (uvm_gpu_va_space_get s gpu) l hs hr
  have hf1 := states_forward_remove s (uvm_gpu_va_space_get s gpu) l
  have hl := remove_gpu_va_space_list_states s (uvm_gpu_va_space_get s gpu) l
  have hmask : (remove_gpu_va_space s (uvm_gpu_va_space_get s gpu) l).1.registered_gpu_va_spaces
      gpu = false := by
    cases hget : uvm_gpu_va_space_get s gpu with
    | none => exact uvm_gpu_va_space_get_none hs hget
    | some ptr =>
      obtain ⟨_, _, b3, b4⟩ := uvm_gpu_va_space_get_some hs hget
      rw [(remove_gpu_va_space_active l b4).2.1, b3, uvm_processor_mask_clear_apply, if_pos rfl]
  have hreg1 := (same_topology_remove s (uvm_gpu_va_space_get s gpu) l).1
  unfold unregister_gpu
  simp only
  generalize (remove_gpu_va_space s (uvm_gpu_va_space_get s gpu) l).1 = s1
    at h1 hf1 hl hmask hreg1 ⊢
  generalize hdfl : (remove_gpu_va_space s (uvm_gpu_va_space_get s gpu) l).2 ++ _ = dfl
  have hloop := unregister_gpu_peers_loop_ctx_frame gpu
    (for_each_gpu_id_in_mask s1.registered_gpus) s1 dfl uvm_processor_mask_zero
  have hloopreg := (unregister_gpu_peers_loop_guard gpu
    (for_each_gpu_id_in_mask s1.registered_gpus) s1 dfl uvm_processor_mask_zero).1
  obtain ⟨_, ext, hlist⟩ := unregister_gpu_peers_loop_same_contexts gpu
    (for_each_gpu_id_in_mask s1.registered_gpus) s1 dfl uvm_processor_mask_zero
  generalize unregister_gpu_peers_loop gpu (for_each_gpu_id_in_mask s1.registered_gpus) s1 dfl
    uvm_processor_mask_zero = r at hloop hloopreg hlist ⊢
  have hmasks := unregister_gpu_masks_ctx_frame g r.1 gpu
  have hmreg := (unregister_gpu_masks_frame g r.1 gpu).1
  have hframe := ctx_frame_trans hloop hmasks
  refine ⟨CtxInv_of_ctx_frame hframe ?_ h1,
    states_forward_trans hf1 (states_forward_of_ctx_frame hframe), ?_⟩
  · intro i hi
    rw [hmreg, hloopreg, uvm_processor_mask_clear_apply]
    have hig : i ≠ gpu := by
      rintro rfl
      rw [hmask] at hi
      cases hi
    rw [if_neg hig]
    exact h1.registered i hi
  · intro q hq
    rw [hlist, ← hdfl] at hq
    simp only [List.mem_append, List.mem_map] at hq
    rcases hq with (hq | ⟨_, _, hc⟩) | ⟨_, _, hc⟩
    · rcases hl q hq with h | h
      · exact Or.inl h
      · right
        rw [hframe.2.2.1]
        exact h
    · cases hc
    · cases hc

theorem CtxInv_uvm_va_space_unregister_gpu_finish {g : uvm_global_t} {s : uvm_va_space_t}
    (gpu : Nat) (hs : CtxInv s) (hr : ∀ i, s.registered_gpus i = true → 0 < i) :
    CtxInv (uvm_va_space_unregister_gpu_finish g s gpu).2.1 ∧
    states_forward s (uvm_va_space_unregister_gpu_finish g s gpu).2.1 := by
  obtain ⟨h1, hf1, hl⟩ := @CtxInv_unregister_gpu g _ gpu [] hs hr
  unfold uvm_va_space_unregister_gpu_finish
  simp only
  generalize unregister_gpu g s gpu [] = r at h1 hf1 hl ⊢
  have h2 : CtxInv (gpu_unregister_in_progress_clear r.1 gpu) :=
    CtxInv_of_ctx_frame (s := r.1) ⟨rfl, rfl, rfl, rfl, rfl⟩ h1.registered h1
  have h3 := same_context_keys_deferred_free r.2.1 (gpu_unregister_in_progress_clear r.1 gpu)
    (fun q hq => by
      rcases hl q hq with hc | hc
      · cases hc
      · exact hc)
  exact ⟨CtxInv_of_same_context_keys h3 h2,
    states_forward_trans hf1 (states_forward_of_same_context_keys h3)⟩

theorem CtxInv_uvm_va_space_unregister_gpu_begin {g : uvm_global_t} {s : uvm_va_space_t}
    (gpu_uuid : Nat) (hs : CtxInv s) :
    CtxInv (uvm_va_space_unregister_gpu_begin g s gpu_uuid).2.1 ∧
    states_forward s (uvm_va_space_unregister_gpu_begin g s gpu_uuid).2.1 := by
  unfold uvm_va_space_unregister_gpu_begin
  cases uvm_va_space_get_gpu_by_uuid g s gpu_uuid with
  | none => exact ⟨hs, states_forward_refl s⟩
  | some gpu =>
    simp only
    split_ifs
    · exact ⟨hs, states_forward_refl s⟩
    · have hset : CtxInv (gpu_unregister_in_progress_set s gpu) :=
        CtxInv_of_ctx_frame (s := s) ⟨rfl, rfl, rfl, rfl, rfl⟩ hs.registered hs
      have hfwd : states_forward s (gpu_unregister_in_progress_set s gpu) :=
        states_forward_of_mem rfl
      cases uvm_gpu_va_space_get (gpu_unregister_in_progress_set s gpu) gpu with
      | none => exact ⟨hset, hfwd⟩
      | some p =>
        have hk := same_context_keys_stop_all_channels (gpu_unregister_in_progress_set s gpu) p
        exact ⟨CtxInv_of_same_context_keys hk hset,
          states_forward_trans hfwd (states_forward_of_same_context_keys hk)⟩

theorem CtxInv_uvm_va_space_register_gpu {g : uvm_global_t} {s : uvm_va_space_t}
    (gpu_uuid : Nat) (hinv : Inv g s) (hs : CtxInv s) :
    CtxInv (uvm_va_space_register_gpu g s gpu_uuid).2.1 ∧
    states_forward s (uvm_va_space_register_gpu g s gpu_uuid).2.1 := by
  rw [uvm_va_space_register_gpu_state]
  split_ifs with h1 h2 h3 h4 h5
  · exact ⟨hs, states_forward_refl s⟩
  · exact ⟨hs, states_forward_refl s⟩
  · exact ⟨hs, states_forward_refl s⟩
  · exact ⟨hs, states_forward_refl s⟩
  all_goals
    have hret := uvm_gpu_retain_by_uuid_ok (not_not.mp h1)
    generalize (uvm_gpu_retain_by_uuid g gpu_uuid).2 = gpu at hret h2 h5 ⊢
    have hm := register_gpu_masks_TopoInv hret.1 hret.2.1 hinv.1
    have hmf := register_gpu_masks_frame g s gpu
    have hmc := register_gpu_masks_ctx_frame g s gpu
    unfold register_gpu_nvlink_peers at h5 ⊢
    obtain ⟨l1, l2, _⟩ := @register_gpu_nvlink_peers_loop_inv g gpu
      (for_each_gpu_id_in_mask (register_gpu_masks g s gpu).registered_gpus)
      (register_gpu_masks g s gpu) hm
    have hlc := register_gpu_nvlink_peers_loop_ctx_frame g gpu
      (for_each_gpu_id_in_mask (register_gpu_masks g s gpu).registered_gpus)
      (register_gpu_masks g s gpu)
    have hframe := ctx_frame_trans hmc hlc
    have hloop : CtxInv (register_gpu_nvlink_peers_loop g gpu
        (for_each_gpu_id_in_mask (register_gpu_masks g s gpu).registered_gpus)
        (register_gpu_masks g s gpu)).2 := by
      refine CtxInv_of_ctx_frame hframe ?_ hs
      intro i hi
      rw [l2, hmf.1, uvm_processor_mask_set_apply]
      split_ifs
      · rfl
      · exact hs.registered i hi
  · obtain ⟨u1, u2, _⟩ := @CtxInv_unregister_gpu g _ gpu [] hloop
      (fun i hi => (l1.reg_range i hi).1)
    exact ⟨u1, states_forward_trans (states_forward_of_ctx_frame hframe) u2⟩
  · exact ⟨hloop, states_forward_of_ctx_frame hframe⟩

theorem ctx_frame_uvm_api_enable_peer_access (g : uvm_global_t) (s : uvm_va_space_t)
    (gpuUuidA gpuUuidB : Nat) (retain_pcie_status : NV_STATUS) :
    ctx_frame s (uvm_api_enable_peer_access g s gpuUuidA gpuUuidB retain_pcie_status).2 ∧
    (uvm_api_enable_peer_access g s gpuUuidA gpuUuidB retain_pcie_status).2.registered_gpus =
      s.registered_gpus := by
  unfold uvm_api_enable_peer_access
  simp only
  split_ifs
  · exact ⟨ctx_frame_refl s, rfl⟩
  · exact ⟨ctx_frame_refl s, rfl⟩
  · exact ⟨enable_peers_ctx_frame g s _ _, (enable_peers_frame g s _ _).1⟩

theorem ctx_frame_uvm8_test_enable_nvlink_peer_access (g : uvm_global_t) (s : uvm_va_space_t)
    (gpuUuidA gpuUuidB : Nat) :
    ctx_frame s (uvm8_test_enable_nvlink_peer_access g s gpuUuidA gpuUuidB).2 ∧
    (uvm8_test_enable_nvlink_peer_access g s gpuUuidA gpuUuidB).2.registered_gpus =
      s.registered_gpus := by
  unfold uvm8_test_enable_nvlink_peer_access
  simp only
  split_ifs
  · exact ⟨ctx_frame_refl s, rfl⟩
  · exact ⟨ctx_frame_refl s, rfl⟩
  · exact ⟨enable_peers_ctx_frame g s _ _, (enable_peers_frame g s _ _).1⟩

/-- The deferred free list of `disable_peers` holds no device VA context, so that draining
it leaves the contexts as they are. -/
theorem same_context_keys_disable_peers_free (s : uvm_va_space_t) (a b : Nat) :
    same_context_keys s
      (uvm_deferred_free_object_list (disable_peers s a b []).1 (disable_peers s a b []).2) := by
  have h1 := disable_peers_ctx_frame s a b []
  have hreg := (disable_peers_frame s a b []).1
  obtain ⟨ext, hl⟩ := disable_peers_snd s a b []
  have h2 := same_context_keys_deferred_free (disable_peers s a b []).2
    (disable_peers s a b []).1 (fun q hq => by
      rw [hl] at hq
      simp only [List.nil_append, List.mem_map] at hq
      obtain ⟨_, _, hc⟩ := hq
      cases hc)
  refine same_context_keys_trans ?_ h2
  obtain ⟨a1, a2, a3, a4, _⟩ := h1
  refine ⟨a1, a2, a4, hreg, fun q => ?_⟩
  rw [a3]
  exact ⟨rfl, rfl, rfl, rfl, rfl, fun h => Or.inl h⟩

theorem same_context_keys_uvm_api_disable_peer_access (g : uvm_global_t) (s : uvm_va_space_t)
    (gpuUuidA gpuUuidB : Nat) :
    same_context_keys s (uvm_api_disable_peer_access g s gpuUuidA gpuUuidB).2 := by
  unfold uvm_api_disable_peer_access
  cases uvm_va_space_get_gpu_by_uuid g s gpuUuidA with
  | none => exact same_context_keys_refl s
  | some gpu_1 =>
    cases uvm_va_space_get_gpu_by_uuid g s gpuUuidB with
    | none => exact same_context_keys_refl s
    | some gpu_2 =>
      simp only
      split_ifs
      · exact same_context_keys_refl s
      · exact same_context_keys_refl s
      · exact same_context_keys_disable_peers_free s gpu_1 gpu_2

theorem same_context_keys_uvm8_test_disable_nvlink_peer_access (g : uvm_global_t)
    (s : uvm_va_space_t) (gpuUuidA gpuUuidB : Nat) :
    same_context_keys s (uvm8_test_disable_nvlink_peer_access g s gpuUuidA gpuUuidB).2 := by
  unfold uvm8_test_disable_nvlink_peer_access
  cases uvm_va_space_get_gpu_by_uuid g s gpuUuidA with
  | none => exact same_context_keys_refl s
  | some gpu_1 =>
    cases uvm_va_space_get_gpu_by_uuid g s gpuUuidB with
    | none => exact same_context_keys_refl s
    | some gpu_2 =>
      simp only
      split_ifs
      · exact same_context_keys_refl s
      · exact same_context_keys_refl s
      · exact same_context_keys_disable_peers_free s gpu_1 gpu_2

/-- Every operation keeps the invariant of the contexts and moves no lifecycle state back. -/
theorem Step_CtxInv {g : uvm_global_t} {s t : uvm_va_space_t} (hinv : Inv g s)
    (hs : CtxInv s) (hstep : Step g s t) : CtxInv t ∧ states_forward s t := by
  have hr0 : ∀ i, s.registered_gpus i = true → 0 < i := fun i hi => (hinv.1.reg_range i hi).1
  cases hstep with
  | register_gpu gpu_uuid => exact CtxInv_uvm_va_space_register_gpu gpu_uuid hinv hs
  | unregister_gpu_begin gpu_uuid => exact CtxInv_uvm_va_space_unregister_gpu_begin gpu_uuid hs
  | unregister_gpu_finish gpu hguard =>
    exact CtxInv_uvm_va_space_unregister_gpu_finish gpu hs hr0
  | enable_peer_access a b st =>
    obtain ⟨h1, h2⟩ := ctx_frame_uvm_api_enable_peer_access g s a b st
    exact ⟨CtxInv_of_ctx_frame h1 (by rw [h2]; exact hs.registered) hs,
      states_forward_of_ctx_frame h1⟩
  | disable_peer_access a b =>
    have h := same_context_keys_uvm_api_disable_peer_access g s a b
    exact ⟨CtxInv_of_same_context_keys h hs, states_forward_of_same_context_keys h⟩
  | test_enable_nvlink_peer_access a b =>
    obtain ⟨h1, h2⟩ := ctx_frame_uvm8_test_enable_nvlink_peer_access g s a b
    exact ⟨CtxInv_of_ctx_frame h1 (by rw [h2]; exact hs.registered) hs,
      states_forward_of_ctx_frame h1⟩
  | test_disable_nvlink_peer_access a b =>
    have h := same_context_keys_uvm8_test_disable_nvlink_peer_access g s a b
    exact ⟨CtxInv_of_same_context_keys h hs, states_forward_of_same_context_keys h⟩
  | register_gpu_va_space rm gpu_uuid =>
    exact CtxInv_register_gpu_va_space rm gpu_uuid hs hinv.1.reg_range
  | unregister_gpu_va_space_begin gpu_uuid =>
    have h := same_context_keys_unregister_gpu_va_space_begin g s gpu_uuid
    exact ⟨CtxInv_of_same_context_keys h hs, states_forward_of_same_context_keys h⟩
  | unregister_gpu_va_space_finish p hptr =>
    exact CtxInv_unregister_gpu_va_space_finish p hs hr0
  | va_ranges_change va_ranges =>
    exact ⟨CtxInv_of_ctx_frame (s := s) ⟨rfl, rfl, rfl, rfl, rfl⟩ hs.registered hs,
      states_forward_of_mem rfl⟩
  | mm_shutdown =>
    exact ⟨CtxInv_of_ctx_frame (s := s) ⟨rfl, rfl, rfl, rfl, rfl⟩ hs.registered hs,
      states_forward_of_mem rfl⟩

theorem uvm_va_space_create_CtxInv {s : uvm_va_space_t} {alloc_ok : Bool}
    {s1 s2 s3 : NV_STATUS} (h : uvm_va_space_create alloc_ok s1 s2 s3 = (NV_OK, some s)) :
    CtxInv s := by
  unfold uvm_va_space_create at h
  simp only at h
  split_ifs at h <;> cases h
  refine ⟨?_, ?_, ?_, ?_, ?_, ?_, ?_⟩
  · intro i hi; cases hi
  · intro i hi; cases hi
  · intro p hp; cases hp
  · intro i _ _; rfl
  · intro p _; rfl
  · intro i j a b hi; cases hi
  · intro p hp; cases hp

theorem Reachable_Step {g : uvm_global_t} {s t : uvm_va_space_t} (h : Reachable g s)
    (hstep : Step g s t) : Reachable g t := by
  cases hstep with
  | register_gpu gpu_uuid => exact Reachable.register_gpu s gpu_uuid h
  | unregister_gpu_begin gpu_uuid => exact Reachable.unregister_gpu_begin s gpu_uuid h
  | unregister_gpu_finish gpu hguard => exact Reachable.unregister_gpu_finish s gpu h hguard
  | enable_peer_access a b st => exact Reachable.enable_peer_access s a b st h
  | disable_peer_access a b => exact Reachable.disable_peer_access s a b h
  | test_enable_nvlink_peer_access a b => exact Reachable.test_enable_nvlink_peer_access s a b h
  | test_disable_nvlink_peer_access a b =>
    exact Reachable.test_disable_nvlink_peer_access s a b h
  | register_gpu_va_space rm gpu_uuid => exact Reachable.register_gpu_va_space s rm gpu_uuid h
  | unregister_gpu_va_space_begin gpu_uuid =>
    exact Reachable.unregister_gpu_va_space_begin s gpu_uuid h
  | unregister_gpu_va_space_finish p hptr =>
    exact Reachable.unregister_gpu_va_space_finish s p h hptr
  | va_ranges_change va_ranges => exact Reachable.va_ranges_change s va_ranges h
  | mm_shutdown => exact Reachable.mm_shutdown s h

/-- Every reachable address space satisfies the invariant of the contexts. -/
theorem Reachable_CtxInv {g : uvm_global_t} {s : uvm_va_space_t} (h : Reachable g s) :
    CtxInv s := by
  induction h with
  | create s1 s2 s3 va_space h => exact uvm_va_space_create_CtxInv h
  | register_gpu va_space gpu_uuid h ih =>
    exact (Step_CtxInv (Reachable_Inv h) ih (Step.register_gpu va_space gpu_uuid)).1
  | unregister_gpu_begin va_space gpu_uuid h ih =>
    exact (Step_CtxInv (Reachable_Inv h) ih (Step.unregister_gpu_begin va_space gpu_uuid)).1
  | unregister_gpu_finish va_space gpu h hguard ih =>
    exact (Step_CtxInv (Reachable_Inv h) ih (Step.unregister_gpu_finish va_space gpu hguard)).1
  | enable_peer_access va_space a b st h ih =>
    exact (Step_CtxInv (Reachable_Inv h) ih (Step.enable_peer_access va_space a b st)).1
  | disable_peer_access va_space a b h ih =>
    exact (Step_CtxInv (Reachable_Inv h) ih (Step.disable_peer_access va_space a b)).1
  | test_enable_nvlink_peer_access va_space a b h ih =>
    exact (Step_CtxInv (Reachable_Inv h) ih
      (Step.test_enable_nvlink_peer_access va_space a b)).1
  | test_disable_nvlink_peer_access va_space a b h ih =>
    exact (Step_CtxInv (Reachable_Inv h) ih
      (Step.test_disable_nvlink_peer_access va_space a b)).1
  | register_gpu_va_space va_space rm gpu_uuid h ih =>
    exact (Step_CtxInv (Reachable_Inv h) ih (Step.register_gpu_va_space va_space rm gpu_uuid)).1
  | unregister_gpu_va_space_begin va_space gpu_uuid h ih =>
    exact (Step_CtxInv (Reachable_Inv h) ih
      (Step.unregister_gpu_va_space_begin va_space gpu_uuid)).1
  | unregister_gpu_va_space_finish va_space p h hptr ih =>
    exact (Step_CtxInv (Reachable_Inv h) ih
      (Step.unregister_gpu_va_space_finish va_space p hptr)).1
  | va_ranges_change va_space va_ranges h ih =>
    exact (Step_CtxInv (Reachable_Inv h) ih (Step.va_ranges_change va_space va_ranges)).1
  | mm_shutdown va_space h ih =>
    exact (Step_CtxInv (Reachable_Inv h) ih (Step.mm_shutdown va_space)).1

/-! ## Lemmas: what a failed registration of a device VA context leaves behind -/

theorem same_contexts_but_refl (p : Nat) (s : uvm_va_space_t) : same_contexts_but p s s :=
  ⟨rfl, rfl, rfl, fun _ _ => rfl⟩

theorem same_contexts_but_trans {p : Nat} {s t u : uvm_va_space_t}
    (h1 : same_contexts_but p s t) (h2 : same_contexts_but p t u) : same_contexts_but p s u :=
  ⟨h2.1.trans h1.1, h2.2.1.trans h1.2.1, h2.2.2.1.trans h1.2.2.1,
    fun q hq => (h2.2.2.2 q hq).trans (h1.2.2.2 q hq)⟩

theorem same_contexts_but_store (s : uvm_va_space_t) (p : Nat) (obj : uvm_gpu_va_space_t) :
    same_contexts_but p s (gpu_va_space_store s p obj) :=
  ⟨rfl, rfl, rfl, fun _ hq => if_neg hq⟩

theorem gpu_va_space_store_mem_self (s : uvm_va_space_t) (p : Nat) (obj : uvm_gpu_va_space_t) :
    (gpu_va_space_store s p obj).gpu_va_space_mem p = obj := if_pos rfl

theorem uvm_gpu_va_space_release_mem (s : uvm_va_space_t) (p : Nat) :
    (uvm_gpu_va_space_release s (some p)).gpu_va_space_mem p =
      { s.gpu_va_space_mem p with
        kref := (s.gpu_va_space_mem p).kref - 1
        freed := if (s.gpu_va_space_mem p).kref - 1 = 0 then true
          else (s.gpu_va_space_mem p).freed } := by
  unfold uvm_gpu_va_space_release
  simp only
  rw [gpu_va_space_store_mem_self]
  split_ifs <;> rfl

/-- What `destroy_gpu_va_space` changes: the counters of calls, the reference count and the
freed mark of the object, and the counter of pending destructions for a DEAD object. -/
theorem destroy_gpu_va_space_frame (s : uvm_va_space_t) (p : Nat) :
    (destroy_gpu_va_space s (some p)).registered_gpu_va_spaces = s.registered_gpu_va_spaces ∧
    (destroy_gpu_va_space s (some p)).gpu_va_spaces = s.gpu_va_spaces ∧
    (destroy_gpu_va_space s (some p)).num_pending =
      (if (s.gpu_va_space_mem p).state = UVM_GPU_VA_SPACE_STATE_DEAD then s.num_pending - 1
        else s.num_pending) ∧
    (∀ q, q ≠ p → (destroy_gpu_va_space s (some p)).gpu_va_space_mem q =
      s.gpu_va_space_mem q) ∧
    ((destroy_gpu_va_space s (some p)).gpu_va_space_mem p).state =
      (s.gpu_va_space_mem p).state ∧
    ((destroy_gpu_va_space s (some p)).gpu_va_space_mem p).kref =
      (s.gpu_va_space_mem p).kref - 1 ∧
    ((destroy_gpu_va_space s (some p)).gpu_va_space_mem p).freed =
      (if (s.gpu_va_space_mem p).kref - 1 = 0 then true else (s.gpu_va_space_mem p).freed) := by
  obtain ⟨obj, u, ⟨_, o2, _, _, _, o6, o7⟩, ⟨u1, u2, _, _, u5, u6⟩, heq⟩ :=
    destroy_gpu_va_space_shape s p
  rw [heq]
  have hup : u.gpu_va_space_mem p = obj := by
    rw [u5]
    exact gpu_va_space_store_mem_self s p obj
  refine ⟨u1, u2, u6, ?_, ?_, ?_, ?_⟩
  · intro q hq
    have h1 : (uvm_gpu_va_space_release u (some p)).gpu_va_space_mem q =
        u.gpu_va_space_mem q := if_neg hq
    rw [h1, u5]
    exact if_neg hq
  · rw [uvm_gpu_va_space_release_mem, hup]
    exact o2
  · rw [uvm_gpu_va_space_release_mem, hup]
    exact congrArg (fun k => k - 1) o7
  · rw [uvm_gpu_va_space_release_mem, hup]
    show (if obj.kref - 1 = 0 then true else obj.freed) = _
    rw [o6, o7]

theorem same_contexts_but_destroy (s : uvm_va_space_t) (p : Nat)
    (h : (s.gpu_va_space_mem p).state ≠ UVM_GPU_VA_SPACE_STATE_DEAD) :
    same_contexts_but p s (destroy_gpu_va_space s (some p)) := by
  obtain ⟨d1, d2, d3, d4, _⟩ := destroy_gpu_va_space_frame s p
  rw [if_neg h] at d3
  exact ⟨d1, d2, d3, d4⟩

/-- What `remove_gpu_va_space` does to the fields of the address space for an ACTIVE
context. -/
theorem remove_gpu_va_space_active_fields (s : uvm_va_space_t) (ptr : Nat)
    (l : List uvm_deferred_free_object_t)
    (h : uvm_gpu_va_space_state s ptr = UVM_GPU_VA_SPACE_STATE_ACTIVE) :
    (remove_gpu_va_space s (some ptr) l).1.registered_gpu_va_spaces =
      uvm_processor_mask_clear s.registered_gpu_va_spaces (s.gpu_va_space_mem ptr).gpu ∧
    (remove_gpu_va_space s (some ptr) l).1.gpu_va_spaces =
      (fun i => if i = uvm_gpu_index (s.gpu_va_space_mem ptr).gpu then none
        else s.gpu_va_spaces i) ∧
    (remove_gpu_va_space s (some ptr) l).1.num_pending = s.num_pending + 1 ∧
    (∀ q, q ≠ ptr → (remove_gpu_va_space s (some ptr) l).1.gpu_va_space_mem q =
      s.gpu_va_space_mem q) ∧
    (remove_gpu_va_space s (some ptr) l).1.gpu_va_space_mem ptr =
      { s.gpu_va_space_mem ptr with
        registered_channels := [], state := UVM_GPU_VA_SPACE_STATE_DEAD } := by
  rw [remove_gpu_va_space_fst_active s ptr l h]
  exact ⟨rfl, rfl, rfl, fun q hq => if_neg hq, if_pos rfl⟩

/-- What `add_gpu_va_space` does to the fields of the address space when it succeeds. -/
theorem add_gpu_va_space_fields {s : uvm_va_space_t} {ptr : Nat}
    (h : (add_gpu_va_space s ptr).1 = NV_OK) :
    (add_gpu_va_space s ptr).2.registered_gpu_va_spaces =
      uvm_processor_mask_set s.registered_gpu_va_spaces (s.gpu_va_space_mem ptr).gpu ∧
    (add_gpu_va_space s ptr).2.gpu_va_spaces =
      (fun i => if i = uvm_gpu_index (s.gpu_va_space_mem ptr).gpu then some ptr
        else s.gpu_va_spaces i) ∧
    (add_gpu_va_space s ptr).2.num_pending = s.num_pending ∧
    (∀ q, q ≠ ptr → (add_gpu_va_space s ptr).2.gpu_va_space_mem q = s.gpu_va_space_mem q) ∧
    (add_gpu_va_space s ptr).2.gpu_va_space_mem ptr =
      { s.gpu_va_space_mem ptr with
        va_space := true, state := UVM_GPU_VA_SPACE_STATE_ACTIVE } ∧
    (add_gpu_va_space s ptr).2.va_ranges = s.va_ranges := by
  rcases add_gpu_va_space_cases s ptr with hf | ⟨_, heq⟩
  · exact absurd h hf.1
  · rw [heq]
    exact ⟨rfl, rfl, rfl, fun q hq => if_neg hq, if_pos rfl, rfl⟩

/-- The error path of the registration for a context that was not added: the context is
destroyed in the INIT state and nothing else changes. -/
theorem register_gpu_va_space_error_fresh (s : uvm_va_space_t) (ptr : Nat) (locked : Bool)
    (hinit : (s.gpu_va_space_mem ptr).state = UVM_GPU_VA_SPACE_STATE_INIT)
    (hback : (s.gpu_va_space_mem ptr).va_space = false) :
    same_contexts_but ptr s (register_gpu_va_space_error s ptr locked) ∧
    ((register_gpu_va_space_error s ptr locked).gpu_va_space_mem ptr).state =
      UVM_GPU_VA_SPACE_STATE_INIT ∧
    register_gpu_va_space_error s ptr locked = destroy_gpu_va_space s (some ptr) := by
  have heq : register_gpu_va_space_error s ptr locked = destroy_gpu_va_space s (some ptr) := by
    unfold register_gpu_va_space_error
    simp only [hback, Bool.and_false, Bool.false_eq_true, if_false]
  rw [heq]
  refine ⟨same_contexts_but_destroy s ptr (by rw [hinit]; intro hc; cases hc), ?_, rfl⟩
  rw [(destroy_gpu_va_space_frame s ptr).2.2.2.2.1]
  exact hinit

/-- The error path of the registration for a context that was added: the context is removed
and destroyed, which gives back the mask, the array and the counter of before the add and
leaves the context DEAD. -/
theorem register_gpu_va_space_error_added {s : uvm_va_space_t} {ptr : Nat}
    (hadd : (add_gpu_va_space s ptr).1 = NV_OK)
    (hnew : s.registered_gpu_va_spaces (s.gpu_va_space_mem ptr).gpu = false)
    (hslot : s.gpu_va_spaces (uvm_gpu_index (s.gpu_va_space_mem ptr).gpu) = none) :
    same_contexts_but ptr s (register_gpu_va_space_error (add_gpu_va_space s ptr).2 ptr true) ∧
    ((register_gpu_va_space_error (add_gpu_va_space s ptr).2 ptr true).gpu_va_space_mem
      ptr).state = UVM_GPU_VA_SPACE_STATE_DEAD := by
  obtain ⟨a1, a2, a3, a4, a5, _⟩ := add_gpu_va_space_fields hadd
  generalize (add_gpu_va_space s ptr).2 = t at a1 a2 a3 a4 a5
  have hact : uvm_gpu_va_space_state t ptr = UVM_GPU_VA_SPACE_STATE_ACTIVE := by
    unfold uvm_gpu_va_space_state
    rw [a5]
  have hgpu : (t.gpu_va_space_mem ptr).gpu = (s.gpu_va_space_mem ptr).gpu := by rw [a5]
  obtain ⟨r1, r2, r3, r4, r5⟩ := remove_gpu_va_space_active_fields t ptr [] hact
  rw [hgpu] at r1 r2
  have heq : register_gpu_va_space_error t ptr true =
      destroy_gpu_va_space (remove_gpu_va_space t (some ptr) []).1 (some ptr) := by
    unfold register_gpu_va_space_error
    have : (t.gpu_va_space_mem ptr).va_space = true := by rw [a5]
    simp only [this, Bool.and_self, if_true]
  rw [heq]
  generalize (remove_gpu_va_space t (some ptr) []).1 = u at r1 r2 r3 r4 r5
  have hdead : (u.gpu_va_space_mem ptr).state = UVM_GPU_VA_SPACE_STATE_DEAD := by rw [r5]
  obtain ⟨d1, d2, d3, d4, d5, _⟩ := destroy_gpu_va_space_frame u ptr
  rw [if_pos hdead] at d3
  refine ⟨⟨?_, ?_, ?_, ?_⟩, ?_⟩
  · rw [d1, r1, a1]
    funext i
    rw [uvm_processor_mask_clear_apply, uvm_processor_mask_set_apply]
    split_ifs with hi
    · rw [hi, hnew]
    · rfl
  · rw [d2, r2, a2]
    funext i
    simp only
    split_ifs with hi
    · rw [hi, hslot]
    · rfl
  · rw [d3, r3, a3]
    omega
  · intro q hq
    rw [d4 q hq, r4 q hq, a4 q hq]
  · rw [d5]
    exact hdead

theorem same_contexts_but_alloc (s : uvm_va_space_t) (obj : uvm_gpu_va_space_t) :
    same_contexts_but s.gpu_va_space_next s
      (gpu_va_space_store { s with gpu_va_space_next := s.gpu_va_space_next + 1 }
        s.gpu_va_space_next obj) :=
  ⟨rfl, rfl, rfl, fun _ hq => if_neg hq⟩

/-- What a successful `create_gpu_va_space` returns. -/
theorem create_gpu_va_space_ok {g : uvm_global_t} {s s1 : uvm_va_space_t} {gpu ptr : Nat}
    {rm : rm_answers_t} (h : create_gpu_va_space g s gpu rm = (NV_OK, s1, some ptr)) :
    ptr = s.gpu_va_space_next ∧
    s1 = gpu_va_space_store { s with gpu_va_space_next := s.gpu_va_space_next + 1 }
      s.gpu_va_space_next
      { gpu_va_space_zero with
        gpu := gpu, kref := 1, duped_gpu_va_space := true, ats_enabled := rm.atsEnabled,
        page_tables_root := true, big_page_size := rm.bigPageSize,
        did_set_page_directory := true } := by
  rcases create_gpu_va_space_cases g s gpu rm with ⟨hn, _, _⟩ | hc
  · rw [h] at hn
    cases hn
  · rw [h] at hc
    simp only [Prod.mk.injEq, Option.some.injEq, true_and] at hc
    exact ⟨hc.2, hc.1⟩

theorem uvm_va_space_register_gpu_va_space_of_created {g : uvm_global_t}
    {s s1 : uvm_va_space_t} {rm : rm_answers_t} {gpu_uuid gpu ptr : Nat}
    (hret : uvm_gpu_retain_by_uuid g gpu_uuid = (NV_OK, gpu))
    (hcreate : create_gpu_va_space g s gpu rm = (NV_OK, s1, some ptr)) :
    uvm_va_space_register_gpu_va_space g s rm gpu_uuid =
      if ((s1.gpu_va_space_mem ptr).ats_enabled && rm.ats_mm_retain_status ≠ NV_OK) = true then
        (rm.ats_mm_retain_status, register_gpu_va_space_error s1 ptr false)
      else
        register_gpu_va_space_locked
          (gpu_va_space_store s1 ptr
            { s1.gpu_va_space_mem ptr with ats_mm := (s1.gpu_va_space_mem ptr).ats_enabled })
          rm gpu ptr := by
  unfold uvm_va_space_register_gpu_va_space
  simp only [hret, hcreate, ne_eq, not_true_eq_false, if_false]

theorem uvm_va_space_register_gpu_va_space_of_not_created {g : uvm_global_t}
    {s : uvm_va_space_t} {rm : rm_answers_t} {gpu_uuid gpu : Nat}
    (hret : uvm_gpu_retain_by_uuid g gpu_uuid = (NV_OK, gpu))
    (hcreate : (create_gpu_va_space g s gpu rm).2.2 = none) :
    uvm_va_space_register_gpu_va_space g s rm gpu_uuid =
      ((create_gpu_va_space g s gpu rm).1, (create_gpu_va_space g s gpu rm).2.1) := by
  unfold uvm_va_space_register_gpu_va_space
  simp only [hret, hcreate, ne_eq, not_true_eq_false, if_false]

theorem register_gpu_va_space_locked_refused {s : uvm_va_space_t} (rm : rm_answers_t)
    {gpu : Nat} (ptr : Nat)
    (h : s.registered_gpus gpu = false ∨ s.registered_gpu_va_spaces gpu = true) :
    register_gpu_va_space_locked s rm gpu ptr =
      (NV_ERR_INVALID_DEVICE, register_gpu_va_space_error s ptr true) := by
  unfold register_gpu_va_space_locked uvm_processor_mask_test
  cases h1 : s.registered_gpus gpu with
  | false => simp
  | true =>
    rcases h with h | h
    · rw [h1] at h; cases h
    · simp [h]

/-- A failed run of the locked part of the registration, for a fresh context: the mask of
the devices with a context, the array of the contexts, the counter of pending destructions
and every other object are what they were, and the context is not ACTIVE. -/
theorem register_gpu_va_space_locked_failed {s : uvm_va_space_t} {rm : rm_answers_t}
    {gpu ptr : Nat} (hs : CtxInv s) (hr : ∀ i, s.registered_gpus i = true → 0 < i)
    (hinit : (s.gpu_va_space_mem ptr).state = UVM_GPU_VA_SPACE_STATE_INIT)
    (hgpu : (s.gpu_va_space_mem ptr).gpu = gpu)
    (hback : (s.gpu_va_space_mem ptr).va_space = false)
    (hfail : (register_gpu_va_space_locked s rm gpu ptr).1 ≠ NV_OK) :
    same_contexts_but ptr s (register_gpu_va_space_locked s rm gpu ptr).2 ∧
    ((register_gpu_va_space_locked s rm gpu ptr).2.gpu_va_space_mem ptr).state ≠
      UVM_GPU_VA_SPACE_STATE_ACTIVE := by
  have hfresh := register_gpu_va_space_error_fresh s ptr true hinit hback
  have hfresh2 : same_contexts_but ptr s (register_gpu_va_space_error s ptr true) ∧
      ((register_gpu_va_space_error s ptr true).gpu_va_space_mem ptr).state ≠
        UVM_GPU_VA_SPACE_STATE_ACTIVE :=
    ⟨hfresh.1, by rw [hfresh.2.1]; intro hc; cases hc⟩
  unfold register_gpu_va_space_locked at hfail ⊢
  simp only at hfail ⊢
  split_ifs at hfail ⊢ with h1 h2 h3 h4 h5 h6 h7
  · exact hfresh2
  · exact hfresh2
  · exact hfresh2
  · exact hfresh2
  · rcases add_gpu_va_space_cases s ptr with h | ⟨_, h⟩
    · rw [h.2]
      exact hfresh2
    · rw [h] at h5
      exact absurd rfl h5
  all_goals
    have hreg : s.registered_gpus gpu = true := by
      simpa [uvm_processor_mask_test] using h1
    have hnew : s.registered_gpu_va_spaces (s.gpu_va_space_mem ptr).gpu = false := by
      rw [hgpu]
      simpa [uvm_processor_mask_test] using h2
    have hslot : s.gpu_va_spaces (uvm_gpu_index (s.gpu_va_space_mem ptr).gpu) = none := by
      rw [hgpu] at hnew ⊢
      exact hs.empty gpu (hr gpu hreg) hnew
    have hadded := register_gpu_va_space_error_added (not_not.mp h5) hnew hslot
  · exact ⟨hadded.1, by rw [hadded.2]; intro hc; cases hc⟩
  · exact ⟨hadded.1, by rw [hadded.2]; intro hc; cases hc⟩
  · exact absurd rfl hfail

/-- A failed `uvm_va_space_register_gpu_va_space` registers no context: the mask of the
devices with a context, the array of the contexts, the counter of pending destructions and
every object that existed before are what they were, and the object at the next address is
not ACTIVE. -/
theorem uvm_va_space_register_gpu_va_space_failed {g : uvm_global_t} {s : uvm_va_space_t}
    (rm : rm_answers_t) (gpu_uuid : Nat) (hs : CtxInv s)
    (hr : ∀ i, s.registered_gpus i = true → 0 < i)
    (hfail : (uvm_va_space_register_gpu_va_space g s rm gpu_uuid).1 ≠ NV_OK) :
    same_contexts_but s.gpu_va_space_next s
      (uvm_va_space_register_gpu_va_space g s rm gpu_uuid).2 ∧
    ((uvm_va_space_register_gpu_va_space g s rm gpu_uuid).2.gpu_va_space_mem
      s.gpu_va_space_next).state ≠ UVM_GPU_VA_SPACE_STATE_ACTIVE := by
  have hnot : (s.gpu_va_space_mem s.gpu_va_space_next).state ≠
      UVM_GPU_VA_SPACE_STATE_ACTIVE := by
    rw [hs.fresh _ le_rfl]
    intro hc
    cases hc
  by_cases hret : (uvm_gpu_retain_by_uuid g gpu_uuid).1 = NV_OK
  swap
  · have : (uvm_va_space_register_gpu_va_space g s rm gpu_uuid).2 = s := by
      unfold uvm_va_space_register_gpu_va_space
      simp only [hret, ne_eq, not_false_eq_true, if_true]
      split_ifs <;> rfl
    rw [this]
    exact ⟨same_contexts_but_refl _ s, hnot⟩
  have hret2 : uvm_gpu_retain_by_uuid g gpu_uuid =
      (NV_OK, (uvm_gpu_retain_by_uuid g gpu_uuid).2) := by
    rw [← hret]
  generalize (uvm_gpu_retain_by_uuid g gpu_uuid).2 = gpu at hret2
  rcases create_gpu_va_space_cases g s gpu rm with ⟨hn, _, hc | ⟨obj, hobj, _, _, _, hc⟩⟩ | hc
  · rw [uvm_va_space_register_gpu_va_space_of_not_created hret2 hn, hc]
    exact ⟨same_contexts_but_refl _ s, hnot⟩
  · rw [uvm_va_space_register_gpu_va_space_of_not_created hret2 hn, hc]
    have hmem := gpu_va_space_store_mem_self
      { s with gpu_va_space_next := s.gpu_va_space_next + 1 } s.gpu_va_space_next obj
    have halloc := same_contexts_but_alloc s obj
    generalize gpu_va_space_store { s with gpu_va_space_next := s.gpu_va_space_next + 1 }
      s.gpu_va_space_next obj = s1 at hmem halloc ⊢
    have hd := same_contexts_but_destroy s1 s.gpu_va_space_next
      (by rw [hmem, hobj]; intro hc2; cases hc2)
    refine ⟨same_contexts_but_trans halloc hd, ?_⟩
    rw [(destroy_gpu_va_space_frame s1 s.gpu_va_space_next).2.2.2.2.1, hmem, hobj]
    intro hc2
    cases hc2
  · rw [uvm_va_space_register_gpu_va_space_of_created hret2 hc] at hfail ⊢
    have hs1 := (CtxInv_create (g := g) gpu rm hs).1
    rw [hc] at hs1
    simp only at hs1
    have hmem := gpu_va_space_store_mem_self
      { s with gpu_va_space_next := s.gpu_va_space_next + 1 } s.gpu_va_space_next
      { gpu_va_space_zero with
        gpu := gpu, kref := 1, duped_gpu_va_space := true, ats_enabled := rm.atsEnabled,
        page_tables_root := true, big_page_size := rm.bigPageSize,
        did_set_page_directory := true }
    have halloc := same_contexts_but_alloc s
      { gpu_va_space_zero with
        gpu := gpu, kref := 1, duped_gpu_va_space := true, ats_enabled := rm.atsEnabled,
        page_tables_root := true, big_page_size := rm.bigPageSize,
        did_set_page_directory := true }
    have hreg : (gpu_va_space_store
        { s with gpu_va_space_next := s.gpu_va_space_next + 1 } s.gpu_va_space_next
        { gpu_va_space_zero with
          gpu := gpu, kref := 1, duped_gpu_va_space := true, ats_enabled := rm.atsEnabled,
          page_tables_root := true, big_page_size := rm.bigPageSize,
          did_set_page_directory := true }).registered_gpus = s.registered_gpus := rfl
    generalize gpu_va_space_store
        { s with gpu_va_space_next := s.gpu_va_space_next + 1 } s.gpu_va_space_next
        { gpu_va_space_zero with
          gpu := gpu, kref := 1, duped_gpu_va_space := true, ats_enabled := rm.atsEnabled,
          page_tables_root := true, big_page_size := rm.bigPageSize,
          did_set_page_directory := true } = s1 at hfail hs1 hmem halloc hreg ⊢
    have hinit : (s1.gpu_va_space_mem s.gpu_va_space_next).state =
        UVM_GPU_VA_SPACE_STATE_INIT := by rw [hmem]; rfl
    have hback : (s1.gpu_va_space_mem s.gpu_va_space_next).va_space = false := by
      rw [hmem]; rfl
    split_ifs at hfail ⊢ with h3
    · obtain ⟨e1, e2, _⟩ := register_gpu_va_space_error_fresh s1 s.gpu_va_space_next false
        hinit hback
      exact ⟨same_contexts_but_trans halloc e1, by rw [e2]; intro hc2; cases hc2⟩
    · have hkeys := same_context_keys_store s1 s.gpu_va_space_next
        { s1.gpu_va_space_mem s.gpu_va_space_next with
          ats_mm := (s1.gpu_va_space_mem s.gpu_va_space_next).ats_enabled }
        rfl rfl rfl rfl rfl (fun h => Or.inl h)
      have hs2 := CtxInv_of_same_context_keys hkeys hs1
      have hstore := same_contexts_but_store s1 s.gpu_va_space_next
        { s1.gpu_va_space_mem s.gpu_va_space_next with
          ats_mm := (s1.gpu_va_space_mem s.gpu_va_space_next).ats_enabled }
      have hmem2 := gpu_va_space_store_mem_self s1 s.gpu_va_space_next
        { s1.gpu_va_space_mem s.gpu_va_space_next with
          ats_mm := (s1.gpu_va_space_mem s.gpu_va_space_next).ats_enabled }
      have hlock := @register_gpu_va_space_locked_failed _ rm gpu
        s.gpu_va_space_next hs2 (by rw [← hreg] at hr; exact hr)
        (by rw [hmem2]; exact hinit) (by rw [hmem2, hmem]) (by rw [hmem2]; exact hback) hfail
      exact ⟨same_contexts_but_trans halloc (same_contexts_but_trans hstore hlock.1), hlock.2⟩

/-! ## Lemmas: the refusals of the registration of a device VA context -/

/-- For a device that is not registered, or that has a context, the registration fails: with
the status of the creation or of the ATS mm retain when one of them fails, with
`NV_ERR_INVALID_DEVICE` otherwise. -/
theorem uvm_va_space_register_gpu_va_space_refused {g : uvm_global_t} {s : uvm_va_space_t}
    (rm : rm_answers_t) {gpu_uuid gpu : Nat}
    (hret : uvm_gpu_retain_by_uuid g gpu_uuid = (NV_OK, gpu))
    (hpre : s.registered_gpus gpu = false ∨ s.registered_gpu_va_spaces gpu = true) :
    (uvm_va_space_register_gpu_va_space g s rm gpu_uuid).1 ≠ NV_OK ∧
    ((create_gpu_va_space g s gpu rm).1 = NV_OK →
      (rm.atsEnabled = true → rm.ats_mm_retain_status = NV_OK) →
      (uvm_va_space_register_gpu_va_space g s rm gpu_uuid).1 = NV_ERR_INVALID_DEVICE) := by
  rcases create_gpu_va_space_cases g s gpu rm with ⟨hn, hst, _⟩ | hc
  · rw [uvm_va_space_register_gpu_va_space_of_not_created hret hn]
    exact ⟨hst, fun hok => absurd hok hst⟩
  · rw [uvm_va_space_register_gpu_va_space_of_created hret hc]
    have hmem := gpu_va_space_store_mem_self
      { s with gpu_va_space_next := s.gpu_va_space_next + 1 } s.gpu_va_space_next
      { gpu_va_space_zero with
        gpu := gpu, kref := 1, duped_gpu_va_space := true, ats_enabled := rm.atsEnabled,
        page_tables_root := true, big_page_size := rm.bigPageSize,
        did_set_page_directory := true }
    rw [hmem]
    have hlock := @register_gpu_va_space_locked_refused (gpu_va_space_store
      (gpu_va_space_store { s with gpu_va_space_next := s.gpu_va_space_next + 1 }
        s.gpu_va_space_next
        { gpu_va_space_zero with
          gpu := gpu, kref := 1, duped_gpu_va_space := true, ats_enabled := rm.atsEnabled,
          page_tables_root := true, big_page_size := rm.bigPageSize,
          did_set_page_directory := true })
      s.gpu_va_space_next
      { ({ gpu_va_space_zero with
          gpu := gpu, kref := 1, duped_gpu_va_space := true, ats_enabled := rm.atsEnabled,
          page_tables_root := true, big_page_size := rm.bigPageSize,
          did_set_page_directory := true } : uvm_gpu_va_space_t) with
        ats_mm := rm.atsEnabled }) rm gpu s.gpu_va_space_next hpre
    split_ifs with h3
    · simp only [Bool.and_eq_true, decide_eq_true_eq] at h3
      exact ⟨h3.2, fun _ hats => absurd (hats h3.1) h3.2⟩
    · rw [hlock]
      exact ⟨(by intro hc2; cases hc2), fun _ _ => rfl⟩

/-- When the creation of the context or the retain of its ATS mm fails, the registration
returns the status of the step that failed. -/
theorem uvm_va_space_register_gpu_va_space_failed_step {g : uvm_global_t}
    {s : uvm_va_space_t} (rm : rm_answers_t) {gpu_uuid gpu : Nat}
    (hret : uvm_gpu_retain_by_uuid g gpu_uuid = (NV_OK, gpu)) :
    ((create_gpu_va_space g s gpu rm).1 ≠ NV_OK →
      (uvm_va_space_register_gpu_va_space g s rm gpu_uuid).1 =
        (create_gpu_va_space g s gpu rm).1) ∧
    ((create_gpu_va_space g s gpu rm).1 = NV_OK → rm.atsEnabled = true →
      rm.ats_mm_retain_status ≠ NV_OK →
      (uvm_va_space_register_gpu_va_space g s rm gpu_uuid).1 = rm.ats_mm_retain_status) := by
  rcases create_gpu_va_space_cases g s gpu rm with ⟨hn, hst, _⟩ | hc
  · rw [uvm_va_space_register_gpu_va_space_of_not_created hret hn]
    exact ⟨fun _ => rfl, fun hok => absurd hok hst⟩
  · rw [uvm_va_space_register_gpu_va_space_of_created hret hc]
    have hmem := gpu_va_space_store_mem_self
      { s with gpu_va_space_next := s.gpu_va_space_next + 1 } s.gpu_va_space_next
      { gpu_va_space_zero with
        gpu := gpu, kref := 1, duped_gpu_va_space := true, ats_enabled := rm.atsEnabled,
        page_tables_root := true, big_page_size := rm.bigPageSize,
        did_set_page_directory := true }
    rw [hmem]
    constructor
    · intro hne
      rw [hc] at hne
      exact absurd rfl hne
    · intro _ hats hretain
      rw [if_pos]
      simp only [Bool.and_eq_true, decide_eq_true_eq]
      exact ⟨hats, hretain⟩

/-- C24 as the specification states it does not hold: for the device 1, which is not
registered in the created address space, the registration of a context returns
`NV_ERR_NO_MEMORY` when the allocation of the context fails, since the context is created
before the registered devices are looked at. -/
theorem c24_counterexample :
    uvm_gpu_retain_by_uuid sample_global 1 = (NV_OK, 1) ∧
    sample_created.registered_gpus 1 = false ∧
    (uvm_va_space_register_gpu_va_space sample_global sample_created
      { sample_rm with alloc_ok := false } 1).1 = NV_ERR_NO_MEMORY := by
  refine ⟨by decide, by decide, by decide⟩

/-- C24: for a device that is not registered in the address space, or for which an ACTIVE
context exists, `uvm_va_space_register_gpu_va_space` fails and registers no context: the mask
`registered_gpu_va_spaces` and the array of the contexts are unchanged and an object is
ACTIVE after the call exactly when it was before; the status is `NV_ERR_INVALID_DEVICE` when
the creation of the new context and the retain of its ATS mm succeeded, the status of the
creation when the creation failed, and the status of the retain when the retain failed. -/
theorem c24_register_gpu_va_space_refusals (g : uvm_global_t) (s : uvm_va_space_t)
    (rm : rm_answers_t) (gpu_uuid gpu : Nat) (h : Reachable g s)
    (hret : uvm_gpu_retain_by_uuid g gpu_uuid = (NV_OK, gpu))
    (hpre : s.registered_gpus gpu = false ∨
      ∃ p, (s.gpu_va_space_mem p).gpu = gpu ∧
        uvm_gpu_va_space_state s p = UVM_GPU_VA_SPACE_STATE_ACTIVE) :
    (uvm_va_space_register_gpu_va_space g s rm gpu_uuid).1 ≠ NV_OK ∧
    (uvm_va_space_register_gpu_va_space g s rm gpu_uuid).2.registered_gpu_va_spaces =
      s.registered_gpu_va_spaces ∧
    (uvm_va_space_register_gpu_va_space g s rm gpu_uuid).2.gpu_va_spaces = s.gpu_va_spaces ∧
    (∀ q, uvm_gpu_va_space_state (uvm_va_space_register_gpu_va_space g s rm gpu_uuid).2 q =
        UVM_GPU_VA_SPACE_STATE_ACTIVE ↔
      uvm_gpu_va_space_state s q = UVM_GPU_VA_SPACE_STATE_ACTIVE) ∧
    ((create_gpu_va_space g s gpu rm).1 = NV_OK →
      (rm.atsEnabled = true → rm.ats_mm_retain_status = NV_OK) →
      (uvm_va_space_register_gpu_va_space g s rm gpu_uuid).1 = NV_ERR_INVALID_DEVICE) ∧
    ((create_gpu_va_space g s gpu rm).1 ≠ NV_OK →
      (uvm_va_space_register_gpu_va_space g s rm gpu_uuid).1 =
        (create_gpu_va_space g s gpu rm).1) ∧
    ((create_gpu_va_space g s gpu rm).1 = NV_OK → rm.atsEnabled = true →
      rm.ats_mm_retain_status ≠ NV_OK →
      (uvm_va_space_register_gpu_va_space g s rm gpu_uuid).1 = rm.ats_mm_retain_status) := by
  have hs := Reachable_CtxInv h
  have hinv := Reachable_Inv h
  have hstep := @uvm_va_space_register_gpu_va_space_failed_step g s rm gpu_uuid gpu hret
  have hpre2 : s.registered_gpus gpu = false ∨ s.registered_gpu_va_spaces gpu = true := by
    rcases hpre with hp | ⟨p, hp1, hp2⟩
    · exact Or.inl hp
    · right
      rw [← hp1]
      exact (hs.active p hp2).1
  obtain ⟨hfail, hstatus⟩ := uvm_va_space_register_gpu_va_space_refused rm hret hpre2
  obtain ⟨⟨f1, f2, _, f4⟩, f5⟩ := uvm_va_space_register_gpu_va_space_failed rm gpu_uuid hs
    (fun i hi => (hinv.1.reg_range i hi).1) hfail
  refine ⟨hfail, f1, f2, ?_, hstatus, hstep.1, hstep.2⟩
  intro q
  unfold uvm_gpu_va_space_state
  by_cases hq : q = s.gpu_va_space_next
  · rw [hq]
    constructor
    · intro hc
      exact absurd hc f5
    · intro hc
      rw [hs.fresh _ le_rfl] at hc
      cases hc
  · rw [f4 q hq]

theorem c24_register_gpu_va_space_refusals_witness :
    ((uvm_va_space_register_gpu_va_space sample_global sample_two_context sample_rm 1).1 ≠
        NV_OK ∧
      (uvm_va_space_register_gpu_va_space sample_global sample_two_context sample_rm
        1).2.registered_gpu_va_spaces = sample_two_context.registered_gpu_va_spaces ∧
      (uvm_va_space_register_gpu_va_space sample_global sample_two_context sample_rm
        1).2.gpu_va_spaces = sample_two_context.gpu_va_spaces ∧
      (∀ q, uvm_gpu_va_space_state
          (uvm_va_space_register_gpu_va_space sample_global sample_two_context sample_rm 1).2 q =
          UVM_GPU_VA_SPACE_STATE_ACTIVE ↔
        uvm_gpu_va_space_state sample_two_context q = UVM_GPU_VA_SPACE_STATE_ACTIVE) ∧
      ((create_gpu_va_space sample_global sample_two_context 1 sample_rm).1 = NV_OK →
        (sample_rm.atsEnabled = true → sample_rm.ats_mm_retain_status = NV_OK) →
        (uvm_va_space_register_gpu_va_space sample_global sample_two_context sample_rm 1).1 =
          NV_ERR_INVALID_DEVICE) ∧
      ((create_gpu_va_space sample_global sample_two_context 1 sample_rm).1 ≠ NV_OK →
        (uvm_va_space_register_gpu_va_space sample_global sample_two_context sample_rm 1).1 =
          (create_gpu_va_space sample_global sample_two_context 1 sample_rm).1) ∧
      ((create_gpu_va_space sample_global sample_two_context 1 sample_rm).1 = NV_OK →
        sample_rm.atsEnabled = true → sample_rm.ats_mm_retain_status ≠ NV_OK →
        (uvm_va_space_register_gpu_va_space sample_global sample_two_context sample_rm 1).1 =
          sample_rm.ats_mm_retain_status)) ∧
    (uvm_va_space_register_gpu_va_space sample_global sample_two_context sample_rm 1).1 =
      NV_ERR_INVALID_DEVICE ∧
    (uvm_va_space_register_gpu_va_space sample_global sample_created
      { sample_rm with alloc_ok := false } 1).1 = NV_ERR_NO_MEMORY :=
  ⟨c24_register_gpu_va_space_refusals sample_global sample_two_context sample_rm 1 1
    sample_two_context_reachable (by decide) (Or.inr ⟨0, by decide, by decide⟩), by decide,
    ((c24_register_gpu_va_space_refusals sample_global sample_created
      { sample_rm with alloc_ok := false } 1 1 sample_created_reachable (by decide)
      (Or.inl (by decide))).2.2.2.2.2.1 (by decide)).trans (by decide)⟩

/-! ## Lemmas: the compatibility checks of `add_gpu_va_space` -/

/-- The state on which the registration calls `add_gpu_va_space`: the contexts of the
address space before the call, and a fresh context with the answers of the resource
manager. -/
theorem register_gpu_va_space_prepared {g : uvm_global_t} {s s1 s2 : uvm_va_space_t}
    {rm : rm_answers_t} {gpu ptr : Nat} (hs : CtxInv s)
    (hcreate : create_gpu_va_space g s gpu rm = (NV_OK, s1, some ptr))
    (hs2 : s2 = gpu_va_space_store s1 ptr
      { s1.gpu_va_space_mem ptr with ats_mm := (s1.gpu_va_space_mem ptr).ats_enabled }) :
    ptr = s.gpu_va_space_next ∧
    s2.registered_gpu_va_spaces = s.registered_gpu_va_spaces ∧
    s2.gpu_va_spaces = s.gpu_va_spaces ∧
    s2.enabled_peers = s.enabled_peers ∧
    s2.num_pending = s.num_pending ∧
    s2.registered_gpus = s.registered_gpus ∧
    s2.va_ranges = s.va_ranges ∧
    s2.gpu_unregister_in_progress = s.gpu_unregister_in_progress ∧
    s2.disallow_new_registers = s.disallow_new_registers ∧
    (∀ q, q ≠ ptr → s2.gpu_va_space_mem q = s.gpu_va_space_mem q) ∧
    (s2.gpu_va_space_mem ptr).gpu = gpu ∧
    (s2.gpu_va_space_mem ptr).state = UVM_GPU_VA_SPACE_STATE_INIT ∧
    (s2.gpu_va_space_mem ptr).ats_enabled = rm.atsEnabled ∧
    (s2.gpu_va_space_mem ptr).big_page_size = rm.bigPageSize ∧
    (s2.gpu_va_space_mem ptr).va_space = false ∧
    (s2.gpu_va_space_mem ptr).freed = false ∧
    (s2.gpu_va_space_mem ptr).kref = 1 ∧
    s2.gpu_va_space_next = s.gpu_va_space_next + 1 ∧
    CtxInv s2 ∧
    (∀ other q, uvm_gpu_va_space_get s2 other = some q ↔
      uvm_gpu_va_space_get s other = some q) ∧
    (∀ other q, uvm_gpu_va_space_get s other = some q →
      s2.gpu_va_space_mem q = s.gpu_va_space_mem q) := by
  obtain ⟨hp, h1⟩ := create_gpu_va_space_ok hcreate
  have hs1 := (CtxInv_create (g := g) gpu rm hs).1
  rw [hcreate] at hs1
  simp only at hs1
  have hkeys := same_context_keys_store s1 ptr
    { s1.gpu_va_space_mem ptr with ats_mm := (s1.gpu_va_space_mem ptr).ats_enabled }
    rfl rfl rfl rfl rfl (fun h => Or.inl h)
  rw [← hs2] at hkeys
  have hctx := CtxInv_of_same_context_keys hkeys hs1
  subst hp
  subst h1
  subst hs2
  have hmem : ∀ q, q ≠ s.gpu_va_space_next →
      (gpu_va_space_store
        (gpu_va_space_store { s with gpu_va_space_next := s.gpu_va_space_next + 1 }
          s.gpu_va_space_next
          { gpu_va_space_zero with
            gpu := gpu, kref := 1, duped_gpu_va_space := true, ats_enabled := rm.atsEnabled,
            page_tables_root := true, big_page_size := rm.bigPageSize,
            did_set_page_directory := true })
        s.gpu_va_space_next
        { (gpu_va_space_store { s with gpu_va_space_next := s.gpu_va_space_next + 1 }
            s.gpu_va_space_next
            { gpu_va_space_zero with
              gpu := gpu, kref := 1, duped_gpu_va_space := true, ats_enabled := rm.atsEnabled,
              page_tables_root := true, big_page_size := rm.bigPageSize,
              did_set_page_directory := true }).gpu_va_space_mem s.gpu_va_space_next with
          ats_mm :=
            ((gpu_va_space_store { s with gpu_va_space_next := s.gpu_va_space_next + 1 }
              s.gpu_va_space_next
              { gpu_va_space_zero with
                gpu := gpu, kref := 1, duped_gpu_va_space := true,
                ats_enabled := rm.atsEnabled, page_tables_root := true,
                big_page_size := rm.bigPageSize,
                did_set_page_directory := true }).gpu_va_space_mem
              s.gpu_va_space_next).ats_enabled }).gpu_va_space_mem q =
      s.gpu_va_space_mem q := by
    intro q hq
    rw [(same_contexts_but_store _ _ _).2.2.2 q hq, (same_contexts_but_store _ _ _).2.2.2 q hq]
  refine ⟨rfl, rfl, rfl, rfl, rfl, rfl, rfl, rfl, rfl, hmem, ?_, ?_, ?_, ?_, ?_, ?_, ?_, rfl,
    hctx, fun _ _ => Iff.rfl, ?_⟩
  any_goals
    rw [gpu_va_space_store_mem_self, gpu_va_space_store_mem_self]
  any_goals rfl
  intro other q hq
  apply hmem
  rintro rfl
  have hact := (uvm_gpu_va_space_get_some hs hq).2.2.2
  rw [hs.fresh _ le_rfl] at hact
  cases hact

/-- C25: `add_gpu_va_space`, called by the registration on the context it created for the
device, returns `NV_ERR_INVALID_FLAGS` when a registered context has another ATS setting,
and `NV_ERR_NOT_COMPATIBLE` when the ATS settings agree and the registered context of a
device peer-enabled with the device has another big page size.  When it fails, the address
space is the one it was called on, and there as well as after the error path of the
registration the mask `registered_gpu_va_spaces`, the array of the contexts and every
existing context are those of before the registration and the new context is in the INIT
state.  Otherwise it returns `NV_OK`, the new context is ACTIVE and `uvm_gpu_va_space_get`
returns it for the device. -/
theorem c25_add_gpu_va_space_compatibility (g : uvm_global_t) (s s1 s2 : uvm_va_space_t)
    (rm : rm_answers_t) (gpu ptr : Nat) (h : Reachable g s)
    (hcreate : create_gpu_va_space g s gpu rm = (NV_OK, s1, some ptr))
    (hs2 : s2 = gpu_va_space_store s1 ptr
      { s1.gpu_va_space_mem ptr with ats_mm := (s1.gpu_va_space_mem ptr).ats_enabled }) :
    ((∃ other q, uvm_gpu_va_space_get s other = some q ∧
        (s.gpu_va_space_mem q).ats_enabled ≠ rm.atsEnabled) →
      (add_gpu_va_space s2 ptr).1 = NV_ERR_INVALID_FLAGS) ∧
    ((∀ other q, uvm_gpu_va_space_get s other = some q →
        (s.gpu_va_space_mem q).ats_enabled = rm.atsEnabled) →
      (∃ other q, uvm_gpu_va_space_get s other = some q ∧
        test_bit (uvm_gpu_peer_table_index gpu other) s.enabled_peers = true ∧
        (s.gpu_va_space_mem q).big_page_size ≠ rm.bigPageSize) →
      (add_gpu_va_space s2 ptr).1 = NV_ERR_NOT_COMPATIBLE) ∧
    ((add_gpu_va_space s2 ptr).1 ≠ NV_OK →
      (add_gpu_va_space s2 ptr).2 = s2 ∧
      ∀ t, t = s2 ∨ t = register_gpu_va_space_error s2 ptr true →
        t.registered_gpu_va_spaces = s.registered_gpu_va_spaces ∧
        t.gpu_va_spaces = s.gpu_va_spaces ∧
        (∀ q, q ≠ ptr → t.gpu_va_space_mem q = s.gpu_va_space_mem q) ∧
        uvm_gpu_va_space_state t ptr = UVM_GPU_VA_SPACE_STATE_INIT) ∧
    ((∀ other q, uvm_gpu_va_space_get s other = some q →
        (s.gpu_va_space_mem q).ats_enabled = rm.atsEnabled ∧
        (test_bit (uvm_gpu_peer_table_index gpu other) s.enabled_peers = true →
          (s.gpu_va_space_mem q).big_page_size = rm.bigPageSize)) →
      (add_gpu_va_space s2 ptr).1 = NV_OK ∧
      uvm_gpu_va_space_state (add_gpu_va_space s2 ptr).2 ptr = UVM_GPU_VA_SPACE_STATE_ACTIVE ∧
      uvm_gpu_va_space_get (add_gpu_va_space s2 ptr).2 gpu = some ptr) := by
  have hs := Reachable_CtxInv h
  have hinv := Reachable_Inv h
  obtain ⟨_, p2, p3, p4, _, _, _, _, _, p10, p11, p12, p13, p14, p15, _, _, _, _, p20, p21⟩ :=
    register_gpu_va_space_prepared hs hcreate hs2
  have hmem_l : ∀ other q, uvm_gpu_va_space_get s other = some q →
      other ∈ for_each_gpu_id_in_mask s2.registered_gpu_va_spaces := by
    intro other q hq
    have hm := (uvm_gpu_va_space_get_some hs hq).1
    have hrange := hinv.1.reg_range other (hs.registered other hm)
    rw [mem_for_each_gpu_id_in_mask, p2]
    exact ⟨hrange.1, hrange.2, hm⟩
  refine ⟨?_, ?_, ?_, ?_⟩
  · rintro ⟨o0, q0, hg0, hne0⟩
    have hcheck := @add_gpu_va_space_check_ats s2 ptr
      (for_each_gpu_id_in_mask s2.registered_gpu_va_spaces)
      (by
        intro other _ q hq
        have hq2 := (p20 other q).mp hq
        obtain ⟨a1, a2, _, _⟩ := uvm_gpu_va_space_get_some hs hq2
        obtain ⟨b1, b2, _, _⟩ := uvm_gpu_va_space_get_some hs hg0
        rw [p21 other q hq2, p13, hs.ats other o0 q q0 a1 b1 a2 b2]
        exact hne0)
      ⟨o0, hmem_l o0 q0 hg0, q0, (p20 o0 q0).mpr hg0⟩
    rw [add_gpu_va_space_fail (by rw [hcheck]; intro hc; cases hc), hcheck]
  · rintro hall ⟨o0, q0, hg0, hbit0, hne0⟩
    have hcheck := @add_gpu_va_space_check_big_page s2 ptr
      (for_each_gpu_id_in_mask s2.registered_gpu_va_spaces)
      (by
        intro other _ q hq
        have hq2 := (p20 other q).mp hq
        rw [p21 other q hq2, p13]
        exact hall other q hq2)
      ⟨o0, hmem_l o0 q0 hg0, q0, (p20 o0 q0).mpr hg0, by rw [p11, p4]; exact hbit0,
        by rw [p21 o0 q0 hg0, p14]; exact hne0⟩
    rw [add_gpu_va_space_fail (by rw [hcheck]; intro hc; cases hc), hcheck]
  · intro hfail
    have hsame : (add_gpu_va_space s2 ptr).2 = s2 := by
      rcases add_gpu_va_space_cases s2 ptr with hc | ⟨_, hc⟩
      · exact hc.2
      · rw [hc] at hfail
        exact absurd rfl hfail
    refine ⟨hsame, ?_⟩
    rintro t (rfl | rfl)
    · exact ⟨p2, p3, p10, p12⟩
    · obtain ⟨⟨e1, e2, _, e4⟩, e5, _⟩ := register_gpu_va_space_error_fresh s2 ptr true p12 p15
      exact ⟨e1.trans p2, e2.trans p3, fun q hq => (e4 q hq).trans (p10 q hq), e5⟩
  · intro hall
    have hcheck := @add_gpu_va_space_check_of_all s2 ptr
      (for_each_gpu_id_in_mask s2.registered_gpu_va_spaces)
      (by
        intro other _ q hq
        have hq2 := (p20 other q).mp hq
        obtain ⟨c1, c2⟩ := hall other q hq2
        rw [p21 other q hq2, p13, p14, p11, p4]
        exact ⟨c1, fun hb => (c2 hb).symm⟩)
    have hok : (add_gpu_va_space s2 ptr).1 = NV_OK := by
      rw [add_gpu_va_space_of_check hcheck]
    obtain ⟨a1, a2, _, _, a5, _⟩ := add_gpu_va_space_fields hok
    refine ⟨hok, ?_, ?_⟩
    · unfold uvm_gpu_va_space_state
      rw [a5]
    · unfold uvm_gpu_va_space_get uvm_processor_mask_test
      rw [a1, a2, p11, uvm_processor_mask_set_apply]
      simp

/-- The only device VA context of `sample_two_context` is the object at address 0. -/
theorem sample_two_context_get (other q : Nat)
    (hq : uvm_gpu_va_space_get sample_two_context other = some q) : q = 0 := by
  have hm := uvm_gpu_va_space_get_some (Reachable_CtxInv sample_two_context_reachable) hq
  have hlt : ¬ 1 ≤ q := by
    intro hle
    have := (Reachable_CtxInv sample_two_context_reachable).fresh q hle
    rw [hm.2.2.2] at this
    cases this
  omega

theorem sample_ats_two_context_reachable :
    Reachable sample_ats_global sample_ats_two_context :=
  Reachable.register_gpu_va_space _ sample_rm 1
    (Reachable.register_gpu _ 2
      (Reachable.register_gpu _ 1
        (Reachable.create NV_OK NV_OK NV_OK sample_created sample_created_eq)))

/-- The only device VA context of `sample_ats_two_context` is the object at address 0. -/
theorem sample_ats_two_context_get (other q : Nat)
    (hq : uvm_gpu_va_space_get sample_ats_two_context other = some q) : q = 0 := by
  have hm := uvm_gpu_va_space_get_some (Reachable_CtxInv sample_ats_two_context_reachable) hq
  have hlt : ¬ 1 ≤ q := by
    intro hle
    have := (Reachable_CtxInv sample_ats_two_context_reachable).fresh q hle
    rw [hm.2.2.2] at this
    cases this
  omega

theorem c25_add_gpu_va_space_compatibility_witness :
    (create_gpu_va_space sample_global sample_two_context 2 sample_rm).1 = NV_OK ∧
    (add_gpu_va_space
      (gpu_va_space_store
        (create_gpu_va_space sample_global sample_two_context 2 sample_rm).2.1 1
        { (create_gpu_va_space sample_global sample_two_context 2 sample_rm).2.1.gpu_va_space_mem 1 with
          ats_mm := ((create_gpu_va_space sample_global sample_two_context 2
            sample_rm).2.1.gpu_va_space_mem 1).ats_enabled }) 1).1 = NV_OK ∧
    (add_gpu_va_space
      (gpu_va_space_store
        (create_gpu_va_space sample_global sample_two_context 2 { sample_rm with bigPageSize := 131072 }).2.1 1
        { (create_gpu_va_space sample_global sample_two_context 2 { sample_rm with bigPageSize := 131072 }).2.1.gpu_va_space_mem 1 with
          ats_mm := ((create_gpu_va_space sample_global sample_two_context 2
            { sample_rm with bigPageSize := 131072 }).2.1.gpu_va_space_mem 1).ats_enabled }) 1).1 = NV_ERR_NOT_COMPATIBLE ∧
    (add_gpu_va_space
      (gpu_va_space_store
        (create_gpu_va_space sample_ats_global sample_ats_two_context 2 { sample_rm with atsEnabled := true }).2.1 1
        { (create_gpu_va_space sample_ats_global sample_ats_two_context 2 { sample_rm with atsEnabled := true }).2.1.gpu_va_space_mem 1 with
          ats_mm := ((create_gpu_va_space sample_ats_global sample_ats_two_context 2
            { sample_rm with atsEnabled := true }).2.1.gpu_va_space_mem 1).ats_enabled }) 1).1 = NV_ERR_INVALID_FLAGS :=
  ⟨by decide,
    ((c25_add_gpu_va_space_compatibility sample_global sample_two_context
      (create_gpu_va_space sample_global sample_two_context 2 sample_rm).2.1
      (gpu_va_space_store
        (create_gpu_va_space sample_global sample_two_context 2 sample_rm).2.1 1
        { (create_gpu_va_space sample_global sample_two_context 2 sample_rm).2.1.gpu_va_space_mem 1 with
          ats_mm := ((create_gpu_va_space sample_global sample_two_context 2
            sample_rm).2.1.gpu_va_space_mem 1).ats_enabled })
      sample_rm 2 1 sample_two_context_reachable rfl rfl).2.2.2
      (by
        intro other q hq
        have hq0 := sample_two_context_get other q hq
        subst hq0
        exact ⟨by decide, fun _ => by decide⟩)).1,
    (c25_add_gpu_va_space_compatibility sample_global sample_two_context
      (create_gpu_va_space sample_global sample_two_context 2 { sample_rm with bigPageSize := 131072 }).2.1
      (gpu_va_space_store
        (create_gpu_va_space sample_global sample_two_context 2 { sample_rm with bigPageSize := 131072 }).2.1 1
        { (create_gpu_va_space sample_global sample_two_context 2 { sample_rm with bigPageSize := 131072 }).2.1.gpu_va_space_mem 1 with
          ats_mm := ((create_gpu_va_space sample_global sample_two_context 2
            { sample_rm with bigPageSize := 131072 }).2.1.gpu_va_space_mem 1).ats_enabled })
      { sample_rm with bigPageSize := 131072 } 2 1 sample_two_context_reachable rfl rfl).2.1
      (by
        intro other q hq
        have hq0 := sample_two_context_get other q hq
        subst hq0
        decide)
      ⟨1, 0, by decide, by decide, by decide⟩,
    (c25_add_gpu_va_space_compatibility sample_ats_global sample_ats_two_context
      (create_gpu_va_space sample_ats_global sample_ats_two_context 2 { sample_rm with atsEnabled := true }).2.1
      (gpu_va_space_store
        (create_gpu_va_space sample_ats_global sample_ats_two_context 2 { sample_rm with atsEnabled := true }).2.1 1
        { (create_gpu_va_space sample_ats_global sample_ats_two_context 2 { sample_rm with atsEnabled := true }).2.1.gpu_va_space_mem 1 with
          ats_mm := ((create_gpu_va_space sample_ats_global sample_ats_two_context 2
            { sample_rm with atsEnabled := true }).2.1.gpu_va_space_mem 1).ats_enabled })
      { sample_rm with atsEnabled := true } 2 1 sample_ats_two_context_reachable rfl rfl).1
      ⟨1, 0, by decide, by decide⟩⟩

/-! ## Lemmas: the failure of a memory range in the registration of a context -/

theorem sample_two_unmappable_reachable : Reachable sample_global sample_two_unmappable :=
  Reachable.va_ranges_change sample_two [sample_unmappable_range] sample_two_reachable

/-- The error path of the registration for a context that was added is a removal, which
increments the counter of pending destructions, and a destruction. -/
theorem register_gpu_va_space_error_of_added {s : uvm_va_space_t} {ptr : Nat}
    (hadd : (add_gpu_va_space s ptr).1 = NV_OK) :
    register_gpu_va_space_error (add_gpu_va_space s ptr).2 ptr true =
      destroy_gpu_va_space (remove_gpu_va_space (add_gpu_va_space s ptr).2 (some ptr) []).1
        (some ptr) ∧
    (remove_gpu_va_space (add_gpu_va_space s ptr).2 (some ptr) []).1.num_pending =
      s.num_pending + 1 ∧
    uvm_gpu_va_space_state (remove_gpu_va_space (add_gpu_va_space s ptr).2 (some ptr) []).1 ptr =
      UVM_GPU_VA_SPACE_STATE_DEAD := by
  obtain ⟨_, _, a3, _, a5, _⟩ := add_gpu_va_space_fields hadd
  generalize (add_gpu_va_space s ptr).2 = t at a3 a5
  have hact : uvm_gpu_va_space_state t ptr = UVM_GPU_VA_SPACE_STATE_ACTIVE := by
    unfold uvm_gpu_va_space_state
    rw [a5]
  obtain ⟨_, _, r3, _, r5⟩ := remove_gpu_va_space_active_fields t ptr [] hact
  refine ⟨?_, by rw [r3, a3], ?_⟩
  · unfold register_gpu_va_space_error
    have : (t.gpu_va_space_mem ptr).va_space = true := by rw [a5]
    simp only [this, Bool.and_self, if_true]
  · unfold uvm_gpu_va_space_state
    rw [r5]

/-- C26: when the registration of a context got as far as the memory ranges (the context was
created and added, the ATS registration succeeded) and a memory range refuses the context,
`uvm_va_space_register_gpu_va_space` returns the status of that range; the context is removed,
which increments the counter of pending destructions, and destroyed, which decrements it;
afterwards the mask `registered_gpu_va_spaces`, the array of the contexts, the counter and
every other object are what they were before the call, and the new context is DEAD. -/
theorem c26_register_range_failure_rolls_back (g : uvm_global_t) (s s1 s2 : uvm_va_space_t)
    (rm : rm_answers_t) (gpu_uuid gpu ptr : Nat) (h : Reachable g s)
    (hret : uvm_gpu_retain_by_uuid g gpu_uuid = (NV_OK, gpu))
    (hcreate : create_gpu_va_space g s gpu rm = (NV_OK, s1, some ptr))
    (hats : rm.atsEnabled = true → rm.ats_mm_retain_status = NV_OK)
    (hs2 : s2 = gpu_va_space_store s1 ptr
      { s1.gpu_va_space_mem ptr with ats_mm := (s1.gpu_va_space_mem ptr).ats_enabled })
    (hreg : s.registered_gpus gpu = true)
    (hnew : s.registered_gpu_va_spaces gpu = false)
    (hguard : s.gpu_unregister_in_progress gpu = false)
    (hopen : s.disallow_new_registers = false)
    (hadd : (add_gpu_va_space s2 ptr).1 = NV_OK)
    (hatsreg : rm.ats_register_status = NV_OK)
    (hhook : add_gpu_va_space_va_ranges gpu s.va_ranges ≠ NV_OK) :
    (uvm_va_space_register_gpu_va_space g s rm gpu_uuid).1 =
      add_gpu_va_space_va_ranges gpu s.va_ranges ∧
    (uvm_va_space_register_gpu_va_space g s rm gpu_uuid).2 =
      destroy_gpu_va_space (remove_gpu_va_space (add_gpu_va_space s2 ptr).2 (some ptr) []).1
        (some ptr) ∧
    (remove_gpu_va_space (add_gpu_va_space s2 ptr).2 (some ptr) []).1.num_pending =
      s.num_pending + 1 ∧
    (uvm_va_space_register_gpu_va_space g s rm gpu_uuid).2.num_pending = s.num_pending ∧
    (uvm_va_space_register_gpu_va_space g s rm gpu_uuid).2.registered_gpu_va_spaces =
      s.registered_gpu_va_spaces ∧
    (uvm_va_space_register_gpu_va_space g s rm gpu_uuid).2.gpu_va_spaces = s.gpu_va_spaces ∧
    (∀ q, q ≠ ptr → (uvm_va_space_register_gpu_va_space g s rm gpu_uuid).2.gpu_va_space_mem q =
      s.gpu_va_space_mem q) ∧
    uvm_gpu_va_space_state (add_gpu_va_space s2 ptr).2 ptr = UVM_GPU_VA_SPACE_STATE_ACTIVE ∧
    uvm_gpu_va_space_state (uvm_va_space_register_gpu_va_space g s rm gpu_uuid).2 ptr =
      UVM_GPU_VA_SPACE_STATE_DEAD := by
  have hs := Reachable_CtxInv h
  have hinv := Reachable_Inv h
  obtain ⟨_, p2, p3, _, p5, p6, p7, p8, p9, p10, p11, _, p13, _, _, _, _, _, _, _, _⟩ :=
    register_gpu_va_space_prepared hs hcreate hs2
  have hats1 : (s1.gpu_va_space_mem ptr).ats_enabled = rm.atsEnabled := by
    rw [hs2, gpu_va_space_store_mem_self] at p13
    exact p13
  obtain ⟨a1, a2, a3, a4, a5, a6⟩ := add_gpu_va_space_fields hadd
  have hlocked : register_gpu_va_space_locked s2 rm gpu ptr =
      (add_gpu_va_space_va_ranges gpu s.va_ranges,
        register_gpu_va_space_error (add_gpu_va_space s2 ptr).2 ptr true) := by
    unfold register_gpu_va_space_locked uvm_processor_mask_test
    simp only [p6, p2, p8, p9, hreg, hnew, hguard, hopen, hadd, hatsreg, a6, p7, hhook,
      Bool.not_true, Bool.false_eq_true, if_false, ne_eq, not_true_eq_false, not_false_eq_true,
      if_true]
  have hcall : uvm_va_space_register_gpu_va_space g s rm gpu_uuid =
      (add_gpu_va_space_va_ranges gpu s.va_ranges,
        register_gpu_va_space_error (add_gpu_va_space s2 ptr).2 ptr true) := by
    rw [uvm_va_space_register_gpu_va_space_of_created hret hcreate, ← hs2, hlocked, hats1]
    have hcond : ¬ ((rm.atsEnabled && decide (rm.ats_mm_retain_status ≠ NV_OK)) = true) := by
      intro hc
      simp only [Bool.and_eq_true, decide_eq_true_eq] at hc
      exact hc.2 (hats hc.1)
    rw [if_neg hcond]
  obtain ⟨e1, e2, e3⟩ := register_gpu_va_space_error_of_added hadd
  obtain ⟨⟨b1, b2, b3, b4⟩, b5⟩ := register_gpu_va_space_error_added hadd
    (by rw [p11, p2]; exact hnew)
    (by rw [p11, p3]; exact hs.empty gpu (hinv.1.reg_range gpu hreg).1 hnew)
  rw [hcall]
  refine ⟨rfl, e1, by rw [e2, p5], b3.trans p5, b1.trans p2, b2.trans p3,
    fun q hq => (b4 q hq).trans (p10 q hq), ?_, b5⟩
  unfold uvm_gpu_va_space_state
  rw [a5]

theorem c26_register_range_failure_rolls_back_witness :
    (uvm_va_space_register_gpu_va_space sample_global sample_two_unmappable sample_rm 1).1 =
      NV_ERR_NO_MEMORY ∧
    uvm_gpu_va_space_state
      (uvm_va_space_register_gpu_va_space sample_global sample_two_unmappable sample_rm 1).2 0 =
      UVM_GPU_VA_SPACE_STATE_DEAD :=
  ⟨(c26_register_range_failure_rolls_back sample_global sample_two_unmappable
      (create_gpu_va_space sample_global sample_two_unmappable 1 sample_rm).2.1
      (gpu_va_space_store
        (create_gpu_va_space sample_global sample_two_unmappable 1 sample_rm).2.1 0
        { (create_gpu_va_space sample_global sample_two_unmappable 1
            sample_rm).2.1.gpu_va_space_mem 0 with
          ats_mm := ((create_gpu_va_space sample_global sample_two_unmappable 1
            sample_rm).2.1.gpu_va_space_mem 0).ats_enabled })
      sample_rm 1 1 0 sample_two_unmappable_reachable (by decide) rfl (by decide) rfl
      (by decide) (by decide) (by decide) (by decide) (by decide) (by decide) (by decide)).1,
    (c26_register_range_failure_rolls_back sample_global sample_two_unmappable
      (create_gpu_va_space sample_global sample_two_unmappable 1 sample_rm).2.1
      (gpu_va_space_store
        (create_gpu_va_space sample_global sample_two_unmappable 1 sample_rm).2.1 0
        { (create_gpu_va_space sample_global sample_two_unmappable 1
            sample_rm).2.1.gpu_va_space_mem 0 with
          ats_mm := ((create_gpu_va_space sample_global sample_two_unmappable 1
            sample_rm).2.1.gpu_va_space_mem 0).ats_enabled })
      sample_rm 1 1 0 sample_two_unmappable_reachable (by decide) rfl (by decide) rfl
      (by decide) (by decide) (by decide) (by decide) (by decide) (by decide)
      (by decide)).2.2.2.2.2.2.2.2⟩

/-! ## Lemmas: the unregistration of a device VA context -/

theorem uvm_va_space_unregister_gpu_va_space_begin_num_pending (g : uvm_global_t)
    (s : uvm_va_space_t) (gpu_uuid : Nat) :
    (uvm_va_space_unregister_gpu_va_space_begin g s gpu_uuid).2.1.num_pending =
      s.num_pending := by
  unfold uvm_va_space_unregister_gpu_va_space_begin
  cases uvm_va_space_get_gpu_by_uuid_with_gpu_va_space g s gpu_uuid with
  | none => rfl
  | some gpu =>
    simp only
    cases uvm_gpu_va_space_get s gpu with
    | none => rfl
    | some p => rfl

theorem uvm_va_space_unregister_gpu_va_space_finish_dead {t : uvm_va_space_t} {ptr : Nat}
    (hdead : uvm_gpu_va_space_state t ptr = UVM_GPU_VA_SPACE_STATE_DEAD) :
    uvm_va_space_unregister_gpu_va_space_finish t ptr =
      (NV_ERR_INVALID_DEVICE, uvm_gpu_va_space_release t (some ptr)) := by
  unfold uvm_va_space_unregister_gpu_va_space_finish
  simp only [hdead, if_true]
  rfl

/-- C27: `uvm_va_space_unregister_gpu_va_space` returns `NV_ERR_INVALID_DEVICE` and leaves the
address space as it is when no ACTIVE context exists for the device the uuid names.  Its
first part, whatever it returns, leaves the mask `registered_gpu_va_spaces`, the array of
the contexts, the counter of pending destructions and the state of every context unchanged;
and when the context it found is DEAD at the time the second part runs, the second part
returns `NV_ERR_INVALID_DEVICE` and leaves the same four unchanged. -/
theorem c27_unregister_gpu_va_space_refusals (g : uvm_global_t) (s : uvm_va_space_t)
    (gpu_uuid : Nat) (h : Reachable g s) :
    ((∀ gpu, uvm_va_space_get_gpu_by_uuid g s gpu_uuid = some gpu →
        ¬ ∃ p, (s.gpu_va_space_mem p).gpu = gpu ∧
          uvm_gpu_va_space_state s p = UVM_GPU_VA_SPACE_STATE_ACTIVE) →
      uvm_va_space_unregister_gpu_va_space g s gpu_uuid = (NV_ERR_INVALID_DEVICE, s)) ∧
    ((uvm_va_space_unregister_gpu_va_space_begin g s gpu_uuid).2.1.registered_gpu_va_spaces =
        s.registered_gpu_va_spaces ∧
      (uvm_va_space_unregister_gpu_va_space_begin g s gpu_uuid).2.1.gpu_va_spaces =
        s.gpu_va_spaces ∧
      (uvm_va_space_unregister_gpu_va_space_begin g s gpu_uuid).2.1.num_pending =
        s.num_pending ∧
      ∀ q, uvm_gpu_va_space_state (uvm_va_space_unregister_gpu_va_space_begin g s gpu_uuid).2.1 q =
        uvm_gpu_va_space_state s q) ∧
    (∀ t ptr, uvm_gpu_va_space_state t ptr = UVM_GPU_VA_SPACE_STATE_DEAD →
      (uvm_va_space_unregister_gpu_va_space_finish t ptr).1 = NV_ERR_INVALID_DEVICE ∧
      (uvm_va_space_unregister_gpu_va_space_finish t ptr).2.registered_gpu_va_spaces =
        t.registered_gpu_va_spaces ∧
      (uvm_va_space_unregister_gpu_va_space_finish t ptr).2.gpu_va_spaces = t.gpu_va_spaces ∧
      (uvm_va_space_unregister_gpu_va_space_finish t ptr).2.num_pending = t.num_pending ∧
      ∀ q, uvm_gpu_va_space_state (uvm_va_space_unregister_gpu_va_space_finish t ptr).2 q =
        uvm_gpu_va_space_state t q) := by
  have hs := Reachable_CtxInv h
  refine ⟨?_, ?_, ?_⟩
  · intro hnone
    have hlookup : uvm_va_space_get_gpu_by_uuid_with_gpu_va_space g s gpu_uuid = none := by
      unfold uvm_va_space_get_gpu_by_uuid_with_gpu_va_space
      cases hget : uvm_va_space_get_gpu_by_uuid g s gpu_uuid with
      | none => rfl
      | some gpu =>
        simp only
        cases hm : s.registered_gpu_va_spaces gpu with
        | false => simp [uvm_processor_mask_test, hm]
        | true =>
          obtain ⟨p, _, b2, b3⟩ := hs.slot gpu hm
          exact absurd ⟨p, b2, b3⟩ (hnone gpu hget)
    unfold uvm_va_space_unregister_gpu_va_space uvm_va_space_unregister_gpu_va_space_begin
    simp only [hlookup]
  · have hk := same_context_keys_unregister_gpu_va_space_begin g s gpu_uuid
    exact ⟨hk.1, hk.2.1, uvm_va_space_unregister_gpu_va_space_begin_num_pending g s gpu_uuid,
      fun q => (hk.2.2.2.2 q).2.1⟩
  · intro t ptr hdead
    rw [uvm_va_space_unregister_gpu_va_space_finish_dead hdead]
    have hk := same_context_keys_release t ptr (by
      unfold uvm_gpu_va_space_state at hdead
      rw [hdead]
      intro hc
      cases hc)
    exact ⟨rfl, rfl, rfl, rfl, fun q => (hk.2.2.2.2 q).2.1⟩

theorem c27_unregister_gpu_va_space_refusals_witness :
    uvm_va_space_unregister_gpu_va_space sample_global sample_two_context 2 =
      (NV_ERR_INVALID_DEVICE, sample_two_context) ∧
    (uvm_va_space_unregister_gpu_va_space_finish
      (uvm_va_space_unregister_gpu_va_space sample_global
        (uvm_va_space_unregister_gpu_va_space_begin sample_global sample_two_context 1).2.1
        1).2 0).1 = NV_ERR_INVALID_DEVICE :=
  ⟨(c27_unregister_gpu_va_space_refusals sample_global sample_two_context 2
      sample_two_context_reachable).1
      (by
        intro gpu hg
        have h2 : uvm_va_space_get_gpu_by_uuid sample_global sample_two_context 2 = some 2 := by
          decide
        rw [h2] at hg
        cases hg
        rintro ⟨p, hp1, hp2⟩
        have hact := ((Reachable_CtxInv sample_two_context_reachable).active p hp2).1
        rw [hp1] at hact
        exact absurd hact (by decide)),
    ((c27_unregister_gpu_va_space_refusals sample_global sample_two_context 1
      sample_two_context_reachable).2.2
      (uvm_va_space_unregister_gpu_va_space sample_global
        (uvm_va_space_unregister_gpu_va_space_begin sample_global sample_two_context 1).2.1
        1).2 0 (by decide)).1⟩

theorem uvm_va_space_get_gpu_by_uuid_with_gpu_va_space_some {g : uvm_global_t}
    {s : uvm_va_space_t} {gpu_uuid gpu : Nat}
    (h : uvm_va_space_get_gpu_by_uuid_with_gpu_va_space g s gpu_uuid = some gpu) :
    uvm_va_space_get_gpu_by_uuid g s gpu_uuid = some gpu ∧
    s.registered_gpu_va_spaces gpu = true := by
  unfold uvm_va_space_get_gpu_by_uuid_with_gpu_va_space at h
  cases hget : uvm_va_space_get_gpu_by_uuid g s gpu_uuid with
  | none => rw [hget] at h; cases h
  | some x =>
    rw [hget] at h
    simp only [uvm_processor_mask_test] at h
    cases hm : s.registered_gpu_va_spaces x with
    | false => simp [hm] at h
    | true =>
      simp only [hm, Bool.not_true, Bool.false_eq_true, if_false, Option.some.injEq] at h
      subst h
      exact ⟨rfl, hm⟩

theorem uvm_deferred_free_object_list_append (l1 l2 : List uvm_deferred_free_object_t)
    (s : uvm_va_space_t) :
    uvm_deferred_free_object_list s (l1 ++ l2) =
      uvm_deferred_free_object_list (uvm_deferred_free_object_list s l1) l2 := by
  induction l1 generalizing s with
  | nil => rfl
  | cons obj rest ih =>
    cases obj with
    | channel c => exact ih s
    | external_allocation e => exact ih s
    | gpu_va_space ptr => exact ih _

theorem uvm_deferred_free_object_list_channels (l : List Nat) (s : uvm_va_space_t) :
    uvm_deferred_free_object_list s (l.map uvm_deferred_free_object_t.channel) = s := by
  induction l with
  | nil => rfl
  | cons c rest ih => exact ih

theorem uvm_deferred_free_object_list_external (l : List Nat) (s : uvm_va_space_t) :
    uvm_deferred_free_object_list s (l.map uvm_deferred_free_object_t.external_allocation) =
      s := by
  induction l with
  | nil => rfl
  | cons c rest ih => exact ih

/-- The first part of the unregistration of a context, when it goes on: the device of the
uuid has the context, which is ACTIVE, and the address space differs in the bookkeeping of
the context only. -/
theorem uvm_va_space_unregister_gpu_va_space_begin_some {g : uvm_global_t}
    {s : uvm_va_space_t} {gpu_uuid ptr : Nat} (hs : CtxInv s)
    (h : (uvm_va_space_unregister_gpu_va_space_begin g s gpu_uuid).2.2 = some ptr) :
    ∃ gpu, uvm_va_space_get_gpu_by_uuid g s gpu_uuid = some gpu ∧
      uvm_gpu_va_space_get s gpu = some ptr ∧
      s.registered_gpu_va_spaces gpu = true ∧
      s.gpu_va_spaces (uvm_gpu_index gpu) = some ptr ∧
      (s.gpu_va_space_mem ptr).gpu = gpu ∧
      (s.gpu_va_space_mem ptr).state = UVM_GPU_VA_SPACE_STATE_ACTIVE ∧
      (uvm_va_space_unregister_gpu_va_space_begin g s gpu_uuid).1 = NV_OK := by
  unfold uvm_va_space_unregister_gpu_va_space_begin at h ⊢
  cases hl : uvm_va_space_get_gpu_by_uuid_with_gpu_va_space g s gpu_uuid with
  | none => rw [hl] at h; cases h
  | some gpu =>
    rw [hl] at h
    simp only at h ⊢
    cases hget : uvm_gpu_va_space_get s gpu with
    | none => rw [hget] at h; cases h
    | some p =>
      rw [hget] at h
      simp only [Option.some.injEq] at h
      subst h
      obtain ⟨b1, b2, b3, b4⟩ := uvm_gpu_va_space_get_some hs hget
      exact ⟨gpu, (uvm_va_space_get_gpu_by_uuid_with_gpu_va_space_some hl).1, hget, b1, b2,
        b3, b4, rfl⟩

theorem uvm_va_space_unregister_gpu_va_space_ok {g : uvm_global_t} {s : uvm_va_space_t}
    {gpu_uuid : Nat}
    (hok : (uvm_va_space_unregister_gpu_va_space g s gpu_uuid).1 = NV_OK) :
    ∃ ptr, (uvm_va_space_unregister_gpu_va_space_begin g s gpu_uuid).2.2 = some ptr ∧
      uvm_va_space_unregister_gpu_va_space g s gpu_uuid =
        uvm_va_space_unregister_gpu_va_space_finish
          (uvm_va_space_unregister_gpu_va_space_begin g s gpu_uuid).2.1 ptr := by
  unfold uvm_va_space_unregister_gpu_va_space at hok ⊢
  cases hb : (uvm_va_space_unregister_gpu_va_space_begin g s gpu_uuid).2.2 with
  | none =>
    exfalso
    simp only [hb] at hok
    unfold uvm_va_space_unregister_gpu_va_space_begin at hok hb
    cases hl : uvm_va_space_get_gpu_by_uuid_with_gpu_va_space g s gpu_uuid with
    | none => rw [hl] at hok; cases hok
    | some gpu =>
      rw [hl] at hok hb
      simp only at hok hb
      cases hget : uvm_gpu_va_space_get s gpu with
      | none => rw [hget] at hok; cases hok
      | some p => rw [hget] at hb; cases hb
  | some ptr =>
    refine ⟨ptr, rfl, ?_⟩
    simp only [hb]

/-- What the second part of the unregistration of a context does to a context that is
ACTIVE: the removal under the lock, then the destruction by the drain of the deferred free
list and the release of the reference. -/
theorem uvm_va_space_unregister_gpu_va_space_finish_active {t : uvm_va_space_t} {ptr : Nat}
    (hact : uvm_gpu_va_space_state t ptr = UVM_GPU_VA_SPACE_STATE_ACTIVE) :
    uvm_va_space_unregister_gpu_va_space_finish t ptr =
      (NV_OK, uvm_gpu_va_space_release
        (destroy_gpu_va_space (remove_gpu_va_space t (some ptr) []).1 (some ptr))
        (some ptr)) := by
  obtain ⟨_, _, _, _, channels, ext, hl⟩ := remove_gpu_va_space_active [] hact
  unfold uvm_va_space_unregister_gpu_va_space_finish
  simp only [hact, if_false, reduceCtorEq]
  rw [hl, uvm_deferred_free_object_list_append, uvm_deferred_free_object_list_append,
    List.nil_append, uvm_deferred_free_object_list_channels,
    uvm_deferred_free_object_list_external]
  rfl

/-- C28: when `uvm_va_space_unregister_gpu_va_space` returns `NV_OK`, the uuid names a
registered device with an ACTIVE context.  The removal under the lock increments the counter
of pending destructions by one and puts the context on the deferred free list exactly once,
as the only context of the list.  When the function returns the device is cleared from
`registered_gpu_va_spaces`, its entry in the array of the contexts is null, the context is
DEAD, the device is still registered and the topology is unchanged; the drain of the
deferred free list, which destroys the context, has taken the counter back to its value of
before the call. -/
theorem c28_unregister_gpu_va_space_ok (g : uvm_global_t) (s : uvm_va_space_t)
    (gpu_uuid : Nat) (h : Reachable g s)
    (hok : (uvm_va_space_unregister_gpu_va_space g s gpu_uuid).1 = NV_OK) :
    ∃ gpu ptr,
      uvm_va_space_get_gpu_by_uuid g s gpu_uuid = some gpu ∧
      uvm_gpu_va_space_get s gpu = some ptr ∧
      (uvm_va_space_unregister_gpu_va_space_begin g s gpu_uuid).2.2 = some ptr ∧
      uvm_gpu_va_space_state s ptr = UVM_GPU_VA_SPACE_STATE_ACTIVE ∧
      (remove_gpu_va_space (uvm_va_space_unregister_gpu_va_space_begin g s gpu_uuid).2.1
        (some ptr) []).1.num_pending = s.num_pending + 1 ∧
      (remove_gpu_va_space (uvm_va_space_unregister_gpu_va_space_begin g s gpu_uuid).2.1
        (some ptr) []).2.count (uvm_deferred_free_object_t.gpu_va_space ptr) = 1 ∧
      (∀ q, uvm_deferred_free_object_t.gpu_va_space q ∈
        (remove_gpu_va_space (uvm_va_space_unregister_gpu_va_space_begin g s gpu_uuid).2.1
          (some ptr) []).2 → q = ptr) ∧
      (uvm_va_space_unregister_gpu_va_space g s gpu_uuid).2.registered_gpu_va_spaces =
        uvm_processor_mask_clear s.registered_gpu_va_spaces gpu ∧
      (uvm_va_space_unregister_gpu_va_space g s gpu_uuid).2.gpu_va_spaces (uvm_gpu_index gpu) =
        none ∧
      uvm_gpu_va_space_state (uvm_va_space_unregister_gpu_va_space g s gpu_uuid).2 ptr =
        UVM_GPU_VA_SPACE_STATE_DEAD ∧
      s.registered_gpus gpu = true ∧
      same_topology s (uvm_va_space_unregister_gpu_va_space g s gpu_uuid).2 ∧
      (uvm_va_space_unregister_gpu_va_space g s gpu_uuid).2.num_pending = s.num_pending := by
  have hs := Reachable_CtxInv h
  obtain ⟨ptr, hb, hcomp⟩ := uvm_va_space_unregister_gpu_va_space_ok hok
  obtain ⟨gpu, hg, hget, _, _, hgpu, hact, _⟩ :=
    uvm_va_space_unregister_gpu_va_space_begin_some hs hb
  have hk := same_context_keys_unregister_gpu_va_space_begin g s gpu_uuid
  have hnp := uvm_va_space_unregister_gpu_va_space_begin_num_pending g s gpu_uuid
  have htopo := same_topology_trans
    (same_topology_unregister_gpu_va_space_begin g s gpu_uuid)
    (same_topology_unregister_gpu_va_space_finish
      (uvm_va_space_unregister_gpu_va_space_begin g s gpu_uuid).2.1 ptr)
  rw [← hcomp] at htopo
  refine ⟨gpu, ptr, hg, hget, hb, hact, ?_⟩
  generalize (uvm_va_space_unregister_gpu_va_space_begin g s gpu_uuid).2.1 = t
    at hk hnp hcomp ⊢
  have hact2 : uvm_gpu_va_space_state t ptr = UVM_GPU_VA_SPACE_STATE_ACTIVE := by
    unfold uvm_gpu_va_space_state
    rw [(hk.2.2.2.2 ptr).2.1]
    exact hact
  have hgpu2 : (t.gpu_va_space_mem ptr).gpu = gpu := by
    rw [(hk.2.2.2.2 ptr).1]
    exact hgpu
  obtain ⟨r1, r2, r3, _, r5⟩ := remove_gpu_va_space_active_fields t ptr [] hact2
  obtain ⟨_, _, _, _, channels, ext, hl⟩ := remove_gpu_va_space_active [] hact2
  have hmem := remove_gpu_va_space_list t (some ptr) []
  rw [hcomp, uvm_va_space_unregister_gpu_va_space_finish_active hact2] at htopo ⊢
  generalize (remove_gpu_va_space t (some ptr) []).1 = u at r1 r2 r3 r5 htopo ⊢
  have hdead : (u.gpu_va_space_mem ptr).state = UVM_GPU_VA_SPACE_STATE_DEAD := by rw [r5]
  obtain ⟨d1, d2, d3, _, d5, _⟩ := destroy_gpu_va_space_frame u ptr
  rw [if_pos hdead] at d3
  refine ⟨?_, ?_, ?_, ?_, ?_, ?_, ?_, htopo, ?_⟩
  · rw [r3, hnp]
  · rw [hl]
    simp only [List.nil_append, List.count_append, count_gpu_va_space_map_channel,
      count_gpu_va_space_map_external, List.count_singleton_self, zero_add]
  · intro q hq
    rcases hmem q hq with hc | ⟨hc, _⟩
    · cases hc
    · cases hc
      rfl
  · show (destroy_gpu_va_space u (some ptr)).registered_gpu_va_spaces = _
    rw [d1, r1, hgpu2, hk.1]
  · show (destroy_gpu_va_space u (some ptr)).gpu_va_spaces (uvm_gpu_index gpu) = none
    rw [d2, r2, hgpu2]
    simp
  · unfold uvm_gpu_va_space_state
    rw [uvm_gpu_va_space_release_mem]
    show ((destroy_gpu_va_space u (some ptr)).gpu_va_space_mem ptr).state = _
    rw [d5]
    exact hdead
  · exact (uvm_va_space_get_gpu_by_uuid_some hg).2.2.1
  · show (destroy_gpu_va_space u (some ptr)).num_pending = _
    rw [d3, r3, hnp]
    omega

theorem c28_unregister_gpu_va_space_ok_witness :
    (uvm_va_space_unregister_gpu_va_space sample_global sample_two_context 1).1 = NV_OK ∧
    ∃ gpu ptr,
      uvm_va_space_get_gpu_by_uuid sample_global sample_two_context 1 = some gpu ∧
      uvm_gpu_va_space_get sample_two_context gpu = some ptr ∧
      uvm_gpu_va_space_state
        (uvm_va_space_unregister_gpu_va_space sample_global sample_two_context 1).2 ptr =
        UVM_GPU_VA_SPACE_STATE_DEAD := by
  refine ⟨by decide, ?_⟩
  obtain ⟨gpu, ptr, w1, w2, _, _, _, _, _, _, _, w10, _⟩ :=
    c28_unregister_gpu_va_space_ok sample_global sample_two_context 1
      sample_two_context_reachable (by decide)
  exact ⟨gpu, ptr, w1, w2, w10⟩

/-- C29: the lifecycle state of a device VA context only moves forward.  Over any operation
on a reachable address space the state of no object goes back in the order INIT, ACTIVE,
DEAD: a DEAD object stays DEAD and an ACTIVE object does not become INIT.  A context as
`create_gpu_va_space` returns it is at the next free address and in the INIT state;
`add_gpu_va_space` changes the state of its argument only, to ACTIVE, and only when it
succeeds; `remove_gpu_va_space` changes the state of its argument only, from ACTIVE to DEAD,
and returns the address space and the list it was given for a null pointer and for a context
that is not ACTIVE. -/
theorem c29_lifecycle_forward (g : uvm_global_t) (s t : uvm_va_space_t) (h : Reachable g s)
    (hstep : Step g s t) :
    (∀ p, uvm_gpu_va_space_state_rank (uvm_gpu_va_space_state s p) ≤
      uvm_gpu_va_space_state_rank (uvm_gpu_va_space_state t p)) ∧
    (∀ p, uvm_gpu_va_space_state s p = UVM_GPU_VA_SPACE_STATE_DEAD →
      uvm_gpu_va_space_state t p = UVM_GPU_VA_SPACE_STATE_DEAD) ∧
    (∀ p, uvm_gpu_va_space_state s p = UVM_GPU_VA_SPACE_STATE_ACTIVE →
      uvm_gpu_va_space_state t p ≠ UVM_GPU_VA_SPACE_STATE_INIT) ∧
    (∀ rm gpu s1 ptr, create_gpu_va_space g s gpu rm = (NV_OK, s1, some ptr) →
      ptr = s.gpu_va_space_next ∧
      uvm_gpu_va_space_state s ptr = UVM_GPU_VA_SPACE_STATE_INIT ∧
      uvm_gpu_va_space_state s1 ptr = UVM_GPU_VA_SPACE_STATE_INIT) ∧
    (∀ u ptr q, uvm_gpu_va_space_state (add_gpu_va_space u ptr).2 q =
      if q = ptr ∧ (add_gpu_va_space u ptr).1 = NV_OK then UVM_GPU_VA_SPACE_STATE_ACTIVE
      else uvm_gpu_va_space_state u q) ∧
    (∀ u ptr l q, uvm_gpu_va_space_state (remove_gpu_va_space u (some ptr) l).1 q =
      if q = ptr ∧ uvm_gpu_va_space_state u ptr = UVM_GPU_VA_SPACE_STATE_ACTIVE then
        UVM_GPU_VA_SPACE_STATE_DEAD
      else uvm_gpu_va_space_state u q) ∧
    (∀ u l, remove_gpu_va_space u none l = (u, l)) ∧
    (∀ u ptr l, uvm_gpu_va_space_state u ptr ≠ UVM_GPU_VA_SPACE_STATE_ACTIVE →
      remove_gpu_va_space u (some ptr) l = (u, l)) := by
  have hs := Reachable_CtxInv h
  have hfwd := (Step_CtxInv (Reachable_Inv h) hs hstep).2
  refine ⟨hfwd, ?_, ?_, ?_, add_gpu_va_space_states, remove_gpu_va_space_states,
    fun _ _ => rfl, remove_gpu_va_space_not_active⟩
  · intro p hp
    have := hfwd p
    rw [hp] at this
    cases hq : uvm_gpu_va_space_state t p with
    | UVM_GPU_VA_SPACE_STATE_INIT => rw [hq] at this; exact absurd this (by decide)
    | UVM_GPU_VA_SPACE_STATE_ACTIVE => rw [hq] at this; exact absurd this (by decide)
    | UVM_GPU_VA_SPACE_STATE_DEAD => rfl
  · intro p hp hq
    have := hfwd p
    rw [hp, hq] at this
    exact absurd this (by decide)
  · intro rm gpu s1 ptr hcreate
    obtain ⟨hp, h1⟩ := create_gpu_va_space_ok hcreate
    subst hp
    refine ⟨rfl, hs.fresh _ le_rfl, ?_⟩
    rw [h1]
    exact congrArg uvm_gpu_va_space_t.state (gpu_va_space_store_mem_self _ _ _)

theorem c29_lifecycle_forward_witness :
    uvm_gpu_va_space_state sample_two 0 = UVM_GPU_VA_SPACE_STATE_INIT ∧
    uvm_gpu_va_space_state sample_two_context 0 = UVM_GPU_VA_SPACE_STATE_ACTIVE ∧
    uvm_gpu_va_space_state_rank (uvm_gpu_va_space_state sample_two 0) ≤
      uvm_gpu_va_space_state_rank (uvm_gpu_va_space_state sample_two_context 0) :=
  ⟨by decide, by decide,
    (c29_lifecycle_forward sample_global sample_two sample_two_context sample_two_reachable
      (Step.register_gpu_va_space sample_two sample_rm 1)).1 0⟩

/-! ## Lemmas: the deallocation of a device VA context -/

theorem CtxInv_freed_states {s : uvm_va_space_t} (hs : CtxInv s) (p : Nat)
    (hp : (s.gpu_va_space_mem p).freed = true) :
    uvm_gpu_va_space_state s p = UVM_GPU_VA_SPACE_STATE_INIT ∨
    uvm_gpu_va_space_state s p = UVM_GPU_VA_SPACE_STATE_DEAD := by
  have := hs.freed p hp
  unfold uvm_gpu_va_space_state
  cases hq : (s.gpu_va_space_mem p).state with
  | UVM_GPU_VA_SPACE_STATE_INIT => exact Or.inl rfl
  | UVM_GPU_VA_SPACE_STATE_ACTIVE => exact absurd hq this
  | UVM_GPU_VA_SPACE_STATE_DEAD => exact Or.inr rfl

/-- C30 as the specification states it does not hold: the registration of a context for the
device 1, which is not registered in the created address space, fails with
`NV_ERR_INVALID_DEVICE` and frees the context it created, whose state is INIT. -/
theorem c30_counterexample :
    (sample_created.gpu_va_space_mem 0).freed = false ∧
    (uvm_va_space_register_gpu_va_space sample_global sample_created sample_rm 1).1 =
      NV_ERR_INVALID_DEVICE ∧
    ((uvm_va_space_register_gpu_va_space sample_global sample_created sample_rm
      1).2.gpu_va_space_mem 0).freed = true ∧
    ((uvm_va_space_register_gpu_va_space sample_global sample_created sample_rm
      1).2.gpu_va_space_mem 0).kref = 0 ∧
    uvm_gpu_va_space_state
      (uvm_va_space_register_gpu_va_space sample_global sample_created sample_rm 1).2 0 =
      UVM_GPU_VA_SPACE_STATE_INIT := by
  refine ⟨by decide, by decide, by decide, by decide, by decide⟩

/-- C30: a device VA context is freed only when its reference count reaches zero, in the
INIT or in the DEAD state.  `uvm_gpu_va_space_release`, and `destroy_gpu_va_space` which
ends with it, mark as freed only an object whose count drops to zero and touch no other
object; in every reachable address space, and so after every
`uvm_va_space_register_gpu_va_space`, a freed object is INIT or DEAD, never ACTIVE. -/
theorem c30_free_gpu_va_space (g : uvm_global_t) (s : uvm_va_space_t) (h : Reachable g s) :
    (∀ u p, ((uvm_gpu_va_space_release u (some p)).gpu_va_space_mem p).freed = true →
      (u.gpu_va_space_mem p).freed = true ∨ (u.gpu_va_space_mem p).kref - 1 = 0) ∧
    (∀ u p q, q ≠ p →
      (uvm_gpu_va_space_release u (some p)).gpu_va_space_mem q = u.gpu_va_space_mem q) ∧
    (∀ u p, ((destroy_gpu_va_space u (some p)).gpu_va_space_mem p).freed = true →
      (u.gpu_va_space_mem p).freed = true ∨ (u.gpu_va_space_mem p).kref - 1 = 0) ∧
    (∀ u p q, q ≠ p →
      (destroy_gpu_va_space u (some p)).gpu_va_space_mem q = u.gpu_va_space_mem q) ∧
    (∀ p, (s.gpu_va_space_mem p).freed = true →
      uvm_gpu_va_space_state s p = UVM_GPU_VA_SPACE_STATE_INIT ∨
      uvm_gpu_va_space_state s p = UVM_GPU_VA_SPACE_STATE_DEAD) ∧
    (∀ rm gpu_uuid p,
      ((uvm_va_space_register_gpu_va_space g s rm gpu_uuid).2.gpu_va_space_mem p).freed = true →
      uvm_gpu_va_space_state (uvm_va_space_register_gpu_va_space g s rm gpu_uuid).2 p =
        UVM_GPU_VA_SPACE_STATE_INIT ∨
      uvm_gpu_va_space_state (uvm_va_space_register_gpu_va_space g s rm gpu_uuid).2 p =
        UVM_GPU_VA_SPACE_STATE_DEAD) := by
  refine ⟨?_, ?_, ?_, ?_, CtxInv_freed_states (Reachable_CtxInv h), ?_⟩
  · intro u p hf
    rw [uvm_gpu_va_space_release_mem] at hf
    by_cases hk : (u.gpu_va_space_mem p).kref - 1 = 0
    · exact Or.inr hk
    · left
      simpa [hk] using hf
  · intro u p q hq
    exact if_neg hq
  · intro u p hf
    rw [(destroy_gpu_va_space_frame u p).2.2.2.2.2.2] at hf
    by_cases hk : (u.gpu_va_space_mem p).kref - 1 = 0
    · exact Or.inr hk
    · left
      simpa [hk] using hf
  · intro u p q hq
    exact (destroy_gpu_va_space_frame u p).2.2.2.1 q hq
  · intro rm gpu_uuid
    exact CtxInv_freed_states
      (Reachable_CtxInv (Reachable.register_gpu_va_space s rm gpu_uuid h))

theorem c30_free_gpu_va_space_witness :
    uvm_gpu_va_space_state
        (uvm_va_space_register_gpu_va_space sample_global sample_created sample_rm 1).2 0 =
        UVM_GPU_VA_SPACE_STATE_INIT ∨
      uvm_gpu_va_space_state
        (uvm_va_space_register_gpu_va_space sample_global sample_created sample_rm 1).2 0 =
        UVM_GPU_VA_SPACE_STATE_DEAD :=
  (c30_free_gpu_va_space sample_global sample_created sample_created_reachable).2.2.2.2.2
    sample_rm 1 0 (by decide)

/-! ## The claims on the transpose and on the closest processor -/

/-- C37: in every reachable address space `accessible_from` is the transpose of
`can_access`: for all processor ids `x` and `y`, the host included, the bit `[x][y]` of
`can_access` equals the bit `[y][x]` of `accessible_from`, so that one is set exactly when
the other is. -/
theorem c37_accessible_from_transpose (g : uvm_global_t) (s : uvm_va_space_t)
    (h : Reachable g s) (x y : Nat) :
    s.can_access x y = s.accessible_from y x ∧
    (uvm_processor_mask_test (s.can_access x) y = true ↔
      uvm_processor_mask_test (s.accessible_from y) x = true) := by
  have ht := (Reachable_Inv h).1.transpose x y
  refine ⟨ht, ?_⟩
  unfold uvm_processor_mask_test
  rw [ht]

theorem c37_accessible_from_transpose_witness :
    (sample_two.can_access 1 2 = sample_two.accessible_from 2 1 ∧
      (uvm_processor_mask_test (sample_two.can_access 1) 2 = true ↔
        uvm_processor_mask_test (sample_two.accessible_from 2) 1 = true)) ∧
    sample_two.can_access 1 2 = true ∧ sample_two.can_access 0 1 = false ∧
    sample_two.accessible_from 1 0 = false :=
  ⟨c37_accessible_from_transpose sample_global sample_two sample_two_reachable 1 2,
    by decide, by decide, by decide⟩

theorem find_range_spec (p : Nat → Bool) (n : Nat) :
    ((List.range n).find? p = none ∧ ∀ i, i < n → p i = false) ∨
    ∃ r, (List.range n).find? p = some r ∧ r < n ∧ p r = true ∧ ∀ j, j < r → p j = false := by
  induction n with
  | zero =>
    left
    exact ⟨rfl, fun i hi => absurd hi (Nat.not_lt_zero i)⟩
  | succ n ih =>
    rw [List.range_succ, List.find?_append]
    rcases ih with ⟨h1, h2⟩ | ⟨r, h1, h2, h3, h4⟩
    · rw [h1]
      cases hp : p n with
      | false =>
        left
        refine ⟨by simp [hp], ?_⟩
        intro i hi
        rcases Nat.lt_succ_iff_lt_or_eq.mp hi with hlt | rfl
        · exact h2 i hlt
        · exact hp
      | true =>
        right
        exact ⟨n, by simp [hp], Nat.lt_succ_self n, hp, h2⟩
    · right
      rw [h1]
      exact ⟨r, by simp, Nat.lt_succ_of_lt h2, h3, h4⟩

/-- What `uvm_processor_mask_find_next_id` returns: the lowest id of the mask from `min_id`
on, or `UVM_MAX_PROCESSORS` when the mask has no such id. -/
theorem uvm_processor_mask_find_next_id_spec (mask : uvm_processor_mask_t) (min_id : Nat) :
    (uvm_processor_mask_find_next_id mask min_id = UVM_MAX_PROCESSORS ∧
      ∀ i, min_id ≤ i → i < UVM_MAX_PROCESSORS → mask i = false) ∨
    (uvm_processor_mask_find_next_id mask min_id < UVM_MAX_PROCESSORS ∧
      min_id ≤ uvm_processor_mask_find_next_id mask min_id ∧
      mask (uvm_processor_mask_find_next_id mask min_id) = true ∧
      ∀ j, min_id ≤ j → j < uvm_processor_mask_find_next_id mask min_id → mask j = false) := by
  unfold uvm_processor_mask_find_next_id
  rcases find_range_spec (fun i => decide (min_id ≤ i) && mask i) UVM_MAX_PROCESSORS with
    ⟨h1, h2⟩ | ⟨r, h1, h2, h3, h4⟩
  · left
    rw [h1]
    refine ⟨rfl, ?_⟩
    intro i hi hlt
    have := h2 i hlt
    simpa [hi] using this
  · right
    rw [h1]
    simp only [Option.getD_some, Bool.and_eq_true, decide_eq_true_eq] at h3 ⊢
    refine ⟨h2, h3.1, h3.2, ?_⟩
    intro j hj hlt
    have := h4 j hlt
    simpa [hj] using this

theorem uvm_processor_mask_empty_iff (mask : uvm_processor_mask_t) :
    uvm_processor_mask_empty mask = true ↔ ∀ i, i < UVM_MAX_PROCESSORS → mask i = false := by
  unfold uvm_processor_mask_empty
  simp [List.all_eq_true, List.mem_range]

theorem uvm_processor_mask_find_next_id_eq {mask : uvm_processor_mask_t} {min_id r : Nat}
    (hk : min_id ≤ r) (hr : r < UVM_MAX_PROCESSORS) (hm : mask r = true)
    (hmin : ∀ j, min_id ≤ j → j < r → mask j = false) :
    uvm_processor_mask_find_next_id mask min_id = r := by
  rcases uvm_processor_mask_find_next_id_spec mask min_id with ⟨_, h2⟩ | ⟨_, h2, h3, h4⟩
  · rw [h2 r hk hr] at hm
    cases hm
  · rcases Nat.lt_trichotomy (uvm_processor_mask_find_next_id mask min_id) r with hlt | heq | hgt
    · rw [hmin _ h2 hlt] at h3
      cases h3
    · exact heq
    · rw [h4 r hk hgt] at hm
      cases hm

theorem uvm_processor_mask_empty_false {mask : uvm_processor_mask_t} {r : Nat}
    (hr : r < UVM_MAX_PROCESSORS) (hm : mask r = true) :
    uvm_processor_mask_empty mask = false := by
  cases he : uvm_processor_mask_empty mask with
  | false => rfl
  | true =>
    rw [(uvm_processor_mask_empty_iff mask).mp he r hr] at hm
    cases hm

theorem uvm_processor_mask_empty_true {mask : uvm_processor_mask_t}
    (h : ∀ i, i < UVM_MAX_PROCESSORS → mask i = false) :
    uvm_processor_mask_empty mask = true :=
  (uvm_processor_mask_empty_iff mask).mpr h

/-- C39: `uvm_processor_mask_find_closest_id` returns `src` when `src` is a candidate.
Otherwise it returns the lowest candidate that is a direct NVLink peer of `src` (in
`has_nvlink[src]` and not in `indirect_peers[src]`); when there is none, the lowest candidate
in `has_nvlink[src]`; when there is none and `src` is not the host, the lowest device
candidate in `can_access[src]`; and in what remains the lowest candidate.  When there is a
candidate the result is a candidate. -/
theorem c39_find_closest_id (s : uvm_va_space_t) (candidates : uvm_processor_mask_t)
    (src : Nat) :
    (candidates src = true → uvm_processor_mask_find_closest_id s candidates src = src) ∧
    (candidates src = false →
      (∀ r, r < UVM_MAX_PROCESSORS →
        (candidates r && s.has_nvlink src r && !s.indirect_peers src r) = true →
        (∀ j, j < r →
          (candidates j && s.has_nvlink src j && !s.indirect_peers src j) = false) →
        uvm_processor_mask_find_closest_id s candidates src = r) ∧
      ((∀ i, i < UVM_MAX_PROCESSORS →
          (candidates i && s.has_nvlink src i && !s.indirect_peers src i) = false) →
        ∀ r, r < UVM_MAX_PROCESSORS → (candidates r && s.has_nvlink src r) = true →
        (∀ j, j < r → (candidates j && s.has_nvlink src j) = false) →
        uvm_processor_mask_find_closest_id s candidates src = r) ∧
      ((∀ i, i < UVM_MAX_PROCESSORS → (candidates i && s.has_nvlink src i) = false) →
        src ≠ UVM_CPU_ID →
        ∀ r, UVM_CPU_ID < r → r < UVM_MAX_PROCESSORS →
        (candidates r && s.can_access src r) = true →
        (∀ j, UVM_CPU_ID < j → j < r → (candidates j && s.can_access src j) = false) →
        uvm_processor_mask_find_closest_id s candidates src = r) ∧
      ((∀ i, i < UVM_MAX_PROCESSORS → (candidates i && s.has_nvlink src i) = false) →
        (src = UVM_CPU_ID ∨ ∀ i, UVM_CPU_ID < i → i < UVM_MAX_PROCESSORS →
          (candidates i && s.can_access src i) = false) →
        ∀ r, r < UVM_MAX_PROCESSORS → candidates r = true →
        (∀ j, j < r → candidates j = false) →
        uvm_processor_mask_find_closest_id s candidates src = r) ∧
      ((∃ i, i < UVM_MAX_PROCESSORS ∧ candidates i = true) →
        uvm_processor_mask_find_closest_id s candidates src < UVM_MAX_PROCESSORS ∧
        candidates (uvm_processor_mask_find_closest_id s candidates src) = true)) := by
  refine ⟨?_, ?_⟩
  · intro hsrc
    unfold uvm_processor_mask_find_closest_id uvm_processor_mask_test
    rw [if_pos hsrc]
  intro hsrc
  have hstart : uvm_processor_mask_find_closest_id s candidates src =
      (if (!uvm_processor_mask_empty
          (uvm_processor_mask_andnot (uvm_processor_mask_and candidates (s.has_nvlink src))
            (s.indirect_peers src))) = true then
        uvm_processor_mask_find_first_id
          (uvm_processor_mask_andnot (uvm_processor_mask_and candidates (s.has_nvlink src))
            (s.indirect_peers src))
      else if (!uvm_processor_mask_empty
          (uvm_processor_mask_and candidates (s.has_nvlink src))) = true then
        uvm_processor_mask_find_first_id (uvm_processor_mask_and candidates (s.has_nvlink src))
      else if src ≠ UVM_CPU_ID ∧
          (if src ≠ UVM_CPU_ID then
            uvm_processor_mask_find_next_id
              (uvm_processor_mask_and candidates (s.can_access src)) (UVM_CPU_ID + 1)
          else UVM_MAX_PROCESSORS) ≠ UVM_MAX_PROCESSORS then
        (if src ≠ UVM_CPU_ID then
          uvm_processor_mask_find_next_id
            (uvm_processor_mask_and candidates (s.can_access src)) (UVM_CPU_ID + 1)
        else UVM_MAX_PROCESSORS)
      else uvm_processor_mask_find_first_id candidates) := by
    unfold uvm_processor_mask_find_closest_id uvm_processor_mask_test
    rw [if_neg (by rw [hsrc]; exact Bool.false_ne_true)]
  have hdirect_empty : (∀ i, i < UVM_MAX_PROCESSORS →
      (candidates i && s.has_nvlink src i && !s.indirect_peers src i) = false) →
      uvm_processor_mask_empty
        (uvm_processor_mask_andnot (uvm_processor_mask_and candidates (s.has_nvlink src))
          (s.indirect_peers src)) = true := fun h => uvm_processor_mask_empty_true h
  have hnv_empty : (∀ i, i < UVM_MAX_PROCESSORS →
      (candidates i && s.has_nvlink src i) = false) →
      uvm_processor_mask_empty (uvm_processor_mask_and candidates (s.has_nvlink src)) = true :=
    fun h => uvm_processor_mask_empty_true h
  have hnv_direct : (∀ i, i < UVM_MAX_PROCESSORS →
      (candidates i && s.has_nvlink src i) = false) →
      ∀ i, i < UVM_MAX_PROCESSORS →
        (candidates i && s.has_nvlink src i && !s.indirect_peers src i) = false := by
    intro h i hi
    rw [h i hi]
    rfl
  refine ⟨?_, ?_, ?_, ?_, ?_⟩
  · intro r hr hm hmin
    rw [hstart, uvm_processor_mask_empty_false (r := r) hr hm]
    simp only [Bool.not_false, if_true]
    exact uvm_processor_mask_find_next_id_eq (Nat.zero_le r) hr hm (fun j _ hj => hmin j hj)
  · intro hnone r hr hm hmin
    rw [hstart, hdirect_empty hnone, uvm_processor_mask_empty_false (r := r) hr hm]
    simp only [Bool.not_true, Bool.false_eq_true, if_false, Bool.not_false, if_true]
    exact uvm_processor_mask_find_next_id_eq (Nat.zero_le r) hr hm (fun j _ hj => hmin j hj)
  · intro hnone hhost r hpos hr hm hmin
    rw [hstart, hdirect_empty (hnv_direct hnone), hnv_empty hnone]
    have hfind : uvm_processor_mask_find_next_id
        (uvm_processor_mask_and candidates (s.can_access src)) (UVM_CPU_ID + 1) = r :=
      uvm_processor_mask_find_next_id_eq hpos hr hm (fun j hj hlt => hmin j hj hlt)
    simp only [Bool.not_true, Bool.false_eq_true, if_false, if_pos hhost, hfind]
    rw [if_pos ⟨hhost, Nat.ne_of_lt hr⟩]
  · intro hnone hpcie r hr hm hmin
    rw [hstart, hdirect_empty (hnv_direct hnone), hnv_empty hnone]
    simp only [Bool.not_true, Bool.false_eq_true, if_false]
    have hfirst : uvm_processor_mask_find_first_id candidates = r :=
      uvm_processor_mask_find_next_id_eq (Nat.zero_le r) hr hm (fun j _ hj => hmin j hj)
    rw [hfirst]
    rcases hpcie with hhost | hnopcie
    · rw [if_neg (fun hc => hc.1 hhost)]
    · by_cases hhost : src = UVM_CPU_ID
      · rw [if_neg (fun hc => hc.1 hhost)]
      · rw [if_pos hhost]
        rcases uvm_processor_mask_find_next_id_spec
          (uvm_processor_mask_and candidates (s.can_access src)) (UVM_CPU_ID + 1) with
          ⟨h1, _⟩ | ⟨h1, h2, h3, _⟩
        · rw [h1, if_neg (fun hc => hc.2 rfl)]
        · exact absurd ((hnopcie _ h2 h1).symm.trans h3) Bool.false_ne_true
  · rintro ⟨i, hi, hci⟩
    rw [hstart]
    have hsub : ∀ (m : uvm_processor_mask_t) (k : Nat),
        (∀ j, m j = true → candidates j = true) →
        uvm_processor_mask_find_next_id m k ≠ UVM_MAX_PROCESSORS →
        uvm_processor_mask_find_next_id m k < UVM_MAX_PROCESSORS ∧
        candidates (uvm_processor_mask_find_next_id m k) = true := by
      intro m k hm hne
      rcases uvm_processor_mask_find_next_id_spec m k with ⟨h1, _⟩ | ⟨h1, _, h3, _⟩
      · exact absurd h1 hne
      · exact ⟨h1, hm _ h3⟩
    have hne : ∀ (m : uvm_processor_mask_t), uvm_processor_mask_empty m = false →
        uvm_processor_mask_find_next_id m 0 ≠ UVM_MAX_PROCESSORS := by
      intro m hm hc
      rcases uvm_processor_mask_find_next_id_spec m 0 with ⟨_, h2⟩ | ⟨h1, _, _, _⟩
      · rw [uvm_processor_mask_empty_true (fun j hj => h2 j (Nat.zero_le j) hj)] at hm
        cases hm
      · rw [hc] at h1
        exact absurd h1 (Nat.lt_irrefl _)
    have hlast := hsub candidates 0 (fun _ hj => hj)
      (hne candidates (uvm_processor_mask_empty_false hi hci))
    by_cases h1 : (!uvm_processor_mask_empty
        (uvm_processor_mask_andnot (uvm_processor_mask_and candidates (s.has_nvlink src))
          (s.indirect_peers src))) = true
    · rw [if_pos h1]
      refine hsub _ 0 ?_ (hne _ (by simpa using h1))
      intro j hj
      simp only [uvm_processor_mask_andnot, uvm_processor_mask_and, Bool.and_eq_true] at hj
      exact hj.1.1
    rw [if_neg h1]
    by_cases h2 : (!uvm_processor_mask_empty
        (uvm_processor_mask_and candidates (s.has_nvlink src))) = true
    · rw [if_pos h2]
      refine hsub _ 0 ?_ (hne _ (by simpa using h2))
      intro j hj
      simp only [uvm_processor_mask_and, Bool.and_eq_true] at hj
      exact hj.1
    rw [if_neg h2]
    by_cases hhost : src = UVM_CPU_ID
    · rw [if_neg (fun hc => hc.1 hhost)]
      exact hlast
    rw [if_pos hhost]
    by_cases h3 : uvm_processor_mask_find_next_id
        (uvm_processor_mask_and candidates (s.can_access src)) (UVM_CPU_ID + 1) =
          UVM_MAX_PROCESSORS
    · rw [if_neg (fun hc => hc.2 h3)]
      exact hlast
    · rw [if_pos ⟨hhost, h3⟩]
      refine hsub _ _ ?_ h3
      intro j hj
      simp only [uvm_processor_mask_and, Bool.and_eq_true] at hj
      exact hj.1

theorem c39_find_closest_id_witness :
    uvm_processor_mask_find_closest_id sample_two (fun i => decide (i = 0 ∨ i = 2)) 1 = 0 ∧
    uvm_processor_mask_find_closest_id sample_two (fun i => decide (i = 2)) 1 = 2 ∧
    uvm_processor_mask_find_closest_id sample_two (fun i => decide (i = 0 ∨ i = 1)) 1 = 1 :=
  ⟨((c39_find_closest_id sample_two (fun i => decide (i = 0 ∨ i = 2)) 1).2 (by decide)).1 0
      (by decide) (by decide) (fun j hj => absurd hj (Nat.not_lt_zero j)),
    ((c39_find_closest_id sample_two (fun i => decide (i = 2)) 1).2 (by decide)).1 2
      (by decide) (by decide) (by
        intro j hj
        have hj2 : j = 0 ∨ j = 1 := by omega
        rcases hj2 with rfl | rfl <;> decide),
    (c39_find_closest_id sample_two (fun i => decide (i = 0 ∨ i = 1)) 1).1 (by decide)⟩

/-! ## Lemmas: the page directory in `destroy_gpu_va_space` -/

/-- What `destroy_gpu_va_space` does to the page directory of the object: it is unset when it
was set, with one call, and it is not set afterwards. -/
theorem destroy_gpu_va_space_page_dir (s : uvm_va_space_t) (p : Nat) :
    ((destroy_gpu_va_space s (some p)).gpu_va_space_mem p).did_set_page_directory = false ∧
    ((destroy_gpu_va_space s (some p)).gpu_va_space_mem p).unset_page_directory_calls =
      (s.gpu_va_space_mem p).unset_page_directory_calls +
        (if (s.gpu_va_space_mem p).did_set_page_directory = true then 1 else 0) := by
  have h0 : (uvm_gpu_va_space_unset_page_dir (s.gpu_va_space_mem p)).did_set_page_directory =
        false ∧
      (uvm_gpu_va_space_unset_page_dir (s.gpu_va_space_mem p)).unset_page_directory_calls =
        (s.gpu_va_space_mem p).unset_page_directory_calls +
          (if (s.gpu_va_space_mem p).did_set_page_directory = true then 1 else 0) := by
    unfold uvm_gpu_va_space_unset_page_dir
    split_ifs with h
    · exact ⟨rfl, rfl⟩
    · exact ⟨by simpa using h, rfl⟩
  generalize (s.gpu_va_space_mem p).unset_page_directory_calls +
    (if (s.gpu_va_space_mem p).did_set_page_directory = true then 1 else 0) = n at h0 ⊢
  unfold destroy_gpu_va_space
  simp only
  generalize uvm_gpu_va_space_unset_page_dir (s.gpu_va_space_mem p) = o1 at h0 ⊢
  generalize ho2 : (if o1.page_tables_root = true then _ else o1) = o2
  have h1 : o2.did_set_page_directory = false ∧
      o2.unset_page_directory_calls = n := by
    rw [← ho2]
    split_ifs <;> exact h0
  generalize ho3 : (if o2.duped_gpu_va_space = true then _ else o2) = o3
  have h2 : o3.did_set_page_directory = false ∧
      o3.unset_page_directory_calls = n := by
    rw [← ho3]
    split_ifs <;> exact h1
  generalize hu : (if o3.state = UVM_GPU_VA_SPACE_STATE_DEAD then _
    else gpu_va_space_store s p o3) = u
  have humem : u.gpu_va_space_mem p = o3 := by
    rw [← hu]
    split_ifs <;> exact gpu_va_space_store_mem_self s p o3
  rw [uvm_gpu_va_space_release_mem, humem]
  exact h2

/-! ## The claims on the task scheduler -/

theorem TaskDone_empty (fuel : Nat) (tasks : task_list_t) (task_idx : Nat)
    (h : tasks.running_last = 0) : TaskDone fuel tasks task_idx = Except.ok (0, tasks) := by
  unfold TaskDone
  rw [if_pos h]

/-- With no ready entry (`waiting_last = ready_last`) the last part of `TaskDone` returns
`task_end` and leaves the list as it is. -/
theorem TaskDone_pick_none (tasks : task_list_t) (h : tasks.waiting_last = tasks.ready_last) :
    TaskDone_pick tasks = Except.ok (tasks.task_end, tasks) := by
  unfold TaskDone_pick
  simp only [h, ne_eq, not_true_eq_false, if_false]

/-- What the loop over the ready entries returns: a value that is at most the start value and
at most every entry visited, and that is the start value (with `j` as it was) or the entry
at the position `j` returned, which was visited. -/
theorem TaskDone_lowest_spec (tasks : task_list_t) (l : List Nat)
    (hl : ∀ i ∈ l, i < MAX_TASKS) (task_idx j : Nat) :
    ∃ m k, TaskDone_lowest tasks l task_idx j = Except.ok (m, k) ∧ m ≤ task_idx ∧
      (∀ i ∈ l, m ≤ tasks.idx_list i) ∧
      ((m = task_idx ∧ k = j) ∨ (k ∈ l ∧ tasks.idx_list k = m ∧ m < task_idx)) := by
  induction l generalizing task_idx j with
  | nil =>
    exact ⟨task_idx, j, rfl, Nat.le_refl _, fun i hi => (by cases hi), Or.inl ⟨rfl, rfl⟩⟩
  | cons i rest ih =>
    have hi : ¬MAX_TASKS ≤ i := Nat.not_le.mpr (hl i (List.mem_cons_self i rest))
    have hrest : ∀ x ∈ rest, x < MAX_TASKS := fun x hx => hl x (List.mem_cons_of_mem i hx)
    unfold TaskDone_lowest
    rw [if_neg hi]
    by_cases hlt : tasks.idx_list i < task_idx
    · rw [if_pos hlt]
      obtain ⟨m, k, h1, h2, h3, h4⟩ := ih hrest (tasks.idx_list i) i
      refine ⟨m, k, h1, Nat.le_trans h2 (Nat.le_of_lt hlt), ?_, ?_⟩
      · intro x hx
        rcases List.mem_cons.mp hx with rfl | hx
        · exact h2
        · exact h3 x hx
      · rcases h4 with ⟨h5, h6⟩ | ⟨h5, h6, h7⟩
        · right
          refine ⟨?_, ?_, ?_⟩
          · rw [h6]
            exact List.mem_cons_self i rest
          · rw [h6, h5]
          · rw [h5]
            exact hlt
        · exact Or.inr ⟨List.mem_cons_of_mem i h5, h6, Nat.lt_trans h7 hlt⟩
    · rw [if_neg hlt]
      obtain ⟨m, k, h1, h2, h3, h4⟩ := ih hrest task_idx j
      refine ⟨m, k, h1, h2, ?_, ?_⟩
      · intro x hx
        rcases List.mem_cons.mp hx with rfl | hx
        · exact Nat.le_trans h2 (Nat.not_lt.mp hlt)
        · exact h3 x hx
      · rcases h4 with h4 | ⟨h5, h6, h7⟩
        · exact Or.inl h4
        · exact Or.inr ⟨List.mem_cons_of_mem i h5, h6, h7⟩

/-- With a ready entry inside the array, the last part of `TaskDone` returns the lowest entry
of `idx_list[waiting_last .. ready_last)` that is below `task_end`, and `task_end` when there
is none. -/
theorem TaskDone_pick_lowest (tasks : task_list_t) (h1 : 0 < tasks.waiting_last)
    (h2 : tasks.waiting_last < tasks.ready_last) (h3 : tasks.ready_last ≤ MAX_TASKS) :
    ∃ m t, TaskDone_pick tasks = Except.ok (m, t) ∧ m ≤ tasks.task_end ∧
      (∀ i, tasks.waiting_last ≤ i → i < tasks.ready_last → m ≤ tasks.idx_list i) ∧
      (m = tasks.task_end ∨
        ∃ k, tasks.waiting_last ≤ k ∧ k < tasks.ready_last ∧ tasks.idx_list k = m) := by
  have hmem : ∀ i, i ∈ List.range' tasks.waiting_last (tasks.ready_last - tasks.waiting_last) ↔
      tasks.waiting_last ≤ i ∧ i < tasks.ready_last := by
    intro i
    rw [List.mem_range'_1]
    omega
  obtain ⟨m, k, e1, e2, e3, e4⟩ := TaskDone_lowest_spec tasks
    (List.range' tasks.waiting_last (tasks.ready_last - tasks.waiting_last))
    (fun i hi => Nat.lt_of_lt_of_le ((hmem i).mp hi).2 h3) tasks.task_end 0
  have hk : k < MAX_TASKS := by
    rcases e4 with ⟨_, rfl⟩ | ⟨hk, _, _⟩
    · exact Nat.lt_of_lt_of_le (Nat.lt_trans h1 h2) h3
    · exact Nat.lt_of_lt_of_le ((hmem k).mp hk).2 h3
  have hdec : unsigned_dec tasks.waiting_last = tasks.waiting_last - 1 := by
    unfold unsigned_dec UINT_MAX
    have hb : tasks.waiting_last < MAX_TASKS := Nat.lt_of_lt_of_le h2 h3
    unfold MAX_TASKS at hb
    omega
  have hw : ¬(MAX_TASKS ≤ k ∨ MAX_TASKS ≤ unsigned_dec tasks.waiting_last) := by
    rw [hdec]
    have hb : tasks.waiting_last < MAX_TASKS := Nat.lt_of_lt_of_le h2 h3
    omega
  unfold TaskDone_pick
  simp only
  rw [if_pos (Nat.ne_of_lt h2), e1]
  simp only
  rw [if_neg hw]
  refine ⟨m, _, rfl, e2, fun i hi1 hi2 => e3 i ((hmem i).mpr ⟨hi1, hi2⟩), ?_⟩
  rcases e4 with ⟨e5, _⟩ | ⟨e5, e6, _⟩
  · exact Or.inl e5
  · exact Or.inr ⟨k, ((hmem k).mp e5).1, ((hmem k).mp e5).2, e6⟩

/-- C35, as the source has it: with an empty list of the current type (`running_last = 0`)
`TaskDone` returns 0, which is not `task_end` when there are tasks, and `WorkingThread`,
which tests the value against `task_end`, calls the init function of task 0.  And with one
ready task and no waiting task, as `Prepare` leaves a single task that does not wait,
`TaskDone` decrements `waiting_last` below zero and leaves the array instead of returning
the task. -/
theorem c35_task_done_empty_list :
    sample_tasks.running_last = 0 ∧ sample_tasks.task_end = 2 ∧
    TaskDone 0 sample_tasks sample_tasks.task_end = Except.ok (0, sample_tasks) ∧
    WorkingThread_round 0 sample_tasks sample_tasks.task_end =
      Except.ok (some 0, sample_tasks) ∧
    (∃ t, Prepare sample_tasks_single 0 = Except.ok t ∧ t.waiting_last = 0 ∧
      t.ready_last = 1 ∧ t.running_last = 1 ∧ t.idx_list 0 = 0 ∧ t.task_end = 1 ∧
      TaskDone 0 t t.task_end = Except.error async_fault_t.out_of_bounds) :=
  ⟨rfl, rfl, rfl, rfl, _, rfl, rfl, rfl, rfl, rfl, rfl, rfl⟩

theorem Prepare_select_last (type : Nat) (l : List Nat) (tasks t : task_list_t)
    (h : Prepare_select type l tasks = Except.ok t) :
    tasks.last ≤ t.last ∧ t.all = tasks.all ∧ t.task_end = tasks.task_end ∧
    ∀ k, k < tasks.last → t.idx_list k = tasks.idx_list k := by
  induction l generalizing tasks with
  | nil =>
    unfold Prepare_select at h
    cases h
    exact ⟨Nat.le_refl _, rfl, rfl, fun _ _ => rfl⟩
  | cons idx rest ih =>
    unfold Prepare_select at h
    by_cases h1 : MAX_TASKS ≤ idx
    · rw [if_pos h1] at h
      cases h
    rw [if_neg h1] at h
    by_cases h2 : (tasks.all idx).type = type
    · rw [if_pos h2] at h
      by_cases h3 : MAX_TASKS ≤ tasks.last
      · rw [if_pos h3] at h
        cases h
      rw [if_neg h3] at h
      obtain ⟨i1, i2, i3, i4⟩ := ih _ h
      refine ⟨Nat.le_trans (Nat.le_succ _) i1, i2, i3, ?_⟩
      intro k hk
      rw [i4 k (Nat.lt_succ_of_lt hk)]
      exact if_neg (Nat.ne_of_lt hk)
    · rw [if_neg h2] at h
      exact ih _ h

/-- The first loop of `Prepare` by itself is right: when it returns, the entries it appended
to `idx_list` are exactly the tasks of the type among those it visited. -/
theorem Prepare_select_spec (type : Nat) (l : List Nat) (tasks t : task_list_t)
    (h : Prepare_select type l tasks = Except.ok t) :
    (∀ k, tasks.last ≤ k → k < t.last →
      t.idx_list k ∈ l ∧ (tasks.all (t.idx_list k)).type = type) ∧
    (∀ idx ∈ l, (tasks.all idx).type = type →
      ∃ k, tasks.last ≤ k ∧ k < t.last ∧ t.idx_list k = idx) := by
  induction l generalizing tasks with
  | nil =>
    unfold Prepare_select at h
    cases h
    exact ⟨fun k h1 h2 => absurd (Nat.lt_of_le_of_lt h1 h2) (Nat.lt_irrefl _),
      fun idx hidx => by cases hidx⟩
  | cons idx rest ih =>
    unfold Prepare_select at h
    by_cases h1 : MAX_TASKS ≤ idx
    · rw [if_pos h1] at h
      cases h
    rw [if_neg h1] at h
    by_cases h2 : (tasks.all idx).type = type
    · rw [if_pos h2] at h
      by_cases h3 : MAX_TASKS ≤ tasks.last
      · rw [if_pos h3] at h
        cases h
      rw [if_neg h3] at h
      obtain ⟨i1, i2⟩ := ih _ h
      obtain ⟨j1, _, _, j4⟩ := Prepare_select_last type rest _ t h
      have hnew : t.idx_list tasks.last = idx := by
        rw [j4 tasks.last (Nat.lt_succ_self _)]
        exact if_pos rfl
      refine ⟨?_, ?_⟩
      · intro k hk1 hk2
        rcases Nat.eq_or_lt_of_le hk1 with heq | hlt
        · rw [← heq, hnew]
          exact ⟨List.mem_cons_self idx rest, h2⟩
        · obtain ⟨a, b⟩ := i1 k hlt hk2
          exact ⟨List.mem_cons_of_mem idx a, b⟩
      · intro x hx hty
        rcases List.mem_cons.mp hx with rfl | hx
        · exact ⟨tasks.last, Nat.le_refl _, j1, hnew⟩
        · obtain ⟨k, a, b, c⟩ := i2 x hx hty
          exact ⟨k, Nat.le_of_succ_le a, b, c⟩
    · rw [if_neg h2] at h
      obtain ⟨i1, i2⟩ := ih _ h
      refine ⟨?_, ?_⟩
      · intro k hk1 hk2
        obtain ⟨a, b⟩ := i1 k hk1 hk2
        exact ⟨List.mem_cons_of_mem idx a, b⟩
      · intro x hx hty
        rcases List.mem_cons.mp hx with rfl | hx
        · exact absurd hty h2
        · exact i2 x hx hty

/-- C36, as the source has it: `Prepare(0)` on two tasks, task 0 of type 1 and task 1 of
type 0, returns with `last = 1` and task 0, which is of type 1, in `idx_list[0]`: the last
loop runs to `task_end`, reads the entry `idx_list[1]` past `last` and exchanges it with
entry 0.  On two tasks as `FillTasks` leaves them (every waiting count is one) the loop
without a bound runs off the array. -/
theorem c36_prepare_other_type_and_overrun :
    (sample_tasks.all 0).type = 1 ∧ (sample_tasks.all 1).type = 0 ∧
    (∃ t, Prepare sample_tasks 0 = Except.ok t ∧ t.last = 1 ∧ t.idx_list 0 = 0 ∧
      (t.all (t.idx_list 0)).type = 1 ∧ t.waiting_last = 1) ∧
    Prepare sample_tasks_filled 0 = Except.error async_fault_t.out_of_bounds := by
  refine ⟨rfl, rfl, ⟨_, rfl, rfl, rfl, rfl, rfl⟩, ?_⟩
  set_option maxRecDepth 100000 in rfl

theorem TaskDone_release_pass_child_count (task_idx : Nat) (l : List Nat)
    (tasks t : task_list_t) (h : TaskDone_release_pass task_idx l tasks = Except.ok t) :
    ∀ k, (t.all k).child_count = (tasks.all k).child_count := by
  induction l generalizing tasks with
  | nil =>
    unfold TaskDone_release_pass at h
    cases h
    exact fun _ => rfl
  | cons i rest ih =>
    unfold TaskDone_release_pass at h
    by_cases h1 : MAX_TASKS ≤ i
    · rw [if_pos h1] at h
      cases h
    rw [if_neg h1] at h
    by_cases h2 : MAX_TASKS ≤ tasks.idx_list i
    · rw [if_pos h2] at h
      cases h
    rw [if_neg h2] at h
    by_cases h3 : (tasks.all (tasks.idx_list i)).waiting_for = task_idx
    · rw [if_pos h3] at h
      intro k
      rw [ih _ h k]
      show (if k = i then _ else tasks.all k).child_count = _
      split_ifs with hk
      · rw [hk]
      · rfl
    · rw [if_neg h3] at h
      exact ih _ h

/-- The loop of `TaskDone` over the children never ends when it is entered: no statement of
it writes to `child_count`. -/
theorem TaskDone_release_never (task_idx : Nat) (fuel : Nat) (tasks : task_list_t)
    (h : (tasks.all task_idx).child_count ≠ 0) :
    ∃ e, TaskDone_release task_idx fuel tasks = Except.error e := by
  induction fuel generalizing tasks with
  | zero =>
    unfold TaskDone_release
    split_ifs
    · exact ⟨_, rfl⟩
    · exact ⟨_, rfl⟩
  | succ fuel ih =>
    unfold TaskDone_release
    split_ifs
    · exact ⟨_, rfl⟩
    · simp only
      cases hp : TaskDone_release_pass task_idx (List.range tasks.waiting_last) tasks with
      | error e => exact ⟨e, rfl⟩
      | ok t =>
        simp only
        apply ih
        rw [TaskDone_release_pass_child_count task_idx _ tasks t hp]
        exact h

theorem TaskDone_remove_all (task_idx : Nat) (l : List Nat) (tasks t : task_list_t)
    (h : TaskDone_remove task_idx l tasks = Except.ok t) : t.all = tasks.all := by
  induction l generalizing tasks with
  | nil =>
    unfold TaskDone_remove at h
    cases h
    rfl
  | cons i rest ih =>
    unfold TaskDone_remove at h
    simp only at h
    by_cases h1 : MAX_TASKS ≤ i
    · rw [if_pos h1] at h
      cases h
    rw [if_neg h1] at h
    by_cases h2 : tasks.idx_list i = task_idx
    · rw [if_pos h2] at h
      by_cases h3 : MAX_TASKS ≤ unsigned_dec tasks.running_last
      · rw [if_pos h3] at h
        cases h
      rw [if_neg h3] at h
      rw [← Except.ok.inj h]
      simp only [idx_list_store]
    · rw [if_neg h2] at h
      exact ih _ h

/-- For a task with children `TaskDone` returns with no amount of fuel. -/
theorem TaskDone_child_count_never (fuel : Nat) (tasks : task_list_t) (task_idx : Nat)
    (h1 : tasks.running_last ≠ 0) (h2 : task_idx < tasks.task_end)
    (h3 : (tasks.all task_idx).child_count ≠ 0) :
    ∃ e, TaskDone fuel tasks task_idx = Except.error e := by
  unfold TaskDone
  rw [if_neg h1]
  simp only
  rw [if_pos h2]
  cases hr : TaskDone_remove task_idx
      (List.range' tasks.ready_last (tasks.running_last - tasks.ready_last))
      { tasks with task_left := unsigned_dec tasks.task_left } with
  | error e => exact ⟨e, rfl⟩
  | ok t =>
    simp only
    have hall := TaskDone_remove_all task_idx _ _ t hr
    obtain ⟨e, he⟩ := TaskDone_release_never task_idx fuel t (by rw [hall]; exact h3)
    rw [he]
    exact ⟨e, rfl⟩

/-- C40, as the source has it: for the running task 0 with one child `TaskDone(0)` does not
return, whatever the fuel: every access is inside the arrays and the loop over the children,
which never writes to `child_count`, is still running when the fuel is used up.  Task 1,
which waits for task 0, is never released. -/
theorem c40_task_done_never_returns (fuel : Nat) :
    sample_tasks_running.running_last = 1 ∧ 0 < sample_tasks_running.task_end ∧
    (sample_tasks_running.all 0).child_count = 1 ∧
    TaskDone fuel sample_tasks_running 0 = Except.error async_fault_t.out_of_fuel := by
  refine ⟨rfl, by decide, rfl, ?_⟩
  have hloop : ∀ n, TaskDone_release 0 n
      (idx_list_store { sample_tasks_running with task_left := 1, running_last := 0 } 0 0) =
      Except.error async_fault_t.out_of_fuel := by
    intro n
    induction n with
    | zero => rfl
    | succ n ih =>
      unfold TaskDone_release
      rw [if_neg (by decide), if_pos (by decide)]
      exact ih
  have hstart : TaskDone fuel sample_tasks_running 0 =
      (match TaskDone_release 0 fuel
        (idx_list_store { sample_tasks_running with task_left := 1, running_last := 0 } 0 0)
        with
      | Except.error e => Except.error e
      | Except.ok tasks =>
        TaskDone_pick
          (if tasks.running_last = tasks.waiting_last then { tasks with waiting_last := 0 }
          else tasks)) := rfl
  rw [hstart, hloop fuel]

/-! ## Lemmas: the big page sizes of peers -/

theorem big_page_shrink_refl (s : uvm_va_space_t) : big_page_shrink s s :=
  ⟨fun _ h => h, fun _ _ h => ⟨h, rfl⟩⟩

theorem big_page_shrink_trans {s t u : uvm_va_space_t} (h1 : big_page_shrink s t)
    (h2 : big_page_shrink t u) : big_page_shrink s u :=
  ⟨fun i h => h1.1 i (h2.1 i h), fun a p h =>
    ⟨(h1.2 a p (h2.2 a p h).1).1, (h2.2 a p h).2.trans (h1.2 a p (h2.2 a p h).1).2⟩⟩

theorem BigPageInv_of_shrink {s t : uvm_va_space_t} (h : big_page_shrink s t)
    (hs : BigPageInv s) : BigPageInv t := by
  intro a b p q hab hbit hp hq
  obtain ⟨hp1, hp2⟩ := h.2 a p hp
  obtain ⟨hq1, hq2⟩ := h.2 b q hq
  rw [hp2, hq2]
  exact hs a b p q hab (h.1 _ hbit) hp1 hq1

theorem uvm_gpu_va_space_get_congr {s t : uvm_va_space_t}
    (h1 : t.registered_gpu_va_spaces = s.registered_gpu_va_spaces)
    (h2 : t.gpu_va_spaces = s.gpu_va_spaces) (a : Nat) :
    uvm_gpu_va_space_get t a = uvm_gpu_va_space_get s a := by
  unfold uvm_gpu_va_space_get
  rw [h1, h2]

theorem big_page_shrink_of_ctx_frame {s t : uvm_va_space_t} (h : ctx_frame s t)
    (hen : ∀ i, t.enabled_peers i = true → s.enabled_peers i = true) :
    big_page_shrink s t := by
  refine ⟨hen, fun a p hp => ?_⟩
  rw [uvm_gpu_va_space_get_congr h.1 h.2.1] at hp
  rw [h.2.2.1]
  exact ⟨hp, rfl⟩

theorem big_page_shrink_of_same_context_keys {s t : uvm_va_space_t}
    (h : same_context_keys s t)
    (hen : ∀ i, t.enabled_peers i = true → s.enabled_peers i = true) :
    big_page_shrink s t := by
  refine ⟨hen, fun a p hp => ?_⟩
  rw [uvm_gpu_va_space_get_congr h.1 h.2.1] at hp
  exact ⟨hp, (h.2.2.2.2 p).2.2.2.1⟩

theorem big_page_shrink_remove (s : uvm_va_space_t) (p : Option Nat)
    (l : List uvm_deferred_free_object_t) :
    big_page_shrink s (remove_gpu_va_space s p l).1 := by
  have hen := (same_topology_remove s p l).2.2.2.2.2.2.2.2.2.2
  cases p with
  | none => exact big_page_shrink_refl s
  | some ptr =>
    by_cases hactive : uvm_gpu_va_space_state s ptr = UVM_GPU_VA_SPACE_STATE_ACTIVE
    · obtain ⟨f1, f2, _, f4, f5⟩ := remove_gpu_va_space_active_fields s ptr l hactive
      refine ⟨fun i hi => by rw [hen] at hi; exact hi, fun a q hq => ?_⟩
      have hsize : ((remove_gpu_va_space s (some ptr) l).1.gpu_va_space_mem q).big_page_size =
          (s.gpu_va_space_mem q).big_page_size := by
        by_cases hqp : q = ptr
        · rw [hqp, f5]
        · rw [f4 q hqp]
      refine ⟨?_, hsize⟩
      unfold uvm_gpu_va_space_get uvm_processor_mask_test at hq ⊢
      rw [f1, f2, uvm_processor_mask_clear_apply] at hq
      by_cases ha : a = (s.gpu_va_space_mem ptr).gpu
      · rw [if_pos ha] at hq
        simp at hq
      · rw [if_neg ha] at hq
        by_cases hm : s.registered_gpu_va_spaces a = true
        · rw [hm] at hq ⊢
          simp only [Bool.not_true, Bool.false_eq_true, if_false] at hq ⊢
          by_cases hidx : uvm_gpu_index a = uvm_gpu_index (s.gpu_va_space_mem ptr).gpu
          · rw [if_pos hidx] at hq
            cases hq
          · rw [if_neg hidx] at hq
            exact hq
        · have hm2 : s.registered_gpu_va_spaces a = false := by simpa using hm
          rw [hm2] at hq
          simp at hq
    · rw [remove_gpu_va_space_not_active s ptr l hactive]
      exact big_page_shrink_refl s

theorem destroy_gpu_va_space_big_page_size (s : uvm_va_space_t) (p q : Nat) :
    ((destroy_gpu_va_space s (some p)).gpu_va_space_mem q).big_page_size =
      (s.gpu_va_space_mem q).big_page_size := by
  by_cases hqp : q = p
  · obtain ⟨obj, u, ⟨_, _, _, o4, _⟩, ⟨_, _, _, _, u5, _⟩, heq⟩ :=
      destroy_gpu_va_space_shape s p
    have hup : u.gpu_va_space_mem p = obj := by
      rw [u5]
      exact gpu_va_space_store_mem_self s p obj
    rw [hqp, heq, uvm_gpu_va_space_release_mem, hup]
    exact o4
  · rw [(destroy_gpu_va_space_frame s p).2.2.2.1 q hqp]

theorem big_page_shrink_destroy (s : uvm_va_space_t) (p : Option Nat) :
    big_page_shrink s (destroy_gpu_va_space s p) := by
  cases p with
  | none => exact big_page_shrink_refl s
  | some ptr =>
    have hen := (same_topology_destroy s (some ptr)).2.2.2.2.2.2.2.2.2.2
    obtain ⟨d1, d2, _⟩ := destroy_gpu_va_space_frame s ptr
    refine ⟨fun i hi => by rw [hen] at hi; exact hi, fun a q hq => ?_⟩
    rw [uvm_gpu_va_space_get_congr d1 d2] at hq
    exact ⟨hq, destroy_gpu_va_space_big_page_size s ptr q⟩

theorem big_page_shrink_deferred_free (l : List uvm_deferred_free_object_t)
    (s : uvm_va_space_t) : big_page_shrink s (uvm_deferred_free_object_list s l) := by
  induction l generalizing s with
  | nil => exact big_page_shrink_refl s
  | cons x rest ih =>
    cases x with
    | channel c => exact ih s
    | gpu_va_space p =>
      exact big_page_shrink_trans (big_page_shrink_destroy s (some p)) (ih _)
    | external_allocation e => exact ih s

theorem big_page_shrink_store (s : uvm_va_space_t) (p : Nat) (obj : uvm_gpu_va_space_t)
    (h : obj.big_page_size = (s.gpu_va_space_mem p).big_page_size) :
    big_page_shrink s (gpu_va_space_store s p obj) := by
  refine ⟨fun _ hi => hi, fun a q hq => ⟨hq, ?_⟩⟩
  by_cases hqp : q = p
  · rw [hqp, gpu_va_space_store_mem_self]
    exact h
  · exact congrArg uvm_gpu_va_space_t.big_page_size (if_neg hqp)

theorem big_page_shrink_release (s : uvm_va_space_t) (p : Nat) :
    big_page_shrink s (uvm_gpu_va_space_release s (some p)) := by
  unfold uvm_gpu_va_space_release
  simp only
  apply big_page_shrink_store
  split_ifs <;> rfl

theorem big_page_shrink_stop_all_channels (s : uvm_va_space_t) (p : Nat) :
    big_page_shrink s (gpu_va_space_stop_all_channels s p) :=
  big_page_shrink_store s p _ rfl

theorem big_page_shrink_disable_peers (s : uvm_va_space_t) (a b : Nat)
    (l : List uvm_deferred_free_object_t) : big_page_shrink s (disable_peers s a b l).1 := by
  apply big_page_shrink_of_ctx_frame (disable_peers_ctx_frame s a b l)
  intro i hi
  rw [(disable_peers_frame s a b l).2.2] at hi
  unfold __clear_bit at hi
  split_ifs at hi
  exact hi

theorem big_page_shrink_unregister_gpu_peers_loop (gpu : Nat) (l : List Nat)
    (s : uvm_va_space_t) (dfl : List uvm_deferred_free_object_t) (ptr : uvm_processor_mask_t) :
    big_page_shrink s (unregister_gpu_peers_loop gpu l s dfl ptr).1 := by
  induction l generalizing s dfl ptr with
  | nil => exact big_page_shrink_refl s
  | cons x rest ih =>
    unfold unregister_gpu_peers_loop
    simp only
    split_ifs
    · exact ih s dfl ptr
    · exact big_page_shrink_trans (big_page_shrink_disable_peers s gpu x dfl) (ih _ _ _)
    · exact ih s dfl ptr

theorem big_page_shrink_unregister_gpu (g : uvm_global_t) (s : uvm_va_space_t) (gpu : Nat)
    (l : List uvm_deferred_free_object_t) : big_page_shrink s (unregister_gpu g s gpu l).1 := by
  unfold unregister_gpu
  simp only
  refine big_page_shrink_trans (big_page_shrink_remove s (uvm_gpu_va_space_get s gpu) l) ?_
  refine big_page_shrink_trans (big_page_shrink_unregister_gpu_peers_loop gpu _ _ _ _)
    (big_page_shrink_of_ctx_frame (unregister_gpu_masks_ctx_frame g _ gpu) ?_)
  intro i hi
  rw [(unregister_gpu_masks_frame g _ gpu).2.2] at hi
  exact hi

theorem uvm_gpu_va_space_get_mask {s : uvm_va_space_t} {a p : Nat}
    (h : uvm_gpu_va_space_get s a = some p) : s.registered_gpu_va_spaces a = true := by
  unfold uvm_gpu_va_space_get uvm_processor_mask_test at h
  by_cases hm : s.registered_gpu_va_spaces a = true
  · exact hm
  · have hm2 : s.registered_gpu_va_spaces a = false := by simpa using hm
    rw [hm2] at h
    simp at h

/-- What `enable_peers` returns: the address space as it was, or, for two registered devices
whose contexts (when both have one) have the same big page size, the address space with the
pair enabled or with the pair enabled and disabled again. -/
theorem enable_peers_compat_cases (g : uvm_global_t) (s : uvm_va_space_t) (a b : Nat) :
    (enable_peers g s a b).2 = s ∨
    (s.registered_gpus a = true ∧ s.registered_gpus b = true ∧
      (∀ p q, uvm_gpu_va_space_get s a = some p → uvm_gpu_va_space_get s b = some q →
        (s.gpu_va_space_mem p).big_page_size = (s.gpu_va_space_mem q).big_page_size) ∧
      ((enable_peers g s a b).2 = enable_peers_masks g s a b ∨
        (enable_peers g s a b).2 = (disable_peers (enable_peers_masks g s a b) a b []).1)) := by
  by_cases hcompat : ∀ p q, uvm_gpu_va_space_get s a = some p →
      uvm_gpu_va_space_get s b = some q →
      (s.gpu_va_space_mem p).big_page_size = (s.gpu_va_space_mem q).big_page_size
  · rcases enable_peers_snd_cases g s a b with h | ⟨ha, hb, h⟩
    · exact Or.inl h
    · exact Or.inr ⟨ha, hb, hcompat, h⟩
  · left
    push_neg at hcompat
    obtain ⟨p, q, hp, hq, hne⟩ := hcompat
    unfold enable_peers
    by_cases h1 : (!uvm_processor_mask_test s.registered_gpus a ||
        !uvm_processor_mask_test s.registered_gpus b) = true
    · rw [if_pos h1]
    · rw [if_neg h1, hp, hq]
      simp only
      rw [if_pos (by simpa using hne)]

theorem BigPageInv_enable_peers_masks {g : uvm_global_t} {s : uvm_va_space_t} {a b : Nat}
    (hs : BigPageInv s) (hpos : ∀ i, s.registered_gpu_va_spaces i = true → 0 < i)
    (ha : 0 < a) (hb : 0 < b) (hab : a ≠ b)
    (hcompat : ∀ p q, uvm_gpu_va_space_get s a = some p → uvm_gpu_va_space_get s b = some q →
      (s.gpu_va_space_mem p).big_page_size = (s.gpu_va_space_mem q).big_page_size) :
    BigPageInv (enable_peers_masks g s a b) := by
  have hframe := enable_peers_masks_ctx_frame g s a b
  have hen : (enable_peers_masks g s a b).enabled_peers =
      __set_bit (uvm_gpu_peer_table_index a b) s.enabled_peers := by
    rw [enable_peers_masks_eq]
  intro c d p q hcd hbit hp hq
  rw [uvm_gpu_va_space_get_congr hframe.1 hframe.2.1] at hp hq
  rw [hframe.2.2.1]
  unfold test_bit at hbit
  rw [hen] at hbit
  unfold __set_bit at hbit
  by_cases hidx : uvm_gpu_peer_table_index c d = uvm_gpu_peer_table_index a b
  · have hc := hpos c (uvm_gpu_va_space_get_mask hp)
    have hd := hpos d (uvm_gpu_va_space_get_mask hq)
    rcases uvm_gpu_peer_table_index_inj hc hd ha hb hcd hab hidx with ⟨h1, h2⟩ | ⟨h1, h2⟩
    · rw [h1] at hp
      rw [h2] at hq
      exact hcompat p q hp hq
    · rw [h1] at hp
      rw [h2] at hq
      exact (hcompat q p hq hp).symm
  · rw [if_neg hidx] at hbit
    exact hs c d p q hcd hbit hp hq

theorem BigPageInv_enable_peers {g : uvm_global_t} {s : uvm_va_space_t} {a b : Nat}
    (hs : BigPageInv s) (hpos : ∀ i, s.registered_gpu_va_spaces i = true → 0 < i)
    (hr : ∀ i, s.registered_gpus i = true → 0 < i) (hab : a ≠ b) :
    BigPageInv (enable_peers g s a b).2 := by
  rcases enable_peers_compat_cases g s a b with h | ⟨ha, hb, hcompat, h | h⟩
  · rw [h]
    exact hs
  · rw [h]
    exact BigPageInv_enable_peers_masks hs hpos (hr a ha) (hr b hb) hab hcompat
  · rw [h]
    exact BigPageInv_of_shrink (big_page_shrink_disable_peers _ a b [])
      (BigPageInv_enable_peers_masks hs hpos (hr a ha) (hr b hb) hab hcompat)

theorem BigPageInv_register_gpu_nvlink_peers_loop {g : uvm_global_t} {gpu : Nat}
    (l : List Nat) (s : uvm_va_space_t) (hs : BigPageInv s)
    (hpos : ∀ i, s.registered_gpu_va_spaces i = true → 0 < i)
    (hr : ∀ i, s.registered_gpus i = true → 0 < i) :
    BigPageInv (register_gpu_nvlink_peers_loop g gpu l s).2 := by
  induction l generalizing s with
  | nil => exact hs
  | cons x rest ih =>
    unfold register_gpu_nvlink_peers_loop
    have hpos2 : ∀ i, (enable_peers g s gpu x).2.registered_gpu_va_spaces i = true → 0 < i := by
      rw [(enable_peers_ctx_frame g s gpu x).1]
      exact hpos
    have hr2 : ∀ i, (enable_peers g s gpu x).2.registered_gpus i = true → 0 < i := by
      rw [(enable_peers_frame g s gpu x).1]
      exact hr
    simp only
    split_ifs with h1 h2 h3
    · exact ih s hs hpos hr
    · exact BigPageInv_enable_peers hs hpos hr (fun h => h1 h.symm)
    · exact ih _ (BigPageInv_enable_peers hs hpos hr (fun h => h1 h.symm)) hpos2 hr2
    · exact ih s hs hpos hr

theorem BigPageInv_alloc {s : uvm_va_space_t} (obj : uvm_gpu_va_space_t) (hs : BigPageInv s)
    (hc : CtxInv s) :
    BigPageInv (gpu_va_space_store { s with gpu_va_space_next := s.gpu_va_space_next + 1 }
      s.gpu_va_space_next obj) := by
  have hsh : big_page_shrink s
      (gpu_va_space_store { s with gpu_va_space_next := s.gpu_va_space_next + 1 }
        s.gpu_va_space_next obj) := by
    refine ⟨fun _ hi => hi, fun a p hp => ⟨hp, ?_⟩⟩
    have hp2 : uvm_gpu_va_space_get s a = some p := hp
    obtain ⟨_, _, _, hact⟩ := uvm_gpu_va_space_get_some hc hp2
    have hne : p ≠ s.gpu_va_space_next := by
      rintro rfl
      rw [hc.fresh _ le_rfl] at hact
      cases hact
    have hmem : (gpu_va_space_store { s with gpu_va_space_next := s.gpu_va_space_next + 1 }
        s.gpu_va_space_next obj).gpu_va_space_mem p = s.gpu_va_space_mem p := if_neg hne
    rw [hmem]
  exact BigPageInv_of_shrink hsh hs

theorem BigPageInv_create {g : uvm_global_t} {s : uvm_va_space_t} (gpu : Nat)
    (rm : rm_answers_t) (hs : BigPageInv s) (hc : CtxInv s) :
    BigPageInv (create_gpu_va_space g s gpu rm).2.1 := by
  rcases create_gpu_va_space_cases g s gpu rm with ⟨_, _, h | ⟨obj, _, _, _, _, h⟩⟩ | h
  · rw [h]
    exact hs
  · rw [h]
    exact BigPageInv_of_shrink (big_page_shrink_destroy _ _) (BigPageInv_alloc obj hs hc)
  · rw [h]
    exact BigPageInv_alloc _ hs hc

theorem big_page_shrink_register_error (s : uvm_va_space_t) (ptr : Nat) (locked : Bool) :
    big_page_shrink s (register_gpu_va_space_error s ptr locked) := by
  unfold register_gpu_va_space_error
  simp only
  split_ifs
  · exact big_page_shrink_trans (big_page_shrink_remove s (some ptr) [])
      (big_page_shrink_destroy _ _)
  · exact big_page_shrink_destroy _ _

/-- Adding a context keeps the big page sizes of peers equal: `add_gpu_va_space` compares
the new context with the context of every device peer-enabled with its device. -/
theorem BigPageInv_add {s : uvm_va_space_t} {ptr : Nat} (hs : BigPageInv s) (hc : CtxInv s)
    (hr : ∀ i, s.registered_gpus i = true → 0 < i ∧ i < UVM_MAX_PROCESSORS)
    (hreg : s.registered_gpus (s.gpu_va_space_mem ptr).gpu = true) :
    BigPageInv (add_gpu_va_space s ptr).2 := by
  rcases add_gpu_va_space_cases s ptr with h | ⟨hcheck, h⟩
  · rw [h.2]
    exact hs
  · have hok : (add_gpu_va_space s ptr).1 = NV_OK := by rw [h]
    obtain ⟨f1, f2, _, f4, f5, _⟩ := add_gpu_va_space_fields hok
    have hen : (add_gpu_va_space s ptr).2.enabled_peers = s.enabled_peers :=
      (same_topology_add s ptr).2.2.2.2.2.2.2.2.2.2
    have hsize : ∀ q, ((add_gpu_va_space s ptr).2.gpu_va_space_mem q).big_page_size =
        (s.gpu_va_space_mem q).big_page_size := by
      intro q
      by_cases hq : q = ptr
      · rw [hq, f5]
      · rw [f4 q hq]
    have hget : ∀ x p, uvm_gpu_va_space_get (add_gpu_va_space s ptr).2 x = some p →
        (x = (s.gpu_va_space_mem ptr).gpu ∧ p = ptr) ∨
        (x ≠ (s.gpu_va_space_mem ptr).gpu ∧ uvm_gpu_va_space_get s x = some p) := by
      intro x p hx
      have hm := uvm_gpu_va_space_get_mask hx
      unfold uvm_gpu_va_space_get uvm_processor_mask_test at hx
      rw [hm, f2] at hx
      simp only [Bool.not_true, Bool.false_eq_true, if_false] at hx
      rw [f1, uvm_processor_mask_set_apply] at hm
      by_cases hxg : x = (s.gpu_va_space_mem ptr).gpu
      · left
        rw [hxg, if_pos rfl] at hx
        exact ⟨hxg, (Option.some.inj hx).symm⟩
      · right
        rw [if_neg hxg] at hm
        have hx0 : 0 < x := (hr x (hc.registered x hm)).1
        have hg0 : 0 < (s.gpu_va_space_mem ptr).gpu := (hr _ hreg).1
        rw [if_neg (fun hi => hxg (uvm_gpu_index_inj hx0 hg0 hi))] at hx
        refine ⟨hxg, ?_⟩
        unfold uvm_gpu_va_space_get uvm_processor_mask_test
        rw [hm]
        simp only [Bool.not_true, Bool.false_eq_true, if_false]
        exact hx
    have hpeer : ∀ d q, d ≠ (s.gpu_va_space_mem ptr).gpu → uvm_gpu_va_space_get s d = some q →
        test_bit (uvm_gpu_peer_table_index (s.gpu_va_space_mem ptr).gpu d) s.enabled_peers =
          true →
        (s.gpu_va_space_mem ptr).big_page_size = (s.gpu_va_space_mem q).big_page_size := by
      intro d q _ hd hbit
      have hm := uvm_gpu_va_space_get_mask hd
      have hrange := hr d (hc.registered d hm)
      exact (add_gpu_va_space_check_ok _ hcheck d
        ((mem_for_each_gpu_id_in_mask _ d).mpr ⟨hrange.1, hrange.2, hm⟩) q hd).2 hbit
    intro a b p q hab hbit hp hq
    rw [hen] at hbit
    rw [hsize p, hsize q]
    rcases hget a p hp with ⟨ha, hpp⟩ | ⟨ha, hp2⟩
    · rcases hget b q hq with ⟨hb, _⟩ | ⟨hb, hq2⟩
      · exact absurd (ha.trans hb.symm) hab
      · rw [hpp]
        rw [ha] at hbit
        exact hpeer b q hb hq2 hbit
    · rcases hget b q hq with ⟨hb, hqq⟩ | ⟨_, hq2⟩
      · rw [hqq]
        rw [hb, uvm_gpu_peer_table_index_comm] at hbit
        exact (hpeer a p ha hp2 hbit).symm
      · exact hs a b p q hab hbit hp2 hq2

theorem BigPageInv_register_locked {s : uvm_va_space_t} (rm : rm_answers_t) {gpu ptr : Nat}
    (hs : BigPageInv s) (hc : CtxInv s)
    (hr : ∀ i, s.registered_gpus i = true → 0 < i ∧ i < UVM_MAX_PROCESSORS)
    (hgpu : (s.gpu_va_space_mem ptr).gpu = gpu) :
    BigPageInv (register_gpu_va_space_locked s rm gpu ptr).2 := by
  have herr := BigPageInv_of_shrink (big_page_shrink_register_error s ptr true) hs
  unfold register_gpu_va_space_locked
  simp only
  split_ifs with h1 h2 h3 h4 h5 h6 h7
  · exact herr
  · exact herr
  · exact herr
  · exact herr
  all_goals
    have hreg : s.registered_gpus (s.gpu_va_space_mem ptr).gpu = true := by
      rw [hgpu]
      simpa [uvm_processor_mask_test] using h1
    have hadd := BigPageInv_add hs hc hr hreg
    have herr2 := BigPageInv_of_shrink
      (big_page_shrink_register_error (add_gpu_va_space s ptr).2 ptr true) hadd
  · exact herr2
  · exact herr2
  · exact herr2
  · exact hadd

theorem BigPageInv_register_gpu_va_space {g : uvm_global_t} {s : uvm_va_space_t}
    (rm : rm_answers_t) (gpu_uuid : Nat) (hs : BigPageInv s) (hc : CtxInv s)
    (hr : ∀ i, s.registered_gpus i = true → 0 < i ∧ i < UVM_MAX_PROCESSORS) :
    BigPageInv (uvm_va_space_register_gpu_va_space g s rm gpu_uuid).2 := by
  unfold uvm_va_space_register_gpu_va_space
  simp only
  split_ifs with h1 h2
  · exact hs
  · exact hs
  · have hcreate := BigPageInv_create (g := g) (uvm_gpu_retain_by_uuid g gpu_uuid).2 rm hs hc
    have hcc := (CtxInv_create (g := g) (uvm_gpu_retain_by_uuid g gpu_uuid).2 rm hc).1
    have hreg := (same_topology_create g s (uvm_gpu_retain_by_uuid g gpu_uuid).2 rm).1
    rcases create_gpu_va_space_cases g s (uvm_gpu_retain_by_uuid g gpu_uuid).2 rm with
      ⟨hn, _, _⟩ | hcr
    · rw [hn]
      exact hcreate
    · have hptr : (create_gpu_va_space g s (uvm_gpu_retain_by_uuid g gpu_uuid).2 rm).2.2 =
          some s.gpu_va_space_next := by rw [hcr]
      have hmem : ((create_gpu_va_space g s (uvm_gpu_retain_by_uuid g gpu_uuid).2
          rm).2.1.gpu_va_space_mem s.gpu_va_space_next).gpu =
          (uvm_gpu_retain_by_uuid g gpu_uuid).2 := by
        rw [hcr]
        exact congrArg uvm_gpu_va_space_t.gpu (if_pos rfl)
      rw [hptr]
      simp only
      generalize (create_gpu_va_space g s (uvm_gpu_retain_by_uuid g gpu_uuid).2 rm).2.1 = s1
        at hcreate hcc hreg hmem ⊢
      have hr1 : ∀ i, s1.registered_gpus i = true → 0 < i ∧ i < UVM_MAX_PROCESSORS := by
        rw [hreg]
        exact hr
      split_ifs with h3
      · exact BigPageInv_of_shrink (big_page_shrink_register_error s1 _ false) hcreate
      · have hkeys := same_context_keys_store s1 s.gpu_va_space_next
          { s1.gpu_va_space_mem s.gpu_va_space_next with
            ats_mm := (s1.gpu_va_space_mem s.gpu_va_space_next).ats_enabled }
          rfl rfl rfl rfl rfl (fun h => Or.inl h)
        have hs2 := BigPageInv_of_shrink
          (big_page_shrink_store s1 s.gpu_va_space_next
            { s1.gpu_va_space_mem s.gpu_va_space_next with
              ats_mm := (s1.gpu_va_space_mem s.gpu_va_space_next).ats_enabled } rfl) hcreate
        have hc2 := CtxInv_of_same_context_keys hkeys hcc
        refine BigPageInv_register_locked rm hs2 hc2 hr1 ?_
        have hmem2 : (gpu_va_space_store s1 s.gpu_va_space_next
            { s1.gpu_va_space_mem s.gpu_va_space_next with
              ats_mm := (s1.gpu_va_space_mem s.gpu_va_space_next).ats_enabled }).gpu_va_space_mem
            s.gpu_va_space_next =
            { s1.gpu_va_space_mem s.gpu_va_space_next with
              ats_mm := (s1.gpu_va_space_mem s.gpu_va_space_next).ats_enabled } := if_pos rfl
        rw [hmem2]
        exact hmem

theorem big_page_shrink_unregister_gpu_va_space_finish (s : uvm_va_space_t) (p : Nat) :
    big_page_shrink s (uvm_va_space_unregister_gpu_va_space_finish s p).2 := by
  unfold uvm_va_space_unregister_gpu_va_space_finish
  simp only
  split_ifs
  · exact big_page_shrink_release s p
  · exact big_page_shrink_trans (big_page_shrink_remove s (some p) [])
      (big_page_shrink_trans (big_page_shrink_deferred_free _ _) (big_page_shrink_release _ p))

theorem big_page_shrink_unregister_gpu_va_space_begin (g : uvm_global_t) (s : uvm_va_space_t)
    (gpu_uuid : Nat) :
    big_page_shrink s (uvm_va_space_unregister_gpu_va_space_begin g s gpu_uuid).2.1 := by
  apply big_page_shrink_of_same_context_keys
    (same_context_keys_unregister_gpu_va_space_begin g s gpu_uuid)
  intro i hi
  rw [(same_topology_unregister_gpu_va_space_begin g s gpu_uuid).2.2.2.2.2.2.2.2.2.2] at hi
  exact hi

theorem big_page_shrink_uvm_va_space_unregister_gpu_finish (g : uvm_global_t)
    (s : uvm_va_space_t) (gpu : Nat) :
    big_page_shrink s (uvm_va_space_unregister_gpu_finish g s gpu).2.1 := by
  unfold uvm_va_space_unregister_gpu_finish
  simp only
  refine big_page_shrink_trans (big_page_shrink_unregister_gpu g s gpu []) ?_
  refine big_page_shrink_trans ?_ (big_page_shrink_deferred_free _ _)
  exact big_page_shrink_of_ctx_frame ⟨rfl, rfl, rfl, rfl, rfl⟩ (fun _ hi => hi)

theorem big_page_shrink_uvm_va_space_unregister_gpu_begin (g : uvm_global_t)
    (s : uvm_va_space_t) (gpu_uuid : Nat) :
    big_page_shrink s (uvm_va_space_unregister_gpu_begin g s gpu_uuid).2.1 := by
  unfold uvm_va_space_unregister_gpu_begin
  cases uvm_va_space_get_gpu_by_uuid g s gpu_uuid with
  | none => exact big_page_shrink_refl s
  | some gpu =>
    simp only
    split_ifs
    · exact big_page_shrink_refl s
    · have hset : big_page_shrink s (gpu_unregister_in_progress_set s gpu) :=
        big_page_shrink_of_ctx_frame ⟨rfl, rfl, rfl, rfl, rfl⟩ (fun _ hi => hi)
      cases uvm_gpu_va_space_get (gpu_unregister_in_progress_set s gpu) gpu with
      | none => exact hset
      | some p => exact big_page_shrink_trans hset (big_page_shrink_stop_all_channels _ p)

theorem big_page_shrink_disable_peers_free (s : uvm_va_space_t) (a b : Nat) :
    big_page_shrink s
      (uvm_deferred_free_object_list (disable_peers s a b []).1 (disable_peers s a b []).2) :=
  big_page_shrink_trans (big_page_shrink_disable_peers s a b [])
    (big_page_shrink_deferred_free _ _)

theorem big_page_shrink_uvm_api_disable_peer_access (g : uvm_global_t) (s : uvm_va_space_t)
    (gpuUuidA gpuUuidB : Nat) :
    big_page_shrink s (uvm_api_disable_peer_access g s gpuUuidA gpuUuidB).2 := by
  unfold uvm_api_disable_peer_access
  cases uvm_va_space_get_gpu_by_uuid g s gpuUuidA with
  | none => exact big_page_shrink_refl s
  | some gpu_1 =>
    cases uvm_va_space_get_gpu_by_uuid g s gpuUuidB with
    | none => exact big_page_shrink_refl s
    | some gpu_2 =>
      simp only
      split_ifs
      · exact big_page_shrink_refl s
      · exact big_page_shrink_refl s
      · exact big_page_shrink_disable_peers_free s gpu_1 gpu_2

theorem big_page_shrink_uvm8_test_disable_nvlink_peer_access (g : uvm_global_t)
    (s : uvm_va_space_t) (gpuUuidA gpuUuidB : Nat) :
    big_page_shrink s (uvm8_test_disable_nvlink_peer_access g s gpuUuidA gpuUuidB).2 := by
  unfold uvm8_test_disable_nvlink_peer_access
  cases uvm_va_space_get_gpu_by_uuid g s gpuUuidA with
  | none => exact big_page_shrink_refl s
  | some gpu_1 =>
    cases uvm_va_space_get_gpu_by_uuid g s gpuUuidB with
    | none => exact big_page_shrink_refl s
    | some gpu_2 =>
      simp only
      split_ifs
      · exact big_page_shrink_refl s
      · exact big_page_shrink_refl s
      · exact big_page_shrink_disable_peers_free s gpu_1 gpu_2

theorem BigPageInv_uvm_api_enable_peer_access {g : uvm_global_t} {s : uvm_va_space_t}
    (a b : Nat) (st : NV_STATUS) (hs : BigPageInv s)
    (hpos : ∀ i, s.registered_gpu_va_spaces i = true → 0 < i)
    (hr : ∀ i, s.registered_gpus i = true → 0 < i) :
    BigPageInv (uvm_api_enable_peer_access g s a b st).2 := by
  unfold uvm_api_enable_peer_access
  simp only
  split_ifs with h1 h2
  · exact hs
  · exact hs
  · exact BigPageInv_enable_peers hs hpos hr (retain_pcie_peers_from_uuids_ne (not_not.mp h1))

theorem BigPageInv_uvm8_test_enable_nvlink_peer_access {g : uvm_global_t}
    {s : uvm_va_space_t} (a b : Nat) (hs : BigPageInv s)
    (hpos : ∀ i, s.registered_gpu_va_spaces i = true → 0 < i)
    (hr : ∀ i, s.registered_gpus i = true → 0 < i) :
    BigPageInv (uvm8_test_enable_nvlink_peer_access g s a b).2 := by
  unfold uvm8_test_enable_nvlink_peer_access
  simp only
  split_ifs with h1 h2
  · exact hs
  · exact hs
  · exact BigPageInv_enable_peers hs hpos hr (retain_nvlink_peers_from_uuids_ne (not_not.mp h1))

theorem BigPageInv_uvm_va_space_register_gpu {g : uvm_global_t} {s : uvm_va_space_t}
    (gpu_uuid : Nat) (hinv : Inv g s) (hc : CtxInv s) (hs : BigPageInv s) :
    BigPageInv (uvm_va_space_register_gpu g s gpu_uuid).2.1 := by
  rw [uvm_va_space_register_gpu_state]
  split_ifs with h1 h2 h3 h4 h5
  · exact hs
  · exact hs
  · exact hs
  · exact hs
  all_goals
    have hret := uvm_gpu_retain_by_uuid_ok (not_not.mp h1)
    generalize (uvm_gpu_retain_by_uuid g gpu_uuid).2 = gpu at hret h2 h5 ⊢
    have hm := register_gpu_masks_TopoInv hret.1 hret.2.1 hinv.1
    have hmf := register_gpu_masks_frame g s gpu
    have hmc := register_gpu_masks_ctx_frame g s gpu
    have hs1 : BigPageInv (register_gpu_masks g s gpu) :=
      BigPageInv_of_shrink (big_page_shrink_of_ctx_frame hmc (fun i hi => by
        rw [hmf.2.2] at hi
        exact hi)) hs
    have hpos1 : ∀ i, (register_gpu_masks g s gpu).registered_gpu_va_spaces i = true → 0 < i := by
      rw [hmc.1]
      exact fun i hi => (hinv.1.reg_range i (hc.registered i hi)).1
    have hloop : BigPageInv (register_gpu_nvlink_peers g (register_gpu_masks g s gpu) gpu).2 :=
      BigPageInv_register_gpu_nvlink_peers_loop _ _ hs1 hpos1
        (fun i hi => (hm.reg_range i hi).1)
  · exact BigPageInv_of_shrink (big_page_shrink_unregister_gpu g _ gpu []) hloop
  · exact hloop

/-- A property that holds when an address space is created and that every operation keeps
in a reachable address space holds in every reachable address space. -/
theorem Reachable_invariant {g : uvm_global_t} (P : uvm_va_space_t → Prop)
    (hcreate : ∀ (s1 s2 s3 : NV_STATUS) (s : uvm_va_space_t),
      uvm_va_space_create true s1 s2 s3 = (NV_OK, some s) → P s)
    (hstep : ∀ s t, Reachable g s → P s → Step g s t → P t)
    {s : uvm_va_space_t} (h : Reachable g s) : P s := by
  induction h with
  | create s1 s2 s3 va_space h => exact hcreate s1 s2 s3 va_space h
  | register_gpu va_space gpu_uuid h ih =>
    exact hstep _ _ h ih (Step.register_gpu va_space gpu_uuid)
  | unregister_gpu_begin va_space gpu_uuid h ih =>
    exact hstep _ _ h ih (Step.unregister_gpu_begin va_space gpu_uuid)
  | unregister_gpu_finish va_space gpu h hguard ih =>
    exact hstep _ _ h ih (Step.unregister_gpu_finish va_space gpu hguard)
  | enable_peer_access va_space a b st h ih =>
    exact hstep _ _ h ih (Step.enable_peer_access va_space a b st)
  | disable_peer_access va_space a b h ih =>
    exact hstep _ _ h ih (Step.disable_peer_access va_space a b)
  | test_enable_nvlink_peer_access va_space a b h ih =>
    exact hstep _ _ h ih (Step.test_enable_nvlink_peer_access va_space a b)
  | test_disable_nvlink_peer_access va_space a b h ih =>
    exact hstep _ _ h ih (Step.test_disable_nvlink_peer_access va_space a b)
  | register_gpu_va_space va_space rm gpu_uuid h ih =>
    exact hstep _ _ h ih (Step.register_gpu_va_space va_space rm gpu_uuid)
  | unregister_gpu_va_space_begin va_space gpu_uuid h ih =>
    exact hstep _ _ h ih (Step.unregister_gpu_va_space_begin va_space gpu_uuid)
  | unregister_gpu_va_space_finish va_space p h hptr ih =>
    exact hstep _ _ h ih (Step.unregister_gpu_va_space_finish va_space p hptr)
  | va_ranges_change va_space va_ranges h ih =>
    exact hstep _ _ h ih (Step.va_ranges_change va_space va_ranges)
  | mm_shutdown va_space h ih => exact hstep _ _ h ih (Step.mm_shutdown va_space)

/-- Every operation keeps the big page sizes of peers equal. -/
theorem Step_BigPageInv {g : uvm_global_t} {s t : uvm_va_space_t} (hinv : Inv g s)
    (hc : CtxInv s) (hs : BigPageInv s) (hstep : Step g s t) : BigPageInv t := by
  have hr0 : ∀ i, s.registered_gpus i = true → 0 < i := fun i hi => (hinv.1.reg_range i hi).1
  have hpos : ∀ i, s.registered_gpu_va_spaces i = true → 0 < i :=
    fun i hi => hr0 i (hc.registered i hi)
  cases hstep with
  | register_gpu gpu_uuid => exact BigPageInv_uvm_va_space_register_gpu gpu_uuid hinv hc hs
  | unregister_gpu_begin gpu_uuid =>
    exact BigPageInv_of_shrink (big_page_shrink_uvm_va_space_unregister_gpu_begin g s gpu_uuid) hs
  | unregister_gpu_finish gpu hguard =>
    exact BigPageInv_of_shrink (big_page_shrink_uvm_va_space_unregister_gpu_finish g s gpu) hs
  | enable_peer_access a b st => exact BigPageInv_uvm_api_enable_peer_access a b st hs hpos hr0
  | disable_peer_access a b =>
    exact BigPageInv_of_shrink (big_page_shrink_uvm_api_disable_peer_access g s a b) hs
  | test_enable_nvlink_peer_access a b =>
    exact BigPageInv_uvm8_test_enable_nvlink_peer_access a b hs hpos hr0
  | test_disable_nvlink_peer_access a b =>
    exact BigPageInv_of_shrink (big_page_shrink_uvm8_test_disable_nvlink_peer_access g s a b) hs
  | register_gpu_va_space rm gpu_uuid =>
    exact BigPageInv_register_gpu_va_space rm gpu_uuid hs hc hinv.1.reg_range
  | unregister_gpu_va_space_begin gpu_uuid =>
    exact BigPageInv_of_shrink (big_page_shrink_unregister_gpu_va_space_begin g s gpu_uuid) hs
  | unregister_gpu_va_space_finish p hptr =>
    exact BigPageInv_of_shrink (big_page_shrink_unregister_gpu_va_space_finish s p) hs
  | va_ranges_change va_ranges =>
    exact BigPageInv_of_shrink (s := s)
      (big_page_shrink_of_ctx_frame ⟨rfl, rfl, rfl, rfl, rfl⟩ (fun _ hi => hi)) hs
  | mm_shutdown =>
    exact BigPageInv_of_shrink (s := s)
      (big_page_shrink_of_ctx_frame ⟨rfl, rfl, rfl, rfl, rfl⟩ (fun _ hi => hi)) hs

theorem uvm_va_space_create_BigPageInv {s : uvm_va_space_t} {alloc_ok : Bool}
    {s1 s2 s3 : NV_STATUS} (h : uvm_va_space_create alloc_ok s1 s2 s3 = (NV_OK, some s)) :
    BigPageInv s := by
  unfold uvm_va_space_create at h
  simp only at h
  split_ifs at h <;> cases h
  intro a b p q _ hbit
  cases hbit

/-- In every reachable address space the big page sizes of peers are equal. -/
theorem Reachable_BigPageInv {g : uvm_global_t} {s : uvm_va_space_t} (h : Reachable g s) :
    BigPageInv s :=
  Reachable_invariant BigPageInv (fun _ _ _ _ hc => uvm_va_space_create_BigPageInv hc)
    (fun _ _ hr hs hstep => Step_BigPageInv (Reachable_Inv hr) (Reachable_CtxInv hr) hs hstep) h

theorem sample_two_contexts_reachable : Reachable sample_global sample_two_contexts :=
  Reachable.register_gpu_va_space _ sample_rm 2
    (Reachable.register_gpu_va_space _ sample_rm 1 sample_two_reachable)

/-! ## The claim on the big page sizes of peers -/

/-- C38: in every reachable address space, two devices whose pair is enabled in
`enabled_peers` and which both have a registered context have ACTIVE contexts with the same
big page size.  From such an address space `enable_peers` on two devices, `add_gpu_va_space`
for a context of a registered device, `unregister_gpu` and every operation of the file lead
to an address space where the same holds, so that the order in which pairs were enabled and
contexts were added does not matter. -/
theorem c38_big_page_sizes_of_peers (g : uvm_global_t) (s : uvm_va_space_t)
    (h : Reachable g s) :
    (∀ a b p q, a ≠ b →
      test_bit (uvm_gpu_peer_table_index a b) s.enabled_peers = true →
      uvm_gpu_va_space_get s a = some p → uvm_gpu_va_space_get s b = some q →
      uvm_gpu_va_space_state s p = UVM_GPU_VA_SPACE_STATE_ACTIVE ∧
      uvm_gpu_va_space_state s q = UVM_GPU_VA_SPACE_STATE_ACTIVE ∧
      (s.gpu_va_space_mem p).big_page_size = (s.gpu_va_space_mem q).big_page_size) ∧
    (∀ a b, a ≠ b → BigPageInv (enable_peers g s a b).2) ∧
    (∀ ptr, s.registered_gpus (s.gpu_va_space_mem ptr).gpu = true →
      BigPageInv (add_gpu_va_space s ptr).2) ∧
    (∀ gpu l, BigPageInv (unregister_gpu g s gpu l).1) ∧
    (∀ p, BigPageInv (uvm_va_space_unregister_gpu_va_space_finish s p).2) ∧
    (∀ t, Step g s t → BigPageInv t) := by
  have hinv := Reachable_Inv h
  have hc := Reachable_CtxInv h
  have hs := Reachable_BigPageInv h
  have hr0 : ∀ i, s.registered_gpus i = true → 0 < i := fun i hi => (hinv.1.reg_range i hi).1
  refine ⟨?_, ?_, ?_, ?_, ?_, ?_⟩
  · intro a b p q hab hbit hp hq
    exact ⟨(uvm_gpu_va_space_get_some hc hp).2.2.2, (uvm_gpu_va_space_get_some hc hq).2.2.2,
      hs a b p q hab hbit hp hq⟩
  · intro a b hab
    exact BigPageInv_enable_peers hs (fun i hi => hr0 i (hc.registered i hi)) hr0 hab
  · intro ptr hreg
    exact BigPageInv_add hs hc hinv.1.reg_range hreg
  · intro gpu l
    exact BigPageInv_of_shrink (big_page_shrink_unregister_gpu g s gpu l) hs
  · intro p
    exact BigPageInv_of_shrink (big_page_shrink_unregister_gpu_va_space_finish s p) hs
  · intro t hstep
    exact Step_BigPageInv hinv hc hs hstep

theorem c38_big_page_sizes_of_peers_witness :
    Reachable sample_global sample_two_contexts ∧
    test_bit (uvm_gpu_peer_table_index 1 2) sample_two_contexts.enabled_peers = true ∧
    uvm_gpu_va_space_get sample_two_contexts 1 = some 0 ∧
    uvm_gpu_va_space_get sample_two_contexts 2 = some 1 ∧
    (sample_two_contexts.gpu_va_space_mem 0).big_page_size = 65536 ∧
    (uvm_gpu_va_space_state sample_two_contexts 0 = UVM_GPU_VA_SPACE_STATE_ACTIVE ∧
      uvm_gpu_va_space_state sample_two_contexts 1 = UVM_GPU_VA_SPACE_STATE_ACTIVE ∧
      (sample_two_contexts.gpu_va_space_mem 0).big_page_size =
        (sample_two_contexts.gpu_va_space_mem 1).big_page_size) :=
  ⟨sample_two_contexts_reachable, by decide, by decide, by decide, by decide,
    (c38_big_page_sizes_of_peers sample_global sample_two_contexts
      sample_two_contexts_reachable).1 1 2 0 1 (by decide) (by decide) (by decide) (by decide)⟩

/-! ## Lemmas: the counter of the pending destructions -/

theorem countP_range_congr {f f' : Nat → Bool} (n : Nat) (h : ∀ q, q < n → f' q = f q) :
    (List.range n).countP f' = (List.range n).countP f := by
  induction n with
  | zero => rfl
  | succ n ih =>
    rw [List.range_succ, List.countP_append, List.countP_append,
      ih (fun q hq => h q (Nat.lt_succ_of_lt hq))]
    simp only [List.countP_cons, List.countP_nil, h n (Nat.lt_succ_self n)]

theorem countP_range_set {f f' : Nat → Bool} (n p : Nat) (hp : p < n) (h0 : f p = false)
    (h1 : f' p = true) (h : ∀ q, q ≠ p → f' q = f q) :
    (List.range n).countP f' = (List.range n).countP f + 1 := by
  induction n with
  | zero => exact absurd hp (Nat.not_lt_zero p)
  | succ n ih =>
    rw [List.range_succ, List.countP_append, List.countP_append]
    simp only [List.countP_cons, List.countP_nil, Nat.zero_add]
    rcases Nat.eq_or_lt_of_le (Nat.le_of_lt_succ hp) with heq | hlt
    · rw [← heq, h0, h1, countP_range_congr p (fun q hq => h q (Nat.ne_of_lt hq))]
      simp
    · rw [ih hlt, h n (Nat.ne_of_gt hlt)]
      omega

theorem pending_frame_refl (s : uvm_va_space_t) : pending_frame s s :=
  ⟨rfl, rfl, fun _ => ⟨rfl, rfl, rfl⟩⟩

theorem pending_frame_trans {s t u : uvm_va_space_t} (h1 : pending_frame s t)
    (h2 : pending_frame t u) : pending_frame s u :=
  ⟨h2.1.trans h1.1, h2.2.1.trans h1.2.1, fun q =>
    ⟨(h2.2.2 q).1.trans (h1.2.2 q).1, (h2.2.2 q).2.1.trans (h1.2.2 q).2.1,
      (h2.2.2 q).2.2.trans (h1.2.2 q).2.2⟩⟩

theorem pending_frame_of_ctx_frame {s t : uvm_va_space_t} (h : ctx_frame s t) :
    pending_frame s t := by
  obtain ⟨_, _, a3, a4, a5⟩ := h
  refine ⟨a5, a4, fun q => ?_⟩
  rw [a3]
  exact ⟨rfl, rfl, rfl⟩

theorem gpu_va_space_pending_of_frame {s t : uvm_va_space_t} (h : pending_frame s t) (q : Nat) :
    gpu_va_space_pending t q = gpu_va_space_pending s q := by
  unfold gpu_va_space_pending
  rw [(h.2.2 q).1, (h.2.2 q).2.2]

theorem num_pending_contexts_of_frame {s t : uvm_va_space_t} (h : pending_frame s t) :
    num_pending_contexts t = num_pending_contexts s := by
  unfold num_pending_contexts
  rw [h.2.1]
  exact countP_range_congr _ (fun q _ => gpu_va_space_pending_of_frame h q)

theorem PendingInv_of_pending_frame {s t : uvm_va_space_t} (h : pending_frame s t)
    (hs : PendingInv s) : PendingInv t := by
  refine ⟨?_, ?_, ?_, ?_⟩
  · rw [h.1, num_pending_contexts_of_frame h]
    exact hs.counter
  · intro p hp
    rw [(h.2.2 p).1] at hp
    rw [(h.2.2 p).2.1, (h.2.2 p).2.2]
    exact hs.active p hp
  · intro p hp
    rw [(h.2.2 p).1] at hp
    rw [(h.2.2 p).2.1]
    exact hs.dead p hp
  · intro p hp
    rw [h.2.1] at hp
    rw [(h.2.2 p).1]
    exact hs.fresh p hp

theorem pending_frame_store (s : uvm_va_space_t) (p : Nat) (obj : uvm_gpu_va_space_t)
    (h1 : obj.state = (s.gpu_va_space_mem p).state)
    (h2 : obj.duped_gpu_va_space = (s.gpu_va_space_mem p).duped_gpu_va_space)
    (h3 : obj.address_space_destroy_calls = (s.gpu_va_space_mem p).address_space_destroy_calls) :
    pending_frame s (gpu_va_space_store s p obj) := by
  refine ⟨rfl, rfl, fun q => ?_⟩
  by_cases hq : q = p
  · rw [hq, gpu_va_space_store_mem_self]
    exact ⟨h1, h2, h3⟩
  · have hmem : (gpu_va_space_store s p obj).gpu_va_space_mem q = s.gpu_va_space_mem q :=
      if_neg hq
    rw [hmem]
    exact ⟨rfl, rfl, rfl⟩

theorem pending_frame_release (s : uvm_va_space_t) (p : Option Nat) :
    pending_frame s (uvm_gpu_va_space_release s p) := by
  cases p with
  | none => exact pending_frame_refl s
  | some ptr =>
    unfold uvm_gpu_va_space_release
    simp only
    apply pending_frame_store
    · split_ifs <;> rfl
    · split_ifs <;> rfl
    · split_ifs <;> rfl

theorem pending_frame_stop_all_channels (s : uvm_va_space_t) (p : Nat) :
    pending_frame s (gpu_va_space_stop_all_channels s p) :=
  pending_frame_store s p _ rfl rfl rfl

/-- What `destroy_gpu_va_space` does to the RM handle of the object: the handle stays, and it
is destroyed once more when there is one. -/
theorem destroy_gpu_va_space_handle (s : uvm_va_space_t) (p : Nat) :
    ((destroy_gpu_va_space s (some p)).gpu_va_space_mem p).duped_gpu_va_space =
      (s.gpu_va_space_mem p).duped_gpu_va_space ∧
    ((destroy_gpu_va_space s (some p)).gpu_va_space_mem p).address_space_destroy_calls =
      (s.gpu_va_space_mem p).address_space_destroy_calls +
        (if (s.gpu_va_space_mem p).duped_gpu_va_space = true then 1 else 0) := by
  have h0 : (uvm_gpu_va_space_unset_page_dir (s.gpu_va_space_mem p)).duped_gpu_va_space =
        (s.gpu_va_space_mem p).duped_gpu_va_space ∧
      (uvm_gpu_va_space_unset_page_dir (s.gpu_va_space_mem p)).address_space_destroy_calls =
        (s.gpu_va_space_mem p).address_space_destroy_calls := by
    unfold uvm_gpu_va_space_unset_page_dir
    split_ifs <;> exact ⟨rfl, rfl⟩
  generalize hd : (s.gpu_va_space_mem p).duped_gpu_va_space = d at h0 ⊢
  generalize hn : (s.gpu_va_space_mem p).address_space_destroy_calls = n at h0 ⊢
  unfold destroy_gpu_va_space
  simp only
  generalize uvm_gpu_va_space_unset_page_dir (s.gpu_va_space_mem p) = o1 at h0 ⊢
  generalize ho2 : (if o1.page_tables_root = true then _ else o1) = o2
  have h1 : o2.duped_gpu_va_space = d ∧ o2.address_space_destroy_calls = n := by
    rw [← ho2]
    split_ifs <;> exact h0
  generalize ho3 : (if o2.duped_gpu_va_space = true then _ else o2) = o3
  have h2 : o3.duped_gpu_va_space = d ∧
      o3.address_space_destroy_calls = n + (if d = true then 1 else 0) := by
    rw [← ho3, ← h1.1]
    split_ifs with hdup
    · exact ⟨rfl, congrArg (fun k => k + 1) h1.2⟩
    · exact ⟨rfl, h1.2⟩
  generalize hu : (if o3.state = UVM_GPU_VA_SPACE_STATE_DEAD then _
    else gpu_va_space_store s p o3) = u
  have humem : u.gpu_va_space_mem p = o3 := by
    rw [← hu]
    split_ifs <;> exact gpu_va_space_store_mem_self s p o3
  rw [uvm_gpu_va_space_release_mem, humem]
  exact h2

theorem countP_range_update {f f' : Nat → Bool} (n p : Nat) (hp : p < n)
    (h : ∀ q, q ≠ p → f' q = f q) :
    (List.range n).countP f' + (if f p = true then 1 else 0) =
      (List.range n).countP f + (if f' p = true then 1 else 0) := by
  cases h0 : f p <;> cases h1 : f' p
  · simp only [Bool.false_eq_true, if_false, Nat.add_zero]
    exact countP_range_congr n (fun q _ => by
      by_cases hq : q = p
      · rw [hq, h0, h1]
      · exact h q hq)
  · simp only [Bool.false_eq_true, if_false, if_true, Nat.add_zero]
    exact countP_range_set n p hp h0 h1 h
  · simp only [Bool.false_eq_true, if_false, if_true, Nat.add_zero]
    exact (countP_range_set n p hp h1 h0 (fun q hq => (h q hq).symm)).symm
  · simp only [if_true, Nat.add_right_cancel_iff]
    exact countP_range_congr n (fun q _ => by
      by_cases hq : q = p
      · rw [hq, h0, h1]
      · exact h q hq)

/-- The invariant of the pending destructions after one object changed: the counter moved
with the object in or out of the pending contexts. -/
theorem PendingInv_update {s t : uvm_va_space_t} {p : Nat} (hs : PendingInv s)
    (hnext : t.gpu_va_space_next = s.gpu_va_space_next)
    (hmem : ∀ q, q ≠ p → t.gpu_va_space_mem q = s.gpu_va_space_mem q)
    (hcount : t.num_pending + (if gpu_va_space_pending s p = true then 1 else 0) =
      s.num_pending + (if gpu_va_space_pending t p = true then 1 else 0))
    (hactive : (t.gpu_va_space_mem p).state = UVM_GPU_VA_SPACE_STATE_ACTIVE →
      (t.gpu_va_space_mem p).duped_gpu_va_space = true ∧
      (t.gpu_va_space_mem p).address_space_destroy_calls = 0)
    (hdead : (t.gpu_va_space_mem p).state = UVM_GPU_VA_SPACE_STATE_DEAD →
      (t.gpu_va_space_mem p).duped_gpu_va_space = true)
    (hfresh : s.gpu_va_space_next ≤ p →
      (t.gpu_va_space_mem p).state = UVM_GPU_VA_SPACE_STATE_INIT) : PendingInv t := by
  have hpend : ∀ q, q ≠ p → gpu_va_space_pending t q = gpu_va_space_pending s q := by
    intro q hq
    unfold gpu_va_space_pending
    rw [hmem q hq]
  refine ⟨?_, ?_, ?_, ?_⟩
  · have hc := hs.counter
    unfold num_pending_contexts at hc ⊢
    rw [hnext]
    by_cases hp : p < s.gpu_va_space_next
    · have hk := @countP_range_update (gpu_va_space_pending s) (gpu_va_space_pending t)
        s.gpu_va_space_next p hp hpend
      split_ifs at hcount hk <;> omega
    · have hp2 : s.gpu_va_space_next ≤ p := Nat.not_lt.mp hp
      have h0 : gpu_va_space_pending s p = false := by
        unfold gpu_va_space_pending
        rw [hs.fresh p hp2]
        rfl
      have h1 : gpu_va_space_pending t p = false := by
        unfold gpu_va_space_pending
        rw [hfresh hp2]
        rfl
      rw [h0, h1] at hcount
      simp only [Bool.false_eq_true, if_false, add_zero] at hcount
      rw [hcount, hc, countP_range_congr s.gpu_va_space_next
        (fun q hq => hpend q (fun h => hp (h ▸ hq)))]
  · intro q hq
    by_cases hqp : q = p
    · rw [hqp] at hq ⊢
      exact hactive hq
    · rw [hmem q hqp] at hq ⊢
      exact hs.active q hq
  · intro q hq
    by_cases hqp : q = p
    · rw [hqp] at hq ⊢
      exact hdead hq
    · rw [hmem q hqp] at hq ⊢
      exact hs.dead q hq
  · intro q hq
    rw [hnext] at hq
    by_cases hqp : q = p
    · rw [hqp] at hq ⊢
      exact hfresh hq
    · rw [hmem q hqp]
      exact hs.fresh q hq

theorem PendingInv_remove {s : uvm_va_space_t} (p : Option Nat)
    (l : List uvm_deferred_free_object_t) (hs : PendingInv s) :
    PendingInv (remove_gpu_va_space s p l).1 := by
  cases p with
  | none => exact hs
  | some ptr =>
    by_cases hactive : uvm_gpu_va_space_state s ptr = UVM_GPU_VA_SPACE_STATE_ACTIVE
    · obtain ⟨_, _, f3, f4, f5⟩ := remove_gpu_va_space_active_fields s ptr l hactive
      have hact2 : (s.gpu_va_space_mem ptr).state = UVM_GPU_VA_SPACE_STATE_ACTIVE := hactive
      obtain ⟨hd, hcalls⟩ := hs.active ptr hact2
      have hnext : (remove_gpu_va_space s (some ptr) l).1.gpu_va_space_next =
          s.gpu_va_space_next := by
        rw [remove_gpu_va_space_fst_active s ptr l hactive]
        rfl
      have h0 : gpu_va_space_pending s ptr = false := by
        unfold gpu_va_space_pending
        rw [hact2]
        rfl
      have h1 : gpu_va_space_pending (remove_gpu_va_space s (some ptr) l).1 ptr = true := by
        unfold gpu_va_space_pending
        rw [f5]
        simp only [hcalls, decide_True, Bool.and_self]
      refine PendingInv_update (p := ptr) hs hnext f4 ?_ ?_ ?_ ?_
      · rw [h0, h1, f3]
        simp
      · rw [f5]
        intro hc
        cases hc
      · rw [f5]
        exact fun _ => hd
      · intro hle
        rw [hs.fresh ptr hle] at hact2
        cases hact2
    · rw [remove_gpu_va_space_not_active s ptr l hactive]
      exact hs

theorem destroy_gpu_va_space_next (s : uvm_va_space_t) (p : Option Nat) :
    (destroy_gpu_va_space s p).gpu_va_space_next = s.gpu_va_space_next := by
  cases p with
  | none => rfl
  | some ptr =>
    obtain ⟨obj, u, _, ⟨_, _, u3, _⟩, heq⟩ := destroy_gpu_va_space_shape s ptr
    rw [heq]
    exact u3

/-- Destroying a context that is INIT, or DEAD and not destroyed yet, keeps the invariant of
the pending destructions. -/
theorem PendingInv_destroy {s : uvm_va_space_t} {p : Nat} (hs : PendingInv s)
    (hp : (s.gpu_va_space_mem p).state = UVM_GPU_VA_SPACE_STATE_INIT ∨
      gpu_va_space_pending s p = true) :
    PendingInv (destroy_gpu_va_space s (some p)) := by
  obtain ⟨_, _, d3, d4, d5, _⟩ := destroy_gpu_va_space_frame s p
  obtain ⟨e1, e2⟩ := destroy_gpu_va_space_handle s p
  refine PendingInv_update (p := p) hs (destroy_gpu_va_space_next s (some p)) d4 ?_ ?_ ?_ ?_
  · rcases hp with hinit | hpend
    · have h0 : gpu_va_space_pending s p = false := by
        unfold gpu_va_space_pending
        rw [hinit]
        rfl
      have h1 : gpu_va_space_pending (destroy_gpu_va_space s (some p)) p = false := by
        unfold gpu_va_space_pending
        rw [d5, hinit]
        rfl
      rw [h0, h1, d3, hinit]
      simp
    · have hst : (s.gpu_va_space_mem p).state = UVM_GPU_VA_SPACE_STATE_DEAD := by
        unfold gpu_va_space_pending at hpend
        simp only [Bool.and_eq_true, decide_eq_true_eq] at hpend
        exact hpend.1
      have h1 : gpu_va_space_pending (destroy_gpu_va_space s (some p)) p = false := by
        unfold gpu_va_space_pending
        rw [e2, hs.dead p hst]
        simp
      rw [hpend, h1, d3, if_pos hst]
      simp
  · intro hact
    rw [d5] at hact
    rcases hp with hinit | hpend
    · rw [hinit] at hact
      cases hact
    · unfold gpu_va_space_pending at hpend
      simp only [Bool.and_eq_true, decide_eq_true_eq] at hpend
      rw [hpend.1] at hact
      cases hact
  · intro hdead
    rw [d5] at hdead
    rw [e1]
    exact hs.dead p hdead
  · intro hle
    rw [d5]
    exact hs.fresh p hle

theorem destroy_gpu_va_space_asserts_of_inv {s : uvm_va_space_t} {p : Nat}
    (hs : PendingInv s)
    (hp : (s.gpu_va_space_mem p).state = UVM_GPU_VA_SPACE_STATE_INIT ∨
      gpu_va_space_pending s p = true) :
    destroy_gpu_va_space_asserts s (some p) = true ∧
    0 ≤ (destroy_gpu_va_space s (some p)).num_pending := by
  have hd3 := (destroy_gpu_va_space_frame s p).2.2.1
  have hnn : 0 ≤ s.num_pending := by
    rw [hs.counter]
    exact Int.natCast_nonneg _
  rcases hp with hinit | hpend
  · refine ⟨?_, ?_⟩
    · unfold destroy_gpu_va_space_asserts uvm_gpu_va_space_state
      simp [hinit]
    · rw [hd3, hinit]
      simpa using hnn
  · have hst : (s.gpu_va_space_mem p).state = UVM_GPU_VA_SPACE_STATE_DEAD := by
      unfold gpu_va_space_pending at hpend
      simp only [Bool.and_eq_true, decide_eq_true_eq] at hpend
      exact hpend.1
    have hlt : p < s.gpu_va_space_next := by
      by_contra hc
      rw [hs.fresh p (Nat.not_lt.mp hc)] at hst
      cases hst
    have hpos : 0 < num_pending_contexts s := by
      unfold num_pending_contexts
      exact List.countP_pos_iff.mpr ⟨p, List.mem_range.mpr hlt, hpend⟩
    have hge : 1 ≤ s.num_pending := by
      rw [hs.counter]
      exact_mod_cast hpos
    refine ⟨?_, ?_⟩
    · unfold destroy_gpu_va_space_asserts uvm_gpu_va_space_state
      simp only [hst, decide_True, Bool.or_true, Bool.true_and, if_true]
      simp only [Bool.or_eq_true, decide_eq_true_eq]
      omega
    · rw [hd3, if_pos hst]
      omega

theorem deferred_contexts_append (l1 l2 : List uvm_deferred_free_object_t) :
    deferred_contexts (l1 ++ l2) = deferred_contexts l1 ++ deferred_contexts l2 := by
  induction l1 with
  | nil => rfl
  | cons x rest ih =>
    cases x with
    | channel c => exact ih
    | gpu_va_space p =>
      show p :: deferred_contexts (rest ++ l2) = p :: deferred_contexts rest ++ _
      rw [ih]
      rfl
    | external_allocation e => exact ih

theorem deferred_contexts_channels (l : List Nat) :
    deferred_contexts (l.map uvm_deferred_free_object_t.channel) = [] := by
  induction l with
  | nil => rfl
  | cons x rest ih => exact ih

theorem deferred_contexts_external (l : List Nat) :
    deferred_contexts (l.map uvm_deferred_free_object_t.external_allocation) = [] := by
  induction l with
  | nil => rfl
  | cons x rest ih => exact ih

/-- Draining a deferred free list whose contexts are distinct and each INIT, or DEAD and not
destroyed yet, keeps the invariant of the pending destructions, and the assertions of
`destroy_gpu_va_space` hold all along. -/
theorem PendingInv_deferred_free (l : List uvm_deferred_free_object_t) (s : uvm_va_space_t)
    (hs : PendingInv s) (hnodup : (deferred_contexts l).Nodup)
    (hl : ∀ q ∈ deferred_contexts l,
      (s.gpu_va_space_mem q).state = UVM_GPU_VA_SPACE_STATE_INIT ∨
      gpu_va_space_pending s q = true) :
    PendingInv (uvm_deferred_free_object_list s l) ∧
    uvm_deferred_free_object_list_asserts s l = true := by
  induction l generalizing s with
  | nil => exact ⟨hs, rfl⟩
  | cons x rest ih =>
    cases x with
    | channel c => exact ih s hs hnodup hl
    | external_allocation e => exact ih s hs hnodup hl
    | gpu_va_space p =>
      have hnd : p ∉ deferred_contexts rest ∧ (deferred_contexts rest).Nodup :=
        List.nodup_cons.mp hnodup
      have hp := hl p (List.mem_cons_self p _)
      have h1 := PendingInv_destroy hs hp
      have ha := (destroy_gpu_va_space_asserts_of_inv hs hp).1
      have hrest := ih (destroy_gpu_va_space s (some p)) h1 hnd.2 (by
        intro q hq
        have hqp : q ≠ p := fun h => hnd.1 (h ▸ hq)
        have hmem := (destroy_gpu_va_space_frame s p).2.2.2.1 q hqp
        unfold gpu_va_space_pending
        rw [hmem]
        exact hl q (List.mem_cons_of_mem p hq))
      refine ⟨hrest.1, ?_⟩
      show (destroy_gpu_va_space_asserts s (some p) &&
        uvm_deferred_free_object_list_asserts (destroy_gpu_va_space s (some p)) rest) = true
      rw [ha, hrest.2]
      rfl

theorem PendingInv_alloc_of_fields {s t : uvm_va_space_t} (hs : PendingInv s)
    (hnext : t.gpu_va_space_next = s.gpu_va_space_next + 1)
    (hnum : t.num_pending = s.num_pending)
    (hmem : ∀ q, q ≠ s.gpu_va_space_next → t.gpu_va_space_mem q = s.gpu_va_space_mem q)
    (hnew : (t.gpu_va_space_mem s.gpu_va_space_next).state = UVM_GPU_VA_SPACE_STATE_INIT) :
    PendingInv t := by
  refine ⟨?_, ?_, ?_, ?_⟩
  · have hc := hs.counter
    unfold num_pending_contexts at hc ⊢
    rw [hnext, List.range_succ, List.countP_append, hnum, hc]
    have hlast : gpu_va_space_pending t s.gpu_va_space_next = false := by
      unfold gpu_va_space_pending
      rw [hnew]
      rfl
    have hcongr : (List.range s.gpu_va_space_next).countP (gpu_va_space_pending t) =
        (List.range s.gpu_va_space_next).countP (gpu_va_space_pending s) :=
      countP_range_congr s.gpu_va_space_next (fun q hq => by
        unfold gpu_va_space_pending
        rw [hmem q (Nat.ne_of_lt hq)])
    simp only [List.countP_cons, List.countP_nil, hlast, Bool.false_eq_true, if_false,
      Nat.add_zero, hcongr]
  · intro q hq
    by_cases hqn : q = s.gpu_va_space_next
    · rw [hqn, hnew] at hq
      cases hq
    · rw [hmem q hqn] at hq ⊢
      exact hs.active q hq
  · intro q hq
    by_cases hqn : q = s.gpu_va_space_next
    · rw [hqn, hnew] at hq
      cases hq
    · rw [hmem q hqn] at hq ⊢
      exact hs.dead q hq
  · intro q hq
    rw [hnext] at hq
    rw [hmem q (by omega)]
    exact hs.fresh q (by omega)

theorem PendingInv_alloc {s : uvm_va_space_t} (obj : uvm_gpu_va_space_t)
    (hobj : obj.state = UVM_GPU_VA_SPACE_STATE_INIT) (hs : PendingInv s) :
    PendingInv (gpu_va_space_store { s with gpu_va_space_next := s.gpu_va_space_next + 1 }
      s.gpu_va_space_next obj) :=
  PendingInv_alloc_of_fields hs rfl rfl (fun _ hq => if_neg hq)
    ((congrArg uvm_gpu_va_space_t.state (if_pos rfl)).trans hobj)

theorem PendingInv_add {s : uvm_va_space_t} {ptr : Nat} (hs : PendingInv s)
    (hinit : (s.gpu_va_space_mem ptr).state = UVM_GPU_VA_SPACE_STATE_INIT)
    (hduped : (s.gpu_va_space_mem ptr).duped_gpu_va_space = true)
    (hcalls : (s.gpu_va_space_mem ptr).address_space_destroy_calls = 0)
    (hptr : ptr < s.gpu_va_space_next) : PendingInv (add_gpu_va_space s ptr).2 := by
  rcases add_gpu_va_space_cases s ptr with h | ⟨_, h⟩
  · rw [h.2]
    exact hs
  · have hok : (add_gpu_va_space s ptr).1 = NV_OK := by rw [h]
    obtain ⟨_, _, f3, f4, f5, _⟩ := add_gpu_va_space_fields hok
    have hnext : (add_gpu_va_space s ptr).2.gpu_va_space_next = s.gpu_va_space_next := by
      rw [h]
      rfl
    have h0 : gpu_va_space_pending s ptr = false := by
      unfold gpu_va_space_pending
      rw [hinit]
      rfl
    have h1 : gpu_va_space_pending (add_gpu_va_space s ptr).2 ptr = false := by
      unfold gpu_va_space_pending
      rw [f5]
      rfl
    refine PendingInv_update (p := ptr) hs hnext f4 ?_ ?_ ?_ ?_
    · rw [h0, h1, f3]
    · rw [f5]
      exact fun _ => ⟨hduped, hcalls⟩
    · rw [f5]
      intro hc
      cases hc
    · intro hle
      exact absurd hptr (Nat.not_lt.mpr hle)

theorem remove_gpu_va_space_pending {s : uvm_va_space_t} {ptr : Nat}
    (l : List uvm_deferred_free_object_t) (hs : PendingInv s)
    (hactive : uvm_gpu_va_space_state s ptr = UVM_GPU_VA_SPACE_STATE_ACTIVE) :
    gpu_va_space_pending (remove_gpu_va_space s (some ptr) l).1 ptr = true := by
  obtain ⟨_, _, _, _, f5⟩ := remove_gpu_va_space_active_fields s ptr l hactive
  unfold gpu_va_space_pending
  rw [f5]
  simp only [(hs.active ptr hactive).2, decide_True, Bool.and_self]

/-- The contexts of the deferred free list `remove_gpu_va_space` made from an empty one: the
context removed, which is then DEAD and not destroyed yet, or none. -/
theorem remove_gpu_va_space_contexts {s : uvm_va_space_t} (p : Option Nat)
    (hs : PendingInv s) :
    deferred_contexts (remove_gpu_va_space s p []).2 = [] ∨
    ∃ ptr, deferred_contexts (remove_gpu_va_space s p []).2 = [ptr] ∧
      gpu_va_space_pending (remove_gpu_va_space s p []).1 ptr = true := by
  cases p with
  | none => exact Or.inl rfl
  | some ptr =>
    by_cases hactive : uvm_gpu_va_space_state s ptr = UVM_GPU_VA_SPACE_STATE_ACTIVE
    · right
      obtain ⟨_, _, _, _, channels, ext, hl⟩ := remove_gpu_va_space_active [] hactive
      refine ⟨ptr, ?_, remove_gpu_va_space_pending [] hs hactive⟩
      rw [hl, deferred_contexts_append, deferred_contexts_append, deferred_contexts_append,
        deferred_contexts_channels, deferred_contexts_external]
      rfl
    · left
      rw [remove_gpu_va_space_not_active s ptr [] hactive]
      rfl

/-- Draining a deferred free list with at most one context, which is DEAD and not destroyed
yet. -/
theorem PendingInv_deferred_free_one {s : uvm_va_space_t}
    {l : List uvm_deferred_free_object_t} (hs : PendingInv s)
    (hl : deferred_contexts l = [] ∨
      ∃ ptr, deferred_contexts l = [ptr] ∧ gpu_va_space_pending s ptr = true) :
    PendingInv (uvm_deferred_free_object_list s l) ∧
    uvm_deferred_free_object_list_asserts s l = true := by
  rcases hl with h | ⟨ptr, h, hp⟩
  · refine PendingInv_deferred_free l s hs ?_ ?_
    · rw [h]
      exact List.nodup_nil
    · rw [h]
      intro q hq
      cases hq
  · refine PendingInv_deferred_free l s hs ?_ ?_
    · rw [h]
      exact List.nodup_singleton ptr
    · rw [h]
      intro q hq
      rw [List.mem_singleton.mp hq]
      exact Or.inr hp

theorem PendingInv_create {g : uvm_global_t} {s : uvm_va_space_t} (gpu : Nat)
    (rm : rm_answers_t) (hs : PendingInv s) :
    PendingInv (create_gpu_va_space g s gpu rm).2.1 := by
  rcases create_gpu_va_space_cases g s gpu rm with ⟨_, _, h | ⟨obj, hobj, _, _, _, h⟩⟩ | h
  · rw [h]
    exact hs
  · rw [h]
    refine PendingInv_destroy (PendingInv_alloc obj hobj hs) (Or.inl ?_)
    exact (congrArg uvm_gpu_va_space_t.state (if_pos rfl)).trans hobj
  · rw [h]
    exact PendingInv_alloc _ rfl hs

theorem PendingInv_register_error {s : uvm_va_space_t} {ptr : Nat} {locked : Bool}
    (hs : PendingInv s)
    (h : (s.gpu_va_space_mem ptr).state = UVM_GPU_VA_SPACE_STATE_INIT ∨
      ((s.gpu_va_space_mem ptr).state = UVM_GPU_VA_SPACE_STATE_ACTIVE ∧ locked = true ∧
        (s.gpu_va_space_mem ptr).va_space = true)) :
    PendingInv (register_gpu_va_space_error s ptr locked) := by
  unfold register_gpu_va_space_error
  simp only
  rcases h with hinit | ⟨hact, hl, hv⟩
  · have hna : ¬uvm_gpu_va_space_state s ptr = UVM_GPU_VA_SPACE_STATE_ACTIVE := by
      unfold uvm_gpu_va_space_state
      rw [hinit]
      intro hc
      cases hc
    split_ifs
    · rw [remove_gpu_va_space_not_active s ptr [] hna]
      exact PendingInv_destroy hs (Or.inl hinit)
    · exact PendingInv_destroy hs (Or.inl hinit)
  · rw [hl, hv]
    simp only [Bool.and_self, if_true]
    exact PendingInv_destroy (PendingInv_remove (some ptr) [] hs)
      (Or.inr (remove_gpu_va_space_pending [] hs hact))

theorem PendingInv_register_locked {s : uvm_va_space_t} (rm : rm_answers_t) {gpu ptr : Nat}
    (hs : PendingInv s)
    (hinit : (s.gpu_va_space_mem ptr).state = UVM_GPU_VA_SPACE_STATE_INIT)
    (hduped : (s.gpu_va_space_mem ptr).duped_gpu_va_space = true)
    (hcalls : (s.gpu_va_space_mem ptr).address_space_destroy_calls = 0)
    (hptr : ptr < s.gpu_va_space_next) :
    PendingInv (register_gpu_va_space_locked s rm gpu ptr).2 := by
  have herr : PendingInv (register_gpu_va_space_error s ptr true) :=
    PendingInv_register_error hs (Or.inl hinit)
  have hadd := PendingInv_add hs hinit hduped hcalls hptr
  have herr2 : PendingInv (register_gpu_va_space_error (add_gpu_va_space s ptr).2 ptr true) := by
    refine PendingInv_register_error hadd ?_
    rcases add_gpu_va_space_cases s ptr with h | ⟨_, h⟩
    · left
      rw [h.2]
      exact hinit
    · right
      have hok : (add_gpu_va_space s ptr).1 = NV_OK := by rw [h]
      rw [(add_gpu_va_space_fields hok).2.2.2.2.1]
      exact ⟨rfl, rfl, rfl⟩
  unfold register_gpu_va_space_locked
  simp only
  split_ifs
  · exact herr
  · exact herr
  · exact herr
  · exact herr
  · exact herr2
  · exact herr2
  · exact herr2
  · exact hadd

theorem PendingInv_register_gpu_va_space {g : uvm_global_t} {s : uvm_va_space_t}
    (rm : rm_answers_t) (gpu_uuid : Nat) (hs : PendingInv s) :
    PendingInv (uvm_va_space_register_gpu_va_space g s rm gpu_uuid).2 := by
  unfold uvm_va_space_register_gpu_va_space
  simp only
  split_ifs with h1 h2
  · exact hs
  · exact hs
  · have hcreate := PendingInv_create (g := g) (uvm_gpu_retain_by_uuid g gpu_uuid).2 rm hs
    rcases create_gpu_va_space_cases g s (uvm_gpu_retain_by_uuid g gpu_uuid).2 rm with
      ⟨hn, _, _⟩ | hcr
    · rw [hn]
      exact hcreate
    · have hptr : (create_gpu_va_space g s (uvm_gpu_retain_by_uuid g gpu_uuid).2 rm).2.2 =
          some s.gpu_va_space_next := by rw [hcr]
      have hmem : (create_gpu_va_space g s (uvm_gpu_retain_by_uuid g gpu_uuid).2
          rm).2.1.gpu_va_space_mem s.gpu_va_space_next =
          { gpu_va_space_zero with
            gpu := (uvm_gpu_retain_by_uuid g gpu_uuid).2, kref := 1, duped_gpu_va_space := true,
            ats_enabled := rm.atsEnabled, page_tables_root := true,
            big_page_size := rm.bigPageSize, did_set_page_directory := true } := by
        rw [hcr]
        exact if_pos rfl
      have hnext : s.gpu_va_space_next < (create_gpu_va_space g s
          (uvm_gpu_retain_by_uuid g gpu_uuid).2 rm).2.1.gpu_va_space_next := by
        rw [hcr]
        exact Nat.lt_succ_self _
      rw [hptr]
      simp only
      generalize (create_gpu_va_space g s (uvm_gpu_retain_by_uuid g gpu_uuid).2 rm).2.1 = s1
        at hcreate hmem hnext ⊢
      have hinit : (s1.gpu_va_space_mem s.gpu_va_space_next).state =
          UVM_GPU_VA_SPACE_STATE_INIT := by rw [hmem]; rfl
      split_ifs with h3
      · exact PendingInv_register_error hcreate (Or.inl hinit)
      · have hframe := pending_frame_store s1 s.gpu_va_space_next
          { s1.gpu_va_space_mem s.gpu_va_space_next with
            ats_mm := (s1.gpu_va_space_mem s.gpu_va_space_next).ats_enabled } rfl rfl rfl
        have hs2 := PendingInv_of_pending_frame hframe hcreate
        have hmem2 : (gpu_va_space_store s1 s.gpu_va_space_next
            { s1.gpu_va_space_mem s.gpu_va_space_next with
              ats_mm := (s1.gpu_va_space_mem s.gpu_va_space_next).ats_enabled }).gpu_va_space_mem
            s.gpu_va_space_next =
            { s1.gpu_va_space_mem s.gpu_va_space_next with
              ats_mm := (s1.gpu_va_space_mem s.gpu_va_space_next).ats_enabled } := if_pos rfl
        refine PendingInv_register_locked rm hs2 ?_ ?_ ?_ hnext
        · rw [hmem2]
          exact hinit
        · rw [hmem2, hmem]
        · rw [hmem2, hmem]
          rfl

theorem pending_frame_unregister_gpu_va_space_begin (g : uvm_global_t) (s : uvm_va_space_t)
    (gpu_uuid : Nat) :
    pending_frame s (uvm_va_space_unregister_gpu_va_space_begin g s gpu_uuid).2.1 := by
  unfold uvm_va_space_unregister_gpu_va_space_begin
  cases uvm_va_space_get_gpu_by_uuid_with_gpu_va_space g s gpu_uuid with
  | none => exact pending_frame_refl s
  | some gpu =>
    simp only
    cases uvm_gpu_va_space_get s gpu with
    | none => exact pending_frame_refl s
    | some p =>
      exact pending_frame_trans (pending_frame_stop_all_channels s p)
        (pending_frame_store _ p _ rfl rfl rfl)

/-- The second part of `uvm_va_space_unregister_gpu_va_space` keeps the invariant of the
pending destructions, and the assertions of `destroy_gpu_va_space` hold while it drains its
deferred free list. -/
theorem PendingInv_unregister_gpu_va_space_finish {s : uvm_va_space_t} (p : Nat)
    (hs : PendingInv s) :
    PendingInv (uvm_va_space_unregister_gpu_va_space_finish s p).2 ∧
    uvm_deferred_free_object_list_asserts (remove_gpu_va_space s (some p) []).1
      (remove_gpu_va_space s (some p) []).2 = true := by
  have hrem := PendingInv_remove (some p) [] hs
  have hdrain := PendingInv_deferred_free_one hrem (remove_gpu_va_space_contexts (some p) hs)
  refine ⟨?_, hdrain.2⟩
  unfold uvm_va_space_unregister_gpu_va_space_finish
  simp only
  split_ifs
  · exact PendingInv_of_pending_frame (pending_frame_release s (some p)) hs
  · exact PendingInv_of_pending_frame (pending_frame_release _ (some p)) hdrain.1

/-- The function `unregister_gpu` keeps the invariant of the pending destructions; the
deferred free list it makes from an empty one holds the context of the device, which is then
DEAD and not destroyed yet, or no context. -/
theorem PendingInv_unregister_gpu {g : uvm_global_t} {s : uvm_va_space_t} (gpu : Nat)
    (hs : PendingInv s) :
    PendingInv (unregister_gpu g s gpu []).1 ∧
    (deferred_contexts (unregister_gpu g s gpu []).2.1 = [] ∨
      ∃ ptr, deferred_contexts (unregister_gpu g s gpu []).2.1 = [ptr] ∧
        gpu_va_space_pending (unregister_gpu g s gpu []).1 ptr = true) := by
  have h1 := PendingInv_remove (uvm_gpu_va_space_get s gpu) [] hs
  have hl := remove_gpu_va_space_contexts (uvm_gpu_va_space_get s gpu) hs
  unfold unregister_gpu
  simp only
  generalize (remove_gpu_va_space s (uvm_gpu_va_space_get s gpu) []).1 = s1 at h1 hl ⊢
  generalize hdfl : (remove_gpu_va_space s (uvm_gpu_va_space_get s gpu) []).2 ++ _ = dfl
  have hdc : deferred_contexts dfl =
      deferred_contexts (remove_gpu_va_space s (uvm_gpu_va_space_get s gpu) []).2 := by
    rw [← hdfl, deferred_contexts_append, deferred_contexts_external, List.append_nil]
  have hloop := unregister_gpu_peers_loop_ctx_frame gpu
    (for_each_gpu_id_in_mask s1.registered_gpus) s1 dfl uvm_processor_mask_zero
  obtain ⟨_, ext, hlist⟩ := unregister_gpu_peers_loop_same_contexts gpu
    (for_each_gpu_id_in_mask s1.registered_gpus) s1 dfl uvm_processor_mask_zero
  generalize unregister_gpu_peers_loop gpu (for_each_gpu_id_in_mask s1.registered_gpus) s1 dfl
    uvm_processor_mask_zero = r at hloop hlist ⊢
  have hmasks := unregister_gpu_masks_ctx_frame g r.1 gpu
  have hframe := pending_frame_of_ctx_frame (ctx_frame_trans hloop hmasks)
  refine ⟨PendingInv_of_pending_frame hframe h1, ?_⟩
  rw [hlist, deferred_contexts_append, deferred_contexts_external, List.append_nil, hdc]
  rcases hl with h | ⟨ptr, h, hp⟩
  · exact Or.inl h
  · refine Or.inr ⟨ptr, h, ?_⟩
    rw [gpu_va_space_pending_of_frame hframe]
    exact hp

theorem PendingInv_uvm_va_space_unregister_gpu_finish {g : uvm_global_t}
    {s : uvm_va_space_t} (gpu : Nat) (hs : PendingInv s) :
    PendingInv (uvm_va_space_unregister_gpu_finish g s gpu).2.1 ∧
    uvm_deferred_free_object_list_asserts
      (gpu_unregister_in_progress_clear (unregister_gpu g s gpu []).1 gpu)
      (unregister_gpu g s gpu []).2.1 = true := by
  obtain ⟨h1, hl⟩ := @PendingInv_unregister_gpu g _ gpu hs
  unfold uvm_va_space_unregister_gpu_finish
  simp only
  generalize unregister_gpu g s gpu [] = r at h1 hl ⊢
  have hframe : pending_frame r.1 (gpu_unregister_in_progress_clear r.1 gpu) :=
    pending_frame_of_ctx_frame ⟨rfl, rfl, rfl, rfl, rfl⟩
  have h2 := PendingInv_of_pending_frame hframe h1
  refine PendingInv_deferred_free_one h2 ?_
  rcases hl with h | ⟨ptr, h, hp⟩
  · exact Or.inl h
  · refine Or.inr ⟨ptr, h, ?_⟩
    rw [gpu_va_space_pending_of_frame hframe]
    exact hp

theorem pending_frame_uvm_va_space_unregister_gpu_begin (g : uvm_global_t)
    (s : uvm_va_space_t) (gpu_uuid : Nat) :
    pending_frame s (uvm_va_space_unregister_gpu_begin g s gpu_uuid).2.1 := by
  unfold uvm_va_space_unregister_gpu_begin
  cases uvm_va_space_get_gpu_by_uuid g s gpu_uuid with
  | none => exact pending_frame_refl s
  | some gpu =>
    simp only
    split_ifs
    · exact pending_frame_refl s
    · have hset : pending_frame s (gpu_unregister_in_progress_set s gpu) :=
        pending_frame_of_ctx_frame ⟨rfl, rfl, rfl, rfl, rfl⟩
      cases uvm_gpu_va_space_get (gpu_unregister_in_progress_set s gpu) gpu with
      | none => exact hset
      | some p => exact pending_frame_trans hset (pending_frame_stop_all_channels _ p)

theorem pending_frame_disable_peers_free (s : uvm_va_space_t) (a b : Nat) :
    pending_frame s
      (uvm_deferred_free_object_list (disable_peers s a b []).1 (disable_peers s a b []).2) := by
  obtain ⟨ext, hl⟩ := disable_peers_snd s a b []
  rw [hl, List.nil_append, uvm_deferred_free_object_list_external]
  exact pending_frame_of_ctx_frame (disable_peers_ctx_frame s a b [])

theorem pending_frame_uvm_api_disable_peer_access (g : uvm_global_t) (s : uvm_va_space_t)
    (gpuUuidA gpuUuidB : Nat) :
    pending_frame s (uvm_api_disable_peer_access g s gpuUuidA gpuUuidB).2 := by
  unfold uvm_api_disable_peer_access
  cases uvm_va_space_get_gpu_by_uuid g s gpuUuidA with
  | none => exact pending_frame_refl s
  | some gpu_1 =>
    cases uvm_va_space_get_gpu_by_uuid g s gpuUuidB with
    | none => exact pending_frame_refl s
    | some gpu_2 =>
      simp only
      split_ifs
      · exact pending_frame_refl s
      · exact pending_frame_refl s
      · exact pending_frame_disable_peers_free s gpu_1 gpu_2

theorem pending_frame_uvm8_test_disable_nvlink_peer_access (g : uvm_global_t)
    (s : uvm_va_space_t) (gpuUuidA gpuUuidB : Nat) :
    pending_frame s (uvm8_test_disable_nvlink_peer_access g s gpuUuidA gpuUuidB).2 := by
  unfold uvm8_test_disable_nvlink_peer_access
  cases uvm_va_space_get_gpu_by_uuid g s gpuUuidA with
  | none => exact pending_frame_refl s
  | some gpu_1 =>
    cases uvm_va_space_get_gpu_by_uuid g s gpuUuidB with
    | none => exact pending_frame_refl s
    | some gpu_2 =>
      simp only
      split_ifs
      · exact pending_frame_refl s
      · exact pending_frame_refl s
      · exact pending_frame_disable_peers_free s gpu_1 gpu_2

theorem PendingInv_uvm_va_space_register_gpu {g : uvm_global_t} {s : uvm_va_space_t}
    (gpu_uuid : Nat) (hs : PendingInv s) :
    PendingInv (uvm_va_space_register_gpu g s gpu_uuid).2.1 := by
  rw [uvm_va_space_register_gpu_state]
  have hloop : ∀ gpu, PendingInv
      (register_gpu_nvlink_peers g (register_gpu_masks g s gpu) gpu).2 := by
    intro gpu
    unfold register_gpu_nvlink_peers
    exact PendingInv_of_pending_frame
      (pending_frame_of_ctx_frame
        (ctx_frame_trans (register_gpu_masks_ctx_frame g s gpu)
          (register_gpu_nvlink_peers_loop_ctx_frame g gpu _ _))) hs
  split_ifs
  · exact hs
  · exact hs
  · exact hs
  · exact hs
  · exact (PendingInv_unregister_gpu _ (hloop _)).1
  · exact hloop _

/-- Every operation keeps the invariant of the pending destructions. -/
theorem Step_PendingInv {g : uvm_global_t} {s t : uvm_va_space_t} (hs : PendingInv s)
    (hstep : Step g s t) : PendingInv t := by
  cases hstep with
  | register_gpu gpu_uuid => exact PendingInv_uvm_va_space_register_gpu gpu_uuid hs
  | unregister_gpu_begin gpu_uuid =>
    exact PendingInv_of_pending_frame
      (pending_frame_uvm_va_space_unregister_gpu_begin g s gpu_uuid) hs
  | unregister_gpu_finish gpu hguard =>
    exact (PendingInv_uvm_va_space_unregister_gpu_finish gpu hs).1
  | enable_peer_access a b st =>
    exact PendingInv_of_pending_frame
      (pending_frame_of_ctx_frame (ctx_frame_uvm_api_enable_peer_access g s a b st).1) hs
  | disable_peer_access a b =>
    exact PendingInv_of_pending_frame (pending_frame_uvm_api_disable_peer_access g s a b) hs
  | test_enable_nvlink_peer_access a b =>
    exact PendingInv_of_pending_frame
      (pending_frame_of_ctx_frame (ctx_frame_uvm8_test_enable_nvlink_peer_access g s a b).1) hs
  | test_disable_nvlink_peer_access a b =>
    exact PendingInv_of_pending_frame
      (pending_frame_uvm8_test_disable_nvlink_peer_access g s a b) hs
  | register_gpu_va_space rm gpu_uuid => exact PendingInv_register_gpu_va_space rm gpu_uuid hs
  | unregister_gpu_va_space_begin gpu_uuid =>
    exact PendingInv_of_pending_frame
      (pending_frame_unregister_gpu_va_space_begin g s gpu_uuid) hs
  | unregister_gpu_va_space_finish p hptr =>
    exact (PendingInv_unregister_gpu_va_space_finish p hs).1
  | va_ranges_change va_ranges =>
    exact PendingInv_of_pending_frame (s := s)
      (pending_frame_of_ctx_frame ⟨rfl, rfl, rfl, rfl, rfl⟩) hs
  | mm_shutdown =>
    exact PendingInv_of_pending_frame (s := s)
      (pending_frame_of_ctx_frame ⟨rfl, rfl, rfl, rfl, rfl⟩) hs

theorem uvm_va_space_create_PendingInv {s : uvm_va_space_t} {alloc_ok : Bool}
    {s1 s2 s3 : NV_STATUS} (h : uvm_va_space_create alloc_ok s1 s2 s3 = (NV_OK, some s)) :
    PendingInv s := by
  unfold uvm_va_space_create at h
  simp only at h
  split_ifs at h <;> cases h
  refine ⟨rfl, ?_, ?_, ?_⟩
  · intro p hp
    cases hp
  · intro p hp
    cases hp
  · intro p _
    rfl

/-- Every reachable address space satisfies the invariant of the pending destructions. -/
theorem Reachable_PendingInv {g : uvm_global_t} {s : uvm_va_space_t} (h : Reachable g s) :
    PendingInv s :=
  Reachable_invariant PendingInv (fun _ _ _ _ hc => uvm_va_space_create_PendingInv hc)
    (fun _ _ _ hs hstep => Step_PendingInv hs hstep) h

theorem uvm_gpu_va_space_release_wakeups (s : uvm_va_space_t) (p : Option Nat) :
    (uvm_gpu_va_space_release s p).wait_queue_wakeups = s.wait_queue_wakeups := by
  cases p with
  | none => rfl
  | some ptr => rfl

/-- What `destroy_gpu_va_space` does to the wait queue: one wake-up more exactly when the
context is DEAD and the decremented counter is zero. -/
theorem destroy_gpu_va_space_wakeups (s : uvm_va_space_t) (p : Nat) :
    (destroy_gpu_va_space s (some p)).wait_queue_wakeups =
      (if (s.gpu_va_space_mem p).state = UVM_GPU_VA_SPACE_STATE_DEAD ∧ s.num_pending - 1 = 0
        then s.wait_queue_wakeups + 1 else s.wait_queue_wakeups) := by
  have h0 := (uvm_gpu_va_space_unset_page_dir_keys (s.gpu_va_space_mem p)).2.1
  generalize hst : (s.gpu_va_space_mem p).state = st at h0 ⊢
  unfold destroy_gpu_va_space
  simp only
  generalize uvm_gpu_va_space_unset_page_dir (s.gpu_va_space_mem p) = o1 at h0 ⊢
  generalize ho2 : (if o1.page_tables_root = true then _ else o1) = o2
  have h1 : o2.state = st := by
    rw [← ho2]
    split_ifs <;> exact h0
  generalize ho3 : (if o2.duped_gpu_va_space = true then _ else o2) = o3
  have h2 : o3.state = st := by
    rw [← ho3]
    split_ifs <;> exact h1
  rw [h2, uvm_gpu_va_space_release_wakeups]
  have hu1 : (gpu_va_space_store s p o3).num_pending = s.num_pending := rfl
  have hu2 : (gpu_va_space_store s p o3).wait_queue_wakeups = s.wait_queue_wakeups := rfl
  generalize gpu_va_space_store s p o3 = u at hu1 hu2 ⊢
  rw [← hu1, ← hu2]
  by_cases hd : st = UVM_GPU_VA_SPACE_STATE_DEAD
  · by_cases hz : u.num_pending - 1 = 0
    · simp only [hd, hz, and_self, if_true]
    · simp only [hd, hz, and_false, if_true, if_false]
  · simp only [hd, false_and, if_false]

/-! ## The claim on the counter of the pending destructions -/

/-- C31: `destroy_gpu_va_space` decrements the counter of pending destructions by one exactly
when the state of the context is DEAD, and wakes the wait queue exactly when the context is
DEAD and the decremented counter is zero.  In every reachable address space the counter is
the number of the contexts moved to DEAD and not destroyed yet, so it is not negative; the
same holds between `remove_gpu_va_space` and the draining of the deferred free list, and
while the two unregistrations drain their list the assertions of `destroy_gpu_va_space`
(the state is INIT or DEAD, the decremented counter is zero or positive) hold. -/
theorem c31_pending_destructions (g : uvm_global_t) (s : uvm_va_space_t)
    (h : Reachable g s) :
    (∀ u p, (destroy_gpu_va_space u (some p)).num_pending =
      (if (u.gpu_va_space_mem p).state = UVM_GPU_VA_SPACE_STATE_DEAD then u.num_pending - 1
        else u.num_pending)) ∧
    (∀ u p, (destroy_gpu_va_space u (some p)).wait_queue_wakeups =
      (if (u.gpu_va_space_mem p).state = UVM_GPU_VA_SPACE_STATE_DEAD ∧ u.num_pending - 1 = 0
        then u.wait_queue_wakeups + 1 else u.wait_queue_wakeups)) ∧
    s.num_pending = (num_pending_contexts s : Int) ∧
    0 ≤ s.num_pending ∧
    (∀ p l, (remove_gpu_va_space s p l).1.num_pending =
      (num_pending_contexts (remove_gpu_va_space s p l).1 : Int)) ∧
    (∀ p, uvm_deferred_free_object_list_asserts (remove_gpu_va_space s (some p) []).1
      (remove_gpu_va_space s (some p) []).2 = true) ∧
    (∀ gpu, uvm_deferred_free_object_list_asserts
      (gpu_unregister_in_progress_clear (unregister_gpu g s gpu []).1 gpu)
      (unregister_gpu g s gpu []).2.1 = true) ∧
    (∀ t, Step g s t → t.num_pending = (num_pending_contexts t : Int) ∧ 0 ≤ t.num_pending) := by
  have hs := Reachable_PendingInv h
  have hnn : ∀ t, PendingInv t → 0 ≤ t.num_pending := by
    intro t ht
    rw [ht.counter]
    exact Int.natCast_nonneg _
  refine ⟨fun u p => (destroy_gpu_va_space_frame u p).2.2.1,
    fun u p => destroy_gpu_va_space_wakeups u p, hs.counter, hnn s hs,
    fun p l => (PendingInv_remove p l hs).counter,
    fun p => (PendingInv_unregister_gpu_va_space_finish p hs).2,
    fun gpu => (PendingInv_uvm_va_space_unregister_gpu_finish gpu hs).2, ?_⟩
  intro t hstep
  have ht := Step_PendingInv hs hstep
  exact ⟨ht.counter, hnn t ht⟩

theorem c31_pending_destructions_witness :
    Reachable sample_global sample_two_context ∧
    sample_two_context.num_pending = 0 ∧
    (remove_gpu_va_space sample_two_context (some 0) []).1.num_pending = 1 ∧
    (destroy_gpu_va_space (remove_gpu_va_space sample_two_context (some 0) []).1
      (some 0)).num_pending = 0 ∧
    sample_two_context.num_pending = (num_pending_contexts sample_two_context : Int) ∧
    (remove_gpu_va_space sample_two_context (some 0) []).1.num_pending =
      (num_pending_contexts (remove_gpu_va_space sample_two_context (some 0) []).1 : Int) :=
  ⟨sample_two_context_reachable,
    by decide, by decide, by decide,
    (c31_pending_destructions sample_global sample_two_context
      sample_two_context_reachable).2.2.1,
    (c31_pending_destructions sample_global sample_two_context
      sample_two_context_reachable).2.2.2.2.1
      (some 0) []⟩

/-! ## Lemmas: the affinity array -/

theorem affinity_kept_refl (l : List uvm_cpu_gpu_affinity_t) : affinity_kept l l := by
  induction l with
  | nil => exact List.Forall₂.nil
  | cons e rest ih => exact List.Forall₂.cons (fun _ => rfl) ih

theorem affinity_kept_trans {l1 l2 l3 : List uvm_cpu_gpu_affinity_t}
    (h1 : affinity_kept l1 l2) (h2 : affinity_kept l2 l3) : affinity_kept l1 l3 := by
  unfold affinity_kept at *
  induction h1 generalizing l3 with
  | nil =>
    cases h2
    exact List.Forall₂.nil
  | cons hab _ ih =>
    cases h2 with
    | cons hbc hrest =>
      refine List.Forall₂.cons (fun hne => ?_) (ih hrest)
      rw [hbc (by rw [hab hne]; exact hne), hab hne]

theorem affinity_but_refl (gpu : Nat) (l : List uvm_cpu_gpu_affinity_t) :
    affinity_but gpu l l := by
  induction l with
  | nil => exact List.Forall₂.nil
  | cons e rest ih => exact List.Forall₂.cons ⟨rfl, fun _ _ => rfl⟩ ih

theorem affinity_kept_of_but {gpu : Nat} {l l' : List uvm_cpu_gpu_affinity_t}
    (h : affinity_but gpu l l') : affinity_kept l l' := by
  unfold affinity_but at h
  unfold affinity_kept
  induction h with
  | nil => exact List.Forall₂.nil
  | cons hab _ ih => exact List.Forall₂.cons (fun _ => hab.1) ih

/-- What the loop of the registration does to the affinity array: nothing when every entry
is used by another node; otherwise the first entry that is free or has the node gets the node
and the device. -/
theorem register_gpu_affinity_cases (node : Int) (gpu : Nat)
    (l : List uvm_cpu_gpu_affinity_t) :
    ((∀ x ∈ l, x.numa_node ≠ -1 ∧ x.numa_node ≠ node) ∧ register_gpu_affinity node gpu l = l) ∨
    ∃ pre e post, l = pre ++ e :: post ∧
      (∀ x ∈ pre, x.numa_node ≠ -1 ∧ x.numa_node ≠ node) ∧
      (e.numa_node = -1 ∨ e.numa_node = node) ∧
      register_gpu_affinity node gpu l =
        pre ++ { numa_node := node, gpus := uvm_processor_mask_set e.gpus gpu } :: post := by
  induction l with
  | nil => exact Or.inl ⟨(fun x hx => by cases hx), rfl⟩
  | cons e rest ih =>
    unfold register_gpu_affinity
    by_cases h1 : e.numa_node = -1
    · right
      refine ⟨[], e, rest, rfl, (fun x hx => by cases hx), Or.inl h1, ?_⟩
      simp only [h1, if_true, List.nil_append]
    · by_cases h2 : e.numa_node = node
      · right
        refine ⟨[], e, rest, rfl, (fun x hx => by cases hx), Or.inr h2, ?_⟩
        subst h2
        simp only [h1, if_false, if_true, List.nil_append]
      · simp only [h1, if_false, h2]
        rcases ih with ⟨hall, heq⟩ | ⟨pre, e0, post, hl, hpre, he, heq⟩
        · left
          refine ⟨?_, by rw [heq]⟩
          intro x hx
          rcases List.mem_cons.mp hx with rfl | hx
          · exact ⟨h1, h2⟩
          · exact hall x hx
        · right
          refine ⟨e :: pre, e0, post, by rw [hl]; rfl, ?_, he, by rw [heq]; rfl⟩
          intro x hx
          rcases List.mem_cons.mp hx with rfl | hx
          · exact ⟨h1, h2⟩
          · exact hpre x hx

/-- What the loop of the unregistration does to the affinity array: nothing when no entry has
the node; otherwise the device leaves the mask of the first entry with the node. -/
theorem unregister_gpu_affinity_cases (node : Int) (gpu : Nat)
    (l : List uvm_cpu_gpu_affinity_t) :
    ((∀ x ∈ l, x.numa_node ≠ node) ∧ unregister_gpu_affinity node gpu l = l) ∨
    ∃ pre e post, l = pre ++ e :: post ∧ (∀ x ∈ pre, x.numa_node ≠ node) ∧
      e.numa_node = node ∧
      unregister_gpu_affinity node gpu l =
        pre ++ { e with gpus := uvm_processor_mask_clear e.gpus gpu } :: post := by
  induction l with
  | nil => exact Or.inl ⟨(fun x hx => by cases hx), rfl⟩
  | cons e rest ih =>
    unfold unregister_gpu_affinity
    by_cases h2 : e.numa_node = node
    · right
      refine ⟨[], e, rest, rfl, (fun x hx => by cases hx), h2, ?_⟩
      simp only [h2, if_true, List.nil_append]
    · simp only [h2, if_false]
      rcases ih with ⟨hall, heq⟩ | ⟨pre, e0, post, hl, hpre, he, heq⟩
      · left
        refine ⟨?_, by rw [heq]⟩
        intro x hx
        rcases List.mem_cons.mp hx with rfl | hx
        · exact h2
        · exact hall x hx
      · right
        refine ⟨e :: pre, e0, post, by rw [hl]; rfl, ?_, he, by rw [heq]; rfl⟩
        intro x hx
        rcases List.mem_cons.mp hx with rfl | hx
        · exact h2
        · exact hpre x hx

/-- The entries after a position keep what well-formedness says of an array. -/
theorem affinity_wf_append {g : uvm_global_t} {pre l : List uvm_cpu_gpu_affinity_t}
    (h : affinity_wf g (pre ++ l)) : affinity_wf g l := by
  induction pre with
  | nil => exact h
  | cons x rest ih => exact ih h.2.2

/-- In a well-formed array one entry is replaced by an entry with the same node, or a free
entry by a used one whose node is new and the closest node of a device. -/
theorem affinity_wf_replace {g : uvm_global_t} {pre post : List uvm_cpu_gpu_affinity_t}
    {e e' : uvm_cpu_gpu_affinity_t} (h : affinity_wf g (pre ++ e :: post))
    (hnode : e'.numa_node ≠ -1)
    (hpre : ∀ x ∈ pre, x.numa_node ≠ -1 ∧ x.numa_node ≠ e'.numa_node)
    (he : e.numa_node = -1 ∨ e.numa_node = e'.numa_node)
    (hprov : ∃ i, 0 < i ∧ i < UVM_MAX_PROCESSORS ∧
      (g.gpus i).closest_cpu_numa_node = e'.numa_node) :
    affinity_wf g (pre ++ e' :: post) := by
  induction pre with
  | nil =>
    have h1 : affinity_wf g (e :: post) := h
    refine ⟨fun hc => absurd hc hnode, fun _ => ⟨?_, hprov⟩, h1.2.2⟩
    intro x hx
    rcases he with he | he
    · rw [(h1.1 he).2 x hx]
      exact fun hc => hnode hc.symm
    · rw [← he]
      exact (h1.2.1 (by rw [he]; exact hnode)).1 x hx
  | cons x rest ih =>
    have h1 : affinity_wf g (x :: (rest ++ e :: post)) := h
    have hx := hpre x (List.mem_cons_self x rest)
    refine ⟨fun hc => absurd hc hx.1, fun _ => ⟨?_, (h1.2.1 hx.1).2⟩,
      ih h1.2.2 (fun y hy => hpre y (List.mem_cons_of_mem x hy))⟩
    intro y hy
    rcases List.mem_append.mp hy with hy | hy
    · exact (h1.2.1 hx.1).1 y (List.mem_append_left _ hy)
    · rcases List.mem_cons.mp hy with rfl | hy
      · exact fun hc => hx.2 hc.symm
      · exact (h1.2.1 hx.1).1 y (List.mem_append_right _ (List.mem_cons_of_mem e hy))

/-- In a well-formed array the mask of one used entry is replaced. -/
theorem affinity_wf_mask {g : uvm_global_t} {pre post : List uvm_cpu_gpu_affinity_t}
    {e : uvm_cpu_gpu_affinity_t} (mask : uvm_processor_mask_t)
    (h : affinity_wf g (pre ++ e :: post)) (hnode : e.numa_node ≠ -1) :
    affinity_wf g (pre ++ { e with gpus := mask } :: post) := by
  induction pre with
  | nil =>
    have h1 : affinity_wf g (e :: post) := h
    exact ⟨fun hc => absurd hc hnode, h1.2.1, h1.2.2⟩
  | cons x rest ih =>
    have h1 : affinity_wf g (x :: (rest ++ e :: post)) := h
    refine ⟨fun hc => ⟨(h1.1 hc).1, ?_⟩, fun hc => ⟨?_, (h1.2.1 hc).2⟩, ih h1.2.2⟩
    · intro y hy
      rcases List.mem_append.mp hy with hy | hy
      · exact (h1.1 hc).2 y (List.mem_append_left _ hy)
      · rcases List.mem_cons.mp hy with rfl | hy
        · exact (h1.1 hc).2 e (List.mem_append_right _ (List.mem_cons_self e post))
        · exact (h1.1 hc).2 y (List.mem_append_right _ (List.mem_cons_of_mem e hy))
    · intro y hy
      rcases List.mem_append.mp hy with hy | hy
      · exact (h1.2.1 hc).1 y (List.mem_append_left _ hy)
      · rcases List.mem_cons.mp hy with rfl | hy
        · exact (h1.2.1 hc).1 e (List.mem_append_right _ (List.mem_cons_self e post))
        · exact (h1.2.1 hc).1 y (List.mem_append_right _ (List.mem_cons_of_mem e hy))

/-- The nodes of a well-formed array without a free entry are distinct, and each is the
closest node of a device. -/
theorem affinity_wf_nodup {g : uvm_global_t} {l : List uvm_cpu_gpu_affinity_t}
    (h : affinity_wf g l) (hused : ∀ x ∈ l, x.numa_node ≠ -1) :
    (l.map fun x => x.numa_node).Nodup ∧
    ∀ n ∈ l.map (fun x => x.numa_node),
      n ∈ ((List.range UVM_MAX_PROCESSORS).filter fun i => decide (0 < i)).map
        fun i => (g.gpus i).closest_cpu_numa_node := by
  induction l with
  | nil => exact ⟨List.nodup_nil, (fun n hn => by cases hn)⟩
  | cons e rest ih =>
    have he := hused e (List.mem_cons_self e rest)
    obtain ⟨i1, i2⟩ := ih h.2.2 (fun x hx => hused x (List.mem_cons_of_mem e hx))
    obtain ⟨hd, i, hi0, hi1, hi2⟩ := h.2.1 he
    refine ⟨?_, ?_⟩
    · rw [List.map_cons, List.nodup_cons]
      refine ⟨?_, i1⟩
      intro hmem
      obtain ⟨x, hx, hxe⟩ := List.mem_map.mp hmem
      exact hd x hx hxe
    · intro n hn
      rw [List.map_cons] at hn
      rcases List.mem_cons.mp hn with rfl | hn
      · exact List.mem_map.mpr ⟨i, List.mem_filter.mpr
          ⟨List.mem_range.mpr hi1, by simpa using hi0⟩, hi2⟩
      · exact i2 n hn

/-- A well-formed array of `UVM_MAX_GPUS` entries has an entry that is free or has the node,
for the closest node of every device: there are no more nodes than devices. -/
theorem affinity_wf_room {g : uvm_global_t} {l : List uvm_cpu_gpu_affinity_t} {gpu : Nat}
    (h : affinity_wf g l) (hsize : l.length = UVM_MAX_GPUS) (hg0 : 0 < gpu)
    (hg1 : gpu < UVM_MAX_PROCESSORS) :
    ¬∀ x ∈ l, x.numa_node ≠ -1 ∧ x.numa_node ≠ (g.gpus gpu).closest_cpu_numa_node := by
  intro hall
  obtain ⟨hnd, hsub⟩ := affinity_wf_nodup h (fun x hx => (hall x hx).1)
  have hnd2 : ((g.gpus gpu).closest_cpu_numa_node :: l.map fun x => x.numa_node).Nodup := by
    rw [List.nodup_cons]
    refine ⟨?_, hnd⟩
    intro hmem
    obtain ⟨x, hx, hxe⟩ := List.mem_map.mp hmem
    exact (hall x hx).2 hxe
  have hsub2 : (g.gpus gpu).closest_cpu_numa_node :: l.map (fun x => x.numa_node) ⊆
      ((List.range UVM_MAX_PROCESSORS).filter fun i => decide (0 < i)).map
        fun i => (g.gpus i).closest_cpu_numa_node := by
    intro n hn
    rcases List.mem_cons.mp hn with rfl | hn
    · exact List.mem_map.mpr ⟨gpu, List.mem_filter.mpr
        ⟨List.mem_range.mpr hg1, by simpa using hg0⟩, rfl⟩
    · exact hsub n hn
  have hlen := (List.Nodup.subperm hnd2 hsub2).length_le
  have hdev : (((List.range UVM_MAX_PROCESSORS).filter fun i => decide (0 < i)).map
      fun i => (g.gpus i).closest_cpu_numa_node).length = 32 := by
    rw [List.length_map]
    decide
  rw [hdev, List.length_cons, List.length_map, hsize] at hlen
  unfold UVM_MAX_GPUS UVM_MAX_PROCESSORS at hlen
  omega

theorem affinity_frame_refl (s : uvm_va_space_t) : affinity_frame s s := ⟨rfl, rfl⟩

theorem affinity_frame_trans {s t u : uvm_va_space_t} (h1 : affinity_frame s t)
    (h2 : affinity_frame t u) : affinity_frame s u :=
  ⟨h2.1.trans h1.1, h2.2.trans h1.2⟩

theorem AffinityInv_of_frame {g : uvm_global_t} {s t : uvm_va_space_t}
    (h : affinity_frame s t) (hs : AffinityInv g s) : AffinityInv g t :=
  { size := by rw [h.1]; exact hs.size
    wf := by rw [h.1]; exact hs.wf
    bits := by rw [h.1, h.2]; exact hs.bits }

theorem affinity_frame_store (s : uvm_va_space_t) (p : Nat) (obj : uvm_gpu_va_space_t) :
    affinity_frame s (gpu_va_space_store s p obj) := ⟨rfl, rfl⟩

theorem affinity_frame_release (s : uvm_va_space_t) (p : Option Nat) :
    affinity_frame s (uvm_gpu_va_space_release s p) := by
  cases p with
  | none => exact affinity_frame_refl s
  | some ptr => exact affinity_frame_store s _ _

theorem affinity_frame_destroy (s : uvm_va_space_t) (p : Option Nat) :
    affinity_frame s (destroy_gpu_va_space s p) := by
  cases p with
  | none => exact affinity_frame_refl s
  | some ptr =>
    unfold destroy_gpu_va_space
    simp only
    refine affinity_frame_trans ?_ (affinity_frame_release _ _)
    split_ifs <;> exact ⟨rfl, rfl⟩

theorem affinity_frame_deferred_free (l : List uvm_deferred_free_object_t)
    (s : uvm_va_space_t) : affinity_frame s (uvm_deferred_free_object_list s l) := by
  induction l generalizing s with
  | nil => exact affinity_frame_refl s
  | cons o rest ih =>
    cases o with
    | channel c => exact ih s
    | gpu_va_space p =>
      exact affinity_frame_trans (affinity_frame_destroy s (some p)) (ih _)
    | external_allocation e => exact ih s

theorem affinity_frame_remove (s : uvm_va_space_t) (p : Option Nat)
    (l : List uvm_deferred_free_object_t) :
    affinity_frame s (remove_gpu_va_space s p l).1 := by
  cases p with
  | none => exact affinity_frame_refl s
  | some ptr =>
    unfold remove_gpu_va_space
    simp only
    split_ifs
    · exact affinity_frame_refl s
    · exact ⟨rfl, rfl⟩

theorem affinity_frame_stop_all_channels (s : uvm_va_space_t) (p : Nat) :
    affinity_frame s (gpu_va_space_stop_all_channels s p) :=
  affinity_frame_store s _ _

theorem affinity_frame_create (g : uvm_global_t) (s : uvm_va_space_t) (gpu : Nat)
    (rm : rm_answers_t) : affinity_frame s (create_gpu_va_space g s gpu rm).2.1 := by
  unfold create_gpu_va_space
  simp only
  split_ifs
  all_goals
    first
      | exact affinity_frame_refl s
      | exact affinity_frame_trans ⟨rfl, rfl⟩ (affinity_frame_destroy _ _)

theorem affinity_frame_add (s : uvm_va_space_t) (p : Nat) :
    affinity_frame s (add_gpu_va_space s p).2 := by
  unfold add_gpu_va_space
  simp only
  split_ifs
  · exact affinity_frame_refl s
  · exact ⟨rfl, rfl⟩

theorem affinity_frame_register_error (s : uvm_va_space_t) (p : Nat) (locked : Bool) :
    affinity_frame s (register_gpu_va_space_error s p locked) := by
  unfold register_gpu_va_space_error
  simp only
  split_ifs
  · exact affinity_frame_trans (affinity_frame_remove s _ _) (affinity_frame_destroy _ _)
  · exact affinity_frame_destroy _ _

theorem affinity_frame_register_locked (s : uvm_va_space_t) (rm : rm_answers_t)
    (gpu p : Nat) : affinity_frame s (register_gpu_va_space_locked s rm gpu p).2 := by
  have hadd := affinity_frame_add s p
  have herr := affinity_frame_trans hadd
    (affinity_frame_register_error (add_gpu_va_space s p).2 p true)
  unfold register_gpu_va_space_locked
  simp only
  split_ifs
  · exact affinity_frame_register_error s p true
  · exact affinity_frame_register_error s p true
  · exact affinity_frame_register_error s p true
  · exact affinity_frame_register_error s p true
  · exact herr
  · exact herr
  · exact herr
  · exact hadd

theorem affinity_frame_register_gpu_va_space (g : uvm_global_t) (s : uvm_va_space_t)
    (rm : rm_answers_t) (gpu_uuid : Nat) :
    affinity_frame s (uvm_va_space_register_gpu_va_space g s rm gpu_uuid).2 := by
  unfold uvm_va_space_register_gpu_va_space
  simp only
  have hc := affinity_frame_create g s (uvm_gpu_retain_by_uuid g gpu_uuid).2 rm
  split_ifs
  · exact affinity_frame_refl s
  · exact affinity_frame_refl s
  · split
    · exact hc
    · split_ifs
      · exact affinity_frame_trans hc (affinity_frame_register_error _ _ _)
      · exact affinity_frame_trans hc
          (affinity_frame_trans (affinity_frame_store _ _ _)
            (affinity_frame_register_locked _ _ _ _))

theorem affinity_frame_unregister_gpu_va_space_begin (g : uvm_global_t) (s : uvm_va_space_t)
    (gpu_uuid : Nat) :
    affinity_frame s (uvm_va_space_unregister_gpu_va_space_begin g s gpu_uuid).2.1 := by
  unfold uvm_va_space_unregister_gpu_va_space_begin
  cases uvm_va_space_get_gpu_by_uuid_with_gpu_va_space g s gpu_uuid with
  | none => exact affinity_frame_refl s
  | some gpu =>
    simp only
    cases uvm_gpu_va_space_get s gpu with
    | none => exact affinity_frame_refl s
    | some p =>
      exact affinity_frame_trans (affinity_frame_stop_all_channels s p)
        (affinity_frame_store _ _ _)

theorem affinity_frame_unregister_gpu_va_space_finish (s : uvm_va_space_t) (p : Nat) :
    affinity_frame s (uvm_va_space_unregister_gpu_va_space_finish s p).2 := by
  unfold uvm_va_space_unregister_gpu_va_space_finish
  simp only
  split_ifs
  · exact affinity_frame_trans (affinity_frame_deferred_free _ _) (affinity_frame_release _ _)
  · exact affinity_frame_trans (affinity_frame_remove s _ _)
      (affinity_frame_trans (affinity_frame_deferred_free _ _) (affinity_frame_release _ _))

theorem affinity_frame_disable_peers (s : uvm_va_space_t) (a b : Nat)
    (l : List uvm_deferred_free_object_t) : affinity_frame s (disable_peers s a b l).1 := by
  cases h : s.enabled_peers (uvm_gpu_peer_table_index a b) with
  | false => rw [disable_peers_fst_of_not_enabled s a b l h]; exact affinity_frame_refl s
  | true => rw [disable_peers_fst_of_enabled s a b l h]; exact ⟨rfl, rfl⟩

theorem affinity_frame_enable_peers_masks (g : uvm_global_t) (s : uvm_va_space_t) (a b : Nat) :
    affinity_frame s (enable_peers_masks g s a b) := by
  rw [enable_peers_masks_eq]
  exact ⟨rfl, rfl⟩

theorem affinity_frame_enable_peers (g : uvm_global_t) (s : uvm_va_space_t) (a b : Nat) :
    affinity_frame s (enable_peers g s a b).2 := by
  rcases enable_peers_snd_cases g s a b with h | ⟨_, _, h | h⟩
  · rw [h]; exact affinity_frame_refl s
  · rw [h]; exact affinity_frame_enable_peers_masks g s a b
  · rw [h]
    exact affinity_frame_trans (affinity_frame_enable_peers_masks g s a b)
      (affinity_frame_disable_peers _ a b [])

theorem affinity_frame_register_gpu_nvlink_peers_loop (g : uvm_global_t) (gpu : Nat)
    (l : List Nat) (s : uvm_va_space_t) :
    affinity_frame s (register_gpu_nvlink_peers_loop g gpu l s).2 := by
  induction l generalizing s with
  | nil => exact affinity_frame_refl s
  | cons other rest ih =>
    unfold register_gpu_nvlink_peers_loop
    simp only
    split_ifs with h1 h2 h3
    · exact ih s
    · exact affinity_frame_enable_peers g s gpu other
    · exact affinity_frame_trans (affinity_frame_enable_peers g s gpu other) (ih _)
    · exact ih s

theorem affinity_frame_unregister_gpu_peers_loop (gpu : Nat) (l : List Nat)
    (s : uvm_va_space_t) (dfl : List uvm_deferred_free_object_t) (ptr : uvm_processor_mask_t) :
    affinity_frame s (unregister_gpu_peers_loop gpu l s dfl ptr).1 := by
  induction l generalizing s dfl ptr with
  | nil => exact affinity_frame_refl s
  | cons peer rest ih =>
    unfold unregister_gpu_peers_loop
    simp only
    split_ifs with h1 h2
    · exact ih s dfl ptr
    · exact affinity_frame_trans (affinity_frame_disable_peers s gpu peer dfl) (ih _ _ _)
    · exact ih s dfl ptr

theorem affinity_frame_uvm_api_enable_peer_access (g : uvm_global_t) (s : uvm_va_space_t)
    (a b : Nat) (st : NV_STATUS) :
    affinity_frame s (uvm_api_enable_peer_access g s a b st).2 := by
  unfold uvm_api_enable_peer_access
  simp only
  split_ifs
  · exact affinity_frame_refl s
  · exact affinity_frame_refl s
  · exact affinity_frame_enable_peers g s _ _

theorem affinity_frame_uvm8_test_enable_nvlink_peer_access (g : uvm_global_t)
    (s : uvm_va_space_t) (a b : Nat) :
    affinity_frame s (uvm8_test_enable_nvlink_peer_access g s a b).2 := by
  unfold uvm8_test_enable_nvlink_peer_access
  simp only
  split_ifs
  · exact affinity_frame_refl s
  · exact affinity_frame_refl s
  · exact affinity_frame_enable_peers g s _ _

theorem affinity_frame_disable_peers_free (s : uvm_va_space_t) (a b : Nat) :
    affinity_frame s
      (uvm_deferred_free_object_list (disable_peers s a b []).1 (disable_peers s a b []).2) :=
  affinity_frame_trans (affinity_frame_disable_peers s a b [])
    (affinity_frame_deferred_free _ _)

theorem affinity_frame_uvm_api_disable_peer_access (g : uvm_global_t) (s : uvm_va_space_t)
    (gpuUuidA gpuUuidB : Nat) :
    affinity_frame s (uvm_api_disable_peer_access g s gpuUuidA gpuUuidB).2 := by
  unfold uvm_api_disable_peer_access
  cases uvm_va_space_get_gpu_by_uuid g s gpuUuidA with
  | none => exact affinity_frame_refl s
  | some gpu_1 =>
    cases uvm_va_space_get_gpu_by_uuid g s gpuUuidB with
    | none => exact affinity_frame_refl s
    | some gpu_2 =>
      simp only
      split_ifs
      · exact affinity_frame_refl s
      · exact affinity_frame_refl s
      · exact affinity_frame_disable_peers_free s gpu_1 gpu_2

theorem affinity_frame_uvm8_test_disable_nvlink_peer_access (g : uvm_global_t)
    (s : uvm_va_space_t) (gpuUuidA gpuUuidB : Nat) :
    affinity_frame s (uvm8_test_disable_nvlink_peer_access g s gpuUuidA gpuUuidB).2 := by
  unfold uvm8_test_disable_nvlink_peer_access
  cases uvm_va_space_get_gpu_by_uuid g s gpuUuidA with
  | none => exact affinity_frame_refl s
  | some gpu_1 =>
    cases uvm_va_space_get_gpu_by_uuid g s gpuUuidB with
    | none => exact affinity_frame_refl s
    | some gpu_2 =>
      simp only
      split_ifs
      · exact affinity_frame_refl s
      · exact affinity_frame_refl s
      · exact affinity_frame_disable_peers_free s gpu_1 gpu_2

theorem affinity_frame_uvm_va_space_unregister_gpu_begin (g : uvm_global_t)
    (s : uvm_va_space_t) (gpu_uuid : Nat) :
    affinity_frame s (uvm_va_space_unregister_gpu_begin g s gpu_uuid).2.1 := by
  unfold uvm_va_space_unregister_gpu_begin
  cases uvm_va_space_get_gpu_by_uuid g s gpu_uuid with
  | none => exact affinity_frame_refl s
  | some gpu =>
    simp only
    split_ifs
    · exact affinity_frame_refl s
    · cases uvm_gpu_va_space_get (gpu_unregister_in_progress_set s gpu) gpu with
      | none => exact ⟨rfl, rfl⟩
      | some p =>
        exact affinity_frame_trans (s := s) (t := gpu_unregister_in_progress_set s gpu)
          ⟨rfl, rfl⟩ (affinity_frame_stop_all_channels _ p)

theorem affinity_wf_free {g : uvm_global_t} {l : List uvm_cpu_gpu_affinity_t}
    (h : affinity_wf g l) : ∀ x ∈ l, x.numa_node = -1 → ∀ i, x.gpus i = false := by
  induction l with
  | nil => intro x hx; cases hx
  | cons e rest ih =>
    intro x hx hnode
    rcases List.mem_cons.mp hx with rfl | hx
    · exact (h.1 hnode).1
    · exact ih h.2.2 x hx hnode

theorem affinity_kept_replace (pre post : List uvm_cpu_gpu_affinity_t)
    {e e' : uvm_cpu_gpu_affinity_t} (h : e.numa_node ≠ -1 → e'.numa_node = e.numa_node) :
    affinity_kept (pre ++ e :: post) (pre ++ e' :: post) := by
  induction pre with
  | nil => exact List.Forall₂.cons h (affinity_kept_refl post)
  | cons x rest ih => exact List.Forall₂.cons (fun _ => rfl) ih

theorem affinity_but_replace (gpu : Nat) (pre post : List uvm_cpu_gpu_affinity_t)
    {e e' : uvm_cpu_gpu_affinity_t}
    (h : e'.numa_node = e.numa_node ∧ ∀ i, i ≠ gpu → e'.gpus i = e.gpus i) :
    affinity_but gpu (pre ++ e :: post) (pre ++ e' :: post) := by
  induction pre with
  | nil => exact List.Forall₂.cons h (affinity_but_refl gpu post)
  | cons x rest ih => exact List.Forall₂.cons ⟨rfl, fun _ _ => rfl⟩ ih

/-- What `register_gpu_masks` does to the affinity array of an address space that satisfies
the invariant: the invariant holds afterwards and no node that was set changed; for a device
with a closest node, the device enters the mask of one entry, which had the node or was the
first free entry, and no other entry has the node. -/
theorem AffinityInv_register_gpu_masks {g : uvm_global_t} {s : uvm_va_space_t} {gpu : Nat}
    (hs : AffinityInv g s) (hg0 : 0 < gpu) (hg1 : gpu < UVM_MAX_PROCESSORS) :
    AffinityInv g (register_gpu_masks g s gpu) ∧
    affinity_kept s.cpu_gpu_numa_affinity (register_gpu_masks g s gpu).cpu_gpu_numa_affinity ∧
    ((g.gpus gpu).closest_cpu_numa_node = -1 →
      (register_gpu_masks g s gpu).cpu_gpu_numa_affinity = s.cpu_gpu_numa_affinity) ∧
    ((g.gpus gpu).closest_cpu_numa_node ≠ -1 →
      ∃ pre e post, s.cpu_gpu_numa_affinity = pre ++ e :: post ∧
        (register_gpu_masks g s gpu).cpu_gpu_numa_affinity =
          pre ++ { numa_node := (g.gpus gpu).closest_cpu_numa_node,
                   gpus := uvm_processor_mask_set e.gpus gpu } :: post ∧
        (∀ x ∈ pre, x.numa_node ≠ -1 ∧ x.numa_node ≠ (g.gpus gpu).closest_cpu_numa_node) ∧
        (e.numa_node = (g.gpus gpu).closest_cpu_numa_node ∨
          (e.numa_node = -1 ∧ ∀ i, e.gpus i = false)) ∧
        (∀ x ∈ post, x.numa_node ≠ (g.gpus gpu).closest_cpu_numa_node)) := by
  have haff : (register_gpu_masks g s gpu).cpu_gpu_numa_affinity =
      (if (g.gpus gpu).closest_cpu_numa_node ≠ -1 then
        register_gpu_affinity (g.gpus gpu).closest_cpu_numa_node gpu s.cpu_gpu_numa_affinity
      else s.cpu_gpu_numa_affinity) := by
    rw [register_gpu_masks_eq]
  have hreg := (register_gpu_masks_frame g s gpu).1
  by_cases hn : (g.gpus gpu).closest_cpu_numa_node = -1
  · rw [if_neg (not_not.mpr hn)] at haff
    refine ⟨⟨by rw [haff]; exact hs.size, by rw [haff]; exact hs.wf, ?_⟩,
      by rw [haff]; exact affinity_kept_refl _, fun _ => haff, fun h => absurd hn h⟩
    intro e he i hi
    rw [haff] at he
    obtain ⟨b1, b2⟩ := hs.bits e he i hi
    rw [hreg, uvm_processor_mask_set_apply]
    refine ⟨?_, b2⟩
    split_ifs
    · rfl
    · exact b1
  · rw [if_pos hn] at haff
    rcases register_gpu_affinity_cases (g.gpus gpu).closest_cpu_numa_node gpu
      s.cpu_gpu_numa_affinity with ⟨hall, _⟩ | ⟨pre, e, post, hl, hpre, he, heq⟩
    · exact absurd hall (affinity_wf_room hs.wf hs.size hg0 hg1)
    · rw [heq] at haff
      have hwf0 := hs.wf
      rw [hl] at hwf0
      have hwf : affinity_wf g
          (pre ++ uvm_cpu_gpu_affinity_t.mk (g.gpus gpu).closest_cpu_numa_node
            (uvm_processor_mask_set e.gpus gpu) :: post) :=
        affinity_wf_replace hwf0 hn hpre he ⟨gpu, hg0, hg1, rfl⟩
      have hpost : ∀ x ∈ post, x.numa_node ≠ (g.gpus gpu).closest_cpu_numa_node :=
        ((affinity_wf_append hwf).2.1 hn).1
      have hemem : e ∈ s.cpu_gpu_numa_affinity := by
        rw [hl]
        exact List.mem_append_right _ (List.mem_cons_self e post)
      have hefree : e.numa_node = -1 → ∀ i, e.gpus i = false :=
        affinity_wf_free hs.wf e hemem
      refine ⟨⟨?_, by rw [haff]; exact hwf, ?_⟩, ?_, fun h => absurd h hn, fun _ =>
        ⟨pre, e, post, hl, haff, hpre, ?_, hpost⟩⟩
      · rw [haff, ← hs.size, hl]
        simp only [List.length_append, List.length_cons]
      · intro x hx i hi
        rw [haff] at hx
        rw [hreg, uvm_processor_mask_set_apply]
        have hold : ∀ y ∈ s.cpu_gpu_numa_affinity, y.gpus i = true →
            (if i = gpu then true else s.registered_gpus i) = true ∧
            (g.gpus i).closest_cpu_numa_node = y.numa_node := by
          intro y hy hyi
          obtain ⟨b1, b2⟩ := hs.bits y hy i hyi
          refine ⟨?_, b2⟩
          split_ifs
          · rfl
          · exact b1
        rcases List.mem_append.mp hx with hx | hx
        · exact hold x (by rw [hl]; exact List.mem_append_left _ hx) hi
        · rcases List.mem_cons.mp hx with rfl | hx
          · by_cases hig : i = gpu
            · rw [if_pos hig, hig]
              exact ⟨rfl, rfl⟩
            · have hei : e.gpus i = true := by
                have hi2 : uvm_processor_mask_set e.gpus gpu i = true := hi
                rw [uvm_processor_mask_set_apply, if_neg hig] at hi2
                exact hi2
              obtain ⟨b1, b2⟩ := hold e hemem hei
              refine ⟨b1, ?_⟩
              rcases he with he | he
              · rw [hefree he i] at hei
                cases hei
              · rw [b2]
                exact he
          · exact hold x (by
              rw [hl]
              exact List.mem_append_right _ (List.mem_cons_of_mem e hx)) hi
      · rw [haff, hl]
        refine affinity_kept_replace pre post (fun hne => ?_)
        rcases he with he | he
        · exact absurd he hne
        · exact he.symm
      · rcases he with he | he
        · exact Or.inr ⟨he, hefree he⟩
        · exact Or.inl he

/-- What `unregister_gpu_masks` does to the affinity array of an address space that satisfies
the invariant: the invariant holds afterwards, the nodes are as they were, the masks are as
they were but for the device, and the device is in no mask. -/
theorem AffinityInv_unregister_gpu_masks {g : uvm_global_t} {s : uvm_va_space_t} (gpu : Nat)
    (hs : AffinityInv g s) :
    AffinityInv g (unregister_gpu_masks g s gpu) ∧
    affinity_but gpu s.cpu_gpu_numa_affinity
      (unregister_gpu_masks g s gpu).cpu_gpu_numa_affinity ∧
    ∀ x ∈ (unregister_gpu_masks g s gpu).cpu_gpu_numa_affinity, x.gpus gpu = false := by
  have haff : (unregister_gpu_masks g s gpu).cpu_gpu_numa_affinity =
      (if (g.gpus gpu).closest_cpu_numa_node ≠ -1 then
        unregister_gpu_affinity (g.gpus gpu).closest_cpu_numa_node gpu s.cpu_gpu_numa_affinity
      else s.cpu_gpu_numa_affinity) := by
    rw [unregister_gpu_masks_eq]
  have hreg := (unregister_gpu_masks_frame g s gpu).1
  -- the three facts follow from the shape of the new array
  have hmain : ∀ l', affinity_wf g l' → l'.length = UVM_MAX_GPUS →
      affinity_but gpu s.cpu_gpu_numa_affinity l' →
      (∀ x ∈ l', x.gpus gpu = false) →
      (∀ x ∈ l', ∀ i, x.gpus i = true → ∃ y ∈ s.cpu_gpu_numa_affinity,
        y.numa_node = x.numa_node ∧ y.gpus i = true) →
      (unregister_gpu_masks g s gpu).cpu_gpu_numa_affinity = l' →
      AffinityInv g (unregister_gpu_masks g s gpu) ∧
      affinity_but gpu s.cpu_gpu_numa_affinity
        (unregister_gpu_masks g s gpu).cpu_gpu_numa_affinity ∧
      ∀ x ∈ (unregister_gpu_masks g s gpu).cpu_gpu_numa_affinity, x.gpus gpu = false := by
    intro l' hwf hsize hbut hclear hold heq
    rw [heq]
    refine ⟨⟨by rw [heq]; exact hsize, by rw [heq]; exact hwf, ?_⟩, hbut, hclear⟩
    intro x hx i hi
    rw [heq] at hx
    obtain ⟨y, hy, hyn, hyi⟩ := hold x hx i hi
    obtain ⟨b1, b2⟩ := hs.bits y hy i hyi
    rw [hreg, uvm_processor_mask_clear_apply]
    have hig : i ≠ gpu := by
      rintro rfl
      rw [hclear x hx] at hi
      cases hi
    rw [if_neg hig]
    exact ⟨b1, b2.trans hyn⟩
  have hsame : (∀ x ∈ s.cpu_gpu_numa_affinity,
      x.numa_node ≠ (g.gpus gpu).closest_cpu_numa_node ∨
      (g.gpus gpu).closest_cpu_numa_node = -1) →
      (unregister_gpu_masks g s gpu).cpu_gpu_numa_affinity = s.cpu_gpu_numa_affinity →
      AffinityInv g (unregister_gpu_masks g s gpu) ∧
      affinity_but gpu s.cpu_gpu_numa_affinity
        (unregister_gpu_masks g s gpu).cpu_gpu_numa_affinity ∧
      ∀ x ∈ (unregister_gpu_masks g s gpu).cpu_gpu_numa_affinity, x.gpus gpu = false := by
    intro hno heq
    refine hmain _ hs.wf hs.size (affinity_but_refl gpu _) ?_
      (fun x hx i hi => ⟨x, hx, rfl, hi⟩) heq
    intro x hx
    by_contra hc
    have hbit : x.gpus gpu = true := by simpa using hc
    have hnode := (hs.bits x hx gpu hbit).2
    rcases hno x hx with h | h
    · exact h hnode.symm
    · rw [affinity_wf_free hs.wf x hx (hnode.symm.trans h) gpu] at hbit
      cases hbit
  by_cases hn : (g.gpus gpu).closest_cpu_numa_node = -1
  · rw [if_neg (not_not.mpr hn)] at haff
    exact hsame (fun _ _ => Or.inr hn) haff
  · rw [if_pos hn] at haff
    rcases unregister_gpu_affinity_cases (g.gpus gpu).closest_cpu_numa_node gpu
      s.cpu_gpu_numa_affinity with ⟨hall, heq⟩ | ⟨pre, e, post, hl, hpre, he, heq⟩
    · rw [heq] at haff
      exact hsame (fun x hx => Or.inl (hall x hx)) haff
    · rw [heq] at haff
      have hwf0 := hs.wf
      rw [hl] at hwf0
      have hen : e.numa_node ≠ -1 := by
        rw [he]
        exact hn
      have hpost : ∀ x ∈ post, x.numa_node ≠ (g.gpus gpu).closest_cpu_numa_node := by
        rw [← he]
        exact ((affinity_wf_append hwf0).2.1 hen).1
      refine hmain _ (affinity_wf_mask _ hwf0 hen) ?_ ?_ ?_ ?_ haff
      · rw [← hs.size, hl]
        simp only [List.length_append, List.length_cons]
      · rw [hl]
        refine affinity_but_replace gpu pre post ⟨rfl, fun i hi => ?_⟩
        show uvm_processor_mask_clear e.gpus gpu i = e.gpus i
        rw [uvm_processor_mask_clear_apply, if_neg hi]
      · intro x hx
        by_contra hc
        have hbit : x.gpus gpu = true := by simpa using hc
        rcases List.mem_append.mp hx with hx | hx
        · have hnode := (hs.bits x (by rw [hl]; exact List.mem_append_left _ hx) gpu hbit).2
          exact hpre x hx hnode.symm
        · rcases List.mem_cons.mp hx with rfl | hx
          · have hb2 : uvm_processor_mask_clear e.gpus gpu gpu = true := hbit
            rw [uvm_processor_mask_clear_apply, if_pos rfl] at hb2
            cases hb2
          · have hnode := (hs.bits x (by
              rw [hl]
              exact List.mem_append_right _ (List.mem_cons_of_mem e hx)) gpu hbit).2
            exact hpost x hx hnode.symm
      · intro x hx i hi
        rcases List.mem_append.mp hx with hx | hx
        · exact ⟨x, by rw [hl]; exact List.mem_append_left _ hx, rfl, hi⟩
        · rcases List.mem_cons.mp hx with rfl | hx
          · refine ⟨e, by rw [hl]; exact List.mem_append_right _ (List.mem_cons_self e post),
              rfl, ?_⟩
            have hb2 : uvm_processor_mask_clear e.gpus gpu i = true := hi
            rw [uvm_processor_mask_clear_apply] at hb2
            split_ifs at hb2
            exact hb2
          · exact ⟨x, by
              rw [hl]
              exact List.mem_append_right _ (List.mem_cons_of_mem e hx), rfl, hi⟩

/-- What `unregister_gpu` does to the affinity array of an address space that satisfies the
invariant. -/
theorem AffinityInv_unregister_gpu {g : uvm_global_t} {s : uvm_va_space_t} (gpu : Nat)
    (l : List uvm_deferred_free_object_t) (hs : AffinityInv g s) :
    AffinityInv g (unregister_gpu g s gpu l).1 ∧
    affinity_but gpu s.cpu_gpu_numa_affinity (unregister_gpu g s gpu l).1.cpu_gpu_numa_affinity ∧
    ∀ x ∈ (unregister_gpu g s gpu l).1.cpu_gpu_numa_affinity, x.gpus gpu = false := by
  have h1 := affinity_frame_remove s (uvm_gpu_va_space_get s gpu) l
  unfold unregister_gpu
  simp only
  generalize (remove_gpu_va_space s (uvm_gpu_va_space_get s gpu) l).1 = s1 at h1 ⊢
  generalize (remove_gpu_va_space s (uvm_gpu_va_space_get s gpu) l).2 ++ _ = dfl
  have h2 := affinity_frame_unregister_gpu_peers_loop gpu
    (for_each_gpu_id_in_mask s1.registered_gpus) s1 dfl uvm_processor_mask_zero
  generalize unregister_gpu_peers_loop gpu (for_each_gpu_id_in_mask s1.registered_gpus) s1 dfl
    uvm_processor_mask_zero = r at h2 ⊢
  have hframe := affinity_frame_trans h1 h2
  have hr := AffinityInv_unregister_gpu_masks gpu (AffinityInv_of_frame hframe hs)
  rw [hframe.1] at hr
  exact hr

theorem AffinityInv_uvm_va_space_unregister_gpu_finish {g : uvm_global_t}
    {s : uvm_va_space_t} (gpu : Nat) (hs : AffinityInv g s) :
    AffinityInv g (uvm_va_space_unregister_gpu_finish g s gpu).2.1 ∧
    affinity_kept s.cpu_gpu_numa_affinity
      (uvm_va_space_unregister_gpu_finish g s gpu).2.1.cpu_gpu_numa_affinity := by
  obtain ⟨h1, h2, _⟩ := @AffinityInv_unregister_gpu g _ gpu [] hs
  unfold uvm_va_space_unregister_gpu_finish
  simp only
  generalize unregister_gpu g s gpu [] = r at h1 h2 ⊢
  have hframe : affinity_frame r.1
      (uvm_deferred_free_object_list (gpu_unregister_in_progress_clear r.1 gpu) r.2.1) :=
    affinity_frame_trans (t := gpu_unregister_in_progress_clear r.1 gpu) ⟨rfl, rfl⟩
      (affinity_frame_deferred_free _ _)
  refine ⟨AffinityInv_of_frame hframe h1, ?_⟩
  rw [hframe.1]
  exact affinity_kept_of_but h2

theorem AffinityInv_uvm_va_space_register_gpu {g : uvm_global_t} {s : uvm_va_space_t}
    (gpu_uuid : Nat) (hs : AffinityInv g s) :
    AffinityInv g (uvm_va_space_register_gpu g s gpu_uuid).2.1 ∧
    affinity_kept s.cpu_gpu_numa_affinity
      (uvm_va_space_register_gpu g s gpu_uuid).2.1.cpu_gpu_numa_affinity := by
  rw [uvm_va_space_register_gpu_state]
  split_ifs with h1 h2 h3 h4 h5
  · exact ⟨hs, affinity_kept_refl _⟩
  · exact ⟨hs, affinity_kept_refl _⟩
  · exact ⟨hs, affinity_kept_refl _⟩
  · exact ⟨hs, affinity_kept_refl _⟩
  all_goals
    have hret := uvm_gpu_retain_by_uuid_ok (not_not.mp h1)
    generalize (uvm_gpu_retain_by_uuid g gpu_uuid).2 = gpu at hret h2 h5 ⊢
    obtain ⟨m1, m2, _⟩ := AffinityInv_register_gpu_masks hs hret.1 hret.2.1
    have hloop : affinity_frame (register_gpu_masks g s gpu)
        (register_gpu_nvlink_peers g (register_gpu_masks g s gpu) gpu).2 :=
      affinity_frame_register_gpu_nvlink_peers_loop g gpu _ _
    have l1 := AffinityInv_of_frame hloop m1
  · obtain ⟨u1, u2, _⟩ := @AffinityInv_unregister_gpu g _ gpu [] l1
    refine ⟨u1, affinity_kept_trans m2 ?_⟩
    rw [← hloop.1]
    exact affinity_kept_of_but u2
  · refine ⟨l1, ?_⟩
    rw [hloop.1]
    exact m2

/-- Every operation keeps the invariant of the affinity array and every node that is set. -/
theorem Step_AffinityInv {g : uvm_global_t} {s t : uvm_va_space_t} (hs : AffinityInv g s)
    (hstep : Step g s t) :
    AffinityInv g t ∧ affinity_kept s.cpu_gpu_numa_affinity t.cpu_gpu_numa_affinity := by
  have hframe : ∀ u, affinity_frame s u →
      AffinityInv g u ∧ affinity_kept s.cpu_gpu_numa_affinity u.cpu_gpu_numa_affinity := by
    intro u hu
    refine ⟨AffinityInv_of_frame hu hs, ?_⟩
    rw [hu.1]
    exact affinity_kept_refl _
  cases hstep with
  | register_gpu gpu_uuid => exact AffinityInv_uvm_va_space_register_gpu gpu_uuid hs
  | unregister_gpu_begin gpu_uuid =>
    exact hframe _ (affinity_frame_uvm_va_space_unregister_gpu_begin g s gpu_uuid)
  | unregister_gpu_finish gpu hguard =>
    exact AffinityInv_uvm_va_space_unregister_gpu_finish gpu hs
  | enable_peer_access a b st =>
    exact hframe _ (affinity_frame_uvm_api_enable_peer_access g s a b st)
  | disable_peer_access a b =>
    exact hframe _ (affinity_frame_uvm_api_disable_peer_access g s a b)
  | test_enable_nvlink_peer_access a b =>
    exact hframe _ (affinity_frame_uvm8_test_enable_nvlink_peer_access g s a b)
  | test_disable_nvlink_peer_access a b =>
    exact hframe _ (affinity_frame_uvm8_test_disable_nvlink_peer_access g s a b)
  | register_gpu_va_space rm gpu_uuid =>
    exact hframe _ (affinity_frame_register_gpu_va_space g s rm gpu_uuid)
  | unregister_gpu_va_space_begin gpu_uuid =>
    exact hframe _ (affinity_frame_unregister_gpu_va_space_begin g s gpu_uuid)
  | unregister_gpu_va_space_finish p hptr =>
    exact hframe _ (affinity_frame_unregister_gpu_va_space_finish s p)
  | va_ranges_change va_ranges => exact hframe _ ⟨rfl, rfl⟩
  | mm_shutdown => exact hframe _ ⟨rfl, rfl⟩

theorem affinity_wf_replicate (g : uvm_global_t) (n : Nat) :
    affinity_wf g (List.replicate n { numa_node := -1, gpus := uvm_processor_mask_zero }) := by
  induction n with
  | zero => exact trivial
  | succ n ih =>
    refine ⟨fun _ => ⟨fun _ => rfl, fun x hx => ?_⟩, fun hc => absurd rfl hc, ih⟩
    rw [(List.mem_replicate.mp hx).2]

theorem uvm_va_space_create_affinity {s : uvm_va_space_t} {alloc_ok : Bool}
    {s1 s2 s3 : NV_STATUS} (h : uvm_va_space_create alloc_ok s1 s2 s3 = (NV_OK, some s)) :
    s.cpu_gpu_numa_affinity =
      List.replicate UVM_MAX_GPUS { numa_node := -1, gpus := uvm_processor_mask_zero } := by
  unfold uvm_va_space_create at h
  simp only at h
  split_ifs at h <;> cases h
  exact List.map_replicate

theorem uvm_va_space_create_AffinityInv (g : uvm_global_t) {s : uvm_va_space_t}
    {alloc_ok : Bool} {s1 s2 s3 : NV_STATUS}
    (h : uvm_va_space_create alloc_ok s1 s2 s3 = (NV_OK, some s)) : AffinityInv g s := by
  have haff := uvm_va_space_create_affinity h
  refine ⟨?_, ?_, ?_⟩
  · rw [haff, List.length_replicate]
  · rw [haff]
    exact affinity_wf_replicate g _
  · intro e he i hi
    rw [haff] at he
    rw [(List.mem_replicate.mp he).2] at hi
    cases hi

/-- Every reachable address space satisfies the invariant of the affinity array. -/
theorem Reachable_AffinityInv {g : uvm_global_t} {s : uvm_va_space_t} (h : Reachable g s) :
    AffinityInv g s :=
  Reachable_invariant (AffinityInv g)
    (fun _ _ _ _ hc => uvm_va_space_create_AffinityInv g hc)
    (fun _ _ _ hs hstep => (Step_AffinityInv hs hstep).1) h

theorem sample_numa_three_reachable : Reachable sample_numa_global sample_numa_three :=
  Reachable.register_gpu _ 2
    (Reachable.register_gpu _ 4
      (Reachable.register_gpu _ 1
        (Reachable.create NV_OK NV_OK NV_OK sample_created sample_created_eq)))

/-! ## The claim on the affinity array -/

/-- C34: the affinity array is append-only in its nodes: from a reachable address space no
operation (the registration of a device with its rollback, `unregister_gpu`, any other)
changes a node that is not -1.  Registering a device whose closest node `n` is not -1 puts
the device in the mask of one entry, which has the node `n` afterwards and had it before or
was free, the first free entry then; no other entry has the node `n`, and the other entries
are as they were.  `unregister_gpu` leaves the nodes and every bit of another device as they
were and leaves the device in no mask.  In every reachable address space a device in an
affinity mask is registered. -/
theorem c34_affinity_table (g : uvm_global_t) (s : uvm_va_space_t) (h : Reachable g s) :
    (∀ t, Step g s t → affinity_kept s.cpu_gpu_numa_affinity t.cpu_gpu_numa_affinity) ∧
    (∀ gpu, 0 < gpu → gpu < UVM_MAX_PROCESSORS →
      affinity_kept s.cpu_gpu_numa_affinity
        (register_gpu_masks g s gpu).cpu_gpu_numa_affinity ∧
      ((g.gpus gpu).closest_cpu_numa_node ≠ -1 →
        ∃ pre e post, s.cpu_gpu_numa_affinity = pre ++ e :: post ∧
          (register_gpu_masks g s gpu).cpu_gpu_numa_affinity =
            pre ++ { numa_node := (g.gpus gpu).closest_cpu_numa_node,
                     gpus := uvm_processor_mask_set e.gpus gpu } :: post ∧
          (∀ x ∈ pre, x.numa_node ≠ -1 ∧ x.numa_node ≠ (g.gpus gpu).closest_cpu_numa_node) ∧
          (e.numa_node = (g.gpus gpu).closest_cpu_numa_node ∨
            (e.numa_node = -1 ∧ ∀ i, e.gpus i = false)) ∧
          (∀ x ∈ post, x.numa_node ≠ (g.gpus gpu).closest_cpu_numa_node))) ∧
    (∀ gpu l,
      affinity_but gpu s.cpu_gpu_numa_affinity
        (unregister_gpu g s gpu l).1.cpu_gpu_numa_affinity ∧
      ∀ x ∈ (unregister_gpu g s gpu l).1.cpu_gpu_numa_affinity, x.gpus gpu = false) ∧
    (∀ e ∈ s.cpu_gpu_numa_affinity, ∀ i, e.gpus i = true → s.registered_gpus i = true) := by
  have hs := Reachable_AffinityInv h
  refine ⟨fun t hstep => (Step_AffinityInv hs hstep).2, ?_, ?_, ?_⟩
  · intro gpu hg0 hg1
    obtain ⟨_, m2, _, m4⟩ := AffinityInv_register_gpu_masks hs hg0 hg1
    exact ⟨m2, m4⟩
  · intro gpu l
    exact (AffinityInv_unregister_gpu gpu l hs).2
  · intro e he i hi
    exact (hs.bits e he i hi).1

theorem c34_affinity_table_witness :
    Reachable sample_numa_global sample_numa_three ∧
    (sample_numa_three.cpu_gpu_numa_affinity.map fun e => e.numa_node).take 3 = [5, 6, -1] ∧
    (sample_numa_three.cpu_gpu_numa_affinity.map fun e =>
      (e.gpus 1, e.gpus 2, e.gpus 4)).take 3 =
      [(true, true, false), (false, false, true), (false, false, false)] ∧
    ((unregister_gpu sample_numa_global sample_numa_three 1 []).1.cpu_gpu_numa_affinity.map
      fun e => (e.numa_node, e.gpus 1, e.gpus 2, e.gpus 4)).take 3 =
      [(5, false, true, false), (6, false, false, true), (-1, false, false, false)] ∧
    (∀ e ∈ sample_numa_three.cpu_gpu_numa_affinity, ∀ i, e.gpus i = true →
      sample_numa_three.registered_gpus i = true) :=
  ⟨sample_numa_three_reachable, by decide, by decide, by decide,
    (c34_affinity_table sample_numa_global sample_numa_three
      sample_numa_three_reachable).2.2.2⟩

/-! ## Lemmas: the destruction of the address space -/

/-- Every number below the number of pairs is the index of a pair of two devices. -/
theorem SUM_FROM_0_TO_N_split (k n : Nat) (h : n < SUM_FROM_0_TO_N k) :
    ∃ i j, i < j ∧ j < k ∧ n = SUM_FROM_0_TO_N j + i := by
  induction k with
  | zero => exact absurd h (Nat.not_lt_zero n)
  | succ k ih =>
    rw [SUM_FROM_0_TO_N_succ] at h
    by_cases hn : n < SUM_FROM_0_TO_N k
    · obtain ⟨i, j, h1, h2, h3⟩ := ih hn
      exact ⟨i, j, h1, Nat.lt_succ_of_lt h2, h3⟩
    · refine ⟨n - SUM_FROM_0_TO_N k, k, ?_, Nat.lt_succ_self k, ?_⟩ <;> omega

theorem uvm_gpu_peer_table_index_surj (n : Nat) (h : n < UVM_MAX_UNIQUE_GPU_PAIRS) :
    ∃ a b, 0 < a ∧ 0 < b ∧ a ≠ b ∧ a < UVM_MAX_PROCESSORS ∧ b < UVM_MAX_PROCESSORS ∧
      uvm_gpu_peer_table_index a b = n := by
  obtain ⟨i, j, h1, h2, h3⟩ := SUM_FROM_0_TO_N_split UVM_MAX_GPUS n h
  have hmax : UVM_MAX_GPUS + 1 = UVM_MAX_PROCESSORS := by decide
  refine ⟨i + 1, j + 1, Nat.succ_pos i, Nat.succ_pos j, by omega, by omega, by omega, ?_⟩
  unfold uvm_gpu_peer_table_index uvm_gpu_index
  simp only [Nat.add_sub_cancel]
  rw [if_pos h1, h3]

theorem mem_uvm_gpu_ids (i : Nat) : i ∈ uvm_gpu_ids ↔ 0 < i ∧ i < UVM_MAX_PROCESSORS := by
  unfold uvm_gpu_ids
  simp only [List.mem_filter, List.mem_range, decide_eq_true_eq]
  exact And.comm

theorem bitmap_empty_iff (bitmap : bitmap_t) (nbits : Nat) :
    bitmap_empty bitmap nbits = true ↔ ∀ i, i < nbits → bitmap i = false := by
  unfold bitmap_empty
  simp only [List.all_eq_true, List.mem_range, Bool.not_eq_true']

/-! ### What the teardown does not touch -/

theorem destroy_gpu_va_space_teardown (s : uvm_va_space_t) (p : Option Nat) :
    (destroy_gpu_va_space s p).enabled_peers_teardown = s.enabled_peers_teardown := by
  cases p with
  | none => rfl
  | some ptr =>
    unfold destroy_gpu_va_space
    simp only
    split_ifs <;> rfl

theorem uvm_deferred_free_object_list_teardown (l : List uvm_deferred_free_object_t)
    (s : uvm_va_space_t) :
    (uvm_deferred_free_object_list s l).enabled_peers_teardown = s.enabled_peers_teardown ∧
    (uvm_deferred_free_object_list s l).registered_gpu_va_spaces =
      s.registered_gpu_va_spaces := by
  induction l generalizing s with
  | nil => exact ⟨rfl, rfl⟩
  | cons o rest ih =>
    cases o with
    | channel c => exact ih s
    | gpu_va_space p =>
      have h := ih (destroy_gpu_va_space s (some p))
      rw [destroy_gpu_va_space_teardown, (destroy_gpu_va_space_frame s p).1] at h
      exact h
    | external_allocation e => exact ih s

theorem remove_gpu_va_space_teardown (s : uvm_va_space_t) (p : Option Nat)
    (l : List uvm_deferred_free_object_t) :
    (remove_gpu_va_space s p l).1.enabled_peers_teardown = s.enabled_peers_teardown := by
  cases p with
  | none => rfl
  | some ptr =>
    unfold remove_gpu_va_space
    simp only
    split_ifs <;> rfl

theorem disable_peers_teardown (s : uvm_va_space_t) (a b : Nat)
    (l : List uvm_deferred_free_object_t) :
    (disable_peers s a b l).1.enabled_peers_teardown = s.enabled_peers_teardown := by
  cases h : s.enabled_peers (uvm_gpu_peer_table_index a b) with
  | false => rw [disable_peers_fst_of_not_enabled s a b l h]
  | true => rw [disable_peers_fst_of_enabled s a b l h]

theorem unregister_gpu_peers_loop_teardown (gpu : Nat) (l : List Nat)
    (s : uvm_va_space_t) (dfl : List uvm_deferred_free_object_t) (ptr : uvm_processor_mask_t) :
    (unregister_gpu_peers_loop gpu l s dfl ptr).1.enabled_peers_teardown =
      s.enabled_peers_teardown := by
  induction l generalizing s dfl ptr with
  | nil => rfl
  | cons peer rest ih =>
    unfold unregister_gpu_peers_loop
    simp only
    split_ifs with h1 h2
    · exact ih s dfl ptr
    · exact (ih _ _ _).trans (disable_peers_teardown s gpu peer dfl)
    · exact ih s dfl ptr

theorem unregister_gpu_teardown (g : uvm_global_t) (s : uvm_va_space_t) (gpu : Nat)
    (l : List uvm_deferred_free_object_t) :
    (unregister_gpu g s gpu l).1.enabled_peers_teardown = s.enabled_peers_teardown := by
  unfold unregister_gpu
  simp only
  rw [unregister_gpu_masks_eq]
  exact (unregister_gpu_peers_loop_teardown gpu _ _ _ _).trans
    (remove_gpu_va_space_teardown s _ l)

/-! ### The part under the lock -/

theorem uvm_va_space_detach_all_user_channels_loop_frames (l : List Nat) (s : uvm_va_space_t)
    (dfl : List uvm_deferred_free_object_t) :
    same_topology s (uvm_va_space_detach_all_user_channels_loop l s dfl).1 ∧
    same_context_keys s (uvm_va_space_detach_all_user_channels_loop l s dfl).1 ∧
    affinity_frame s (uvm_va_space_detach_all_user_channels_loop l s dfl).1 ∧
    (uvm_va_space_detach_all_user_channels_loop l s dfl).1.enabled_peers_teardown =
      s.enabled_peers_teardown := by
  induction l generalizing s dfl with
  | nil =>
    exact ⟨same_topology_refl s, same_context_keys_refl s, affinity_frame_refl s, rfl⟩
  | cons gpu rest ih =>
    unfold uvm_va_space_detach_all_user_channels_loop
    cases hget : uvm_gpu_va_space_get s gpu with
    | none => exact ih s dfl
    | some p =>
      simp only
      have hstore : ∀ obj : uvm_gpu_va_space_t,
          obj = { s.gpu_va_space_mem p with registered_channels := [] } →
          same_topology s (gpu_va_space_store s p obj) ∧
          same_context_keys s (gpu_va_space_store s p obj) ∧
          affinity_frame s (gpu_va_space_store s p obj) := by
        intro obj hobj
        subst hobj
        exact ⟨same_topology_store s p _,
          same_context_keys_store s p _ rfl rfl rfl rfl rfl (fun h => Or.inl h),
          affinity_frame_store s p _⟩
      obtain ⟨k1, k2, k3⟩ := hstore _ rfl
      obtain ⟨i1, i2, i3, i4⟩ := ih
        (gpu_va_space_store s p { s.gpu_va_space_mem p with registered_channels := [] })
        (dfl ++ (s.gpu_va_space_mem p).registered_channels.map
          uvm_deferred_free_object_t.channel)
      exact ⟨same_topology_trans k1 i1, same_context_keys_trans k2 i2,
        affinity_frame_trans k3 i3, i4⟩

/-- What the loop of `uvm_va_space_destroy` over the devices keeps and reaches: the
invariants hold afterwards, a device still registered was registered before and is none of
the ids the loop came to, and the teardown bits are as before. -/
theorem uvm_va_space_destroy_unregister_loop_inv {g : uvm_global_t} (l : List Nat)
    (hl : ∀ p ∈ l, 0 < p) (s : uvm_va_space_t) (dfl : List uvm_deferred_free_object_t)
    (h1 : TopoInv g s) (h2 : CtxInv s) (h3 : AffinityInv g s) :
    TopoInv g (uvm_va_space_destroy_unregister_loop g l s dfl).1 ∧
    CtxInv (uvm_va_space_destroy_unregister_loop g l s dfl).1 ∧
    AffinityInv g (uvm_va_space_destroy_unregister_loop g l s dfl).1 ∧
    (∀ i, (uvm_va_space_destroy_unregister_loop g l s dfl).1.registered_gpus i = true →
      s.registered_gpus i = true ∧ i ∉ l) ∧
    (uvm_va_space_destroy_unregister_loop g l s dfl).1.enabled_peers_teardown =
      s.enabled_peers_teardown := by
  induction l generalizing s dfl with
  | nil => exact ⟨h1, h2, h3, fun i hi => ⟨hi, List.not_mem_nil i⟩, rfl⟩
  | cons gpu rest ih =>
    have hrest : ∀ p ∈ rest, 0 < p := fun p hp => hl p (List.mem_cons_of_mem gpu hp)
    unfold uvm_va_space_destroy_unregister_loop
    by_cases hreg : uvm_processor_mask_test s.registered_gpus gpu = true
    · rw [if_pos hreg]
      simp only
      obtain ⟨t1, t2, _⟩ := unregister_gpu_inv (hl gpu (List.mem_cons_self gpu rest)) dfl h1
      obtain ⟨c1, _⟩ := @CtxInv_unregister_gpu g s gpu dfl h2 (fun i hi => (h1.reg_range i hi).1)
      obtain ⟨a1, _⟩ := @AffinityInv_unregister_gpu g s gpu dfl h3
      obtain ⟨i1, i2, i3, i4, i5⟩ := ih hrest (unregister_gpu g s gpu dfl).1
        (unregister_gpu g s gpu dfl).2.1 t1 c1 a1
      refine ⟨i1, i2, i3, ?_, i5.trans (unregister_gpu_teardown g s gpu dfl)⟩
      intro i hi
      obtain ⟨j1, j2⟩ := i4 i hi
      rw [t2] at j1
      unfold uvm_processor_mask_clear at j1
      by_cases hig : i = gpu
      · rw [if_pos hig] at j1
        cases j1
      · rw [if_neg hig] at j1
        refine ⟨j1, ?_⟩
        intro hmem
        rcases List.mem_cons.mp hmem with h | h
        · exact hig h
        · exact j2 h
    · rw [if_neg hreg]
      obtain ⟨i1, i2, i3, i4, i5⟩ := ih hrest s dfl h1 h2 h3
      refine ⟨i1, i2, i3, ?_, i5⟩
      intro i hi
      obtain ⟨j1, j2⟩ := i4 i hi
      refine ⟨j1, ?_⟩
      intro hmem
      rcases List.mem_cons.mp hmem with h | h
      · rw [h] at j1
        exact hreg j1
      · exact j2 h

/-- After the part of `uvm_va_space_destroy` under the lock the invariants hold, no device
is registered, the teardown bits below the bound are the enabled pairs of the start, and
`retained_gpus` are the registered devices of the start. -/
theorem uvm_va_space_destroy_locked_inv {g : uvm_global_t} {s : uvm_va_space_t}
    (h1 : TopoInv g s) (h2 : CtxInv s) (h3 : AffinityInv g s) :
    TopoInv g (uvm_va_space_destroy_locked g s).1 ∧
    CtxInv (uvm_va_space_destroy_locked g s).1 ∧
    AffinityInv g (uvm_va_space_destroy_locked g s).1 ∧
    (∀ i, (uvm_va_space_destroy_locked g s).1.registered_gpus i = false) ∧
    (∀ n, n < UVM_MAX_UNIQUE_GPU_PAIRS →
      (uvm_va_space_destroy_locked g s).1.enabled_peers_teardown n = s.enabled_peers n) ∧
    (uvm_va_space_destroy_locked g s).2.2 = s.registered_gpus := by
  have hfields : ∀ t : uvm_va_space_t,
      t.registered_gpus = s.registered_gpus →
      t.gpu_unregister_in_progress = s.gpu_unregister_in_progress →
      t.can_access = s.can_access → t.accessible_from = s.accessible_from →
      t.can_copy_from = s.can_copy_from → t.has_nvlink = s.has_nvlink →
      t.indirect_peers = s.indirect_peers → t.has_native_atomics = s.has_native_atomics →
      t.system_wide_atomics_enabled_processors = s.system_wide_atomics_enabled_processors →
      t.faultable_processors = s.faultable_processors → t.enabled_peers = s.enabled_peers →
      t.registered_gpu_va_spaces = s.registered_gpu_va_spaces →
      t.gpu_va_spaces = s.gpu_va_spaces → t.gpu_va_space_next = s.gpu_va_space_next →
      t.gpu_va_space_mem = s.gpu_va_space_mem →
      t.cpu_gpu_numa_affinity = s.cpu_gpu_numa_affinity →
      TopoInv g t ∧ CtxInv t ∧ AffinityInv g t := by
    intro t f1 f2 f3 f4 f5 f6 f7 f8 f9 f10 f11 f12 f13 f14 f15 f16
    exact ⟨TopoInv_of_same_topology ⟨f1, f2, f3, f4, f5, f6, f7, f8, f9, f10, f11⟩ h1,
      CtxInv_of_same_context_keys ⟨f12, f13, f14, f1, fun q => by
        rw [f15]
        exact ⟨rfl, rfl, rfl, rfl, rfl, fun h => Or.inl h⟩⟩ h2,
      AffinityInv_of_frame ⟨f16, f1⟩ h3⟩
  have hcopy : ∀ (s1 : uvm_va_space_t), s1 = { uvm_va_space_stop_all_user_channels s with
      enabled_peers_teardown :=
        bitmap_copy (uvm_va_space_stop_all_user_channels s).enabled_peers_teardown
          (uvm_va_space_stop_all_user_channels s).enabled_peers UVM_MAX_UNIQUE_GPU_PAIRS } →
      (TopoInv g s1 ∧ CtxInv s1 ∧ AffinityInv g s1) ∧
      s1.registered_gpus = s.registered_gpus ∧
      ∀ n, n < UVM_MAX_UNIQUE_GPU_PAIRS → s1.enabled_peers_teardown n = s.enabled_peers n := by
    intro s1 hs1
    subst hs1
    unfold uvm_va_space_stop_all_user_channels
    split_ifs
    · refine ⟨hfields _ rfl rfl rfl rfl rfl rfl rfl rfl rfl rfl rfl rfl rfl rfl rfl rfl, rfl, ?_⟩
      intro n hn
      show bitmap_copy _ _ _ n = _
      unfold bitmap_copy
      rw [if_pos hn]
    · refine ⟨hfields _ rfl rfl rfl rfl rfl rfl rfl rfl rfl rfl rfl rfl rfl rfl rfl rfl, rfl, ?_⟩
      intro n hn
      show bitmap_copy _ _ _ n = _
      unfold bitmap_copy
      rw [if_pos hn]
  unfold uvm_va_space_destroy_locked uvm_va_space_detach_all_user_channels
  simp only
  obtain ⟨⟨r1, r2, r3⟩, r4, r5⟩ := hcopy _ rfl
  generalize ({ uvm_va_space_stop_all_user_channels s with
      enabled_peers_teardown :=
        bitmap_copy (uvm_va_space_stop_all_user_channels s).enabled_peers_teardown
          (uvm_va_space_stop_all_user_channels s).enabled_peers UVM_MAX_UNIQUE_GPU_PAIRS } :
      uvm_va_space_t) = s1 at r1 r2 r3 r4 r5 ⊢
  obtain ⟨d1, d2, d3, d4⟩ := uvm_va_space_detach_all_user_channels_loop_frames
    (for_each_gpu_id_in_mask (uvm_va_space_stop_all_user_channels s).registered_gpu_va_spaces)
    s1 []
  generalize uvm_va_space_detach_all_user_channels_loop
    (for_each_gpu_id_in_mask (uvm_va_space_stop_all_user_channels s).registered_gpu_va_spaces)
    s1 [] = r at d1 d2 d3 d4 ⊢
  have hranges : ∀ t : uvm_va_space_t, t = { r.1 with va_ranges := [] } →
      (TopoInv g t ∧ CtxInv t ∧ AffinityInv g t) ∧
      t.enabled_peers_teardown = r.1.enabled_peers_teardown := by
    intro t ht
    subst ht
    exact ⟨⟨TopoInv_of_same_topology
        (same_topology_trans d1 ⟨rfl, rfl, rfl, rfl, rfl, rfl, rfl, rfl, rfl, rfl, rfl⟩) r1,
      CtxInv_of_same_context_keys (same_context_keys_trans d2
        ⟨rfl, rfl, rfl, rfl, fun q => ⟨rfl, rfl, rfl, rfl, rfl, fun h => Or.inl h⟩⟩) r2,
      AffinityInv_of_frame (affinity_frame_trans d3 ⟨rfl, rfl⟩) r3⟩, rfl⟩
  obtain ⟨⟨e1, e2, e3⟩, e4⟩ := hranges _ rfl
  generalize ({ r.1 with va_ranges := [] } : uvm_va_space_t) = s2 at e1 e2 e3 e4 ⊢
  obtain ⟨u1, u2, u3, u4, u5⟩ := uvm_va_space_destroy_unregister_loop_inv uvm_gpu_ids
    (fun p hp => ((mem_uvm_gpu_ids p).mp hp).1) s2
    (r.2 ++ (r.1.va_ranges.flatMap fun va_range => va_range.destroy).map
      uvm_deferred_free_object_t.external_allocation) e1 e2 e3
  generalize uvm_va_space_destroy_unregister_loop g uvm_gpu_ids s2
    (r.2 ++ (r.1.va_ranges.flatMap fun va_range => va_range.destroy).map
      uvm_deferred_free_object_t.external_allocation) = r3 at u1 u2 u3 u4 u5 ⊢
  refine ⟨u1, u2, u3, ?_, ?_, ?_⟩
  · intro i
    cases hi : r3.1.registered_gpus i with
    | false => rfl
    | true =>
      obtain ⟨j1, j2⟩ := u4 i hi
      exact absurd ((mem_uvm_gpu_ids i).mpr (e1.reg_range i j1)) j2
  · intro n hn
    rw [u5, e4, d4, r5 n hn]
  · unfold uvm_va_space_stop_all_user_channels
    split_ifs <;> rfl

/-! ### The release of the devices and of the pairs -/

/-- The inner loop of the release sets no bit and clears the bit of every pair of the device
with a peer it visits. -/
theorem uvm_va_space_destroy_release_peers_spec (gpu_id : Nat) (l : List Nat) (td : bitmap_t) :
    (∀ n, uvm_va_space_destroy_release_peers gpu_id l td n = true → td n = true) ∧
    ∀ p ∈ l, uvm_va_space_destroy_release_peers gpu_id l td
      (uvm_gpu_peer_table_index gpu_id p) = false := by
  induction l generalizing td with
  | nil => exact ⟨fun n h => h, fun p hp => absurd hp (List.not_mem_nil p)⟩
  | cons peer rest ih =>
    have hclear : ∀ n, __clear_bit (uvm_gpu_peer_table_index gpu_id peer) td n = true →
        td n = true := by
      intro n hn
      unfold __clear_bit at hn
      by_cases h : n = uvm_gpu_peer_table_index gpu_id peer
      · rw [if_pos h] at hn
        cases hn
      · rw [if_neg h] at hn
        exact hn
    unfold uvm_va_space_destroy_release_peers
    simp only
    by_cases hbit : test_bit (uvm_gpu_peer_table_index gpu_id peer) td = true
    · rw [if_pos hbit]
      obtain ⟨i1, i2⟩ := ih (__clear_bit (uvm_gpu_peer_table_index gpu_id peer) td)
      refine ⟨fun n hn => hclear n (i1 n hn), ?_⟩
      intro p hp
      rcases List.mem_cons.mp hp with h | h
      · rw [h]
        cases hr : uvm_va_space_destroy_release_peers gpu_id rest
          (__clear_bit (uvm_gpu_peer_table_index gpu_id peer) td)
          (uvm_gpu_peer_table_index gpu_id peer) with
        | false => rfl
        | true =>
          have := i1 _ hr
          unfold __clear_bit at this
          rw [if_pos rfl] at this
          cases this
      · exact i2 p h
    · rw [if_neg hbit]
      obtain ⟨i1, i2⟩ := ih td
      refine ⟨i1, ?_⟩
      intro p hp
      rcases List.mem_cons.mp hp with h | h
      · rw [h]
        cases hr : uvm_va_space_destroy_release_peers gpu_id rest td
          (uvm_gpu_peer_table_index gpu_id peer) with
        | false => rfl
        | true => exact absurd (i1 _ hr) hbit
      · exact i2 p h

/-- The outer loop of the release changes the teardown bits only: it sets none, and it
clears the bit of every pair of two retained devices of which one is among the ids the loop
comes to. -/
theorem uvm_va_space_destroy_release_loop_spec (l : List Nat) (retained : uvm_processor_mask_t)
    (s : uvm_va_space_t) :
    (uvm_va_space_destroy_release_loop l retained s).1.registered_gpus = s.registered_gpus ∧
    (uvm_va_space_destroy_release_loop l retained s).1.registered_gpu_va_spaces =
      s.registered_gpu_va_spaces ∧
    (uvm_va_space_destroy_release_loop l retained s).1.enabled_peers = s.enabled_peers ∧
    (∀ n, (uvm_va_space_destroy_release_loop l retained s).1.enabled_peers_teardown n = true →
      s.enabled_peers_teardown n = true) ∧
    (∀ a b, a ∈ l → a ≠ b → retained a = true → retained b = true →
      0 < a → a < UVM_MAX_PROCESSORS → 0 < b → b < UVM_MAX_PROCESSORS →
      (uvm_va_space_destroy_release_loop l retained s).1.enabled_peers_teardown
        (uvm_gpu_peer_table_index a b) = false) ∧
    ∀ i, (uvm_va_space_destroy_release_loop l retained s).2 i = true →
      retained i = true ∧ i ∉ l := by
  induction l generalizing retained s with
  | nil =>
    exact ⟨rfl, rfl, rfl, fun n h => h, fun a b ha => absurd ha (List.not_mem_nil a),
      fun i hi => ⟨hi, List.not_mem_nil i⟩⟩
  | cons gpu_id rest ih =>
    unfold uvm_va_space_destroy_release_loop
    by_cases hret : uvm_processor_mask_test retained gpu_id = true
    · rw [if_pos hret]
      simp only
      obtain ⟨p1, p2⟩ := uvm_va_space_destroy_release_peers_spec gpu_id
        (for_each_gpu_id_in_mask (uvm_processor_mask_clear retained gpu_id))
        s.enabled_peers_teardown
      generalize uvm_va_space_destroy_release_peers gpu_id
        (for_each_gpu_id_in_mask (uvm_processor_mask_clear retained gpu_id))
        s.enabled_peers_teardown = td at p1 p2 ⊢
      obtain ⟨i1, i2, i3, i4, i5, i6⟩ := ih (uvm_processor_mask_clear retained gpu_id)
        { s with enabled_peers_teardown := td }
      have hother : ∀ x, x ≠ gpu_id → retained x = true → 0 < x → x < UVM_MAX_PROCESSORS →
          td (uvm_gpu_peer_table_index gpu_id x) = false := by
        intro x hx hrx hx0 hx1
        refine p2 x ((mem_for_each_gpu_id_in_mask _ x).mpr ⟨hx0, hx1, ?_⟩)
        unfold uvm_processor_mask_clear
        rw [if_neg hx]
        exact hrx
      have hkeep : ∀ n, td n = false →
          (uvm_va_space_destroy_release_loop rest (uvm_processor_mask_clear retained gpu_id)
            { s with enabled_peers_teardown := td }).1.enabled_peers_teardown n = false := by
        intro n hn
        cases hr : (uvm_va_space_destroy_release_loop rest
          (uvm_processor_mask_clear retained gpu_id)
          { s with enabled_peers_teardown := td }).1.enabled_peers_teardown n with
        | false => rfl
        | true =>
          have h := i4 n hr
          exact absurd (hn.symm.trans h) Bool.false_ne_true
      refine ⟨i1, i2, i3, fun n hn => p1 n (i4 n hn), ?_, ?_⟩
      · intro a b ha hab hra hrb ha0 ha1 hb0 hb1
        by_cases hag : a = gpu_id
        · rw [hag]
          exact hkeep _ (hother b (fun h => hab (hag.trans h.symm)) hrb hb0 hb1)
        · by_cases hbg : b = gpu_id
          · rw [hbg, uvm_gpu_peer_table_index_comm]
            exact hkeep _ (hother a hag hra ha0 ha1)
          · rcases List.mem_cons.mp ha with h | h
            · exact absurd h hag
            · refine i5 a b h hab ?_ ?_ ha0 ha1 hb0 hb1
              · unfold uvm_processor_mask_clear
                rw [if_neg hag]
                exact hra
              · unfold uvm_processor_mask_clear
                rw [if_neg hbg]
                exact hrb
      · intro i hi
        obtain ⟨j1, j2⟩ := i6 i hi
        unfold uvm_processor_mask_clear at j1
        by_cases hig : i = gpu_id
        · rw [if_pos hig] at j1
          cases j1
        · rw [if_neg hig] at j1
          refine ⟨j1, fun hmem => ?_⟩
          rcases List.mem_cons.mp hmem with h | h
          · exact hig h
          · exact j2 h
    · rw [if_neg hret]
      obtain ⟨i1, i2, i3, i4, i5, i6⟩ := ih retained s
      refine ⟨i1, i2, i3, i4, ?_, ?_⟩
      · intro a b ha hab hra hrb ha0 ha1 hb0 hb1
        rcases List.mem_cons.mp ha with h | h
        · rw [h] at hra
          exact absurd hra hret
        · exact i5 a b h hab hra hrb ha0 ha1 hb0 hb1
      · intro i hi
        obtain ⟨j1, j2⟩ := i6 i hi
        refine ⟨j1, fun hmem => ?_⟩
        rcases List.mem_cons.mp hmem with h | h
        · rw [h] at j1
          exact hret j1
        · exact j2 h

theorem uvm_deferred_free_object_list_left_nil (l : List uvm_deferred_free_object_t) :
    uvm_deferred_free_object_list_left l = [] := by
  induction l with
  | nil => rfl
  | cons o rest ih => exact ih

/-- What `uvm_va_space_destroy` leaves of an address space that satisfies the invariants:
no registered device, no registered context, no enabled pair, no teardown bit, no retained
device, no affinity bit, and an empty deferred free list. -/
theorem uvm_va_space_destroy_spec {g : uvm_global_t} {s : uvm_va_space_t}
    (h1 : TopoInv g s) (h2 : CtxInv s) (h3 : AffinityInv g s) :
    (∀ i, (uvm_va_space_destroy_locked g s).1.registered_gpus i = false) ∧
    (∀ i, (uvm_va_space_destroy_locked g s).1.registered_gpu_va_spaces i = false) ∧
    (∀ e ∈ (uvm_va_space_destroy_locked g s).1.cpu_gpu_numa_affinity, ∀ i, e.gpus i = false) ∧
    (∀ i, (uvm_va_space_destroy g s).1.registered_gpus i = false) ∧
    (∀ i, (uvm_va_space_destroy g s).1.registered_gpu_va_spaces i = false) ∧
    (∀ n, n < UVM_MAX_UNIQUE_GPU_PAIRS → (uvm_va_space_destroy g s).1.enabled_peers n = false) ∧
    (∀ n, n < UVM_MAX_UNIQUE_GPU_PAIRS →
      (uvm_va_space_destroy g s).1.enabled_peers_teardown n = false) ∧
    (uvm_va_space_destroy g s).2.1 = [] ∧
    (∀ i, (uvm_va_space_destroy g s).2.2 i = false) := by
  obtain ⟨t1, t2, t3, t4, t5, t6⟩ := uvm_va_space_destroy_locked_inv h1 h2 h3
  have hctx : ∀ i, (uvm_va_space_destroy_locked g s).1.registered_gpu_va_spaces i = false := by
    intro i
    cases hi : (uvm_va_space_destroy_locked g s).1.registered_gpu_va_spaces i with
    | false => rfl
    | true => exact absurd ((t4 i).symm.trans (t2.registered i hi)) Bool.false_ne_true
  have haff : ∀ e ∈ (uvm_va_space_destroy_locked g s).1.cpu_gpu_numa_affinity,
      ∀ i, e.gpus i = false := by
    intro e he i
    cases hi : e.gpus i with
    | false => rfl
    | true => exact absurd ((t4 i).symm.trans (t3.bits e he i hi).1) Bool.false_ne_true
  have hen : ∀ n, n < UVM_MAX_UNIQUE_GPU_PAIRS →
      (uvm_va_space_destroy_locked g s).1.enabled_peers n = false := by
    intro n hn
    obtain ⟨a, b, ha, hb, hab, _, _, hidx⟩ := uvm_gpu_peer_table_index_surj n hn
    cases hbit : (uvm_va_space_destroy_locked g s).1.enabled_peers n with
    | false => rfl
    | true =>
      rw [← hidx] at hbit
      exact absurd ((t4 a).symm.trans (t1.enabled_reg a b ha hb hab hbit).1) Bool.false_ne_true
  refine ⟨t4, hctx, haff, ?_⟩
  unfold uvm_va_space_destroy
  simp only
  generalize uvm_va_space_destroy_locked g s = r at t1 t2 t3 t4 t5 t6 hctx haff hen ⊢
  have f1 := same_topology_deferred_free r.2.1 r.1
  obtain ⟨f2, f3⟩ := uvm_deferred_free_object_list_teardown r.2.1 r.1
  generalize uvm_deferred_free_object_list r.1 r.2.1 = u at f1 f2 f3 ⊢
  obtain ⟨l1, l2, l3, l4, l5, l6⟩ := uvm_va_space_destroy_release_loop_spec uvm_gpu_ids r.2.2 u
  generalize uvm_va_space_destroy_release_loop uvm_gpu_ids r.2.2 u = w at l1 l2 l3 l4 l5 l6 ⊢
  refine ⟨?_, ?_, ?_, ?_, uvm_deferred_free_object_list_left_nil _, ?_⟩
  · intro i
    rw [l1, f1.1]
    exact t4 i
  · intro i
    rw [l2, f3]
    exact hctx i
  · intro n hn
    rw [l3, f1.2.2.2.2.2.2.2.2.2.2]
    exact hen n hn
  · intro n hn
    obtain ⟨a, b, ha, hb, hab, ha1, hb1, hidx⟩ := uvm_gpu_peer_table_index_surj n hn
    cases hstart : s.enabled_peers n with
    | false =>
      cases hbit : w.1.enabled_peers_teardown n with
      | false => rfl
      | true =>
        have h := l4 n hbit
        rw [f2, t5 n hn, hstart] at h
        cases h
    | true =>
      rw [← hidx] at hstart ⊢
      obtain ⟨ra, rb⟩ := h1.enabled_reg a b ha hb hab hstart
      refine l5 a b ((mem_uvm_gpu_ids a).mpr ⟨ha, ha1⟩) hab ?_ ?_ ha ha1 hb hb1
      · rw [t6]
        exact ra
      · rw [t6]
        exact rb
  · intro i
    cases hi : w.2 i with
    | false => rfl
    | true =>
      obtain ⟨j1, j2⟩ := l6 i hi
      rw [t6] at j1
      exact absurd ((mem_uvm_gpu_ids i).mpr (h1.reg_range i j1)) j2

/-- The emptiness assertions of `uvm_va_space_destroy` hold on an address space that
satisfies the invariants. -/
theorem uvm_va_space_destroy_asserts_of_inv {g : uvm_global_t} {s : uvm_va_space_t}
    (h1 : TopoInv g s) (h2 : CtxInv s) (h3 : AffinityInv g s) :
    uvm_va_space_destroy_asserts g s = true := by
  obtain ⟨a1, a2, a3, _, _, a6, a7, _⟩ := uvm_va_space_destroy_spec h1 h2 h3
  unfold uvm_va_space_destroy_asserts
  simp only [Bool.and_eq_true, List.all_eq_true]
  exact ⟨⟨⟨⟨uvm_processor_mask_empty_of_zero a1, uvm_processor_mask_empty_of_zero a2⟩,
    fun e he => uvm_processor_mask_empty_of_zero (a3 e he)⟩,
    (bitmap_empty_iff _ _).mpr a6⟩, (bitmap_empty_iff _ _).mpr a7⟩

/-! ## The claim on the teardown -/

/-- C33: for every reachable address space, after `uvm_va_space_destroy` no device and no
device VA context is registered, every bit of `enabled_peers` and every bit of
`enabled_peers_teardown` (below `UVM_MAX_UNIQUE_GPU_PAIRS`) is clear, and the deferred free
list is empty; the emptiness assertions of the function hold. -/
theorem c33_teardown_complete (g : uvm_global_t) (s : uvm_va_space_t) (h : Reachable g s) :
    (∀ i, (uvm_va_space_destroy g s).1.registered_gpus i = false) ∧
    (∀ i, (uvm_va_space_destroy g s).1.registered_gpu_va_spaces i = false) ∧
    (∀ n, n < UVM_MAX_UNIQUE_GPU_PAIRS → (uvm_va_space_destroy g s).1.enabled_peers n = false) ∧
    (∀ n, n < UVM_MAX_UNIQUE_GPU_PAIRS →
      (uvm_va_space_destroy g s).1.enabled_peers_teardown n = false) ∧
    (uvm_va_space_destroy g s).2.1 = [] ∧
    uvm_va_space_destroy_asserts g s = true := by
  have h1 := (Reachable_Inv h).1
  have h2 := Reachable_CtxInv h
  have h3 := Reachable_AffinityInv h
  obtain ⟨_, _, _, a4, a5, a6, a7, a8, _⟩ := uvm_va_space_destroy_spec h1 h2 h3
  exact ⟨a4, a5, a6, a7, a8, uvm_va_space_destroy_asserts_of_inv h1 h2 h3⟩

theorem c33_teardown_complete_witness :
    sample_two_contexts.registered_gpus 1 = true ∧
    sample_two_contexts.registered_gpu_va_spaces 2 = true ∧
    sample_two_contexts.enabled_peers (uvm_gpu_peer_table_index 1 2) = true ∧
    (uvm_va_space_destroy_locked sample_global sample_two_contexts).2.1 =
      [uvm_deferred_free_object_t.gpu_va_space 0, uvm_deferred_free_object_t.gpu_va_space 1] ∧
    ((∀ i, (uvm_va_space_destroy sample_global sample_two_contexts).1.registered_gpus i =
        false) ∧
      (∀ i, (uvm_va_space_destroy sample_global
        sample_two_contexts).1.registered_gpu_va_spaces i = false) ∧
      (∀ n, n < UVM_MAX_UNIQUE_GPU_PAIRS →
        (uvm_va_space_destroy sample_global sample_two_contexts).1.enabled_peers n = false) ∧
      (∀ n, n < UVM_MAX_UNIQUE_GPU_PAIRS →
        (uvm_va_space_destroy sample_global
          sample_two_contexts).1.enabled_peers_teardown n = false) ∧
      (uvm_va_space_destroy sample_global sample_two_contexts).2.1 = [] ∧
      uvm_va_space_destroy_asserts sample_global sample_two_contexts = true) :=
  ⟨by decide, by decide, by decide, by decide,
    c33_teardown_complete sample_global sample_two_contexts sample_two_contexts_reachable⟩

end UvmVaSpace
